import Mathlib

/-! # Road generator: a shallow embedding of the geometry core

This development embeds the intersection checker (`core.cpp`, `IntersectionChecker`),
the planar map model (`udmf.cpp`) and the figure builder (`core.cpp`, `RoadFigure`,
`GetGeneratedRoad`) and proves properties of them.

Conventions of the embedding.

* A C++ `double` is a rational number (`ℚ`) and arithmetic on it is exact: rounding,
  infinities and NaN are outside the model.  Every finite `double` is a rational, so
  every finite input of the program is an input of the model.
* `cos`, `sin` and `sqrt` come from the C library; they are taken as a parameter
  (`Libm`).
* A C++ `int` is an `Int`; the readers of the program only produce magnitudes below
  `10^8`, far from the 32-bit limits.
* A member function that can throw is a state transformer returning the thrown error
  (if any) together with the state reached at that moment, so that what a failing
  call leaves behind can be stated.
-/

namespace RoadGen

/-! ## Errors and the state-and-exception monad -/

/-- The exceptions of the program, one constructor for each `throw` site family. -/
inductive Err where
  /-- "some figures have an intersection" -/
  | intersection
  /-- "bad quad with vertices ..." -/
  | badQuad
  /-- "internal error - bad intersection checker state" -/
  | internalCheckerState
  /-- "too many elements in UDMF map" -/
  | tooManyElements
  /-- `std::out_of_range` thrown by `at` on a map or a vector -/
  | outOfRange
  /-- "already started generating this figure" -/
  | alreadyStarted
  /-- "already finished generating this figure, cannot restart" -/
  | alreadyFinishedRestart
  /-- "bad figure start position" -/
  | badStartPosition
  /-- "bad figure floor position" -/
  | badFloorPosition
  /-- "bad figure height, must be non-negative" -/
  | negativeHeight
  /-- "ceiling position is greater than 32767" -/
  | ceilingTooHigh
  /-- "bad figure height, must be less than or equal to 32767" -/
  | heightTooBig
  /-- "fence is higher than the ceiling" -/
  | fenceHigherThanCeiling
  /-- "did not start generating this figure, cannot finish" -/
  | finishNotStarted
  /-- "already finished generating this figure, cannot finish again" -/
  | finishAgain
  /-- "slope in the end of a figure is not allowed" -/
  | slopeAtEnd
  /-- "did not start drawing or already finished drawing before drawing a line" -/
  | lineNotDrawing
  /-- "line length must be between 1 and 32767" -/
  | badLineLength
  /-- "did not start drawing or already finished drawing before drawing an arc" -/
  | arcNotDrawing
  /-- "too small arc radius value" -/
  | arcRadiusTooSmall
  /-- "too big arc radius value" -/
  | arcRadiusTooBig
  /-- "bad arc divider value" -/
  | badArcDivider
  /-- "bad arc angle value" -/
  | badArcAngle
  /-- "too big divider is specified" -/
  | arcDividerTooBig
  /-- "arc radius is too small and/or arc divider is too big" -/
  | arcStepTooSmall
  /-- "did not start drawing or already finished drawing before adding a slope" -/
  | slopeNotDrawing
  /-- "slope in the beginning of a figure is not allowed" -/
  | slopeAtBeginning
  /-- "absolute value of slope tangent is too big" -/
  | slopeTooBig
  /-- "too small mark to draw" -/
  | markTooSmall
  /-- "slope goes up after the ceiling" -/
  | slopeAboveCeiling
  /-- "unknown road figure object type" -/
  | unknownObjectType
  /-- the bounded model of a loop ran out of iterations (not a program error) -/
  | outOfFuel
  deriving DecidableEq, Repr

/-- A computation on a mutable state `σ` that may throw: it returns the value or the
error, and the state reached when it returned or threw. -/
def M (σ α : Type) : Type := σ → Except Err α × σ

namespace M

/-- Return a value, leaving the state alone. -/
def ret {σ α : Type} (a : α) : M σ α := fun s => (Except.ok a, s)

/-- Sequence two computations; an error of the first ends the run at once. -/
def seq {σ α β : Type} (m : M σ α) (f : α → M σ β) : M σ β := fun s =>
  match m s with
  | (Except.ok a, s1) => f a s1
  | (Except.error e, s1) => (Except.error e, s1)

/-- Throw an exception, leaving the state as it is at this point. -/
def fail {σ α : Type} (e : Err) : M σ α := fun s => (Except.error e, s)

/-- Read the whole state. -/
def read {σ : Type} : M σ σ := fun s => (Except.ok s, s)

/-- Replace the state by a function of it. -/
def update {σ : Type} (f : σ → σ) : M σ Unit := fun s => (Except.ok (), f s)

/-- Lift a pure fallible computation. -/
def ofExcept {σ α : Type} (r : Except Err α) : M σ α := fun s => (r, s)

end M

instance instMonadM (σ : Type) : Monad (M σ) where
  pure := M.ret
  bind := M.seq

/-! ## Geometry primitives (`umath.h`, `umath.cpp`) -/

namespace Math

/-- The source constant `DBL_EPS = 0.00001`. -/
def DBL_EPS : ℚ := 1 / 100000

/-- The source constant `PI = 3.1415926535`. -/
def PI : ℚ := 31415926535 / 10000000000

/-- Source: `val > -DBL_EPS && val < DBL_EPS`. -/
def IsZeroOrCloseTo (val : ℚ) : Bool := decide (val > -DBL_EPS) && decide (val < DBL_EPS)

/-- Source: `struct Point2D`. -/
structure Point2D where
  x : ℚ := 0
  y : ℚ := 0
  deriving DecidableEq, Repr

/-- Source: `struct LineEquation2D`. -/
structure LineEquation2D where
  a : ℚ := 0
  b : ℚ := 0
  c : ℚ := 0
  deriving DecidableEq, Repr

/-- Source: `enum EnPointLinePos2D`. -/
inductive EnPointLinePos2D where
  | enPointLinePos2D_BelongsTo
  | enPointLinePos2D_HalfPlanePos
  | enPointLinePos2D_HalfPlaneNeg
  deriving DecidableEq, Repr

/-- Source: the `Get2DDistanceSquared` overload on coordinates. -/
def Get2DDistanceSquaredXY (x1 y1 x2 y2 : ℚ) : ℚ :=
  (x1 - x2) * (x1 - x2) + (y1 - y2) * (y1 - y2)

/-- Source: the `Get2DDistanceSquared` overload on points. -/
def Get2DDistanceSquared (p1 p2 : Point2D) : ℚ :=
  (p1.x - p2.x) * (p1.x - p2.x) + (p1.y - p2.y) * (p1.y - p2.y)

/-- Source: `GetPointLinePos2D`. -/
def GetPointLinePos2D (p : Point2D) (l_eq : LineEquation2D) : EnPointLinePos2D :=
  let val := l_eq.a * p.x + l_eq.b * p.y + l_eq.c
  if IsZeroOrCloseTo val then EnPointLinePos2D.enPointLinePos2D_BelongsTo
  else if val > 0 then EnPointLinePos2D.enPointLinePos2D_HalfPlanePos
  else EnPointLinePos2D.enPointLinePos2D_HalfPlaneNeg

end Math

/-- A C array of four elements. -/
structure Arr4 (α : Type) where
  e0 : α
  e1 : α
  e2 : α
  e3 : α
  deriving DecidableEq, Repr

/-- Element `i` of a four-element array (every use has `i < 4`). -/
def Arr4.get {α : Type} (a : Arr4 α) (i : Nat) : α :=
  match i with
  | 0 => a.e0
  | 1 => a.e1
  | 2 => a.e2
  | _ => a.e3

/-! ## The intersection checker (`core.h`, `core.cpp`) -/

open Math in
/-- Source: `IntersectionChecker::LineSegmentInfo`. -/
structure LineSegmentInfo where
  line_equation : LineEquation2D := {}
  length_squared : ℚ := 0
  other_points_pos : EnPointLinePos2D := EnPointLinePos2D.enPointLinePos2D_BelongsTo
  deriving DecidableEq, Repr

open Math in
/-- Source: `IntersectionChecker::QuadInfo`. -/
structure QuadInfo where
  vertices : Arr4 Point2D := ⟨{}, {}, {}, {}⟩
  segments : Arr4 LineSegmentInfo := ⟨{}, {}, {}, {}⟩
  deriving DecidableEq, Repr

/-- Source: `QuadInfo::IsNull`. -/
def QuadInfo.IsNull (q : QuadInfo) : Bool :=
  decide (q.vertices.e0.x = 0) && decide (q.vertices.e0.y = 0)
  && decide (q.vertices.e1.x = 0) && decide (q.vertices.e1.y = 0)
  && decide (q.vertices.e2.x = 0) && decide (q.vertices.e2.y = 0)
  && decide (q.vertices.e3.x = 0) && decide (q.vertices.e3.y = 0)

open Math in
/-- The divisor chosen in `GetQuadInfo` for raw coefficients `a`, `b`
(source: `coeffs_divider`). -/
def coeffsDivider (a b : ℚ) : ℚ :=
  let sign_a : ℚ := if a < 0 then -1 else 1
  let sign_b : ℚ := if b < 0 then -1 else 1
  if IsZeroOrCloseTo a then
    (if IsZeroOrCloseTo b then 1 else b)
  else
    (if IsZeroOrCloseTo b then a
     else (if sign_a * a > sign_b * b then a else b))

open Math in
/-- The line equation built in `GetQuadInfo` for the edge `p1 p2`. -/
def edgeEquation (p1 p2 : Point2D) : LineEquation2D :=
  let a := p2.y - p1.y
  let b := p1.x - p2.x
  let d := coeffsDivider a b
  { a := a / d, b := b / d, c := p2.x / d * p1.y - p1.x / d * p2.y }

open Math in
/-- One iteration of the loop of `GetQuadInfo`: the data of edge `i`, or the
"bad quad" exception. -/
def GetQuadInfo.segment (v : Arr4 Point2D) (i : Nat) : Except Err LineSegmentInfo :=
  let p1 := v.get i
  let p2 := v.get ((i + 1) % 4)
  let cur_l_eq := edgeEquation p1 p2
  let next_point_pos := GetPointLinePos2D (v.get ((i + 2) % 4)) cur_l_eq
  if next_point_pos = EnPointLinePos2D.enPointLinePos2D_BelongsTo then
    Except.error Err.badQuad
  else
    let post_next_point_pos := GetPointLinePos2D (v.get ((i + 3) % 4)) cur_l_eq
    if post_next_point_pos = EnPointLinePos2D.enPointLinePos2D_BelongsTo then
      Except.error Err.badQuad
    else if next_point_pos ≠ post_next_point_pos then
      Except.error Err.badQuad
    else
      Except.ok
        { line_equation := cur_l_eq
          length_squared := Get2DDistanceSquaredXY p1.x p1.y p2.x p2.y
          other_points_pos := next_point_pos }

open Math in
/-- Source: `IntersectionChecker::GetQuadInfo` (the loop over `i = 0..3` unrolled). -/
def GetQuadInfo (p1 p2 p3 p4 : Point2D) : Except Err QuadInfo :=
  let v : Arr4 Point2D := ⟨p1, p2, p3, p4⟩
  match GetQuadInfo.segment v 0 with
  | Except.error e => Except.error e
  | Except.ok s0 =>
    match GetQuadInfo.segment v 1 with
    | Except.error e => Except.error e
    | Except.ok s1 =>
      match GetQuadInfo.segment v 2 with
      | Except.error e => Except.error e
      | Except.ok s2 =>
        match GetQuadInfo.segment v 3 with
        | Except.error e => Except.error e
        | Except.ok s3 => Except.ok { vertices := v, segments := ⟨s0, s1, s2, s3⟩ }

open Math in
/-- The body of the inner loop of `QuadsHaveCommonPoints` for the edge pair
`(ix1, ix2)`: `true` when the body executes `return true`, `false` when it
`continue`s. -/
def edgePairHit (quad_info1 quad_info2 : QuadInfo) (ix1 ix2 : Nat) : Bool :=
  let seg1 := quad_info1.segments.get ix1
  let l_eq1 := seg1.line_equation
  let seg2 := quad_info2.segments.get ix2
  let l_eq2 := seg2.line_equation
  let divider := l_eq1.a * l_eq2.b - l_eq2.a * l_eq1.b
  if IsZeroOrCloseTo divider then
    let point_pos := GetPointLinePos2D (quad_info1.vertices.get ix1) l_eq2
    if point_pos = EnPointLinePos2D.enPointLinePos2D_BelongsTo then
      let sqr_length_11_21 :=
        Get2DDistanceSquared (quad_info1.vertices.get ix1) (quad_info2.vertices.get ix2)
      let sqr_length_11_22 :=
        Get2DDistanceSquared (quad_info1.vertices.get ix1) (quad_info2.vertices.get ((ix2 + 1) % 4))
      let sqr_length_12_21 :=
        Get2DDistanceSquared (quad_info1.vertices.get ((ix1 + 1) % 4)) (quad_info2.vertices.get ix2)
      let sqr_length_12_22 :=
        Get2DDistanceSquared (quad_info1.vertices.get ((ix1 + 1) % 4))
          (quad_info2.vertices.get ((ix2 + 1) % 4))
      if IsZeroOrCloseTo sqr_length_11_21 || IsZeroOrCloseTo sqr_length_11_22
          || IsZeroOrCloseTo sqr_length_12_21 || IsZeroOrCloseTo sqr_length_12_22 then
        true
      else if seg1.length_squared > seg2.length_squared then
        if sqr_length_11_21 ≤ seg1.length_squared ∧ sqr_length_12_21 ≤ seg1.length_squared then
          true
        else if sqr_length_11_22 ≤ seg1.length_squared
            ∧ sqr_length_12_22 ≤ seg1.length_squared then
          true
        else false
      else
        if sqr_length_11_21 ≤ seg2.length_squared ∧ sqr_length_11_22 ≤ seg2.length_squared then
          true
        else if sqr_length_12_21 ≤ seg2.length_squared
            ∧ sqr_length_12_22 ≤ seg2.length_squared then
          true
        else false
    else false
  else
    let isec_x := -(l_eq1.c * l_eq2.b - l_eq2.c * l_eq1.b) / divider
    let isec_y := (l_eq2.a * l_eq1.c - l_eq1.a * l_eq2.c) / divider
    let p11 := quad_info1.vertices.get ix1
    let p12 := quad_info1.vertices.get ((ix1 + 1) % 4)
    if Get2DDistanceSquaredXY p11.x p11.y isec_x isec_y > seg1.length_squared then false
    else if Get2DDistanceSquaredXY p12.x p12.y isec_x isec_y > seg1.length_squared then false
    else
      let p21 := quad_info2.vertices.get ix2
      let p22 := quad_info2.vertices.get ((ix2 + 1) % 4)
      if Get2DDistanceSquaredXY p21.x p21.y isec_x isec_y > seg2.length_squared then false
      else if Get2DDistanceSquaredXY p22.x p22.y isec_x isec_y > seg2.length_squared then false
      else true

open Math in
/-- The first containment sample of `QuadsHaveCommonPoints`: vertex 0 of quad 1 is on
the interior side of edge `ix` of quad 2. -/
def firstInsideAt (quad_info1 quad_info2 : QuadInfo) (ix : Nat) : Bool :=
  decide (GetPointLinePos2D (quad_info1.vertices.get 0) (quad_info2.segments.get ix).line_equation
    = (quad_info2.segments.get ix).other_points_pos)

open Math in
/-- The second containment sample of `QuadsHaveCommonPoints`: vertex 0 of quad 2 is on
the interior side of edge `ix1` of quad 1. -/
def secondInsideAt (quad_info1 quad_info2 : QuadInfo) (ix1 : Nat) : Bool :=
  decide (GetPointLinePos2D (quad_info2.vertices.get 0) (quad_info1.segments.get ix1).line_equation
    = (quad_info1.segments.get ix1).other_points_pos)

/-- The outer loop of `QuadsHaveCommonPoints` over the remaining values of `ix1`,
carrying the two flags `first_inside_second` and `second_inside_first`. -/
def QuadsHaveCommonPoints.loop (quad_info1 quad_info2 : QuadInfo) :
    List Nat → Bool → Bool → Bool
  | [], first_inside_second, second_inside_first =>
      first_inside_second || second_inside_first
  | ix1 :: rest, first_inside_second, second_inside_first =>
      let fis :=
        if first_inside_second then
          (if firstInsideAt quad_info1 quad_info2 ix1 then first_inside_second else false)
        else first_inside_second
      let sif :=
        if second_inside_first then
          (if secondInsideAt quad_info1 quad_info2 ix1 then second_inside_first else false)
        else second_inside_first
      if [0, 1, 2, 3].any (fun ix2 => edgePairHit quad_info1 quad_info2 ix1 ix2) then true
      else QuadsHaveCommonPoints.loop quad_info1 quad_info2 rest fis sif

/-- Source: `IntersectionChecker::QuadsHaveCommonPoints`. -/
def QuadsHaveCommonPoints (quad_info1 quad_info2 : QuadInfo) : Bool :=
  QuadsHaveCommonPoints.loop quad_info1 quad_info2 [0, 1, 2, 3] true true

/-- Source: `t_quad_with_subquads`, a pair of an (encircling) quad and a nullable
array of sub-quads. -/
structure QuadWithSubquads where
  first : QuadInfo := {}
  second : Option (List QuadInfo) := none
  deriving DecidableEq, Repr

/-- Source: the data members of `class IntersectionChecker`. -/
structure IntersectionChecker where
  m_quads : List QuadWithSubquads := []
  m_new_figure : Bool := true
  deriving DecidableEq, Repr

/-- The address held by `neighbor_quad_ptr`: the quad `first` of slot `i`, or
sub-quad `j` of slot `i`. -/
inductive QuadRef where
  | first (i : Nat)
  | sub (i j : Nat)
  deriving DecidableEq, Repr

namespace IntersectionChecker

/-- Source: `IntersectionChecker::HavePendingEncirclingQuad`. -/
def HavePendingEncirclingQuad (ck : IntersectionChecker) : Bool :=
  match ck.m_quads.getLast? with
  | none => false
  | some back =>
    if !back.first.IsNull || back.second.isNone then false else true

/-- The first part of `QuadDoesNotIntersectOthers`: which stored quad is the
neighbour of the quad to check (`none` is the null pointer). -/
def neighborQuad (ck : IntersectionChecker) : Except Err (Option QuadRef) :=
  if !ck.m_new_figure && ck.m_quads.length ≠ 0 then
    match ck.m_quads.getLast? with
    | none => Except.ok none
    | some back =>
      match back.second with
      | none => Except.ok (some (QuadRef.first (ck.m_quads.length - 1)))
      | some subs =>
        if !subs.isEmpty then
          Except.ok (some (QuadRef.sub (ck.m_quads.length - 1) (subs.length - 1)))
        else if ck.m_quads.length > 1 then
          match ck.m_quads.get? (ck.m_quads.length - 2) with
          | none => Except.ok none
          | some pre_last_quad =>
            match pre_last_quad.second with
            | none => Except.ok (some (QuadRef.first (ck.m_quads.length - 2)))
            | some pre_subs =>
              if pre_subs.length ≠ 0 then
                Except.ok (some (QuadRef.sub (ck.m_quads.length - 2) (pre_subs.length - 1)))
              else Except.error Err.internalCheckerState
        else Except.ok none
  else Except.ok none

/-- The loop over the inner quads of slot `oqix`, from index `iqix` on: `true` when
it finds an intersection (the source returns `false` from the member function
there). -/
def innerQuadsHit (neighbor : Option QuadRef) (quad_to_check_info : QuadInfo) (oqix : Nat) :
    List QuadInfo → Nat → Bool
  | [], _ => false
  | inner_quad_info :: rest, iqix =>
    if neighbor = some (QuadRef.sub oqix iqix) then
      innerQuadsHit neighbor quad_to_check_info oqix rest (iqix + 1)
    else if QuadsHaveCommonPoints inner_quad_info quad_to_check_info then true
    else innerQuadsHit neighbor quad_to_check_info oqix rest (iqix + 1)

/-- The body of the loop of `QuadDoesNotIntersectOthers` for slot `oqix`: `none` when
the iteration ends normally (by `continue` or by reaching the end of the body),
`some r` when it returns `r` or throws; `size` is `m_quads.size()`. -/
def slotStep (neighbor : Option QuadRef) (quad_to_check_info : QuadInfo) (size : Nat)
    (outer_quad_info : QuadWithSubquads) (oqix : Nat) : Option (Except Err Bool) :=
  if neighbor = some (QuadRef.first oqix) then none
  else
    match outer_quad_info.second with
    | none =>
      if QuadsHaveCommonPoints outer_quad_info.first quad_to_check_info then
        some (Except.ok false)
      else none
    | some subs =>
      if subs.length = 0 then none
      else if outer_quad_info.first.IsNull then
        if oqix ≠ size - 1 then some (Except.error Err.internalCheckerState)
        else if innerQuadsHit neighbor quad_to_check_info oqix subs 0 then some (Except.ok false)
        else none
      else if QuadsHaveCommonPoints outer_quad_info.first quad_to_check_info then
        if innerQuadsHit neighbor quad_to_check_info oqix subs 0 then some (Except.ok false)
        else none
      else none

/-- The loop of `QuadDoesNotIntersectOthers` over the slots, from index `oqix` on;
falling off the end of the loop is the final `return true`. -/
def slotsLoop (neighbor : Option QuadRef) (quad_to_check_info : QuadInfo) (size : Nat) :
    List QuadWithSubquads → Nat → Except Err Bool
  | [], _ => Except.ok true
  | outer_quad_info :: rest, oqix =>
    match slotStep neighbor quad_to_check_info size outer_quad_info oqix with
    | some r => r
    | none => slotsLoop neighbor quad_to_check_info size rest (oqix + 1)

/-- Source: `IntersectionChecker::QuadDoesNotIntersectOthers`. -/
def QuadDoesNotIntersectOthers (ck : IntersectionChecker) (quad_to_check_info : QuadInfo) :
    Except Err Bool :=
  match neighborQuad ck with
  | Except.error e => Except.error e
  | Except.ok neighbor => slotsLoop neighbor quad_to_check_info ck.m_quads.length ck.m_quads 0

/-- The mutation at the end of `AddQuad`: store the accepted quad. -/
def storeQuad (ck : IntersectionChecker) (quad_info : QuadInfo) : IntersectionChecker :=
  if ck.HavePendingEncirclingQuad then
    match ck.m_quads.getLast? with
    | some back =>
      { m_quads := ck.m_quads.dropLast ++
          [{ back with second := some ((back.second.getD []) ++ [quad_info]) }]
        m_new_figure := false }
    | none => { ck with m_new_figure := false }
  else
    { m_quads := ck.m_quads ++ [{ first := quad_info, second := none }]
      m_new_figure := false }

/-- Source: `IntersectionChecker::AddQuad`. -/
def AddQuad (p1 p2 p3 p4 : Math.Point2D) : M IntersectionChecker Unit := do
  let quad_info ← M.ofExcept (GetQuadInfo p1 p2 p3 p4)
  let ck ← M.read
  let ok ← M.ofExcept (ck.QuadDoesNotIntersectOthers quad_info)
  if !ok then M.fail Err.intersection
  else M.update (fun ck => ck.storeQuad quad_info)

/-- The coordinates of the four vertices of the quads of a list, in the order in which
the loops of `EndEncirclingQuad` visit them. -/
def allVertices (encircled_quads : List QuadInfo) : List Math.Point2D :=
  encircled_quads.flatMap (fun quad =>
    [quad.vertices.get 0, quad.vertices.get 1, quad.vertices.get 2, quad.vertices.get 3])

/-- Source: `IntersectionChecker::EndEncirclingQuad`. -/
def EndEncirclingQuad : M IntersectionChecker Unit := do
  let ck ← M.read
  if !ck.HavePendingEncirclingQuad then pure ()
  else
    match ck.m_quads.getLast? with
    | none => pure ()
    | some back =>
      match back.second.getD [] with
      | [] => M.update (fun ck => { ck with m_quads := ck.m_quads.dropLast })
      | q0 :: qs =>
        let encircled_quads := q0 :: qs
        let p0 := q0.vertices.get 0
        let xmin := (allVertices encircled_quads).foldl (fun m p => if p.x < m then p.x else m) p0.x
        let xmax := (allVertices encircled_quads).foldl (fun m p => if p.x > m then p.x else m) p0.x
        let ymin := (allVertices encircled_quads).foldl (fun m p => if p.y < m then p.y else m) p0.y
        let ymax := (allVertices encircled_quads).foldl (fun m p => if p.y > m then p.y else m) p0.y
        if Math.IsZeroOrCloseTo (xmax - xmin) || Math.IsZeroOrCloseTo (ymax - ymin) then
          M.update (fun ck => { ck with m_quads := ck.m_quads.dropLast })
        else do
          let q ← M.ofExcept (GetQuadInfo ⟨xmin, ymin⟩ ⟨xmin, ymax⟩ ⟨xmax, ymax⟩ ⟨xmax, ymin⟩)
          M.update (fun ck =>
            { ck with m_quads := ck.m_quads.dropLast ++ [{ back with first := q }] })

/-- Source: `IntersectionChecker::StartEncirclingQuad`. -/
def StartEncirclingQuad : M IntersectionChecker Unit := do
  EndEncirclingQuad
  M.update (fun ck =>
    { ck with m_quads := ck.m_quads ++ [{ first := {}, second := some [] }] })

/-- Source: `IntersectionChecker::CutFigure`. -/
def CutFigure : M IntersectionChecker Unit :=
  M.update (fun ck => { ck with m_new_figure := true })

end IntersectionChecker

/-! ## The C library and rounding helpers -/

/-- The functions of the C library that the generator calls on `double`s. -/
structure Libm where
  cos : ℚ → ℚ
  sin : ℚ → ℚ
  sqrt : ℚ → ℚ

namespace Math

/-- Conversion `(int)x` of a `double`, and the integral part of `modf`: rounding
toward zero. -/
def truncToInt (x : ℚ) : Int := if x ≥ 0 then ⌊x⌋ else ⌈x⌉

/-- Source: `Floor` (C `floor`). -/
def Floor (x : ℚ) : ℚ := ((⌊x⌋ : Int) : ℚ)

/-- Source: `Ceil` (C `ceil`). -/
def Ceil (x : ℚ) : ℚ := ((⌈x⌉ : Int) : ℚ)

/-- Source: `Fmod` (C `fmod`): the remainder with the sign of `number`. -/
def Fmod (number divider : ℚ) : ℚ := number - (truncToInt (number / divider) : ℚ) * divider

/-- Source: `DegreesToRadians`. -/
def DegreesToRadians (degrees : ℚ) : ℚ := degrees * PI / 180

/-- Source: `RadiansToDegrees`. -/
def RadiansToDegrees (radians : ℚ) : ℚ := radians / PI * 180

/-- Source: `Rotate2DPoint`; the pair is `(outx, outy)`. -/
def Rotate2DPoint (lm : Libm) (inx iny rx ry rad_ang : ℚ) : ℚ × ℚ :=
  let dx := inx - rx
  let dy := iny - ry
  let cos_a := lm.cos rad_ang
  let sin_a := lm.sin rad_ang
  (rx + cos_a * dx - sin_a * dy, ry + sin_a * dx + cos_a * dy)

/-- Source: `Get2DDistance`. -/
def Get2DDistance (lm : Libm) (x1 y1 x2 y2 : ℚ) : ℚ :=
  lm.sqrt ((x1 - x2) * (x1 - x2) + (y1 - y2) * (y1 - y2))

/-- Source: `GetNormalizedAngle`. -/
def GetNormalizedAngle (rad_ang : ℚ) : ℚ :=
  if rad_ang < -PI ∨ rad_ang ≥ PI then
    let r1 := rad_ang / (2 * PI)
    let r2 := r1 - (truncToInt r1 : ℚ)
    let r3 := if r2 < -(1 / 2) then r2 + 1 else if r2 ≥ 1 / 2 then r2 - 1 else r2
    r3 * (2 * PI)
  else rad_ang

end Math

/-! ## The planar map model (`udmf.h`, `udmf.cpp`) -/

namespace Udmf

/-- Source: `ID_NULL`. -/
def ID_NULL : Nat := 0

/-- Source: `ID_INVALID = ~(unsigned int)0`. -/
def ID_INVALID : Nat := 4294967295

/-- Source: `ID_MAX = ~(unsigned int)0 - 1`. -/
def ID_MAX : Nat := 4294967294

/-- Source: `struct Vertex`. -/
structure Vertex where
  x : ℚ := 0
  y : ℚ := 0
  have_zfloor : Bool := false
  zfloor : ℚ := 0
  have_zceiling : Bool := false
  zceiling : ℚ := 0
  deriving DecidableEq, Repr

namespace Vertex

/-- Source: `Vertex::operator Math::Point2D`. -/
def toPoint2D (v : Vertex) : Math.Point2D := ⟨v.x, v.y⟩

/-- Source: `Vertex::GetMoved`. -/
def GetMoved (v : Vertex) (dx dy : ℚ) : Vertex := { v with x := v.x + dx, y := v.y + dy }

/-- Source: `Vertex::GetRotated`. -/
def GetRotated (lm : Libm) (v : Vertex) (cx cy rad_ang : ℚ) : Vertex :=
  let r := Math.Rotate2DPoint lm v.x v.y cx cy rad_ang
  { v with x := r.1, y := r.2 }

/-- Source: `Vertex::GetDistanceTo`. -/
def GetDistanceTo (lm : Libm) (v w : Vertex) : ℚ := Math.Get2DDistance lm v.x v.y w.x w.y

/-- Source: `Vertex::GetWithZFloor`. -/
def GetWithZFloor (v : Vertex) (zfloor_ : ℚ) : Vertex :=
  { v with have_zfloor := true, zfloor := zfloor_ }

end Vertex

/-- Source: `Sector::PlaneEquation`. -/
structure PlaneEquation where
  cx : ℚ := 0
  cy : ℚ := 0
  cz : ℚ := 0
  c : ℚ := 0
  deriving DecidableEq, Repr

/-- Source: `struct Sector`. -/
structure Sector where
  heightfloor : Int := 0
  heightceiling : Int := 0
  texturefloor : Nat := ID_NULL
  textureceiling : Nat := ID_NULL
  lightlevel : Nat := 0
  tag : Nat := ID_NULL
  special : Nat := ID_NULL
  floor_plane_equation : PlaneEquation := {}
  ceiling_plane_equation : PlaneEquation := {}
  deriving DecidableEq, Repr

/-- Source: the constructor `Sector(heightfloor_, heightceiling_, texturefloor_,
textureceiling_, lightlevel_)`. -/
def Sector.mk5 (heightfloor_ heightceiling_ : Int) (texturefloor_ textureceiling_ : Nat)
    (lightlevel_ : Nat) : Sector :=
  { heightfloor := heightfloor_, heightceiling := heightceiling_,
    texturefloor := texturefloor_, textureceiling := textureceiling_,
    lightlevel := lightlevel_, tag := 0, special := 0 }

/-- Source: `struct Sidedef`; the default constructor has `sector = ID_INVALID`. -/
structure Sidedef where
  sector : Nat := ID_INVALID
  texturetop : Nat := ID_NULL
  texturebottom : Nat := ID_NULL
  texturemiddle : Nat := ID_NULL
  offsetx : Int := 0
  offsety : Int := 0
  deriving DecidableEq, Repr

namespace Sidedef

/-- Source: the constructor `Sidedef(unsigned int sector_)`. -/
def ofSector (sector_ : Nat) : Sidedef := { sector := sector_ }

/-- Source: `Sidedef::GetWithSector`. -/
def GetWithSector (sd : Sidedef) (sector_ : Nat) : Sidedef := { sd with sector := sector_ }

/-- Source: `Sidedef::GetWithBottomTexture`. -/
def GetWithBottomTexture (sd : Sidedef) (texturebottom_ : Nat) : Sidedef :=
  { sd with texturebottom := texturebottom_ }

end Sidedef

/-- Source: `Linedef::ActionSpecial`. -/
structure ActionSpecial where
  special : Nat := ID_NULL
  arg0 : Int := 0
  arg1 : Int := 0
  arg2 : Int := 0
  arg3 : Int := 0
  arg4 : Int := 0
  repeatspecial : Bool := false
  playeruse : Bool := false
  playercross : Bool := false
  monstercross : Bool := false
  monsteruse : Bool := false
  impact : Bool := false
  playerpush : Bool := false
  monsterpush : Bool := false
  missilecross : Bool := false
  deriving DecidableEq, Repr

/-- Source: `struct Linedef`. -/
structure Linedef where
  v1 : Nat := ID_INVALID
  v2 : Nat := ID_INVALID
  sidefront : Nat := ID_INVALID
  sideback : Nat := ID_INVALID
  tag : Nat := ID_NULL
  twosided : Bool := false
  blocking : Bool := false
  blockmonsters : Bool := false
  dontpegtop : Bool := false
  dontpegbottom : Bool := false
  secret : Bool := false
  dontdraw : Bool := false
  mapped : Bool := false
  action_special : ActionSpecial := {}
  deriving DecidableEq, Repr

/-- Source: the constructor `Linedef(v1_, v2_, sidefront_, sideback_)`. -/
def Linedef.mk4 (v1_ v2_ sidefront_ sideback_ : Nat) : Linedef :=
  { v1 := v1_, v2 := v2_, sidefront := sidefront_, sideback := sideback_,
    twosided := decide (sideback_ ≠ ID_INVALID), blocking := decide (sideback_ = ID_INVALID) }

/-- Source: the constructor `Linedef(v1_, v2_, sidefront_)`, whose back side defaults
to `ID_INVALID`. -/
def Linedef.mk3 (v1_ v2_ sidefront_ : Nat) : Linedef := Linedef.mk4 v1_ v2_ sidefront_ ID_INVALID

/-- Source: `Map::PlayerStartInfo`. -/
structure PlayerStartInfo where
  x : ℚ := 0
  y : ℚ := 0
  deg_angle : Int := 0
  deriving DecidableEq, Repr

/-- Source: `struct Map`; a texture name is a `String`. -/
structure Map where
  vertices : List Vertex := []
  linedefs : List Linedef := []
  sidedefs : List Sidedef := []
  sectors : List Sector := []
  textures : List String := []
  have_player_start : Bool := false
  player_start_info : PlayerStartInfo := {}
  deriving DecidableEq, Repr

/-- Source: `AddMapEntryT`: the new id and the grown array, or the capacity error. -/
def AddMapEntryT {α : Type} (entries : List α) (new_entry : α) : Except Err (Nat × List α) :=
  if entries.length > ID_MAX then Except.error Err.tooManyElements
  else Except.ok (entries.length, entries ++ [new_entry])

/-- Source: `operator<< (Map&, const Vertex&)`. -/
def addVertex (v : Vertex) : M Map Nat := fun map =>
  match AddMapEntryT map.vertices v with
  | Except.error e => (Except.error e, map)
  | Except.ok (id, entries) => (Except.ok id, { map with vertices := entries })

/-- Source: `operator<< (Map&, const Linedef&)`. -/
def addLinedef (l : Linedef) : M Map Nat := fun map =>
  match AddMapEntryT map.linedefs l with
  | Except.error e => (Except.error e, map)
  | Except.ok (id, entries) => (Except.ok id, { map with linedefs := entries })

/-- Source: `operator<< (Map&, const Sidedef&)`. -/
def addSidedef (sd : Sidedef) : M Map Nat := fun map =>
  match AddMapEntryT map.sidedefs sd with
  | Except.error e => (Except.error e, map)
  | Except.ok (id, entries) => (Except.ok id, { map with sidedefs := entries })

/-- Source: `operator<< (Map&, const Sector&)`. -/
def addSector (s : Sector) : M Map Nat := fun map =>
  match AddMapEntryT map.sectors s with
  | Except.error e => (Except.error e, map)
  | Except.ok (id, entries) => (Except.ok id, { map with sectors := entries })

/-- Source: `operator<< (Map&, const Map::PlayerStartInfo&)`. -/
def setPlayerStart (player_start_info : PlayerStartInfo) : M Map Unit :=
  M.update (fun map =>
    { map with have_player_start := true, player_start_info := player_start_info })

end Udmf

/-! ## Configuration and commands (`core.h`) -/

/-- Source: `RoadConfig::Sizes`. -/
structure Sizes where
  background_dist : ℚ := 0
  fence_height : Int := 0
  road_width : ℚ := 0
  road_side_width : ℚ := 0
  road_side_height : Int := 0
  road_mark_width : ℚ := 0
  road_mark_length : ℚ := 0
  road_mark_gap : ℚ := 0

/-- Source: `struct RoadConfig`; `textures` is the array of `EnTexture_Size = 9`
texture names. -/
structure RoadConfig where
  sizes : Sizes := {}
  textures : Fin 9 → String := fun i => if i.val = 0 then "-" else ""
  light_level : Nat := 0

namespace RoadConfig

/-- Source: `RoadConfig::enTexture_Null`. -/
def enTexture_Null : Nat := 0
/-- Source: `RoadConfig::enTexture_Sky`. -/
def enTexture_Sky : Nat := 1
/-- Source: `RoadConfig::enTexture_Background`. -/
def enTexture_Background : Nat := 2
/-- Source: `RoadConfig::enTexture_Fence`. -/
def enTexture_Fence : Nat := 3
/-- Source: `RoadConfig::enTexture_FenceFloor`. -/
def enTexture_FenceFloor : Nat := 4
/-- Source: `RoadConfig::enTexture_RoadSide`. -/
def enTexture_RoadSide : Nat := 5
/-- Source: `RoadConfig::enTexture_RoadSideWall`. -/
def enTexture_RoadSideWall : Nat := 6
/-- Source: `RoadConfig::enTexture_RoadBody`. -/
def enTexture_RoadBody : Nat := 7
/-- Source: `RoadConfig::enTexture_RoadMark`. -/
def enTexture_RoadMark : Nat := 8
/-- Source: `RoadConfig::EnTexture_Size`. -/
def EnTexture_Size : Nat := 9

end RoadConfig

/-- The configuration that `GetRoadConfig` produces from an empty config file (all the
defaults of `core.cpp`). -/
def defaultRoadConfig : RoadConfig :=
  { sizes :=
      { background_dist := 128, fence_height := 128, road_width := 384, road_side_width := 128,
        road_side_height := 8, road_mark_width := 16, road_mark_length := 256,
        road_mark_gap := 512 }
    textures := fun i =>
      match i.val with
      | 0 => "-"
      | 1 => "F_SKY1"
      | 2 => "FWATER1"
      | 3 => "BIGBRIK1"
      | 4 => "FLOOR7_1"
      | 5 => "SLIME14"
      | 6 => "STEP4"
      | 7 => "CEIL5_1"
      | _ => "FLAT19"
    light_level := 192 }

/-- Source: `IRoadFigureObject::StartModifierData`. -/
structure StartModifierData where
  x_null : ℚ := 0
  y_null : ℚ := 0
  angle : ℚ := 0
  zpos : Int := 0
  height : Int := 0
  mark_shift : ℚ := 0

/-- Source: `IRoadFigureObject::LineData`. -/
structure LineData where
  length : ℚ := 0

/-- Source: `IRoadFigureObject::ArcData`. -/
structure ArcData where
  curve : ℚ := 0
  angle : ℚ := 0
  divider : Int := 0

/-- Source: `IRoadFigureObject::SlopeModifierData`. -/
structure SlopeModifierData where
  tangent : ℚ := 0

/-- Source: `IRoadFigureObject` with its four implementations `RoadFigureObjectT<...>`,
as a tagged union. -/
inductive RoadFigureObject where
  | StartModifier (data : StartModifierData)
  | Line (data : LineData)
  | Arc (data : ArcData)
  | SlopeModifier (data : SlopeModifierData)

/-! ## The figure builder (`core.h`, `core.cpp`) -/

/-- The fourteen `Vertex` data members of `RoadFigure` whose addresses are keys of
`m_last_ids`. -/
inductive VSlot where
  | m_v_background_west_left
  | m_v_background_west_right
  | m_v_background_east_left
  | m_v_background_east_right
  | m_v_fence_west_left
  | m_v_fence_west_right
  | m_v_fence_east_left
  | m_v_fence_east_right
  | m_v_west_left
  | m_v_west_right
  | m_v_east_left
  | m_v_east_right
  | m_v_mark_west
  | m_v_mark_east
  deriving DecidableEq, Repr

/-- The nine `Sector` data members of `RoadFigure` whose addresses are keys of
`m_last_ids`. -/
inductive SSlot where
  | m_s_body
  | m_s_east_side
  | m_s_west_side
  | m_s_mark
  | m_s_background_body_west
  | m_s_background_body_east
  | m_s_background_sky
  | m_s_fence_west
  | m_s_fence_east
  deriving DecidableEq, Repr

open Udmf in
/-- Source: the data members of `class RoadFigure`.  The map and the intersection
checker, which the class holds by reference and by (nullable) pointer, are fields;
`m_v`, `m_s` hold the member vertices and sectors, and `m_last_ids` is split into its
vertex keys and its sector keys. -/
structure RoadFigure where
  m_config : RoadConfig
  m_map : Map
  m_intersection_checker : Option IntersectionChecker
  m_total_width : ℚ
  m_floorpos : Int
  m_ceilingpos : Int
  m_angle : ℚ
  m_mark_coord : ℚ
  m_v_null : Vertex
  m_slope_modifier : SlopeModifierData := {}
  m_started_drawing : Bool := false
  m_finished_drawing : Bool := false
  m_have_shapes : Bool := false
  m_have_shape_with_current_slope : Bool := false
  m_sectors_closed : Bool := true
  m_mark_sector_closed : Bool := true
  m_v : VSlot → Vertex := fun _ => {}
  m_s : SSlot → Sector := fun _ => {}
  m_sd_roadside : Sidedef := {}
  m_sd_markside : Sidedef := {}
  m_sd_fenceside : Sidedef := {}
  m_v_null_prev : Vertex := {}
  m_last_ids_v : VSlot → Option Nat := fun _ => none
  m_last_ids_s : SSlot → Option Nat := fun _ => none
  m_v_mark_ids_prev : List (ℚ × (Nat × Nat)) := []

namespace RoadFigure

open Udmf

/-- Source: `BACKGROUND_THICKNESS`. -/
def BACKGROUND_THICKNESS : ℚ := 16
/-- Source: `FENCE_BACKGROUND_GAP`. -/
def FENCE_BACKGROUND_GAP : ℚ := 32
/-- Source: `FENCE_THICKNESS`. -/
def FENCE_THICKNESS : ℚ := 16
/-- Source: `MARK_HEIGHT`. -/
def MARK_HEIGHT : Int := 1
/-- Source: `SMALLEST_ARC_LINE`. -/
def SMALLEST_ARC_LINE : ℚ := 4
/-- Source: `SMALLEST_MARK_LINE`. -/
def SMALLEST_MARK_LINE : ℚ := 4

/-- Run a computation on the map inside the figure (`m_map << ...`). -/
def onMap {α : Type} (m : M Map α) : M RoadFigure α := fun fig =>
  match m fig.m_map with
  | (r, map) => (r, { fig with m_map := map })

/-- Run a computation on the intersection checker when the pointer is not null
(`if(m_intersection_checker) m_intersection_checker->...`). -/
def onChecker (m : M IntersectionChecker Unit) : M RoadFigure Unit := fun fig =>
  match fig.m_intersection_checker with
  | none => (Except.ok (), fig)
  | some ck =>
    match m ck with
    | (r, ck1) => (r, { fig with m_intersection_checker := some ck1 })

/-- Source: `m_last_ids.at(&v)` for a vertex member `v`. -/
def lastV (slot : VSlot) : M RoadFigure Nat := fun fig =>
  match fig.m_last_ids_v slot with
  | some id => (Except.ok id, fig)
  | none => (Except.error Err.outOfRange, fig)

/-- Source: `m_last_ids.at(&s)` for a sector member `s`. -/
def lastS (slot : SSlot) : M RoadFigure Nat := fun fig =>
  match fig.m_last_ids_s slot with
  | some id => (Except.ok id, fig)
  | none => (Except.error Err.outOfRange, fig)

/-- Source: `m_last_ids[&v] = id` for a vertex member `v`. -/
def setLastV (slot : VSlot) (id : Nat) : M RoadFigure Unit :=
  M.update (fun fig => { fig with m_last_ids_v := Function.update fig.m_last_ids_v slot (some id) })

/-- Source: `m_last_ids[&s] = id` for a sector member `s`. -/
def setLastS (slot : SSlot) (id : Nat) : M RoadFigure Unit :=
  M.update (fun fig => { fig with m_last_ids_s := Function.update fig.m_last_ids_s slot (some id) })

/-- Source: an assignment `v = value` to a vertex member `v`. -/
def setV (slot : VSlot) (value : Vertex) : M RoadFigure Unit :=
  M.update (fun fig => { fig with m_v := Function.update fig.m_v slot value })

/-- Source: `m_last_ids[&v] = m_map << v` for a vertex member `v`. -/
def pushV (slot : VSlot) : M RoadFigure Unit := do
  let fig ← M.read
  let id ← onMap (addVertex (fig.m_v slot))
  setLastV slot id

/-- Source: `m_last_ids[&s] = m_map << s` for a sector member `s`. -/
def pushS (slot : SSlot) : M RoadFigure Unit := do
  let fig ← M.read
  let id ← onMap (addSector (fig.m_s slot))
  setLastS slot id

/-- Source: `RoadFigure::InitMapElements`. -/
def InitMapElements (fig : RoadFigure) : RoadFigure :=
  let side := Sector.mk5 (fig.m_floorpos + fig.m_config.sizes.road_side_height) fig.m_ceilingpos
    RoadConfig.enTexture_RoadSide RoadConfig.enTexture_Sky fig.m_config.light_level
  let background_body := Sector.mk5 fig.m_floorpos fig.m_ceilingpos
    RoadConfig.enTexture_Background RoadConfig.enTexture_Sky fig.m_config.light_level
  let fence := Sector.mk5 (fig.m_floorpos + fig.m_config.sizes.fence_height) fig.m_ceilingpos
    RoadConfig.enTexture_FenceFloor RoadConfig.enTexture_Sky fig.m_config.light_level
  { fig with
    m_sd_roadside := ({} : Sidedef).GetWithBottomTexture RoadConfig.enTexture_RoadSideWall
    m_sd_markside := ({} : Sidedef).GetWithBottomTexture RoadConfig.enTexture_RoadMark
    m_sd_fenceside := ({} : Sidedef).GetWithBottomTexture RoadConfig.enTexture_Fence
    m_s := fun slot =>
      match slot with
      | SSlot.m_s_body => Sector.mk5 fig.m_floorpos fig.m_ceilingpos
          RoadConfig.enTexture_RoadBody RoadConfig.enTexture_Sky fig.m_config.light_level
      | SSlot.m_s_east_side => side
      | SSlot.m_s_west_side => side
      | SSlot.m_s_mark => Sector.mk5 (fig.m_floorpos + MARK_HEIGHT) fig.m_ceilingpos
          RoadConfig.enTexture_RoadMark RoadConfig.enTexture_Sky fig.m_config.light_level
      | SSlot.m_s_background_body_east => background_body
      | SSlot.m_s_background_body_west => background_body
      | SSlot.m_s_background_sky => Sector.mk5 fig.m_floorpos fig.m_floorpos
          RoadConfig.enTexture_Background RoadConfig.enTexture_Sky fig.m_config.light_level
      | SSlot.m_s_fence_east => fence
      | SSlot.m_s_fence_west => fence }

/-- Source: the constructor `RoadFigure::RoadFigure`. -/
def new (config : RoadConfig) (start_data : StartModifierData) (map : Map)
    (intersection_checker : Option IntersectionChecker) : RoadFigure :=
  let period := config.sizes.road_mark_length + config.sizes.road_mark_gap
  let mark_coord := Math.Fmod start_data.mark_shift period
  InitMapElements
    { m_config := config
      m_map := map
      m_intersection_checker := intersection_checker
      m_total_width :=
        2 * (BACKGROUND_THICKNESS + config.sizes.background_dist + config.sizes.road_side_width)
          + config.sizes.road_width
      m_floorpos := start_data.zpos
      m_ceilingpos := start_data.zpos + start_data.height
      m_angle := Math.GetNormalizedAngle start_data.angle
      m_mark_coord := if mark_coord < 0 then mark_coord + period else mark_coord
      m_v_null := { x := start_data.x_null, y := start_data.y_null } }

/-- Source: `m_map << v` for a vertex. -/
def addV (v : Vertex) : M RoadFigure Nat := onMap (addVertex v)
/-- Source: `m_map << sd` for a sidedef. -/
def addSd (sd : Sidedef) : M RoadFigure Nat := onMap (addSidedef sd)
/-- Source: `m_map << l` for a linedef. -/
def addL (l : Linedef) : M RoadFigure Nat := onMap (addLinedef l)
/-- Source: `m_map << s` for a sector. -/
def addS (s : Sector) : M RoadFigure Nat := onMap (addSector s)

/-- Source: `RoadFigure::SetNullVertex`. -/
def SetNullVertex (v_new_null : Vertex) : M RoadFigure Unit :=
  M.update (fun fig => { fig with m_v_null_prev := fig.m_v_null, m_v_null := v_new_null })

/-- Source: `RoadFigure::ExtendBackground`. -/
def ExtendBackground (v_new_west_left v_new_west_right v_new_east_left v_new_east_right : Vertex) :
    M RoadFigure Unit := do
  let fig ← M.read
  onChecker (IntersectionChecker.AddQuad
    (fig.m_v VSlot.m_v_background_west_left).toPoint2D v_new_west_left.toPoint2D
    v_new_east_right.toPoint2D (fig.m_v VSlot.m_v_background_east_right).toPoint2D)
  let id_v_prev_background_west_left ← lastV VSlot.m_v_background_west_left
  let id_v_prev_background_west_right ← lastV VSlot.m_v_background_west_right
  let id_v_prev_background_east_left ← lastV VSlot.m_v_background_east_left
  let id_v_prev_background_east_right ← lastV VSlot.m_v_background_east_right
  setV VSlot.m_v_background_west_left v_new_west_left
  setV VSlot.m_v_background_west_right v_new_west_right
  setV VSlot.m_v_background_east_left v_new_east_left
  setV VSlot.m_v_background_east_right v_new_east_right
  pushV VSlot.m_v_background_west_left
  pushV VSlot.m_v_background_west_right
  pushV VSlot.m_v_background_east_left
  pushV VSlot.m_v_background_east_right
  let id_s_background_sky ← lastS SSlot.m_s_background_sky
  let id_sd_background_sky_west ← addSd (Sidedef.ofSector id_s_background_sky)
  let _ ← addL (Linedef.mk3 (← lastV VSlot.m_v_background_west_left)
    id_v_prev_background_west_left id_sd_background_sky_west)
  let id_sd_background_sky_east ← addSd (Sidedef.ofSector id_s_background_sky)
  let _ ← addL (Linedef.mk3 id_v_prev_background_east_right
    (← lastV VSlot.m_v_background_east_right) id_sd_background_sky_east)
  let id_sd_background_body_outer_west ← addSd (Sidedef.ofSector id_s_background_sky)
  let id_sd_background_body_inner_west ←
    addSd (Sidedef.ofSector (← lastS SSlot.m_s_background_body_west))
  let _ ← addL (Linedef.mk4 (← lastV VSlot.m_v_background_west_right)
    id_v_prev_background_west_right
    id_sd_background_body_inner_west id_sd_background_body_outer_west)
  let id_sd_background_body_outer_east ← addSd (Sidedef.ofSector id_s_background_sky)
  let id_sd_background_body_inner_east ←
    addSd (Sidedef.ofSector (← lastS SSlot.m_s_background_body_east))
  let _ ← addL (Linedef.mk4 id_v_prev_background_east_left
    (← lastV VSlot.m_v_background_east_left)
    id_sd_background_body_inner_east id_sd_background_body_outer_east)

/-- Source: `RoadFigure::ExtendFence`. -/
def ExtendFence (v_new_west_left v_new_west_right v_new_east_left v_new_east_right : Vertex) :
    M RoadFigure Unit := do
  let id_v_prev_west_left ← lastV VSlot.m_v_fence_west_left
  let id_v_prev_west_right ← lastV VSlot.m_v_fence_west_right
  let id_v_prev_east_left ← lastV VSlot.m_v_fence_east_left
  let id_v_prev_east_right ← lastV VSlot.m_v_fence_east_right
  setV VSlot.m_v_fence_west_left v_new_west_left
  setV VSlot.m_v_fence_west_right v_new_west_right
  setV VSlot.m_v_fence_east_left v_new_east_left
  setV VSlot.m_v_fence_east_right v_new_east_right
  pushV VSlot.m_v_fence_west_left
  pushV VSlot.m_v_fence_west_right
  pushV VSlot.m_v_fence_east_left
  pushV VSlot.m_v_fence_east_right
  let fig ← M.read
  let id_s_background_body_west ← lastS SSlot.m_s_background_body_west
  let id_s_west ← lastS SSlot.m_s_fence_west
  let id_sd_fence_outer_west_left ←
    addSd (fig.m_sd_fenceside.GetWithSector id_s_background_body_west)
  let id_sd_fence_inner_west_left ← addSd (Sidedef.ofSector id_s_west)
  let _ ← addL (Linedef.mk4 (← lastV VSlot.m_v_fence_west_left) id_v_prev_west_left
    id_sd_fence_inner_west_left id_sd_fence_outer_west_left)
  let id_sd_fence_outer_west_right ←
    addSd (fig.m_sd_fenceside.GetWithSector id_s_background_body_west)
  let id_sd_fence_inner_west_right ← addSd (Sidedef.ofSector id_s_west)
  let _ ← addL (Linedef.mk4 id_v_prev_west_right (← lastV VSlot.m_v_fence_west_right)
    id_sd_fence_inner_west_right id_sd_fence_outer_west_right)
  let id_s_background_body_east ← lastS SSlot.m_s_background_body_east
  let id_s_east ← lastS SSlot.m_s_fence_east
  let id_sd_fence_outer_east_left ←
    addSd (fig.m_sd_fenceside.GetWithSector id_s_background_body_east)
  let id_sd_fence_inner_east_left ← addSd (Sidedef.ofSector id_s_east)
  let _ ← addL (Linedef.mk4 (← lastV VSlot.m_v_fence_east_left) id_v_prev_east_left
    id_sd_fence_inner_east_left id_sd_fence_outer_east_left)
  let id_sd_fence_outer_east_right ←
    addSd (fig.m_sd_fenceside.GetWithSector id_s_background_body_east)
  let id_sd_fence_inner_east_right ← addSd (Sidedef.ofSector id_s_east)
  let _ ← addL (Linedef.mk4 id_v_prev_east_right (← lastV VSlot.m_v_fence_east_right)
    id_sd_fence_inner_east_right id_sd_fence_outer_east_right)

/-- Source: `RoadFigure::ExtendBody`. -/
def ExtendBody (v_new_west_left v_new_west_right v_new_east_left v_new_east_right : Vertex) :
    M RoadFigure Unit := do
  let id_v_prev_west_left ← lastV VSlot.m_v_west_left
  let id_v_prev_west_right ← lastV VSlot.m_v_west_right
  let id_v_prev_east_left ← lastV VSlot.m_v_east_left
  let id_v_prev_east_right ← lastV VSlot.m_v_east_right
  setV VSlot.m_v_west_left v_new_west_left
  setV VSlot.m_v_west_right v_new_west_right
  setV VSlot.m_v_east_left v_new_east_left
  setV VSlot.m_v_east_right v_new_east_right
  pushV VSlot.m_v_west_left
  pushV VSlot.m_v_west_right
  pushV VSlot.m_v_east_left
  pushV VSlot.m_v_east_right
  let fig ← M.read
  let id_sd_west_outer ←
    addSd (fig.m_sd_roadside.GetWithSector (← lastS SSlot.m_s_background_body_west))
  let id_sd_west_left ← addSd (Sidedef.ofSector (← lastS SSlot.m_s_west_side))
  let _ ← addL (Linedef.mk4 (← lastV VSlot.m_v_west_left) id_v_prev_west_left
    id_sd_west_left id_sd_west_outer)
  let id_sd_west_right ← addSd (Sidedef.ofSector (← lastS SSlot.m_s_west_side))
  let id_sd_body_left ← addSd (fig.m_sd_roadside.GetWithSector (← lastS SSlot.m_s_body))
  let _ ← addL (Linedef.mk4 (← lastV VSlot.m_v_west_right) id_v_prev_west_right
    id_sd_body_left id_sd_west_right)
  let id_sd_east_left ← addSd (Sidedef.ofSector (← lastS SSlot.m_s_east_side))
  let id_sd_body_right ← addSd (fig.m_sd_roadside.GetWithSector (← lastS SSlot.m_s_body))
  let _ ← addL (Linedef.mk4 id_v_prev_east_left (← lastV VSlot.m_v_east_left)
    id_sd_body_right id_sd_east_left)
  let id_sd_east_outer ←
    addSd (fig.m_sd_roadside.GetWithSector (← lastS SSlot.m_s_background_body_east))
  let id_sd_east_right ← addSd (Sidedef.ofSector (← lastS SSlot.m_s_east_side))
  let _ ← addL (Linedef.mk4 id_v_prev_east_right (← lastV VSlot.m_v_east_right)
    id_sd_east_right id_sd_east_outer)

/-- Source: `m_map.vertices.at(id)`. -/
def vertexAt (id : Nat) : M RoadFigure Vertex := fun fig =>
  match fig.m_map.vertices.get? id with
  | some v => (Except.ok v, fig)
  | none => (Except.error Err.outOfRange, fig)

/-- The test `it != m_last_ids.end() && IsZeroOrCloseTo(v.GetDistanceTo(
m_map.vertices.at(it->second)))` of `ExtendMark` for the vertex member `slot`. -/
def markVertexIsHere (lm : Libm) (slot : VSlot) : M RoadFigure Bool := do
  let fig ← M.read
  match fig.m_last_ids_v slot with
  | none => pure false
  | some id =>
    let v ← vertexAt id
    pure (Math.IsZeroOrCloseTo ((fig.m_v slot).GetDistanceTo lm v))

/-- Source: `m_v_mark_ids_prev.push_back(std::make_pair(dist, IdPair(id1, id2)))`. -/
def pushMarkIdsPrev (dist : ℚ) (id1 id2 : Nat) : M RoadFigure Unit :=
  M.update (fun fig => { fig with m_v_mark_ids_prev := fig.m_v_mark_ids_prev ++ [(dist, (id1, id2))] })

/-- The `while(length >= 1.0)` loop of `ExtendMark`, run for at most `fuel` iterations;
`length` and `first_vertices_added` are the loop-carried locals. -/
def ExtendMark.loop (length_middle : ℚ) (v_west_dir v_east_dir : ℚ × ℚ) (have_slope : Bool) :
    Nat → ℚ → Bool → M RoadFigure Unit
  | 0, length, _ => if length ≥ 1 then M.fail Err.outOfFuel else pure ()
  | fuel + 1, length, first_vertices_added =>
    if ¬ (length ≥ 1) then pure ()
    else do
      let fig ← M.read
      if Math.IsZeroOrCloseTo fig.m_mark_coord && !first_vertices_added then
        pushV VSlot.m_v_mark_west
        pushV VSlot.m_v_mark_east
        pushS SSlot.m_s_mark
        let id_sd_outside_west ← addSd (fig.m_sd_markside.GetWithSector (← lastS SSlot.m_s_body))
        let id_sd_inside_west ← addSd (Sidedef.ofSector (← lastS SSlot.m_s_mark))
        let _ ← addL (Linedef.mk4 (← lastV VSlot.m_v_mark_west) (← lastV VSlot.m_v_mark_east)
          id_sd_inside_west id_sd_outside_west)
        pushMarkIdsPrev (length_middle - length)
          (← lastV VSlot.m_v_mark_west) (← lastV VSlot.m_v_mark_east)
      let fig ← M.read
      let road_mark_length := fig.m_config.sizes.road_mark_length
      if fig.m_mark_coord < road_mark_length
          ∧ ¬ (Math.IsZeroOrCloseTo (fig.m_mark_coord - road_mark_length) = true) then
        let diff := road_mark_length - fig.m_mark_coord
        let mark_length := if diff > length then length else diff
        let id_v_prev_west ← lastV VSlot.m_v_mark_west
        let id_v_prev_east ← lastV VSlot.m_v_mark_east
        let mark_length_west := mark_length / length_middle
        let mark_length_east := mark_length / length_middle
        setV VSlot.m_v_mark_west ((fig.m_v VSlot.m_v_mark_west).GetMoved
          (mark_length_west * v_west_dir.1) (mark_length_west * v_west_dir.2))
        setV VSlot.m_v_mark_east ((fig.m_v VSlot.m_v_mark_east).GetMoved
          (mark_length_east * v_east_dir.1) (mark_length_east * v_east_dir.2))
        pushV VSlot.m_v_mark_west
        pushV VSlot.m_v_mark_east
        let id_s_mark ← lastS SSlot.m_s_mark
        if have_slope then pushS SSlot.m_s_mark
        let id_s_mark_new ← lastS SSlot.m_s_mark
        let id_sd_outside_west ← addSd (fig.m_sd_markside.GetWithSector (← lastS SSlot.m_s_body))
        let id_sd_inside_west ← addSd (Sidedef.ofSector id_s_mark_new)
        let _ ← addL (Linedef.mk4 (← lastV VSlot.m_v_mark_west) id_v_prev_west
          id_sd_inside_west id_sd_outside_west)
        let id_sd_outside_east ← addSd (fig.m_sd_markside.GetWithSector (← lastS SSlot.m_s_body))
        let id_sd_inside_east ← addSd (Sidedef.ofSector id_s_mark)
        let _ ← addL (Linedef.mk4 id_v_prev_east (← lastV VSlot.m_v_mark_east)
          id_sd_inside_east id_sd_outside_east)
        if have_slope then
          let id_sd_front ← addSd (Sidedef.ofSector id_s_mark)
          let id_sd_back ← addSd (Sidedef.ofSector id_s_mark_new)
          let l := Linedef.mk4 (← lastV VSlot.m_v_mark_east) id_v_prev_west id_sd_front id_sd_back
          let _ ← addL { l with dontdraw := true }
        pushMarkIdsPrev (length_middle - (length - mark_length))
          (← lastV VSlot.m_v_mark_west) (← lastV VSlot.m_v_mark_east)
        M.update (fun fig => { fig with
          m_mark_coord := fig.m_mark_coord + mark_length, m_mark_sector_closed := false })
        ExtendMark.loop length_middle v_west_dir v_east_dir have_slope fuel
          (length - mark_length) false
      else
        if Math.IsZeroOrCloseTo (fig.m_mark_coord - road_mark_length)
            && !fig.m_mark_sector_closed then
          match fig.m_last_ids_v VSlot.m_v_mark_west, fig.m_last_ids_v VSlot.m_v_mark_east with
          | some id_v_mark_west, some id_v_mark_east =>
            let id_sd_outside_west ←
              addSd (fig.m_sd_markside.GetWithSector (← lastS SSlot.m_s_body))
            let id_sd_inside_west ← addSd (Sidedef.ofSector (← lastS SSlot.m_s_mark))
            let _ ← addL (Linedef.mk4 id_v_mark_east id_v_mark_west
              id_sd_inside_west id_sd_outside_west)
          | _, _ => pure ()
          M.update (fun fig => { fig with m_mark_sector_closed := true })
        let diff := road_mark_length + fig.m_config.sizes.road_mark_gap - fig.m_mark_coord
        let space_length := if diff > length then length else diff
        let space_length_west := space_length / length_middle
        let space_length_east := space_length / length_middle
        setV VSlot.m_v_mark_west ((fig.m_v VSlot.m_v_mark_west).GetMoved
          (space_length_west * v_west_dir.1) (space_length_west * v_west_dir.2))
        setV VSlot.m_v_mark_east ((fig.m_v VSlot.m_v_mark_east).GetMoved
          (space_length_east * v_east_dir.1) (space_length_east * v_east_dir.2))
        M.update (fun fig => { fig with
          m_mark_coord :=
            if !Math.IsZeroOrCloseTo (space_length - diff) then fig.m_mark_coord + space_length
            else 0 })
        ExtendMark.loop length_middle v_west_dir v_east_dir have_slope fuel
          (length - space_length) false

/-- The number of iterations granted to the loop of `ExtendMark` for a step of the
given length: every iteration after the first consumes at least one unit when the mark
length and the mark gap are at least one unit long. -/
def ExtendMark.fuel (length_middle : ℚ) : Nat := Int.toNat ⌊length_middle⌋ + 4

/-- Source: `RoadFigure::ExtendMark`. -/
def ExtendMark (lm : Libm) (v_new_mark_west v_new_mark_east : Vertex) : M RoadFigure Unit := do
  let fig ← M.read
  let m_v_mark_west := fig.m_v VSlot.m_v_mark_west
  let m_v_mark_east := fig.m_v VSlot.m_v_mark_east
  let v_west_dir : ℚ × ℚ := (v_new_mark_west.x - m_v_mark_west.x, v_new_mark_west.y - m_v_mark_west.y)
  let v_east_dir : ℚ × ℚ := (v_new_mark_east.x - m_v_mark_east.x, v_new_mark_east.y - m_v_mark_east.y)
  let length_east := m_v_mark_east.GetDistanceTo lm v_new_mark_east
  let length_west := m_v_mark_west.GetDistanceTo lm v_new_mark_west
  let length_middle := (length_east + length_west) / 2
  if length_middle < SMALLEST_MARK_LINE then M.fail Err.markTooSmall
  else do
    let is_v_mark_west_here ← markVertexIsHere lm VSlot.m_v_mark_west
    let is_v_mark_east_here ← markVertexIsHere lm VSlot.m_v_mark_east
    let first_vertices_added :=
      Math.IsZeroOrCloseTo fig.m_mark_coord && is_v_mark_west_here && is_v_mark_east_here
    let have_slope := !Math.IsZeroOrCloseTo fig.m_slope_modifier.tangent
    ExtendMark.loop length_middle v_west_dir v_east_dir have_slope
      (ExtendMark.fuel length_middle) length_middle first_vertices_added

/-- Run `f` on the elements of a list in order (a `for` loop over a vector). -/
def forEach {σ α : Type} (f : α → M σ Unit) : List α → M σ Unit
  | [] => pure ()
  | a :: rest => do
    f a
    forEach f rest

/-- Source: an in-place update of `m_map.sectors.at(id)`. -/
def modifySectorAt (id : Nat) (f : Sector → Sector) : M RoadFigure Unit := fun fig =>
  match fig.m_map.sectors.get? id with
  | some s => (Except.ok (), { fig with m_map := { fig.m_map with sectors := fig.m_map.sectors.set id (f s) } })
  | none => (Except.error Err.outOfRange, fig)

/-- Source: an in-place update of `m_map.vertices.at(id)`. -/
def modifyVertexAt (id : Nat) (f : Vertex → Vertex) : M RoadFigure Unit := fun fig =>
  match fig.m_map.vertices.get? id with
  | some v => (Except.ok (), { fig with m_map := { fig.m_map with vertices := fig.m_map.vertices.set id (f v) } })
  | none => (Except.error Err.outOfRange, fig)

/-- The body of the loop over `slope_sectors` in `CloseSectors` for one non-null
entry. -/
def CloseSectors.slopeSector (height_diff : Int) (have_mark at_mark_start had_mark : Bool)
    (slot : SSlot) : M RoadFigure Unit := do
  let fig ← M.read
  let cur_sector := fig.m_s slot
  let is_background_sky_sector := decide (slot = SSlot.m_s_background_sky)
  let new_floorpos := cur_sector.heightfloor + height_diff
  let new_heightceiling := cur_sector.heightceiling + height_diff
  let new_sector : Sector :=
    { cur_sector with
      heightfloor := new_floorpos
      heightceiling := if is_background_sky_sector then new_heightceiling
        else cur_sector.heightceiling }
  M.update (fun fig => { fig with m_s := Function.update fig.m_s slot new_sector })
  let modify_prev_sector :=
    if fig.m_slope_modifier.tangent > 0 ∧ is_background_sky_sector = true then false
    else if slot = SSlot.m_s_mark ∧ (!((have_mark && !at_mark_start) || had_mark)) = true then false
    else true
  if modify_prev_sector then
    let id ← lastS slot
    modifySectorAt id (fun prev_sector =>
      { prev_sector with
        heightfloor := new_floorpos
        heightceiling := if is_background_sky_sector then new_heightceiling
          else prev_sector.heightceiling })

/-- The `if(have_slope) { ... }` block of `CloseSectors`. -/
def CloseSectors.applySlope (lm : Libm) (have_mark at_mark_start : Bool) : M RoadFigure Unit := do
  let fig ← M.read
  let body_west_sector_ptr : Option SSlot :=
    if (← lastS SSlot.m_s_background_body_east) ≠ (← lastS SSlot.m_s_background_body_west)
    then some SSlot.m_s_background_body_west else none
  let fence_west_sector_ptr : Option SSlot :=
    if (← lastS SSlot.m_s_fence_east) ≠ (← lastS SSlot.m_s_fence_west)
    then some SSlot.m_s_fence_west else none
  let slope_sectors : List (Option SSlot) :=
    [some SSlot.m_s_background_sky, some SSlot.m_s_background_body_east, body_west_sector_ptr,
     some SSlot.m_s_fence_east, fence_west_sector_ptr,
     some SSlot.m_s_west_side, some SSlot.m_s_east_side,
     some SSlot.m_s_body, some SSlot.m_s_mark]
  let width_diff_f := fig.m_v_null.GetDistanceTo lm fig.m_v_null_prev
  let height_diff := Math.truncToInt (fig.m_slope_modifier.tangent * width_diff_f)
  if fig.m_floorpos + height_diff ≥ fig.m_ceilingpos - fig.m_config.sizes.fence_height then
    M.fail Err.slopeAboveCeiling
  else do
    let had_mark := !have_mark
      && decide (fig.m_mark_coord - width_diff_f < fig.m_config.sizes.road_mark_length)
    forEach (fun (p : Option SSlot) =>
      match p with
      | none => pure ()
      | some slot => CloseSectors.slopeSector height_diff have_mark at_mark_start had_mark slot)
      slope_sectors
    M.update (fun fig => { fig with m_floorpos := fig.m_floorpos + height_diff })

/-- The block of `CloseSectors` that, when closing before a slope, records the mark
vertices lying on the seam. -/
def CloseSectors.recordSeamMarkVertices (lm : Libm) : M RoadFigure Unit := do
  let fig ← M.read
  match fig.m_last_ids_v VSlot.m_v_mark_west, fig.m_last_ids_v VSlot.m_v_mark_east with
  | some id_v_mark_west, some id_v_mark_east =>
    let vw ← vertexAt id_v_mark_west
    if Math.IsZeroOrCloseTo (vw.GetDistanceTo lm (fig.m_v VSlot.m_v_mark_west)) then
      let ve ← vertexAt id_v_mark_east
      if Math.IsZeroOrCloseTo (ve.GetDistanceTo lm (fig.m_v VSlot.m_v_mark_east)) then
        pushMarkIdsPrev 0 id_v_mark_west id_v_mark_east
  | _, _ => pure ()

/-- The body of the loop over `m_v_mark_ids_prev` in `CloseSectors`. -/
def CloseSectors.snapMarkVertices (have_mark : Bool) (floorpos_prev : Int)
    (it : ℚ × (Nat × Nat)) : M RoadFigure Unit := do
  let fig ← M.read
  let have_cur_vertices ←
    if have_mark then do
      let id_v_mark_west_prev ← lastV VSlot.m_v_mark_west
      pure (decide (id_v_mark_west_prev = it.2.1) || decide (id_v_mark_west_prev = it.2.2))
    else pure false
  let vertex_height_diff := fig.m_slope_modifier.tangent * it.1
  let mark_floorpos0 : ℚ := ((floorpos_prev + MARK_HEIGHT : Int) : ℚ) + vertex_height_diff
  let mark_floorpos :=
    if have_cur_vertices then
      (if mark_floorpos0 > 0 then Math.Floor mark_floorpos0 else Math.Ceil mark_floorpos0)
    else mark_floorpos0
  modifyVertexAt it.2.1 (fun mark_v1 => mark_v1.GetWithZFloor mark_floorpos)
  modifyVertexAt it.2.2 (fun mark_v2 => mark_v2.GetWithZFloor mark_floorpos)

/-- The vector `vertices` built in `CloseSectors`. -/
def CloseSectors.vertices (have_mark : Bool) : List VSlot :=
  [VSlot.m_v_background_west_left, VSlot.m_v_background_west_right,
   VSlot.m_v_fence_west_left, VSlot.m_v_fence_west_right,
   VSlot.m_v_west_left, VSlot.m_v_west_right]
  ++ (if have_mark then [VSlot.m_v_mark_west, VSlot.m_v_mark_east] else [])
  ++ [VSlot.m_v_east_left, VSlot.m_v_east_right,
      VSlot.m_v_fence_east_left, VSlot.m_v_fence_east_right,
      VSlot.m_v_background_east_left, VSlot.m_v_background_east_right]

/-- The vector `sectors` built in `CloseSectors`. -/
def CloseSectors.sectors (have_mark : Bool) : List SSlot :=
  [SSlot.m_s_background_sky, SSlot.m_s_background_body_west, SSlot.m_s_fence_west,
   SSlot.m_s_background_body_west, SSlot.m_s_west_side, SSlot.m_s_body]
  ++ (if have_mark then [SSlot.m_s_mark, SSlot.m_s_body] else [])
  ++ [SSlot.m_s_east_side, SSlot.m_s_background_body_east, SSlot.m_s_fence_east,
      SSlot.m_s_background_body_east, SSlot.m_s_background_sky]

/-- The first loop over `sectors` in `CloseSectors`: remember the id of each distinct
sector in `prev_sectors_ids` and append its successor. -/
def CloseSectors.renewSectors (at_mark_start at_mark_end : Bool) :
    List SSlot → (SSlot → Option Nat) → M RoadFigure (SSlot → Option Nat)
  | [], prev_sectors_ids => pure prev_sectors_ids
  | sector :: rest, prev_sectors_ids =>
    if (prev_sectors_ids sector).isSome then
      CloseSectors.renewSectors at_mark_start at_mark_end rest prev_sectors_ids
    else do
      let prev_sectors_ids ←
        if at_mark_start = true ∧ sector = SSlot.m_s_mark then pure prev_sectors_ids
        else do
          let id ← lastS sector
          pure (Function.update prev_sectors_ids sector (some id))
      if at_mark_end = true ∧ sector = SSlot.m_s_mark then pure ()
      else pushS sector
      CloseSectors.renewSectors at_mark_start at_mark_end rest prev_sectors_ids

/-- Source: `prev_sectors_ids.at(&s)`. -/
def prevSectorId (prev_sectors_ids : SSlot → Option Nat) (slot : SSlot) : M RoadFigure Nat :=
  match prev_sectors_ids slot with
  | some id => pure id
  | none => M.fail Err.outOfRange

/-- The second loop over `sectors` in `CloseSectors`: the seam linedef between
`vertices[i]` and `vertices[i+1]`, with its two sidedefs. -/
def CloseSectors.seamLines (at_mark_start at_mark_end : Bool)
    (prev_sectors_ids : SSlot → Option Nat) : List SSlot → List VSlot → M RoadFigure Unit
  | sector :: rest, vi :: vi1 :: vrest => do
    let fig ← M.read
    let id_sd_front ←
      if at_mark_end = true ∧ sector = SSlot.m_s_mark then
        addSd (fig.m_sd_roadside.GetWithSector (← lastS SSlot.m_s_body))
      else addSd (Sidedef.ofSector (← lastS sector))
    let id_sd_back ←
      if at_mark_start = true ∧ sector = SSlot.m_s_mark then
        addSd (fig.m_sd_roadside.GetWithSector (← prevSectorId prev_sectors_ids SSlot.m_s_body))
      else addSd (Sidedef.ofSector (← prevSectorId prev_sectors_ids sector))
    let l0 := Linedef.mk4 (← lastV vi) (← lastV vi1) id_sd_front id_sd_back
    let l1 := { l0 with dontdraw := true }
    let l ←
      if vi ≠ VSlot.m_v_mark_west then
        let have_slope := decide (vi ≠ VSlot.m_v_background_west_left)
          && decide (vi ≠ VSlot.m_v_background_east_left)
        if have_slope then
          pure { l1 with action_special := { l1.action_special with special := 181, arg0 := 1 } }
        else pure l1
      else do
        M.update (fun fig => { fig with m_mark_sector_closed := true })
        pure l1
    let _ ← addL l
    CloseSectors.seamLines at_mark_start at_mark_end prev_sectors_ids rest (vi1 :: vrest)
  | _, _ => pure ()

/-- Source: `RoadFigure::CloseSectors`. -/
def CloseSectors (lm : Libm) : M RoadFigure Unit := do
  let fig ← M.read
  if fig.m_sectors_closed then pure ()
  else do
    let have_slope := !Math.IsZeroOrCloseTo fig.m_slope_modifier.tangent
    let at_mark_start := Math.IsZeroOrCloseTo fig.m_mark_coord
    let at_mark_end :=
      Math.IsZeroOrCloseTo (fig.m_mark_coord - fig.m_config.sizes.road_mark_length)
    let have_mark := decide (fig.m_mark_coord < fig.m_config.sizes.road_mark_length)
      || at_mark_start || at_mark_end
    let floorpos_prev := fig.m_floorpos
    if have_slope then CloseSectors.applySlope lm have_mark at_mark_start
    if at_mark_start then
      let fig ← M.read
      setLastV VSlot.m_v_mark_west
        (← addV ((fig.m_v VSlot.m_v_mark_west).GetWithZFloor (fig.m_floorpos : ℚ)))
      setLastV VSlot.m_v_mark_east
        (← addV ((fig.m_v VSlot.m_v_mark_east).GetWithZFloor (fig.m_floorpos : ℚ)))
    if !have_slope then
      if have_mark && !at_mark_start then CloseSectors.recordSeamMarkVertices lm
    let fig ← M.read
    forEach (CloseSectors.snapMarkVertices have_mark floorpos_prev) fig.m_v_mark_ids_prev
    let prev_sectors_ids ← CloseSectors.renewSectors at_mark_start at_mark_end
      (CloseSectors.sectors have_mark) (fun _ => none)
    CloseSectors.seamLines at_mark_start at_mark_end prev_sectors_ids
      (CloseSectors.sectors have_mark) (CloseSectors.vertices have_mark)
    M.update (fun fig => { fig with m_sectors_closed := true })

/-- The expression `m_v_null.GetMoved(dx, dy).GetRotated(m_v_null.x, m_v_null.y, m_angle)`
used throughout `Start`. -/
def Start.seed (lm : Libm) (fig : RoadFigure) (dx dy : ℚ) : Vertex :=
  (fig.m_v_null.GetMoved dx dy).GetRotated lm fig.m_v_null.x fig.m_v_null.y fig.m_angle

/-- The checks at the head of `Start`. -/
def Start.validate : M RoadFigure Unit := do
  let fig ← M.read
  if fig.m_started_drawing then M.fail Err.alreadyStarted
  else if fig.m_finished_drawing then M.fail Err.alreadyFinishedRestart
  else if fig.m_v_null.x < -30000 ∨ fig.m_v_null.x > 30000
      ∨ fig.m_v_null.y < -30000 ∨ fig.m_v_null.y > 30000 then M.fail Err.badStartPosition
  else if fig.m_floorpos < -32767 ∨ fig.m_floorpos > 32767 then M.fail Err.badFloorPosition
  else if fig.m_ceilingpos < fig.m_floorpos then M.fail Err.negativeHeight
  else if fig.m_ceilingpos > 32767 then M.fail Err.ceilingTooHigh
  else if fig.m_ceilingpos - fig.m_floorpos > 32767 then M.fail Err.heightTooBig
  else if fig.m_floorpos ≥ fig.m_ceilingpos - fig.m_config.sizes.fence_height then
    M.fail Err.fenceHigherThanCeiling
  else pure ()

/-- The section "add background" of `Start`; the result is `id_s_background_body`. -/
def Start.addBackground (lm : Libm) : M RoadFigure Nat := do
  let fig ← M.read
  let sizes := fig.m_config.sizes
  let background_gap_big := sizes.background_dist + BACKGROUND_THICKNESS
  let background_gap_small := sizes.background_dist
  setV VSlot.m_v_background_west_left (Start.seed lm fig (-background_gap_big)
    (-background_gap_big - sizes.road_width / 2 - sizes.road_side_width))
  pushV VSlot.m_v_background_west_left
  setV VSlot.m_v_background_west_right (Start.seed lm fig (-background_gap_small)
    (-background_gap_small - sizes.road_width / 2 - sizes.road_side_width))
  pushV VSlot.m_v_background_west_right
  setV VSlot.m_v_background_east_left (Start.seed lm fig (-background_gap_small)
    (background_gap_small + sizes.road_width / 2 + sizes.road_side_width))
  pushV VSlot.m_v_background_east_left
  setV VSlot.m_v_background_east_right (Start.seed lm fig (-background_gap_big)
    (background_gap_big + sizes.road_width / 2 + sizes.road_side_width))
  pushV VSlot.m_v_background_east_right
  pushS SSlot.m_s_background_sky
  let id_s_background_body ← addS (fig.m_s SSlot.m_s_background_body_east)
  setLastS SSlot.m_s_background_body_west id_s_background_body
  setLastS SSlot.m_s_background_body_east id_s_background_body
  let id_sd_background_sky ← addSd (Sidedef.ofSector (← lastS SSlot.m_s_background_sky))
  let _ ← addL (Linedef.mk3 (← lastV VSlot.m_v_background_west_left)
    (← lastV VSlot.m_v_background_east_right) id_sd_background_sky)
  let id_sd_background_body_outer ← addSd (Sidedef.ofSector (← lastS SSlot.m_s_background_sky))
  let id_sd_background_body_inner ← addSd (Sidedef.ofSector id_s_background_body)
  let _ ← addL (Linedef.mk4 (← lastV VSlot.m_v_background_west_right)
    (← lastV VSlot.m_v_background_east_left)
    id_sd_background_body_inner id_sd_background_body_outer)
  let v_background_next_west_left := Start.seed lm fig 0
    (-background_gap_big - sizes.road_width / 2 - sizes.road_side_width)
  let v_background_next_west_right := Start.seed lm fig 0
    (-background_gap_small - sizes.road_width / 2 - sizes.road_side_width)
  let v_background_next_east_left := Start.seed lm fig 0
    (background_gap_small + sizes.road_width / 2 + sizes.road_side_width)
  let v_background_next_east_right := Start.seed lm fig 0
    (background_gap_big + sizes.road_width / 2 + sizes.road_side_width)
  ExtendBackground v_background_next_west_left v_background_next_west_right
    v_background_next_east_left v_background_next_east_right
  pure id_s_background_body

/-- The section "add fence" of `Start`. -/
def Start.addFence (lm : Libm) (id_s_background_body : Nat) : M RoadFigure Unit := do
  let fig ← M.read
  let sizes := fig.m_config.sizes
  let background_gap_big := sizes.background_dist + BACKGROUND_THICKNESS
  let background_gap_small := sizes.background_dist
  setV VSlot.m_v_fence_west_left (Start.seed lm fig (-background_gap_big + FENCE_BACKGROUND_GAP)
    (-background_gap_big - sizes.road_width / 2 - sizes.road_side_width + FENCE_BACKGROUND_GAP))
  pushV VSlot.m_v_fence_west_left
  setV VSlot.m_v_fence_west_right
    (Start.seed lm fig (-background_gap_small + FENCE_BACKGROUND_GAP)
      (-background_gap_small - sizes.road_width / 2 - sizes.road_side_width
        + FENCE_BACKGROUND_GAP))
  pushV VSlot.m_v_fence_west_right
  setV VSlot.m_v_fence_east_left
    (Start.seed lm fig (-background_gap_small + FENCE_BACKGROUND_GAP)
      (background_gap_small + sizes.road_width / 2 + sizes.road_side_width
        - FENCE_BACKGROUND_GAP))
  pushV VSlot.m_v_fence_east_left
  setV VSlot.m_v_fence_east_right (Start.seed lm fig (-background_gap_big + FENCE_BACKGROUND_GAP)
    (background_gap_big + sizes.road_width / 2 + sizes.road_side_width - FENCE_BACKGROUND_GAP))
  pushV VSlot.m_v_fence_east_right
  let id_s_fence ← addS (fig.m_s SSlot.m_s_fence_west)
  setLastS SSlot.m_s_fence_east id_s_fence
  setLastS SSlot.m_s_fence_west id_s_fence
  let id_sd_fence_far_outer ← addSd (fig.m_sd_fenceside.GetWithSector id_s_background_body)
  let id_sd_fence_far_inner ← addSd (Sidedef.ofSector id_s_fence)
  let _ ← addL (Linedef.mk4 (← lastV VSlot.m_v_fence_west_left)
    (← lastV VSlot.m_v_fence_east_right) id_sd_fence_far_inner id_sd_fence_far_outer)
  let id_sd_fence_near_outer ← addSd (fig.m_sd_fenceside.GetWithSector id_s_background_body)
  let id_sd_fence_near_inner ← addSd (Sidedef.ofSector id_s_fence)
  let _ ← addL (Linedef.mk4 (← lastV VSlot.m_v_fence_east_left)
    (← lastV VSlot.m_v_fence_west_right) id_sd_fence_near_inner id_sd_fence_near_outer)
  let v_fence_next_west_left := Start.seed lm fig 0
    (-background_gap_big - sizes.road_width / 2 - sizes.road_side_width + FENCE_BACKGROUND_GAP)
  let v_fence_next_west_right := Start.seed lm fig 0
    (-background_gap_small - sizes.road_width / 2 - sizes.road_side_width
      + FENCE_BACKGROUND_GAP)
  let v_fence_next_east_left := Start.seed lm fig 0
    (background_gap_small + sizes.road_width / 2 + sizes.road_side_width - FENCE_BACKGROUND_GAP)
  let v_fence_next_east_right := Start.seed lm fig 0
    (background_gap_big + sizes.road_width / 2 + sizes.road_side_width - FENCE_BACKGROUND_GAP)
  ExtendFence v_fence_next_west_left v_fence_next_west_right
    v_fence_next_east_left v_fence_next_east_right

/-- The sections "add road frame" and "add road mark" of `Start`. -/
def Start.addRoadFrame (lm : Libm) (id_s_background_body : Nat) : M RoadFigure Unit := do
  let fig ← M.read
  let sizes := fig.m_config.sizes
  setV VSlot.m_v_west_left
    (Start.seed lm fig 0 (-sizes.road_width / 2 - sizes.road_side_width))
  pushV VSlot.m_v_west_left
  setV VSlot.m_v_west_right (Start.seed lm fig 0 (-sizes.road_width / 2))
  pushV VSlot.m_v_west_right
  setV VSlot.m_v_east_left (Start.seed lm fig 0 (sizes.road_width / 2))
  pushV VSlot.m_v_east_left
  setV VSlot.m_v_east_right (Start.seed lm fig 0 (sizes.road_width / 2 + sizes.road_side_width))
  pushV VSlot.m_v_east_right
  pushS SSlot.m_s_west_side
  pushS SSlot.m_s_east_side
  let id_sd_west_outer ← addSd (fig.m_sd_roadside.GetWithSector id_s_background_body)
  let id_sd_west_inner ← addSd (Sidedef.ofSector (← lastS SSlot.m_s_west_side))
  let _ ← addL (Linedef.mk4 (← lastV VSlot.m_v_west_left) (← lastV VSlot.m_v_west_right)
    id_sd_west_inner id_sd_west_outer)
  let id_sd_east_outer ← addSd (fig.m_sd_roadside.GetWithSector id_s_background_body)
  let id_sd_east_inner ← addSd (Sidedef.ofSector (← lastS SSlot.m_s_east_side))
  let _ ← addL (Linedef.mk4 (← lastV VSlot.m_v_east_left) (← lastV VSlot.m_v_east_right)
    id_sd_east_inner id_sd_east_outer)
  pushS SSlot.m_s_body
  let id_sd_middle_outer ← addSd (Sidedef.ofSector id_s_background_body)
  let id_sd_middle_inner ← addSd (Sidedef.ofSector (← lastS SSlot.m_s_body))
  setV VSlot.m_v_mark_west (Start.seed lm fig 0 (-sizes.road_mark_width / 2))
  setV VSlot.m_v_mark_east (Start.seed lm fig 0 (sizes.road_mark_width / 2))
  let have_mark := decide (fig.m_mark_coord < sizes.road_mark_length)
  if have_mark then
    pushV VSlot.m_v_mark_east
    pushV VSlot.m_v_mark_west
    pushS SSlot.m_s_mark
    let _ ← addL (Linedef.mk4 (← lastV VSlot.m_v_west_right) (← lastV VSlot.m_v_mark_west)
      id_sd_middle_inner id_sd_middle_outer)
    let id_sd_mark_inner ← addSd (Sidedef.ofSector (← lastS SSlot.m_s_mark))
    let id_sd_mark_outer ← addSd (fig.m_sd_markside.GetWithSector id_s_background_body)
    let _ ← addL (Linedef.mk4 (← lastV VSlot.m_v_mark_west) (← lastV VSlot.m_v_mark_east)
      id_sd_mark_inner id_sd_mark_outer)
    let id_sd_middle_inner2 ← addSd (Sidedef.ofSector (← lastS SSlot.m_s_body))
    let id_sd_middle_outer2 ← addSd (Sidedef.ofSector id_s_background_body)
    let _ ← addL (Linedef.mk4 (← lastV VSlot.m_v_mark_east) (← lastV VSlot.m_v_east_left)
      id_sd_middle_inner2 id_sd_middle_outer2)
    M.update (fun fig => { fig with m_mark_sector_closed := false })
  else
    let _ ← addL (Linedef.mk4 (← lastV VSlot.m_v_west_right) (← lastV VSlot.m_v_east_left)
      id_sd_middle_inner id_sd_middle_outer)

/-- Source: `RoadFigure::Start`. -/
def Start (lm : Libm) : M RoadFigure Unit := do
  Start.validate
  let id_s_background_body ← Start.addBackground lm
  Start.addFence lm id_s_background_body
  Start.addRoadFrame lm id_s_background_body
  M.update (fun fig => { fig with m_sectors_closed := false, m_started_drawing := true })

/-- The checks at the head of `Finish`. -/
def Finish.validate : M RoadFigure Unit := do
  let fig ← M.read
  if !fig.m_started_drawing then M.fail Err.finishNotStarted
  else if fig.m_finished_drawing then M.fail Err.finishAgain
  else if !Math.IsZeroOrCloseTo fig.m_slope_modifier.tangent
      || !fig.m_have_shape_with_current_slope then M.fail Err.slopeAtEnd
  else pure ()

/-- The section "close background" of `Finish`; the result is
`(id_v_background_middle, id_s_background_body_east, id_s_background_body_west)`. -/
def Finish.closeBackground (lm : Libm) : M RoadFigure (Nat × Nat × Nat) := do
  let fig ← M.read
  let cos_angle := lm.cos fig.m_angle
  let sin_angle := lm.sin fig.m_angle
  let background_gap_big := fig.m_config.sizes.background_dist + BACKGROUND_THICKNESS
  let background_gap_small := fig.m_config.sizes.background_dist
  ExtendBackground
    ((fig.m_v VSlot.m_v_background_west_left).GetMoved
      (background_gap_big * cos_angle) (background_gap_big * sin_angle))
    ((fig.m_v VSlot.m_v_background_west_right).GetMoved
      (background_gap_small * cos_angle) (background_gap_small * sin_angle))
    ((fig.m_v VSlot.m_v_background_east_left).GetMoved
      (background_gap_small * cos_angle) (background_gap_small * sin_angle))
    ((fig.m_v VSlot.m_v_background_east_right).GetMoved
      (background_gap_big * cos_angle) (background_gap_big * sin_angle))
  let id_v_background_west_left ← lastV VSlot.m_v_background_west_left
  let id_v_background_west_right ← lastV VSlot.m_v_background_west_right
  let id_v_background_east_left ← lastV VSlot.m_v_background_east_left
  let id_v_background_east_right ← lastV VSlot.m_v_background_east_right
  let id_s_background_sky ← lastS SSlot.m_s_background_sky
  let id_s_background_body_east ← lastS SSlot.m_s_background_body_east
  let id_s_background_body_west ← lastS SSlot.m_s_background_body_west
  let id_sd_background_sky ← addSd (Sidedef.ofSector id_s_background_sky)
  let _ ← addL (Linedef.mk3 id_v_background_east_right id_v_background_west_left
    id_sd_background_sky)
  let fig ← M.read
  let v_background_middle : Vertex :=
    { x := ((fig.m_v VSlot.m_v_background_east_left).x
        + (fig.m_v VSlot.m_v_background_west_right).x) / 2
      y := ((fig.m_v VSlot.m_v_background_east_left).y
        + (fig.m_v VSlot.m_v_background_west_right).y) / 2 }
  let id_v_background_middle ← addV v_background_middle
  let id_sd_background_body_outer_east ← addSd (Sidedef.ofSector id_s_background_sky)
  let id_sd_background_body_inner_east ← addSd (Sidedef.ofSector id_s_background_body_east)
  let _ ← addL (Linedef.mk4 id_v_background_east_left id_v_background_middle
    id_sd_background_body_inner_east id_sd_background_body_outer_east)
  let id_sd_background_body_outer_west ← addSd (Sidedef.ofSector id_s_background_sky)
  let id_sd_background_body_inner_west ← addSd (Sidedef.ofSector id_s_background_body_west)
  let _ ← addL (Linedef.mk4 id_v_background_middle id_v_background_west_right
    id_sd_background_body_inner_west id_sd_background_body_outer_west)
  pure (id_v_background_middle, id_s_background_body_east, id_s_background_body_west)

/-- The section "close fence" of `Finish`; the result is
`(id_v_fence_middle_far, id_v_fence_middle_near, id_s_fence_east, id_s_fence_west)`. -/
def Finish.closeFence (lm : Libm) (id_s_background_body_east id_s_background_body_west : Nat) :
    M RoadFigure (Nat × Nat × Nat × Nat) := do
  let fig ← M.read
  let cos_angle := lm.cos fig.m_angle
  let sin_angle := lm.sin fig.m_angle
  let background_gap_small := fig.m_config.sizes.background_dist
  let fence_gap_larger := background_gap_small - FENCE_BACKGROUND_GAP + BACKGROUND_THICKNESS
  let fence_gap_smaller := fence_gap_larger - FENCE_THICKNESS
  ExtendFence
    ((fig.m_v VSlot.m_v_fence_west_left).GetMoved
      (fence_gap_larger * cos_angle) (fence_gap_larger * sin_angle))
    ((fig.m_v VSlot.m_v_fence_west_right).GetMoved
      (fence_gap_smaller * cos_angle) (fence_gap_smaller * sin_angle))
    ((fig.m_v VSlot.m_v_fence_east_left).GetMoved
      (fence_gap_smaller * cos_angle) (fence_gap_smaller * sin_angle))
    ((fig.m_v VSlot.m_v_fence_east_right).GetMoved
      (fence_gap_larger * cos_angle) (fence_gap_larger * sin_angle))
  let id_v_fence_west_left ← lastV VSlot.m_v_fence_west_left
  let id_v_fence_west_right ← lastV VSlot.m_v_fence_west_right
  let id_v_fence_east_left ← lastV VSlot.m_v_fence_east_left
  let id_v_fence_east_right ← lastV VSlot.m_v_fence_east_right
  let id_s_fence_east ← lastS SSlot.m_s_fence_east
  let id_s_fence_west ← lastS SSlot.m_s_fence_west
  let fig ← M.read
  let v_fence_middle_far : Vertex :=
    { x := ((fig.m_v VSlot.m_v_fence_west_left).x + (fig.m_v VSlot.m_v_fence_east_right).x) / 2
      y := ((fig.m_v VSlot.m_v_fence_west_left).y + (fig.m_v VSlot.m_v_fence_east_right).y) / 2 }
  let id_v_fence_middle_far ← addV v_fence_middle_far
  let id_sd_fence_east_far_outer ←
    addSd (fig.m_sd_fenceside.GetWithSector id_s_background_body_east)
  let id_sd_fence_east_far_inner ← addSd (Sidedef.ofSector id_s_fence_east)
  let _ ← addL (Linedef.mk4 id_v_fence_east_right id_v_fence_middle_far
    id_sd_fence_east_far_inner id_sd_fence_east_far_outer)
  let id_sd_fence_west_far_outer ←
    addSd (fig.m_sd_fenceside.GetWithSector id_s_background_body_west)
  let id_sd_fence_west_far_inner ← addSd (Sidedef.ofSector id_s_fence_west)
  let _ ← addL (Linedef.mk4 id_v_fence_middle_far id_v_fence_west_left
    id_sd_fence_west_far_inner id_sd_fence_west_far_outer)
  let v_fence_middle_near : Vertex :=
    { x := ((fig.m_v VSlot.m_v_fence_west_right).x + (fig.m_v VSlot.m_v_fence_east_left).x) / 2
      y := ((fig.m_v VSlot.m_v_fence_west_right).y + (fig.m_v VSlot.m_v_fence_east_left).y) / 2 }
  let id_v_fence_middle_near ← addV v_fence_middle_near
  let id_sd_fence_east_near_outer ←
    addSd (fig.m_sd_fenceside.GetWithSector id_s_background_body_east)
  let id_sd_fence_east_near_inner ← addSd (Sidedef.ofSector id_s_fence_east)
  let _ ← addL (Linedef.mk4 id_v_fence_middle_near id_v_fence_east_left
    id_sd_fence_east_near_inner id_sd_fence_east_near_outer)
  let id_sd_fence_west_near_outer ←
    addSd (fig.m_sd_fenceside.GetWithSector id_s_background_body_west)
  let id_sd_fence_west_near_inner ← addSd (Sidedef.ofSector id_s_fence_west)
  let _ ← addL (Linedef.mk4 id_v_fence_west_right id_v_fence_middle_near
    id_sd_fence_west_near_inner id_sd_fence_west_near_outer)
  pure (id_v_fence_middle_far, id_v_fence_middle_near, id_s_fence_east, id_s_fence_west)

/-- The section "close road frame" of `Finish`; the result is `id_v_body_middle`. -/
def Finish.closeRoadFrame (id_s_background_body_east id_s_background_body_west : Nat) :
    M RoadFigure Nat := do
  let fig ← M.read
  let id_s_west ← lastS SSlot.m_s_west_side
  let id_s_east ← lastS SSlot.m_s_east_side
  let id_s_body ← lastS SSlot.m_s_body
  let id_v_west_left ← lastV VSlot.m_v_west_left
  let id_v_west_right ← lastV VSlot.m_v_west_right
  let id_v_east_left ← lastV VSlot.m_v_east_left
  let id_v_east_right ← lastV VSlot.m_v_east_right
  let id_sd_west_outer ← addSd (fig.m_sd_roadside.GetWithSector id_s_background_body_west)
  let id_sd_west_inner ← addSd (Sidedef.ofSector id_s_west)
  let _ ← addL (Linedef.mk4 id_v_west_right id_v_west_left id_sd_west_inner id_sd_west_outer)
  let id_sd_east_outer ← addSd (fig.m_sd_roadside.GetWithSector id_s_background_body_east)
  let id_sd_east_inner ← addSd (Sidedef.ofSector id_s_east)
  let _ ← addL (Linedef.mk4 id_v_east_right id_v_east_left id_sd_east_inner id_sd_east_outer)
  let v_body_middle : Vertex :=
    { x := ((fig.m_v VSlot.m_v_east_left).x + (fig.m_v VSlot.m_v_west_right).x) / 2
      y := ((fig.m_v VSlot.m_v_east_left).y + (fig.m_v VSlot.m_v_west_right).y) / 2 }
  let id_v_body_middle ← addV v_body_middle
  let id_sd_middle_outer_east ← addSd (Sidedef.ofSector id_s_background_body_east)
  let id_sd_middle_inner_east ← addSd (Sidedef.ofSector id_s_body)
  let id_sd_middle_outer_west ← addSd (Sidedef.ofSector id_s_background_body_west)
  let id_sd_middle_inner_west ← addSd (Sidedef.ofSector id_s_body)
  let have_mark :=
    (!Math.IsZeroOrCloseTo fig.m_mark_coord
      && decide (fig.m_mark_coord < fig.m_config.sizes.road_mark_length))
    || Math.IsZeroOrCloseTo (fig.m_mark_coord - fig.m_config.sizes.road_mark_length)
  if have_mark && !fig.m_mark_sector_closed then
    let id_v_mark_east ← lastV VSlot.m_v_mark_east
    let id_v_mark_west ← lastV VSlot.m_v_mark_west
    let id_s_mark ← lastS SSlot.m_s_mark
    let _ ← addL (Linedef.mk4 id_v_east_left id_v_mark_east
      id_sd_middle_inner_east id_sd_middle_outer_east)
    let id_sd_mark_inner_east ← addSd (Sidedef.ofSector id_s_mark)
    let id_sd_mark_outer_east ← addSd (fig.m_sd_markside.GetWithSector id_s_background_body_east)
    let _ ← addL (Linedef.mk4 id_v_mark_east id_v_body_middle
      id_sd_mark_inner_east id_sd_mark_outer_east)
    let id_sd_mark_inner_west ← addSd (Sidedef.ofSector id_s_mark)
    let id_sd_mark_outer_west ← addSd (fig.m_sd_markside.GetWithSector id_s_background_body_west)
    let _ ← addL (Linedef.mk4 id_v_body_middle id_v_mark_west
      id_sd_mark_inner_west id_sd_mark_outer_west)
    let _ ← addL (Linedef.mk4 id_v_mark_west id_v_west_right
      id_sd_middle_inner_west id_sd_middle_outer_west)
    M.update (fun fig => { fig with m_mark_sector_closed := true })
  else
    let _ ← addL (Linedef.mk4 id_v_east_left id_v_body_middle
      id_sd_middle_inner_east id_sd_middle_outer_east)
    let _ ← addL (Linedef.mk4 id_v_body_middle id_v_west_right
      id_sd_middle_inner_west id_sd_middle_outer_west)
  pure id_v_body_middle

/-- The final loop of `Finish` over `seam_sector_id_pairs`: entry `i` joins
`seam_vertex_ids[i]` and `seam_vertex_ids[i+1]`. -/
def Finish.seamLines : List (Nat × Nat) → List Nat → M RoadFigure Unit
  | sector_id_pair :: rest, vi :: vi1 :: vrest => do
    let id_sd_front ← addSd (Sidedef.ofSector sector_id_pair.1)
    let id_sd_back ← addSd (Sidedef.ofSector sector_id_pair.2)
    let _ ← addL (Linedef.mk4 vi vi1 id_sd_front id_sd_back)
    Finish.seamLines rest (vi1 :: vrest)
  | _, _ => pure ()

/-- Source: `RoadFigure::Finish`. -/
def Finish (lm : Libm) : M RoadFigure Unit := do
  Finish.validate
  let (id_v_background_middle, id_s_background_body_east, id_s_background_body_west) ←
    Finish.closeBackground lm
  let (id_v_fence_middle_far, id_v_fence_middle_near, id_s_fence_east, id_s_fence_west) ←
    Finish.closeFence lm id_s_background_body_east id_s_background_body_west
  let id_v_body_middle ←
    Finish.closeRoadFrame id_s_background_body_east id_s_background_body_west
  Finish.seamLines
    [(id_s_background_body_east, id_s_background_body_west),
     (id_s_fence_east, id_s_fence_west),
     (id_s_background_body_east, id_s_background_body_west)]
    [id_v_background_middle, id_v_fence_middle_far, id_v_fence_middle_near, id_v_body_middle]
  M.update (fun fig => { fig with
    m_sectors_closed := true, m_started_drawing := false, m_finished_drawing := true })

/-- Source: `RoadFigure::operator<< (const LineData&)`. -/
def Line (lm : Libm) (line : LineData) : M RoadFigure Unit := do
  let fig ← M.read
  if !fig.m_started_drawing || fig.m_finished_drawing then M.fail Err.lineNotDrawing
  else if line.length < 1 ∨ line.length > 32767 then M.fail Err.badLineLength
  else do
    let dx := line.length * lm.cos fig.m_angle
    let dy := line.length * lm.sin fig.m_angle
    ExtendBackground
      ((fig.m_v VSlot.m_v_background_west_left).GetMoved dx dy)
      ((fig.m_v VSlot.m_v_background_west_right).GetMoved dx dy)
      ((fig.m_v VSlot.m_v_background_east_left).GetMoved dx dy)
      ((fig.m_v VSlot.m_v_background_east_right).GetMoved dx dy)
    ExtendFence
      ((fig.m_v VSlot.m_v_fence_west_left).GetMoved dx dy)
      ((fig.m_v VSlot.m_v_fence_west_right).GetMoved dx dy)
      ((fig.m_v VSlot.m_v_fence_east_left).GetMoved dx dy)
      ((fig.m_v VSlot.m_v_fence_east_right).GetMoved dx dy)
    ExtendBody
      ((fig.m_v VSlot.m_v_west_left).GetMoved dx dy)
      ((fig.m_v VSlot.m_v_west_right).GetMoved dx dy)
      ((fig.m_v VSlot.m_v_east_left).GetMoved dx dy)
      ((fig.m_v VSlot.m_v_east_right).GetMoved dx dy)
    ExtendMark lm
      ((fig.m_v VSlot.m_v_mark_west).GetMoved dx dy)
      ((fig.m_v VSlot.m_v_mark_east).GetMoved dx dy)
    SetNullVertex (fig.m_v_null.GetMoved dx dy)
    M.update (fun fig => { fig with m_sectors_closed := false })
    if !Math.IsZeroOrCloseTo fig.m_slope_modifier.tangent then CloseSectors lm
    M.update (fun fig => { fig with
      m_v_mark_ids_prev := [], m_have_shapes := true, m_have_shape_with_current_slope := true })

/-- Source: `RoadFigure::GetMovedVertices`, for the fourteen source vertices of `Arc`
(the first of which is `m_v_background_west_left`); the result maps each source vertex
to its new position. -/
def GetMovedVertices (lm : Libm) (source_vertices : VSlot → Vertex)
    (v_prev_null v_null : Vertex) (angle : ℚ) : VSlot → Vertex :=
  let dir_prev_x := (source_vertices VSlot.m_v_background_west_left).x - v_prev_null.x
  let dir_prev_y := (source_vertices VSlot.m_v_background_west_left).y - v_prev_null.y
  let p_dir_x := -lm.sin angle
  let p_dir_y := lm.cos angle
  let dir_ang_positive := decide (dir_prev_x * p_dir_x + dir_prev_y * p_dir_y > 0)
  let dir_x := if dir_ang_positive then p_dir_x else -p_dir_x
  let dir_y := if dir_ang_positive then p_dir_y else -p_dir_y
  fun slot =>
    let v := source_vertices slot
    let dist := v.GetDistanceTo lm v_prev_null
    let v_dir_prev_x := v.x - v_prev_null.x
    let v_dir_prev_y := v.y - v_prev_null.y
    let dir_suits :=
      if !Math.IsZeroOrCloseTo v_dir_prev_x && !Math.IsZeroOrCloseTo dir_prev_x then
        decide ((v_dir_prev_x > 0 ∧ dir_prev_x > 0) ∨ (v_dir_prev_x < 0 ∧ dir_prev_x < 0))
      else if !Math.IsZeroOrCloseTo v_dir_prev_y && !Math.IsZeroOrCloseTo dir_prev_y then
        decide ((v_dir_prev_y > 0 ∧ dir_prev_y > 0) ∨ (v_dir_prev_y < 0 ∧ dir_prev_y < 0))
      else false
    let v_dir_x := if dir_suits then dir_x else -dir_x
    let v_dir_y := if dir_suits then dir_y else -dir_y
    { x := v_null.x + dist * v_dir_x, y := v_null.y + dist * v_dir_y }

/-- The body of the loop of `Arc` for step number `angix`. -/
def Arc.step (lm : Libm) (cx cy turn_sign step angle_abs : ℚ) (steps_count : Int) (angix : Nat) :
    M RoadFigure Unit := do
  let fig ← M.read
  let da := if (angix : Int) < steps_count - 1 then step
    else angle_abs - ((steps_count - 1 : Int) : ℚ) * step
  let cur_angle := Math.GetNormalizedAngle (fig.m_angle + turn_sign * da)
  let v_new_null := fig.m_v_null.GetRotated lm cx cy (turn_sign * da)
  let vertices := GetMovedVertices lm fig.m_v fig.m_v_null v_new_null cur_angle
  ExtendBackground
    (vertices VSlot.m_v_background_west_left) (vertices VSlot.m_v_background_west_right)
    (vertices VSlot.m_v_background_east_left) (vertices VSlot.m_v_background_east_right)
  ExtendFence
    (vertices VSlot.m_v_fence_west_left) (vertices VSlot.m_v_fence_west_right)
    (vertices VSlot.m_v_fence_east_left) (vertices VSlot.m_v_fence_east_right)
  ExtendBody
    (vertices VSlot.m_v_west_left) (vertices VSlot.m_v_west_right)
    (vertices VSlot.m_v_east_left) (vertices VSlot.m_v_east_right)
  ExtendMark lm (vertices VSlot.m_v_mark_west) (vertices VSlot.m_v_mark_east)
  SetNullVertex v_new_null
  M.update (fun fig => { fig with m_sectors_closed := false })
  if !Math.IsZeroOrCloseTo fig.m_slope_modifier.tangent then CloseSectors lm
  M.update (fun fig => { fig with m_v_mark_ids_prev := [], m_angle := cur_angle })

/-- Source: `RoadFigure::operator<< (const ArcData&)`. -/
def Arc (lm : Libm) (arc : ArcData) : M RoadFigure Unit := do
  let fig ← M.read
  if !fig.m_started_drawing || fig.m_finished_drawing then M.fail Err.arcNotDrawing
  else if arc.curve < fig.m_total_width / 2 + 1 then M.fail Err.arcRadiusTooSmall
  else if arc.curve > 65535 then M.fail Err.arcRadiusTooBig
  else if arc.divider < 2 then M.fail Err.badArcDivider
  else
    let turn_sign : ℚ := if arc.angle > 0 then 1 else -1
    let angle_abs := turn_sign * arc.angle
    if angle_abs > 2 * Math.PI ∨ Math.IsZeroOrCloseTo arc.angle = true then M.fail Err.badArcAngle
    else
      let cx := fig.m_v_null.x - turn_sign * arc.curve * lm.sin fig.m_angle
      let cy := fig.m_v_null.y + turn_sign * arc.curve * lm.cos fig.m_angle
      let steps_count := arc.divider
      let step := angle_abs / (steps_count : ℚ)
      if Math.IsZeroOrCloseTo step then M.fail Err.arcDividerTooBig
      else
        let v0 := if turn_sign > 0 then fig.m_v VSlot.m_v_background_east_right
          else fig.m_v VSlot.m_v_background_west_left
        let v := v0.GetRotated lm cx cy (turn_sign * step)
        let dist := v.GetDistanceTo lm v0
        if dist < SMALLEST_ARC_LINE then M.fail Err.arcStepTooSmall
        else do
          onChecker IntersectionChecker.StartEncirclingQuad
          forEach (Arc.step lm cx cy turn_sign step angle_abs steps_count)
            (List.range steps_count.toNat)
          onChecker IntersectionChecker.EndEncirclingQuad
          M.update (fun fig => { fig with
            m_have_shapes := true, m_have_shape_with_current_slope := true })

/-- Source: `RoadFigure::operator<< (const SlopeModifier&)`. -/
def SlopeModifier (lm : Libm) (slope_modifier : SlopeModifierData) : M RoadFigure Unit := do
  let fig ← M.read
  if !fig.m_started_drawing || fig.m_finished_drawing then M.fail Err.slopeNotDrawing
  else if !Math.IsZeroOrCloseTo fig.m_slope_modifier.tangent && !fig.m_have_shapes then
    M.fail Err.slopeAtBeginning
  else if fig.m_slope_modifier.tangent < -(1 / 2) ∨ fig.m_slope_modifier.tangent > 1 / 2 then
    M.fail Err.slopeTooBig
  else do
    if Math.IsZeroOrCloseTo fig.m_slope_modifier.tangent then CloseSectors lm
    M.update (fun fig => { fig with
      m_slope_modifier := slope_modifier, m_have_shape_with_current_slope := false })

end RoadFigure

/-! ## The orchestrator (`GetGeneratedRoad`) -/

/-- The local variables of `GetGeneratedRoad` that live across the loop; the map and
the intersection checker are those held by `cur_figure`. -/
structure GenState where
  cur_figure : RoadFigure
  drawing_started : Bool := false
  player_start_info : Udmf.PlayerStartInfo := {}
  have_player_start : Bool := false

namespace GetGeneratedRoad

/-- Run a member function of `*cur_figure`. -/
def onFigure {α : Type} (m : M RoadFigure α) : M GenState α := fun st =>
  match m st.cur_figure with
  | (r, fig) => (r, { st with cur_figure := fig })

/-- The body of the loop of `GetGeneratedRoad` for one input object. -/
def step (lm : Libm) (road_config : RoadConfig) (obj : RoadFigureObject) : M GenState Unit := do
  match obj with
  | RoadFigureObject.StartModifier start_data =>
    let st ← M.read
    if st.drawing_started then onFigure (RoadFigure.Finish lm)
    M.update (fun st => { st with
      cur_figure := RoadFigure.new road_config start_data st.cur_figure.m_map
        st.cur_figure.m_intersection_checker })
    onFigure (RoadFigure.onChecker IntersectionChecker.CutFigure)
    M.update (fun st => { st with
      drawing_started := false
      player_start_info :=
        { x := start_data.x_null
          y := start_data.y_null
          deg_angle := Math.truncToInt
            (Math.RadiansToDegrees (Math.GetNormalizedAngle start_data.angle)) } })
  | obj =>
    let st ← M.read
    if !st.drawing_started then
      onFigure (RoadFigure.Start lm)
      M.update (fun st => { st with drawing_started := true })
    let st ← M.read
    if !st.have_player_start then
      onFigure (RoadFigure.onMap (Udmf.setPlayerStart st.player_start_info))
      M.update (fun st => { st with have_player_start := true })
    match obj with
    | RoadFigureObject.Line data => onFigure (RoadFigure.Line lm data)
    | RoadFigureObject.Arc data => onFigure (RoadFigure.Arc lm data)
    | RoadFigureObject.SlopeModifier data => onFigure (RoadFigure.SlopeModifier lm data)
    | RoadFigureObject.StartModifier _ => M.fail Err.unknownObjectType

/-- The state of `GetGeneratedRoad` before its loop: the empty map with the nine
textures of the config, a new intersection checker, and the default figure. -/
def init (road_config : RoadConfig) : GenState :=
  { cur_figure := RoadFigure.new road_config
      { x_null := 0, y_null := 0, angle := 0, zpos := 0, height := 1024
        mark_shift := road_config.sizes.road_mark_length
          + 3 * road_config.sizes.road_mark_gap / 4 }
      { textures := List.ofFn road_config.textures }
      (some {}) }

/-- The whole body of `GetGeneratedRoad` as a computation on its local state. -/
def body (lm : Libm) (road_config : RoadConfig) (input_data : List RoadFigureObject) :
    M GenState Unit := do
  RoadFigure.forEach (step lm road_config) input_data
  let st ← M.read
  if st.drawing_started then onFigure (RoadFigure.Finish lm)

end GetGeneratedRoad

/-- Source: `GetGeneratedRoad`: the outcome (normal return or exception) and the value
of the output parameter `map` at that moment. -/
def GetGeneratedRoad (lm : Libm) (input_data : List RoadFigureObject) (road_config : RoadConfig) :
    Except Err Unit × Udmf.Map :=
  match GetGeneratedRoad.body lm road_config input_data (GetGeneratedRoad.init road_config) with
  | (r, st) => (r, st.cur_figure.m_map)

/-! ## Concrete inputs used by the examples -/

/-- Newton iteration for the integer square root of `n` from the guess `g`, for at most
the given number of steps. -/
def exampleSqrtNat.iter (n : Nat) : Nat → Nat → Nat
  | 0, g => g
  | k + 1, g =>
    let next := (g + n / g) / 2
    if next < g then exampleSqrtNat.iter n k next else g

/-- An integer square root of `n`, by Newton iteration from `n / 2` with at most 200
steps. -/
def exampleSqrtNat (n : Nat) : Nat :=
  if n ≤ 1 then n else exampleSqrtNat.iter n 200 (n / 2)

/-- A computable stand-in for the C library, used to run the model on examples: the
square root is the quotient of the integer square roots of numerator and denominator,
and cosine and sine are the Taylor
polynomials of degree four and five, exact at angle `0`. -/
def exampleLibm : Libm :=
  { cos := fun a => 1 - a * a / 2 + a * a * a * a / 24
    sin := fun a => a - a * a * a / 6 + a * a * a * a * a / 120
    sqrt := fun q => (exampleSqrtNat q.num.toNat : ℚ) / (exampleSqrtNat q.den : ℚ) }

/-! ## Predicates used to state the properties -/

open Math in
/-- Twice the signed area of the triangle `p q r`: zero exactly when the three points
are collinear, positive when `r` is to the left of the directed line `p q`. -/
def cross (p q r : Point2D) : ℚ :=
  (q.x - p.x) * (r.y - p.y) - (q.y - p.y) * (r.x - p.x)

open Math in
/-- Three points are exactly collinear (repeated points included). -/
def Collinear (p q r : Point2D) : Prop := cross p q r = 0

open Math in
/-- The points `r` and `s` lie strictly on opposite sides of the line through `p` and
`q`. -/
def OppositeSides (p q r s : Point2D) : Prop := cross p q r * cross p q s < 0

open Math in
/-- The ordered quadrilateral `p1 p2 p3 p4` is not strictly convex: three of its
vertices are collinear, or for some edge the two remaining vertices lie on opposite
sides of the edge's line (a concave or self-intersecting quadrilateral). -/
def NotStrictlyConvex (p1 p2 p3 p4 : Point2D) : Prop :=
  Collinear p1 p2 p3 ∨ Collinear p1 p2 p4 ∨ Collinear p1 p3 p4 ∨ Collinear p2 p3 p4
  ∨ OppositeSides p1 p2 p3 p4 ∨ OppositeSides p2 p3 p4 p1
  ∨ OppositeSides p3 p4 p1 p2 ∨ OppositeSides p4 p1 p2 p3

open Math in
/-- The value `a*x + b*y + c` that `GetPointLinePos2D` classifies. -/
def lineVal (l_eq : LineEquation2D) (p : Point2D) : ℚ := l_eq.a * p.x + l_eq.b * p.y + l_eq.c

/-- The quads and sub-quads stored in a slot: the quad of a plain slot, the sub-quads of
an encircling slot (its bounding quad is derived data, not an accepted quad). -/
def QuadWithSubquads.stored (slot : QuadWithSubquads) : List QuadInfo :=
  match slot.second with
  | none => [slot.first]
  | some subs => subs

/-- All accepted quads and sub-quads held by the checker, in the order of acceptance. -/
def IntersectionChecker.storedQuads (ck : IntersectionChecker) : List QuadInfo :=
  ck.m_quads.flatMap QuadWithSubquads.stored

/-- A slot that is not being built: a plain quad, or a non-empty sub-quad list whose
encircling quad has been computed. -/
def QuadWithSubquads.Closed (slot : QuadWithSubquads) : Prop :=
  match slot.second with
  | none => True
  | some subs => subs ≠ [] ∧ slot.first.IsNull = false

/-- The state invariant of the checker: every slot but the last is closed (only the
last slot can hold an encircling quad under construction). -/
def IntersectionChecker.WF (ck : IntersectionChecker) : Prop :=
  ∀ slot ∈ ck.m_quads.dropLast, slot.Closed

/-- The point `p` is classified by every edge equation of the quad as lying on the
quad's interior side (so farther than the tolerance from each edge line). -/
def StrictlyInside (p : Math.Point2D) (quad : QuadInfo) : Prop :=
  ∀ ix, ix < 4 →
    Math.GetPointLinePos2D p (quad.segments.get ix).line_equation
      = (quad.segments.get ix).other_points_pos

/-- The last slot of a reachable checker: closed, or an encircling quad under
construction (its quad is still null and its sub-quad array exists). -/
def QuadWithSubquads.ClosedOrPending (slot : QuadWithSubquads) : Prop :=
  slot.Closed ∨ (slot.first.IsNull = true ∧ slot.second.isSome = true)

/-- The invariant kept by the four public operations of the checker, starting from
the new checker: the weak invariant `WF`, and the last slot is closed or pending. -/
def IntersectionChecker.StateInv (ck : IntersectionChecker) : Prop :=
  ck.WF ∧ ∀ slot, ck.m_quads.getLast? = some slot → slot.ClosedOrPending

/-- The quad info of the square with corners `(0,0)`, `(0,10)`, `(10,10)`, `(10,0)`. -/
def exampleSquare : QuadInfo :=
  { vertices := ⟨⟨0, 0⟩, ⟨0, 10⟩, ⟨10, 10⟩, ⟨10, 0⟩⟩
    segments :=
      ⟨{ line_equation := { a := 1, b := 0, c := 0 }, length_squared := 100
         other_points_pos := Math.EnPointLinePos2D.enPointLinePos2D_HalfPlanePos },
       { line_equation := { a := 0, b := 1, c := -10 }, length_squared := 100
         other_points_pos := Math.EnPointLinePos2D.enPointLinePos2D_HalfPlaneNeg },
       { line_equation := { a := 1, b := 0, c := -10 }, length_squared := 100
         other_points_pos := Math.EnPointLinePos2D.enPointLinePos2D_HalfPlaneNeg },
       { line_equation := { a := 0, b := 1, c := 0 }, length_squared := 100
         other_points_pos := Math.EnPointLinePos2D.enPointLinePos2D_HalfPlanePos }⟩ }

/-- Equality of outcomes is decidable when equality of errors and of values is. -/
instance instDecidableEqExceptErr {α : Type} [DecidableEq α] : DecidableEq (Except Err α) :=
  fun a b =>
    match a, b with
    | Except.ok x, Except.ok y =>
      if h : x = y then isTrue (by rw [h]) else isFalse (fun hc => h (Except.ok.inj hc))
    | Except.error x, Except.error y =>
      if h : x = y then isTrue (by rw [h]) else isFalse (fun hc => h (Except.error.inj hc))
    | Except.ok _, Except.error _ => isFalse (fun hc => Except.noConfusion hc)
    | Except.error _, Except.ok _ => isFalse (fun hc => Except.noConfusion hc)

/-- Some edge of quad 1 and some edge of quad 2 are found to touch or cross by the body
of the inner loop of `QuadsHaveCommonPoints`. -/
def anyEdgePairHit (quad_info1 quad_info2 : QuadInfo) : Bool :=
  [0, 1, 2, 3].any (fun ix1 =>
    [0, 1, 2, 3].any (fun ix2 => edgePairHit quad_info1 quad_info2 ix1 ix2))

instance instDecidableStrictlyInside (p : Math.Point2D) (quad : QuadInfo) :
    Decidable (StrictlyInside p quad) := by
  unfold StrictlyInside
  infer_instance

/-- The quad info that `GetQuadInfo` computes for the kite with corners `(4,4)`, `(5,5)`,
`(6,4)`, `(5,3)`, which lies inside `exampleSquare`. -/
def exampleInnerQuad : QuadInfo :=
  match GetQuadInfo ⟨4, 4⟩ ⟨5, 5⟩ ⟨6, 4⟩ ⟨5, 3⟩ with
  | Except.ok q => q
  | Except.error _ => {}

/-- The quad info that `GetQuadInfo` computes for the kite with corners
`(5, 1/131072)`, `(4,4)`, `(5,5)`, `(6,4)`: it lies inside `exampleSquare`, and its
first corner is closer than the tolerance to the bottom edge of the square. -/
def exampleKite : QuadInfo :=
  match GetQuadInfo ⟨5, 1 / 131072⟩ ⟨4, 4⟩ ⟨5, 5⟩ ⟨6, 4⟩ with
  | Except.ok q => q
  | Except.error _ => {}

/-- The quad info of the same kite with the vertices given from the second corner
on: `(4,4)`, `(5,5)`, `(6,4)`, `(5, 1/131072)`. -/
def exampleKiteRotated : QuadInfo :=
  match GetQuadInfo ⟨4, 4⟩ ⟨5, 5⟩ ⟨6, 4⟩ ⟨5, 1 / 131072⟩ with
  | Except.ok q => q
  | Except.error _ => {}

/-- The quad info of `exampleInnerQuad` with the vertices given from the second corner
on: `(5,5)`, `(6,4)`, `(5,3)`, `(4,4)`. -/
def exampleInnerQuadRotated : QuadInfo :=
  match GetQuadInfo ⟨5, 5⟩ ⟨6, 4⟩ ⟨5, 3⟩ ⟨4, 4⟩ with
  | Except.ok q => q
  | Except.error _ => {}

/-- The operations of a `RoadFigure` that a caller can invoke. -/
inductive FigureOp where
  | start
  | finish
  | line (data : LineData)
  | arc (data : ArcData)
  | slope (data : SlopeModifierData)

/-- Invoke one operation on the figure. -/
def FigureOp.run (lm : Libm) : FigureOp → M RoadFigure Unit
  | FigureOp.start => RoadFigure.Start lm
  | FigureOp.finish => RoadFigure.Finish lm
  | FigureOp.line data => RoadFigure.Line lm data
  | FigureOp.arc data => RoadFigure.Arc lm data
  | FigureOp.slope data => RoadFigure.SlopeModifier lm data

/-- Invoke a sequence of operations one after the other, going on after a failed one
(as a caller that catches the exception could do); the result is the final state. -/
def FigureOp.runAll (lm : Libm) : List FigureOp → RoadFigure → RoadFigure
  | [], fig => fig
  | op :: rest, fig => FigureOp.runAll lm rest (op.run lm fig).2

/-- Partial correctness: if the computation returns normally from state `s`, the
result and the final state satisfy `Q` (nothing is claimed when it throws). -/
def M.wlp {σ α : Type} (m : M σ α) (Q : α → σ → Prop) (s : σ) : Prop :=
  match m s with
  | (Except.ok a, s1) => Q a s1
  | (Except.error _, _) => True

/-- Total correctness: the computation returns normally from state `s`, and the result
and the final state satisfy `Q`. -/
def M.wp {σ α : Type} (m : M σ α) (Q : α → σ → Prop) (s : σ) : Prop :=
  match m s with
  | (Except.ok a, s1) => Q a s1
  | (Except.error _, _) => False

namespace Udmf

/-- The references of a linedef pass the checks of `WriteMapToStream`, for arrays of
`nv` vertices and `nsd` sidedefs. -/
def Linedef.RefsOK (nv nsd : Nat) (l : Linedef) : Prop :=
  l.v1 < nv ∧ l.v2 < nv ∧ l.sidefront < nsd ∧ (l.sideback = ID_INVALID ∨ l.sideback < nsd)

/-- The three texture ids of a sidedef are below the texture table size `nt`. -/
def Sidedef.TexOK (nt : Nat) (sd : Sidedef) : Prop :=
  sd.texturetop < nt ∧ sd.texturebottom < nt ∧ sd.texturemiddle < nt

/-- The references of a sidedef pass the checks of `WriteMapToStream`, for an array of
`nsec` sectors and a texture table of size `nt`. -/
def Sidedef.RefsOK (nsec nt : Nat) (sd : Sidedef) : Prop :=
  sd.sector < nsec ∧ sd.TexOK nt

/-- The texture ids of a sector pass the checks of `WriteMapToStream`, for a texture
table of size `nt`. -/
def Sector.RefsOK (nt : Nat) (s : Sector) : Prop :=
  s.texturefloor < nt ∧ s.textureceiling < nt

/-- Reference closure of a map: no cross-reference check of `WriteMapToStream` (vertex,
sidedef, sector and texture ids) can throw on it. -/
structure Map.RefsOK (map : Map) : Prop where
  linedefs : ∀ l ∈ map.linedefs, l.RefsOK map.vertices.length map.sidedefs.length
  sidedefs : ∀ sd ∈ map.sidedefs, sd.RefsOK map.sectors.length map.textures.length
  sectors : ∀ s ∈ map.sectors, s.RefsOK map.textures.length

end Udmf

/-- The invariant of the figure builder behind reference closure: the map is closed
and has the nine textures of the config, every id remembered in `m_last_ids` exists, and
the sector and sidedef templates use existing textures. -/
structure RoadFigure.Inv (s : RoadFigure) : Prop where
  closed : s.m_map.RefsOK
  textures : s.m_map.textures.length = 9
  lastV : ∀ slot id, s.m_last_ids_v slot = some id → id < s.m_map.vertices.length
  lastS : ∀ slot id, s.m_last_ids_s slot = some id → id < s.m_map.sectors.length
  templates : ∀ slot, (s.m_s slot).RefsOK 9
  roadside : s.m_sd_roadside.TexOK 9
  markside : s.m_sd_markside.TexOK 9
  fenceside : s.m_sd_fenceside.TexOK 9

/-- The map of `s1` has at least as many vertices, sidedefs and sectors as that of
`s`. -/
def RoadFigure.Grown (s s1 : RoadFigure) : Prop :=
  s.m_map.vertices.length ≤ s1.m_map.vertices.length
  ∧ s.m_map.sidedefs.length ≤ s1.m_map.sidedefs.length
  ∧ s.m_map.sectors.length ≤ s1.m_map.sectors.length

/-- One restart followed only by `Line` commands: a straight road of two pieces. -/
def exampleRoad : List RoadFigureObject :=
  [RoadFigureObject.StartModifier
     { x_null := 0, y_null := 0, angle := 0, zpos := 0, height := 1024, mark_shift := 0 },
   RoadFigureObject.Line { length := 2000 },
   RoadFigureObject.Line { length := 500 }]

/-- The lifecycle state `NotStarted`: neither `Start` nor `Finish` has succeeded. -/
@[reducible] def RoadFigure.NotStarted (fig : RoadFigure) : Prop :=
  fig.m_started_drawing = false ∧ fig.m_finished_drawing = false

/-- The lifecycle state `Drawing`: `Start` has succeeded and `Finish` has not. -/
@[reducible] def RoadFigure.Drawing (fig : RoadFigure) : Prop :=
  fig.m_started_drawing = true ∧ fig.m_finished_drawing = false

/-- The lifecycle state `Finished`: `Finish` has succeeded. -/
@[reducible] def RoadFigure.Finished (fig : RoadFigure) : Prop :=
  fig.m_finished_drawing = true

/-- The empty map with the nine textures of the default config. -/
def exampleMap : Udmf.Map := { textures := List.ofFn defaultRoadConfig.textures }

/-- A new figure at the origin with floor `0` and height `1024`, on the empty map, with
a new intersection checker. -/
def exampleNewFigure : RoadFigure :=
  RoadFigure.new defaultRoadConfig { height := 1024 } exampleMap (some {})

/-- The figure `exampleNewFigure` after `Start`. -/
def exampleStartedFigure : RoadFigure := (RoadFigure.Start exampleLibm exampleNewFigure).2

/-- The figure `exampleNewFigure` after `Start` and a line of length `2000`. -/
def exampleDrawingFigure : RoadFigure :=
  (RoadFigure.Line exampleLibm { length := 2000 } exampleStartedFigure).2

/-- The figure `exampleDrawingFigure` after `Finish`. -/
def exampleFinishedFigure : RoadFigure :=
  (RoadFigure.Finish exampleLibm exampleDrawingFigure).2

/-- A new figure whose origin is out of range (`x = 30001`). -/
def exampleFarFigure : RoadFigure :=
  RoadFigure.new defaultRoadConfig { x_null := 30001, height := 1024 } exampleMap (some {})

/-- A new figure at the origin with floor `0` whose height `128` is the fence height of
the default config. -/
def exampleLowFigure : RoadFigure :=
  RoadFigure.new defaultRoadConfig { height := 128 } exampleMap (some {})

/-- What the proof that `Start` returns normally tracks about a state `s` reached from
the state `s0`: the members of `V` and `S` have an id in `m_last_ids`, at most `k` entries
were added to each array of the map, the vertex members have the values `mv`, and the
intersection checker is `ck`. -/
structure RoadFigure.Track (s0 : RoadFigure) (V : List VSlot) (S : List SSlot) (k : Nat)
    (mv : VSlot → Udmf.Vertex) (ck : Option IntersectionChecker) (s : RoadFigure) : Prop where
  defV : ∀ sl ∈ V, (s.m_last_ids_v sl).isSome = true
  defS : ∀ sl ∈ S, (s.m_last_ids_s sl).isSome = true
  nv : s.m_map.vertices.length ≤ s0.m_map.vertices.length + k
  nl : s.m_map.linedefs.length ≤ s0.m_map.linedefs.length + k
  nsd : s.m_map.sidedefs.length ≤ s0.m_map.sidedefs.length + k
  nsec : s.m_map.sectors.length ≤ s0.m_map.sectors.length + k
  m_v : s.m_v = mv
  checker : s.m_intersection_checker = ck

/-- The map of `s0` has room for `n` more entries in each of its arrays. -/
@[reducible] def RoadFigure.HasRoom (s0 : RoadFigure) (n : Nat) : Prop :=
  s0.m_map.vertices.length + n ≤ Udmf.ID_MAX
  ∧ s0.m_map.linedefs.length + n ≤ Udmf.ID_MAX
  ∧ s0.m_map.sidedefs.length + n ≤ Udmf.ID_MAX
  ∧ s0.m_map.sectors.length + n ≤ Udmf.ID_MAX

/-- The figure of `exampleNewFigure` without an intersection checker, after `Start`. -/
def exampleUncheckedFigure : RoadFigure :=
  (RoadFigure.Start exampleLibm
    (RoadFigure.new defaultRoadConfig { height := 1024 } exampleMap none)).2

/-- The scenario of a figure started at `(0,0)` with heading `0`, floor `0`, height
`1024` and mark phase `0`, followed by a line of length `2000`. -/
def exampleDashRoad : List RoadFigureObject :=
  [RoadFigureObject.StartModifier
     { x_null := 0, y_null := 0, angle := 0, zpos := 0, height := 1024, mark_shift := 0 },
   RoadFigureObject.Line { length := 2000 }]

/-- Two restarts before the first drawing command: the first at `(0,0)`, the second at
`(100,200)`. -/
def exampleTwoRestarts : List RoadFigureObject :=
  [RoadFigureObject.StartModifier
     { x_null := 0, y_null := 0, angle := 0, zpos := 0, height := 1024, mark_shift := 0 },
   RoadFigureObject.StartModifier
     { x_null := 100, y_null := 200, angle := 0, zpos := 0, height := 1024, mark_shift := 0 },
   RoadFigureObject.Line { length := 2000 }]

/-- The number of road-mark sectors of a map: the sectors whose floor has the road-mark
texture. -/
def Udmf.Map.markSectorCount (map : Udmf.Map) : Nat :=
  (map.sectors.filter (fun s => s.texturefloor = RoadConfig.enTexture_RoadMark)).length

/-- The `x` coordinates, in the order of insertion, of the vertices of a map that lie on
the line `y = y0`. -/
def Udmf.Map.xsOnLine (map : Udmf.Map) (y0 : ℚ) : List ℚ :=
  (map.vertices.filter (fun v => v.y = y0)).map (fun v => v.x)

/-- A computation never leaves the relation `R` between its initial state and its final
state, whether it returns normally or with an error. -/
structure M.pres {σ α : Type} (R : σ → σ → Prop) (m : M σ α) : Prop where
  run : ∀ s, R s (m s).2

/-- The members of a figure that no operation of the figure writes after the
constructor: the configuration and the player start of the map. -/
structure RoadFigure.Stay (s s1 : RoadFigure) : Prop where
  cfg : s1.m_config = s.m_config
  have_player_start : s1.m_map.have_player_start = s.m_map.have_player_start
  player_start_info : s1.m_map.player_start_info = s.m_map.player_start_info

/-- The members of `Stay` and the dash accumulator `m_mark_coord`, which only the loop
of `ExtendMark` writes after the constructor. -/
structure RoadFigure.Frame (s s1 : RoadFigure) : Prop where
  cfg : s1.m_config = s.m_config
  coord : s1.m_mark_coord = s.m_mark_coord
  have_player_start : s1.m_map.have_player_start = s.m_map.have_player_start
  player_start_info : s1.m_map.player_start_info = s.m_map.player_start_info

/-- The dash accumulator of the figure is in `[0, road_mark_length + road_mark_gap)`. -/
@[reducible] def RoadFigure.DashInRange (fig : RoadFigure) : Prop :=
  0 ≤ fig.m_mark_coord
  ∧ fig.m_mark_coord < fig.m_config.sizes.road_mark_length + fig.m_config.sizes.road_mark_gap

/-- The player start that `GetGeneratedRoad` records for a restart command. -/
def GetGeneratedRoad.playerStartOf (start_data : StartModifierData) : Udmf.PlayerStartInfo :=
  { x := start_data.x_null
    y := start_data.y_null
    deg_angle := Math.truncToInt
      (Math.RadiansToDegrees (Math.GetNormalizedAngle start_data.angle)) }

/-- The command is a restart (`StartModifier`). -/
def RoadFigureObject.isStart : RoadFigureObject → Bool
  | RoadFigureObject.StartModifier _ => true
  | _ => false

/-- The dash accumulator stays in its range: the members of `Stay` are kept and, when
the mark gap is positive, a figure whose accumulator is in range is taken to a figure
whose accumulator is in range. -/
structure RoadFigure.Keep (s s1 : RoadFigure) : Prop where
  stay : RoadFigure.Stay s s1
  dash : 0 < s.m_config.sizes.road_mark_gap → s.DashInRange → s1.DashInRange

/-- The final state of the computation started in `s`, reached by a normal return or by
an error, satisfies `Q`. -/
def M.post {σ α : Type} (m : M σ α) (Q : σ → Prop) (s : σ) : Prop := Q (m s).2

/-- What `GetGeneratedRoad` holds about the player start at a point of its loop: the
locals `have_player_start` and `player_start_info`, and the two player-start fields of
the map. -/
def GenState.playerView (st : GenState) :
    Bool × Udmf.PlayerStartInfo × Bool × Udmf.PlayerStartInfo :=
  (st.have_player_start, st.player_start_info,
   st.cur_figure.m_map.have_player_start, st.cur_figure.m_map.player_start_info)

/-- Two states of `GetGeneratedRoad` hold the same about the player start. -/
@[reducible] def GenState.SameView (st st1 : GenState) : Prop := st1.playerView = st.playerView

/-- The effect of one command of the input on the player-start view: a restart records
its own player start in the local; the first other command copies the local to the map. -/
def GetGeneratedRoad.viewStep (v : Bool × Udmf.PlayerStartInfo × Bool × Udmf.PlayerStartInfo)
    (obj : RoadFigureObject) : Bool × Udmf.PlayerStartInfo × Bool × Udmf.PlayerStartInfo :=
  match obj with
  | RoadFigureObject.StartModifier start_data =>
    (v.1, GetGeneratedRoad.playerStartOf start_data, v.2.2.1, v.2.2.2)
  | _ => if v.1 then v else (true, v.2.1, true, v.2.1)

/-- The player start of the last command of a list of restarts; `(0, 0)` with heading
`0`, the initial value of the local `player_start_info`, when the list is empty. -/
def GetGeneratedRoad.lastStart (starts : List RoadFigureObject) : Udmf.PlayerStartInfo :=
  match starts.getLast? with
  | some (RoadFigureObject.StartModifier start_data) => GetGeneratedRoad.playerStartOf start_data
  | _ => { x := 0, y := 0, deg_angle := 0 }

/-- The figure `exampleDrawingFigure` with the pending slope tangent `1/4`. -/
def exampleSlopedFigure : RoadFigure :=
  (RoadFigure.SlopeModifier exampleLibm { tangent := 1 / 4 } exampleDrawingFigure).2

/-! ## The lump names of the WAD writer (`io.cpp`) -/

/-- Source: `std::string::find(char)` on the string `s`: the index of the first occurrence
of `c`, or `npos` (here `none`). -/
def Io.stringFind : List Char → Char → Option Nat
  | [], _ => none
  | d :: rest, c => if d = c then some 0 else (Io.stringFind rest c).map (fun ix => ix + 1)

/-- Source: `WadWriter::IsValidLumpName`; a `std::string` is the list of its characters,
and `npos` (the largest `size_t`) is below no size. -/
def Io.WadWriter.IsValidLumpName (lump_name : List Char) : Bool :=
  if lump_name.isEmpty || decide (lump_name.length > 8) then false
  else
    let allowed_nonalphanum_chars : List Char := ['[', ']', '-', '_', Char.ofNat 92]
    lump_name.all (fun c =>
      (decide ('A' ≤ c) && decide (c ≤ 'Z'))
      || (decide ('0' ≤ c) && decide (c ≤ '9'))
      || (match Io.stringFind allowed_nonalphanum_chars c with
          | some ix => decide (ix < lump_name.length)
          | none => false))

/-- The quad info of the square with corners `(10,10)`, `(10,20)`, `(20,20)`, `(20,10)`. -/
def exampleCornerSquare : QuadInfo :=
  { vertices := ⟨⟨10, 10⟩, ⟨10, 20⟩, ⟨20, 20⟩, ⟨20, 10⟩⟩
    segments :=
      ⟨{ line_equation := { a := 1, b := 0, c := -10 }, length_squared := 100
         other_points_pos := Math.EnPointLinePos2D.enPointLinePos2D_HalfPlanePos },
       { line_equation := { a := 0, b := 1, c := -20 }, length_squared := 100
         other_points_pos := Math.EnPointLinePos2D.enPointLinePos2D_HalfPlaneNeg },
       { line_equation := { a := 1, b := 0, c := -20 }, length_squared := 100
         other_points_pos := Math.EnPointLinePos2D.enPointLinePos2D_HalfPlaneNeg },
       { line_equation := { a := 0, b := 1, c := -10 }, length_squared := 100
         other_points_pos := Math.EnPointLinePos2D.enPointLinePos2D_HalfPlanePos }⟩ }

/-- The quad info that `GetQuadInfo` computes for the square with corners `(10,0)`,
`(10,10)`, `(20,10)`, `(20,0)`, which shares an edge with `exampleSquare`. -/
def exampleAdjacentSquare : QuadInfo :=
  match GetQuadInfo ⟨10, 0⟩ ⟨10, 10⟩ ⟨20, 10⟩ ⟨20, 0⟩ with
  | Except.ok q => q
  | Except.error _ => {}

/-- The checker in which an encircling quad is under construction and holds the two
sub-quads `exampleSquare` and `exampleAdjacentSquare`. -/
def exampleOpenList : IntersectionChecker :=
  { m_quads := [{ first := {}, second := some [exampleSquare, exampleAdjacentSquare] }]
    m_new_figure := false }

/-- The left half `(0,0)`, `(0,10)`, `(5,10)`, `(5,0)` of `exampleSquare`. -/
def exampleLeftHalf : QuadInfo :=
  match GetQuadInfo ⟨0, 0⟩ ⟨0, 10⟩ ⟨5, 10⟩ ⟨5, 0⟩ with
  | Except.ok q => q
  | Except.error _ => {}

/-- The right half `(5,0)`, `(5,10)`, `(10,10)`, `(10,0)` of `exampleSquare`. -/
def exampleRightHalf : QuadInfo :=
  match GetQuadInfo ⟨5, 0⟩ ⟨5, 10⟩ ⟨10, 10⟩ ⟨10, 0⟩ with
  | Except.ok q => q
  | Except.error _ => {}

/-- The quad info that `GetQuadInfo` computes for the diamond with corners
`(1/200000, 5)`, `(3,8)`, `(6,5)`, `(3,2)`: it lies inside `exampleSquare`, crosses the
line `x = 5`, and its first corner is closer than the tolerance to the left edge of the
square. -/
def exampleDiamond : QuadInfo :=
  match GetQuadInfo ⟨1 / 200000, 5⟩ ⟨3, 8⟩ ⟨6, 5⟩ ⟨3, 2⟩ with
  | Except.ok q => q
  | Except.error _ => {}

/-- The checker after `StartEncirclingQuad`, `AddQuad` of the left half, `AddQuad` of the
right half and `EndEncirclingQuad`: one closed slot whose encircling quad is
`exampleSquare`. -/
def exampleClosedList : IntersectionChecker :=
  { m_quads := [{ first := exampleSquare, second := some [exampleLeftHalf, exampleRightHalf] }]
    m_new_figure := false }

/-- The naive check of a candidate against every stored quad: some stored plain quad or
stored sub-quad other than the exempt neighbour has common points with the candidate. -/
def IntersectionChecker.NaiveHit (ck : IntersectionChecker) (neighbor : Option QuadRef)
    (candidate : QuadInfo) : Prop :=
  ∃ idx slot, ck.m_quads.get? idx = some slot ∧
    match slot.second with
    | none => neighbor ≠ some (QuadRef.first idx)
        ∧ QuadsHaveCommonPoints slot.first candidate = true
    | some subs => ∃ j r, subs.get? j = some r ∧ neighbor ≠ some (QuadRef.sub idx j)
        ∧ QuadsHaveCommonPoints r candidate = true

/-- The naive check restricted to the slots whose (encircling) quad has common points
with the candidate. -/
def IntersectionChecker.FilteredHit (ck : IntersectionChecker) (neighbor : Option QuadRef)
    (candidate : QuadInfo) : Prop :=
  ∃ idx slot, ck.m_quads.get? idx = some slot ∧ neighbor ≠ some (QuadRef.first idx)
    ∧ QuadsHaveCommonPoints slot.first candidate = true ∧
    match slot.second with
    | none => True
    | some subs => ∃ j r, subs.get? j = some r ∧ neighbor ≠ some (QuadRef.sub idx j)
        ∧ QuadsHaveCommonPoints r candidate = true

/-- The numbers `xmin`, `ymin`, `xmax`, `ymax` are the minimum and maximum coordinates
over the points of the list: they bound every point and each is attained. -/
def IsBoundingBox (vs : List Math.Point2D) (xmin ymin xmax ymax : ℚ) : Prop :=
  (∀ v ∈ vs, xmin ≤ v.x ∧ v.x ≤ xmax ∧ ymin ≤ v.y ∧ v.y ≤ ymax)
  ∧ (∃ v ∈ vs, v.x = xmin) ∧ (∃ v ∈ vs, v.x = xmax)
  ∧ (∃ v ∈ vs, v.y = ymin) ∧ (∃ v ∈ vs, v.y = ymax)

/-- The checker after `StartEncirclingQuad`, `AddQuad` of the left half and `AddQuad` of
the right half of `exampleSquare`: the encircling quad is still under construction. -/
def exampleOpenHalves : IntersectionChecker :=
  { m_quads := [{ first := {}, second := some [exampleLeftHalf, exampleRightHalf] }]
    m_new_figure := false }

/-- The effect of the rail extensions on a figure, relative to the state `s0` in which
they started: the vertices `vs`, `nl` linedefs and `nsd` sidedefs have been appended to
the map, the sectors of the map are untouched, the member vertices are `mv`, and the
heading and the two null vertices are those of `s0`. -/
structure RoadFigure.Ext (s0 : RoadFigure) (vs : List Udmf.Vertex) (nl nsd : Nat)
    (mv : VSlot → Udmf.Vertex) (s : RoadFigure) : Prop where
  vertices : s.m_map.vertices = s0.m_map.vertices ++ vs
  linedefs : ∃ ls, s.m_map.linedefs = s0.m_map.linedefs ++ ls ∧ ls.length = nl
  sidedefs : ∃ sds, s.m_map.sidedefs = s0.m_map.sidedefs ++ sds ∧ sds.length = nsd
  sectors : s.m_map.sectors = s0.m_map.sectors
  m_v : s.m_v = mv
  angle : s.m_angle = s0.m_angle
  null : s.m_v_null = s0.m_v_null
  null_prev : s.m_v_null_prev = s0.m_v_null_prev

/-- The heading, the two null vertices and the twelve rail reference vertices (every
member vertex but the two mark vertices) are the same in both states. -/
structure RoadFigure.Rigid (s s1 : RoadFigure) : Prop where
  angle : s1.m_angle = s.m_angle
  null : s1.m_v_null = s.m_v_null
  null_prev : s1.m_v_null_prev = s.m_v_null_prev
  rails : ∀ slot, slot ≠ VSlot.m_v_mark_west → slot ≠ VSlot.m_v_mark_east →
    s1.m_v slot = s.m_v slot

/-- The twelve rail reference vertices of the figure: the background, fence and road
rails, west and east, left and right. -/
def RoadFigure.railSlots : List VSlot :=
  [VSlot.m_v_background_west_left, VSlot.m_v_background_west_right,
   VSlot.m_v_background_east_left, VSlot.m_v_background_east_right,
   VSlot.m_v_fence_west_left, VSlot.m_v_fence_west_right,
   VSlot.m_v_fence_east_left, VSlot.m_v_fence_east_right,
   VSlot.m_v_west_left, VSlot.m_v_west_right, VSlot.m_v_east_left, VSlot.m_v_east_right]

/-- A road that starts at floor elevation `-32000` with height `1024`, and descends with
the slope tangent `-1/2` along a line of length `2000`. -/
def exampleDeepRoad : List RoadFigureObject :=
  [RoadFigureObject.StartModifier
     { x_null := 0, y_null := 0, angle := 0, zpos := -32000, height := 1024, mark_shift := 0 },
   RoadFigureObject.Line { length := 1000 },
   RoadFigureObject.SlopeModifier { tangent := -1 / 2 },
   RoadFigureObject.Line { length := 2000 },
   RoadFigureObject.SlopeModifier { tangent := 0 },
   RoadFigureObject.Line { length := 1000 }]

/-- The height of the floor of the sector template `slot` above `m_floorpos`, as set by
`InitMapElements`. -/
def RoadFigure.floorOffset (cfg : RoadConfig) : SSlot → Int
  | SSlot.m_s_body => 0
  | SSlot.m_s_east_side => cfg.sizes.road_side_height
  | SSlot.m_s_west_side => cfg.sizes.road_side_height
  | SSlot.m_s_mark => RoadFigure.MARK_HEIGHT
  | SSlot.m_s_background_body_west => 0
  | SSlot.m_s_background_body_east => 0
  | SSlot.m_s_background_sky => 0
  | SSlot.m_s_fence_west => cfg.sizes.fence_height
  | SSlot.m_s_fence_east => cfg.sizes.fence_height

/-- The sector templates `ms` are in step with the floor position `fp` and the ceiling
position `cp`: every floor is `fp` plus the offset of the template, every ceiling is `cp`,
except that of the sky template, which is `fp`. -/
structure RoadFigure.Lock (cfg : RoadConfig) (fp cp : Int) (ms : SSlot → Udmf.Sector) :
    Prop where
  floor : ∀ slot, (ms slot).heightfloor = fp + RoadFigure.floorOffset cfg slot
  ceil : ∀ slot, slot ≠ SSlot.m_s_background_sky → (ms slot).heightceiling = cp
  sky : (ms SSlot.m_s_background_sky).heightceiling = fp

/-- The fence fits under the ceiling: the fence height is not negative, the road side is
not higher than the fence, and the top of the fence is strictly below the ceiling. -/
structure RoadFigure.Room (cfg : RoadConfig) (fp cp : Int) : Prop where
  fence : 0 ≤ cfg.sizes.fence_height
  side : cfg.sizes.road_side_height ≤ cfg.sizes.fence_height
  room : fp + cfg.sizes.fence_height < cp

/-- The ids remembered for the keys `a` and `b` are different when both exist. -/
def RoadFigure.DistIds (last_ids : SSlot → Option Nat) (a b : SSlot) : Prop :=
  ∀ i j, last_ids a = some i → last_ids b = some j → i ≠ j

/-- The east and the west background body have different last sectors, and so have the
east and the west fence (after `Start` they share one sector until the first renewal of
the sectors). -/
def RoadFigure.Renewed (s : RoadFigure) : Prop :=
  RoadFigure.DistIds s.m_last_ids_s SSlot.m_s_background_body_east
      SSlot.m_s_background_body_west
  ∧ RoadFigure.DistIds s.m_last_ids_s SSlot.m_s_fence_east SSlot.m_s_fence_west

/-- What the figure keeps about heights at every point of its operations, for given
values of the members: no sector of the map has its ceiling below its floor; the last
sector of every key but the sky exists and has the ceiling `ceilingpos`; the last sector
of the sky is none of them; remembered ids exist; and, when `renew` holds, the last
sectors are `Renewed`. -/
structure RoadFigure.Ht (config : RoadConfig) (floorpos ceilingpos : Int)
    (templates : SSlot → Udmf.Sector) (started closed : Bool) (tangent : ℚ) (renew : Prop)
    (s : RoadFigure) : Prop where
  cfg : s.m_config = config
  fp : s.m_floorpos = floorpos
  cp : s.m_ceilingpos = ceilingpos
  m_s : s.m_s = templates
  st : s.m_started_drawing = started
  cl : s.m_sectors_closed = closed
  tg : s.m_slope_modifier.tangent = tangent
  all : ∀ sec ∈ s.m_map.sectors, sec.heightfloor ≤ sec.heightceiling
  lastK : ∀ slot id, slot ≠ SSlot.m_s_background_sky → s.m_last_ids_s slot = some id →
    ∃ sec, s.m_map.sectors.get? id = some sec ∧ sec.heightceiling = ceilingpos
  lastLt : ∀ slot id, s.m_last_ids_s slot = some id → id < s.m_map.sectors.length
  dist : ∀ slot, slot ≠ SSlot.m_s_background_sky →
    RoadFigure.DistIds s.m_last_ids_s slot SSlot.m_s_background_sky
  renewed : renew → RoadFigure.Renewed s

/-- The members and the part of the map on which the heights depend are the same in
both states. -/
structure RoadFigure.Quiet (s s1 : RoadFigure) : Prop where
  cfg : s1.m_config = s.m_config
  fp : s1.m_floorpos = s.m_floorpos
  cp : s1.m_ceilingpos = s.m_ceilingpos
  m_s : s1.m_s = s.m_s
  st : s1.m_started_drawing = s.m_started_drawing
  cl : s1.m_sectors_closed = s.m_sectors_closed
  slope : s1.m_slope_modifier = s.m_slope_modifier
  sectors : s1.m_map.sectors = s.m_map.sectors
  last : s1.m_last_ids_s = s.m_last_ids_s

/-- The invariant of the figure about heights between its operations. -/
structure RoadFigure.Heights (s : RoadFigure) : Prop where
  ht : RoadFigure.Ht s.m_config s.m_floorpos s.m_ceilingpos s.m_s s.m_started_drawing
    s.m_sectors_closed s.m_slope_modifier.tangent
    (s.m_started_drawing = true
      ∧ (s.m_sectors_closed = true
        ∨ ¬ Math.IsZeroOrCloseTo s.m_slope_modifier.tangent = true)) s
  lock : RoadFigure.Lock s.m_config s.m_floorpos s.m_ceilingpos s.m_s
  fence : 0 ≤ s.m_config.sizes.fence_height
  side : s.m_config.sizes.road_side_height ≤ s.m_config.sizes.fence_height
  room : s.m_started_drawing = true →
    s.m_floorpos + s.m_config.sizes.fence_height < s.m_ceilingpos
  flat : s.m_started_drawing = false →
    Math.IsZeroOrCloseTo s.m_slope_modifier.tangent = true

/-- The sector written by the loop over `slope_sectors` of `CloseSectors`: the floor of
`cur_sector` moved by `height_diff`, and its ceiling too for the sky sector. -/
def RoadFigure.slopedSector (cur_sector : Udmf.Sector) (is_background_sky_sector : Bool)
    (height_diff : Int) : Udmf.Sector :=
  { cur_sector with
    heightfloor := cur_sector.heightfloor + height_diff
    heightceiling := if is_background_sky_sector then cur_sector.heightceiling + height_diff
      else cur_sector.heightceiling }

/-- The errors of the map and of the id tables: the capacity error of an append and the
`std::out_of_range` of `at`. -/
def Err.IsMapError (e : Err) : Prop := e = Err.tooManyElements ∨ e = Err.outOfRange

/-- Every error that the computation can raise satisfies `P`. -/
structure M.errs {σ α : Type} (P : Err → Prop) (m : M σ α) : Prop where
  run : ∀ s e, (m s).1 = Except.error e → P e

/-- The outcome of the computation started in `s` (the result or the error, and the final
state) satisfies `Q`. -/
def M.outc {σ α : Type} (m : M σ α) (Q : Except Err α → σ → Prop) (s : σ) : Prop :=
  Q (m s).1 (m s).2

/-- What the loop of `ExtendMark` needs at the head of an iteration with the remaining
length `length`, to end within `fuel` iterations: the mark length and the mark gap are at
least `16`, the dash accumulator is in range, and `fuel` blocks of `16` units cover the
remaining length, plus one block unless the accumulator is exactly at the start of a dash
or of a gap. -/
structure RoadFigure.LoopHyp (s : RoadFigure) (length : ℚ) (fuel : Nat) : Prop where
  mark : 16 ≤ s.m_config.sizes.road_mark_length
  gap : 16 ≤ s.m_config.sizes.road_mark_gap
  dash : s.DashInRange
  len : 0 ≤ length
  fuel : 1 ≤ length →
    length + (if s.m_mark_coord = 0 ∨ s.m_mark_coord = s.m_config.sizes.road_mark_length
      then 0 else 16) ≤ 16 * (fuel : ℚ)

/-- The outcome of the loop of `ExtendMark` started in `s0` with the remaining length
`length`: the config is kept; an error is an error of the map or of the id tables; and
after a normal return the dash accumulator is in range and has advanced by `length - r`
modulo the period `road_mark_length + road_mark_gap`, where `r` is what the loop did not
count: a rest below one unit that it skips, or minus the distance below `1e-5` by which
the step ends before the end of the period, when the accumulator is set to zero. -/
def RoadFigure.Dashed (s0 : RoadFigure) (length : ℚ) (r : Except Err Unit) (s1 : RoadFigure) :
    Prop :=
  RoadFigure.Stay s0 s1
  ∧ match r with
    | Except.error e => e.IsMapError
    | Except.ok _ =>
      s1.DashInRange
      ∧ (length < 1 → s1.m_mark_coord = s0.m_mark_coord)
      ∧ ∃ k : Nat, ∃ rest : ℚ, -(1 / 100000) < rest ∧ rest < 1
        ∧ s1.m_mark_coord = s0.m_mark_coord + length - rest
          - (k : ℚ) * (s0.m_config.sizes.road_mark_length + s0.m_config.sizes.road_mark_gap)

/-- The members on which the slope arithmetic and the state checks of the figure depend
are the same in both states: the config, the floor and ceiling positions, the slope
modifier, the two null vertices and the four state flags. -/
structure RoadFigure.Level (s s1 : RoadFigure) : Prop where
  cfg : s1.m_config = s.m_config
  fp : s1.m_floorpos = s.m_floorpos
  cp : s1.m_ceilingpos = s.m_ceilingpos
  slope : s1.m_slope_modifier = s.m_slope_modifier
  null : s1.m_v_null = s.m_v_null
  null_prev : s1.m_v_null_prev = s.m_v_null_prev
  shape : s1.m_have_shape_with_current_slope = s.m_have_shape_with_current_slope
  shapes : s1.m_have_shapes = s.m_have_shapes
  started : s1.m_started_drawing = s.m_started_drawing
  finished : s1.m_finished_drawing = s.m_finished_drawing

/-- The linedefs of the map and the members that the seam loop of `CloseSectors` reads
are the same in both states. -/
structure RoadFigure.Lines (s s1 : RoadFigure) : Prop where
  linedefs : s1.m_map.linedefs = s.m_map.linedefs

/-- The config, the dash accumulator and the two mark reference vertices are the same in
both states. -/
structure RoadFigure.Marks (s s1 : RoadFigure) : Prop where
  cfg : s1.m_config = s.m_config
  coord : s1.m_mark_coord = s.m_mark_coord
  west : s1.m_v VSlot.m_v_mark_west = s.m_v VSlot.m_v_mark_west
  east : s1.m_v VSlot.m_v_mark_east = s.m_v VSlot.m_v_mark_east

/-- The length of the step that `ExtendMark` consumes (the local `length_middle`): the
mean of the distances from the two mark reference vertices to their new positions. -/
def RoadFigure.markStep (lm : Libm) (fig : RoadFigure) (v_new_mark_west v_new_mark_east : Udmf.Vertex) :
    ℚ :=
  ((fig.m_v VSlot.m_v_mark_east).GetDistanceTo lm v_new_mark_east
    + (fig.m_v VSlot.m_v_mark_west).GetDistanceTo lm v_new_mark_west) / 2

/-- The figure at the origin with floor `0`, height `1024` and the given mark shift, on
the empty map with the default config, after `Start`. -/
def examplePhaseFigure (mark_shift : ℚ) : RoadFigure :=
  (RoadFigure.Start exampleLibm
    (RoadFigure.new defaultRoadConfig { height := 1024, mark_shift := mark_shift } exampleMap
      (some {}))).2
/-- The started example figure after `Line(1000)`: the strips are open, the dash
accumulator is 232 (inside a dash) and the last mark vertices are 38 and 39. -/
def exampleMarkSeamFigure : RoadFigure :=
  (RoadFigure.Line exampleLibm { length := 1000 } exampleStartedFigure).2

/-- A road with a ramp of tangent 1/2 over a line of length 5, on a dash of the mark. -/
def exampleRampRoad : List RoadFigureObject :=
  [RoadFigureObject.StartModifier { height := 1024 },
   RoadFigureObject.Line { length := 1000 },
   RoadFigureObject.SlopeModifier { tangent := 1 / 2 },
   RoadFigureObject.Line { length := 5 },
   RoadFigureObject.SlopeModifier { tangent := 0 },
   RoadFigureObject.Line { length := 100 }]

/-- The action special that the second loop of `CloseSectors` gives the seam linedef
that starts at `vertices[i]`: none when `vertices[i]` is `m_v_mark_west`,
`m_v_background_west_left` or `m_v_background_east_left`, else special 181 with
`arg0 = 1`. -/
def RoadFigure.seamAction (vi : VSlot) : Udmf.ActionSpecial :=
  if vi ≠ VSlot.m_v_mark_west then
    if (decide (vi ≠ VSlot.m_v_background_west_left)
        && decide (vi ≠ VSlot.m_v_background_east_left)) = true then
      { special := 181, arg0 := 1 }
    else {}
  else {}

/-- The vertices `vertices[i]` at which the second loop of `CloseSectors` starts a seam
linedef. -/
def RoadFigure.seamStarts : List SSlot → List VSlot → List VSlot
  | _ :: rest, vi :: vi1 :: vrest => vi :: RoadFigure.seamStarts rest (vi1 :: vrest)
  | _, _ => []

/-- The seam linedefs `ls` were appended to the linedefs of `s0`, all with `dontdraw`, and
their action specials are those of `seamAction` at `vs`. -/
structure RoadFigure.Seams (s0 : RoadFigure) (vs : List VSlot) (s : RoadFigure) : Prop where
  run : ∃ ls : List Udmf.Linedef, s.m_map.linedefs = s0.m_map.linedefs ++ ls
    ∧ (∀ l ∈ ls, l.dontdraw = true)
    ∧ ls.map (fun l => l.action_special) = vs.map RoadFigure.seamAction
/-- The value `height_diff` of `CloseSectors`:
`(int)(m_slope_modifier.tangent * m_v_null.GetDistanceTo(m_v_null_prev))`. -/
def RoadFigure.heightDiff (lm : Libm) (fig : RoadFigure) : Int :=
  Math.truncToInt (fig.m_slope_modifier.tangent * fig.m_v_null.GetDistanceTo lm fig.m_v_null_prev)

/-- The slope block of `CloseSectors` moved the floor position of `s` by `heightDiff`
below the top of the fence, and kept the other members of `Level`. -/
structure RoadFigure.Raised (lm : Libm) (s s1 : RoadFigure) : Prop where
  cfg : s1.m_config = s.m_config
  fp : s1.m_floorpos = s.m_floorpos + RoadFigure.heightDiff lm s
  room : s.m_floorpos + RoadFigure.heightDiff lm s
    < s.m_ceilingpos - s.m_config.sizes.fence_height
  cp : s1.m_ceilingpos = s.m_ceilingpos

/-- The figure `exampleStartedFigure` with the pending slope tangent `1/2`. -/
def exampleRampFigure : RoadFigure :=
  (RoadFigure.SlopeModifier exampleLibm { tangent := 1 / 2 } exampleStartedFigure).2

/-- The command list of the example of the slope step: two lines of length 3 under the
tangent 1/2. -/
def exampleShortRampRoad : List RoadFigureObject :=
  [RoadFigureObject.StartModifier { height := 1024 },
   RoadFigureObject.SlopeModifier { tangent := 1 / 2 },
   RoadFigureObject.Line { length := 3 },
   RoadFigureObject.Line { length := 3 }]

/-! # Theorems -/

/-! ## The line equation of an edge -/

theorem IsZeroOrCloseTo_iff (val : ℚ) :
    Math.IsZeroOrCloseTo val = true ↔ -(1 / 100000 : ℚ) < val ∧ val < 1 / 100000 := by
  simp [Math.IsZeroOrCloseTo, Math.DBL_EPS]

theorem IsZeroOrCloseTo_zero : Math.IsZeroOrCloseTo 0 = true := by
  rw [IsZeroOrCloseTo_iff]; constructor <;> norm_num

theorem ne_zero_of_not_IsZeroOrCloseTo {val : ℚ} (h : ¬ Math.IsZeroOrCloseTo val = true) :
    val ≠ 0 := by
  intro h0
  exact h (h0 ▸ IsZeroOrCloseTo_zero)

theorem coeffsDivider_ne_zero (a b : ℚ) : coeffsDivider a b ≠ 0 := by
  unfold coeffsDivider
  by_cases ha : Math.IsZeroOrCloseTo a = true <;> by_cases hb : Math.IsZeroOrCloseTo b = true
  · simp [ha, hb]
  · simp [ha, hb]; exact ne_zero_of_not_IsZeroOrCloseTo hb
  · simp [ha, hb]; exact ne_zero_of_not_IsZeroOrCloseTo ha
  · rw [if_neg ha, if_neg hb]
    split_ifs <;>
      first
        | exact ne_zero_of_not_IsZeroOrCloseTo ha
        | exact ne_zero_of_not_IsZeroOrCloseTo hb

theorem lineVal_edgeEquation (a b r : Math.Point2D) :
    lineVal (edgeEquation a b) r * coeffsDivider (b.y - a.y) (a.x - b.x) = -cross a b r := by
  have hd := coeffsDivider_ne_zero (b.y - a.y) (a.x - b.x)
  simp only [lineVal, edgeEquation, cross]
  field_simp
  ring

theorem GetPointLinePos2D_belongs_iff (p : Math.Point2D) (l : Math.LineEquation2D) :
    Math.GetPointLinePos2D p l = Math.EnPointLinePos2D.enPointLinePos2D_BelongsTo
      ↔ Math.IsZeroOrCloseTo (lineVal l p) = true := by
  simp only [Math.GetPointLinePos2D, lineVal]
  split_ifs <;> simp_all

theorem GetPointLinePos2D_pos_iff (p : Math.Point2D) (l : Math.LineEquation2D) :
    Math.GetPointLinePos2D p l = Math.EnPointLinePos2D.enPointLinePos2D_HalfPlanePos
      ↔ ¬ Math.IsZeroOrCloseTo (lineVal l p) = true ∧ 0 < lineVal l p := by
  simp only [Math.GetPointLinePos2D, lineVal]
  split_ifs <;> simp_all

theorem GetPointLinePos2D_neg_iff (p : Math.Point2D) (l : Math.LineEquation2D) :
    Math.GetPointLinePos2D p l = Math.EnPointLinePos2D.enPointLinePos2D_HalfPlaneNeg
      ↔ ¬ Math.IsZeroOrCloseTo (lineVal l p) = true ∧ ¬ 0 < lineVal l p := by
  simp only [Math.GetPointLinePos2D, lineVal]
  split_ifs <;> simp_all

/-! ## Running the state-and-exception monad -/

theorem M.run_bind {σ α β : Type} (m : M σ α) (f : α → M σ β) (s : σ) :
    (m >>= f) s = match m s with
      | (Except.ok a, s1) => f a s1
      | (Except.error e, s1) => (Except.error e, s1) := rfl

theorem M.run_pure {σ α : Type} (a : α) (s : σ) : (pure a : M σ α) s = (Except.ok a, s) := rfl

theorem M.run_fail {σ α : Type} (e : Err) (s : σ) : (M.fail e : M σ α) s = (Except.error e, s) :=
  rfl

theorem M.run_read {σ : Type} (s : σ) : (M.read : M σ σ) s = (Except.ok s, s) := rfl

theorem M.run_update {σ : Type} (f : σ → σ) (s : σ) : M.update f s = (Except.ok (), f s) := rfl

theorem M.run_ofExcept {σ α : Type} (r : Except Err α) (s : σ) :
    (M.ofExcept r : M σ α) s = (r, s) := rfl

theorem M.run_bind_ok {σ α β : Type} {m : M σ α} {f : α → M σ β} {s s1 : σ} {a : α}
    (h : m s = (Except.ok a, s1)) : (m >>= f) s = f a s1 := by
  rw [M.run_bind, h]

theorem M.run_bind_error {σ α β : Type} {m : M σ α} {f : α → M σ β} {s s1 : σ} {e : Err}
    (h : m s = (Except.error e, s1)) : (m >>= f) s = (Except.error e, s1) := by
  rw [M.run_bind, h]

/-! ## C2: `AddQuad` accepts strictly convex quadrilaterals only -/

theorem cross_rotate (p q r : Math.Point2D) : cross p q r = cross q r p := by
  simp only [cross]; ring

theorem lineVal_eq_zero_of_collinear {a b r : Math.Point2D} (h : cross a b r = 0) :
    lineVal (edgeEquation a b) r = 0 := by
  have h1 := lineVal_edgeEquation a b r
  rw [h, neg_zero] at h1
  rcases mul_eq_zero.mp h1 with h2 | h2
  · exact h2
  · exact absurd h2 (coeffsDivider_ne_zero _ _)

theorem pos_belongs_of_collinear {a b r : Math.Point2D} (h : cross a b r = 0) :
    Math.GetPointLinePos2D r (edgeEquation a b)
      = Math.EnPointLinePos2D.enPointLinePos2D_BelongsTo := by
  rw [GetPointLinePos2D_belongs_iff, lineVal_eq_zero_of_collinear h]
  exact IsZeroOrCloseTo_zero

theorem lineVal_mul_neg_of_opposite {a b r s : Math.Point2D}
    (h : cross a b r * cross a b s < 0) :
    lineVal (edgeEquation a b) r * lineVal (edgeEquation a b) s < 0 := by
  have hr := lineVal_edgeEquation a b r
  have hs := lineVal_edgeEquation a b s
  have hd := coeffsDivider_ne_zero (b.y - a.y) (a.x - b.x)
  have hd2 : 0 < coeffsDivider (b.y - a.y) (a.x - b.x) * coeffsDivider (b.y - a.y) (a.x - b.x) :=
    mul_self_pos.mpr hd
  have key : lineVal (edgeEquation a b) r * lineVal (edgeEquation a b) s
      * (coeffsDivider (b.y - a.y) (a.x - b.x) * coeffsDivider (b.y - a.y) (a.x - b.x))
      = cross a b r * cross a b s := by
    calc lineVal (edgeEquation a b) r * lineVal (edgeEquation a b) s
          * (coeffsDivider (b.y - a.y) (a.x - b.x) * coeffsDivider (b.y - a.y) (a.x - b.x))
        = (lineVal (edgeEquation a b) r * coeffsDivider (b.y - a.y) (a.x - b.x))
          * (lineVal (edgeEquation a b) s * coeffsDivider (b.y - a.y) (a.x - b.x)) := by ring
      _ = cross a b r * cross a b s := by rw [hr, hs]; ring
  by_contra hcon
  push_neg at hcon
  have : 0 ≤ cross a b r * cross a b s := by
    rw [← key]
    exact mul_nonneg hcon hd2.le
  linarith

theorem pos_bad_of_opposite {a b r s : Math.Point2D} (h : cross a b r * cross a b s < 0) :
    ¬ (Math.GetPointLinePos2D r (edgeEquation a b)
          ≠ Math.EnPointLinePos2D.enPointLinePos2D_BelongsTo
        ∧ Math.GetPointLinePos2D r (edgeEquation a b)
          = Math.GetPointLinePos2D s (edgeEquation a b)) := by
  have hneg := lineVal_mul_neg_of_opposite h
  rintro ⟨hne, heq⟩
  cases hr : Math.GetPointLinePos2D r (edgeEquation a b) with
  | enPointLinePos2D_BelongsTo => exact hne hr
  | enPointLinePos2D_HalfPlanePos =>
    have hs := heq ▸ hr
    rw [GetPointLinePos2D_pos_iff] at hr hs
    have := mul_pos hr.2 hs.2
    linarith
  | enPointLinePos2D_HalfPlaneNeg =>
    have hs := heq ▸ hr
    rw [GetPointLinePos2D_neg_iff] at hr hs
    have := mul_nonneg_of_nonpos_of_nonpos (not_lt.mp hr.2) (not_lt.mp hs.2)
    linarith

theorem segment_error_of_bad (v : Arr4 Math.Point2D) (i : Nat)
    (h : ¬ (Math.GetPointLinePos2D (v.get ((i + 2) % 4))
              (edgeEquation (v.get i) (v.get ((i + 1) % 4)))
            ≠ Math.EnPointLinePos2D.enPointLinePos2D_BelongsTo
          ∧ Math.GetPointLinePos2D (v.get ((i + 2) % 4))
              (edgeEquation (v.get i) (v.get ((i + 1) % 4)))
            = Math.GetPointLinePos2D (v.get ((i + 3) % 4))
              (edgeEquation (v.get i) (v.get ((i + 1) % 4))))) :
    GetQuadInfo.segment v i = Except.error Err.badQuad := by
  simp only [GetQuadInfo.segment]
  split_ifs with h1 h2 h3
  · rfl
  · rfl
  · rfl
  · exact absurd ⟨h1, not_not.mp h3⟩ h

theorem segment_ok_or_badQuad (v : Arr4 Math.Point2D) (i : Nat) :
    GetQuadInfo.segment v i = Except.error Err.badQuad
      ∨ ∃ s, GetQuadInfo.segment v i = Except.ok s := by
  simp only [GetQuadInfo.segment]
  split_ifs
  · exact Or.inl rfl
  · exact Or.inl rfl
  · exact Or.inl rfl
  · exact Or.inr ⟨_, rfl⟩

theorem GetQuadInfo_error_of_segment (p1 p2 p3 p4 : Math.Point2D)
    (h : GetQuadInfo.segment ⟨p1, p2, p3, p4⟩ 0 = Except.error Err.badQuad
      ∨ GetQuadInfo.segment ⟨p1, p2, p3, p4⟩ 1 = Except.error Err.badQuad
      ∨ GetQuadInfo.segment ⟨p1, p2, p3, p4⟩ 2 = Except.error Err.badQuad
      ∨ GetQuadInfo.segment ⟨p1, p2, p3, p4⟩ 3 = Except.error Err.badQuad) :
    GetQuadInfo p1 p2 p3 p4 = Except.error Err.badQuad := by
  simp only [GetQuadInfo]
  rcases segment_ok_or_badQuad ⟨p1, p2, p3, p4⟩ 0 with h0 | ⟨s0, h0⟩ <;>
  rcases segment_ok_or_badQuad ⟨p1, p2, p3, p4⟩ 1 with h1 | ⟨s1, h1⟩ <;>
  rcases segment_ok_or_badQuad ⟨p1, p2, p3, p4⟩ 2 with h2 | ⟨s2, h2⟩ <;>
  rcases segment_ok_or_badQuad ⟨p1, p2, p3, p4⟩ 3 with h3 | ⟨s3, h3⟩ <;>
  simp_all

theorem AddQuad_of_GetQuadInfo_error {p1 p2 p3 p4 : Math.Point2D} {e : Err}
    (h : GetQuadInfo p1 p2 p3 p4 = Except.error e) (ck : IntersectionChecker) :
    IntersectionChecker.AddQuad p1 p2 p3 p4 ck = (Except.error e, ck) := by
  simp only [IntersectionChecker.AddQuad]
  exact M.run_bind_error (by rw [M.run_ofExcept, h])

/-- C2: whenever three of the four points are exactly collinear (repeated points
included), or for some edge the two remaining vertices lie strictly on opposite sides of
the edge's line, `AddQuad` throws the bad-quad error and leaves the checker unchanged. -/
theorem AddQuad_rejects_not_strictly_convex (ck : IntersectionChecker)
    (p1 p2 p3 p4 : Math.Point2D) (h : NotStrictlyConvex p1 p2 p3 p4) :
    IntersectionChecker.AddQuad p1 p2 p3 p4 ck = (Except.error Err.badQuad, ck) := by
  apply AddQuad_of_GetQuadInfo_error
  apply GetQuadInfo_error_of_segment
  rcases h with h | h | h | h | h | h | h | h
  · refine Or.inl (segment_error_of_bad _ 0 ?_)
    intro hc
    exact hc.1 (pos_belongs_of_collinear (a := p1) (b := p2) (r := p3) h)
  · refine Or.inl (segment_error_of_bad _ 0 ?_)
    intro hc
    exact hc.1 (hc.2 ▸ pos_belongs_of_collinear (a := p1) (b := p2) (r := p4) h)
  · refine Or.inr (Or.inr (Or.inl (segment_error_of_bad _ 2 ?_)))
    intro hc
    have h' : cross p3 p4 p1 = 0 := by
      have := cross_rotate p1 p3 p4
      simp only [Collinear] at h
      rw [← this]; exact h
    exact hc.1 (pos_belongs_of_collinear (a := p3) (b := p4) (r := p1) h')
  · refine Or.inr (Or.inl (segment_error_of_bad _ 1 ?_))
    intro hc
    exact hc.1 (pos_belongs_of_collinear (a := p2) (b := p3) (r := p4) h)
  · exact Or.inl (segment_error_of_bad _ 0 (pos_bad_of_opposite (a := p1) (b := p2) h))
  · exact Or.inr (Or.inl (segment_error_of_bad _ 1 (pos_bad_of_opposite (a := p2) (b := p3) h)))
  · exact Or.inr (Or.inr (Or.inl
      (segment_error_of_bad _ 2 (pos_bad_of_opposite (a := p3) (b := p4) h))))
  · exact Or.inr (Or.inr (Or.inr
      (segment_error_of_bad _ 3 (pos_bad_of_opposite (a := p4) (b := p1) h))))

/-! ## C3, C4, C5: the neighbour exemption and the overlap verdict -/

theorem innerQuadsHit_eq_false (n : Option QuadRef) (q : QuadInfo) (oqix : Nat) :
    ∀ (subs : List QuadInfo) (j : Nat),
      (∀ idx r, subs.get? idx = some r → n ≠ some (QuadRef.sub oqix (j + idx)) →
        QuadsHaveCommonPoints r q = false) →
      IntersectionChecker.innerQuadsHit n q oqix subs j = false
  | [], _, _ => rfl
  | r :: rest, j, h => by
    have ih := innerQuadsHit_eq_false n q oqix rest (j + 1)
      (fun idx r1 hr hn => h (idx + 1) r1 (by simpa using hr)
        (by rwa [show j + (idx + 1) = j + 1 + idx by omega]))
    simp only [IntersectionChecker.innerQuadsHit]
    split_ifs with h1 h2
    · exact ih
    · have h3 := h 0 r rfl (by simpa using h1)
      rw [h3] at h2
      exact absurd h2 (by decide)
    · exact ih

theorem innerQuadsHit_eq_true (n : Option QuadRef) (q : QuadInfo) (oqix : Nat) :
    ∀ (subs : List QuadInfo) (j : Nat),
      (∃ idx r, subs.get? idx = some r ∧ n ≠ some (QuadRef.sub oqix (j + idx))
        ∧ QuadsHaveCommonPoints r q = true) →
      IntersectionChecker.innerQuadsHit n q oqix subs j = true
  | [], _, h => by
    obtain ⟨idx, r, hr, _⟩ := h
    simp at hr
  | r0 :: rest, j, h => by
    obtain ⟨idx, r, hr, hn, hq⟩ := h
    simp only [IntersectionChecker.innerQuadsHit]
    cases idx with
    | zero =>
      simp only [List.get?_cons_zero, Option.some.injEq] at hr
      subst hr
      rw [if_neg (by simpa using hn), if_pos hq]
    | succ k =>
      have ih := innerQuadsHit_eq_true n q oqix rest (j + 1)
        ⟨k, r, by simpa using hr, by rwa [show j + 1 + k = j + (k + 1) by omega], hq⟩
      split_ifs
      · exact ih
      · rfl
      · exact ih

theorem slotStep_none_of_all_false {n : Option QuadRef} {q : QuadInfo} {size : Nat}
    {slot : QuadWithSubquads} {oqix : Nat} (hc : slot.Closed)
    (h : ∀ r ∈ slot.stored, QuadsHaveCommonPoints r q = false) :
    IntersectionChecker.slotStep n q size slot oqix = none := by
  unfold IntersectionChecker.slotStep
  by_cases hn : n = some (QuadRef.first oqix)
  · rw [if_pos hn]
  · rw [if_neg hn]
    cases hsec : slot.second with
    | none =>
      simp only [QuadWithSubquads.stored, hsec, List.mem_singleton, forall_eq] at h
      simp [h]
    | some subs =>
      simp only [QuadWithSubquads.stored, hsec] at h
      simp only [QuadWithSubquads.Closed, hsec] at hc
      have hinner : IntersectionChecker.innerQuadsHit n q oqix subs 0 = false :=
        innerQuadsHit_eq_false n q oqix subs 0
          (fun idx r hr _ => h r (List.get?_mem hr))
      have hlen : subs.length ≠ 0 := fun h0 => hc.1 (List.length_eq_zero.mp h0)
      simp [hlen, hc.2, hinner]

theorem mem_dropLast_of_get? {α : Type} {l : List α} {idx : Nat} {r : α}
    (hr : l.get? idx = some r) (hidx : idx ≠ l.length - 1) : r ∈ l.dropLast := by
  have hlt : idx < l.length := by
    rcases List.get?_eq_some.mp hr with ⟨hlt, _⟩
    exact hlt
  rw [List.dropLast_eq_take]
  have h2 : (l.take (l.length - 1))[idx]? = some r := by
    rw [List.getElem?_take_of_lt (by omega), ← List.get?_eq_getElem?]
    exact hr
  exact List.get?_mem (by rw [List.get?_eq_getElem?]; exact h2)

theorem slotStep_none_of_neighbor_sub {n : Option QuadRef} {q : QuadInfo} {size : Nat}
    {slot : QuadWithSubquads} {oqix : Nat} {subs : List QuadInfo}
    (hsec : slot.second = some subs) (hn : n = some (QuadRef.sub oqix (subs.length - 1)))
    (hlast : slot.first.IsNull = true → oqix = size - 1)
    (h : ∀ r ∈ subs.dropLast, QuadsHaveCommonPoints r q = false) :
    IntersectionChecker.slotStep n q size slot oqix = none := by
  have hinner : IntersectionChecker.innerQuadsHit n q oqix subs 0 = false :=
    innerQuadsHit_eq_false n q oqix subs 0 (fun idx r hr hne => by
      apply h r
      apply mem_dropLast_of_get? hr
      intro hidx
      apply hne
      rw [hn, Nat.zero_add, hidx])
  unfold IntersectionChecker.slotStep
  rw [if_neg (by rw [hn]; simp), hsec]
  simp only [hinner]
  split_ifs with h1 h2 h3 <;> first | rfl | exact absurd (hlast h2) h3 | simp_all

theorem slotsLoop_append_of_none (n : Option QuadRef) (q : QuadInfo) (size : Nat) :
    ∀ (l1 l2 : List QuadWithSubquads) (k : Nat),
      (∀ idx slot, l1.get? idx = some slot →
        IntersectionChecker.slotStep n q size slot (k + idx) = none) →
      IntersectionChecker.slotsLoop n q size (l1 ++ l2) k
        = IntersectionChecker.slotsLoop n q size l2 (k + l1.length)
  | [], l2, k, _ => by simp
  | slot :: rest, l2, k, h => by
    have h0 := h 0 slot rfl
    rw [Nat.add_zero] at h0
    have ih := slotsLoop_append_of_none n q size rest l2 (k + 1)
      (fun idx s hs => by
        have := h (idx + 1) s (by simpa using hs)
        rwa [show k + (idx + 1) = k + 1 + idx by omega] at this)
    rw [List.cons_append, IntersectionChecker.slotsLoop, h0]
    simp only []
    rw [ih, List.length_cons, show k + 1 + rest.length = k + (rest.length + 1) by omega]

theorem slotsLoop_closed_initial (n : Option QuadRef) (q : QuadInfo) (size : Nat)
    (l1 l2 : List QuadWithSubquads) (k : Nat)
    (hc : ∀ slot ∈ l1, slot.Closed)
    (h : ∀ r ∈ l1.flatMap QuadWithSubquads.stored, QuadsHaveCommonPoints r q = false) :
    IntersectionChecker.slotsLoop n q size (l1 ++ l2) k
      = IntersectionChecker.slotsLoop n q size l2 (k + l1.length) := by
  apply slotsLoop_append_of_none
  intro idx slot hs
  have hmem : slot ∈ l1 := List.get?_mem hs
  exact slotStep_none_of_all_false (hc slot hmem)
    (fun r hr => h r (List.mem_flatMap.mpr ⟨slot, hmem, hr⟩))

theorem slotStep_none_of_empty_subs {n : Option QuadRef} {q : QuadInfo} {size : Nat}
    {slot : QuadWithSubquads} {oqix : Nat} (hsec : slot.second = some []) :
    IntersectionChecker.slotStep n q size slot oqix = none := by
  unfold IntersectionChecker.slotStep
  rw [hsec]
  split_ifs <;> rfl

theorem slotStep_none_of_neighbor_first {n : Option QuadRef} {q : QuadInfo} {size : Nat}
    {slot : QuadWithSubquads} {oqix : Nat} (hn : n = some (QuadRef.first oqix)) :
    IntersectionChecker.slotStep n q size slot oqix = none := by
  unfold IntersectionChecker.slotStep
  rw [if_pos hn]

theorem slotsLoop_singleton_of_none {n : Option QuadRef} {q : QuadInfo} {size : Nat}
    {slot : QuadWithSubquads} {oqix : Nat}
    (h : IntersectionChecker.slotStep n q size slot oqix = none) :
    IntersectionChecker.slotsLoop n q size [slot] oqix = Except.ok true := by
  simp [IntersectionChecker.slotsLoop, h]

theorem slotsLoop_pair_of_none {n : Option QuadRef} {q : QuadInfo} {size : Nat}
    {s1 s2 : QuadWithSubquads} {oqix : Nat}
    (h1 : IntersectionChecker.slotStep n q size s1 oqix = none)
    (h2 : IntersectionChecker.slotStep n q size s2 (oqix + 1) = none) :
    IntersectionChecker.slotsLoop n q size [s1, s2] oqix = Except.ok true := by
  simp [IntersectionChecker.slotsLoop, h1, h2]

theorem neighborQuad_nil (nf : Bool) :
    IntersectionChecker.neighborQuad { m_quads := [], m_new_figure := nf } = Except.ok none := by
  simp [IntersectionChecker.neighborQuad]

theorem neighborQuad_new_figure (quads : List QuadWithSubquads) :
    IntersectionChecker.neighborQuad { m_quads := quads, m_new_figure := true }
      = Except.ok none := by
  simp [IntersectionChecker.neighborQuad]

theorem neighborQuad_plain (L : List QuadWithSubquads) (b : QuadWithSubquads)
    (hb : b.second = none) :
    IntersectionChecker.neighborQuad { m_quads := L ++ [b], m_new_figure := false }
      = Except.ok (some (QuadRef.first L.length)) := by
  simp [IntersectionChecker.neighborQuad, hb]

theorem neighborQuad_subs (L : List QuadWithSubquads) (b : QuadWithSubquads)
    (subs : List QuadInfo) (hb : b.second = some subs) (hne : subs ≠ []) :
    IntersectionChecker.neighborQuad { m_quads := L ++ [b], m_new_figure := false }
      = Except.ok (some (QuadRef.sub L.length (subs.length - 1))) := by
  simp [IntersectionChecker.neighborQuad, hb, hne]

theorem neighborQuad_empty_single (b : QuadWithSubquads) (hb : b.second = some []) :
    IntersectionChecker.neighborQuad { m_quads := [b], m_new_figure := false }
      = Except.ok none := by
  simp [IntersectionChecker.neighborQuad, hb]

theorem neighborQuad_empty_plain (L : List QuadWithSubquads) (pre b : QuadWithSubquads)
    (hb : b.second = some []) (hpre : pre.second = none) :
    IntersectionChecker.neighborQuad { m_quads := L ++ [pre, b], m_new_figure := false }
      = Except.ok (some (QuadRef.first L.length)) := by
  have h1 : (L ++ [pre, b]).getLast? = some b := by
    rw [show L ++ [pre, b] = (L ++ [pre]) ++ [b] by simp, List.getLast?_concat]
  have hlen : (L ++ [pre, b]).length = L.length + 2 := by simp
  have h2 : (L ++ [pre, b]).get? (L.length + 2 - 2) = some pre := by
    rw [show L.length + 2 - 2 = L.length by omega, List.get?_eq_getElem?,
      List.getElem?_append_right (le_refl _)]
    simp
  simp only [IntersectionChecker.neighborQuad, hlen, h1, hb, h2, hpre]
  simp

theorem neighborQuad_empty_subs (L : List QuadWithSubquads) (pre b : QuadWithSubquads)
    (psubs : List QuadInfo)
    (hb : b.second = some []) (hpre : pre.second = some psubs) (hne : psubs ≠ []) :
    IntersectionChecker.neighborQuad { m_quads := L ++ [pre, b], m_new_figure := false }
      = Except.ok (some (QuadRef.sub L.length (psubs.length - 1))) := by
  have h1 : (L ++ [pre, b]).getLast? = some b := by
    rw [show L ++ [pre, b] = (L ++ [pre]) ++ [b] by simp, List.getLast?_concat]
  have hlen : (L ++ [pre, b]).length = L.length + 2 := by simp
  have h2 : (L ++ [pre, b]).get? (L.length + 2 - 2) = some pre := by
    rw [show L.length + 2 - 2 = L.length by omega, List.get?_eq_getElem?,
      List.getElem?_append_right (le_refl _)]
    simp [hne]
  simp only [IntersectionChecker.neighborQuad, hlen, h1, hb, h2, hpre]
  simp [hne]

theorem storedQuads_concat (L : List QuadWithSubquads) (b : QuadWithSubquads) (nf : Bool) :
    IntersectionChecker.storedQuads { m_quads := L ++ [b], m_new_figure := nf }
      = L.flatMap QuadWithSubquads.stored ++ b.stored := by
  simp [IntersectionChecker.storedQuads, List.flatMap_append]

theorem QuadDoesNotIntersectOthers_of_neighbor_only (ck : IntersectionChecker) (q : QuadInfo)
    (hwf : ck.WF) (hnf : ck.m_new_figure = false)
    (h : ∀ r ∈ ck.storedQuads.dropLast, QuadsHaveCommonPoints r q = false) :
    ck.QuadDoesNotIntersectOthers q = Except.ok true := by
  obtain ⟨quads, nf⟩ := ck
  simp only at hnf
  subst hnf
  rcases List.eq_nil_or_concat quads with hnil | ⟨L, b, hL⟩
  · subst hnil
    simp [IntersectionChecker.QuadDoesNotIntersectOthers, neighborQuad_nil,
      IntersectionChecker.slotsLoop]
  · rw [List.concat_eq_append] at hL
    subst hL
    have hcL : ∀ slot ∈ L, slot.Closed := by
      intro slot hs
      apply hwf slot
      simpa [List.dropLast_concat] using hs
    rw [storedQuads_concat] at h
    cases hb : b.second with
    | none =>
      have hst : b.stored = [b.first] := by simp [QuadWithSubquads.stored, hb]
      rw [hst, List.dropLast_concat] at h
      simp only [IntersectionChecker.QuadDoesNotIntersectOthers, neighborQuad_plain L b hb]
      rw [slotsLoop_closed_initial _ q _ L [b] 0 hcL h, Nat.zero_add]
      exact slotsLoop_singleton_of_none (slotStep_none_of_neighbor_first rfl)
    | some subs =>
      have hst : b.stored = subs := by simp [QuadWithSubquads.stored, hb]
      rw [hst] at h
      by_cases hne : subs = []
      · subst hne
        rw [List.append_nil] at h
        rcases List.eq_nil_or_concat L with hLnil | ⟨L1, pre, hL1⟩
        · subst hLnil
          simp only [List.nil_append, IntersectionChecker.QuadDoesNotIntersectOthers,
            neighborQuad_empty_single b hb]
          exact slotsLoop_singleton_of_none (slotStep_none_of_empty_subs hb)
        · rw [List.concat_eq_append] at hL1
          subst hL1
          have hcL1 : ∀ slot ∈ L1, slot.Closed := fun slot hs =>
            hcL slot (List.mem_append_left _ hs)
          have hcpre : pre.Closed := hcL pre (by simp)
          rw [List.flatMap_append] at h
          simp only [List.flatMap_cons, List.flatMap_nil, List.append_nil] at h
          have hassoc : L1 ++ [pre] ++ [b] = L1 ++ [pre, b] := by simp
          cases hpre : pre.second with
          | none =>
            have hpst : pre.stored = [pre.first] := by simp [QuadWithSubquads.stored, hpre]
            rw [hpst, List.dropLast_concat] at h
            simp only [IntersectionChecker.QuadDoesNotIntersectOthers, hassoc,
              neighborQuad_empty_plain L1 pre b hb hpre]
            rw [slotsLoop_closed_initial _ q _ L1 [pre, b] 0 hcL1 h, Nat.zero_add]
            exact slotsLoop_pair_of_none (slotStep_none_of_neighbor_first rfl)
              (slotStep_none_of_empty_subs hb)
          | some psubs =>
            have hpst : pre.stored = psubs := by simp [QuadWithSubquads.stored, hpre]
            simp only [QuadWithSubquads.Closed, hpre] at hcpre
            rw [hpst, List.dropLast_append_of_ne_nil _ hcpre.1] at h
            simp only [IntersectionChecker.QuadDoesNotIntersectOthers, hassoc,
              neighborQuad_empty_subs L1 pre b psubs hb hpre hcpre.1]
            rw [slotsLoop_closed_initial _ q _ L1 [pre, b] 0 hcL1
              (fun r hr => h r (List.mem_append_left _ hr)), Nat.zero_add]
            exact slotsLoop_pair_of_none
              (slotStep_none_of_neighbor_sub hpre rfl
                (fun hnull => by rw [hcpre.2] at hnull; exact absurd hnull (by decide))
                (fun r hr => h r (List.mem_append_right _ hr)))
              (slotStep_none_of_empty_subs hb)
      · rw [List.dropLast_append_of_ne_nil _ hne] at h
        simp only [IntersectionChecker.QuadDoesNotIntersectOthers,
          neighborQuad_subs L b subs hb hne]
        rw [slotsLoop_closed_initial _ q _ L [b] 0 hcL
          (fun r hr => h r (List.mem_append_left _ hr)), Nat.zero_add]
        exact slotsLoop_singleton_of_none
          (slotStep_none_of_neighbor_sub hb rfl (fun _ => by simp)
            (fun r hr => h r (List.mem_append_right _ hr)))

theorem GetQuadInfo_exampleSquare :
    GetQuadInfo ⟨0, 0⟩ ⟨0, 10⟩ ⟨10, 10⟩ ⟨10, 0⟩ = Except.ok exampleSquare := by decide!

theorem segment_ok {v : Arr4 Math.Point2D} {i : Nat} {s : LineSegmentInfo}
    (h : GetQuadInfo.segment v i = Except.ok s) :
    s.line_equation = edgeEquation (v.get i) (v.get ((i + 1) % 4))
    ∧ s.length_squared = Math.Get2DDistanceSquaredXY (v.get i).x (v.get i).y
        (v.get ((i + 1) % 4)).x (v.get ((i + 1) % 4)).y
    ∧ s.other_points_pos = Math.GetPointLinePos2D (v.get ((i + 2) % 4))
        (edgeEquation (v.get i) (v.get ((i + 1) % 4)))
    ∧ s.other_points_pos = Math.GetPointLinePos2D (v.get ((i + 3) % 4))
        (edgeEquation (v.get i) (v.get ((i + 1) % 4)))
    ∧ s.other_points_pos ≠ Math.EnPointLinePos2D.enPointLinePos2D_BelongsTo := by
  simp only [GetQuadInfo.segment] at h
  split_ifs at h with h1 h2 h3
  simp only [Except.ok.injEq] at h
  subst h
  exact ⟨rfl, rfl, rfl, not_not.mp h3, h1⟩

theorem GetQuadInfo_ok {p1 p2 p3 p4 : Math.Point2D} {q : QuadInfo}
    (h : GetQuadInfo p1 p2 p3 p4 = Except.ok q) :
    q.vertices = ⟨p1, p2, p3, p4⟩
    ∧ GetQuadInfo.segment ⟨p1, p2, p3, p4⟩ 0 = Except.ok q.segments.e0
    ∧ GetQuadInfo.segment ⟨p1, p2, p3, p4⟩ 1 = Except.ok q.segments.e1
    ∧ GetQuadInfo.segment ⟨p1, p2, p3, p4⟩ 2 = Except.ok q.segments.e2
    ∧ GetQuadInfo.segment ⟨p1, p2, p3, p4⟩ 3 = Except.ok q.segments.e3 := by
  simp only [GetQuadInfo] at h
  rcases segment_ok_or_badQuad ⟨p1, p2, p3, p4⟩ 0 with h0 | ⟨s0, h0⟩ <;>
  rcases segment_ok_or_badQuad ⟨p1, p2, p3, p4⟩ 1 with h1 | ⟨s1, h1⟩ <;>
  rcases segment_ok_or_badQuad ⟨p1, p2, p3, p4⟩ 2 with h2 | ⟨s2, h2⟩ <;>
  rcases segment_ok_or_badQuad ⟨p1, p2, p3, p4⟩ 3 with h3 | ⟨s3, h3⟩ <;>
  simp only [h0, h1, h2, h3, reduceCtorEq, Except.ok.injEq] at h
  subst h
  exact ⟨rfl, h0, h1, h2, h3⟩

theorem cross_self_right (a b : Math.Point2D) : cross a b a = 0 := by
  simp only [cross]; ring

theorem edgePairHit_self_zero {p1 p2 p3 p4 : Math.Point2D} {q : QuadInfo}
    (h : GetQuadInfo p1 p2 p3 p4 = Except.ok q) : edgePairHit q q 0 0 = true := by
  obtain ⟨hv, h0, _, _, _⟩ := GetQuadInfo_ok h
  obtain ⟨heq, _, _, _, _⟩ := segment_ok h0
  have hb : Math.GetPointLinePos2D p1 (q.segments.e0).line_equation
      = Math.EnPointLinePos2D.enPointLinePos2D_BelongsTo := by
    rw [heq]
    exact pos_belongs_of_collinear (cross_self_right p1 p2)
  simp only [edgePairHit, Arr4.get, hv, hb, sub_self, IsZeroOrCloseTo_zero,
    Math.Get2DDistanceSquared, mul_zero, add_zero, if_true, Bool.true_or]

theorem QuadsHaveCommonPoints_self {p1 p2 p3 p4 : Math.Point2D} {q : QuadInfo}
    (h : GetQuadInfo p1 p2 p3 p4 = Except.ok q) : QuadsHaveCommonPoints q q = true := by
  simp [QuadsHaveCommonPoints, QuadsHaveCommonPoints.loop, edgePairHit_self_zero h]

theorem AddQuad_of_check {p1 p2 p3 p4 : Math.Point2D} {q : QuadInfo}
    (hq : GetQuadInfo p1 p2 p3 p4 = Except.ok q) (ck : IntersectionChecker) :
    IntersectionChecker.AddQuad p1 p2 p3 p4 ck =
      match ck.QuadDoesNotIntersectOthers q with
      | Except.ok true => (Except.ok (), ck.storeQuad q)
      | Except.ok false => (Except.error Err.intersection, ck)
      | Except.error e => (Except.error e, ck) := by
  simp only [IntersectionChecker.AddQuad, M.run_bind, M.run_ofExcept, hq, M.run_read]
  cases h : ck.QuadDoesNotIntersectOthers q with
  | error e => rfl
  | ok b => cases b <;> rfl

theorem slotStep_cases (n : Option QuadRef) (q : QuadInfo) (size : Nat)
    (slot : QuadWithSubquads) (oqix : Nat) :
    IntersectionChecker.slotStep n q size slot oqix = none
    ∨ IntersectionChecker.slotStep n q size slot oqix = some (Except.ok false)
    ∨ (IntersectionChecker.slotStep n q size slot oqix
          = some (Except.error Err.internalCheckerState)
        ∧ slot.first.IsNull = true ∧ slot.second.isSome = true ∧ oqix ≠ size - 1) := by
  unfold IntersectionChecker.slotStep
  cases hsec : slot.second with
  | none => simp only []; split_ifs <;> simp
  | some subs => simp only []; split_ifs <;> simp_all

theorem slotsLoop_hit (n : Option QuadRef) (q : QuadInfo) (size : Nat) :
    ∀ (l : List QuadWithSubquads) (k : Nat),
      (∀ idx slot, l.get? idx = some slot → slot.first.IsNull = true →
        slot.second.isSome = true → k + idx = size - 1) →
      (∃ idx slot, l.get? idx = some slot
        ∧ IntersectionChecker.slotStep n q size slot (k + idx) = some (Except.ok false)) →
      IntersectionChecker.slotsLoop n q size l k = Except.ok false
  | [], _, _, h => by
    obtain ⟨idx, slot, hs, _⟩ := h
    simp at hs
  | s0 :: rest, k, hsafe, h => by
    rw [IntersectionChecker.slotsLoop]
    rcases slotStep_cases n q size s0 k with h0 | h0 | ⟨_, hnull, hsome, hk⟩
    · rw [h0]
      simp only []
      apply slotsLoop_hit n q size rest (k + 1)
      · intro idx slot hs hnull hsome
        have := hsafe (idx + 1) slot (by simpa using hs) hnull hsome
        omega
      · obtain ⟨idx, slot, hs, hstep⟩ := h
        cases idx with
        | zero =>
          simp only [List.get?_cons_zero, Option.some.injEq] at hs
          subst hs
          rw [Nat.add_zero, h0] at hstep
          exact absurd hstep (by simp)
        | succ j =>
          exact ⟨j, slot, by simpa using hs,
            by rwa [show k + 1 + j = k + (j + 1) by omega]⟩
    · rw [h0]
    · exact absurd (hsafe 0 s0 rfl hnull hsome) hk

theorem WF_safe {ck : IntersectionChecker} (hwf : ck.WF) :
    ∀ idx slot, ck.m_quads.get? idx = some slot → slot.first.IsNull = true →
      slot.second.isSome = true → 0 + idx = ck.m_quads.length - 1 := by
  intro idx slot hs hnull hsome
  by_contra hne
  have hmem : slot ∈ ck.m_quads.dropLast := mem_dropLast_of_get? hs (by omega)
  have hc := hwf slot hmem
  unfold QuadWithSubquads.Closed at hc
  cases hsec : slot.second with
  | none => rw [hsec] at hsome; exact absurd hsome (by decide)
  | some subs =>
    rw [hsec] at hc
    rw [hc.2] at hnull
    exact absurd hnull (by decide)

theorem AddQuad_rejects_of_slot_hit {p1 p2 p3 p4 : Math.Point2D} {q : QuadInfo}
    (hq : GetQuadInfo p1 p2 p3 p4 = Except.ok q) (ck : IntersectionChecker) (hwf : ck.WF)
    (hhit : ∃ idx slot, ck.m_quads.get? idx = some slot
      ∧ IntersectionChecker.slotStep none q ck.m_quads.length slot (0 + idx)
        = some (Except.ok false)) :
    IntersectionChecker.AddQuad p1 p2 p3 p4 { ck with m_new_figure := true }
      = (Except.error Err.intersection, { ck with m_new_figure := true }) := by
  rw [AddQuad_of_check hq]
  have h1 : IntersectionChecker.QuadDoesNotIntersectOthers { ck with m_new_figure := true } q
      = Except.ok false := by
    simp only [IntersectionChecker.QuadDoesNotIntersectOthers, neighborQuad_new_figure]
    exact slotsLoop_hit none q _ ck.m_quads 0 (WF_safe hwf) hhit
  rw [h1]

theorem slotStep_plain_hit {q : QuadInfo} {size : Nat} {slot : QuadWithSubquads} {oqix : Nat}
    (hsec : slot.second = none) (h : QuadsHaveCommonPoints slot.first q = true) :
    IntersectionChecker.slotStep none q size slot oqix = some (Except.ok false) := by
  unfold IntersectionChecker.slotStep
  rw [if_neg (by simp), hsec]
  simp [h]

theorem AddQuad_rejects_of_plain_hit {p1 p2 p3 p4 : Math.Point2D} {q : QuadInfo}
    (hq : GetQuadInfo p1 p2 p3 p4 = Except.ok q) (ck : IntersectionChecker) (hwf : ck.WF)
    (slot : QuadWithSubquads) (hmem : slot ∈ ck.m_quads) (hsec : slot.second = none)
    (h : QuadsHaveCommonPoints slot.first q = true) :
    IntersectionChecker.AddQuad p1 p2 p3 p4 { ck with m_new_figure := true }
      = (Except.error Err.intersection, { ck with m_new_figure := true }) := by
  obtain ⟨idx, hidx⟩ := List.get?_of_mem hmem
  exact AddQuad_rejects_of_slot_hit hq ck hwf ⟨idx, slot, hidx, slotStep_plain_hit hsec h⟩

theorem HavePending_cases (ck : IntersectionChecker) :
    (ck.HavePendingEncirclingQuad = true
      ∧ ∃ L back subs, ck.m_quads = L ++ [back] ∧ back.first.IsNull = true
        ∧ back.second = some subs)
    ∨ (ck.HavePendingEncirclingQuad = false
      ∧ ∀ slot, ck.m_quads.getLast? = some slot →
        ¬ (slot.first.IsNull = true ∧ slot.second.isSome = true)) := by
  unfold IntersectionChecker.HavePendingEncirclingQuad
  rcases List.eq_nil_or_concat ck.m_quads with hnil | ⟨L, back, hL⟩
  · right
    rw [hnil]
    simp
  · rw [List.concat_eq_append] at hL
    rw [hL, List.getLast?_concat]
    simp only []
    cases hnull : back.first.IsNull <;> cases hsec : back.second <;> simp [hnull, hsec]
    exact ⟨L, back, rfl, hnull, _, hsec⟩

theorem storeQuad_pending {ck : IntersectionChecker} {L : List QuadWithSubquads}
    {back : QuadWithSubquads} {subs : List QuadInfo} (q : QuadInfo)
    (hp : ck.HavePendingEncirclingQuad = true) (hL : ck.m_quads = L ++ [back])
    (hsec : back.second = some subs) :
    ck.storeQuad q
      = { m_quads := L ++ [{ back with second := some (subs ++ [q]) }], m_new_figure := false } := by
  unfold IntersectionChecker.storeQuad
  rw [if_pos hp, hL, List.getLast?_concat]
  simp [hsec, List.dropLast_concat]

theorem storeQuad_not_pending {ck : IntersectionChecker} (q : QuadInfo)
    (hp : ck.HavePendingEncirclingQuad = false) :
    ck.storeQuad q
      = { m_quads := ck.m_quads ++ [{ first := q, second := none }], m_new_figure := false } := by
  unfold IntersectionChecker.storeQuad
  rw [hp]
  simp

theorem StateInv_empty : ({} : IntersectionChecker).StateInv := by
  constructor
  · intro slot hs
    simp at hs
  · intro slot hs
    simp at hs

theorem StateInv_storeQuad {ck : IntersectionChecker} (q : QuadInfo) (h : ck.StateInv) :
    (ck.storeQuad q).StateInv := by
  rcases HavePending_cases ck with ⟨hp, L, back, subs, hL, hnull, hsec⟩ | ⟨hp, hlast⟩
  · rw [storeQuad_pending q hp hL hsec]
    constructor
    · intro slot hs
      apply h.1 slot
      rw [hL]
      simpa [List.dropLast_concat] using hs
    · intro slot hs
      rw [List.getLast?_concat] at hs
      simp only [Option.some.injEq] at hs
      subst hs
      exact Or.inr ⟨hnull, rfl⟩
  · rw [storeQuad_not_pending q hp]
    constructor
    · intro slot hs
      simp only [List.dropLast_concat] at hs
      rcases List.eq_nil_or_concat ck.m_quads with hnil | ⟨L, back, hL⟩
      · rw [hnil] at hs
        simp at hs
      · rw [List.concat_eq_append] at hL
        rw [hL] at hs
        rcases List.mem_append.mp hs with hs1 | hs1
        · apply h.1 slot
          rw [hL, List.dropLast_concat]
          exact hs1
        · simp only [List.mem_singleton] at hs1
          subst hs1
          have hgl : ck.m_quads.getLast? = some slot := by rw [hL, List.getLast?_concat]
          rcases h.2 slot hgl with hc | hpend
          · exact hc
          · exact absurd hpend (hlast slot hgl)
    · intro slot hs
      rw [List.getLast?_concat] at hs
      simp only [Option.some.injEq] at hs
      subst hs
      left
      simp [QuadWithSubquads.Closed]

theorem storeQuad_last_slot_hit {p1 p2 p3 p4 : Math.Point2D} {q : QuadInfo}
    (hq : GetQuadInfo p1 p2 p3 p4 = Except.ok q) (ck : IntersectionChecker) :
    ∃ idx slot, (ck.storeQuad q).m_quads.get? idx = some slot
      ∧ IntersectionChecker.slotStep none q (ck.storeQuad q).m_quads.length slot (0 + idx)
        = some (Except.ok false) := by
  have hself := QuadsHaveCommonPoints_self hq
  rcases HavePending_cases ck with ⟨hp, L, back, subs, hL, hnull, hsec⟩ | ⟨hp, _⟩
  · rw [storeQuad_pending q hp hL hsec]
    refine ⟨L.length, { back with second := some (subs ++ [q]) }, ?_, ?_⟩
    · rw [List.get?_eq_getElem?, List.getElem?_append_right (le_refl _)]
      simp
    · have hinner : IntersectionChecker.innerQuadsHit none q (0 + L.length) (subs ++ [q]) 0
          = true :=
        innerQuadsHit_eq_true none q _ (subs ++ [q]) 0
          ⟨subs.length, q, by
            rw [List.get?_eq_getElem?, List.getElem?_append_right (le_refl _)]
            simp, by simp, hself⟩
      rw [Nat.zero_add] at hinner
      unfold IntersectionChecker.slotStep
      simp [hnull, hinner]
  · rw [storeQuad_not_pending q hp]
    refine ⟨ck.m_quads.length, { first := q, second := none }, ?_, ?_⟩
    · rw [List.get?_eq_getElem?, List.getElem?_append_right (le_refl _)]
      simp
    · exact slotStep_plain_hit rfl hself

theorem run_CutFigure (ck : IntersectionChecker) :
    IntersectionChecker.CutFigure ck = (Except.ok (), { ck with m_new_figure := true }) := rfl

theorem QuadsHaveCommonPoints_loop_aux (q1 q2 : QuadInfo) (g : Nat → Bool)
    (hg : ∀ ix1, ([0, 1, 2, 3].any fun ix2 => edgePairHit q1 q2 ix1 ix2) = g ix1) :
    ∀ (l : List Nat) (fis sif : Bool),
      QuadsHaveCommonPoints.loop q1 q2 l fis sif
        = (l.any g || (fis && l.all (firstInsideAt q1 q2))
            || (sif && l.all (secondInsideAt q1 q2)))
  | [], fis, sif => by simp [QuadsHaveCommonPoints.loop]
  | ix1 :: rest, fis, sif => by
    rw [QuadsHaveCommonPoints.loop, hg ix1, QuadsHaveCommonPoints_loop_aux q1 q2 g hg rest,
      List.any_cons, List.all_cons, List.all_cons]
    generalize g ix1 = hit
    generalize rest.any g = hits
    generalize firstInsideAt q1 q2 ix1 = f
    generalize secondInsideAt q1 q2 ix1 = s
    generalize rest.all (firstInsideAt q1 q2) = fs
    generalize rest.all (secondInsideAt q1 q2) = ss
    cases hit <;> cases hits <;> cases f <;> cases s <;> cases fis <;> cases sif <;>
      cases fs <;> cases ss <;> rfl

theorem QuadsHaveCommonPoints_loop_eq (q1 q2 : QuadInfo) (l : List Nat) (fis sif : Bool) :
    QuadsHaveCommonPoints.loop q1 q2 l fis sif
      = (l.any (fun ix1 => [0, 1, 2, 3].any (fun ix2 => edgePairHit q1 q2 ix1 ix2))
        || (fis && l.all (firstInsideAt q1 q2)) || (sif && l.all (secondInsideAt q1 q2))) :=
  QuadsHaveCommonPoints_loop_aux q1 q2 _ (fun _ => rfl) l fis sif

theorem QuadsHaveCommonPoints_eq (q1 q2 : QuadInfo) :
    QuadsHaveCommonPoints q1 q2
      = (anyEdgePairHit q1 q2 || [0, 1, 2, 3].all (firstInsideAt q1 q2)
          || [0, 1, 2, 3].all (secondInsideAt q1 q2)) := by
  rw [QuadsHaveCommonPoints, QuadsHaveCommonPoints_loop_eq]
  simp [anyEdgePairHit]

theorem firstInsideAll_iff (q1 q2 : QuadInfo) :
    [0, 1, 2, 3].all (firstInsideAt q1 q2) = true ↔ StrictlyInside (q1.vertices.get 0) q2 := by
  simp only [List.all_cons, List.all_nil, Bool.and_true, Bool.and_eq_true, firstInsideAt,
    decide_eq_true_eq, StrictlyInside]
  constructor
  · rintro ⟨h0, h1, h2, h3⟩ ix hix
    interval_cases ix
    · exact h0
    · exact h1
    · exact h2
    · exact h3
  · intro h
    exact ⟨h 0 (by omega), h 1 (by omega), h 2 (by omega), h 3 (by omega)⟩

theorem secondInsideAll_iff (q1 q2 : QuadInfo) :
    [0, 1, 2, 3].all (secondInsideAt q1 q2) = true ↔ StrictlyInside (q2.vertices.get 0) q1 := by
  simp only [List.all_cons, List.all_nil, Bool.and_true, Bool.and_eq_true, secondInsideAt,
    decide_eq_true_eq, StrictlyInside]
  constructor
  · rintro ⟨h0, h1, h2, h3⟩ ix hix
    interval_cases ix
    · exact h0
    · exact h1
    · exact h2
    · exact h3
  · intro h
    exact ⟨h 0 (by omega), h 1 (by omega), h 2 (by omega), h 3 (by omega)⟩

theorem QuadsHaveCommonPoints_of_first_inside {q1 q2 : QuadInfo}
    (h : StrictlyInside (q1.vertices.get 0) q2) : QuadsHaveCommonPoints q1 q2 = true := by
  rw [QuadsHaveCommonPoints_eq, (firstInsideAll_iff q1 q2).mpr h]
  simp

theorem QuadsHaveCommonPoints_of_second_inside {q1 q2 : QuadInfo}
    (h : StrictlyInside (q2.vertices.get 0) q1) : QuadsHaveCommonPoints q1 q2 = true := by
  rw [QuadsHaveCommonPoints_eq, (secondInsideAll_iff q1 q2).mpr h]
  simp

theorem GetQuadInfo_exampleInnerQuad :
    GetQuadInfo ⟨4, 4⟩ ⟨5, 5⟩ ⟨6, 4⟩ ⟨5, 3⟩ = Except.ok exampleInnerQuad := by decide!

theorem AddQuad_on_new_checker {p1 p2 p3 p4 : Math.Point2D} {q : QuadInfo}
    (hq : GetQuadInfo p1 p2 p3 p4 = Except.ok q) :
    IntersectionChecker.AddQuad p1 p2 p3 p4 {}
      = (Except.ok (), { m_quads := [{ first := q, second := none }], m_new_figure := false }) := by
  rw [AddQuad_of_check hq]
  simp [IntersectionChecker.QuadDoesNotIntersectOthers, IntersectionChecker.neighborQuad,
    IntersectionChecker.slotsLoop, IntersectionChecker.storeQuad,
    IntersectionChecker.HavePendingEncirclingQuad]

/-- C3: when no cut has been issued since the last accepted quad (`m_new_figure` is
false) and the candidate has no common points with any stored quad or sub-quad other
than the most recently accepted one, `AddQuad` accepts the candidate; in particular, on
the new (empty) checker, `AddQuad(Q)` followed at once by `AddQuad(Q)` succeeds both
times for every valid quad `Q`. -/
theorem AddQuad_neighbour_exemption (p1 p2 p3 p4 : Math.Point2D) (q : QuadInfo)
    (hq : GetQuadInfo p1 p2 p3 p4 = Except.ok q) :
    (∀ ck : IntersectionChecker, ck.WF → ck.m_new_figure = false →
      (∀ r ∈ ck.storedQuads.dropLast, QuadsHaveCommonPoints r q = false) →
      IntersectionChecker.AddQuad p1 p2 p3 p4 ck = (Except.ok (), ck.storeQuad q))
    ∧ IntersectionChecker.AddQuad p1 p2 p3 p4 {}
        = (Except.ok (), { m_quads := [{ first := q, second := none }], m_new_figure := false })
    ∧ IntersectionChecker.AddQuad p1 p2 p3 p4
          { m_quads := [{ first := q, second := none }], m_new_figure := false }
        = (Except.ok (),
            { m_quads := [{ first := q, second := none }, { first := q, second := none }]
              m_new_figure := false }) := by
  have main : ∀ ck : IntersectionChecker, ck.WF → ck.m_new_figure = false →
      (∀ r ∈ ck.storedQuads.dropLast, QuadsHaveCommonPoints r q = false) →
      IntersectionChecker.AddQuad p1 p2 p3 p4 ck = (Except.ok (), ck.storeQuad q) := by
    intro ck hwf hnf h
    rw [AddQuad_of_check hq, QuadDoesNotIntersectOthers_of_neighbor_only ck q hwf hnf h]
  refine ⟨main, AddQuad_on_new_checker hq, ?_⟩
  · rw [main _ (by intro slot hs; simp at hs) rfl
      (by intro r hr; simp [IntersectionChecker.storedQuads, QuadWithSubquads.stored] at hr)]
    simp [IntersectionChecker.storeQuad, IntersectionChecker.HavePendingEncirclingQuad]

theorem AddQuad_neighbour_exemption_witness :
    GetQuadInfo ⟨0, 0⟩ ⟨0, 10⟩ ⟨10, 10⟩ ⟨10, 0⟩ = Except.ok exampleSquare
    ∧ IntersectionChecker.AddQuad ⟨0, 0⟩ ⟨0, 10⟩ ⟨10, 10⟩ ⟨10, 0⟩
          { m_quads := [{ first := exampleSquare, second := none }], m_new_figure := false }
        = (Except.ok (),
            { m_quads := [{ first := exampleSquare, second := none },
                { first := exampleSquare, second := none }]
              m_new_figure := false }) :=
  ⟨GetQuadInfo_exampleSquare,
    (AddQuad_neighbour_exemption ⟨0, 0⟩ ⟨0, 10⟩ ⟨10, 10⟩ ⟨10, 0⟩ exampleSquare
      GetQuadInfo_exampleSquare).2.2⟩

/-- C4: `CutFigure` removes the neighbour exemption.  From any reachable checker state,
if `AddQuad(Q)` succeeds, then after `CutFigure()` a second `AddQuad(Q)` throws the
intersection error (leaving the checker as it was after the cut); and after
`CutFigure()` every candidate that has common points with a stored plain quad (the last
accepted one included) is rejected with the intersection error. -/
theorem CutFigure_removes_neighbour_exemption (p1 p2 p3 p4 : Math.Point2D) (q : QuadInfo)
    (hq : GetQuadInfo p1 p2 p3 p4 = Except.ok q) (ck : IntersectionChecker)
    (hinv : ck.StateInv) :
    (∀ ck1, IntersectionChecker.AddQuad p1 p2 p3 p4 ck = (Except.ok (), ck1) →
      IntersectionChecker.AddQuad p1 p2 p3 p4 (IntersectionChecker.CutFigure ck1).2
        = (Except.error Err.intersection, (IntersectionChecker.CutFigure ck1).2))
    ∧ (∀ slot ∈ ck.m_quads, slot.second = none →
        QuadsHaveCommonPoints slot.first q = true →
        IntersectionChecker.AddQuad p1 p2 p3 p4 (IntersectionChecker.CutFigure ck).2
          = (Except.error Err.intersection, (IntersectionChecker.CutFigure ck).2)) := by
  constructor
  · intro ck1 h1
    have hck1 : ck1 = ck.storeQuad q := by
      rw [AddQuad_of_check hq] at h1
      cases hc : ck.QuadDoesNotIntersectOthers q with
      | error e => rw [hc] at h1; simp at h1
      | ok b =>
        cases b with
        | false => rw [hc] at h1; simp at h1
        | true =>
          rw [hc] at h1
          simp only [Prod.mk.injEq, true_and] at h1
          exact h1.symm
    subst hck1
    rw [run_CutFigure]
    exact AddQuad_rejects_of_slot_hit hq _ (StateInv_storeQuad q hinv).1
      (storeQuad_last_slot_hit hq ck)
  · intro slot hmem hsec hhit
    rw [run_CutFigure]
    exact AddQuad_rejects_of_plain_hit hq ck hinv.1 slot hmem hsec hhit

theorem CutFigure_removes_neighbour_exemption_witness :
    GetQuadInfo ⟨0, 0⟩ ⟨0, 10⟩ ⟨10, 10⟩ ⟨10, 0⟩ = Except.ok exampleSquare
    ∧ ({} : IntersectionChecker).StateInv
    ∧ IntersectionChecker.AddQuad ⟨0, 0⟩ ⟨0, 10⟩ ⟨10, 10⟩ ⟨10, 0⟩
          (IntersectionChecker.CutFigure
            { m_quads := [{ first := exampleSquare, second := none }], m_new_figure := false }).2
        = (Except.error Err.intersection,
            (IntersectionChecker.CutFigure
              { m_quads := [{ first := exampleSquare, second := none }],
                m_new_figure := false }).2) :=
  ⟨GetQuadInfo_exampleSquare, StateInv_empty,
    (CutFigure_removes_neighbour_exemption ⟨0, 0⟩ ⟨0, 10⟩ ⟨10, 10⟩ ⟨10, 0⟩ exampleSquare
      GetQuadInfo_exampleSquare {} StateInv_empty).1 _
      (AddQuad_on_new_checker GetQuadInfo_exampleSquare)⟩

theorem AddQuad_rejects_of_hit {p1 p2 p3 p4 : Math.Point2D} {q : QuadInfo}
    (hq : GetQuadInfo p1 p2 p3 p4 = Except.ok q) (ck : IntersectionChecker) (hwf : ck.WF)
    (n : Option QuadRef) (hn : ck.neighborQuad = Except.ok n)
    (hhit : ∃ idx slot, ck.m_quads.get? idx = some slot
      ∧ IntersectionChecker.slotStep n q ck.m_quads.length slot (0 + idx)
        = some (Except.ok false)) :
    IntersectionChecker.AddQuad p1 p2 p3 p4 ck = (Except.error Err.intersection, ck) := by
  rw [AddQuad_of_check hq]
  have h1 : ck.QuadDoesNotIntersectOthers q = Except.ok false := by
    simp only [IntersectionChecker.QuadDoesNotIntersectOthers, hn]
    exact slotsLoop_hit n q _ ck.m_quads 0 (WF_safe hwf) hhit
  rw [h1]

theorem AddQuad_rejects_non_neighbour_plain {p1 p2 p3 p4 : Math.Point2D} {q : QuadInfo}
    (hq : GetQuadInfo p1 p2 p3 p4 = Except.ok q) (ck : IntersectionChecker) (hwf : ck.WF)
    (n : Option QuadRef) (hn : ck.neighborQuad = Except.ok n) (idx : Nat)
    (slot : QuadWithSubquads) (hslot : ck.m_quads.get? idx = some slot)
    (hne : n ≠ some (QuadRef.first idx)) (hsec : slot.second = none)
    (h : QuadsHaveCommonPoints slot.first q = true) :
    IntersectionChecker.AddQuad p1 p2 p3 p4 ck = (Except.error Err.intersection, ck) := by
  apply AddQuad_rejects_of_hit hq ck hwf n hn
  refine ⟨idx, slot, hslot, ?_⟩
  unfold IntersectionChecker.slotStep
  rw [Nat.zero_add, if_neg hne, hsec]
  simp [h]

/-- C5: full containment counts as an intersection.  If every vertex of `Q` is
classified by each of the four edge equations of `R` as lying on `R`'s interior side
(beyond the tolerance), then `QuadsHaveCommonPoints(Q, R)` and
`QuadsHaveCommonPoints(R, Q)` both return true; hence in a well-formed checker `AddQuad`
rejects, with the intersection error, a candidate `Q` nested inside a stored plain quad
`R` that is not the exempt neighbour, and a candidate `R` enclosing such a stored `Q`. -/
theorem full_containment_counts_as_intersection (Q R : QuadInfo)
    (h : ∀ j, j < 4 → StrictlyInside (Q.vertices.get j) R) :
    QuadsHaveCommonPoints Q R = true ∧ QuadsHaveCommonPoints R Q = true
    ∧ (∀ (ck : IntersectionChecker) (n : Option QuadRef) (idx : Nat)
        (p1 p2 p3 p4 : Math.Point2D),
        ck.WF → ck.neighborQuad = Except.ok n → n ≠ some (QuadRef.first idx) →
        ck.m_quads.get? idx = some { first := R, second := none } →
        GetQuadInfo p1 p2 p3 p4 = Except.ok Q →
        IntersectionChecker.AddQuad p1 p2 p3 p4 ck = (Except.error Err.intersection, ck))
    ∧ (∀ (ck : IntersectionChecker) (n : Option QuadRef) (idx : Nat)
        (p1 p2 p3 p4 : Math.Point2D),
        ck.WF → ck.neighborQuad = Except.ok n → n ≠ some (QuadRef.first idx) →
        ck.m_quads.get? idx = some { first := Q, second := none } →
        GetQuadInfo p1 p2 p3 p4 = Except.ok R →
        IntersectionChecker.AddQuad p1 p2 p3 p4 ck = (Except.error Err.intersection, ck)) := by
  have h1 : QuadsHaveCommonPoints Q R = true :=
    QuadsHaveCommonPoints_of_first_inside (h 0 (by omega))
  have h2 : QuadsHaveCommonPoints R Q = true :=
    QuadsHaveCommonPoints_of_second_inside (h 0 (by omega))
  refine ⟨h1, h2, ?_, ?_⟩
  · intro ck n idx p1 p2 p3 p4 hwf hn hne hslot hq
    exact AddQuad_rejects_non_neighbour_plain hq ck hwf n hn idx _ hslot hne rfl h2
  · intro ck n idx p1 p2 p3 p4 hwf hn hne hslot hq
    exact AddQuad_rejects_non_neighbour_plain hq ck hwf n hn idx _ hslot hne rfl h1

theorem full_containment_counts_as_intersection_witness :
    (∀ j, j < 4 → StrictlyInside (exampleInnerQuad.vertices.get j) exampleSquare)
    ∧ QuadsHaveCommonPoints exampleInnerQuad exampleSquare = true
    ∧ QuadsHaveCommonPoints exampleSquare exampleInnerQuad = true :=
  ⟨by decide!,
    (full_containment_counts_as_intersection exampleInnerQuad exampleSquare (by decide!)).1,
    (full_containment_counts_as_intersection exampleInnerQuad exampleSquare (by decide!)).2.1⟩

/-! ## C6: the overlap verdict and the starting vertex of a quad -/

theorem segment_rotate (p1 p2 p3 p4 : Math.Point2D) :
    GetQuadInfo.segment ⟨p2, p3, p4, p1⟩ 0 = GetQuadInfo.segment ⟨p1, p2, p3, p4⟩ 1
    ∧ GetQuadInfo.segment ⟨p2, p3, p4, p1⟩ 1 = GetQuadInfo.segment ⟨p1, p2, p3, p4⟩ 2
    ∧ GetQuadInfo.segment ⟨p2, p3, p4, p1⟩ 2 = GetQuadInfo.segment ⟨p1, p2, p3, p4⟩ 3
    ∧ GetQuadInfo.segment ⟨p2, p3, p4, p1⟩ 3 = GetQuadInfo.segment ⟨p1, p2, p3, p4⟩ 0 :=
  ⟨rfl, rfl, rfl, rfl⟩

theorem GetQuadInfo_rotate {p1 p2 p3 p4 : Math.Point2D} {Q Q1 : QuadInfo}
    (hQ : GetQuadInfo p1 p2 p3 p4 = Except.ok Q)
    (hQ1 : GetQuadInfo p2 p3 p4 p1 = Except.ok Q1) :
    Q.vertices = ⟨p1, p2, p3, p4⟩ ∧ Q1.vertices = ⟨p2, p3, p4, p1⟩
    ∧ Q1.segments = ⟨Q.segments.e1, Q.segments.e2, Q.segments.e3, Q.segments.e0⟩ := by
  obtain ⟨hv, h0, h1, h2, h3⟩ := GetQuadInfo_ok hQ
  obtain ⟨hv1, g0, g1, g2, g3⟩ := GetQuadInfo_ok hQ1
  obtain ⟨r0, r1, r2, r3⟩ := segment_rotate p1 p2 p3 p4
  rw [r0, h1] at g0
  rw [r1, h2] at g1
  rw [r2, h3] at g2
  rw [r3, h0] at g3
  refine ⟨hv, hv1, ?_⟩
  cases hs : Q1.segments with
  | mk a b c d =>
    rw [hs] at g0 g1 g2 g3
    simp only [Except.ok.injEq] at g0 g1 g2 g3
    rw [← g0, ← g1, ← g2, ← g3]

theorem StrictlyInside_rotate {Q Q1 : QuadInfo} (p : Math.Point2D)
    (hs : Q1.segments = ⟨Q.segments.e1, Q.segments.e2, Q.segments.e3, Q.segments.e0⟩) :
    StrictlyInside p Q1 ↔ StrictlyInside p Q := by
  unfold StrictlyInside
  rw [hs]
  constructor
  · intro h ix hix
    interval_cases ix
    · exact h 3 (by omega)
    · exact h 0 (by omega)
    · exact h 1 (by omega)
    · exact h 2 (by omega)
  · intro h ix hix
    interval_cases ix
    · exact h 1 (by omega)
    · exact h 2 (by omega)
    · exact h 3 (by omega)
    · exact h 0 (by omega)

theorem edgePairHit_rotate_first {Q Q1 : QuadInfo} {p1 p2 p3 p4 : Math.Point2D} (R : QuadInfo)
    (hv : Q.vertices = ⟨p1, p2, p3, p4⟩) (hv1 : Q1.vertices = ⟨p2, p3, p4, p1⟩)
    (hs : Q1.segments = ⟨Q.segments.e1, Q.segments.e2, Q.segments.e3, Q.segments.e0⟩)
    (ix2 : Nat) :
    edgePairHit Q1 R 0 ix2 = edgePairHit Q R 1 ix2
    ∧ edgePairHit Q1 R 1 ix2 = edgePairHit Q R 2 ix2
    ∧ edgePairHit Q1 R 2 ix2 = edgePairHit Q R 3 ix2
    ∧ edgePairHit Q1 R 3 ix2 = edgePairHit Q R 0 ix2 := by
  refine ⟨?_, ?_, ?_, ?_⟩ <;> simp only [edgePairHit, hv, hv1, hs, Arr4.get]

theorem edgePairHit_rotate_second {Q Q1 : QuadInfo} {p1 p2 p3 p4 : Math.Point2D} (R : QuadInfo)
    (hv : Q.vertices = ⟨p1, p2, p3, p4⟩) (hv1 : Q1.vertices = ⟨p2, p3, p4, p1⟩)
    (hs : Q1.segments = ⟨Q.segments.e1, Q.segments.e2, Q.segments.e3, Q.segments.e0⟩)
    (ix1 : Nat) :
    edgePairHit R Q1 ix1 0 = edgePairHit R Q ix1 1
    ∧ edgePairHit R Q1 ix1 1 = edgePairHit R Q ix1 2
    ∧ edgePairHit R Q1 ix1 2 = edgePairHit R Q ix1 3
    ∧ edgePairHit R Q1 ix1 3 = edgePairHit R Q ix1 0 := by
  refine ⟨?_, ?_, ?_, ?_⟩ <;> simp only [edgePairHit, hv, hv1, hs, Arr4.get]

theorem or4_rotate (a b c d : Bool) :
    (b || (c || (d || (a || false)))) = (a || (b || (c || (d || false)))) := by
  cases a <;> cases b <;> cases c <;> cases d <;> rfl

theorem anyEdgePairHit_rotate_first {Q Q1 : QuadInfo} {p1 p2 p3 p4 : Math.Point2D}
    (R : QuadInfo)
    (hv : Q.vertices = ⟨p1, p2, p3, p4⟩) (hv1 : Q1.vertices = ⟨p2, p3, p4, p1⟩)
    (hs : Q1.segments = ⟨Q.segments.e1, Q.segments.e2, Q.segments.e3, Q.segments.e0⟩) :
    anyEdgePairHit Q1 R = anyEdgePairHit Q R := by
  obtain ⟨a0, a1, a2, a3⟩ := edgePairHit_rotate_first R hv hv1 hs 0
  obtain ⟨b0, b1, b2, b3⟩ := edgePairHit_rotate_first R hv hv1 hs 1
  obtain ⟨c0, c1, c2, c3⟩ := edgePairHit_rotate_first R hv hv1 hs 2
  obtain ⟨d0, d1, d2, d3⟩ := edgePairHit_rotate_first R hv hv1 hs 3
  simp only [anyEdgePairHit, List.any_cons, List.any_nil]
  rw [a0, a1, a2, a3, b0, b1, b2, b3, c0, c1, c2, c3, d0, d1, d2, d3]
  exact or4_rotate _ _ _ _

theorem anyEdgePairHit_rotate_second {Q Q1 : QuadInfo} {p1 p2 p3 p4 : Math.Point2D}
    (R : QuadInfo)
    (hv : Q.vertices = ⟨p1, p2, p3, p4⟩) (hv1 : Q1.vertices = ⟨p2, p3, p4, p1⟩)
    (hs : Q1.segments = ⟨Q.segments.e1, Q.segments.e2, Q.segments.e3, Q.segments.e0⟩) :
    anyEdgePairHit R Q1 = anyEdgePairHit R Q := by
  obtain ⟨a0, a1, a2, a3⟩ := edgePairHit_rotate_second R hv hv1 hs 0
  obtain ⟨b0, b1, b2, b3⟩ := edgePairHit_rotate_second R hv hv1 hs 1
  obtain ⟨c0, c1, c2, c3⟩ := edgePairHit_rotate_second R hv hv1 hs 2
  obtain ⟨d0, d1, d2, d3⟩ := edgePairHit_rotate_second R hv hv1 hs 3
  simp only [anyEdgePairHit, List.any_cons, List.any_nil]
  rw [a0, a1, a2, a3, b0, b1, b2, b3, c0, c1, c2, c3, d0, d1, d2, d3,
    or4_rotate (edgePairHit R Q 0 0) (edgePairHit R Q 0 1) (edgePairHit R Q 0 2)
      (edgePairHit R Q 0 3),
    or4_rotate (edgePairHit R Q 1 0) (edgePairHit R Q 1 1) (edgePairHit R Q 1 2)
      (edgePairHit R Q 1 3),
    or4_rotate (edgePairHit R Q 2 0) (edgePairHit R Q 2 1) (edgePairHit R Q 2 2)
      (edgePairHit R Q 2 3),
    or4_rotate (edgePairHit R Q 3 0) (edgePairHit R Q 3 1) (edgePairHit R Q 3 2)
      (edgePairHit R Q 3 3)]

theorem all_eq_of_iff {a b : Bool} (h : a = true ↔ b = true) : a = b := by
  cases a <;> cases b <;> simp_all

theorem GetQuadInfo_exampleKite :
    GetQuadInfo ⟨5, 1 / 131072⟩ ⟨4, 4⟩ ⟨5, 5⟩ ⟨6, 4⟩ = Except.ok exampleKite := by decide!

theorem GetQuadInfo_exampleKiteRotated :
    GetQuadInfo ⟨4, 4⟩ ⟨5, 5⟩ ⟨6, 4⟩ ⟨5, 1 / 131072⟩ = Except.ok exampleKiteRotated := by
  decide!

theorem GetQuadInfo_exampleInnerQuadRotated :
    GetQuadInfo ⟨5, 5⟩ ⟨6, 4⟩ ⟨5, 3⟩ ⟨4, 4⟩ = Except.ok exampleInnerQuadRotated := by decide!

/-- C6, counterexample: the kite `(5, 1/131072)`, `(4,4)`, `(5,5)`, `(6,4)` lies inside
the square `(0,0)`, `(0,10)`, `(10,10)`, `(10,0)`.  Given from its first corner, which is
closer than the tolerance to the bottom edge line, it is reported as having no common
points with the square; given from its second corner it is reported as having common
points — in both argument orders of `QuadsHaveCommonPoints`, and so for `AddQuad` on a
checker that holds the square after a cut. -/
theorem rotation_changes_overlap_verdict :
    GetQuadInfo ⟨5, 1 / 131072⟩ ⟨4, 4⟩ ⟨5, 5⟩ ⟨6, 4⟩ = Except.ok exampleKite
    ∧ GetQuadInfo ⟨4, 4⟩ ⟨5, 5⟩ ⟨6, 4⟩ ⟨5, 1 / 131072⟩ = Except.ok exampleKiteRotated
    ∧ GetQuadInfo ⟨0, 0⟩ ⟨0, 10⟩ ⟨10, 10⟩ ⟨10, 0⟩ = Except.ok exampleSquare
    ∧ QuadsHaveCommonPoints exampleKite exampleSquare = false
    ∧ QuadsHaveCommonPoints exampleKiteRotated exampleSquare = true
    ∧ QuadsHaveCommonPoints exampleSquare exampleKite = false
    ∧ QuadsHaveCommonPoints exampleSquare exampleKiteRotated = true
    ∧ (IntersectionChecker.AddQuad ⟨5, 1 / 131072⟩ ⟨4, 4⟩ ⟨5, 5⟩ ⟨6, 4⟩
        { m_quads := [{ first := exampleSquare, second := none }], m_new_figure := true }).1
        = Except.ok ()
    ∧ (IntersectionChecker.AddQuad ⟨4, 4⟩ ⟨5, 5⟩ ⟨6, 4⟩ ⟨5, 1 / 131072⟩
        { m_quads := [{ first := exampleSquare, second := none }], m_new_figure := true }).1
        = Except.error Err.intersection := by
  decide!

/-- C6, amended: for valid quads `Q` (vertices `p1 p2 p3 p4`) and `R`, giving `Q`'s
vertices from the next corner on (`p2 p3 p4 p1`) leaves the verdict of
`QuadsHaveCommonPoints` unchanged in both argument orders, provided the new first
vertex `p2` and the old first vertex `p1` are classified alike by the containment
sample, that is, both or neither lie on the interior side of all four edge lines of `R`
beyond the tolerance. -/
theorem overlap_verdict_rotation_invariant (p1 p2 p3 p4 : Math.Point2D) (Q Q1 R : QuadInfo)
    (hQ : GetQuadInfo p1 p2 p3 p4 = Except.ok Q)
    (hQ1 : GetQuadInfo p2 p3 p4 p1 = Except.ok Q1)
    (hsame : StrictlyInside p2 R ↔ StrictlyInside p1 R) :
    QuadsHaveCommonPoints Q1 R = QuadsHaveCommonPoints Q R
    ∧ QuadsHaveCommonPoints R Q1 = QuadsHaveCommonPoints R Q := by
  obtain ⟨hv, hv1, hs⟩ := GetQuadInfo_rotate hQ hQ1
  have e1 : [0, 1, 2, 3].all (firstInsideAt Q1 R) = [0, 1, 2, 3].all (firstInsideAt Q R) := by
    apply all_eq_of_iff
    rw [firstInsideAll_iff, firstInsideAll_iff, hv, hv1]
    exact hsame
  have e2 : [0, 1, 2, 3].all (secondInsideAt Q1 R) = [0, 1, 2, 3].all (secondInsideAt Q R) := by
    apply all_eq_of_iff
    rw [secondInsideAll_iff, secondInsideAll_iff]
    exact StrictlyInside_rotate _ hs
  have e3 : [0, 1, 2, 3].all (firstInsideAt R Q1) = [0, 1, 2, 3].all (firstInsideAt R Q) := by
    apply all_eq_of_iff
    rw [firstInsideAll_iff, firstInsideAll_iff]
    exact StrictlyInside_rotate _ hs
  have e4 : [0, 1, 2, 3].all (secondInsideAt R Q1) = [0, 1, 2, 3].all (secondInsideAt R Q) := by
    apply all_eq_of_iff
    rw [secondInsideAll_iff, secondInsideAll_iff, hv, hv1]
    exact hsame
  constructor
  · rw [QuadsHaveCommonPoints_eq, QuadsHaveCommonPoints_eq,
      anyEdgePairHit_rotate_first R hv hv1 hs, e1, e2]
  · rw [QuadsHaveCommonPoints_eq, QuadsHaveCommonPoints_eq,
      anyEdgePairHit_rotate_second R hv hv1 hs, e3, e4]

theorem overlap_verdict_rotation_invariant_witness :
    GetQuadInfo ⟨4, 4⟩ ⟨5, 5⟩ ⟨6, 4⟩ ⟨5, 3⟩ = Except.ok exampleInnerQuad
    ∧ GetQuadInfo ⟨5, 5⟩ ⟨6, 4⟩ ⟨5, 3⟩ ⟨4, 4⟩ = Except.ok exampleInnerQuadRotated
    ∧ (StrictlyInside ⟨5, 5⟩ exampleSquare ↔ StrictlyInside ⟨4, 4⟩ exampleSquare)
    ∧ QuadsHaveCommonPoints exampleInnerQuadRotated exampleSquare
        = QuadsHaveCommonPoints exampleInnerQuad exampleSquare
    ∧ QuadsHaveCommonPoints exampleSquare exampleInnerQuadRotated
        = QuadsHaveCommonPoints exampleSquare exampleInnerQuad :=
  ⟨GetQuadInfo_exampleInnerQuad, GetQuadInfo_exampleInnerQuadRotated, by decide!,
    overlap_verdict_rotation_invariant ⟨4, 4⟩ ⟨5, 5⟩ ⟨6, 4⟩ ⟨5, 3⟩ exampleInnerQuad
      exampleInnerQuadRotated exampleSquare GetQuadInfo_exampleInnerQuad
      GetQuadInfo_exampleInnerQuadRotated (by decide!)⟩

/-- C2, example: the points `(0,0)`, `(1,0)`, `(2,0)`, `(0,1)` have three collinear
points, and `AddQuad` rejects them on the new checker. -/
theorem AddQuad_rejects_not_strictly_convex_witness :
    NotStrictlyConvex ⟨0, 0⟩ ⟨1, 0⟩ ⟨2, 0⟩ ⟨0, 1⟩
    ∧ IntersectionChecker.AddQuad ⟨0, 0⟩ ⟨1, 0⟩ ⟨2, 0⟩ ⟨0, 1⟩ {}
        = (Except.error Err.badQuad, {}) :=
  ⟨Or.inl (by norm_num [Collinear, cross]),
    AddQuad_rejects_not_strictly_convex {} ⟨0, 0⟩ ⟨1, 0⟩ ⟨2, 0⟩ ⟨0, 1⟩
      (Or.inl (by norm_num [Collinear, cross]))⟩

/-! ## C7, C8, C10: the checks at the head of the figure operations -/

theorem Start_of_validate_error {lm : Libm} {fig : RoadFigure} {e : Err}
    (h : RoadFigure.Start.validate fig = (Except.error e, fig)) :
    RoadFigure.Start lm fig = (Except.error e, fig) := by
  unfold RoadFigure.Start
  exact M.run_bind_error h

theorem Finish_of_validate_error {lm : Libm} {fig : RoadFigure} {e : Err}
    (h : RoadFigure.Finish.validate fig = (Except.error e, fig)) :
    RoadFigure.Finish lm fig = (Except.error e, fig) := by
  unfold RoadFigure.Finish
  exact M.run_bind_error h

theorem Start_validate_cases (fig : RoadFigure) :
    RoadFigure.Start.validate fig = (Except.ok (), fig)
    ∨ ∃ e, RoadFigure.Start.validate fig = (Except.error e, fig) := by
  simp only [RoadFigure.Start.validate, M.run_bind, M.run_read]
  split_ifs <;> first | exact Or.inl rfl | exact Or.inr ⟨_, rfl⟩

theorem Start_validate_ok_iff (fig : RoadFigure) :
    RoadFigure.Start.validate fig = (Except.ok (), fig)
      ↔ fig.m_started_drawing = false ∧ fig.m_finished_drawing = false
        ∧ -30000 ≤ fig.m_v_null.x ∧ fig.m_v_null.x ≤ 30000
        ∧ -30000 ≤ fig.m_v_null.y ∧ fig.m_v_null.y ≤ 30000
        ∧ -32767 ≤ fig.m_floorpos ∧ fig.m_floorpos ≤ 32767
        ∧ fig.m_floorpos ≤ fig.m_ceilingpos ∧ fig.m_ceilingpos ≤ 32767
        ∧ fig.m_ceilingpos - fig.m_floorpos ≤ 32767
        ∧ fig.m_floorpos < fig.m_ceilingpos - fig.m_config.sizes.fence_height := by
  simp only [RoadFigure.Start.validate, M.run_bind, M.run_read]
  split_ifs with h1 h2 h3 h4 h5 h6 h7 h8
  · constructor
    · intro h; simp [M.run_fail] at h
    · rintro ⟨g1, -⟩; rw [g1] at h1; exact absurd h1 (by decide)
  · constructor
    · intro h; simp [M.run_fail] at h
    · rintro ⟨-, g2, -⟩; rw [g2] at h2; exact absurd h2 (by decide)
  · constructor
    · intro h; simp [M.run_fail] at h
    · rintro ⟨-, -, g3, g4, g5, g6, -⟩
      rcases h3 with h | h | h | h <;> linarith
  · constructor
    · intro h; simp [M.run_fail] at h
    · rintro ⟨-, -, -, -, -, -, g7, g8, -⟩
      rcases h4 with h | h <;> omega
  · constructor
    · intro h; simp [M.run_fail] at h
    · rintro ⟨-, -, -, -, -, -, -, -, g9, -⟩
      omega
  · constructor
    · intro h; simp [M.run_fail] at h
    · rintro ⟨-, -, -, -, -, -, -, -, -, g10, -⟩
      omega
  · constructor
    · intro h; simp [M.run_fail] at h
    · rintro ⟨-, -, -, -, -, -, -, -, -, -, g11, -⟩
      omega
  · constructor
    · intro h; simp [M.run_fail] at h
    · rintro ⟨-, -, -, -, -, -, -, -, -, -, -, g12⟩
      omega
  · constructor
    · intro _
      simp only [Bool.not_eq_true] at h1 h2
      push_neg at h3 h4
      exact ⟨h1, h2, h3.1, h3.2.1, h3.2.2.1, h3.2.2.2, h4.1, h4.2, by omega, by omega,
        by omega, by omega⟩
    · intro _; rfl

theorem Finish_validate_cases (fig : RoadFigure) :
    RoadFigure.Finish.validate fig = (Except.ok (), fig)
    ∨ ∃ e, RoadFigure.Finish.validate fig = (Except.error e, fig) := by
  simp only [RoadFigure.Finish.validate, M.run_bind, M.run_read]
  split_ifs <;> first | exact Or.inl rfl | exact Or.inr ⟨_, rfl⟩

theorem Finish_validate_error_of_not_drawing {fig : RoadFigure}
    (h : fig.m_started_drawing = false ∨ fig.m_finished_drawing = true) :
    ∃ e, RoadFigure.Finish.validate fig = (Except.error e, fig) := by
  simp only [RoadFigure.Finish.validate, M.run_bind, M.run_read]
  rcases h with h | h
  · exact ⟨Err.finishNotStarted, by simp [h, M.run_fail]⟩
  · by_cases h1 : fig.m_started_drawing = true
    · exact ⟨Err.finishAgain, by simp [h, h1, M.run_fail]⟩
    · exact ⟨Err.finishNotStarted, by simp [h1, M.run_fail]⟩

theorem Line_error_of_not_drawing {lm : Libm} {fig : RoadFigure} (data : LineData)
    (h : fig.m_started_drawing = false ∨ fig.m_finished_drawing = true) :
    RoadFigure.Line lm data fig = (Except.error Err.lineNotDrawing, fig) := by
  simp only [RoadFigure.Line, M.run_bind, M.run_read]
  rcases h with h | h <;> simp [h, M.run_fail]

theorem Arc_error_of_not_drawing {lm : Libm} {fig : RoadFigure} (data : ArcData)
    (h : fig.m_started_drawing = false ∨ fig.m_finished_drawing = true) :
    RoadFigure.Arc lm data fig = (Except.error Err.arcNotDrawing, fig) := by
  simp only [RoadFigure.Arc, M.run_bind, M.run_read]
  rcases h with h | h <;> simp [h, M.run_fail]

theorem SlopeModifier_error_of_not_drawing {lm : Libm} {fig : RoadFigure}
    (data : SlopeModifierData)
    (h : fig.m_started_drawing = false ∨ fig.m_finished_drawing = true) :
    RoadFigure.SlopeModifier lm data fig = (Except.error Err.slopeNotDrawing, fig) := by
  simp only [RoadFigure.SlopeModifier, M.run_bind, M.run_read]
  rcases h with h | h <;> simp [h, M.run_fail]

theorem Start_error_of_not_new {lm : Libm} {fig : RoadFigure}
    (h : fig.m_started_drawing = true ∨ fig.m_finished_drawing = true) :
    ∃ e, RoadFigure.Start lm fig = (Except.error e, fig) := by
  rcases Start_validate_cases fig with hok | ⟨e, he⟩
  · rw [Start_validate_ok_iff] at hok
    rcases h with h | h
    · rw [hok.1] at h; exact absurd h (by decide)
    · rw [hok.2.1] at h; exact absurd h (by decide)
  · exact ⟨e, Start_of_validate_error he⟩

theorem M.bind_update_ok {σ α : Type} {m : M σ α} {f : σ → σ} {s s1 : σ}
    (h : (m >>= fun _ => M.update f) s = (Except.ok (), s1)) :
    ∃ s0 a, m s = (Except.ok a, s0) ∧ s1 = f s0 := by
  rw [M.run_bind] at h
  rcases hm : m s with ⟨r, s0⟩
  rw [hm] at h
  cases r with
  | error e => simp at h
  | ok a =>
    simp only [M.run_update, Prod.mk.injEq, true_and] at h
    exact ⟨s0, a, rfl, h.symm⟩

theorem Finish_ok_flags {lm : Libm} {fig fig1 : RoadFigure}
    (h : RoadFigure.Finish lm fig = (Except.ok (), fig1)) :
    fig1.m_started_drawing = false ∧ fig1.m_finished_drawing = true := by
  unfold RoadFigure.Finish at h
  simp only [M.run_bind] at h
  split at h
  · split at h
    · split at h
      · split at h
        · split at h
          · simp only [M.run_update, Prod.mk.injEq, true_and] at h
            subst h
            exact ⟨rfl, rfl⟩
          · simp at h
        · simp at h
      · simp at h
    · simp at h
  · simp at h


/-! ## Reference closure: the invariant of the figure builder -/

section FigureInvariant

open Udmf

set_option linter.unusedTactic false
set_option linter.unreachableTactic false
set_option linter.unusedVariables false

/-! ## Partial-correctness rules -/

theorem M.wlp_bind {σ α β : Type} (m : M σ α) (f : α → M σ β) (Q : β → σ → Prop) (s : σ) :
    M.wlp (m >>= f) Q s ↔ M.wlp m (fun a s1 => M.wlp (f a) Q s1) s := by
  unfold M.wlp
  rw [M.run_bind]
  generalize m s = r
  rcases r with ⟨r, s1⟩
  cases r <;> simp

theorem M.wlp_pure {σ α : Type} (a : α) (Q : α → σ → Prop) (s : σ) :
    M.wlp (pure a : M σ α) Q s ↔ Q a s := Iff.rfl

theorem M.wlp_read {σ : Type} (Q : σ → σ → Prop) (s : σ) :
    M.wlp (M.read : M σ σ) Q s ↔ Q s s := Iff.rfl

theorem M.wlp_fail {σ α : Type} (e : Err) (Q : α → σ → Prop) (s : σ) :
    M.wlp (M.fail e : M σ α) Q s ↔ True := Iff.rfl

theorem M.wlp_update {σ : Type} (f : σ → σ) (Q : Unit → σ → Prop) (s : σ) :
    M.wlp (M.update f) Q s ↔ Q () (f s) := Iff.rfl

theorem M.wlp_ite {σ α : Type} (c : Prop) [Decidable c] (m1 m2 : M σ α) (Q : α → σ → Prop)
    (s : σ) :
    M.wlp (if c then m1 else m2) Q s ↔ (c → M.wlp m1 Q s) ∧ (¬ c → M.wlp m2 Q s) := by
  split_ifs with h <;> simp [h]

theorem M.wlp_mono {σ α : Type} {m : M σ α} {P Q : α → σ → Prop} {s : σ}
    (h : M.wlp m P s) (hPQ : ∀ a s1, P a s1 → Q a s1) : M.wlp m Q s := by
  unfold M.wlp at *
  generalize m s = r at h ⊢
  rcases r with ⟨r, s1⟩
  cases r with
  | error e => trivial
  | ok a => exact hPQ a s1 h

theorem M.wlp_of_run {σ α : Type} {m : M σ α} {Q : α → σ → Prop} {s s1 : σ} {a : α}
    (h : M.wlp m Q s) (hr : m s = (Except.ok a, s1)) : Q a s1 := by
  unfold M.wlp at h
  rw [hr] at h
  exact h

theorem Udmf.Linedef.RefsOK.grow_linedef {nv nsd nv1 nsd1 : Nat} {l : Linedef} (h : l.RefsOK nv nsd)
    (h1 : nv ≤ nv1) (h2 : nsd ≤ nsd1) : l.RefsOK nv1 nsd1 := by
  unfold Linedef.RefsOK at *
  omega

theorem Udmf.Sidedef.RefsOK.grow_sidedef {n nt n1 : Nat} {sd : Sidedef} (h : sd.RefsOK n nt)
    (h1 : n ≤ n1) : sd.RefsOK n1 nt :=
  ⟨lt_of_lt_of_le h.1 h1, h.2⟩

namespace RoadFigure

theorem Grown.refl (s : RoadFigure) : Grown s s := ⟨le_refl _, le_refl _, le_refl _⟩

theorem Grown.trans {a b c : RoadFigure} (h1 : Grown a b) (h2 : Grown b c) : Grown a c :=
  ⟨le_trans h1.1 h2.1, le_trans h1.2.1 h2.2.1, le_trans h1.2.2 h2.2.2⟩

/-- A state that agrees with `s` on the map, `m_last_ids` and the templates inherits the
invariant. -/
theorem Inv.of_eq {s s1 : RoadFigure} (h : Inv s) (hmap : s1.m_map = s.m_map)
    (hv : s1.m_last_ids_v = s.m_last_ids_v) (hs : s1.m_last_ids_s = s.m_last_ids_s)
    (ht : s1.m_s = s.m_s) (h1 : s1.m_sd_roadside = s.m_sd_roadside)
    (h2 : s1.m_sd_markside = s.m_sd_markside) (h3 : s1.m_sd_fenceside = s.m_sd_fenceside) :
    Inv s1 := by
  constructor
  · rw [hmap]; exact h.closed
  · rw [hmap]; exact h.textures
  · rw [hmap, hv]; exact h.lastV
  · rw [hmap, hs]; exact h.lastS
  · rw [ht]; exact h.templates
  · rw [h1]; exact h.roadside
  · rw [h2]; exact h.markside
  · rw [h3]; exact h.fenceside

theorem wlp_lastV {slot : VSlot} {Q : Nat → RoadFigure → Prop} {s : RoadFigure} (h : Inv s)
    (hQ : ∀ id, id < s.m_map.vertices.length → Q id s) : M.wlp (lastV slot) Q s := by
  unfold M.wlp lastV
  cases hl : s.m_last_ids_v slot with
  | none => trivial
  | some id => exact hQ id (h.lastV slot id hl)

theorem wlp_lastS {slot : SSlot} {Q : Nat → RoadFigure → Prop} {s : RoadFigure} (h : Inv s)
    (hQ : ∀ id, id < s.m_map.sectors.length → Q id s) : M.wlp (lastS slot) Q s := by
  unfold M.wlp lastS
  cases hl : s.m_last_ids_s slot with
  | none => trivial
  | some id => exact hQ id (h.lastS slot id hl)

theorem wlp_setV {slot : VSlot} {v : Vertex} {Q : Unit → RoadFigure → Prop} {s : RoadFigure}
    (h : Inv s)
    (hQ : ∀ s1, Inv s1 → s1.m_map = s.m_map → Q () s1) : M.wlp (setV slot v) Q s := by
  apply hQ
  · exact h.of_eq rfl rfl rfl rfl rfl rfl rfl
  · rfl

theorem wlp_setLastV {slot : VSlot} {id : Nat} {Q : Unit → RoadFigure → Prop} {s : RoadFigure}
    (h : Inv s) (hid : id < s.m_map.vertices.length)
    (hQ : ∀ s1, Inv s1 → s1.m_map = s.m_map → Q () s1) : M.wlp (setLastV slot id) Q s := by
  apply hQ
  · constructor
    · exact h.closed
    · exact h.textures
    · intro sl i hi
      show i < s.m_map.vertices.length
      by_cases hsl : sl = slot
      · subst hsl
        simp only [Function.update_same, Option.some.injEq] at hi
        omega
      · simp only [Function.update_noteq hsl] at hi
        exact h.lastV sl i hi
    · exact h.lastS
    · exact h.templates
    · exact h.roadside
    · exact h.markside
    · exact h.fenceside
  · rfl

theorem wlp_setLastS {slot : SSlot} {id : Nat} {Q : Unit → RoadFigure → Prop} {s : RoadFigure}
    (h : Inv s) (hid : id < s.m_map.sectors.length)
    (hQ : ∀ s1, Inv s1 → s1.m_map = s.m_map → Q () s1) : M.wlp (setLastS slot id) Q s := by
  apply hQ
  · constructor
    · exact h.closed
    · exact h.textures
    · exact h.lastV
    · intro sl i hi
      show i < s.m_map.sectors.length
      by_cases hsl : sl = slot
      · subst hsl
        simp only [Function.update_same, Option.some.injEq] at hi
        omega
      · simp only [Function.update_noteq hsl] at hi
        exact h.lastS sl i hi
    · exact h.templates
    · exact h.roadside
    · exact h.markside
    · exact h.fenceside
  · rfl


theorem wlp_update_frame {f : RoadFigure → RoadFigure} {Q : Unit → RoadFigure → Prop}
    {s : RoadFigure} (h : Inv s) (hmap : (f s).m_map = s.m_map)
    (hv : (f s).m_last_ids_v = s.m_last_ids_v) (hs : (f s).m_last_ids_s = s.m_last_ids_s)
    (ht : (f s).m_s = s.m_s) (h1 : (f s).m_sd_roadside = s.m_sd_roadside)
    (h2 : (f s).m_sd_markside = s.m_sd_markside)
    (h3 : (f s).m_sd_fenceside = s.m_sd_fenceside)
    (hQ : ∀ s1, Inv s1 → s1.m_map.vertices.length = s.m_map.vertices.length →
      s1.m_map.sidedefs.length = s.m_map.sidedefs.length →
      s1.m_map.sectors.length = s.m_map.sectors.length → Q () s1) :
    M.wlp (M.update f) Q s := by
  apply hQ (f s) (h.of_eq hmap hv hs ht h1 h2 h3) <;> rw [hmap]

theorem Inv.with_map {s : RoadFigure} (h : Inv s) (map : Map) (hc : map.RefsOK)
    (ht : map.textures.length = 9)
    (hv : s.m_map.vertices.length ≤ map.vertices.length)
    (hsec : s.m_map.sectors.length ≤ map.sectors.length) :
    Inv { s with m_map := map } := by
  constructor
  · exact hc
  · exact ht
  · intro sl i hi
    exact lt_of_lt_of_le (h.lastV sl i hi) hv
  · intro sl i hi
    exact lt_of_lt_of_le (h.lastS sl i hi) hsec
  · exact h.templates
  · exact h.roadside
  · exact h.markside
  · exact h.fenceside

theorem wlp_addV {v : Vertex} {Q : Nat → RoadFigure → Prop} {s : RoadFigure} (h : Inv s)
    (hQ : ∀ s1, Inv s1 → s1.m_map.vertices.length = s.m_map.vertices.length + 1 →
      s1.m_map.sidedefs.length = s.m_map.sidedefs.length →
      s1.m_map.sectors.length = s.m_map.sectors.length → Q s.m_map.vertices.length s1) :
    M.wlp (addV v) Q s := by
  unfold M.wlp addV onMap addVertex AddMapEntryT
  split_ifs with hcap
  · trivial
  · apply hQ
    · apply h.with_map
      · constructor
        · intro l hl
          exact (h.closed.linedefs l hl).grow_linedef (by simp) (le_refl _)
        · exact h.closed.sidedefs
        · exact h.closed.sectors
      · exact h.textures
      · simp
      · exact le_refl _
    · simp
    · rfl
    · rfl

theorem wlp_addSd {sd : Sidedef} {Q : Nat → RoadFigure → Prop} {s : RoadFigure} (h : Inv s)
    (hsd : sd.RefsOK s.m_map.sectors.length 9)
    (hQ : ∀ s1, Inv s1 → s1.m_map.vertices.length = s.m_map.vertices.length →
      s1.m_map.sidedefs.length = s.m_map.sidedefs.length + 1 →
      s1.m_map.sectors.length = s.m_map.sectors.length → Q s.m_map.sidedefs.length s1) :
    M.wlp (addSd sd) Q s := by
  unfold M.wlp addSd onMap addSidedef AddMapEntryT
  split_ifs with hcap
  · trivial
  · apply hQ
    · apply h.with_map
      · constructor
        · intro l hl
          exact (h.closed.linedefs l hl).grow_linedef (le_refl _) (by simp)
        · intro x hx
          rcases List.mem_append.mp hx with hx | hx
          · exact h.closed.sidedefs x hx
          · simp only [List.mem_singleton] at hx
            subst hx
            show x.RefsOK s.m_map.sectors.length s.m_map.textures.length
            rw [h.textures]
            exact hsd
        · exact h.closed.sectors
      · exact h.textures
      · exact le_refl _
      · exact le_refl _
    · rfl
    · simp
    · rfl

theorem wlp_addL {l : Linedef} {Q : Nat → RoadFigure → Prop} {s : RoadFigure} (h : Inv s)
    (hl : l.RefsOK s.m_map.vertices.length s.m_map.sidedefs.length)
    (hQ : ∀ s1, Inv s1 → s1.m_map.vertices.length = s.m_map.vertices.length →
      s1.m_map.sidedefs.length = s.m_map.sidedefs.length →
      s1.m_map.sectors.length = s.m_map.sectors.length → Q s.m_map.linedefs.length s1) :
    M.wlp (addL l) Q s := by
  unfold M.wlp addL onMap addLinedef AddMapEntryT
  split_ifs with hcap
  · trivial
  · apply hQ
    · apply h.with_map
      · constructor
        · intro x hx
          rcases List.mem_append.mp hx with hx | hx
          · exact h.closed.linedefs x hx
          · simp only [List.mem_singleton] at hx
            subst hx
            exact hl
        · exact h.closed.sidedefs
        · exact h.closed.sectors
      · exact h.textures
      · exact le_refl _
      · exact le_refl _
    · rfl
    · rfl
    · rfl

theorem wlp_addS {sec : Sector} {Q : Nat → RoadFigure → Prop} {s : RoadFigure} (h : Inv s)
    (hsec : sec.RefsOK 9)
    (hQ : ∀ s1, Inv s1 → s1.m_map.vertices.length = s.m_map.vertices.length →
      s1.m_map.sidedefs.length = s.m_map.sidedefs.length →
      s1.m_map.sectors.length = s.m_map.sectors.length + 1 → Q s.m_map.sectors.length s1) :
    M.wlp (addS sec) Q s := by
  unfold M.wlp addS onMap addSector AddMapEntryT
  split_ifs with hcap
  · trivial
  · apply hQ
    · apply h.with_map
      · constructor
        · exact h.closed.linedefs
        · intro x hx
          exact (h.closed.sidedefs x hx).grow_sidedef (by simp)
        · intro x hx
          rcases List.mem_append.mp hx with hx | hx
          · exact h.closed.sectors x hx
          · simp only [List.mem_singleton] at hx
            subst hx
            show x.RefsOK s.m_map.textures.length
            rw [h.textures]
            exact hsec
      · exact h.textures
      · exact le_refl _
      · simp
    · rfl
    · rfl
    · simp


theorem wlp_pushV {slot : VSlot} {Q : Unit → RoadFigure → Prop} {s : RoadFigure} (h : Inv s)
    (hQ : ∀ s1, Inv s1 → s1.m_map.vertices.length = s.m_map.vertices.length + 1 →
      s1.m_map.sidedefs.length = s.m_map.sidedefs.length →
      s1.m_map.sectors.length = s.m_map.sectors.length → Q () s1) :
    M.wlp (pushV slot) Q s := by
  unfold pushV
  simp only [M.wlp_bind, M.wlp_read]
  refine wlp_addV h ?_
  intro s1 hI hv hsd hsec
  refine wlp_setLastV hI (by omega) ?_
  intro s2 hI2 hmap
  apply hQ s2 hI2 <;> rw [hmap] <;> assumption

theorem wlp_pushS {slot : SSlot} {Q : Unit → RoadFigure → Prop} {s : RoadFigure} (h : Inv s)
    (hQ : ∀ s1, Inv s1 → s1.m_map.vertices.length = s.m_map.vertices.length →
      s1.m_map.sidedefs.length = s.m_map.sidedefs.length →
      s1.m_map.sectors.length = s.m_map.sectors.length + 1 → Q () s1) :
    M.wlp (pushS slot) Q s := by
  unfold pushS
  simp only [M.wlp_bind, M.wlp_read]
  refine wlp_addS h (h.templates slot) ?_
  intro s1 hI hv hsd hsec
  refine wlp_setLastS hI (by omega) ?_
  intro s2 hI2 hmap
  apply hQ s2 hI2 <;> rw [hmap] <;> assumption

theorem wlp_setV1 {slot : VSlot} {v : Vertex} {Q : Unit → RoadFigure → Prop} {s : RoadFigure}
    (h : Inv s)
    (hQ : ∀ s1, Inv s1 → s1.m_map.vertices.length = s.m_map.vertices.length →
      s1.m_map.sidedefs.length = s.m_map.sidedefs.length →
      s1.m_map.sectors.length = s.m_map.sectors.length → Q () s1) :
    M.wlp (setV slot v) Q s :=
  wlp_update_frame h rfl rfl rfl rfl rfl rfl rfl hQ

theorem RefsOK_ofSector {id n : Nat} (h : id < n) : (Sidedef.ofSector id).RefsOK n 9 := by
  simp only [Sidedef.RefsOK, Sidedef.TexOK, Sidedef.ofSector, ID_NULL]
  omega

theorem RefsOK_GetWithSector {sd : Sidedef} {id n : Nat} (ht : sd.TexOK 9) (h : id < n) :
    (sd.GetWithSector id).RefsOK n 9 :=
  ⟨h, ht⟩


theorem wlp_onChecker {m : M IntersectionChecker Unit} {Q : Unit → RoadFigure → Prop}
    {s : RoadFigure} (h : Inv s)
    (hQ : ∀ s1, Inv s1 → s1.m_map.vertices.length = s.m_map.vertices.length →
      s1.m_map.sidedefs.length = s.m_map.sidedefs.length →
      s1.m_map.sectors.length = s.m_map.sectors.length → Q () s1) :
    M.wlp (onChecker m) Q s := by
  unfold M.wlp onChecker
  cases hck : s.m_intersection_checker with
  | none => exact hQ s h rfl rfl rfl
  | some ck =>
    simp only []
    rcases hm : m ck with ⟨r, ck1⟩
    cases r with
    | error e => trivial
    | ok a => exact hQ _ (h.of_eq rfl rfl rfl rfl rfl rfl rfl) rfl rfl rfl

theorem wlp_vertexAt {id : Nat} {Q : Vertex → RoadFigure → Prop} {s : RoadFigure}
    (hQ : ∀ v, Q v s) : M.wlp (vertexAt id) Q s := by
  unfold M.wlp vertexAt
  cases s.m_map.vertices.get? id with
  | none => trivial
  | some v => exact hQ v

theorem wlp_prevSectorId {prev : SSlot → Option Nat} {slot : SSlot}
    {Q : Nat → RoadFigure → Prop} {s : RoadFigure}
    (hQ : ∀ id, prev slot = some id → Q id s) : M.wlp (prevSectorId prev slot) Q s := by
  unfold M.wlp prevSectorId
  cases hp : prev slot with
  | none => trivial
  | some id => exact hQ id hp

theorem wlp_modifyVertexAt {id : Nat} {f : Vertex → Vertex} {Q : Unit → RoadFigure → Prop}
    {s : RoadFigure} (h : Inv s)
    (hQ : ∀ s1, Inv s1 → s1.m_map.vertices.length = s.m_map.vertices.length →
      s1.m_map.sidedefs.length = s.m_map.sidedefs.length →
      s1.m_map.sectors.length = s.m_map.sectors.length → Q () s1) :
    M.wlp (modifyVertexAt id f) Q s := by
  unfold M.wlp modifyVertexAt
  cases s.m_map.vertices.get? id with
  | none => trivial
  | some v =>
    apply hQ
    · apply h.with_map
      · constructor
        · intro l hl
          exact (h.closed.linedefs l hl).grow_linedef (by simp) (le_refl _)
        · exact h.closed.sidedefs
        · exact h.closed.sectors
      · exact h.textures
      · simp
      · exact le_refl _
    · simp
    · rfl
    · rfl

theorem wlp_modifySectorAt {id : Nat} {f : Sector → Sector} {Q : Unit → RoadFigure → Prop}
    {s : RoadFigure} (h : Inv s)
    (hf : ∀ sec : Sector, sec.RefsOK 9 → (f sec).RefsOK 9)
    (hQ : ∀ s1, Inv s1 → s1.m_map.vertices.length = s.m_map.vertices.length →
      s1.m_map.sidedefs.length = s.m_map.sidedefs.length →
      s1.m_map.sectors.length = s.m_map.sectors.length → Q () s1) :
    M.wlp (modifySectorAt id f) Q s := by
  unfold M.wlp modifySectorAt
  cases hg : s.m_map.sectors.get? id with
  | none => trivial
  | some sec =>
    have hsec : sec.RefsOK 9 := by
      have := h.closed.sectors sec (List.get?_mem hg)
      rwa [h.textures] at this
    apply hQ
    · apply h.with_map
      · constructor
        · exact h.closed.linedefs
        · intro x hx
          exact (h.closed.sidedefs x hx).grow_sidedef (by simp)
        · intro x hx
          show x.RefsOK s.m_map.textures.length
          rw [h.textures]
          rcases List.mem_or_eq_of_mem_set hx with hx | hx
          · have := h.closed.sectors x hx
            rwa [h.textures] at this
          · rw [hx]
            exact hf sec hsec
      · exact h.textures
      · exact le_refl _
      · simp
    · rfl
    · rfl
    · simp

theorem wlp_setLastV1 {slot : VSlot} {id : Nat} {Q : Unit → RoadFigure → Prop}
    {s : RoadFigure} (h : Inv s) (hid : id < s.m_map.vertices.length)
    (hQ : ∀ s1, Inv s1 → s1.m_map.vertices.length = s.m_map.vertices.length →
      s1.m_map.sidedefs.length = s.m_map.sidedefs.length →
      s1.m_map.sectors.length = s.m_map.sectors.length → Q () s1) :
    M.wlp (setLastV slot id) Q s :=
  wlp_setLastV h hid (fun s1 hI hmap => by apply hQ s1 hI <;> rw [hmap])

theorem wlp_setLastS1 {slot : SSlot} {id : Nat} {Q : Unit → RoadFigure → Prop}
    {s : RoadFigure} (h : Inv s) (hid : id < s.m_map.sectors.length)
    (hQ : ∀ s1, Inv s1 → s1.m_map.vertices.length = s.m_map.vertices.length →
      s1.m_map.sidedefs.length = s.m_map.sidedefs.length →
      s1.m_map.sectors.length = s.m_map.sectors.length → Q () s1) :
    M.wlp (setLastS slot id) Q s :=
  wlp_setLastS h hid (fun s1 hI hmap => by apply hQ s1 hI <;> rw [hmap])

theorem RefsOK_mk3 {a b c nv nsd : Nat} (ha : a < nv) (hb : b < nv) (hc : c < nsd) :
    (Linedef.mk3 a b c).RefsOK nv nsd :=
  ⟨ha, hb, hc, Or.inl rfl⟩

theorem RefsOK_mk4 {a b c d nv nsd : Nat} (ha : a < nv) (hb : b < nv) (hc : c < nsd)
    (hd : d < nsd) : (Linedef.mk4 a b c d).RefsOK nv nsd :=
  ⟨ha, hb, hc, Or.inr hd⟩

theorem wlp_pushMarkIdsPrev {dist : ℚ} {id1 id2 : Nat} {Q : Unit → RoadFigure → Prop}
    {s : RoadFigure} (h : Inv s)
    (hQ : ∀ s1, Inv s1 → s1.m_map.vertices.length = s.m_map.vertices.length →
      s1.m_map.sidedefs.length = s.m_map.sidedefs.length →
      s1.m_map.sectors.length = s.m_map.sectors.length → Q () s1) :
    M.wlp (pushMarkIdsPrev dist id1 id2) Q s :=
  wlp_update_frame h rfl rfl rfl rfl rfl rfl rfl hQ

attribute [irreducible] M.wlp

theorem ExtendBackground_inv (a b c d : Vertex) (s : RoadFigure) (h : Inv s) :
    M.wlp (ExtendBackground a b c d) (fun _ s1 => Inv s1 ∧ Grown s s1) s := by
  unfold ExtendBackground
  simp only [M.wlp_bind]
  repeat' (first
    | (refine wlp_lastV (by assumption) ?_; intro id hid)
    | (refine wlp_lastS (by assumption) ?_; intro id hid)
    | (refine wlp_setV1 (by assumption) ?_; intro s1 hI hv hsd hsec)
    | (refine wlp_pushV (by assumption) ?_; intro s1 hI hv hsd hsec)
    | (refine wlp_pushS (by assumption) ?_; intro s1 hI hv hsd hsec)
    | (refine wlp_onChecker (by assumption) ?_; intro s1 hI hv hsd hsec)
    | (refine wlp_pushMarkIdsPrev (by assumption) ?_; intro s1 hI hv hsd hsec)
    | (refine wlp_addSd (by assumption)
        (by first
          | exact RefsOK_ofSector (by omega)
          | exact RefsOK_GetWithSector (Inv.fenceside (by assumption)) (by omega)
          | exact RefsOK_GetWithSector (Inv.roadside (by assumption)) (by omega)
          | exact RefsOK_GetWithSector (Inv.markside (by assumption)) (by omega)) ?_
       intro s1 hI hv hsd hsec)
    | (refine wlp_addL (by assumption)
        (by first
          | exact RefsOK_mk3 (by omega) (by omega) (by omega)
          | exact RefsOK_mk4 (by omega) (by omega) (by omega) (by omega)
          | exact ⟨by simp only [Linedef.mk4]; omega, by simp only [Linedef.mk4]; omega,
              by simp only [Linedef.mk4]; omega, Or.inr (by simp only [Linedef.mk4]; omega)⟩
          | exact ⟨by simp only [Linedef.mk3, Linedef.mk4]; omega,
              by simp only [Linedef.mk3, Linedef.mk4]; omega,
              by simp only [Linedef.mk3, Linedef.mk4]; omega, Or.inl rfl⟩) ?_
       intro s1 hI hv hsd hsec)
    | (refine wlp_addV (by assumption) ?_; intro s1 hI hv hsd hsec)
    | (refine wlp_addS (by assumption) (Inv.templates (by assumption) _) ?_
       intro s1 hI hv hsd hsec)
    | (refine wlp_setLastV1 (by assumption) (by omega) ?_; intro s1 hI hv hsd hsec)
    | (refine wlp_setLastS1 (by assumption) (by omega) ?_; intro s1 hI hv hsd hsec)
    | (refine wlp_vertexAt ?_; intro v)
    | (refine (M.wlp_pure _ _ _).mpr ⟨by assumption, ?_⟩; unfold Grown; omega)
    | (refine (M.wlp_fail _ _ _).mpr trivial)
    | (refine (M.wlp_pure _ _ _).mpr ?_)
    | (refine wlp_update_frame (by assumption) rfl rfl rfl rfl rfl rfl rfl ?_
       intro s1 hI hv hsd hsec)
    | (refine (M.wlp_read _ _).mpr ?_)
    | (refine (M.wlp_ite _ _ _ _ _).mpr ⟨?_, ?_⟩ <;> intro hc)
    | (simp only [M.wlp_bind]))

theorem ExtendFence_inv (a b c d : Vertex) (s : RoadFigure) (h : Inv s) :
    M.wlp (ExtendFence a b c d) (fun _ s1 => Inv s1 ∧ Grown s s1) s := by
  unfold ExtendFence
  simp only [M.wlp_bind]
  repeat' (first
    | (refine wlp_lastV (by assumption) ?_; intro id hid)
    | (refine wlp_lastS (by assumption) ?_; intro id hid)
    | (refine wlp_setV1 (by assumption) ?_; intro s1 hI hv hsd hsec)
    | (refine wlp_pushV (by assumption) ?_; intro s1 hI hv hsd hsec)
    | (refine wlp_pushS (by assumption) ?_; intro s1 hI hv hsd hsec)
    | (refine wlp_onChecker (by assumption) ?_; intro s1 hI hv hsd hsec)
    | (refine wlp_pushMarkIdsPrev (by assumption) ?_; intro s1 hI hv hsd hsec)
    | (refine wlp_addSd (by assumption)
        (by first
          | exact RefsOK_ofSector (by omega)
          | exact RefsOK_GetWithSector (Inv.fenceside (by assumption)) (by omega)
          | exact RefsOK_GetWithSector (Inv.roadside (by assumption)) (by omega)
          | exact RefsOK_GetWithSector (Inv.markside (by assumption)) (by omega)) ?_
       intro s1 hI hv hsd hsec)
    | (refine wlp_addL (by assumption)
        (by first
          | exact RefsOK_mk3 (by omega) (by omega) (by omega)
          | exact RefsOK_mk4 (by omega) (by omega) (by omega) (by omega)
          | exact ⟨by simp only [Linedef.mk4]; omega, by simp only [Linedef.mk4]; omega,
              by simp only [Linedef.mk4]; omega, Or.inr (by simp only [Linedef.mk4]; omega)⟩
          | exact ⟨by simp only [Linedef.mk3, Linedef.mk4]; omega,
              by simp only [Linedef.mk3, Linedef.mk4]; omega,
              by simp only [Linedef.mk3, Linedef.mk4]; omega, Or.inl rfl⟩) ?_
       intro s1 hI hv hsd hsec)
    | (refine wlp_addV (by assumption) ?_; intro s1 hI hv hsd hsec)
    | (refine wlp_addS (by assumption) (Inv.templates (by assumption) _) ?_
       intro s1 hI hv hsd hsec)
    | (refine wlp_setLastV1 (by assumption) (by omega) ?_; intro s1 hI hv hsd hsec)
    | (refine wlp_setLastS1 (by assumption) (by omega) ?_; intro s1 hI hv hsd hsec)
    | (refine wlp_vertexAt ?_; intro v)
    | (refine (M.wlp_pure _ _ _).mpr ⟨by assumption, ?_⟩; unfold Grown; omega)
    | (refine (M.wlp_fail _ _ _).mpr trivial)
    | (refine (M.wlp_pure _ _ _).mpr ?_)
    | (refine wlp_update_frame (by assumption) rfl rfl rfl rfl rfl rfl rfl ?_
       intro s1 hI hv hsd hsec)
    | (refine (M.wlp_read _ _).mpr ?_)
    | (refine (M.wlp_ite _ _ _ _ _).mpr ⟨?_, ?_⟩ <;> intro hc)
    | (simp only [M.wlp_bind]))

theorem ExtendBody_inv (a b c d : Vertex) (s : RoadFigure) (h : Inv s) :
    M.wlp (ExtendBody a b c d) (fun _ s1 => Inv s1 ∧ Grown s s1) s := by
  unfold ExtendBody
  simp only [M.wlp_bind]
  repeat' (first
    | (refine wlp_lastV (by assumption) ?_; intro id hid)
    | (refine wlp_lastS (by assumption) ?_; intro id hid)
    | (refine wlp_setV1 (by assumption) ?_; intro s1 hI hv hsd hsec)
    | (refine wlp_pushV (by assumption) ?_; intro s1 hI hv hsd hsec)
    | (refine wlp_pushS (by assumption) ?_; intro s1 hI hv hsd hsec)
    | (refine wlp_onChecker (by assumption) ?_; intro s1 hI hv hsd hsec)
    | (refine wlp_pushMarkIdsPrev (by assumption) ?_; intro s1 hI hv hsd hsec)
    | (refine wlp_addSd (by assumption)
        (by first
          | exact RefsOK_ofSector (by omega)
          | exact RefsOK_GetWithSector (Inv.fenceside (by assumption)) (by omega)
          | exact RefsOK_GetWithSector (Inv.roadside (by assumption)) (by omega)
          | exact RefsOK_GetWithSector (Inv.markside (by assumption)) (by omega)) ?_
       intro s1 hI hv hsd hsec)
    | (refine wlp_addL (by assumption)
        (by first
          | exact RefsOK_mk3 (by omega) (by omega) (by omega)
          | exact RefsOK_mk4 (by omega) (by omega) (by omega) (by omega)
          | exact ⟨by simp only [Linedef.mk4]; omega, by simp only [Linedef.mk4]; omega,
              by simp only [Linedef.mk4]; omega, Or.inr (by simp only [Linedef.mk4]; omega)⟩
          | exact ⟨by simp only [Linedef.mk3, Linedef.mk4]; omega,
              by simp only [Linedef.mk3, Linedef.mk4]; omega,
              by simp only [Linedef.mk3, Linedef.mk4]; omega, Or.inl rfl⟩) ?_
       intro s1 hI hv hsd hsec)
    | (refine wlp_addV (by assumption) ?_; intro s1 hI hv hsd hsec)
    | (refine wlp_addS (by assumption) (Inv.templates (by assumption) _) ?_
       intro s1 hI hv hsd hsec)
    | (refine wlp_setLastV1 (by assumption) (by omega) ?_; intro s1 hI hv hsd hsec)
    | (refine wlp_setLastS1 (by assumption) (by omega) ?_; intro s1 hI hv hsd hsec)
    | (refine wlp_vertexAt ?_; intro v)
    | (refine (M.wlp_pure _ _ _).mpr ⟨by assumption, ?_⟩; unfold Grown; omega)
    | (refine (M.wlp_fail _ _ _).mpr trivial)
    | (refine (M.wlp_pure _ _ _).mpr ?_)
    | (refine wlp_update_frame (by assumption) rfl rfl rfl rfl rfl rfl rfl ?_
       intro s1 hI hv hsd hsec)
    | (refine (M.wlp_read _ _).mpr ?_)
    | (refine (M.wlp_ite _ _ _ _ _).mpr ⟨?_, ?_⟩ <;> intro hc)
    | (simp only [M.wlp_bind]))

set_option maxHeartbeats 4000000 in
theorem ExtendMark_loop_inv (length_middle : ℚ) (v_west_dir v_east_dir : ℚ × ℚ)
    (have_slope : Bool) (fuel : Nat) :
    ∀ (length : ℚ) (first_vertices_added : Bool) (s0 s : RoadFigure), Inv s → Grown s0 s →
      M.wlp (ExtendMark.loop length_middle v_west_dir v_east_dir have_slope fuel length
        first_vertices_added) (fun _ s1 => Inv s1 ∧ Grown s0 s1) s := by
  induction fuel with
  | zero =>
    intro length fva s0 s h hG
    unfold ExtendMark.loop
    split_ifs
    · exact (M.wlp_fail _ _ _).mpr trivial
    · exact (M.wlp_pure _ _ _).mpr ⟨h, hG⟩
  | succ n ih =>
    intro length fva s0 s h hG
    unfold ExtendMark.loop
    unfold Grown at hG
    simp only [M.wlp_bind]
    repeat' (first
      | exact ih _ _ _ _ (by assumption) (by unfold Grown; omega)
      | (refine wlp_lastV (by assumption) ?_; intro id hid)
      | (refine wlp_lastS (by assumption) ?_; intro id hid)
      | (refine wlp_setV1 (by assumption) ?_; intro s1 hI hv hsd hsec)
      | (refine wlp_pushV (by assumption) ?_; intro s1 hI hv hsd hsec)
      | (refine wlp_pushS (by assumption) ?_; intro s1 hI hv hsd hsec)
      | (refine wlp_onChecker (by assumption) ?_; intro s1 hI hv hsd hsec)
      | (refine wlp_pushMarkIdsPrev (by assumption) ?_; intro s1 hI hv hsd hsec)
      | (refine wlp_addSd (by assumption)
          (by first
            | exact RefsOK_ofSector (by omega)
            | exact RefsOK_GetWithSector (Inv.fenceside (by assumption)) (by omega)
            | exact RefsOK_GetWithSector (Inv.roadside (by assumption)) (by omega)
            | exact RefsOK_GetWithSector (Inv.markside (by assumption)) (by omega)) ?_
         intro s1 hI hv hsd hsec)
      | (refine wlp_addL (by assumption)
          (by first
            | exact RefsOK_mk3 (by omega) (by omega) (by omega)
            | exact RefsOK_mk4 (by omega) (by omega) (by omega) (by omega)
            | exact ⟨by simp only [Linedef.mk4]; omega, by simp only [Linedef.mk4]; omega,
                by simp only [Linedef.mk4]; omega, Or.inr (by simp only [Linedef.mk4]; omega)⟩
            | exact ⟨by simp only [Linedef.mk3, Linedef.mk4]; omega,
                by simp only [Linedef.mk3, Linedef.mk4]; omega,
                by simp only [Linedef.mk3, Linedef.mk4]; omega, Or.inl rfl⟩) ?_
         intro s1 hI hv hsd hsec)
      | (refine wlp_addV (by assumption) ?_; intro s1 hI hv hsd hsec)
      | (refine wlp_addS (by assumption) (Inv.templates (by assumption) _) ?_
         intro s1 hI hv hsd hsec)
      | (refine wlp_setLastV1 (by assumption) (by omega) ?_; intro s1 hI hv hsd hsec)
      | (refine wlp_setLastS1 (by assumption) (by omega) ?_; intro s1 hI hv hsd hsec)
      | (refine wlp_vertexAt ?_; intro v)
      | (refine (M.wlp_pure _ _ _).mpr ⟨by assumption, ?_⟩; unfold Grown; omega)
      | (refine (M.wlp_fail _ _ _).mpr trivial)
      | (refine (M.wlp_pure _ _ _).mpr ?_)
      | (refine wlp_update_frame (by assumption) rfl rfl rfl rfl rfl rfl rfl ?_
         intro s1 hI hv hsd hsec)
      | (refine (M.wlp_read _ _).mpr ?_
         have hLW := Inv.lastV (by assumption) VSlot.m_v_mark_west
         have hLE := Inv.lastV (by assumption) VSlot.m_v_mark_east)
      | (refine (M.wlp_ite _ _ _ _ _).mpr ⟨?_, ?_⟩ <;> intro hc)
      | (simp only [M.wlp_bind])
      | (split <;> try (rename_i x y h1 h2; have hx := hLW _ h1; have hy := hLE _ h2)))

theorem wlp_markVertexIsHere {lm : Libm} {slot : VSlot} {Q : Bool → RoadFigure → Prop}
    {s : RoadFigure} (hQ : ∀ b, Q b s) : M.wlp (markVertexIsHere lm slot) Q s := by
  unfold markVertexIsHere
  simp only [M.wlp_bind]
  refine (M.wlp_read _ _).mpr ?_
  split
  · exact (M.wlp_pure _ _ _).mpr (hQ _)
  · simp only [M.wlp_bind]
    refine wlp_vertexAt ?_
    intro v
    exact (M.wlp_pure _ _ _).mpr (hQ _)

theorem ExtendMark_inv (lm : Libm) (a b : Vertex) (s : RoadFigure) (h : Inv s) :
    M.wlp (ExtendMark lm a b) (fun _ s1 => Inv s1 ∧ Grown s s1) s := by
  unfold ExtendMark
  simp only [M.wlp_bind]
  refine (M.wlp_read _ _).mpr ?_
  refine (M.wlp_ite _ _ _ _ _).mpr ⟨fun _ => (M.wlp_fail _ _ _).mpr trivial, fun _ => ?_⟩
  simp only [M.wlp_bind]
  refine wlp_markVertexIsHere ?_
  intro b1
  refine wlp_markVertexIsHere ?_
  intro b2
  exact ExtendMark_loop_inv _ _ _ _ _ _ _ s s h (Grown.refl s)

theorem forEach_inv {α : Type} {f : α → M RoadFigure Unit}
    (hf : ∀ a s, Inv s → M.wlp (f a) (fun _ s1 => Inv s1 ∧ Grown s s1) s) (l : List α) :
    ∀ s0 s : RoadFigure, Inv s → Grown s0 s →
      M.wlp (forEach f l) (fun _ s1 => Inv s1 ∧ Grown s0 s1) s := by
  induction l with
  | nil =>
    intro s0 s h hG
    unfold forEach
    exact (M.wlp_pure _ _ _).mpr ⟨h, hG⟩
  | cons a rest ih =>
    intro s0 s h hG
    unfold forEach
    simp only [M.wlp_bind]
    refine M.wlp_mono (hf a s h) ?_
    rintro _ s1 ⟨hI, hG1⟩
    exact ih s0 s1 hI (hG.trans hG1)

theorem wlp_update_inv {f : RoadFigure → RoadFigure} {Q : Unit → RoadFigure → Prop}
    {s : RoadFigure} (hI : Inv (f s)) (hmap : (f s).m_map = s.m_map)
    (hQ : ∀ s1, Inv s1 → s1.m_map.vertices.length = s.m_map.vertices.length →
      s1.m_map.sidedefs.length = s.m_map.sidedefs.length →
      s1.m_map.sectors.length = s.m_map.sectors.length → Q () s1) :
    M.wlp (M.update f) Q s := by
  refine (M.wlp_update _ _ _).mpr ?_
  apply hQ (f s) hI <;> rw [hmap]

theorem Inv.update_template {s : RoadFigure} (h : Inv s) (slot : SSlot) (sec : Sector)
    (hsec : sec.RefsOK 9) : Inv { s with m_s := Function.update s.m_s slot sec } := by
  constructor
  · exact h.closed
  · exact h.textures
  · exact h.lastV
  · exact h.lastS
  · intro sl
    by_cases hsl : sl = slot
    · subst hsl
      simpa using hsec
    · simpa [Function.update_noteq hsl] using h.templates sl
  · exact h.roadside
  · exact h.markside
  · exact h.fenceside

theorem slopeSector_inv (height_diff : Int) (have_mark at_mark_start had_mark : Bool)
    (slot : SSlot) (s : RoadFigure) (h : Inv s) :
    M.wlp (CloseSectors.slopeSector height_diff have_mark at_mark_start had_mark slot)
      (fun _ s1 => Inv s1 ∧ Grown s s1) s := by
  unfold CloseSectors.slopeSector
  simp only [M.wlp_bind]
  refine (M.wlp_read _ _).mpr ?_
  refine wlp_update_inv (h.update_template slot _ (h.templates slot)) rfl ?_
  intro s1 hI hv hsd hsec
  repeat' (first
    | (refine wlp_lastV (by assumption) ?_; intro id hid)
    | (refine wlp_lastS (by assumption) ?_; intro id hid)
    | (refine wlp_setV1 (by assumption) ?_; intro s1 hI hv hsd hsec)
    | (refine wlp_pushV (by assumption) ?_; intro s1 hI hv hsd hsec)
    | (refine wlp_pushS (by assumption) ?_; intro s1 hI hv hsd hsec)
    | (refine wlp_onChecker (by assumption) ?_; intro s1 hI hv hsd hsec)
    | (refine wlp_pushMarkIdsPrev (by assumption) ?_; intro s1 hI hv hsd hsec)
    | (refine wlp_addSd (by assumption)
        (by first
          | exact RefsOK_ofSector (by omega)
          | exact RefsOK_GetWithSector (Inv.fenceside (by assumption)) (by omega)
          | exact RefsOK_GetWithSector (Inv.roadside (by assumption)) (by omega)
          | exact RefsOK_GetWithSector (Inv.markside (by assumption)) (by omega)) ?_
       intro s1 hI hv hsd hsec)
    | (refine wlp_addL (by assumption)
        (by first
          | exact RefsOK_mk3 (by omega) (by omega) (by omega)
          | exact RefsOK_mk4 (by omega) (by omega) (by omega) (by omega)
          | exact ⟨by simp only [Linedef.mk4]; omega, by simp only [Linedef.mk4]; omega,
              by simp only [Linedef.mk4]; omega, Or.inr (by simp only [Linedef.mk4]; omega)⟩
          | exact ⟨by simp only [Linedef.mk3, Linedef.mk4]; omega,
              by simp only [Linedef.mk3, Linedef.mk4]; omega,
              by simp only [Linedef.mk3, Linedef.mk4]; omega, Or.inl rfl⟩) ?_
       intro s1 hI hv hsd hsec)
    | (refine wlp_addV (by assumption) ?_; intro s1 hI hv hsd hsec)
    | (refine wlp_addS (by assumption) (Inv.templates (by assumption) _) ?_
       intro s1 hI hv hsd hsec)
    | (refine wlp_setLastV1 (by assumption) (by omega) ?_; intro s1 hI hv hsd hsec)
    | (refine wlp_setLastS1 (by assumption) (by omega) ?_; intro s1 hI hv hsd hsec)
    | (refine wlp_vertexAt ?_; intro v)
    | (refine wlp_modifyVertexAt (by assumption) ?_; intro s1 hI hv hsd hsec)
    | (refine wlp_modifySectorAt (by assumption) (by intro sec hsec0; exact hsec0) ?_
       intro s1 hI hv hsd hsec)
    | (exact ⟨by assumption, by unfold Grown; omega⟩)
    | (refine (M.wlp_pure _ _ _).mpr ⟨by assumption, ?_⟩; unfold Grown; omega)
    | (refine (M.wlp_fail _ _ _).mpr trivial)
    | (refine (M.wlp_pure _ _ _).mpr ?_)
    | (refine wlp_update_frame (by assumption) rfl rfl rfl rfl rfl rfl rfl ?_
       intro s1 hI hv hsd hsec)
    | (refine (M.wlp_read _ _).mpr ?_)
    | (refine (M.wlp_ite _ _ _ _ _).mpr ⟨?_, ?_⟩ <;> intro hc)
    | (simp only [M.wlp_bind]))

theorem wlp_forEach_call {α : Type} {f : α → M RoadFigure Unit} {l : List α}
    {Q : Unit → RoadFigure → Prop} {s : RoadFigure} (h : Inv s)
    (hf : ∀ a s, Inv s → M.wlp (f a) (fun _ s1 => Inv s1 ∧ Grown s s1) s)
    (hQ : ∀ s1, Inv s1 → s.m_map.vertices.length ≤ s1.m_map.vertices.length →
      s.m_map.sidedefs.length ≤ s1.m_map.sidedefs.length →
      s.m_map.sectors.length ≤ s1.m_map.sectors.length → Q () s1) :
    M.wlp (forEach f l) Q s := by
  refine M.wlp_mono (forEach_inv hf l s s h (Grown.refl s)) ?_
  rintro _ s1 ⟨hI, hv, hsd, hsec⟩
  exact hQ s1 hI hv hsd hsec

theorem applySlope_inv (lm : Libm) (have_mark at_mark_start : Bool) (s : RoadFigure)
    (h : Inv s) :
    M.wlp (CloseSectors.applySlope lm have_mark at_mark_start)
      (fun _ s1 => Inv s1 ∧ Grown s s1) s := by
  unfold CloseSectors.applySlope
  simp only [M.wlp_bind]
  repeat' (first
    | (refine wlp_lastV (by assumption) ?_; intro id hid)
    | (refine wlp_lastS (by assumption) ?_; intro id hid)
    | (refine wlp_setV1 (by assumption) ?_; intro s1 hI hv hsd hsec)
    | (refine wlp_pushV (by assumption) ?_; intro s1 hI hv hsd hsec)
    | (refine wlp_pushS (by assumption) ?_; intro s1 hI hv hsd hsec)
    | (refine wlp_onChecker (by assumption) ?_; intro s1 hI hv hsd hsec)
    | (refine wlp_pushMarkIdsPrev (by assumption) ?_; intro s1 hI hv hsd hsec)
    | (refine wlp_addSd (by assumption)
        (by first
          | exact RefsOK_ofSector (by omega)
          | exact RefsOK_GetWithSector (Inv.fenceside (by assumption)) (by omega)
          | exact RefsOK_GetWithSector (Inv.roadside (by assumption)) (by omega)
          | exact RefsOK_GetWithSector (Inv.markside (by assumption)) (by omega)) ?_
       intro s1 hI hv hsd hsec)
    | (refine wlp_addL (by assumption)
        (by first
          | exact RefsOK_mk3 (by omega) (by omega) (by omega)
          | exact RefsOK_mk4 (by omega) (by omega) (by omega) (by omega)
          | exact ⟨by simp only [Linedef.mk4]; omega, by simp only [Linedef.mk4]; omega,
              by simp only [Linedef.mk4]; omega, Or.inr (by simp only [Linedef.mk4]; omega)⟩
          | exact ⟨by simp only [Linedef.mk3, Linedef.mk4]; omega,
              by simp only [Linedef.mk3, Linedef.mk4]; omega,
              by simp only [Linedef.mk3, Linedef.mk4]; omega, Or.inl rfl⟩) ?_
       intro s1 hI hv hsd hsec)
    | (refine wlp_addV (by assumption) ?_; intro s1 hI hv hsd hsec)
    | (refine wlp_addS (by assumption) (Inv.templates (by assumption) _) ?_
       intro s1 hI hv hsd hsec)
    | (refine wlp_setLastV1 (by assumption) (by omega) ?_; intro s1 hI hv hsd hsec)
    | (refine wlp_setLastS1 (by assumption) (by omega) ?_; intro s1 hI hv hsd hsec)
    | (refine wlp_vertexAt ?_; intro v)
    | (refine wlp_modifyVertexAt (by assumption) ?_; intro s1 hI hv hsd hsec)
    | (refine wlp_modifySectorAt (by assumption) (by intro sec hsec0; exact hsec0) ?_
       intro s1 hI hv hsd hsec)
    | (exact ⟨by assumption, by unfold Grown; omega⟩)
    | (refine (M.wlp_pure _ _ _).mpr ⟨by assumption, ?_⟩; unfold Grown; omega)
    | (refine (M.wlp_fail _ _ _).mpr trivial)
    | (refine (M.wlp_pure _ _ _).mpr ?_)
    | (refine wlp_update_frame (by assumption) rfl rfl rfl rfl rfl rfl rfl ?_
       intro s1 hI hv hsd hsec)
    | (refine (M.wlp_read _ _).mpr ?_)
    | (refine (M.wlp_ite _ _ _ _ _).mpr ⟨?_, ?_⟩ <;> intro hc)
    | (simp only [M.wlp_bind]))
  refine wlp_forEach_call (by assumption) ?_ ?_
  · intro p s2 h2
    cases p with
    | none => exact (M.wlp_pure _ _ _).mpr ⟨h2, Grown.refl s2⟩
    | some slot => exact slopeSector_inv _ _ _ _ _ s2 h2
  · intro s1 hI hv hsd hsec
    repeat' (first
      | (refine wlp_lastV (by assumption) ?_; intro id hid)
      | (refine wlp_lastS (by assumption) ?_; intro id hid)
      | (refine wlp_setV1 (by assumption) ?_; intro s1 hI hv hsd hsec)
      | (refine wlp_pushV (by assumption) ?_; intro s1 hI hv hsd hsec)
      | (refine wlp_pushS (by assumption) ?_; intro s1 hI hv hsd hsec)
      | (refine wlp_onChecker (by assumption) ?_; intro s1 hI hv hsd hsec)
      | (refine wlp_pushMarkIdsPrev (by assumption) ?_; intro s1 hI hv hsd hsec)
      | (refine wlp_addSd (by assumption)
          (by first
            | exact RefsOK_ofSector (by omega)
            | exact RefsOK_GetWithSector (Inv.fenceside (by assumption)) (by omega)
            | exact RefsOK_GetWithSector (Inv.roadside (by assumption)) (by omega)
            | exact RefsOK_GetWithSector (Inv.markside (by assumption)) (by omega)) ?_
         intro s1 hI hv hsd hsec)
      | (refine wlp_addL (by assumption)
          (by first
            | exact RefsOK_mk3 (by omega) (by omega) (by omega)
            | exact RefsOK_mk4 (by omega) (by omega) (by omega) (by omega)
            | exact ⟨by simp only [Linedef.mk4]; omega, by simp only [Linedef.mk4]; omega,
                by simp only [Linedef.mk4]; omega, Or.inr (by simp only [Linedef.mk4]; omega)⟩
            | exact ⟨by simp only [Linedef.mk3, Linedef.mk4]; omega,
                by simp only [Linedef.mk3, Linedef.mk4]; omega,
                by simp only [Linedef.mk3, Linedef.mk4]; omega, Or.inl rfl⟩) ?_
         intro s1 hI hv hsd hsec)
      | (refine wlp_addV (by assumption) ?_; intro s1 hI hv hsd hsec)
      | (refine wlp_addS (by assumption) (Inv.templates (by assumption) _) ?_
         intro s1 hI hv hsd hsec)
      | (refine wlp_setLastV1 (by assumption) (by omega) ?_; intro s1 hI hv hsd hsec)
      | (refine wlp_setLastS1 (by assumption) (by omega) ?_; intro s1 hI hv hsd hsec)
      | (refine wlp_vertexAt ?_; intro v)
      | (refine wlp_modifyVertexAt (by assumption) ?_; intro s1 hI hv hsd hsec)
      | (refine wlp_modifySectorAt (by assumption) (by intro sec hsec0; exact hsec0) ?_
         intro s1 hI hv hsd hsec)
      | (exact ⟨by assumption, by unfold Grown; omega⟩)
      | (refine (M.wlp_pure _ _ _).mpr ⟨by assumption, ?_⟩; unfold Grown; omega)
      | (refine (M.wlp_fail _ _ _).mpr trivial)
      | (refine (M.wlp_pure _ _ _).mpr ?_)
      | (refine wlp_update_frame (by assumption) rfl rfl rfl rfl rfl rfl rfl ?_
         intro s1 hI hv hsd hsec)
      | (refine (M.wlp_read _ _).mpr ?_)
      | (refine (M.wlp_ite _ _ _ _ _).mpr ⟨?_, ?_⟩ <;> intro hc)
      | (simp only [M.wlp_bind]))

theorem recordSeamMarkVertices_inv (lm : Libm) (s : RoadFigure) (h : Inv s) :
    M.wlp (CloseSectors.recordSeamMarkVertices lm) (fun _ s1 => Inv s1 ∧ Grown s s1) s := by
  unfold CloseSectors.recordSeamMarkVertices
  simp only [M.wlp_bind]
  refine (M.wlp_read _ _).mpr ?_
  split
  · simp only [M.wlp_bind]
    repeat' (first
      | (refine wlp_lastV (by assumption) ?_; intro id hid)
      | (refine wlp_lastS (by assumption) ?_; intro id hid)
      | (refine wlp_setV1 (by assumption) ?_; intro s1 hI hv hsd hsec)
      | (refine wlp_pushV (by assumption) ?_; intro s1 hI hv hsd hsec)
      | (refine wlp_pushS (by assumption) ?_; intro s1 hI hv hsd hsec)
      | (refine wlp_onChecker (by assumption) ?_; intro s1 hI hv hsd hsec)
      | (refine wlp_pushMarkIdsPrev (by assumption) ?_; intro s1 hI hv hsd hsec)
      | (refine wlp_addSd (by assumption)
          (by first
            | exact RefsOK_ofSector (by omega)
            | exact RefsOK_GetWithSector (Inv.fenceside (by assumption)) (by omega)
            | exact RefsOK_GetWithSector (Inv.roadside (by assumption)) (by omega)
            | exact RefsOK_GetWithSector (Inv.markside (by assumption)) (by omega)) ?_
         intro s1 hI hv hsd hsec)
      | (refine wlp_addL (by assumption)
          (by first
            | exact RefsOK_mk3 (by omega) (by omega) (by omega)
            | exact RefsOK_mk4 (by omega) (by omega) (by omega) (by omega)
            | exact ⟨by simp only [Linedef.mk4]; omega, by simp only [Linedef.mk4]; omega,
                by simp only [Linedef.mk4]; omega, Or.inr (by simp only [Linedef.mk4]; omega)⟩
            | exact ⟨by simp only [Linedef.mk3, Linedef.mk4]; omega,
                by simp only [Linedef.mk3, Linedef.mk4]; omega,
                by simp only [Linedef.mk3, Linedef.mk4]; omega, Or.inl rfl⟩) ?_
         intro s1 hI hv hsd hsec)
      | (refine wlp_addV (by assumption) ?_; intro s1 hI hv hsd hsec)
      | (refine wlp_addS (by assumption) (Inv.templates (by assumption) _) ?_
         intro s1 hI hv hsd hsec)
      | (refine wlp_setLastV1 (by assumption) (by omega) ?_; intro s1 hI hv hsd hsec)
      | (refine wlp_setLastS1 (by assumption) (by omega) ?_; intro s1 hI hv hsd hsec)
      | (refine wlp_vertexAt ?_; intro v)
      | (refine wlp_modifyVertexAt (by assumption) ?_; intro s1 hI hv hsd hsec)
      | (refine wlp_modifySectorAt (by assumption) (by intro sec hsec0; exact hsec0) ?_
         intro s1 hI hv hsd hsec)
      | (exact ⟨by assumption, by unfold Grown; omega⟩)
      | (refine (M.wlp_pure _ _ _).mpr ⟨by assumption, ?_⟩; unfold Grown; omega)
      | (refine (M.wlp_fail _ _ _).mpr trivial)
      | (refine (M.wlp_pure _ _ _).mpr ?_)
      | (refine wlp_update_frame (by assumption) rfl rfl rfl rfl rfl rfl rfl ?_
         intro s1 hI hv hsd hsec)
      | (refine (M.wlp_read _ _).mpr ?_)
      | (refine (M.wlp_ite _ _ _ _ _).mpr ⟨?_, ?_⟩ <;> intro hc)
      | (simp only [M.wlp_bind]))
  · exact (M.wlp_pure _ _ _).mpr ⟨h, Grown.refl s⟩

theorem snapMarkVertices_inv (have_mark : Bool) (floorpos_prev : Int) (it : ℚ × (Nat × Nat))
    (s : RoadFigure) (h : Inv s) :
    M.wlp (CloseSectors.snapMarkVertices have_mark floorpos_prev it)
      (fun _ s1 => Inv s1 ∧ Grown s s1) s := by
  unfold CloseSectors.snapMarkVertices
  simp only [M.wlp_bind]
  repeat' (first
    | (refine wlp_lastV (by assumption) ?_; intro id hid)
    | (refine wlp_lastS (by assumption) ?_; intro id hid)
    | (refine wlp_setV1 (by assumption) ?_; intro s1 hI hv hsd hsec)
    | (refine wlp_pushV (by assumption) ?_; intro s1 hI hv hsd hsec)
    | (refine wlp_pushS (by assumption) ?_; intro s1 hI hv hsd hsec)
    | (refine wlp_onChecker (by assumption) ?_; intro s1 hI hv hsd hsec)
    | (refine wlp_pushMarkIdsPrev (by assumption) ?_; intro s1 hI hv hsd hsec)
    | (refine wlp_addSd (by assumption)
        (by first
          | exact RefsOK_ofSector (by omega)
          | exact RefsOK_GetWithSector (Inv.fenceside (by assumption)) (by omega)
          | exact RefsOK_GetWithSector (Inv.roadside (by assumption)) (by omega)
          | exact RefsOK_GetWithSector (Inv.markside (by assumption)) (by omega)) ?_
       intro s1 hI hv hsd hsec)
    | (refine wlp_addL (by assumption)
        (by first
          | exact RefsOK_mk3 (by omega) (by omega) (by omega)
          | exact RefsOK_mk4 (by omega) (by omega) (by omega) (by omega)
          | exact ⟨by simp only [Linedef.mk4]; omega, by simp only [Linedef.mk4]; omega,
              by simp only [Linedef.mk4]; omega, Or.inr (by simp only [Linedef.mk4]; omega)⟩
          | exact ⟨by simp only [Linedef.mk3, Linedef.mk4]; omega,
              by simp only [Linedef.mk3, Linedef.mk4]; omega,
              by simp only [Linedef.mk3, Linedef.mk4]; omega, Or.inl rfl⟩) ?_
       intro s1 hI hv hsd hsec)
    | (refine wlp_addV (by assumption) ?_; intro s1 hI hv hsd hsec)
    | (refine wlp_addS (by assumption) (Inv.templates (by assumption) _) ?_
       intro s1 hI hv hsd hsec)
    | (refine wlp_setLastV1 (by assumption) (by omega) ?_; intro s1 hI hv hsd hsec)
    | (refine wlp_setLastS1 (by assumption) (by omega) ?_; intro s1 hI hv hsd hsec)
    | (refine wlp_vertexAt ?_; intro v)
    | (refine wlp_modifyVertexAt (by assumption) ?_; intro s1 hI hv hsd hsec)
    | (refine wlp_modifySectorAt (by assumption) (by intro sec hsec0; exact hsec0) ?_
       intro s1 hI hv hsd hsec)
    | (exact ⟨by assumption, by unfold Grown; omega⟩)
    | (refine (M.wlp_pure _ _ _).mpr ⟨by assumption, ?_⟩; unfold Grown; omega)
    | (refine (M.wlp_fail _ _ _).mpr trivial)
    | (refine (M.wlp_pure _ _ _).mpr ?_)
    | (refine wlp_update_frame (by assumption) rfl rfl rfl rfl rfl rfl rfl ?_
       intro s1 hI hv hsd hsec)
    | (refine (M.wlp_read _ _).mpr ?_)
    | (refine (M.wlp_ite _ _ _ _ _).mpr ⟨?_, ?_⟩ <;> intro hc)
    | (simp only [M.wlp_bind]))

theorem renewSectors_inv (at_mark_start at_mark_end : Bool) (l : List SSlot) :
    ∀ (prev : SSlot → Option Nat) (s0 s : RoadFigure), Inv s → Grown s0 s →
      (∀ slot id, prev slot = some id → id < s.m_map.sectors.length) →
      M.wlp (CloseSectors.renewSectors at_mark_start at_mark_end l prev)
        (fun prev1 s1 => Inv s1 ∧ Grown s0 s1 ∧
          ∀ slot id, prev1 slot = some id → id < s1.m_map.sectors.length) s := by
  induction l with
  | nil =>
    intro prev s0 s h hG hprev
    unfold CloseSectors.renewSectors
    exact (M.wlp_pure _ _ _).mpr ⟨h, hG, hprev⟩
  | cons sector rest ih =>
    intro prev s0 s h hG hprev
    unfold CloseSectors.renewSectors
    unfold Grown at hG
    have hupd : ∀ id, id < s.m_map.sectors.length → ∀ slot id1,
        Function.update prev sector (some id) slot = some id1 →
        id1 < s.m_map.sectors.length := by
      intro id hid slot id1 h1
      by_cases hsl : slot = sector
      · subst hsl
        rw [Function.update_same] at h1
        cases h1
        exact hid
      · rw [Function.update_noteq hsl] at h1
        exact hprev slot id1 h1
    simp only [M.wlp_bind]
    repeat' (first
      | exact ih _ _ _ (by assumption) (by unfold Grown; omega)
          (by intro slot id1 h1; have := hprev slot id1 h1; omega)
      | exact ih _ _ _ (by assumption) (by unfold Grown; omega)
          (by intro slot id1 h1; have := hupd _ (by assumption) slot id1 h1; omega)
      | (refine wlp_lastV (by assumption) ?_; intro id hid)
      | (refine wlp_lastS (by assumption) ?_; intro id hid)
      | (refine wlp_setV1 (by assumption) ?_; intro s1 hI hv hsd hsec)
      | (refine wlp_pushV (by assumption) ?_; intro s1 hI hv hsd hsec)
      | (refine wlp_pushS (by assumption) ?_; intro s1 hI hv hsd hsec)
      | (refine wlp_onChecker (by assumption) ?_; intro s1 hI hv hsd hsec)
      | (refine wlp_pushMarkIdsPrev (by assumption) ?_; intro s1 hI hv hsd hsec)
      | (refine wlp_addSd (by assumption)
          (by first
            | exact RefsOK_ofSector (by omega)
            | exact RefsOK_GetWithSector (Inv.fenceside (by assumption)) (by omega)
            | exact RefsOK_GetWithSector (Inv.roadside (by assumption)) (by omega)
            | exact RefsOK_GetWithSector (Inv.markside (by assumption)) (by omega)) ?_
         intro s1 hI hv hsd hsec)
      | (refine wlp_addL (by assumption)
          (by first
            | exact RefsOK_mk3 (by omega) (by omega) (by omega)
            | exact RefsOK_mk4 (by omega) (by omega) (by omega) (by omega)
            | exact ⟨by simp only [Linedef.mk4]; omega, by simp only [Linedef.mk4]; omega,
                by simp only [Linedef.mk4]; omega, Or.inr (by simp only [Linedef.mk4]; omega)⟩
            | exact ⟨by simp only [Linedef.mk3, Linedef.mk4]; omega,
                by simp only [Linedef.mk3, Linedef.mk4]; omega,
                by simp only [Linedef.mk3, Linedef.mk4]; omega, Or.inl rfl⟩) ?_
         intro s1 hI hv hsd hsec)
      | (refine wlp_addV (by assumption) ?_; intro s1 hI hv hsd hsec)
      | (refine wlp_addS (by assumption) (Inv.templates (by assumption) _) ?_
         intro s1 hI hv hsd hsec)
      | (refine wlp_setLastV1 (by assumption) (by omega) ?_; intro s1 hI hv hsd hsec)
      | (refine wlp_setLastS1 (by assumption) (by omega) ?_; intro s1 hI hv hsd hsec)
      | (refine wlp_vertexAt ?_; intro v)
      | (refine wlp_modifyVertexAt (by assumption) ?_; intro s1 hI hv hsd hsec)
      | (refine wlp_modifySectorAt (by assumption) (by intro sec hsec0; exact hsec0) ?_
         intro s1 hI hv hsd hsec)
      | (exact ⟨by assumption, by unfold Grown; omega⟩)
      | (refine (M.wlp_pure _ _ _).mpr ⟨by assumption, ?_⟩; unfold Grown; omega)
      | (refine (M.wlp_fail _ _ _).mpr trivial)
      | (refine (M.wlp_pure _ _ _).mpr ?_)
      | (refine wlp_update_frame (by assumption) rfl rfl rfl rfl rfl rfl rfl ?_
         intro s1 hI hv hsd hsec)
      | (refine (M.wlp_read _ _).mpr ?_)
      | (refine (M.wlp_ite _ _ _ _ _).mpr ⟨?_, ?_⟩ <;> intro hc)
      | (simp only [M.wlp_bind]))

theorem seamLines_inv (at_mark_start at_mark_end : Bool) (prev : SSlot → Option Nat)
    (l : List SSlot) :
    ∀ (vs : List VSlot) (s0 s : RoadFigure), Inv s → Grown s0 s →
      (∀ slot id, prev slot = some id → id < s.m_map.sectors.length) →
      M.wlp (CloseSectors.seamLines at_mark_start at_mark_end prev l vs)
        (fun _ s1 => Inv s1 ∧ Grown s0 s1) s := by
  induction l with
  | nil =>
    intro vs s0 s h hG hprev
    unfold CloseSectors.seamLines
    exact (M.wlp_pure _ _ _).mpr ⟨h, hG⟩
  | cons sector rest ih =>
    intro vs s0 s h hG hprev
    unfold Grown at hG
    rcases vs with _ | ⟨vi, _ | ⟨vi1, vrest⟩⟩
    · unfold CloseSectors.seamLines
      exact (M.wlp_pure _ _ _).mpr ⟨h, hG⟩
    · unfold CloseSectors.seamLines
      exact (M.wlp_pure _ _ _).mpr ⟨h, hG⟩
    · unfold CloseSectors.seamLines
      simp only [M.wlp_bind]
      repeat' (first
        | exact ih _ _ _ (by assumption) (by unfold Grown; omega)
            (by intro slot id1 h1; have := hprev slot id1 h1; omega)
        | (refine wlp_prevSectorId ?_; intro idp hidp; have hidp1 := hprev _ _ hidp)
        | (refine wlp_lastV (by assumption) ?_; intro id hid)
        | (refine wlp_lastS (by assumption) ?_; intro id hid)
        | (refine wlp_setV1 (by assumption) ?_; intro s1 hI hv hsd hsec)
        | (refine wlp_pushV (by assumption) ?_; intro s1 hI hv hsd hsec)
        | (refine wlp_pushS (by assumption) ?_; intro s1 hI hv hsd hsec)
        | (refine wlp_onChecker (by assumption) ?_; intro s1 hI hv hsd hsec)
        | (refine wlp_pushMarkIdsPrev (by assumption) ?_; intro s1 hI hv hsd hsec)
        | (refine wlp_addSd (by assumption)
            (by first
              | exact RefsOK_ofSector (by omega)
              | exact RefsOK_GetWithSector (Inv.fenceside (by assumption)) (by omega)
              | exact RefsOK_GetWithSector (Inv.roadside (by assumption)) (by omega)
              | exact RefsOK_GetWithSector (Inv.markside (by assumption)) (by omega)) ?_
           intro s1 hI hv hsd hsec)
        | (refine wlp_addL (by assumption)
            (by first
              | exact RefsOK_mk3 (by omega) (by omega) (by omega)
              | exact RefsOK_mk4 (by omega) (by omega) (by omega) (by omega)
              | exact ⟨by simp only [Linedef.mk4]; omega, by simp only [Linedef.mk4]; omega,
                  by simp only [Linedef.mk4]; omega, Or.inr (by simp only [Linedef.mk4]; omega)⟩
              | exact ⟨by simp only [Linedef.mk3, Linedef.mk4]; omega,
                  by simp only [Linedef.mk3, Linedef.mk4]; omega,
                  by simp only [Linedef.mk3, Linedef.mk4]; omega, Or.inl rfl⟩) ?_
           intro s1 hI hv hsd hsec)
        | (refine wlp_addV (by assumption) ?_; intro s1 hI hv hsd hsec)
        | (refine wlp_addS (by assumption) (Inv.templates (by assumption) _) ?_
           intro s1 hI hv hsd hsec)
        | (refine wlp_setLastV1 (by assumption) (by omega) ?_; intro s1 hI hv hsd hsec)
        | (refine wlp_setLastS1 (by assumption) (by omega) ?_; intro s1 hI hv hsd hsec)
        | (refine wlp_vertexAt ?_; intro v)
        | (refine wlp_modifyVertexAt (by assumption) ?_; intro s1 hI hv hsd hsec)
        | (refine wlp_modifySectorAt (by assumption) (by intro sec hsec0; exact hsec0) ?_
           intro s1 hI hv hsd hsec)
        | (exact ⟨by assumption, by unfold Grown; omega⟩)
        | (refine (M.wlp_pure _ _ _).mpr ⟨by assumption, ?_⟩; unfold Grown; omega)
        | (refine (M.wlp_fail _ _ _).mpr trivial)
        | (refine (M.wlp_pure _ _ _).mpr ?_)
        | (refine wlp_update_frame (by assumption) rfl rfl rfl rfl rfl rfl rfl ?_
           intro s1 hI hv hsd hsec)
        | (refine (M.wlp_read _ _).mpr ?_)
        | (refine (M.wlp_ite _ _ _ _ _).mpr ⟨?_, ?_⟩ <;> intro hc)
        | (simp only [M.wlp_bind]))

set_option maxHeartbeats 4000000 in
theorem CloseSectors_inv (lm : Libm) (s : RoadFigure) (h : Inv s) :
    M.wlp (CloseSectors lm) (fun _ s1 => Inv s1 ∧ Grown s s1) s := by
  unfold CloseSectors
  simp only [M.wlp_bind]
  repeat' (first
    | (refine M.wlp_mono (applySlope_inv _ _ _ _ (by assumption)) ?_
       rintro _ s1 ⟨hI, hv, hsd, hsec⟩)
    | (refine M.wlp_mono (recordSeamMarkVertices_inv _ _ (by assumption)) ?_
       rintro _ s1 ⟨hI, hv, hsd, hsec⟩)
    | (refine wlp_forEach_call (by assumption) (snapMarkVertices_inv _ _) ?_
       intro s1 hI hv hsd hsec)
    | (refine M.wlp_mono (renewSectors_inv _ _ _ _ _ _ (by assumption) (Grown.refl _)
         (by intro slot id hn; cases hn)) ?_
       rintro prev1 s1 ⟨hI, ⟨hv, hsd, hsec⟩, hprev⟩)
    | (refine M.wlp_mono (seamLines_inv _ _ _ _ _ _ _ (by assumption) (Grown.refl _)
         (by assumption)) ?_
       rintro _ s1 ⟨hI, hv, hsd, hsec⟩)
    | (refine wlp_lastV (by assumption) ?_; intro id hid)
    | (refine wlp_lastS (by assumption) ?_; intro id hid)
    | (refine wlp_setV1 (by assumption) ?_; intro s1 hI hv hsd hsec)
    | (refine wlp_pushV (by assumption) ?_; intro s1 hI hv hsd hsec)
    | (refine wlp_pushS (by assumption) ?_; intro s1 hI hv hsd hsec)
    | (refine wlp_onChecker (by assumption) ?_; intro s1 hI hv hsd hsec)
    | (refine wlp_pushMarkIdsPrev (by assumption) ?_; intro s1 hI hv hsd hsec)
    | (refine wlp_addSd (by assumption)
        (by first
          | exact RefsOK_ofSector (by omega)
          | exact RefsOK_GetWithSector (Inv.fenceside (by assumption)) (by omega)
          | exact RefsOK_GetWithSector (Inv.roadside (by assumption)) (by omega)
          | exact RefsOK_GetWithSector (Inv.markside (by assumption)) (by omega)) ?_
       intro s1 hI hv hsd hsec)
    | (refine wlp_addL (by assumption)
        (by first
          | exact RefsOK_mk3 (by omega) (by omega) (by omega)
          | exact RefsOK_mk4 (by omega) (by omega) (by omega) (by omega)
          | exact ⟨by simp only [Linedef.mk4]; omega, by simp only [Linedef.mk4]; omega,
              by simp only [Linedef.mk4]; omega, Or.inr (by simp only [Linedef.mk4]; omega)⟩
          | exact ⟨by simp only [Linedef.mk3, Linedef.mk4]; omega,
              by simp only [Linedef.mk3, Linedef.mk4]; omega,
              by simp only [Linedef.mk3, Linedef.mk4]; omega, Or.inl rfl⟩) ?_
       intro s1 hI hv hsd hsec)
    | (refine wlp_addV (by assumption) ?_; intro s1 hI hv hsd hsec)
    | (refine wlp_addS (by assumption) (Inv.templates (by assumption) _) ?_
       intro s1 hI hv hsd hsec)
    | (refine wlp_setLastV1 (by assumption) (by omega) ?_; intro s1 hI hv hsd hsec)
    | (refine wlp_setLastS1 (by assumption) (by omega) ?_; intro s1 hI hv hsd hsec)
    | (refine wlp_vertexAt ?_; intro v)
    | (refine wlp_modifyVertexAt (by assumption) ?_; intro s1 hI hv hsd hsec)
    | (refine wlp_modifySectorAt (by assumption) (by intro sec hsec0; exact hsec0) ?_
       intro s1 hI hv hsd hsec)
    | (exact ⟨by assumption, by unfold Grown; omega⟩)
    | (refine (M.wlp_pure _ _ _).mpr ⟨by assumption, ?_⟩; unfold Grown; omega)
    | (refine (M.wlp_fail _ _ _).mpr trivial)
    | (refine (M.wlp_pure _ _ _).mpr ?_)
    | (refine wlp_update_frame (by assumption) rfl rfl rfl rfl rfl rfl rfl ?_
       intro s1 hI hv hsd hsec)
    | (refine (M.wlp_read _ _).mpr ?_)
    | (refine (M.wlp_ite _ _ _ _ _).mpr ⟨?_, ?_⟩ <;> intro hc)
    | (simp only [M.wlp_bind]))

theorem Start_addBackground_inv (lm : Libm) (s : RoadFigure) (h : Inv s) :
    M.wlp (Start.addBackground lm)
      (fun id s1 => Inv s1 ∧ Grown s s1 ∧ id < s1.m_map.sectors.length) s := by
  unfold Start.addBackground
  simp only [M.wlp_bind]
  repeat' (first
    | (refine M.wlp_mono (ExtendBackground_inv _ _ _ _ _ (by assumption)) ?_
       rintro _ s1 ⟨hI, hv, hsd, hsec⟩)
    | (refine (M.wlp_pure _ _ _).mpr ⟨by assumption, by unfold Grown; omega, by omega⟩)
    | (refine wlp_lastV (by assumption) ?_; intro id hid)
    | (refine wlp_lastS (by assumption) ?_; intro id hid)
    | (refine wlp_setV1 (by assumption) ?_; intro s1 hI hv hsd hsec)
    | (refine wlp_pushV (by assumption) ?_; intro s1 hI hv hsd hsec)
    | (refine wlp_pushS (by assumption) ?_; intro s1 hI hv hsd hsec)
    | (refine wlp_onChecker (by assumption) ?_; intro s1 hI hv hsd hsec)
    | (refine wlp_pushMarkIdsPrev (by assumption) ?_; intro s1 hI hv hsd hsec)
    | (refine wlp_addSd (by assumption)
        (by first
          | exact RefsOK_ofSector (by omega)
          | exact RefsOK_GetWithSector (Inv.fenceside (by assumption)) (by omega)
          | exact RefsOK_GetWithSector (Inv.roadside (by assumption)) (by omega)
          | exact RefsOK_GetWithSector (Inv.markside (by assumption)) (by omega)) ?_
       intro s1 hI hv hsd hsec)
    | (refine wlp_addL (by assumption)
        (by first
          | exact RefsOK_mk3 (by omega) (by omega) (by omega)
          | exact RefsOK_mk4 (by omega) (by omega) (by omega) (by omega)
          | exact ⟨by simp only [Linedef.mk4]; omega, by simp only [Linedef.mk4]; omega,
              by simp only [Linedef.mk4]; omega, Or.inr (by simp only [Linedef.mk4]; omega)⟩
          | exact ⟨by simp only [Linedef.mk3, Linedef.mk4]; omega,
              by simp only [Linedef.mk3, Linedef.mk4]; omega,
              by simp only [Linedef.mk3, Linedef.mk4]; omega, Or.inl rfl⟩) ?_
       intro s1 hI hv hsd hsec)
    | (refine wlp_addV (by assumption) ?_; intro s1 hI hv hsd hsec)
    | (refine wlp_addS (by assumption) (Inv.templates (by assumption) _) ?_
       intro s1 hI hv hsd hsec)
    | (refine wlp_setLastV1 (by assumption) (by omega) ?_; intro s1 hI hv hsd hsec)
    | (refine wlp_setLastS1 (by assumption) (by omega) ?_; intro s1 hI hv hsd hsec)
    | (refine wlp_vertexAt ?_; intro v)
    | (refine wlp_modifyVertexAt (by assumption) ?_; intro s1 hI hv hsd hsec)
    | (refine wlp_modifySectorAt (by assumption) (by intro sec hsec0; exact hsec0) ?_
       intro s1 hI hv hsd hsec)
    | (exact ⟨by assumption, by unfold Grown; omega⟩)
    | (refine (M.wlp_pure _ _ _).mpr ⟨by assumption, ?_⟩; unfold Grown; omega)
    | (refine (M.wlp_fail _ _ _).mpr trivial)
    | (refine (M.wlp_pure _ _ _).mpr ?_)
    | (refine wlp_update_frame (by assumption) rfl rfl rfl rfl rfl rfl rfl ?_
       intro s1 hI hv hsd hsec)
    | (refine (M.wlp_read _ _).mpr ?_)
    | (refine (M.wlp_ite _ _ _ _ _).mpr ⟨?_, ?_⟩ <;> intro hc)
    | (simp only [M.wlp_bind]))

theorem Start_addFence_inv (lm : Libm) (id : Nat) (s : RoadFigure) (h : Inv s)
    (hid0 : id < s.m_map.sectors.length) :
    M.wlp (Start.addFence lm id) (fun _ s1 => Inv s1 ∧ Grown s s1) s := by
  unfold Start.addFence
  simp only [M.wlp_bind]
  repeat' (first
    | (refine M.wlp_mono (ExtendFence_inv _ _ _ _ _ (by assumption)) ?_
       rintro _ s1 ⟨hI, hv, hsd, hsec⟩)
    | (refine wlp_lastV (by assumption) ?_; intro id hid)
    | (refine wlp_lastS (by assumption) ?_; intro id hid)
    | (refine wlp_setV1 (by assumption) ?_; intro s1 hI hv hsd hsec)
    | (refine wlp_pushV (by assumption) ?_; intro s1 hI hv hsd hsec)
    | (refine wlp_pushS (by assumption) ?_; intro s1 hI hv hsd hsec)
    | (refine wlp_onChecker (by assumption) ?_; intro s1 hI hv hsd hsec)
    | (refine wlp_pushMarkIdsPrev (by assumption) ?_; intro s1 hI hv hsd hsec)
    | (refine wlp_addSd (by assumption)
        (by first
          | exact RefsOK_ofSector (by omega)
          | exact RefsOK_GetWithSector (Inv.fenceside (by assumption)) (by omega)
          | exact RefsOK_GetWithSector (Inv.roadside (by assumption)) (by omega)
          | exact RefsOK_GetWithSector (Inv.markside (by assumption)) (by omega)) ?_
       intro s1 hI hv hsd hsec)
    | (refine wlp_addL (by assumption)
        (by first
          | exact RefsOK_mk3 (by omega) (by omega) (by omega)
          | exact RefsOK_mk4 (by omega) (by omega) (by omega) (by omega)
          | exact ⟨by simp only [Linedef.mk4]; omega, by simp only [Linedef.mk4]; omega,
              by simp only [Linedef.mk4]; omega, Or.inr (by simp only [Linedef.mk4]; omega)⟩
          | exact ⟨by simp only [Linedef.mk3, Linedef.mk4]; omega,
              by simp only [Linedef.mk3, Linedef.mk4]; omega,
              by simp only [Linedef.mk3, Linedef.mk4]; omega, Or.inl rfl⟩) ?_
       intro s1 hI hv hsd hsec)
    | (refine wlp_addV (by assumption) ?_; intro s1 hI hv hsd hsec)
    | (refine wlp_addS (by assumption) (Inv.templates (by assumption) _) ?_
       intro s1 hI hv hsd hsec)
    | (refine wlp_setLastV1 (by assumption) (by omega) ?_; intro s1 hI hv hsd hsec)
    | (refine wlp_setLastS1 (by assumption) (by omega) ?_; intro s1 hI hv hsd hsec)
    | (refine wlp_vertexAt ?_; intro v)
    | (refine wlp_modifyVertexAt (by assumption) ?_; intro s1 hI hv hsd hsec)
    | (refine wlp_modifySectorAt (by assumption) (by intro sec hsec0; exact hsec0) ?_
       intro s1 hI hv hsd hsec)
    | (exact ⟨by assumption, by unfold Grown; omega⟩)
    | (refine (M.wlp_pure _ _ _).mpr ⟨by assumption, ?_⟩; unfold Grown; omega)
    | (refine (M.wlp_fail _ _ _).mpr trivial)
    | (refine (M.wlp_pure _ _ _).mpr ?_)
    | (refine wlp_update_frame (by assumption) rfl rfl rfl rfl rfl rfl rfl ?_
       intro s1 hI hv hsd hsec)
    | (refine (M.wlp_read _ _).mpr ?_)
    | (refine (M.wlp_ite _ _ _ _ _).mpr ⟨?_, ?_⟩ <;> intro hc)
    | (simp only [M.wlp_bind]))

theorem Start_addRoadFrame_inv (lm : Libm) (id : Nat) (s : RoadFigure) (h : Inv s)
    (hid0 : id < s.m_map.sectors.length) :
    M.wlp (Start.addRoadFrame lm id) (fun _ s1 => Inv s1 ∧ Grown s s1) s := by
  unfold Start.addRoadFrame
  simp only [M.wlp_bind]
  repeat' (first
    | (refine wlp_lastV (by assumption) ?_; intro id hid)
    | (refine wlp_lastS (by assumption) ?_; intro id hid)
    | (refine wlp_setV1 (by assumption) ?_; intro s1 hI hv hsd hsec)
    | (refine wlp_pushV (by assumption) ?_; intro s1 hI hv hsd hsec)
    | (refine wlp_pushS (by assumption) ?_; intro s1 hI hv hsd hsec)
    | (refine wlp_onChecker (by assumption) ?_; intro s1 hI hv hsd hsec)
    | (refine wlp_pushMarkIdsPrev (by assumption) ?_; intro s1 hI hv hsd hsec)
    | (refine wlp_addSd (by assumption)
        (by first
          | exact RefsOK_ofSector (by omega)
          | exact RefsOK_GetWithSector (Inv.fenceside (by assumption)) (by omega)
          | exact RefsOK_GetWithSector (Inv.roadside (by assumption)) (by omega)
          | exact RefsOK_GetWithSector (Inv.markside (by assumption)) (by omega)) ?_
       intro s1 hI hv hsd hsec)
    | (refine wlp_addL (by assumption)
        (by first
          | exact RefsOK_mk3 (by omega) (by omega) (by omega)
          | exact RefsOK_mk4 (by omega) (by omega) (by omega) (by omega)
          | exact ⟨by simp only [Linedef.mk4]; omega, by simp only [Linedef.mk4]; omega,
              by simp only [Linedef.mk4]; omega, Or.inr (by simp only [Linedef.mk4]; omega)⟩
          | exact ⟨by simp only [Linedef.mk3, Linedef.mk4]; omega,
              by simp only [Linedef.mk3, Linedef.mk4]; omega,
              by simp only [Linedef.mk3, Linedef.mk4]; omega, Or.inl rfl⟩) ?_
       intro s1 hI hv hsd hsec)
    | (refine wlp_addV (by assumption) ?_; intro s1 hI hv hsd hsec)
    | (refine wlp_addS (by assumption) (Inv.templates (by assumption) _) ?_
       intro s1 hI hv hsd hsec)
    | (refine wlp_setLastV1 (by assumption) (by omega) ?_; intro s1 hI hv hsd hsec)
    | (refine wlp_setLastS1 (by assumption) (by omega) ?_; intro s1 hI hv hsd hsec)
    | (refine wlp_vertexAt ?_; intro v)
    | (refine wlp_modifyVertexAt (by assumption) ?_; intro s1 hI hv hsd hsec)
    | (refine wlp_modifySectorAt (by assumption) (by intro sec hsec0; exact hsec0) ?_
       intro s1 hI hv hsd hsec)
    | (exact ⟨by assumption, by unfold Grown; omega⟩)
    | (refine (M.wlp_pure _ _ _).mpr ⟨by assumption, ?_⟩; unfold Grown; omega)
    | (refine (M.wlp_fail _ _ _).mpr trivial)
    | (refine (M.wlp_pure _ _ _).mpr ?_)
    | (refine wlp_update_frame (by assumption) rfl rfl rfl rfl rfl rfl rfl ?_
       intro s1 hI hv hsd hsec)
    | (refine (M.wlp_read _ _).mpr ?_)
    | (refine (M.wlp_ite _ _ _ _ _).mpr ⟨?_, ?_⟩ <;> intro hc)
    | (simp only [M.wlp_bind]))

theorem wlp_Start_validate {Q : Unit → RoadFigure → Prop} {s : RoadFigure} (hQ : Q () s) :
    M.wlp Start.validate Q s := by
  unfold Start.validate
  simp only [M.wlp_bind]
  refine (M.wlp_read _ _).mpr ?_
  repeat' (first
    | (refine (M.wlp_fail _ _ _).mpr trivial)
    | (refine (M.wlp_pure _ _ _).mpr hQ)
    | (refine (M.wlp_ite _ _ _ _ _).mpr ⟨?_, ?_⟩ <;> intro hc))

theorem Start_inv (lm : Libm) (s : RoadFigure) (h : Inv s) :
    M.wlp (Start lm) (fun _ s1 => Inv s1 ∧ Grown s s1) s := by
  unfold Start
  simp only [M.wlp_bind]
  refine wlp_Start_validate ?_
  refine M.wlp_mono (Start_addBackground_inv lm s h) ?_
  rintro id s1 ⟨hI, ⟨hv, hsd, hsec⟩, hid⟩
  refine M.wlp_mono (Start_addFence_inv lm id s1 hI hid) ?_
  rintro _ s2 ⟨hI2, hv2, hsd2, hsec2⟩
  refine M.wlp_mono (Start_addRoadFrame_inv lm id s2 hI2 (by omega)) ?_
  rintro _ s3 ⟨hI3, hv3, hsd3, hsec3⟩
  refine wlp_update_frame hI3 rfl rfl rfl rfl rfl rfl rfl ?_
  intro s4 hI4 hv4 hsd4 hsec4
  exact ⟨hI4, by unfold Grown; omega⟩

theorem Finish_closeBackground_inv (lm : Libm) (s : RoadFigure) (h : Inv s) :
    M.wlp (Finish.closeBackground lm)
      (fun r s1 => Inv s1 ∧ Grown s s1 ∧ r.1 < s1.m_map.vertices.length
        ∧ r.2.1 < s1.m_map.sectors.length ∧ r.2.2 < s1.m_map.sectors.length) s := by
  unfold Finish.closeBackground
  simp only [M.wlp_bind]
  repeat' (first
    | (refine M.wlp_mono (ExtendBackground_inv _ _ _ _ _ (by assumption)) ?_
       rintro _ s1 ⟨hI, hv, hsd, hsec⟩)
    | (refine (M.wlp_pure _ _ _).mpr ⟨by assumption, by unfold Grown; omega, ?_, ?_, ?_⟩ <;> (dsimp only; omega))
    | (refine wlp_lastV (by assumption) ?_; intro id hid)
    | (refine wlp_lastS (by assumption) ?_; intro id hid)
    | (refine wlp_setV1 (by assumption) ?_; intro s1 hI hv hsd hsec)
    | (refine wlp_pushV (by assumption) ?_; intro s1 hI hv hsd hsec)
    | (refine wlp_pushS (by assumption) ?_; intro s1 hI hv hsd hsec)
    | (refine wlp_onChecker (by assumption) ?_; intro s1 hI hv hsd hsec)
    | (refine wlp_pushMarkIdsPrev (by assumption) ?_; intro s1 hI hv hsd hsec)
    | (refine wlp_addSd (by assumption)
        (by first
          | exact RefsOK_ofSector (by omega)
          | exact RefsOK_GetWithSector (Inv.fenceside (by assumption)) (by omega)
          | exact RefsOK_GetWithSector (Inv.roadside (by assumption)) (by omega)
          | exact RefsOK_GetWithSector (Inv.markside (by assumption)) (by omega)) ?_
       intro s1 hI hv hsd hsec)
    | (refine wlp_addL (by assumption)
        (by first
          | exact RefsOK_mk3 (by omega) (by omega) (by omega)
          | exact RefsOK_mk4 (by omega) (by omega) (by omega) (by omega)
          | exact ⟨by simp only [Linedef.mk4]; omega, by simp only [Linedef.mk4]; omega,
              by simp only [Linedef.mk4]; omega, Or.inr (by simp only [Linedef.mk4]; omega)⟩
          | exact ⟨by simp only [Linedef.mk3, Linedef.mk4]; omega,
              by simp only [Linedef.mk3, Linedef.mk4]; omega,
              by simp only [Linedef.mk3, Linedef.mk4]; omega, Or.inl rfl⟩) ?_
       intro s1 hI hv hsd hsec)
    | (refine wlp_addV (by assumption) ?_; intro s1 hI hv hsd hsec)
    | (refine wlp_addS (by assumption) (Inv.templates (by assumption) _) ?_
       intro s1 hI hv hsd hsec)
    | (refine wlp_setLastV1 (by assumption) (by omega) ?_; intro s1 hI hv hsd hsec)
    | (refine wlp_setLastS1 (by assumption) (by omega) ?_; intro s1 hI hv hsd hsec)
    | (refine wlp_vertexAt ?_; intro v)
    | (refine wlp_modifyVertexAt (by assumption) ?_; intro s1 hI hv hsd hsec)
    | (refine wlp_modifySectorAt (by assumption) (by intro sec hsec0; exact hsec0) ?_
       intro s1 hI hv hsd hsec)
    | (exact ⟨by assumption, by unfold Grown; omega⟩)
    | (refine (M.wlp_pure _ _ _).mpr ⟨by assumption, ?_⟩; unfold Grown; omega)
    | (refine (M.wlp_fail _ _ _).mpr trivial)
    | (refine (M.wlp_pure _ _ _).mpr ?_)
    | (refine wlp_update_frame (by assumption) rfl rfl rfl rfl rfl rfl rfl ?_
       intro s1 hI hv hsd hsec)
    | (refine (M.wlp_read _ _).mpr ?_)
    | (refine (M.wlp_ite _ _ _ _ _).mpr ⟨?_, ?_⟩ <;> intro hc)
    | (simp only [M.wlp_bind]))

theorem Finish_closeFence_inv (lm : Libm) (ide idw : Nat) (s : RoadFigure) (h : Inv s)
    (hide : ide < s.m_map.sectors.length) (hidw : idw < s.m_map.sectors.length) :
    M.wlp (Finish.closeFence lm ide idw)
      (fun r s1 => Inv s1 ∧ Grown s s1 ∧ r.1 < s1.m_map.vertices.length
        ∧ r.2.1 < s1.m_map.vertices.length ∧ r.2.2.1 < s1.m_map.sectors.length
        ∧ r.2.2.2 < s1.m_map.sectors.length) s := by
  unfold Finish.closeFence
  simp only [M.wlp_bind]
  repeat' (first
    | (refine M.wlp_mono (ExtendFence_inv _ _ _ _ _ (by assumption)) ?_
       rintro _ s1 ⟨hI, hv, hsd, hsec⟩)
    | (refine (M.wlp_pure _ _ _).mpr ⟨by assumption, by unfold Grown; omega, ?_, ?_, ?_, ?_⟩ <;> (dsimp only; omega))
    | (refine wlp_lastV (by assumption) ?_; intro id hid)
    | (refine wlp_lastS (by assumption) ?_; intro id hid)
    | (refine wlp_setV1 (by assumption) ?_; intro s1 hI hv hsd hsec)
    | (refine wlp_pushV (by assumption) ?_; intro s1 hI hv hsd hsec)
    | (refine wlp_pushS (by assumption) ?_; intro s1 hI hv hsd hsec)
    | (refine wlp_onChecker (by assumption) ?_; intro s1 hI hv hsd hsec)
    | (refine wlp_pushMarkIdsPrev (by assumption) ?_; intro s1 hI hv hsd hsec)
    | (refine wlp_addSd (by assumption)
        (by first
          | exact RefsOK_ofSector (by omega)
          | exact RefsOK_GetWithSector (Inv.fenceside (by assumption)) (by omega)
          | exact RefsOK_GetWithSector (Inv.roadside (by assumption)) (by omega)
          | exact RefsOK_GetWithSector (Inv.markside (by assumption)) (by omega)) ?_
       intro s1 hI hv hsd hsec)
    | (refine wlp_addL (by assumption)
        (by first
          | exact RefsOK_mk3 (by omega) (by omega) (by omega)
          | exact RefsOK_mk4 (by omega) (by omega) (by omega) (by omega)
          | exact ⟨by simp only [Linedef.mk4]; omega, by simp only [Linedef.mk4]; omega,
              by simp only [Linedef.mk4]; omega, Or.inr (by simp only [Linedef.mk4]; omega)⟩
          | exact ⟨by simp only [Linedef.mk3, Linedef.mk4]; omega,
              by simp only [Linedef.mk3, Linedef.mk4]; omega,
              by simp only [Linedef.mk3, Linedef.mk4]; omega, Or.inl rfl⟩) ?_
       intro s1 hI hv hsd hsec)
    | (refine wlp_addV (by assumption) ?_; intro s1 hI hv hsd hsec)
    | (refine wlp_addS (by assumption) (Inv.templates (by assumption) _) ?_
       intro s1 hI hv hsd hsec)
    | (refine wlp_setLastV1 (by assumption) (by omega) ?_; intro s1 hI hv hsd hsec)
    | (refine wlp_setLastS1 (by assumption) (by omega) ?_; intro s1 hI hv hsd hsec)
    | (refine wlp_vertexAt ?_; intro v)
    | (refine wlp_modifyVertexAt (by assumption) ?_; intro s1 hI hv hsd hsec)
    | (refine wlp_modifySectorAt (by assumption) (by intro sec hsec0; exact hsec0) ?_
       intro s1 hI hv hsd hsec)
    | (exact ⟨by assumption, by unfold Grown; omega⟩)
    | (refine (M.wlp_pure _ _ _).mpr ⟨by assumption, ?_⟩; unfold Grown; omega)
    | (refine (M.wlp_fail _ _ _).mpr trivial)
    | (refine (M.wlp_pure _ _ _).mpr ?_)
    | (refine wlp_update_frame (by assumption) rfl rfl rfl rfl rfl rfl rfl ?_
       intro s1 hI hv hsd hsec)
    | (refine (M.wlp_read _ _).mpr ?_)
    | (refine (M.wlp_ite _ _ _ _ _).mpr ⟨?_, ?_⟩ <;> intro hc)
    | (simp only [M.wlp_bind]))

theorem Finish_closeRoadFrame_inv (ide idw : Nat) (s : RoadFigure) (h : Inv s)
    (hide : ide < s.m_map.sectors.length) (hidw : idw < s.m_map.sectors.length) :
    M.wlp (Finish.closeRoadFrame ide idw)
      (fun r s1 => Inv s1 ∧ Grown s s1 ∧ r < s1.m_map.vertices.length) s := by
  unfold Finish.closeRoadFrame
  simp only [M.wlp_bind]
  repeat' (first
    | (refine (M.wlp_pure _ _ _).mpr ⟨by assumption, by unfold Grown; omega, by omega⟩)
    | (refine wlp_lastV (by assumption) ?_; intro id hid)
    | (refine wlp_lastS (by assumption) ?_; intro id hid)
    | (refine wlp_setV1 (by assumption) ?_; intro s1 hI hv hsd hsec)
    | (refine wlp_pushV (by assumption) ?_; intro s1 hI hv hsd hsec)
    | (refine wlp_pushS (by assumption) ?_; intro s1 hI hv hsd hsec)
    | (refine wlp_onChecker (by assumption) ?_; intro s1 hI hv hsd hsec)
    | (refine wlp_pushMarkIdsPrev (by assumption) ?_; intro s1 hI hv hsd hsec)
    | (refine wlp_addSd (by assumption)
        (by first
          | exact RefsOK_ofSector (by omega)
          | exact RefsOK_GetWithSector (Inv.fenceside (by assumption)) (by omega)
          | exact RefsOK_GetWithSector (Inv.roadside (by assumption)) (by omega)
          | exact RefsOK_GetWithSector (Inv.markside (by assumption)) (by omega)) ?_
       intro s1 hI hv hsd hsec)
    | (refine wlp_addL (by assumption)
        (by first
          | exact RefsOK_mk3 (by omega) (by omega) (by omega)
          | exact RefsOK_mk4 (by omega) (by omega) (by omega) (by omega)
          | exact ⟨by simp only [Linedef.mk4]; omega, by simp only [Linedef.mk4]; omega,
              by simp only [Linedef.mk4]; omega, Or.inr (by simp only [Linedef.mk4]; omega)⟩
          | exact ⟨by simp only [Linedef.mk3, Linedef.mk4]; omega,
              by simp only [Linedef.mk3, Linedef.mk4]; omega,
              by simp only [Linedef.mk3, Linedef.mk4]; omega, Or.inl rfl⟩) ?_
       intro s1 hI hv hsd hsec)
    | (refine wlp_addV (by assumption) ?_; intro s1 hI hv hsd hsec)
    | (refine wlp_addS (by assumption) (Inv.templates (by assumption) _) ?_
       intro s1 hI hv hsd hsec)
    | (refine wlp_setLastV1 (by assumption) (by omega) ?_; intro s1 hI hv hsd hsec)
    | (refine wlp_setLastS1 (by assumption) (by omega) ?_; intro s1 hI hv hsd hsec)
    | (refine wlp_vertexAt ?_; intro v)
    | (refine wlp_modifyVertexAt (by assumption) ?_; intro s1 hI hv hsd hsec)
    | (refine wlp_modifySectorAt (by assumption) (by intro sec hsec0; exact hsec0) ?_
       intro s1 hI hv hsd hsec)
    | (exact ⟨by assumption, by unfold Grown; omega⟩)
    | (refine (M.wlp_pure _ _ _).mpr ⟨by assumption, ?_⟩; unfold Grown; omega)
    | (refine (M.wlp_fail _ _ _).mpr trivial)
    | (refine (M.wlp_pure _ _ _).mpr ?_)
    | (refine wlp_update_frame (by assumption) rfl rfl rfl rfl rfl rfl rfl ?_
       intro s1 hI hv hsd hsec)
    | (refine (M.wlp_read _ _).mpr ?_)
    | (refine (M.wlp_ite _ _ _ _ _).mpr ⟨?_, ?_⟩ <;> intro hc)
    | (simp only [M.wlp_bind]))

theorem Finish_seamLines_inv (pairs : List (Nat × Nat)) :
    ∀ (vs : List Nat) (s0 s : RoadFigure), Inv s → Grown s0 s →
      (∀ p ∈ pairs, p.1 < s.m_map.sectors.length ∧ p.2 < s.m_map.sectors.length) →
      (∀ v ∈ vs, v < s.m_map.vertices.length) →
      M.wlp (Finish.seamLines pairs vs) (fun _ s1 => Inv s1 ∧ Grown s0 s1) s := by
  induction pairs with
  | nil =>
    intro vs s0 s h hG hp hvs
    unfold Finish.seamLines
    exact (M.wlp_pure _ _ _).mpr ⟨h, hG⟩
  | cons p rest ih =>
    intro vs s0 s h hG hp hvs
    unfold Grown at hG
    rcases vs with _ | ⟨vi, _ | ⟨vi1, vrest⟩⟩
    · unfold Finish.seamLines
      exact (M.wlp_pure _ _ _).mpr ⟨h, hG⟩
    · unfold Finish.seamLines
      exact (M.wlp_pure _ _ _).mpr ⟨h, hG⟩
    · unfold Finish.seamLines
      have hp1 := hp p (List.mem_cons_self _ _)
      have hvi := hvs vi (List.mem_cons_self _ _)
      have hvi1 := hvs vi1 (List.mem_cons_of_mem _ (List.mem_cons_self _ _))
      simp only [M.wlp_bind]
      repeat' (first
        | exact ih _ _ _ (by assumption) (by unfold Grown; omega)
            (by intro q hq; have := hp q (List.mem_cons_of_mem _ hq); omega)
            (by intro v hv0; have := hvs v (List.mem_cons_of_mem _ hv0); omega)
        | (refine wlp_lastV (by assumption) ?_; intro id hid)
        | (refine wlp_lastS (by assumption) ?_; intro id hid)
        | (refine wlp_setV1 (by assumption) ?_; intro s1 hI hv hsd hsec)
        | (refine wlp_pushV (by assumption) ?_; intro s1 hI hv hsd hsec)
        | (refine wlp_pushS (by assumption) ?_; intro s1 hI hv hsd hsec)
        | (refine wlp_onChecker (by assumption) ?_; intro s1 hI hv hsd hsec)
        | (refine wlp_pushMarkIdsPrev (by assumption) ?_; intro s1 hI hv hsd hsec)
        | (refine wlp_addSd (by assumption)
            (by first
              | exact RefsOK_ofSector (by omega)
              | exact RefsOK_GetWithSector (Inv.fenceside (by assumption)) (by omega)
              | exact RefsOK_GetWithSector (Inv.roadside (by assumption)) (by omega)
              | exact RefsOK_GetWithSector (Inv.markside (by assumption)) (by omega)) ?_
           intro s1 hI hv hsd hsec)
        | (refine wlp_addL (by assumption)
            (by first
              | exact RefsOK_mk3 (by omega) (by omega) (by omega)
              | exact RefsOK_mk4 (by omega) (by omega) (by omega) (by omega)
              | exact ⟨by simp only [Linedef.mk4]; omega, by simp only [Linedef.mk4]; omega,
                  by simp only [Linedef.mk4]; omega, Or.inr (by simp only [Linedef.mk4]; omega)⟩
              | exact ⟨by simp only [Linedef.mk3, Linedef.mk4]; omega,
                  by simp only [Linedef.mk3, Linedef.mk4]; omega,
                  by simp only [Linedef.mk3, Linedef.mk4]; omega, Or.inl rfl⟩) ?_
           intro s1 hI hv hsd hsec)
        | (refine wlp_addV (by assumption) ?_; intro s1 hI hv hsd hsec)
        | (refine wlp_addS (by assumption) (Inv.templates (by assumption) _) ?_
           intro s1 hI hv hsd hsec)
        | (refine wlp_setLastV1 (by assumption) (by omega) ?_; intro s1 hI hv hsd hsec)
        | (refine wlp_setLastS1 (by assumption) (by omega) ?_; intro s1 hI hv hsd hsec)
        | (refine wlp_vertexAt ?_; intro v)
        | (refine wlp_modifyVertexAt (by assumption) ?_; intro s1 hI hv hsd hsec)
        | (refine wlp_modifySectorAt (by assumption) (by intro sec hsec0; exact hsec0) ?_
           intro s1 hI hv hsd hsec)
        | (exact ⟨by assumption, by unfold Grown; omega⟩)
        | (refine (M.wlp_pure _ _ _).mpr ⟨by assumption, ?_⟩; unfold Grown; omega)
        | (refine (M.wlp_fail _ _ _).mpr trivial)
        | (refine (M.wlp_pure _ _ _).mpr ?_)
        | (refine wlp_update_frame (by assumption) rfl rfl rfl rfl rfl rfl rfl ?_
           intro s1 hI hv hsd hsec)
        | (refine (M.wlp_read _ _).mpr ?_)
        | (refine (M.wlp_ite _ _ _ _ _).mpr ⟨?_, ?_⟩ <;> intro hc)
        | (simp only [M.wlp_bind]))

theorem wlp_Finish_validate {Q : Unit → RoadFigure → Prop} {s : RoadFigure} (hQ : Q () s) :
    M.wlp Finish.validate Q s := by
  unfold Finish.validate
  simp only [M.wlp_bind]
  refine (M.wlp_read _ _).mpr ?_
  repeat' (first
    | (refine (M.wlp_fail _ _ _).mpr trivial)
    | (refine (M.wlp_pure _ _ _).mpr hQ)
    | (refine (M.wlp_ite _ _ _ _ _).mpr ⟨?_, ?_⟩ <;> intro hc))

theorem Finish_inv (lm : Libm) (s : RoadFigure) (h : Inv s) :
    M.wlp (Finish lm) (fun _ s1 => Inv s1 ∧ Grown s s1) s := by
  unfold Finish
  simp only [M.wlp_bind]
  refine wlp_Finish_validate ?_
  refine M.wlp_mono (Finish_closeBackground_inv lm s h) ?_
  rintro ⟨vb, sbe, sbw⟩ s1 ⟨hI, ⟨hv, hsd, hsec⟩, h1, h2, h3⟩
  dsimp only at h1 h2 h3 ⊢
  try simp only [M.wlp_bind]
  refine M.wlp_mono (Finish_closeFence_inv lm sbe sbw s1 hI h2 h3) ?_
  rintro ⟨vff, vfn, sfe, sfw⟩ s2 ⟨hI2, ⟨hv2, hsd2, hsec2⟩, h4, h5, h6, h7⟩
  dsimp only at h4 h5 h6 h7 ⊢
  try simp only [M.wlp_bind]
  refine M.wlp_mono (Finish_closeRoadFrame_inv sbe sbw s2 hI2 (by omega) (by omega)) ?_
  rintro vm s3 ⟨hI3, ⟨hv3, hsd3, hsec3⟩, h8⟩
  refine M.wlp_mono (Finish_seamLines_inv _ _ s3 s3 hI3 (Grown.refl s3) ?_ ?_) ?_
  · intro p hp
    simp only [List.mem_cons, List.mem_singleton, List.not_mem_nil, or_false] at hp
    rcases hp with rfl | rfl | rfl <;> dsimp only <;> omega
  · intro v hv0
    simp only [List.mem_cons, List.mem_singleton, List.not_mem_nil, or_false] at hv0
    rcases hv0 with rfl | rfl | rfl | rfl <;> omega
  · rintro _ s4 ⟨hI4, hv4, hsd4, hsec4⟩
    refine wlp_update_frame hI4 rfl rfl rfl rfl rfl rfl rfl ?_
    intro s5 hI5 hv5 hsd5 hsec5
    exact ⟨hI5, by unfold Grown; omega⟩

set_option maxHeartbeats 4000000 in
theorem Line_inv (lm : Libm) (line : LineData) (s : RoadFigure) (h : Inv s) :
    M.wlp (Line lm line) (fun _ s1 => Inv s1 ∧ Grown s s1) s := by
  unfold Line
  simp only [M.wlp_bind]
  repeat' (first
    | (refine M.wlp_mono (ExtendBackground_inv _ _ _ _ _ (by assumption)) ?_
       rintro _ s1 ⟨hI, hv, hsd, hsec⟩)
    | (refine M.wlp_mono (ExtendFence_inv _ _ _ _ _ (by assumption)) ?_
       rintro _ s1 ⟨hI, hv, hsd, hsec⟩)
    | (refine M.wlp_mono (ExtendBody_inv _ _ _ _ _ (by assumption)) ?_
       rintro _ s1 ⟨hI, hv, hsd, hsec⟩)
    | (refine M.wlp_mono (ExtendMark_inv _ _ _ _ (by assumption)) ?_
       rintro _ s1 ⟨hI, hv, hsd, hsec⟩)
    | (refine M.wlp_mono (CloseSectors_inv _ _ (by assumption)) ?_
       rintro _ s1 ⟨hI, hv, hsd, hsec⟩)
    | (refine wlp_lastV (by assumption) ?_; intro id hid)
    | (refine wlp_lastS (by assumption) ?_; intro id hid)
    | (refine wlp_setV1 (by assumption) ?_; intro s1 hI hv hsd hsec)
    | (refine wlp_pushV (by assumption) ?_; intro s1 hI hv hsd hsec)
    | (refine wlp_pushS (by assumption) ?_; intro s1 hI hv hsd hsec)
    | (refine wlp_onChecker (by assumption) ?_; intro s1 hI hv hsd hsec)
    | (refine wlp_pushMarkIdsPrev (by assumption) ?_; intro s1 hI hv hsd hsec)
    | (refine wlp_addSd (by assumption)
        (by first
          | exact RefsOK_ofSector (by omega)
          | exact RefsOK_GetWithSector (Inv.fenceside (by assumption)) (by omega)
          | exact RefsOK_GetWithSector (Inv.roadside (by assumption)) (by omega)
          | exact RefsOK_GetWithSector (Inv.markside (by assumption)) (by omega)) ?_
       intro s1 hI hv hsd hsec)
    | (refine wlp_addL (by assumption)
        (by first
          | exact RefsOK_mk3 (by omega) (by omega) (by omega)
          | exact RefsOK_mk4 (by omega) (by omega) (by omega) (by omega)
          | exact ⟨by simp only [Linedef.mk4]; omega, by simp only [Linedef.mk4]; omega,
              by simp only [Linedef.mk4]; omega, Or.inr (by simp only [Linedef.mk4]; omega)⟩
          | exact ⟨by simp only [Linedef.mk3, Linedef.mk4]; omega,
              by simp only [Linedef.mk3, Linedef.mk4]; omega,
              by simp only [Linedef.mk3, Linedef.mk4]; omega, Or.inl rfl⟩) ?_
       intro s1 hI hv hsd hsec)
    | (refine wlp_addV (by assumption) ?_; intro s1 hI hv hsd hsec)
    | (refine wlp_addS (by assumption) (Inv.templates (by assumption) _) ?_
       intro s1 hI hv hsd hsec)
    | (refine wlp_setLastV1 (by assumption) (by omega) ?_; intro s1 hI hv hsd hsec)
    | (refine wlp_setLastS1 (by assumption) (by omega) ?_; intro s1 hI hv hsd hsec)
    | (refine wlp_vertexAt ?_; intro v)
    | (refine wlp_modifyVertexAt (by assumption) ?_; intro s1 hI hv hsd hsec)
    | (refine wlp_modifySectorAt (by assumption) (by intro sec hsec0; exact hsec0) ?_
       intro s1 hI hv hsd hsec)
    | (exact ⟨by assumption, by unfold Grown; omega⟩)
    | (refine (M.wlp_pure _ _ _).mpr ⟨by assumption, ?_⟩; unfold Grown; omega)
    | (refine (M.wlp_fail _ _ _).mpr trivial)
    | (refine (M.wlp_pure _ _ _).mpr ?_)
    | (refine wlp_update_frame (by assumption) rfl rfl rfl rfl rfl rfl rfl ?_
       intro s1 hI hv hsd hsec)
    | (refine (M.wlp_read _ _).mpr ?_)
    | (refine (M.wlp_ite _ _ _ _ _).mpr ⟨?_, ?_⟩ <;> intro hc)
    | (simp only [M.wlp_bind]))

set_option maxHeartbeats 4000000 in
theorem Arc_step_inv (lm : Libm) (cx cy turn_sign step angle_abs : ℚ) (steps_count : Int)
    (angix : Nat) (s : RoadFigure) (h : Inv s) :
    M.wlp (Arc.step lm cx cy turn_sign step angle_abs steps_count angix)
      (fun _ s1 => Inv s1 ∧ Grown s s1) s := by
  unfold Arc.step
  simp only [M.wlp_bind]
  repeat' (first
    | (refine M.wlp_mono (ExtendBackground_inv _ _ _ _ _ (by assumption)) ?_
       rintro _ s1 ⟨hI, hv, hsd, hsec⟩)
    | (refine M.wlp_mono (ExtendFence_inv _ _ _ _ _ (by assumption)) ?_
       rintro _ s1 ⟨hI, hv, hsd, hsec⟩)
    | (refine M.wlp_mono (ExtendBody_inv _ _ _ _ _ (by assumption)) ?_
       rintro _ s1 ⟨hI, hv, hsd, hsec⟩)
    | (refine M.wlp_mono (ExtendMark_inv _ _ _ _ (by assumption)) ?_
       rintro _ s1 ⟨hI, hv, hsd, hsec⟩)
    | (refine M.wlp_mono (CloseSectors_inv _ _ (by assumption)) ?_
       rintro _ s1 ⟨hI, hv, hsd, hsec⟩)
    | (refine wlp_lastV (by assumption) ?_; intro id hid)
    | (refine wlp_lastS (by assumption) ?_; intro id hid)
    | (refine wlp_setV1 (by assumption) ?_; intro s1 hI hv hsd hsec)
    | (refine wlp_pushV (by assumption) ?_; intro s1 hI hv hsd hsec)
    | (refine wlp_pushS (by assumption) ?_; intro s1 hI hv hsd hsec)
    | (refine wlp_onChecker (by assumption) ?_; intro s1 hI hv hsd hsec)
    | (refine wlp_pushMarkIdsPrev (by assumption) ?_; intro s1 hI hv hsd hsec)
    | (refine wlp_addSd (by assumption)
        (by first
          | exact RefsOK_ofSector (by omega)
          | exact RefsOK_GetWithSector (Inv.fenceside (by assumption)) (by omega)
          | exact RefsOK_GetWithSector (Inv.roadside (by assumption)) (by omega)
          | exact RefsOK_GetWithSector (Inv.markside (by assumption)) (by omega)) ?_
       intro s1 hI hv hsd hsec)
    | (refine wlp_addL (by assumption)
        (by first
          | exact RefsOK_mk3 (by omega) (by omega) (by omega)
          | exact RefsOK_mk4 (by omega) (by omega) (by omega) (by omega)
          | exact ⟨by simp only [Linedef.mk4]; omega, by simp only [Linedef.mk4]; omega,
              by simp only [Linedef.mk4]; omega, Or.inr (by simp only [Linedef.mk4]; omega)⟩
          | exact ⟨by simp only [Linedef.mk3, Linedef.mk4]; omega,
              by simp only [Linedef.mk3, Linedef.mk4]; omega,
              by simp only [Linedef.mk3, Linedef.mk4]; omega, Or.inl rfl⟩) ?_
       intro s1 hI hv hsd hsec)
    | (refine wlp_addV (by assumption) ?_; intro s1 hI hv hsd hsec)
    | (refine wlp_addS (by assumption) (Inv.templates (by assumption) _) ?_
       intro s1 hI hv hsd hsec)
    | (refine wlp_setLastV1 (by assumption) (by omega) ?_; intro s1 hI hv hsd hsec)
    | (refine wlp_setLastS1 (by assumption) (by omega) ?_; intro s1 hI hv hsd hsec)
    | (refine wlp_vertexAt ?_; intro v)
    | (refine wlp_modifyVertexAt (by assumption) ?_; intro s1 hI hv hsd hsec)
    | (refine wlp_modifySectorAt (by assumption) (by intro sec hsec0; exact hsec0) ?_
       intro s1 hI hv hsd hsec)
    | (exact ⟨by assumption, by unfold Grown; omega⟩)
    | (refine (M.wlp_pure _ _ _).mpr ⟨by assumption, ?_⟩; unfold Grown; omega)
    | (refine (M.wlp_fail _ _ _).mpr trivial)
    | (refine (M.wlp_pure _ _ _).mpr ?_)
    | (refine wlp_update_frame (by assumption) rfl rfl rfl rfl rfl rfl rfl ?_
       intro s1 hI hv hsd hsec)
    | (refine (M.wlp_read _ _).mpr ?_)
    | (refine (M.wlp_ite _ _ _ _ _).mpr ⟨?_, ?_⟩ <;> intro hc)
    | (simp only [M.wlp_bind]))

set_option maxHeartbeats 4000000 in
theorem Arc_inv (lm : Libm) (arc : ArcData) (s : RoadFigure) (h : Inv s) :
    M.wlp (Arc lm arc) (fun _ s1 => Inv s1 ∧ Grown s s1) s := by
  unfold Arc
  simp only [M.wlp_bind]
  repeat' (first
    | (refine wlp_forEach_call (by assumption) (Arc_step_inv _ _ _ _ _ _ _) ?_
       intro s1 hI hv hsd hsec)
    | (refine wlp_lastV (by assumption) ?_; intro id hid)
    | (refine wlp_lastS (by assumption) ?_; intro id hid)
    | (refine wlp_setV1 (by assumption) ?_; intro s1 hI hv hsd hsec)
    | (refine wlp_pushV (by assumption) ?_; intro s1 hI hv hsd hsec)
    | (refine wlp_pushS (by assumption) ?_; intro s1 hI hv hsd hsec)
    | (refine wlp_onChecker (by assumption) ?_; intro s1 hI hv hsd hsec)
    | (refine wlp_pushMarkIdsPrev (by assumption) ?_; intro s1 hI hv hsd hsec)
    | (refine wlp_addSd (by assumption)
        (by first
          | exact RefsOK_ofSector (by omega)
          | exact RefsOK_GetWithSector (Inv.fenceside (by assumption)) (by omega)
          | exact RefsOK_GetWithSector (Inv.roadside (by assumption)) (by omega)
          | exact RefsOK_GetWithSector (Inv.markside (by assumption)) (by omega)) ?_
       intro s1 hI hv hsd hsec)
    | (refine wlp_addL (by assumption)
        (by first
          | exact RefsOK_mk3 (by omega) (by omega) (by omega)
          | exact RefsOK_mk4 (by omega) (by omega) (by omega) (by omega)
          | exact ⟨by simp only [Linedef.mk4]; omega, by simp only [Linedef.mk4]; omega,
              by simp only [Linedef.mk4]; omega, Or.inr (by simp only [Linedef.mk4]; omega)⟩
          | exact ⟨by simp only [Linedef.mk3, Linedef.mk4]; omega,
              by simp only [Linedef.mk3, Linedef.mk4]; omega,
              by simp only [Linedef.mk3, Linedef.mk4]; omega, Or.inl rfl⟩) ?_
       intro s1 hI hv hsd hsec)
    | (refine wlp_addV (by assumption) ?_; intro s1 hI hv hsd hsec)
    | (refine wlp_addS (by assumption) (Inv.templates (by assumption) _) ?_
       intro s1 hI hv hsd hsec)
    | (refine wlp_setLastV1 (by assumption) (by omega) ?_; intro s1 hI hv hsd hsec)
    | (refine wlp_setLastS1 (by assumption) (by omega) ?_; intro s1 hI hv hsd hsec)
    | (refine wlp_vertexAt ?_; intro v)
    | (refine wlp_modifyVertexAt (by assumption) ?_; intro s1 hI hv hsd hsec)
    | (refine wlp_modifySectorAt (by assumption) (by intro sec hsec0; exact hsec0) ?_
       intro s1 hI hv hsd hsec)
    | (exact ⟨by assumption, by unfold Grown; omega⟩)
    | (refine (M.wlp_pure _ _ _).mpr ⟨by assumption, ?_⟩; unfold Grown; omega)
    | (refine (M.wlp_fail _ _ _).mpr trivial)
    | (refine (M.wlp_pure _ _ _).mpr ?_)
    | (refine wlp_update_frame (by assumption) rfl rfl rfl rfl rfl rfl rfl ?_
       intro s1 hI hv hsd hsec)
    | (refine (M.wlp_read _ _).mpr ?_)
    | (refine (M.wlp_ite _ _ _ _ _).mpr ⟨?_, ?_⟩ <;> intro hc)
    | (simp only [M.wlp_bind]))

set_option maxHeartbeats 4000000 in
theorem SlopeModifier_inv (lm : Libm) (sm : SlopeModifierData) (s : RoadFigure) (h : Inv s) :
    M.wlp (SlopeModifier lm sm) (fun _ s1 => Inv s1 ∧ Grown s s1) s := by
  unfold SlopeModifier
  simp only [M.wlp_bind]
  repeat' (first
    | (refine M.wlp_mono (CloseSectors_inv _ _ (by assumption)) ?_
       rintro _ s1 ⟨hI, hv, hsd, hsec⟩)
    | (refine wlp_lastV (by assumption) ?_; intro id hid)
    | (refine wlp_lastS (by assumption) ?_; intro id hid)
    | (refine wlp_setV1 (by assumption) ?_; intro s1 hI hv hsd hsec)
    | (refine wlp_pushV (by assumption) ?_; intro s1 hI hv hsd hsec)
    | (refine wlp_pushS (by assumption) ?_; intro s1 hI hv hsd hsec)
    | (refine wlp_onChecker (by assumption) ?_; intro s1 hI hv hsd hsec)
    | (refine wlp_pushMarkIdsPrev (by assumption) ?_; intro s1 hI hv hsd hsec)
    | (refine wlp_addSd (by assumption)
        (by first
          | exact RefsOK_ofSector (by omega)
          | exact RefsOK_GetWithSector (Inv.fenceside (by assumption)) (by omega)
          | exact RefsOK_GetWithSector (Inv.roadside (by assumption)) (by omega)
          | exact RefsOK_GetWithSector (Inv.markside (by assumption)) (by omega)) ?_
       intro s1 hI hv hsd hsec)
    | (refine wlp_addL (by assumption)
        (by first
          | exact RefsOK_mk3 (by omega) (by omega) (by omega)
          | exact RefsOK_mk4 (by omega) (by omega) (by omega) (by omega)
          | exact ⟨by simp only [Linedef.mk4]; omega, by simp only [Linedef.mk4]; omega,
              by simp only [Linedef.mk4]; omega, Or.inr (by simp only [Linedef.mk4]; omega)⟩
          | exact ⟨by simp only [Linedef.mk3, Linedef.mk4]; omega,
              by simp only [Linedef.mk3, Linedef.mk4]; omega,
              by simp only [Linedef.mk3, Linedef.mk4]; omega, Or.inl rfl⟩) ?_
       intro s1 hI hv hsd hsec)
    | (refine wlp_addV (by assumption) ?_; intro s1 hI hv hsd hsec)
    | (refine wlp_addS (by assumption) (Inv.templates (by assumption) _) ?_
       intro s1 hI hv hsd hsec)
    | (refine wlp_setLastV1 (by assumption) (by omega) ?_; intro s1 hI hv hsd hsec)
    | (refine wlp_setLastS1 (by assumption) (by omega) ?_; intro s1 hI hv hsd hsec)
    | (refine wlp_vertexAt ?_; intro v)
    | (refine wlp_modifyVertexAt (by assumption) ?_; intro s1 hI hv hsd hsec)
    | (refine wlp_modifySectorAt (by assumption) (by intro sec hsec0; exact hsec0) ?_
       intro s1 hI hv hsd hsec)
    | (exact ⟨by assumption, by unfold Grown; omega⟩)
    | (refine (M.wlp_pure _ _ _).mpr ⟨by assumption, ?_⟩; unfold Grown; omega)
    | (refine (M.wlp_fail _ _ _).mpr trivial)
    | (refine (M.wlp_pure _ _ _).mpr ?_)
    | (refine wlp_update_frame (by assumption) rfl rfl rfl rfl rfl rfl rfl ?_
       intro s1 hI hv hsd hsec)
    | (refine (M.wlp_read _ _).mpr ?_)
    | (refine (M.wlp_ite _ _ _ _ _).mpr ⟨?_, ?_⟩ <;> intro hc)
    | (simp only [M.wlp_bind]))

end RoadFigure

/-! ## Reference closure of the generated map -/

theorem RoadFigure.Inv_new (config : RoadConfig) (start_data : StartModifierData) (map : Map)
    (ck : Option IntersectionChecker) (hc : map.RefsOK) (ht : map.textures.length = 9) :
    RoadFigure.Inv (RoadFigure.new config start_data map ck) := by
  constructor
  · exact hc
  · exact ht
  · intro slot id hid
    cases hid
  · intro slot id hid
    cases hid
  · intro slot
    cases slot <;> (constructor <;> exact Nat.le_of_ble_eq_true rfl)
  · refine ⟨?_, ?_, ?_⟩ <;> exact Nat.le_of_ble_eq_true rfl
  · refine ⟨?_, ?_, ?_⟩ <;> exact Nat.le_of_ble_eq_true rfl
  · refine ⟨?_, ?_, ?_⟩ <;> exact Nat.le_of_ble_eq_true rfl

theorem GetGeneratedRoad.Inv_init (road_config : RoadConfig) :
    RoadFigure.Inv (GetGeneratedRoad.init road_config).cur_figure := by
  refine RoadFigure.Inv_new _ _ _ _ ?_ ?_
  · constructor <;> intro x hx <;> cases hx
  · simp

theorem GetGeneratedRoad.wlp_onFigure {α : Type} {m : M RoadFigure α}
    {Q : α → GenState → Prop} {st : GenState} (h : RoadFigure.Inv st.cur_figure)
    (hm : M.wlp m (fun _ fig1 => RoadFigure.Inv fig1) st.cur_figure)
    (hQ : ∀ a st1, RoadFigure.Inv st1.cur_figure → Q a st1) :
    M.wlp (GetGeneratedRoad.onFigure m) Q st := by
  unfold M.wlp at *
  unfold GetGeneratedRoad.onFigure
  generalize m st.cur_figure = r at hm ⊢
  rcases r with ⟨r, fig⟩
  cases r with
  | error e => trivial
  | ok a => exact hQ a _ hm

theorem GetGeneratedRoad.wlp_update_state {f : GenState → GenState} {Q : Unit → GenState → Prop}
    {st : GenState} (hI : RoadFigure.Inv (f st).cur_figure)
    (hQ : ∀ st1, RoadFigure.Inv st1.cur_figure → Q () st1) :
    M.wlp (M.update f) Q st :=
  (M.wlp_update _ _ _).mpr (hQ _ hI)

theorem RoadFigure.setPlayerStart_inv (info : PlayerStartInfo) (s : RoadFigure)
    (h : RoadFigure.Inv s) :
    M.wlp (RoadFigure.onMap (setPlayerStart info)) (fun _ s1 => RoadFigure.Inv s1) s := by
  unfold M.wlp RoadFigure.onMap setPlayerStart M.update
  exact h.with_map _ ⟨h.closed.linedefs, h.closed.sidedefs, h.closed.sectors⟩ h.textures
    (le_refl _) (le_refl _)

theorem RoadFigure.wlp_weaken {m : M RoadFigure Unit} {s : RoadFigure}
    (h : M.wlp m (fun _ s1 => RoadFigure.Inv s1 ∧ RoadFigure.Grown s s1) s) :
    M.wlp m (fun _ s1 => RoadFigure.Inv s1) s :=
  M.wlp_mono h (fun _ _ hp => hp.1)

theorem GetGeneratedRoad.step_inv (lm : Libm) (road_config : RoadConfig)
    (obj : RoadFigureObject) (st : GenState) (h : RoadFigure.Inv st.cur_figure) :
    M.wlp (GetGeneratedRoad.step lm road_config obj)
      (fun _ st1 => RoadFigure.Inv st1.cur_figure) st := by
  cases obj <;> simp only [GetGeneratedRoad.step, M.wlp_bind] <;>
  repeat' (first
    | assumption
    | (refine GetGeneratedRoad.wlp_onFigure (by assumption)
        (by first
          | exact RoadFigure.wlp_weaken (RoadFigure.Finish_inv _ _ (by assumption))
          | exact RoadFigure.wlp_weaken (RoadFigure.Start_inv _ _ (by assumption))
          | exact RoadFigure.wlp_weaken (RoadFigure.Line_inv _ _ _ (by assumption))
          | exact RoadFigure.wlp_weaken (RoadFigure.Arc_inv _ _ _ (by assumption))
          | exact RoadFigure.wlp_weaken (RoadFigure.SlopeModifier_inv _ _ _ (by assumption))
          | exact RoadFigure.setPlayerStart_inv _ _ (by assumption)
          | exact RoadFigure.wlp_onChecker (by assumption)
              (fun s1 hI _ _ _ => hI)) ?_
       intro a st1 hI)
    | (refine GetGeneratedRoad.wlp_update_state
        (by first
          | assumption
          | exact RoadFigure.Inv_new _ _ _ _ (RoadFigure.Inv.closed (by assumption))
              (RoadFigure.Inv.textures (by assumption))) ?_
       intro st1 hI)
    | (refine (M.wlp_fail _ _ _).mpr trivial)
    | (refine (M.wlp_pure _ _ _).mpr (by assumption))
    | (refine (M.wlp_pure _ _ _).mpr ?_)
    | (refine (M.wlp_read _ _).mpr ?_)
    | (refine (M.wlp_ite _ _ _ _ _).mpr ⟨?_, ?_⟩ <;> intro hc)
    | (simp only [M.wlp_bind]))

theorem GetGeneratedRoad.loop_inv (lm : Libm) (road_config : RoadConfig)
    (input_data : List RoadFigureObject) :
    ∀ st : GenState, RoadFigure.Inv st.cur_figure →
      M.wlp (RoadFigure.forEach (GetGeneratedRoad.step lm road_config) input_data)
        (fun _ st1 => RoadFigure.Inv st1.cur_figure) st := by
  induction input_data with
  | nil =>
    intro st h
    unfold RoadFigure.forEach
    exact (M.wlp_pure _ _ _).mpr h
  | cons obj rest ih =>
    intro st h
    unfold RoadFigure.forEach
    simp only [M.wlp_bind]
    refine M.wlp_mono (GetGeneratedRoad.step_inv lm road_config obj st h) ?_
    intro _ st1 h1
    exact ih st1 h1

theorem GetGeneratedRoad.body_inv (lm : Libm) (road_config : RoadConfig)
    (input_data : List RoadFigureObject) (st : GenState) (h : RoadFigure.Inv st.cur_figure) :
    M.wlp (GetGeneratedRoad.body lm road_config input_data)
      (fun _ st1 => RoadFigure.Inv st1.cur_figure) st := by
  unfold GetGeneratedRoad.body
  simp only [M.wlp_bind]
  refine M.wlp_mono (GetGeneratedRoad.loop_inv lm road_config input_data st h) ?_
  intro _ st1 h1
  refine (M.wlp_read _ _).mpr ?_
  refine (M.wlp_ite _ _ _ _ _).mpr ⟨fun _ => ?_, fun _ => (M.wlp_pure _ _ _).mpr h1⟩
  exact GetGeneratedRoad.wlp_onFigure h1 (RoadFigure.wlp_weaken (RoadFigure.Finish_inv _ _ h1))
    (fun _ _ hI => hI)

theorem GetGeneratedRoad_inv (lm : Libm) (input_data : List RoadFigureObject)
    (road_config : RoadConfig)
    (h : (GetGeneratedRoad lm input_data road_config).1 = Except.ok ()) :
    (GetGeneratedRoad lm input_data road_config).2.RefsOK
      ∧ (GetGeneratedRoad lm input_data road_config).2.textures.length = 9 := by
  have hb := GetGeneratedRoad.body_inv lm road_config input_data
    (GetGeneratedRoad.init road_config) (GetGeneratedRoad.Inv_init road_config)
  unfold GetGeneratedRoad at h ⊢
  unfold M.wlp at hb
  generalize GetGeneratedRoad.body lm road_config input_data
    (GetGeneratedRoad.init road_config) = r at h hb ⊢
  rcases r with ⟨r, st⟩
  cases r with
  | error e => cases h
  | ok a => exact ⟨hb.closed, hb.textures⟩

/-- C1 (reference closure): for every config and every command list on which
`GetGeneratedRoad` returns normally, in the resulting map every linedef has `v1` and `v2`
below the number of vertices, `sidefront` below the number of sidedefs and `sideback`
either `ID_INVALID` or below the number of sidedefs, every sidedef has its sector below
the number of sectors, and every texture id of a sidedef or sector is below the size of
the texture table, which is 9; so no reference check of `WriteMapToStream` can throw. -/
theorem GetGeneratedRoad_reference_closure (lm : Libm) (input_data : List RoadFigureObject)
    (road_config : RoadConfig)
    (h : (GetGeneratedRoad lm input_data road_config).1 = Except.ok ()) :
    (∀ l ∈ (GetGeneratedRoad lm input_data road_config).2.linedefs,
        l.v1 < (GetGeneratedRoad lm input_data road_config).2.vertices.length
        ∧ l.v2 < (GetGeneratedRoad lm input_data road_config).2.vertices.length
        ∧ l.sidefront < (GetGeneratedRoad lm input_data road_config).2.sidedefs.length
        ∧ (l.sideback = ID_INVALID
          ∨ l.sideback < (GetGeneratedRoad lm input_data road_config).2.sidedefs.length))
    ∧ (∀ sd ∈ (GetGeneratedRoad lm input_data road_config).2.sidedefs,
        sd.sector < (GetGeneratedRoad lm input_data road_config).2.sectors.length
        ∧ sd.texturetop < 9 ∧ sd.texturebottom < 9 ∧ sd.texturemiddle < 9)
    ∧ (∀ s ∈ (GetGeneratedRoad lm input_data road_config).2.sectors,
        s.texturefloor < 9 ∧ s.textureceiling < 9)
    ∧ (GetGeneratedRoad lm input_data road_config).2.textures.length = 9 := by
  obtain ⟨hc, ht⟩ := GetGeneratedRoad_inv lm input_data road_config h
  refine ⟨fun l hl => hc.linedefs l hl, fun sd hsd => ?_, fun s hs => ?_, ht⟩
  · have := hc.sidedefs sd hsd
    rw [ht] at this
    exact this
  · have := hc.sectors s hs
    rw [ht] at this
    exact this

set_option maxRecDepth 1000000 in
theorem GetGeneratedRoad_reference_closure_witness :
    (GetGeneratedRoad exampleLibm exampleRoad defaultRoadConfig).1 = Except.ok ()
    ∧ ((∀ l ∈ (GetGeneratedRoad exampleLibm exampleRoad defaultRoadConfig).2.linedefs,
        l.v1 < (GetGeneratedRoad exampleLibm exampleRoad defaultRoadConfig).2.vertices.length
        ∧ l.v2 < (GetGeneratedRoad exampleLibm exampleRoad defaultRoadConfig).2.vertices.length
        ∧ l.sidefront
          < (GetGeneratedRoad exampleLibm exampleRoad defaultRoadConfig).2.sidedefs.length
        ∧ (l.sideback = ID_INVALID
          ∨ l.sideback
            < (GetGeneratedRoad exampleLibm exampleRoad defaultRoadConfig).2.sidedefs.length))
    ∧ (∀ sd ∈ (GetGeneratedRoad exampleLibm exampleRoad defaultRoadConfig).2.sidedefs,
        sd.sector < (GetGeneratedRoad exampleLibm exampleRoad defaultRoadConfig).2.sectors.length
        ∧ sd.texturetop < 9 ∧ sd.texturebottom < 9 ∧ sd.texturemiddle < 9)
    ∧ (∀ s ∈ (GetGeneratedRoad exampleLibm exampleRoad defaultRoadConfig).2.sectors,
        s.texturefloor < 9 ∧ s.textureceiling < 9)
    ∧ (GetGeneratedRoad exampleLibm exampleRoad defaultRoadConfig).2.textures.length = 9) :=
  ⟨by decide!, GetGeneratedRoad_reference_closure _ _ _ (by decide!)⟩

end FigureInvariant

/-! ## The lifecycle of a figure -/

theorem Finish_run_eq {lm : Libm} {fig : RoadFigure}
    (h : (RoadFigure.Finish lm fig).1 = Except.ok ()) :
    RoadFigure.Finish lm fig = (Except.ok (), (RoadFigure.Finish lm fig).2) :=
  Prod.ext h rfl

theorem FigureOp.run_error_of_finished (lm : Libm) {fig : RoadFigure}
    (h : fig.m_finished_drawing = true) (op : FigureOp) :
    ∃ e, op.run lm fig = (Except.error e, fig) := by
  cases op with
  | start => exact Start_error_of_not_new (Or.inr h)
  | finish =>
    obtain ⟨e, he⟩ := Finish_validate_error_of_not_drawing (Or.inr h)
    exact ⟨e, Finish_of_validate_error he⟩
  | line data => exact ⟨_, Line_error_of_not_drawing data (Or.inr h)⟩
  | arc data => exact ⟨_, Arc_error_of_not_drawing data (Or.inr h)⟩
  | slope data => exact ⟨_, SlopeModifier_error_of_not_drawing data (Or.inr h)⟩

theorem FigureOp.runAll_of_finished (lm : Libm) {fig : RoadFigure}
    (h : fig.m_finished_drawing = true) (ops : List FigureOp) :
    FigureOp.runAll lm ops fig = fig := by
  induction ops with
  | nil => rfl
  | cons op rest ih =>
    obtain ⟨e, he⟩ := FigureOp.run_error_of_finished lm h op
    unfold FigureOp.runAll
    rw [he]
    exact ih

/-- C7 (lifecycle enforcement): `Start` fails unless the figure is `NotStarted`;
`Finish`, `Line`, `Arc` and `SlopeModifier` fail unless it is `Drawing`; each of these
failures returns the figure, and so its map, unchanged; and when `Finish` succeeds the
figure is `Finished`, every later operation on it fails, and every later sequence of
operations leaves it as it is, so it never is `NotStarted` or `Drawing` again. -/
theorem lifecycle_enforcement (lm : Libm) (fig : RoadFigure) :
    (¬ fig.NotStarted → ∃ e, RoadFigure.Start lm fig = (Except.error e, fig))
    ∧ (¬ fig.Drawing →
        (∃ e, RoadFigure.Finish lm fig = (Except.error e, fig))
        ∧ (∀ data, ∃ e, RoadFigure.Line lm data fig = (Except.error e, fig))
        ∧ (∀ data, ∃ e, RoadFigure.Arc lm data fig = (Except.error e, fig))
        ∧ (∀ data, ∃ e, RoadFigure.SlopeModifier lm data fig = (Except.error e, fig)))
    ∧ ((RoadFigure.Finish lm fig).1 = Except.ok () →
        (RoadFigure.Finish lm fig).2.Finished
        ∧ (∀ op : FigureOp, ∃ e,
            op.run lm (RoadFigure.Finish lm fig).2 = (Except.error e, (RoadFigure.Finish lm fig).2))
        ∧ (∀ ops : List FigureOp,
            FigureOp.runAll lm ops (RoadFigure.Finish lm fig).2 = (RoadFigure.Finish lm fig).2)) := by
  refine ⟨fun h => ?_, fun h => ?_, fun h => ?_⟩
  · apply Start_error_of_not_new
    unfold RoadFigure.NotStarted at h
    cases hs : fig.m_started_drawing <;> cases hf : fig.m_finished_drawing <;> simp_all
  · have h1 : fig.m_started_drawing = false ∨ fig.m_finished_drawing = true := by
      unfold RoadFigure.Drawing at h
      cases hs : fig.m_started_drawing <;> cases hf : fig.m_finished_drawing <;> simp_all
    refine ⟨?_, fun data => ⟨_, Line_error_of_not_drawing data h1⟩,
      fun data => ⟨_, Arc_error_of_not_drawing data h1⟩,
      fun data => ⟨_, SlopeModifier_error_of_not_drawing data h1⟩⟩
    obtain ⟨e, he⟩ := Finish_validate_error_of_not_drawing h1
    exact ⟨e, Finish_of_validate_error he⟩
  · have hfin := (Finish_ok_flags (Finish_run_eq h)).2
    exact ⟨hfin, FigureOp.run_error_of_finished lm hfin, FigureOp.runAll_of_finished lm hfin⟩

set_option maxRecDepth 1000000 in
theorem lifecycle_enforcement_witness :
    (¬ exampleFinishedFigure.NotStarted
      ∧ ∃ e, RoadFigure.Start exampleLibm exampleFinishedFigure
          = (Except.error e, exampleFinishedFigure))
    ∧ (¬ exampleNewFigure.Drawing
      ∧ ∃ e, RoadFigure.Finish exampleLibm exampleNewFigure = (Except.error e, exampleNewFigure))
    ∧ ((RoadFigure.Finish exampleLibm exampleDrawingFigure).1 = Except.ok ()
      ∧ (RoadFigure.Finish exampleLibm exampleDrawingFigure).2.Finished) :=
  ⟨⟨by decide!, (lifecycle_enforcement exampleLibm exampleFinishedFigure).1 (by decide!)⟩,
   ⟨by decide!, ((lifecycle_enforcement exampleLibm exampleNewFigure).2.1 (by decide!)).1⟩,
   ⟨by decide!, ((lifecycle_enforcement exampleLibm exampleDrawingFigure).2.2 (by decide!)).1⟩⟩

/-! ## The validation of the seed in `Start` -/

/-- C8: `Start` fails whenever the origin has `x` or `y` outside `[-30000, 30000]`, the
floor is outside `[-32767, 32767]`, or the ceiling is below the floor or above `32767`;
the figure, and so its map, is returned unchanged: nothing is appended. -/
theorem Start_rejects_out_of_range_seed (lm : Libm) (fig : RoadFigure)
    (h : fig.m_v_null.x < -30000 ∨ 30000 < fig.m_v_null.x
      ∨ fig.m_v_null.y < -30000 ∨ 30000 < fig.m_v_null.y
      ∨ fig.m_floorpos < -32767 ∨ 32767 < fig.m_floorpos
      ∨ fig.m_ceilingpos < fig.m_floorpos ∨ 32767 < fig.m_ceilingpos) :
    (∃ e, (RoadFigure.Start lm fig).1 = Except.error e)
    ∧ (RoadFigure.Start lm fig).2 = fig
    ∧ (RoadFigure.Start lm fig).2.m_map = fig.m_map := by
  have key : ∃ e, RoadFigure.Start lm fig = (Except.error e, fig) := by
    rcases Start_validate_cases fig with hok | ⟨e, he⟩
    · rw [Start_validate_ok_iff] at hok
      obtain ⟨_, _, hx1, hx2, hy1, hy2, hf1, hf2, hc1, hc2, _, _⟩ := hok
      rcases h with h | h | h | h | h | h | h | h
      · exact absurd hx1 (not_le.mpr h)
      · exact absurd hx2 (not_le.mpr h)
      · exact absurd hy1 (not_le.mpr h)
      · exact absurd hy2 (not_le.mpr h)
      · exact absurd hf1 (not_le.mpr h)
      · exact absurd hf2 (not_le.mpr h)
      · exact absurd hc1 (not_le.mpr h)
      · exact absurd hc2 (not_le.mpr h)
    · exact ⟨e, Start_of_validate_error he⟩
  obtain ⟨e, he⟩ := key
  rw [he]
  exact ⟨⟨e, rfl⟩, rfl, rfl⟩

theorem Start_rejects_out_of_range_seed_witness :
    (exampleFarFigure.m_v_null.x < -30000 ∨ 30000 < exampleFarFigure.m_v_null.x
      ∨ exampleFarFigure.m_v_null.y < -30000 ∨ 30000 < exampleFarFigure.m_v_null.y
      ∨ exampleFarFigure.m_floorpos < -32767 ∨ 32767 < exampleFarFigure.m_floorpos
      ∨ exampleFarFigure.m_ceilingpos < exampleFarFigure.m_floorpos
      ∨ 32767 < exampleFarFigure.m_ceilingpos)
    ∧ (∃ e, (RoadFigure.Start exampleLibm exampleFarFigure).1 = Except.error e)
    ∧ (RoadFigure.Start exampleLibm exampleFarFigure).2 = exampleFarFigure
    ∧ (RoadFigure.Start exampleLibm exampleFarFigure).2.m_map = exampleFarFigure.m_map :=
  ⟨by decide!, Start_rejects_out_of_range_seed exampleLibm exampleFarFigure (by decide!)⟩

/-- C9 (counterexample): the new figure `exampleLowFigure` is `NotStarted`, has origin
and floor in range, an empty intersection checker, positive height `128`, ceiling `128`
at most `32767` and clearance `128 - 128 - 0 = 0` beneath the fence, yet `Start` fails
on it with the error "fence is higher than the ceiling". -/
theorem Start_rejects_height_equal_to_fence_height :
    exampleLowFigure.NotStarted
    ∧ exampleLowFigure.m_v_null.x = 0 ∧ exampleLowFigure.m_v_null.y = 0
    ∧ exampleLowFigure.m_floorpos = 0
    ∧ exampleLowFigure.m_intersection_checker = some {}
    ∧ 0 < exampleLowFigure.m_ceilingpos - exampleLowFigure.m_floorpos
    ∧ exampleLowFigure.m_ceilingpos ≤ 32767
    ∧ exampleLowFigure.m_config.sizes.fence_height
        = exampleLowFigure.m_ceilingpos - exampleLowFigure.m_floorpos
    ∧ 0 ≤ exampleLowFigure.m_ceilingpos - exampleLowFigure.m_config.sizes.fence_height
        - exampleLowFigure.m_floorpos
    ∧ (RoadFigure.Start exampleLibm exampleLowFigure).1
        = Except.error Err.fenceHigherThanCeiling :=
  ⟨by decide!, by decide!, by decide!, by decide!, rfl, by decide!, by decide!, by decide!,
    by decide!, by decide!⟩

/-! ## The validation of the length in `Line` -/

/-- C10: for a figure in the `Drawing` state, `Line` fails when the length is below `1`
or above `32767`, and returns the figure unchanged: the map, the intersection checker,
the null vertex, the heading and the dash accumulator are those before the call. -/
theorem Line_rejects_bad_length (lm : Libm) (fig : RoadFigure) (data : LineData)
    (hD : fig.Drawing) (h : data.length < 1 ∨ 32767 < data.length) :
    RoadFigure.Line lm data fig = (Except.error Err.badLineLength, fig)
    ∧ (RoadFigure.Line lm data fig).2.m_map = fig.m_map
    ∧ (RoadFigure.Line lm data fig).2.m_intersection_checker = fig.m_intersection_checker
    ∧ (RoadFigure.Line lm data fig).2.m_v_null = fig.m_v_null
    ∧ (RoadFigure.Line lm data fig).2.m_angle = fig.m_angle
    ∧ (RoadFigure.Line lm data fig).2.m_mark_coord = fig.m_mark_coord := by
  have key : RoadFigure.Line lm data fig = (Except.error Err.badLineLength, fig) := by
    unfold RoadFigure.Line
    simp only [M.run_bind, M.run_read]
    rw [if_neg (by simp [hD.1, hD.2]), if_pos (by simpa using h)]
    rfl
  rw [key]
  exact ⟨rfl, rfl, rfl, rfl, rfl, rfl⟩

set_option maxRecDepth 1000000 in
theorem Line_rejects_bad_length_witness :
    exampleStartedFigure.Drawing
    ∧ ((0 : ℚ) < 1 ∨ (32767 : ℚ) < 0)
    ∧ RoadFigure.Line exampleLibm { length := 0 } exampleStartedFigure
        = (Except.error Err.badLineLength, exampleStartedFigure) :=
  ⟨by decide!, by decide!,
    (Line_rejects_bad_length exampleLibm exampleStartedFigure { length := 0 } (by decide!)
      (by decide!)).1⟩

/-! ## Success of `GetQuadInfo` on a rectangle -/

theorem abs_coeffsDivider_le (a b L : ℚ) (hL : 1 ≤ L) (ha : |a| ≤ L) (hb : |b| ≤ L) :
    |coeffsDivider a b| ≤ L := by
  unfold coeffsDivider
  simp only []
  split_ifs <;> first
    | exact ha
    | exact hb
    | (rw [abs_one]; exact hL)

theorem abs_le_of_sq_add_sq {a b L : ℚ} (hL : 0 ≤ L) (h : a * a + b * b = L * L) :
    |a| ≤ L ∧ |b| ≤ L := by
  have ha : a ^ 2 ≤ L ^ 2 := by nlinarith [mul_self_nonneg b]
  have hb : b ^ 2 ≤ L ^ 2 := by nlinarith [mul_self_nonneg a]
  exact ⟨abs_le.mpr (abs_le_of_sq_le_sq' ha hL), abs_le.mpr (abs_le_of_sq_le_sq' hb hL)⟩

theorem not_IsZeroOrCloseTo_of_cross {a b L A : ℚ} (hL : 1 ≤ L)
    (hab : a * a + b * b = L * L) (hA : L ≤ A) :
    ¬ Math.IsZeroOrCloseTo (-A / coeffsDivider a b) = true := by
  obtain ⟨ha, hb⟩ := abs_le_of_sq_add_sq (le_trans zero_le_one hL) hab
  have hd0 := coeffsDivider_ne_zero a b
  have hdL := abs_coeffsDivider_le a b L hL ha hb
  have hdpos : 0 < |coeffsDivider a b| := abs_pos.mpr hd0
  rw [IsZeroOrCloseTo_iff]
  intro h
  have h1 : |(-A / coeffsDivider a b)| < 1 / 100000 := abs_lt.mpr h
  rw [abs_div, abs_neg, div_lt_iff₀ hdpos] at h1
  have hA0 : 0 ≤ A := le_trans (le_trans zero_le_one hL) hA
  rw [abs_of_nonneg hA0] at h1
  nlinarith

theorem segment_isOk_of_cross (v : Arr4 Math.Point2D) (i : Nat) (A : ℚ)
    (h2 : cross (v.get i) (v.get ((i + 1) % 4)) (v.get ((i + 2) % 4)) = A)
    (h3 : cross (v.get i) (v.get ((i + 1) % 4)) (v.get ((i + 3) % 4)) = A)
    (hA : ¬ Math.IsZeroOrCloseTo
      (-A / coeffsDivider ((v.get ((i + 1) % 4)).y - (v.get i).y)
        ((v.get i).x - (v.get ((i + 1) % 4)).x)) = true) :
    ∃ s, GetQuadInfo.segment v i = Except.ok s := by
  have hd0 := coeffsDivider_ne_zero ((v.get ((i + 1) % 4)).y - (v.get i).y)
    ((v.get i).x - (v.get ((i + 1) % 4)).x)
  have hval : ∀ r, cross (v.get i) (v.get ((i + 1) % 4)) r = A →
      lineVal (edgeEquation (v.get i) (v.get ((i + 1) % 4))) r
        = -A / coeffsDivider ((v.get ((i + 1) % 4)).y - (v.get i).y)
          ((v.get i).x - (v.get ((i + 1) % 4)).x) := by
    intro r hr
    rw [eq_div_iff hd0, lineVal_edgeEquation, hr]
  have hpos : ∀ r, cross (v.get i) (v.get ((i + 1) % 4)) r = A →
      Math.GetPointLinePos2D r (edgeEquation (v.get i) (v.get ((i + 1) % 4)))
        ≠ Math.EnPointLinePos2D.enPointLinePos2D_BelongsTo := by
    intro r hr hbel
    rw [GetPointLinePos2D_belongs_iff, hval r hr] at hbel
    exact hA hbel
  have heq : Math.GetPointLinePos2D (v.get ((i + 2) % 4))
        (edgeEquation (v.get i) (v.get ((i + 1) % 4)))
      = Math.GetPointLinePos2D (v.get ((i + 3) % 4))
        (edgeEquation (v.get i) (v.get ((i + 1) % 4))) := by
    have e2 := hval _ h2
    have e3 := hval _ h3
    unfold lineVal at e2 e3
    unfold Math.GetPointLinePos2D
    simp only [e2, e3]
  simp only [GetQuadInfo.segment]
  rw [if_neg (hpos _ h2), if_neg (hpos _ h3), if_neg (not_not.mpr heq)]
  exact ⟨_, rfl⟩

theorem GetQuadInfo_isOk_of_segments (p1 p2 p3 p4 : Math.Point2D)
    (h0 : ∃ s, GetQuadInfo.segment ⟨p1, p2, p3, p4⟩ 0 = Except.ok s)
    (h1 : ∃ s, GetQuadInfo.segment ⟨p1, p2, p3, p4⟩ 1 = Except.ok s)
    (h2 : ∃ s, GetQuadInfo.segment ⟨p1, p2, p3, p4⟩ 2 = Except.ok s)
    (h3 : ∃ s, GetQuadInfo.segment ⟨p1, p2, p3, p4⟩ 3 = Except.ok s) :
    ∃ q, GetQuadInfo p1 p2 p3 p4 = Except.ok q := by
  obtain ⟨s0, h0⟩ := h0
  obtain ⟨s1, h1⟩ := h1
  obtain ⟨s2, h2⟩ := h2
  obtain ⟨s3, h3⟩ := h3
  simp only [GetQuadInfo, h0, h1, h2, h3]
  exact ⟨_, rfl⟩

theorem Start_quad_isOk (lm : Libm) (fig : RoadFigure) (g h : ℚ) (hg : 1 ≤ g) (hh : 1 ≤ h)
    (hlm : lm.cos fig.m_angle * lm.cos fig.m_angle + lm.sin fig.m_angle * lm.sin fig.m_angle
      = 1) :
    ∃ q, GetQuadInfo (RoadFigure.Start.seed lm fig (-g) (-h)).toPoint2D
      (RoadFigure.Start.seed lm fig 0 (-h)).toPoint2D
      (RoadFigure.Start.seed lm fig 0 h).toPoint2D
      (RoadFigure.Start.seed lm fig (-g) h).toPoint2D = Except.ok q := by
  have hh2 : 1 ≤ 2 * h := by linarith
  have hA1 : g ≤ 2 * g * h := by nlinarith
  have hA2 : 2 * h ≤ 2 * g * h := by nlinarith
  apply GetQuadInfo_isOk_of_segments
  · refine segment_isOk_of_cross _ 0 (2 * g * h) ?_ ?_ ?_
    · simp only [Arr4.get, cross, RoadFigure.Start.seed, Udmf.Vertex.toPoint2D, Udmf.Vertex.GetRotated,
        Udmf.Vertex.GetMoved, Math.Rotate2DPoint]
      linear_combination (2 * g * h) * hlm
    · simp only [Arr4.get, cross, RoadFigure.Start.seed, Udmf.Vertex.toPoint2D, Udmf.Vertex.GetRotated,
        Udmf.Vertex.GetMoved, Math.Rotate2DPoint]
      linear_combination (2 * g * h) * hlm
    · refine not_IsZeroOrCloseTo_of_cross (L := g) hg ?_ hA1
      simp only [Arr4.get, RoadFigure.Start.seed, Udmf.Vertex.toPoint2D, Udmf.Vertex.GetRotated,
        Udmf.Vertex.GetMoved, Math.Rotate2DPoint]
      linear_combination (g * g) * hlm
  · refine segment_isOk_of_cross _ 1 (2 * g * h) ?_ ?_ ?_
    · simp only [Arr4.get, cross, RoadFigure.Start.seed, Udmf.Vertex.toPoint2D, Udmf.Vertex.GetRotated,
        Udmf.Vertex.GetMoved, Math.Rotate2DPoint]
      linear_combination (2 * g * h) * hlm
    · simp only [Arr4.get, cross, RoadFigure.Start.seed, Udmf.Vertex.toPoint2D, Udmf.Vertex.GetRotated,
        Udmf.Vertex.GetMoved, Math.Rotate2DPoint]
      linear_combination (2 * g * h) * hlm
    · refine not_IsZeroOrCloseTo_of_cross (L := (2 * h)) hh2 ?_ hA2
      simp only [Arr4.get, RoadFigure.Start.seed, Udmf.Vertex.toPoint2D, Udmf.Vertex.GetRotated,
        Udmf.Vertex.GetMoved, Math.Rotate2DPoint]
      linear_combination ((2 * h) * (2 * h)) * hlm
  · refine segment_isOk_of_cross _ 2 (2 * g * h) ?_ ?_ ?_
    · simp only [Arr4.get, cross, RoadFigure.Start.seed, Udmf.Vertex.toPoint2D, Udmf.Vertex.GetRotated,
        Udmf.Vertex.GetMoved, Math.Rotate2DPoint]
      linear_combination (2 * g * h) * hlm
    · simp only [Arr4.get, cross, RoadFigure.Start.seed, Udmf.Vertex.toPoint2D, Udmf.Vertex.GetRotated,
        Udmf.Vertex.GetMoved, Math.Rotate2DPoint]
      linear_combination (2 * g * h) * hlm
    · refine not_IsZeroOrCloseTo_of_cross (L := g) hg ?_ hA1
      simp only [Arr4.get, RoadFigure.Start.seed, Udmf.Vertex.toPoint2D, Udmf.Vertex.GetRotated,
        Udmf.Vertex.GetMoved, Math.Rotate2DPoint]
      linear_combination (g * g) * hlm
  · refine segment_isOk_of_cross _ 3 (2 * g * h) ?_ ?_ ?_
    · simp only [Arr4.get, cross, RoadFigure.Start.seed, Udmf.Vertex.toPoint2D, Udmf.Vertex.GetRotated,
        Udmf.Vertex.GetMoved, Math.Rotate2DPoint]
      linear_combination (2 * g * h) * hlm
    · simp only [Arr4.get, cross, RoadFigure.Start.seed, Udmf.Vertex.toPoint2D, Udmf.Vertex.GetRotated,
        Udmf.Vertex.GetMoved, Math.Rotate2DPoint]
      linear_combination (2 * g * h) * hlm
    · refine not_IsZeroOrCloseTo_of_cross (L := (2 * h)) hh2 ?_ hA2
      simp only [Arr4.get, RoadFigure.Start.seed, Udmf.Vertex.toPoint2D, Udmf.Vertex.GetRotated,
        Udmf.Vertex.GetMoved, Math.Rotate2DPoint]
      linear_combination ((2 * h) * (2 * h)) * hlm

/-! ## Total-correctness rules -/

section FigureProgress

open Udmf

set_option linter.unusedTactic false
set_option linter.unreachableTactic false
set_option linter.unusedVariables false

theorem M.wp_bind {σ α β : Type} (m : M σ α) (f : α → M σ β) (Q : β → σ → Prop) (s : σ) :
    M.wp (m >>= f) Q s ↔ M.wp m (fun a s1 => M.wp (f a) Q s1) s := by
  unfold M.wp
  rw [M.run_bind]
  generalize m s = r
  rcases r with ⟨r, s1⟩
  cases r <;> simp

theorem M.wp_pure {σ α : Type} (a : α) (Q : α → σ → Prop) (s : σ) :
    M.wp (pure a : M σ α) Q s ↔ Q a s := Iff.rfl

theorem M.wp_read {σ : Type} (Q : σ → σ → Prop) (s : σ) :
    M.wp (M.read : M σ σ) Q s ↔ Q s s := Iff.rfl

theorem M.wp_update {σ : Type} (f : σ → σ) (Q : Unit → σ → Prop) (s : σ) :
    M.wp (M.update f) Q s ↔ Q () (f s) := Iff.rfl

theorem M.wp_ite {σ α : Type} (c : Prop) [Decidable c] (m1 m2 : M σ α) (Q : α → σ → Prop)
    (s : σ) :
    M.wp (if c then m1 else m2) Q s ↔ (c → M.wp m1 Q s) ∧ (¬ c → M.wp m2 Q s) := by
  split_ifs with h <;> simp [h]

theorem M.wp_of_run {σ α : Type} {m : M σ α} {Q : α → σ → Prop} {s s1 : σ} {a : α}
    (hr : m s = (Except.ok a, s1)) (h : Q a s1) : M.wp m Q s := by
  unfold M.wp
  rw [hr]
  exact h

theorem M.run_of_wp {σ α : Type} {m : M σ α} {Q : α → σ → Prop} {s : σ} (h : M.wp m Q s) :
    ∃ a s1, m s = (Except.ok a, s1) ∧ Q a s1 := by
  unfold M.wp at h
  generalize m s = r at h
  rcases r with ⟨r, s1⟩
  cases r with
  | error e => exact absurd h id
  | ok a => exact ⟨a, s1, rfl, h⟩

namespace RoadFigure

theorem Track.init (s0 : RoadFigure) :
    Track s0 [] [] 0 s0.m_v s0.m_intersection_checker s0 :=
  ⟨fun _ h => absurd h (List.not_mem_nil _), fun _ h => absurd h (List.not_mem_nil _),
    le_refl _, le_refl _, le_refl _, le_refl _, rfl, rfl⟩

theorem wp_lastV {slot : VSlot} {Q : Nat → RoadFigure → Prop} {s0 s : RoadFigure}
    {V : List VSlot} {S : List SSlot} {k : Nat} {mv : VSlot → Vertex}
    {ck : Option IntersectionChecker} (h : Track s0 V S k mv ck s) (hm : slot ∈ V)
    (hQ : ∀ id, Q id s) : M.wp (lastV slot) Q s := by
  have hd := h.defV slot hm
  unfold M.wp lastV
  cases hs : s.m_last_ids_v slot with
  | none => rw [hs] at hd; exact absurd hd (by simp)
  | some id => exact hQ id

theorem wp_lastS {slot : SSlot} {Q : Nat → RoadFigure → Prop} {s0 s : RoadFigure}
    {V : List VSlot} {S : List SSlot} {k : Nat} {mv : VSlot → Vertex}
    {ck : Option IntersectionChecker} (h : Track s0 V S k mv ck s) (hm : slot ∈ S)
    (hQ : ∀ id, Q id s) : M.wp (lastS slot) Q s := by
  have hd := h.defS slot hm
  unfold M.wp lastS
  cases hs : s.m_last_ids_s slot with
  | none => rw [hs] at hd; exact absurd hd (by simp)
  | some id => exact hQ id

theorem wp_setV {slot : VSlot} {v : Vertex} {Q : Unit → RoadFigure → Prop} {s0 s : RoadFigure}
    {V : List VSlot} {S : List SSlot} {k : Nat} {mv : VSlot → Vertex}
    {ck : Option IntersectionChecker} (h : Track s0 V S k mv ck s)
    (hQ : ∀ s1, Track s0 V S k (Function.update mv slot v) ck s1 → Q () s1) :
    M.wp (setV slot v) Q s := by
  refine (M.wp_update _ _ _).mpr (hQ _ ?_)
  exact ⟨h.defV, h.defS, h.nv, h.nl, h.nsd, h.nsec, by rw [← h.m_v], h.checker⟩

theorem wp_setLastV {slot : VSlot} {id : Nat} {Q : Unit → RoadFigure → Prop}
    {s0 s : RoadFigure} {V : List VSlot} {S : List SSlot} {k : Nat} {mv : VSlot → Vertex}
    {ck : Option IntersectionChecker} (h : Track s0 V S k mv ck s)
    (hQ : ∀ s1, Track s0 (slot :: V) S k mv ck s1 → Q () s1) :
    M.wp (setLastV slot id) Q s := by
  refine (M.wp_update _ _ _).mpr (hQ _ ?_)
  refine ⟨?_, h.defS, h.nv, h.nl, h.nsd, h.nsec, h.m_v, h.checker⟩
  intro sl hsl
  by_cases hc : sl = slot
  · subst hc
    simp
  · rcases List.mem_cons.mp hsl with h1 | h1
    · exact absurd h1 hc
    · simpa [Function.update_noteq hc] using h.defV sl h1

theorem wp_setLastS {slot : SSlot} {id : Nat} {Q : Unit → RoadFigure → Prop}
    {s0 s : RoadFigure} {V : List VSlot} {S : List SSlot} {k : Nat} {mv : VSlot → Vertex}
    {ck : Option IntersectionChecker} (h : Track s0 V S k mv ck s)
    (hQ : ∀ s1, Track s0 V (slot :: S) k mv ck s1 → Q () s1) :
    M.wp (setLastS slot id) Q s := by
  refine (M.wp_update _ _ _).mpr (hQ _ ?_)
  refine ⟨h.defV, ?_, h.nv, h.nl, h.nsd, h.nsec, h.m_v, h.checker⟩
  intro sl hsl
  by_cases hc : sl = slot
  · subst hc
    simp
  · rcases List.mem_cons.mp hsl with h1 | h1
    · exact absurd h1 hc
    · simpa [Function.update_noteq hc] using h.defS sl h1

theorem wp_update_frame {f : RoadFigure → RoadFigure} {Q : Unit → RoadFigure → Prop}
    {s0 s : RoadFigure} {V : List VSlot} {S : List SSlot} {k : Nat} {mv : VSlot → Vertex}
    {ck : Option IntersectionChecker} (h : Track s0 V S k mv ck s)
    (hmap : (f s).m_map = s.m_map) (hv : (f s).m_last_ids_v = s.m_last_ids_v)
    (hs : (f s).m_last_ids_s = s.m_last_ids_s) (hmv : (f s).m_v = s.m_v)
    (hck : (f s).m_intersection_checker = s.m_intersection_checker)
    (hQ : ∀ s1, Track s0 V S k mv ck s1 → Q () s1) :
    M.wp (M.update f) Q s := by
  refine (M.wp_update _ _ _).mpr (hQ _ ?_)
  refine ⟨?_, ?_, ?_, ?_, ?_, ?_, ?_, ?_⟩
  · rw [hv]; exact h.defV
  · rw [hs]; exact h.defS
  · rw [hmap]; exact h.nv
  · rw [hmap]; exact h.nl
  · rw [hmap]; exact h.nsd
  · rw [hmap]; exact h.nsec
  · rw [hmv]; exact h.m_v
  · rw [hck]; exact h.checker

theorem wp_addV {v : Vertex} {Q : Nat → RoadFigure → Prop} {s0 s : RoadFigure}
    {V : List VSlot} {S : List SSlot} {k : Nat} {mv : VSlot → Vertex}
    {ck : Option IntersectionChecker} (h : Track s0 V S k mv ck s)
    (hcap : s0.m_map.vertices.length + k ≤ ID_MAX)
    (hQ : ∀ id s1, Track s0 V S (k + 1) mv ck s1 → Q id s1) :
    M.wp (addV v) Q s := by
  have hn := h.nv
  unfold M.wp addV onMap addVertex AddMapEntryT
  rw [if_neg (by omega)]
  refine hQ _ _ ⟨h.defV, h.defS, ?_, ?_, ?_, ?_, h.m_v, h.checker⟩
  · simp only [List.length_append, List.length_singleton]; omega
  · have := h.nl; show s.m_map.linedefs.length ≤ _; omega
  · have := h.nsd; show s.m_map.sidedefs.length ≤ _; omega
  · have := h.nsec; show s.m_map.sectors.length ≤ _; omega

theorem wp_addL {l : Linedef} {Q : Nat → RoadFigure → Prop} {s0 s : RoadFigure}
    {V : List VSlot} {S : List SSlot} {k : Nat} {mv : VSlot → Vertex}
    {ck : Option IntersectionChecker} (h : Track s0 V S k mv ck s)
    (hcap : s0.m_map.linedefs.length + k ≤ ID_MAX)
    (hQ : ∀ id s1, Track s0 V S (k + 1) mv ck s1 → Q id s1) :
    M.wp (addL l) Q s := by
  have hn := h.nl
  unfold M.wp addL onMap addLinedef AddMapEntryT
  rw [if_neg (by omega)]
  refine hQ _ _ ⟨h.defV, h.defS, ?_, ?_, ?_, ?_, h.m_v, h.checker⟩
  · have := h.nv; show s.m_map.vertices.length ≤ _; omega
  · simp only [List.length_append, List.length_singleton]; omega
  · have := h.nsd; show s.m_map.sidedefs.length ≤ _; omega
  · have := h.nsec; show s.m_map.sectors.length ≤ _; omega

theorem wp_addSd {sd : Sidedef} {Q : Nat → RoadFigure → Prop} {s0 s : RoadFigure}
    {V : List VSlot} {S : List SSlot} {k : Nat} {mv : VSlot → Vertex}
    {ck : Option IntersectionChecker} (h : Track s0 V S k mv ck s)
    (hcap : s0.m_map.sidedefs.length + k ≤ ID_MAX)
    (hQ : ∀ id s1, Track s0 V S (k + 1) mv ck s1 → Q id s1) :
    M.wp (addSd sd) Q s := by
  have hn := h.nsd
  unfold M.wp addSd onMap addSidedef AddMapEntryT
  rw [if_neg (by omega)]
  refine hQ _ _ ⟨h.defV, h.defS, ?_, ?_, ?_, ?_, h.m_v, h.checker⟩
  · have := h.nv; show s.m_map.vertices.length ≤ _; omega
  · have := h.nl; show s.m_map.linedefs.length ≤ _; omega
  · simp only [List.length_append, List.length_singleton]; omega
  · have := h.nsec; show s.m_map.sectors.length ≤ _; omega

theorem wp_addS {sec : Sector} {Q : Nat → RoadFigure → Prop} {s0 s : RoadFigure}
    {V : List VSlot} {S : List SSlot} {k : Nat} {mv : VSlot → Vertex}
    {ck : Option IntersectionChecker} (h : Track s0 V S k mv ck s)
    (hcap : s0.m_map.sectors.length + k ≤ ID_MAX)
    (hQ : ∀ id s1, Track s0 V S (k + 1) mv ck s1 → Q id s1) :
    M.wp (addS sec) Q s := by
  have hn := h.nsec
  unfold M.wp addS onMap addSector AddMapEntryT
  rw [if_neg (by omega)]
  refine hQ _ _ ⟨h.defV, h.defS, ?_, ?_, ?_, ?_, h.m_v, h.checker⟩
  · have := h.nv; show s.m_map.vertices.length ≤ _; omega
  · have := h.nl; show s.m_map.linedefs.length ≤ _; omega
  · have := h.nsd; show s.m_map.sidedefs.length ≤ _; omega
  · simp only [List.length_append, List.length_singleton]; omega

theorem wp_pushV {slot : VSlot} {Q : Unit → RoadFigure → Prop} {s0 s : RoadFigure}
    {V : List VSlot} {S : List SSlot} {k : Nat} {mv : VSlot → Vertex}
    {ck : Option IntersectionChecker} (h : Track s0 V S k mv ck s)
    (hcap : s0.m_map.vertices.length + k ≤ ID_MAX)
    (hQ : ∀ s1, Track s0 (slot :: V) S (k + 1) mv ck s1 → Q () s1) :
    M.wp (pushV slot) Q s := by
  unfold pushV
  simp only [M.wp_bind]
  refine (M.wp_read _ _).mpr ?_
  refine wp_addV h hcap ?_
  intro id s1 h1
  exact wp_setLastV h1 hQ

theorem wp_pushS {slot : SSlot} {Q : Unit → RoadFigure → Prop} {s0 s : RoadFigure}
    {V : List VSlot} {S : List SSlot} {k : Nat} {mv : VSlot → Vertex}
    {ck : Option IntersectionChecker} (h : Track s0 V S k mv ck s)
    (hcap : s0.m_map.sectors.length + k ≤ ID_MAX)
    (hQ : ∀ s1, Track s0 V (slot :: S) (k + 1) mv ck s1 → Q () s1) :
    M.wp (pushS slot) Q s := by
  unfold pushS
  simp only [M.wp_bind]
  refine (M.wp_read _ _).mpr ?_
  refine wp_addS h hcap ?_
  intro id s1 h1
  exact wp_setLastS h1 hQ

theorem wp_AddQuad_new {p1 p2 p3 p4 : Math.Point2D} {Q : Unit → RoadFigure → Prop}
    {s0 s : RoadFigure} {V : List VSlot} {S : List SSlot} {k : Nat} {mv : VSlot → Vertex}
    (h : Track s0 V S k mv (some {}) s)
    (hq : ∃ q, GetQuadInfo p1 p2 p3 p4 = Except.ok q)
    (hQ : ∀ ck1 s1, Track s0 V S k mv ck1 s1 → Q () s1) :
    M.wp (onChecker (IntersectionChecker.AddQuad p1 p2 p3 p4)) Q s := by
  obtain ⟨q, hq⟩ := hq
  unfold M.wp onChecker
  rw [h.checker]
  simp only [AddQuad_on_new_checker hq]
  exact hQ _ _ ⟨h.defV, h.defS, h.nv, h.nl, h.nsd, h.nsec, h.m_v, rfl⟩

attribute [irreducible] M.wp

end RoadFigure

end FigureProgress

/-! ## `Start` returns normally on a valid seed -/

section StartProgress

open Udmf

set_option linter.unusedTactic false
set_option linter.unreachableTactic false
set_option linter.unusedVariables false

namespace RoadFigure

set_option maxHeartbeats 4000000 in
theorem Start_body_wp (lm : Libm) (fig : RoadFigure)
    (hck : fig.m_intersection_checker = some {})
    (hbd : 0 ≤ fig.m_config.sizes.background_dist) (hrw : 0 ≤ fig.m_config.sizes.road_width)
    (hrsw : 0 ≤ fig.m_config.sizes.road_side_width)
    (hlm : lm.cos fig.m_angle * lm.cos fig.m_angle + lm.sin fig.m_angle * lm.sin fig.m_angle
      = 1)
    (hroom : fig.HasRoom 128) :
    M.wp (do
      let id_s_background_body ← Start.addBackground lm
      Start.addFence lm id_s_background_body
      Start.addRoadFrame lm id_s_background_body
      M.update (fun fig => { fig with m_sectors_closed := false, m_started_drawing := true }))
      (fun _ _ => True) fig := by
  obtain ⟨hr1, hr2, hr3, hr4⟩ := hroom
  have hT0 : Track fig [] [] 0 fig.m_v (some {}) fig := hck ▸ Track.init fig
  have hg : (1 : ℚ) ≤ fig.m_config.sizes.background_dist + BACKGROUND_THICKNESS := by
    unfold BACKGROUND_THICKNESS
    linarith
  have hh : (1 : ℚ) ≤ fig.m_config.sizes.background_dist + BACKGROUND_THICKNESS
      + fig.m_config.sizes.road_width / 2 + fig.m_config.sizes.road_side_width := by
    unfold BACKGROUND_THICKNESS
    linarith
  have e1 : -(fig.m_config.sizes.background_dist + BACKGROUND_THICKNESS)
      - fig.m_config.sizes.road_width / 2 - fig.m_config.sizes.road_side_width
      = -(fig.m_config.sizes.background_dist + BACKGROUND_THICKNESS
        + fig.m_config.sizes.road_width / 2 + fig.m_config.sizes.road_side_width) := by ring
  unfold Start.addBackground ExtendBackground Start.addFence ExtendFence Start.addRoadFrame
  simp only [M.wp_bind]
  repeat' (first
    | (refine wp_lastV (by assumption) (by simp) ?_; intro id)
    | (refine wp_lastS (by assumption) (by simp) ?_; intro id)
    | (refine wp_setV (by assumption) ?_; intro s1 hT)
    | (refine wp_pushV (by assumption) (by omega) ?_; intro s1 hT)
    | (refine wp_pushS (by assumption) (by omega) ?_; intro s1 hT)
    | (refine wp_addV (by assumption) (by omega) ?_; intro id s1 hT)
    | (refine wp_addS (by assumption) (by omega) ?_; intro id s1 hT)
    | (refine wp_addSd (by assumption) (by omega) ?_; intro id s1 hT)
    | (refine wp_addL (by assumption) (by omega) ?_; intro id s1 hT)
    | (refine wp_setLastV (by assumption) ?_; intro s1 hT)
    | (refine wp_setLastS (by assumption) ?_; intro s1 hT)
    | (refine (M.wp_read _ _).mpr ?_)
    | (refine (M.wp_ite _ _ _ _ _).mpr ⟨?_, ?_⟩ <;> intro hc)
    | (refine wp_update_frame (by assumption) rfl rfl rfl rfl rfl ?_; intro s1 hT)
    | (refine (M.wp_pure _ _ _).mpr ?_)
    | (simp only [M.wp_bind])
    | trivial)
  have hmv := Track.m_v (by assumption)
  refine wp_AddQuad_new (by assumption) ?_ ?_
  · simp only [hmv, Function.update_same, Function.update_noteq, ne_eq, reduceCtorEq,
      not_false_eq_true, e1]
    exact Start_quad_isOk lm fig _ _ hg hh hlm
  intro ck1 s1 hT
  repeat' (first
    | (refine wp_lastV (by assumption) (by simp) ?_; intro id)
    | (refine wp_lastS (by assumption) (by simp) ?_; intro id)
    | (refine wp_setV (by assumption) ?_; intro s1 hT)
    | (refine wp_pushV (by assumption) (by omega) ?_; intro s1 hT)
    | (refine wp_pushS (by assumption) (by omega) ?_; intro s1 hT)
    | (refine wp_addV (by assumption) (by omega) ?_; intro id s1 hT)
    | (refine wp_addS (by assumption) (by omega) ?_; intro id s1 hT)
    | (refine wp_addSd (by assumption) (by omega) ?_; intro id s1 hT)
    | (refine wp_addL (by assumption) (by omega) ?_; intro id s1 hT)
    | (refine wp_setLastV (by assumption) ?_; intro s1 hT)
    | (refine wp_setLastS (by assumption) ?_; intro s1 hT)
    | (refine (M.wp_read _ _).mpr ?_)
    | (refine (M.wp_ite _ _ _ _ _).mpr ⟨?_, ?_⟩ <;> intro hc)
    | (refine wp_update_frame (by assumption) rfl rfl rfl rfl rfl ?_; intro s1 hT)
    | (refine (M.wp_pure _ _ _).mpr ?_)
    | (simp only [M.wp_bind])
    | trivial)

end RoadFigure

end StartProgress

/-- C9 (amended): for a `NotStarted` figure with origin and floor in range, an empty
intersection checker, non-negative widths in the config, a heading at which the cosine
and sine of the C library satisfy `cos² + sin² = 1`, and room for 128 more entries in
each array of the map, `Start` returns normally if and only if the height
`m_ceilingpos - m_floorpos` is non-negative and at most `32767`, the ceiling is at most
`32767`, and the height is strictly greater than the fence height: the clearance beneath
the fence must be positive, so a height equal to the fence height is rejected. -/
theorem Start_succeeds_iff (lm : Libm) (fig : RoadFigure)
    (hN : fig.NotStarted)
    (hx : -30000 ≤ fig.m_v_null.x ∧ fig.m_v_null.x ≤ 30000)
    (hy : -30000 ≤ fig.m_v_null.y ∧ fig.m_v_null.y ≤ 30000)
    (hfl : -32767 ≤ fig.m_floorpos ∧ fig.m_floorpos ≤ 32767)
    (hck : fig.m_intersection_checker = some {})
    (hsz : 0 ≤ fig.m_config.sizes.background_dist ∧ 0 ≤ fig.m_config.sizes.road_width
      ∧ 0 ≤ fig.m_config.sizes.road_side_width)
    (hlm : lm.cos fig.m_angle * lm.cos fig.m_angle + lm.sin fig.m_angle * lm.sin fig.m_angle
      = 1)
    (hroom : fig.HasRoom 128) :
    (RoadFigure.Start lm fig).1 = Except.ok ()
      ↔ 0 ≤ fig.m_ceilingpos - fig.m_floorpos
        ∧ fig.m_ceilingpos - fig.m_floorpos ≤ 32767
        ∧ fig.m_ceilingpos ≤ 32767
        ∧ fig.m_config.sizes.fence_height < fig.m_ceilingpos - fig.m_floorpos := by
  constructor
  · intro h
    rcases Start_validate_cases fig with hok | ⟨e, he⟩
    · rw [Start_validate_ok_iff] at hok
      obtain ⟨_, _, _, _, _, _, _, _, h1, h2, h3, h4⟩ := hok
      exact ⟨by omega, h3, h2, by omega⟩
    · rw [Start_of_validate_error he] at h
      cases h
  · rintro ⟨h1, h2, h3, h4⟩
    have hval : RoadFigure.Start.validate fig = (Except.ok (), fig) := by
      rw [Start_validate_ok_iff]
      exact ⟨hN.1, hN.2, hx.1, hx.2, hy.1, hy.2, hfl.1, hfl.2, by omega, h3, h2, by omega⟩
    have hb := RoadFigure.Start_body_wp lm fig hck hsz.1 hsz.2.1 hsz.2.2 hlm hroom
    have hw : M.wp (RoadFigure.Start lm) (fun _ _ => True) fig := by
      unfold RoadFigure.Start
      rw [M.wp_bind]
      exact M.wp_of_run hval hb
    obtain ⟨a, s1, hrun, _⟩ := M.run_of_wp hw
    rw [hrun]

set_option maxRecDepth 1000000 in
theorem Start_succeeds_iff_witness :
    exampleNewFigure.NotStarted
    ∧ (-30000 ≤ exampleNewFigure.m_v_null.x ∧ exampleNewFigure.m_v_null.x ≤ 30000)
    ∧ (-30000 ≤ exampleNewFigure.m_v_null.y ∧ exampleNewFigure.m_v_null.y ≤ 30000)
    ∧ (-32767 ≤ exampleNewFigure.m_floorpos ∧ exampleNewFigure.m_floorpos ≤ 32767)
    ∧ exampleNewFigure.m_intersection_checker = some {}
    ∧ (0 ≤ exampleNewFigure.m_config.sizes.background_dist
      ∧ 0 ≤ exampleNewFigure.m_config.sizes.road_width
      ∧ 0 ≤ exampleNewFigure.m_config.sizes.road_side_width)
    ∧ exampleLibm.cos exampleNewFigure.m_angle * exampleLibm.cos exampleNewFigure.m_angle
        + exampleLibm.sin exampleNewFigure.m_angle * exampleLibm.sin exampleNewFigure.m_angle
        = 1
    ∧ exampleNewFigure.HasRoom 128
    ∧ ((RoadFigure.Start exampleLibm exampleNewFigure).1 = Except.ok ()
      ↔ 0 ≤ exampleNewFigure.m_ceilingpos - exampleNewFigure.m_floorpos
        ∧ exampleNewFigure.m_ceilingpos - exampleNewFigure.m_floorpos ≤ 32767
        ∧ exampleNewFigure.m_ceilingpos ≤ 32767
        ∧ exampleNewFigure.m_config.sizes.fence_height
          < exampleNewFigure.m_ceilingpos - exampleNewFigure.m_floorpos) :=
  ⟨by decide!, by decide!, by decide!, by decide!, rfl, by decide!, by decide!, by decide!,
    Start_succeeds_iff exampleLibm exampleNewFigure (by decide!) (by decide!) (by decide!)
      (by decide!) rfl (by decide!) (by decide!) (by decide!)⟩

/-! ## The guards of `Arc`, `SlopeModifier` and `Finish` -/

theorem RoadFigure.new_total_width (config : RoadConfig) (start_data : StartModifierData)
    (map : Udmf.Map) (ck : Option IntersectionChecker) :
    (RoadFigure.new config start_data map ck).m_total_width
      = 2 * (16 + config.sizes.background_dist + config.sizes.road_side_width)
        + config.sizes.road_width := rfl

theorem RoadFigure.new_config (config : RoadConfig) (start_data : StartModifierData)
    (map : Udmf.Map) (ck : Option IntersectionChecker) :
    (RoadFigure.new config start_data map ck).m_config = config := rfl

theorem Arc_guard_cases (lm : Libm) (fig : RoadFigure) (arc : ArcData)
    (h : fig.m_started_drawing = false ∨ fig.m_finished_drawing = true
      ∨ arc.curve < fig.m_total_width / 2 + 1 ∨ 65535 < arc.curve ∨ arc.divider < 2
      ∨ 2 * Math.PI < |arc.angle| ∨ |arc.angle| < 1 / 100000) :
    ∃ e, RoadFigure.Arc lm arc fig = (Except.error e, fig) := by
  by_cases h1 : fig.m_started_drawing = false ∨ fig.m_finished_drawing = true
  · exact ⟨_, Arc_error_of_not_drawing arc h1⟩
  have hs : fig.m_started_drawing = true := by
    cases hs : fig.m_started_drawing
    · exact absurd (Or.inl hs) h1
    · rfl
  have hf : fig.m_finished_drawing = false := by
    cases hf : fig.m_finished_drawing
    · rfl
    · exact absurd (Or.inr hf) h1
  simp only [RoadFigure.Arc, M.run_bind, M.run_read, hs, hf]
  by_cases h2 : arc.curve < fig.m_total_width / 2 + 1
  · exact ⟨Err.arcRadiusTooSmall, by simp [h2, M.run_fail]⟩
  by_cases h3 : arc.curve > 65535
  · exact ⟨Err.arcRadiusTooBig, by simp [h2, h3, M.run_fail]⟩
  by_cases h4 : arc.divider < 2
  · exact ⟨Err.badArcDivider, by simp [h2, h3, h4, M.run_fail]⟩
  have h5 : (2 * Math.PI < if 0 < arc.angle then arc.angle else -arc.angle)
      ∨ Math.IsZeroOrCloseTo arc.angle = true := by
    rcases h with h | h | h | h | h | h | h
    · exact absurd (Or.inl h) h1
    · exact absurd (Or.inr h) h1
    · exact absurd h h2
    · exact absurd h h3
    · exact absurd h h4
    · left
      split_ifs with hp
      · rw [abs_of_pos hp] at h
        linarith
      · rw [abs_of_nonpos (not_lt.mp hp)] at h
        linarith
    · right
      rw [IsZeroOrCloseTo_iff]
      exact abs_lt.mp h
  exact ⟨Err.badArcAngle, by simp [h2, h3, h4, h5, M.run_fail]⟩

/-- C12: an `Arc` whose radius is below half the total corridor width plus one, where
the total corridor width of a figure is `2 * (16 + background_dist + road_side_width) +
road_width` (set by the constructor), fails for every angle and every step count and
returns the figure unchanged, so the map and the intersection checker are as before. -/
theorem Arc_rejects_small_radius (lm : Libm) (fig : RoadFigure) (arc : ArcData)
    (hw : fig.m_total_width
      = 2 * (16 + fig.m_config.sizes.background_dist + fig.m_config.sizes.road_side_width)
        + fig.m_config.sizes.road_width)
    (h : arc.curve
      < (2 * (16 + fig.m_config.sizes.background_dist + fig.m_config.sizes.road_side_width)
        + fig.m_config.sizes.road_width) / 2 + 1) :
    (∃ e, (RoadFigure.Arc lm arc fig).1 = Except.error e)
    ∧ (RoadFigure.Arc lm arc fig).2 = fig
    ∧ (RoadFigure.Arc lm arc fig).2.m_map = fig.m_map
    ∧ (RoadFigure.Arc lm arc fig).2.m_intersection_checker = fig.m_intersection_checker := by
  obtain ⟨e, he⟩ := Arc_guard_cases lm fig arc (Or.inr (Or.inr (Or.inl (hw ▸ h))))
  rw [he]
  exact ⟨⟨e, rfl⟩, rfl, rfl, rfl⟩

set_option maxRecDepth 1000000 in
theorem Arc_rejects_small_radius_witness :
    exampleDrawingFigure.m_total_width = 928
    ∧ (464 : ℚ) < (2 * (16 + exampleDrawingFigure.m_config.sizes.background_dist
        + exampleDrawingFigure.m_config.sizes.road_side_width)
        + exampleDrawingFigure.m_config.sizes.road_width) / 2 + 1
    ∧ (∃ e, (RoadFigure.Arc exampleLibm { curve := 464, angle := 1, divider := 8 }
        exampleDrawingFigure).1 = Except.error e)
    ∧ (RoadFigure.Arc exampleLibm { curve := 464, angle := 1, divider := 8 }
        exampleDrawingFigure).2 = exampleDrawingFigure :=
  ⟨by decide!, by decide!,
    (Arc_rejects_small_radius exampleLibm exampleDrawingFigure
      { curve := 464, angle := 1, divider := 8 } (by decide!) (by decide!)).1,
    (Arc_rejects_small_radius exampleLibm exampleDrawingFigure
      { curve := 464, angle := 1, divider := 8 } (by decide!) (by decide!)).2.1⟩

/-- C13: for a figure in the `Drawing` state, `Arc` fails when the radius is above
`65535`, the step count is below `2`, the absolute value of the angle is above `2 * PI`
or below `1e-5`; the figure is returned unchanged, so `StartEncirclingQuad` was not
called and nothing was appended to the map. -/
theorem Arc_rejects_bad_parameters (lm : Libm) (fig : RoadFigure) (arc : ArcData)
    (_hD : fig.Drawing)
    (h : 65535 < arc.curve ∨ arc.divider < 2 ∨ 2 * Math.PI < |arc.angle|
      ∨ |arc.angle| < 1 / 100000) :
    (∃ e, (RoadFigure.Arc lm arc fig).1 = Except.error e)
    ∧ (RoadFigure.Arc lm arc fig).2 = fig
    ∧ (RoadFigure.Arc lm arc fig).2.m_map = fig.m_map
    ∧ (RoadFigure.Arc lm arc fig).2.m_intersection_checker = fig.m_intersection_checker := by
  obtain ⟨e, he⟩ := Arc_guard_cases lm fig arc (Or.inr (Or.inr (Or.inr h)))
  rw [he]
  exact ⟨⟨e, rfl⟩, rfl, rfl, rfl⟩

set_option maxRecDepth 1000000 in
theorem Arc_rejects_bad_parameters_witness :
    exampleDrawingFigure.Drawing
    ∧ (∃ e, (RoadFigure.Arc exampleLibm { curve := 70000, angle := 1, divider := 8 }
        exampleDrawingFigure).1 = Except.error e)
    ∧ (RoadFigure.Arc exampleLibm { curve := 1000, angle := 1, divider := 1 }
        exampleDrawingFigure).2 = exampleDrawingFigure
    ∧ (RoadFigure.Arc exampleLibm { curve := 1000, angle := 7, divider := 8 }
        exampleDrawingFigure).2 = exampleDrawingFigure
    ∧ (RoadFigure.Arc exampleLibm { curve := 1000, angle := 0, divider := 8 }
        exampleDrawingFigure).2 = exampleDrawingFigure :=
  ⟨by decide!,
    (Arc_rejects_bad_parameters exampleLibm exampleDrawingFigure
      { curve := 70000, angle := 1, divider := 8 } (by decide!) (Or.inl (by decide!))).1,
    (Arc_rejects_bad_parameters exampleLibm exampleDrawingFigure
      { curve := 1000, angle := 1, divider := 1 } (by decide!)
      (Or.inr (Or.inl (by decide!)))).2.1,
    (Arc_rejects_bad_parameters exampleLibm exampleDrawingFigure
      { curve := 1000, angle := 7, divider := 8 } (by decide!)
      (Or.inr (Or.inr (Or.inl (by decide!))))).2.1,
    (Arc_rejects_bad_parameters exampleLibm exampleDrawingFigure
      { curve := 1000, angle := 0, divider := 8 } (by decide!)
      (Or.inr (Or.inr (Or.inr (by decide!))))).2.1⟩

/-- C16: `Finish` fails whenever the pending slope tangent is not close to zero
(`|tangent| ≥ 1e-5`); the figure is returned unchanged, so nothing is appended to the
map and a figure in the `Drawing` state stays in it. -/
theorem Finish_rejects_pending_slope (lm : Libm) (fig : RoadFigure)
    (h : 1 / 100000 ≤ |fig.m_slope_modifier.tangent|) :
    (∃ e, (RoadFigure.Finish lm fig).1 = Except.error e)
    ∧ (RoadFigure.Finish lm fig).2 = fig
    ∧ (RoadFigure.Finish lm fig).2.m_map = fig.m_map
    ∧ (fig.Drawing → (RoadFigure.Finish lm fig).2.Drawing) := by
  have hz : ¬ Math.IsZeroOrCloseTo fig.m_slope_modifier.tangent = true := by
    rw [IsZeroOrCloseTo_iff]
    intro hc
    exact absurd (abs_lt.mpr hc) (not_lt.mpr h)
  have key : ∃ e, RoadFigure.Finish lm fig = (Except.error e, fig) := by
    rcases Finish_validate_cases fig with hok | ⟨e, he⟩
    · exfalso
      simp only [RoadFigure.Finish.validate, M.run_bind, M.run_read] at hok
      split_ifs at hok with h1 h2 h3 <;> first
        | (simp [M.run_fail] at hok)
        | (simp [hz] at h3)
    · exact ⟨e, Finish_of_validate_error he⟩
  obtain ⟨e, he⟩ := key
  rw [he]
  exact ⟨⟨e, rfl⟩, rfl, rfl, fun hD => hD⟩

/-! ## The appends of the map -/

theorem Udmf.AddMapEntryT_eq {α : Type} (entries : List α) (new_entry : α) :
    Udmf.AddMapEntryT entries new_entry
      = if 2 ^ 32 - 2 < entries.length then Except.error Err.tooManyElements
        else Except.ok (entries.length, entries ++ [new_entry]) := rfl

theorem Udmf.AddMapEntryT_ne_invalid {α : Type} (entries : List α) (new_entry : α)
    (rest : List α) :
    Udmf.AddMapEntryT entries new_entry ≠ Except.ok (Udmf.ID_INVALID, rest) := by
  unfold Udmf.AddMapEntryT Udmf.ID_MAX Udmf.ID_INVALID
  split_ifs with h
  · simp
  · intro hc
    injection hc with hc
    injection hc with h1 h2
    omega

/-- C20: each of the four appends of the map (vertex, linedef, sidedef, sector) fails,
leaving the map as it was, exactly when its array already holds more than `2^32 - 2`
entries; otherwise it returns the previous size of the array, the array becomes the old
one followed by the new entry, every other field of the map (the three other arrays, the
textures and the player start) is unchanged, and the returned id is never the invalid
sentinel `2^32 - 1`. -/
theorem append_is_dense (map : Udmf.Map) (v : Udmf.Vertex) (l : Udmf.Linedef)
    (sd : Udmf.Sidedef) (s : Udmf.Sector) :
    Udmf.ID_MAX = 2 ^ 32 - 2 ∧ Udmf.ID_INVALID = 2 ^ 32 - 1
    ∧ Udmf.addVertex v map
        = (if 2 ^ 32 - 2 < map.vertices.length then (Except.error Err.tooManyElements, map)
           else (Except.ok map.vertices.length,
                 { map with vertices := map.vertices ++ [v] }))
    ∧ Udmf.addLinedef l map
        = (if 2 ^ 32 - 2 < map.linedefs.length then (Except.error Err.tooManyElements, map)
           else (Except.ok map.linedefs.length,
                 { map with linedefs := map.linedefs ++ [l] }))
    ∧ Udmf.addSidedef sd map
        = (if 2 ^ 32 - 2 < map.sidedefs.length then (Except.error Err.tooManyElements, map)
           else (Except.ok map.sidedefs.length,
                 { map with sidedefs := map.sidedefs ++ [sd] }))
    ∧ Udmf.addSector s map
        = (if 2 ^ 32 - 2 < map.sectors.length then (Except.error Err.tooManyElements, map)
           else (Except.ok map.sectors.length,
                 { map with sectors := map.sectors ++ [s] }))
    ∧ (Udmf.addVertex v map).1 ≠ Except.ok Udmf.ID_INVALID
    ∧ (Udmf.addLinedef l map).1 ≠ Except.ok Udmf.ID_INVALID
    ∧ (Udmf.addSidedef sd map).1 ≠ Except.ok Udmf.ID_INVALID
    ∧ (Udmf.addSector s map).1 ≠ Except.ok Udmf.ID_INVALID := by
  refine ⟨rfl, rfl, ?_, ?_, ?_, ?_, ?_, ?_, ?_, ?_⟩
  · unfold Udmf.addVertex
    rw [Udmf.AddMapEntryT_eq]
    split_ifs <;> rfl
  · unfold Udmf.addLinedef
    rw [Udmf.AddMapEntryT_eq]
    split_ifs <;> rfl
  · unfold Udmf.addSidedef
    rw [Udmf.AddMapEntryT_eq]
    split_ifs <;> rfl
  · unfold Udmf.addSector
    rw [Udmf.AddMapEntryT_eq]
    split_ifs <;> rfl
  · have h := Udmf.AddMapEntryT_ne_invalid map.vertices v
    unfold Udmf.addVertex
    cases hr : Udmf.AddMapEntryT map.vertices v with
    | error e => simp
    | ok p =>
      obtain ⟨id, rest⟩ := p
      intro hc
      simp only [Except.ok.injEq] at hc
      exact h rest (by rw [hr, hc])
  · have h := Udmf.AddMapEntryT_ne_invalid map.linedefs l
    unfold Udmf.addLinedef
    cases hr : Udmf.AddMapEntryT map.linedefs l with
    | error e => simp
    | ok p =>
      obtain ⟨id, rest⟩ := p
      intro hc
      simp only [Except.ok.injEq] at hc
      exact h rest (by rw [hr, hc])
  · have h := Udmf.AddMapEntryT_ne_invalid map.sidedefs sd
    unfold Udmf.addSidedef
    cases hr : Udmf.AddMapEntryT map.sidedefs sd with
    | error e => simp
    | ok p =>
      obtain ⟨id, rest⟩ := p
      intro hc
      simp only [Except.ok.injEq] at hc
      exact h rest (by rw [hr, hc])
  · have h := Udmf.AddMapEntryT_ne_invalid map.sectors s
    unfold Udmf.addSector
    cases hr : Udmf.AddMapEntryT map.sectors s with
    | error e => simp
    | ok p =>
      obtain ⟨id, rest⟩ := p
      intro hc
      simp only [Except.ok.injEq] at hc
      exact h rest (by rw [hr, hc])

/-! ## Evaluations of the reference scenarios -/

set_option maxRecDepth 1000000 in
/-- C11: the line of length `2`, inside the range `[1, 32767]` that the guard of `Line`
accepts, on the flat figure just started from the default configuration (with an empty
intersection checker or with none) is refused by `ExtendMark` with the error "too small
mark to draw" on the branch that the source marks as "should not happen". -/
theorem Line_of_length_two_is_refused :
    exampleStartedFigure.Drawing
    ∧ exampleStartedFigure.m_slope_modifier.tangent = 0
    ∧ (RoadFigure.Line exampleLibm { length := 2 } exampleStartedFigure).1
        = Except.error Err.markTooSmall
    ∧ exampleUncheckedFigure.Drawing
    ∧ exampleUncheckedFigure.m_intersection_checker = none
    ∧ (RoadFigure.Line exampleLibm { length := 2 } exampleUncheckedFigure).1
        = Except.error Err.markTooSmall := by
  decide!

set_option maxRecDepth 1000000 in
/-- C14: the slope modifier with tangent `1/4` given as the first command after `Start`,
before any line or arc, is accepted: the check "slope in the beginning of a figure is not
allowed" reads the tangent stored in the figure, which is still zero, and not the tangent
of the command. -/
theorem SlopeModifier_first_command_is_accepted :
    exampleStartedFigure.Drawing
    ∧ exampleStartedFigure.m_have_shapes = false
    ∧ (RoadFigure.SlopeModifier exampleLibm { tangent := 1 / 4 } exampleStartedFigure).1
        = Except.ok ()
    ∧ (RoadFigure.SlopeModifier exampleLibm { tangent := 1 / 4 }
        exampleStartedFigure).2.m_slope_modifier.tangent = 1 / 4 := by
  decide!

set_option maxRecDepth 1000000 in
/-- C15: the slope modifier with tangent `3/4`, above the bound `0.5`, on the flat figure
that has drawn a line is accepted and the pending tangent becomes `3/4`: the check "must be
0.5 or less" reads the tangent stored in the figure and not the tangent of the command. -/
theorem SlopeModifier_steep_tangent_is_accepted :
    exampleDrawingFigure.Drawing
    ∧ exampleDrawingFigure.m_slope_modifier.tangent = 0
    ∧ (RoadFigure.SlopeModifier exampleLibm { tangent := 3 / 4 } exampleDrawingFigure).1
        = Except.ok ()
    ∧ (RoadFigure.SlopeModifier exampleLibm { tangent := 3 / 4 }
        exampleDrawingFigure).2.m_slope_modifier.tangent = 3 / 4 := by
  decide!

set_option maxRecDepth 1000000 in
/-- C18, refuted as stated: in the scenario of `exampleDashRoad` (default configuration,
start at `(0,0)` with heading `0`, floor `0`, height `1024`, mark phase `0`, then a line of
length `2000`) the map does not have exactly two road-mark sectors, and a third dash
begins at the path distance `1536`. -/
theorem dash_scenario_has_not_two_marks :
    ¬ ((GetGeneratedRoad exampleLibm exampleDashRoad defaultRoadConfig).2.markSectorCount = 2
      ∧ (GetGeneratedRoad exampleLibm exampleDashRoad defaultRoadConfig).2.xsOnLine 8
          = [0, 256, 768, 1024]) := by
  decide!

set_option maxRecDepth 1000000 in
/-- C18, amended: in the scenario of `exampleDashRoad` the generation succeeds, the map has
exactly three road-mark sectors, and the mark vertices on both rails of the mark
(`y = 8` and `y = -8`) are at the path distances `0, 256, 768, 1024, 1536, 1792`: three
full dashes `[0,256)`, `[768,1024)` and `[1536,1792)` of the period `768`, none beyond
`2000`. -/
theorem dash_scenario_has_three_marks :
    (GetGeneratedRoad exampleLibm exampleDashRoad defaultRoadConfig).1 = Except.ok ()
    ∧ defaultRoadConfig.sizes.road_mark_length = 256
    ∧ defaultRoadConfig.sizes.road_mark_gap = 512
    ∧ (GetGeneratedRoad exampleLibm exampleDashRoad defaultRoadConfig).2.markSectorCount = 3
    ∧ (GetGeneratedRoad exampleLibm exampleDashRoad defaultRoadConfig).2.xsOnLine 8
        = [0, 256, 768, 1024, 1536, 1792]
    ∧ (GetGeneratedRoad exampleLibm exampleDashRoad defaultRoadConfig).2.xsOnLine (-8)
        = [0, 256, 768, 1024, 1536, 1792] := by
  decide!

set_option maxRecDepth 1000000 in
/-- C19, refuted as stated: for the accepted list `exampleTwoRestarts` (a restart at
`(0,0)`, a restart at `(100,200)`, then a line) the player start of the map is at
`(100,200)`, the origin of the second restart, not at the origin of the first. -/
theorem player_start_is_not_first_restart :
    (GetGeneratedRoad exampleLibm exampleTwoRestarts defaultRoadConfig).1 = Except.ok ()
    ∧ (GetGeneratedRoad exampleLibm exampleTwoRestarts defaultRoadConfig).2.have_player_start
        = true
    ∧ (GetGeneratedRoad exampleLibm exampleTwoRestarts defaultRoadConfig).2.player_start_info
        = { x := 100, y := 200, deg_angle := 0 }
    ∧ (GetGeneratedRoad exampleLibm exampleTwoRestarts defaultRoadConfig).2.player_start_info
        ≠ { x := 0, y := 0, deg_angle := 0 } := by
  decide!

/-! ## Members that the operations of a figure do not write -/

section FigureFrame

open Udmf

theorem M.pres_bind {σ α β : Type} {R : σ → σ → Prop} [IsTrans σ R] {m : M σ α}
    {f : α → M σ β} (hm : M.pres R m) (hf : ∀ a, M.pres R (f a)) : M.pres R (m >>= f) := by
  refine ⟨fun s => ?_⟩
  rw [M.run_bind]
  have h1 := hm.run s
  rcases hr : m s with ⟨r, s1⟩
  rw [hr] at h1
  cases r with
  | error e => exact h1
  | ok a => exact IsTrans.trans _ _ _ h1 ((hf a).run s1)

theorem M.pres_pure {σ α : Type} {R : σ → σ → Prop} [IsRefl σ R] (a : α) :
    M.pres R (pure a : M σ α) := ⟨fun s => IsRefl.refl s⟩

theorem M.pres_fail {σ α : Type} {R : σ → σ → Prop} [IsRefl σ R] (e : Err) :
    M.pres R (M.fail e : M σ α) := ⟨fun s => IsRefl.refl s⟩

theorem M.pres_read {σ : Type} {R : σ → σ → Prop} [IsRefl σ R] :
    M.pres R (M.read : M σ σ) := ⟨fun s => IsRefl.refl s⟩

theorem M.pres_update {σ : Type} {R : σ → σ → Prop} {g : σ → σ} (h : ∀ s, R s (g s)) :
    M.pres R (M.update g) := ⟨fun s => h s⟩

theorem M.pres_ite {σ α : Type} {R : σ → σ → Prop} (c : Prop) [Decidable c] {m1 m2 : M σ α}
    (h1 : M.pres R m1) (h2 : M.pres R m2) : M.pres R (if c then m1 else m2) := by
  split_ifs
  · exact h1
  · exact h2

theorem M.pres_mono {σ α : Type} {R R1 : σ → σ → Prop} {m : M σ α}
    (h : ∀ s s1, R s s1 → R1 s s1) (hm : M.pres R m) : M.pres R1 m :=
  ⟨fun s => h _ _ (hm.run s)⟩

theorem M.pres_forEach {σ α : Type} {R : σ → σ → Prop} [IsRefl σ R] [IsTrans σ R]
    {f : α → M σ Unit} (hf : ∀ a, M.pres R (f a)) (l : List α) :
    M.pres R (RoadFigure.forEach f l) := by
  induction l with
  | nil => exact M.pres_pure _
  | cons a rest ih => exact M.pres_bind (hf a) (fun _ => ih)

namespace RoadFigure

instance instIsReflFrame : IsRefl RoadFigure Frame := ⟨fun _ => ⟨rfl, rfl, rfl, rfl⟩⟩

instance instIsTransFrame : IsTrans RoadFigure Frame :=
  ⟨fun _ _ _ h1 h2 => ⟨h2.cfg.trans h1.cfg, h2.coord.trans h1.coord,
    h2.have_player_start.trans h1.have_player_start,
    h2.player_start_info.trans h1.player_start_info⟩⟩

instance instIsReflStay : IsRefl RoadFigure Stay := ⟨fun _ => ⟨rfl, rfl, rfl⟩⟩

instance instIsTransStay : IsTrans RoadFigure Stay :=
  ⟨fun _ _ _ h1 h2 => ⟨h2.cfg.trans h1.cfg,
    h2.have_player_start.trans h1.have_player_start,
    h2.player_start_info.trans h1.player_start_info⟩⟩

theorem Frame.stay {s s1 : RoadFigure} (h : Frame s s1) : Stay s s1 :=
  ⟨h.cfg, h.have_player_start, h.player_start_info⟩

theorem frame_addV {v : Vertex} : M.pres Frame (addV v) := by
  refine ⟨fun s => ?_⟩
  unfold addV onMap addVertex AddMapEntryT
  dsimp only
  split_ifs <;> exact ⟨rfl, rfl, rfl, rfl⟩

theorem frame_addSd {sd : Sidedef} : M.pres Frame (addSd sd) := by
  refine ⟨fun s => ?_⟩
  unfold addSd onMap addSidedef AddMapEntryT
  dsimp only
  split_ifs <;> exact ⟨rfl, rfl, rfl, rfl⟩

theorem frame_addL {l : Linedef} : M.pres Frame (addL l) := by
  refine ⟨fun s => ?_⟩
  unfold addL onMap addLinedef AddMapEntryT
  dsimp only
  split_ifs <;> exact ⟨rfl, rfl, rfl, rfl⟩

theorem frame_addS {sec : Sector} : M.pres Frame (addS sec) := by
  refine ⟨fun s => ?_⟩
  unfold addS onMap addSector AddMapEntryT
  dsimp only
  split_ifs <;> exact ⟨rfl, rfl, rfl, rfl⟩

theorem frame_lastV {slot : VSlot} : M.pres Frame (lastV slot) := by
  refine ⟨fun s => ?_⟩
  unfold lastV
  split <;> exact ⟨rfl, rfl, rfl, rfl⟩

theorem frame_lastS {slot : SSlot} : M.pres Frame (lastS slot) := by
  refine ⟨fun s => ?_⟩
  unfold lastS
  split <;> exact ⟨rfl, rfl, rfl, rfl⟩

theorem frame_setV {slot : VSlot} {value : Vertex} : M.pres Frame (setV slot value) :=
  ⟨fun _ => ⟨rfl, rfl, rfl, rfl⟩⟩

theorem frame_setLastV {slot : VSlot} {id : Nat} : M.pres Frame (setLastV slot id) :=
  ⟨fun _ => ⟨rfl, rfl, rfl, rfl⟩⟩

theorem frame_setLastS {slot : SSlot} {id : Nat} : M.pres Frame (setLastS slot id) :=
  ⟨fun _ => ⟨rfl, rfl, rfl, rfl⟩⟩

theorem frame_SetNullVertex {v : Vertex} : M.pres Frame (SetNullVertex v) :=
  ⟨fun _ => ⟨rfl, rfl, rfl, rfl⟩⟩

theorem frame_pushMarkIdsPrev {dist : ℚ} {id1 id2 : Nat} :
    M.pres Frame (pushMarkIdsPrev dist id1 id2) :=
  ⟨fun _ => ⟨rfl, rfl, rfl, rfl⟩⟩

theorem frame_onChecker {m : M IntersectionChecker Unit} : M.pres Frame (onChecker m) := by
  refine ⟨fun s => ?_⟩
  unfold onChecker
  split <;> exact ⟨rfl, rfl, rfl, rfl⟩

theorem frame_vertexAt {id : Nat} : M.pres Frame (vertexAt id) := by
  refine ⟨fun s => ?_⟩
  unfold vertexAt
  split <;> exact ⟨rfl, rfl, rfl, rfl⟩

theorem frame_prevSectorId {prev_sectors_ids : SSlot → Option Nat} {slot : SSlot} :
    M.pres Frame (prevSectorId prev_sectors_ids slot) := by
  unfold prevSectorId
  cases prev_sectors_ids slot with
  | none => exact M.pres_fail _
  | some id => exact M.pres_pure _

theorem frame_modifySectorAt {id : Nat} {f : Sector → Sector} :
    M.pres Frame (modifySectorAt id f) := by
  refine ⟨fun s => ?_⟩
  unfold modifySectorAt
  split <;> exact ⟨rfl, rfl, rfl, rfl⟩

theorem frame_modifyVertexAt {id : Nat} {f : Vertex → Vertex} :
    M.pres Frame (modifyVertexAt id f) := by
  refine ⟨fun s => ?_⟩
  unfold modifyVertexAt
  split <;> exact ⟨rfl, rfl, rfl, rfl⟩

theorem frame_pushV {slot : VSlot} : M.pres Frame (pushV slot) :=
  M.pres_bind M.pres_read (fun _ => M.pres_bind frame_addV (fun _ => frame_setLastV))

theorem frame_pushS {slot : SSlot} : M.pres Frame (pushS slot) :=
  M.pres_bind M.pres_read (fun _ => M.pres_bind frame_addS (fun _ => frame_setLastS))

end RoadFigure

end FigureFrame

section FigureFrameBlocks

set_option linter.unreachableTactic false
set_option linter.unusedTactic false

open Udmf

namespace RoadFigure

theorem ExtendBackground_frame {a b c d : Vertex} : M.pres Frame (ExtendBackground a b c d) := by
  unfold ExtendBackground
  repeat' first
    | (with_reducible first
        | exact frame_addV | exact frame_addSd | exact frame_addL | exact frame_addS
        | exact frame_lastV | exact frame_lastS | exact frame_setV | exact frame_setLastV
        | exact frame_setLastS | exact frame_SetNullVertex | exact frame_pushMarkIdsPrev
        | exact frame_onChecker | exact frame_vertexAt | exact frame_prevSectorId
        | exact frame_modifySectorAt | exact frame_modifyVertexAt | exact frame_pushV
        | exact frame_pushS | exact M.pres_pure _ | exact M.pres_fail _ | exact M.pres_read
        | exact M.pres_update (fun _ => ⟨rfl, rfl, rfl, rfl⟩) | refine M.pres_bind ?_ ?_
        | refine M.pres_ite _ ?_ ?_ | refine M.pres_forEach ?_ _ | intro _)
    | dsimp only
    | split

theorem ExtendFence_frame {a b c d : Vertex} : M.pres Frame (ExtendFence a b c d) := by
  unfold ExtendFence
  repeat' first
    | (with_reducible first
        | exact frame_addV | exact frame_addSd | exact frame_addL | exact frame_addS
        | exact frame_lastV | exact frame_lastS | exact frame_setV | exact frame_setLastV
        | exact frame_setLastS | exact frame_SetNullVertex | exact frame_pushMarkIdsPrev
        | exact frame_onChecker | exact frame_vertexAt | exact frame_prevSectorId
        | exact frame_modifySectorAt | exact frame_modifyVertexAt | exact frame_pushV
        | exact frame_pushS | exact M.pres_pure _ | exact M.pres_fail _ | exact M.pres_read
        | exact M.pres_update (fun _ => ⟨rfl, rfl, rfl, rfl⟩) | refine M.pres_bind ?_ ?_
        | refine M.pres_ite _ ?_ ?_ | refine M.pres_forEach ?_ _ | intro _)
    | dsimp only
    | split

theorem ExtendBody_frame {a b c d : Vertex} : M.pres Frame (ExtendBody a b c d) := by
  unfold ExtendBody
  repeat' first
    | (with_reducible first
        | exact frame_addV | exact frame_addSd | exact frame_addL | exact frame_addS
        | exact frame_lastV | exact frame_lastS | exact frame_setV | exact frame_setLastV
        | exact frame_setLastS | exact frame_SetNullVertex | exact frame_pushMarkIdsPrev
        | exact frame_onChecker | exact frame_vertexAt | exact frame_prevSectorId
        | exact frame_modifySectorAt | exact frame_modifyVertexAt | exact frame_pushV
        | exact frame_pushS | exact M.pres_pure _ | exact M.pres_fail _ | exact M.pres_read
        | exact M.pres_update (fun _ => ⟨rfl, rfl, rfl, rfl⟩) | refine M.pres_bind ?_ ?_
        | refine M.pres_ite _ ?_ ?_ | refine M.pres_forEach ?_ _ | intro _)
    | dsimp only
    | split

theorem markVertexIsHere_frame {lm : Libm} {slot : VSlot} :
    M.pres Frame (markVertexIsHere lm slot) := by
  unfold markVertexIsHere
  repeat' first
    | (with_reducible first
        | exact frame_addV | exact frame_addSd | exact frame_addL | exact frame_addS
        | exact frame_lastV | exact frame_lastS | exact frame_setV | exact frame_setLastV
        | exact frame_setLastS | exact frame_SetNullVertex | exact frame_pushMarkIdsPrev
        | exact frame_onChecker | exact frame_vertexAt | exact frame_prevSectorId
        | exact frame_modifySectorAt | exact frame_modifyVertexAt | exact frame_pushV
        | exact frame_pushS | exact M.pres_pure _ | exact M.pres_fail _ | exact M.pres_read
        | exact M.pres_update (fun _ => ⟨rfl, rfl, rfl, rfl⟩) | refine M.pres_bind ?_ ?_
        | refine M.pres_ite _ ?_ ?_ | refine M.pres_forEach ?_ _ | intro _)
    | dsimp only
    | split

theorem slopeSector_frame {height_diff : Int} {have_mark at_mark_start had_mark : Bool}
    {slot : SSlot} :
    M.pres Frame (CloseSectors.slopeSector height_diff have_mark at_mark_start had_mark slot) := by
  unfold CloseSectors.slopeSector
  repeat' first
    | (with_reducible first
        | exact frame_addV | exact frame_addSd | exact frame_addL | exact frame_addS
        | exact frame_lastV | exact frame_lastS | exact frame_setV | exact frame_setLastV
        | exact frame_setLastS | exact frame_SetNullVertex | exact frame_pushMarkIdsPrev
        | exact frame_onChecker | exact frame_vertexAt | exact frame_prevSectorId
        | exact frame_modifySectorAt | exact frame_modifyVertexAt | exact frame_pushV
        | exact frame_pushS | exact M.pres_pure _ | exact M.pres_fail _ | exact M.pres_read
        | exact M.pres_update (fun _ => ⟨rfl, rfl, rfl, rfl⟩) | refine M.pres_bind ?_ ?_
        | refine M.pres_ite _ ?_ ?_ | refine M.pres_forEach ?_ _ | intro _)
    | dsimp only
    | split

theorem applySlope_frame {lm : Libm} {have_mark at_mark_start : Bool} :
    M.pres Frame (CloseSectors.applySlope lm have_mark at_mark_start) := by
  unfold CloseSectors.applySlope
  repeat' first
    | (with_reducible first
        | exact slopeSector_frame | exact frame_addV | exact frame_addSd | exact frame_addL
        | exact frame_addS | exact frame_lastV | exact frame_lastS | exact frame_setV
        | exact frame_setLastV | exact frame_setLastS | exact frame_SetNullVertex
        | exact frame_pushMarkIdsPrev | exact frame_onChecker | exact frame_vertexAt
        | exact frame_prevSectorId | exact frame_modifySectorAt | exact frame_modifyVertexAt
        | exact frame_pushV | exact frame_pushS | exact M.pres_pure _ | exact M.pres_fail _
        | exact M.pres_read | exact M.pres_update (fun _ => ⟨rfl, rfl, rfl, rfl⟩)
        | refine M.pres_bind ?_ ?_ | refine M.pres_ite _ ?_ ?_ | refine M.pres_forEach ?_ _
        | intro _)
    | dsimp only
    | split

theorem recordSeamMarkVertices_frame {lm : Libm} :
    M.pres Frame (CloseSectors.recordSeamMarkVertices lm) := by
  unfold CloseSectors.recordSeamMarkVertices
  repeat' first
    | (with_reducible first
        | exact frame_addV | exact frame_addSd | exact frame_addL | exact frame_addS
        | exact frame_lastV | exact frame_lastS | exact frame_setV | exact frame_setLastV
        | exact frame_setLastS | exact frame_SetNullVertex | exact frame_pushMarkIdsPrev
        | exact frame_onChecker | exact frame_vertexAt | exact frame_prevSectorId
        | exact frame_modifySectorAt | exact frame_modifyVertexAt | exact frame_pushV
        | exact frame_pushS | exact M.pres_pure _ | exact M.pres_fail _ | exact M.pres_read
        | exact M.pres_update (fun _ => ⟨rfl, rfl, rfl, rfl⟩) | refine M.pres_bind ?_ ?_
        | refine M.pres_ite _ ?_ ?_ | refine M.pres_forEach ?_ _ | intro _)
    | dsimp only
    | split

theorem snapMarkVertices_frame {have_mark : Bool} {floorpos_prev : Int}
    {it : ℚ × (Nat × Nat)} :
    M.pres Frame (CloseSectors.snapMarkVertices have_mark floorpos_prev it) := by
  unfold CloseSectors.snapMarkVertices
  repeat' first
    | (with_reducible first
        | exact frame_addV | exact frame_addSd | exact frame_addL | exact frame_addS
        | exact frame_lastV | exact frame_lastS | exact frame_setV | exact frame_setLastV
        | exact frame_setLastS | exact frame_SetNullVertex | exact frame_pushMarkIdsPrev
        | exact frame_onChecker | exact frame_vertexAt | exact frame_prevSectorId
        | exact frame_modifySectorAt | exact frame_modifyVertexAt | exact frame_pushV
        | exact frame_pushS | exact M.pres_pure _ | exact M.pres_fail _ | exact M.pres_read
        | exact M.pres_update (fun _ => ⟨rfl, rfl, rfl, rfl⟩) | refine M.pres_bind ?_ ?_
        | refine M.pres_ite _ ?_ ?_ | refine M.pres_forEach ?_ _ | intro _)
    | dsimp only
    | split

theorem renewSectors_frame {at_mark_start at_mark_end : Bool} (l : List SSlot)
    (prev_sectors_ids : SSlot → Option Nat) :
    M.pres Frame (CloseSectors.renewSectors at_mark_start at_mark_end l prev_sectors_ids) := by
  induction l generalizing prev_sectors_ids with
  | nil => exact M.pres_pure _
  | cons sector rest ih =>
    unfold CloseSectors.renewSectors
    repeat' first
      | (with_reducible first
          | exact ih _ | exact frame_addV | exact frame_addSd | exact frame_addL
          | exact frame_addS | exact frame_lastV | exact frame_lastS | exact frame_setV
          | exact frame_setLastV | exact frame_setLastS | exact frame_SetNullVertex
          | exact frame_pushMarkIdsPrev | exact frame_onChecker | exact frame_vertexAt
          | exact frame_prevSectorId | exact frame_modifySectorAt | exact frame_modifyVertexAt
          | exact frame_pushV | exact frame_pushS | exact M.pres_pure _ | exact M.pres_fail _
          | exact M.pres_read | exact M.pres_update (fun _ => ⟨rfl, rfl, rfl, rfl⟩)
          | refine M.pres_bind ?_ ?_ | refine M.pres_ite _ ?_ ?_ | refine M.pres_forEach ?_ _
          | intro _)
      | dsimp only
      | split

theorem seamLines_frame {at_mark_start at_mark_end : Bool}
    {prev_sectors_ids : SSlot → Option Nat} (l : List SSlot) (vs : List VSlot) :
    M.pres Frame (CloseSectors.seamLines at_mark_start at_mark_end prev_sectors_ids l vs) := by
  induction l generalizing vs with
  | nil =>
    unfold CloseSectors.seamLines
    exact M.pres_pure _
  | cons sector rest ih =>
    rcases vs with _ | ⟨vi, _ | ⟨vi1, vrest⟩⟩
    · unfold CloseSectors.seamLines
      exact M.pres_pure _
    · unfold CloseSectors.seamLines
      exact M.pres_pure _
    · unfold CloseSectors.seamLines
      repeat' first
        | (with_reducible first
            | exact ih _ | exact frame_addV | exact frame_addSd | exact frame_addL
            | exact frame_addS | exact frame_lastV | exact frame_lastS | exact frame_setV
            | exact frame_setLastV | exact frame_setLastS | exact frame_SetNullVertex
            | exact frame_pushMarkIdsPrev | exact frame_onChecker | exact frame_vertexAt
            | exact frame_prevSectorId | exact frame_modifySectorAt
            | exact frame_modifyVertexAt | exact frame_pushV | exact frame_pushS
            | exact M.pres_pure _ | exact M.pres_fail _ | exact M.pres_read
            | exact M.pres_update (fun _ => ⟨rfl, rfl, rfl, rfl⟩) | refine M.pres_bind ?_ ?_
            | refine M.pres_ite _ ?_ ?_ | refine M.pres_forEach ?_ _ | intro _)
        | dsimp only
        | split

theorem CloseSectors_frame {lm : Libm} : M.pres Frame (CloseSectors lm) := by
  unfold CloseSectors
  repeat' first
    | (with_reducible first
        | exact applySlope_frame | exact recordSeamMarkVertices_frame
        | exact snapMarkVertices_frame | exact renewSectors_frame _ _
        | exact seamLines_frame _ _ | exact frame_addV | exact frame_addSd | exact frame_addL
        | exact frame_addS | exact frame_lastV | exact frame_lastS | exact frame_setV
        | exact frame_setLastV | exact frame_setLastS | exact frame_SetNullVertex
        | exact frame_pushMarkIdsPrev | exact frame_onChecker | exact frame_vertexAt
        | exact frame_prevSectorId | exact frame_modifySectorAt | exact frame_modifyVertexAt
        | exact frame_pushV | exact frame_pushS | exact M.pres_pure _ | exact M.pres_fail _
        | exact M.pres_read | exact M.pres_update (fun _ => ⟨rfl, rfl, rfl, rfl⟩)
        | refine M.pres_bind ?_ ?_ | refine M.pres_ite _ ?_ ?_ | refine M.pres_forEach ?_ _
        | intro _)
    | dsimp only
    | split

theorem Start_validate_frame : M.pres Frame Start.validate := by
  unfold Start.validate
  repeat' first
    | (with_reducible first
        | exact frame_addV | exact frame_addSd | exact frame_addL | exact frame_addS
        | exact frame_lastV | exact frame_lastS | exact frame_setV | exact frame_setLastV
        | exact frame_setLastS | exact frame_SetNullVertex | exact frame_pushMarkIdsPrev
        | exact frame_onChecker | exact frame_vertexAt | exact frame_prevSectorId
        | exact frame_modifySectorAt | exact frame_modifyVertexAt | exact frame_pushV
        | exact frame_pushS | exact M.pres_pure _ | exact M.pres_fail _ | exact M.pres_read
        | exact M.pres_update (fun _ => ⟨rfl, rfl, rfl, rfl⟩) | refine M.pres_bind ?_ ?_
        | refine M.pres_ite _ ?_ ?_ | refine M.pres_forEach ?_ _ | intro _)
    | dsimp only
    | split

theorem Start_addBackground_frame {lm : Libm} : M.pres Frame (Start.addBackground lm) := by
  unfold Start.addBackground
  repeat' first
    | (with_reducible first
        | exact ExtendBackground_frame | exact ExtendFence_frame | exact ExtendBody_frame
        | exact frame_addV | exact frame_addSd | exact frame_addL | exact frame_addS
        | exact frame_lastV | exact frame_lastS | exact frame_setV | exact frame_setLastV
        | exact frame_setLastS | exact frame_SetNullVertex | exact frame_pushMarkIdsPrev
        | exact frame_onChecker | exact frame_vertexAt | exact frame_prevSectorId
        | exact frame_modifySectorAt | exact frame_modifyVertexAt | exact frame_pushV
        | exact frame_pushS | exact M.pres_pure _ | exact M.pres_fail _ | exact M.pres_read
        | exact M.pres_update (fun _ => ⟨rfl, rfl, rfl, rfl⟩) | refine M.pres_bind ?_ ?_
        | refine M.pres_ite _ ?_ ?_ | refine M.pres_forEach ?_ _ | intro _)
    | dsimp only
    | split

theorem Start_addFence_frame {lm : Libm} {id : Nat} : M.pres Frame (Start.addFence lm id) := by
  unfold Start.addFence
  repeat' first
    | (with_reducible first
        | exact ExtendBackground_frame | exact ExtendFence_frame | exact ExtendBody_frame
        | exact frame_addV | exact frame_addSd | exact frame_addL | exact frame_addS
        | exact frame_lastV | exact frame_lastS | exact frame_setV | exact frame_setLastV
        | exact frame_setLastS | exact frame_SetNullVertex | exact frame_pushMarkIdsPrev
        | exact frame_onChecker | exact frame_vertexAt | exact frame_prevSectorId
        | exact frame_modifySectorAt | exact frame_modifyVertexAt | exact frame_pushV
        | exact frame_pushS | exact M.pres_pure _ | exact M.pres_fail _ | exact M.pres_read
        | exact M.pres_update (fun _ => ⟨rfl, rfl, rfl, rfl⟩) | refine M.pres_bind ?_ ?_
        | refine M.pres_ite _ ?_ ?_ | refine M.pres_forEach ?_ _ | intro _)
    | dsimp only
    | split

theorem Start_addRoadFrame_frame {lm : Libm} {id : Nat} :
    M.pres Frame (Start.addRoadFrame lm id) := by
  unfold Start.addRoadFrame
  repeat' first
    | (with_reducible first
        | exact ExtendBackground_frame | exact ExtendFence_frame | exact ExtendBody_frame
        | exact frame_addV | exact frame_addSd | exact frame_addL | exact frame_addS
        | exact frame_lastV | exact frame_lastS | exact frame_setV | exact frame_setLastV
        | exact frame_setLastS | exact frame_SetNullVertex | exact frame_pushMarkIdsPrev
        | exact frame_onChecker | exact frame_vertexAt | exact frame_prevSectorId
        | exact frame_modifySectorAt | exact frame_modifyVertexAt | exact frame_pushV
        | exact frame_pushS | exact M.pres_pure _ | exact M.pres_fail _ | exact M.pres_read
        | exact M.pres_update (fun _ => ⟨rfl, rfl, rfl, rfl⟩) | refine M.pres_bind ?_ ?_
        | refine M.pres_ite _ ?_ ?_ | refine M.pres_forEach ?_ _ | intro _)
    | dsimp only
    | split

theorem Start_frame {lm : Libm} : M.pres Frame (Start lm) := by
  unfold Start
  repeat' first
    | (with_reducible first
        | exact Start_validate_frame | exact Start_addBackground_frame
        | exact Start_addFence_frame | exact Start_addRoadFrame_frame | exact frame_addV
        | exact frame_addSd | exact frame_addL | exact frame_addS | exact frame_lastV
        | exact frame_lastS | exact frame_setV | exact frame_setLastV | exact frame_setLastS
        | exact frame_SetNullVertex | exact frame_pushMarkIdsPrev | exact frame_onChecker
        | exact frame_vertexAt | exact frame_prevSectorId | exact frame_modifySectorAt
        | exact frame_modifyVertexAt | exact frame_pushV | exact frame_pushS
        | exact M.pres_pure _ | exact M.pres_fail _ | exact M.pres_read
        | exact M.pres_update (fun _ => ⟨rfl, rfl, rfl, rfl⟩) | refine M.pres_bind ?_ ?_
        | refine M.pres_ite _ ?_ ?_ | refine M.pres_forEach ?_ _ | intro _)
    | dsimp only
    | split

theorem Finish_validate_frame : M.pres Frame Finish.validate := by
  unfold Finish.validate
  repeat' first
    | (with_reducible first
        | exact frame_addV | exact frame_addSd | exact frame_addL | exact frame_addS
        | exact frame_lastV | exact frame_lastS | exact frame_setV | exact frame_setLastV
        | exact frame_setLastS | exact frame_SetNullVertex | exact frame_pushMarkIdsPrev
        | exact frame_onChecker | exact frame_vertexAt | exact frame_prevSectorId
        | exact frame_modifySectorAt | exact frame_modifyVertexAt | exact frame_pushV
        | exact frame_pushS | exact M.pres_pure _ | exact M.pres_fail _ | exact M.pres_read
        | exact M.pres_update (fun _ => ⟨rfl, rfl, rfl, rfl⟩) | refine M.pres_bind ?_ ?_
        | refine M.pres_ite _ ?_ ?_ | refine M.pres_forEach ?_ _ | intro _)
    | dsimp only
    | split

theorem Finish_closeBackground_frame {lm : Libm} : M.pres Frame (Finish.closeBackground lm) := by
  unfold Finish.closeBackground
  repeat' first
    | (with_reducible first
        | exact ExtendBackground_frame | exact ExtendFence_frame | exact ExtendBody_frame
        | exact frame_addV | exact frame_addSd | exact frame_addL | exact frame_addS
        | exact frame_lastV | exact frame_lastS | exact frame_setV | exact frame_setLastV
        | exact frame_setLastS | exact frame_SetNullVertex | exact frame_pushMarkIdsPrev
        | exact frame_onChecker | exact frame_vertexAt | exact frame_prevSectorId
        | exact frame_modifySectorAt | exact frame_modifyVertexAt | exact frame_pushV
        | exact frame_pushS | exact M.pres_pure _ | exact M.pres_fail _ | exact M.pres_read
        | exact M.pres_update (fun _ => ⟨rfl, rfl, rfl, rfl⟩) | refine M.pres_bind ?_ ?_
        | refine M.pres_ite _ ?_ ?_ | refine M.pres_forEach ?_ _ | intro _)
    | dsimp only
    | split

theorem Finish_closeFence_frame {lm : Libm} {a b : Nat} :
    M.pres Frame (Finish.closeFence lm a b) := by
  unfold Finish.closeFence
  repeat' first
    | (with_reducible first
        | exact ExtendBackground_frame | exact ExtendFence_frame | exact ExtendBody_frame
        | exact frame_addV | exact frame_addSd | exact frame_addL | exact frame_addS
        | exact frame_lastV | exact frame_lastS | exact frame_setV | exact frame_setLastV
        | exact frame_setLastS | exact frame_SetNullVertex | exact frame_pushMarkIdsPrev
        | exact frame_onChecker | exact frame_vertexAt | exact frame_prevSectorId
        | exact frame_modifySectorAt | exact frame_modifyVertexAt | exact frame_pushV
        | exact frame_pushS | exact M.pres_pure _ | exact M.pres_fail _ | exact M.pres_read
        | exact M.pres_update (fun _ => ⟨rfl, rfl, rfl, rfl⟩) | refine M.pres_bind ?_ ?_
        | refine M.pres_ite _ ?_ ?_ | refine M.pres_forEach ?_ _ | intro _)
    | dsimp only
    | split

theorem Finish_closeRoadFrame_frame {a b : Nat} : M.pres Frame (Finish.closeRoadFrame a b) := by
  unfold Finish.closeRoadFrame
  repeat' first
    | (with_reducible first
        | exact ExtendBackground_frame | exact ExtendFence_frame | exact ExtendBody_frame
        | exact frame_addV | exact frame_addSd | exact frame_addL | exact frame_addS
        | exact frame_lastV | exact frame_lastS | exact frame_setV | exact frame_setLastV
        | exact frame_setLastS | exact frame_SetNullVertex | exact frame_pushMarkIdsPrev
        | exact frame_onChecker | exact frame_vertexAt | exact frame_prevSectorId
        | exact frame_modifySectorAt | exact frame_modifyVertexAt | exact frame_pushV
        | exact frame_pushS | exact M.pres_pure _ | exact M.pres_fail _ | exact M.pres_read
        | exact M.pres_update (fun _ => ⟨rfl, rfl, rfl, rfl⟩) | refine M.pres_bind ?_ ?_
        | refine M.pres_ite _ ?_ ?_ | refine M.pres_forEach ?_ _ | intro _)
    | dsimp only
    | split

theorem Finish_seamLines_frame (l : List (Nat × Nat)) (vs : List Nat) :
    M.pres Frame (Finish.seamLines l vs) := by
  induction l generalizing vs with
  | nil =>
    unfold Finish.seamLines
    exact M.pres_pure _
  | cons p rest ih =>
    rcases vs with _ | ⟨vi, _ | ⟨vi1, vrest⟩⟩
    · unfold Finish.seamLines
      exact M.pres_pure _
    · unfold Finish.seamLines
      exact M.pres_pure _
    · unfold Finish.seamLines
      repeat' first
        | (with_reducible first
            | exact ih _ | exact frame_addV | exact frame_addSd | exact frame_addL
            | exact frame_addS | exact frame_lastV | exact frame_lastS | exact frame_setV
            | exact frame_setLastV | exact frame_setLastS | exact frame_SetNullVertex
            | exact frame_pushMarkIdsPrev | exact frame_onChecker | exact frame_vertexAt
            | exact frame_prevSectorId | exact frame_modifySectorAt
            | exact frame_modifyVertexAt | exact frame_pushV | exact frame_pushS
            | exact M.pres_pure _ | exact M.pres_fail _ | exact M.pres_read
            | exact M.pres_update (fun _ => ⟨rfl, rfl, rfl, rfl⟩) | refine M.pres_bind ?_ ?_
            | refine M.pres_ite _ ?_ ?_ | refine M.pres_forEach ?_ _ | intro _)
        | dsimp only
        | split

theorem Finish_frame {lm : Libm} : M.pres Frame (Finish lm) := by
  unfold Finish
  repeat' first
    | (with_reducible first
        | exact Finish_validate_frame | exact Finish_closeBackground_frame
        | exact Finish_closeFence_frame | exact Finish_closeRoadFrame_frame
        | exact Finish_seamLines_frame _ _ | exact frame_addV | exact frame_addSd
        | exact frame_addL | exact frame_addS | exact frame_lastV | exact frame_lastS
        | exact frame_setV | exact frame_setLastV | exact frame_setLastS
        | exact frame_SetNullVertex | exact frame_pushMarkIdsPrev | exact frame_onChecker
        | exact frame_vertexAt | exact frame_prevSectorId | exact frame_modifySectorAt
        | exact frame_modifyVertexAt | exact frame_pushV | exact frame_pushS
        | exact M.pres_pure _ | exact M.pres_fail _ | exact M.pres_read
        | exact M.pres_update (fun _ => ⟨rfl, rfl, rfl, rfl⟩) | refine M.pres_bind ?_ ?_
        | refine M.pres_ite _ ?_ ?_ | refine M.pres_forEach ?_ _ | intro _)
    | dsimp only
    | split

theorem SlopeModifier_frame {lm : Libm} {data : SlopeModifierData} :
    M.pres Frame (SlopeModifier lm data) := by
  unfold SlopeModifier
  repeat' first
    | (with_reducible first
        | exact CloseSectors_frame | exact frame_addV | exact frame_addSd | exact frame_addL
        | exact frame_addS | exact frame_lastV | exact frame_lastS | exact frame_setV
        | exact frame_setLastV | exact frame_setLastS | exact frame_SetNullVertex
        | exact frame_pushMarkIdsPrev | exact frame_onChecker | exact frame_vertexAt
        | exact frame_prevSectorId | exact frame_modifySectorAt | exact frame_modifyVertexAt
        | exact frame_pushV | exact frame_pushS | exact M.pres_pure _ | exact M.pres_fail _
        | exact M.pres_read | exact M.pres_update (fun _ => ⟨rfl, rfl, rfl, rfl⟩)
        | refine M.pres_bind ?_ ?_ | refine M.pres_ite _ ?_ ?_ | refine M.pres_forEach ?_ _
        | intro _)
    | dsimp only
    | split

end RoadFigure

end FigureFrameBlocks

section FigureDash

set_option linter.unreachableTactic false
set_option linter.unusedTactic false

open Udmf

theorem M.post_bind_pres {σ α β : Type} {F : σ → σ → Prop} [IsTrans σ F] {m : M σ α}
    {k : α → M σ β} {Q : σ → Prop} {s0 s : σ} (hm : M.pres F m) (h0 : F s0 s)
    (he : ∀ s1, F s0 s1 → Q s1) (hk : ∀ a s1, F s0 s1 → M.post (k a) Q s1) :
    M.post (m >>= k) Q s := by
  unfold M.post
  rw [M.run_bind]
  have h1 := hm.run s
  rcases hr : m s with ⟨r, s1⟩
  rw [hr] at h1
  cases r with
  | error e => exact he s1 (IsTrans.trans _ _ _ h0 h1)
  | ok a => exact hk a s1 (IsTrans.trans _ _ _ h0 h1)

theorem M.post_read_bind {σ β : Type} {k : σ → M σ β} {Q : σ → Prop} {s : σ}
    (h : M.post (k s) Q s) : M.post (M.read >>= k) Q s := h

theorem M.post_update_bind {σ β : Type} {g : σ → σ} {k : Unit → M σ β} {Q : σ → Prop} {s : σ}
    (h : M.post (k ()) Q (g s)) : M.post (M.update g >>= k) Q s := h

theorem M.post_ite {σ α : Type} (c : Prop) [Decidable c] {m1 m2 : M σ α} {Q : σ → Prop} {s : σ}
    (h1 : c → M.post m1 Q s) (h2 : ¬ c → M.post m2 Q s) :
    M.post (if c then m1 else m2) Q s := by
  split_ifs with h
  · exact h1 h
  · exact h2 h

theorem M.post_pure {σ α : Type} {a : α} {Q : σ → Prop} {s : σ} (h : Q s) :
    M.post (pure a : M σ α) Q s := h

theorem M.post_of_pres {σ α : Type} {R : σ → σ → Prop} [IsTrans σ R] {m : M σ α} {s0 s : σ}
    (hm : M.pres R m) (h0 : R s0 s) : M.post m (R s0) s :=
  IsTrans.trans _ _ _ h0 (hm.run s)

namespace RoadFigure

instance instIsReflKeep : IsRefl RoadFigure Keep :=
  ⟨fun _ => ⟨⟨rfl, rfl, rfl⟩, fun _ h => h⟩⟩

instance instIsTransKeep : IsTrans RoadFigure Keep :=
  ⟨fun _ _ _ h1 h2 => ⟨IsTrans.trans _ _ _ h1.stay h2.stay,
    fun hg hd => h2.dash (by rw [h1.stay.cfg]; exact hg) (h1.dash hg hd)⟩⟩

theorem Frame.keep {s s1 : RoadFigure} (h : Frame s s1) : Keep s s1 :=
  ⟨h.stay, fun _ hd => by
    unfold DashInRange at hd ⊢
    rw [h.coord, h.cfg]
    exact hd⟩

theorem Keep.of_frame {s s1 s2 : RoadFigure} (h1 : Keep s s1) (h2 : Frame s1 s2) : Keep s s2 :=
  IsTrans.trans _ _ _ h1 h2.keep

theorem Keep.step_mark {s sk sj : RoadFigure} {length : ℚ} (hk : Frame s sk) (hj : Frame s sj)
    (hlen : ¬ ¬ length ≥ 1)
    (hc : sk.m_mark_coord < sk.m_config.sizes.road_mark_length
      ∧ ¬ Math.IsZeroOrCloseTo (sk.m_mark_coord - sk.m_config.sizes.road_mark_length) = true) :
    Keep s { sj with
      m_mark_coord := sj.m_mark_coord
        + (if sk.m_config.sizes.road_mark_length - sk.m_mark_coord > length then length
           else sk.m_config.sizes.road_mark_length - sk.m_mark_coord)
      m_mark_sector_closed := false } := by
  refine ⟨⟨hj.cfg, hj.have_player_start, hj.player_start_info⟩, fun hg hd => ?_⟩
  unfold DashInRange at hd ⊢
  have e1 := hj.coord
  have e2 := hj.cfg
  have e3 := hk.coord
  have e4 := hk.cfg
  have h1 := hc.1
  dsimp only
  rw [e1, e2, e3, e4] at *
  push_neg at hlen
  split_ifs with h <;> constructor <;> linarith [hd.1, hd.2]

theorem Keep.step_space {s sk sj : RoadFigure} {length : ℚ} (hk : Frame s sk) (hj : Frame s sj)
    (hlen : ¬ ¬ length ≥ 1) :
    Keep s { sj with
      m_mark_coord :=
        if (!Math.IsZeroOrCloseTo
            ((if sk.m_config.sizes.road_mark_length + sk.m_config.sizes.road_mark_gap
                  - sk.m_mark_coord > length then length
              else sk.m_config.sizes.road_mark_length + sk.m_config.sizes.road_mark_gap
                  - sk.m_mark_coord)
              - (sk.m_config.sizes.road_mark_length + sk.m_config.sizes.road_mark_gap
                  - sk.m_mark_coord))) = true
        then sj.m_mark_coord
          + (if sk.m_config.sizes.road_mark_length + sk.m_config.sizes.road_mark_gap
                - sk.m_mark_coord > length then length
             else sk.m_config.sizes.road_mark_length + sk.m_config.sizes.road_mark_gap
                - sk.m_mark_coord)
        else 0 } := by
  refine ⟨⟨hj.cfg, hj.have_player_start, hj.player_start_info⟩, fun hg hd => ?_⟩
  unfold DashInRange at hd ⊢
  have e1 := hj.coord
  have e2 := hj.cfg
  have e3 := hk.coord
  have e4 := hk.cfg
  dsimp only
  rw [e1, e2, e3, e4] at *
  push_neg at hlen
  by_cases hgt : s.m_config.sizes.road_mark_length + s.m_config.sizes.road_mark_gap
      - s.m_mark_coord > length
  · rw [if_pos hgt]
    split_ifs <;> constructor <;> linarith [hd.1, hd.2]
  · rw [if_neg hgt]
    have hz : Math.IsZeroOrCloseTo
        (s.m_config.sizes.road_mark_length + s.m_config.sizes.road_mark_gap - s.m_mark_coord
          - (s.m_config.sizes.road_mark_length + s.m_config.sizes.road_mark_gap
            - s.m_mark_coord)) = true := by
      rw [sub_self]
      exact IsZeroOrCloseTo_zero
    rw [hz]
    simp only [Bool.not_true, Bool.false_eq_true, if_false]
    constructor <;> linarith [hd.1, hd.2]

theorem post_bind_frame {α β : Type} {m : M RoadFigure α} {k : α → M RoadFigure β}
    {s s1 : RoadFigure} (hm : M.pres Frame m) (h0 : Frame s s1)
    (hk : ∀ a s2, Frame s s2 → M.post (k a) (Keep s) s2) : M.post (m >>= k) (Keep s) s1 :=
  M.post_bind_pres hm h0 (fun _ h => Frame.keep h) hk

set_option maxHeartbeats 4000000 in
theorem ExtendMark_loop_keep {length_middle : ℚ} {v_west_dir v_east_dir : ℚ × ℚ}
    {have_slope : Bool} (fuel : Nat) (length : ℚ) (first_vertices_added : Bool) :
    M.pres Keep (ExtendMark.loop length_middle v_west_dir v_east_dir have_slope fuel length
      first_vertices_added) := by
  induction fuel generalizing length first_vertices_added with
  | zero =>
    unfold ExtendMark.loop
    exact M.pres_ite _ (M.pres_fail _) (M.pres_pure _)
  | succ fuel ih =>
    refine ⟨fun s => ?_⟩
    show M.post (ExtendMark.loop length_middle v_west_dir v_east_dir have_slope (fuel + 1) length
      first_vertices_added) (Keep s) s
    unfold ExtendMark.loop
    have hF : Frame s s := IsRefl.refl s
    repeat' first
      | (with_reducible refine M.post_read_bind ?_)
      | (with_reducible refine post_bind_frame ?_ (by assumption) ?_
         · (
            repeat' first
              | (with_reducible first
                  | exact frame_addV | exact frame_addSd | exact frame_addL | exact frame_addS
                  | exact frame_lastV | exact frame_lastS | exact frame_setV
                  | exact frame_setLastV | exact frame_setLastS | exact frame_SetNullVertex
                  | exact frame_pushMarkIdsPrev | exact frame_onChecker | exact frame_vertexAt
                  | exact frame_prevSectorId | exact frame_modifySectorAt
                  | exact frame_modifyVertexAt | exact frame_pushV | exact frame_pushS
                  | exact M.pres_pure _ | exact M.pres_fail _ | exact M.pres_read
                  | exact M.pres_update (fun _ => ⟨rfl, rfl, rfl, rfl⟩)
                  | refine M.pres_bind ?_ ?_ | refine M.pres_ite _ ?_ ?_
                  | refine M.pres_forEach ?_ _ | intro _)
              | dsimp only
              | split)
         intro _ _ _)
      | exact M.post_update_bind (M.post_of_pres (ih _ _)
          (Keep.step_mark (by assumption) (by assumption) (by assumption) (by assumption)))
      | exact M.post_update_bind (M.post_of_pres (ih _ _)
          (Keep.step_space (by assumption) (by assumption) (by assumption)))
      | (with_reducible refine M.post_ite _ ?_ ?_)
      | (with_reducible refine M.post_pure (Frame.keep (by assumption)))
      | intro _
      | dsimp only
      | split

end RoadFigure

end FigureDash

section FigureDashOps

set_option linter.unreachableTactic false
set_option linter.unusedTactic false

open Udmf

namespace RoadFigure

theorem ExtendMark_keep {lm : Libm} {a b : Vertex} : M.pres Keep (ExtendMark lm a b) := by
  unfold ExtendMark
  repeat' first
    | (with_reducible first
        | exact ExtendMark_loop_keep _ _ _
        | exact M.pres_mono (fun _ _ => Frame.keep) ExtendBackground_frame
        | exact M.pres_mono (fun _ _ => Frame.keep) ExtendFence_frame
        | exact M.pres_mono (fun _ _ => Frame.keep) ExtendBody_frame
        | exact M.pres_mono (fun _ _ => Frame.keep) markVertexIsHere_frame
        | exact M.pres_mono (fun _ _ => Frame.keep) CloseSectors_frame
        | exact M.pres_mono (fun _ _ => Frame.keep) Start_frame
        | exact M.pres_mono (fun _ _ => Frame.keep) Finish_frame
        | exact M.pres_mono (fun _ _ => Frame.keep) SlopeModifier_frame
        | exact M.pres_mono (fun _ _ => Frame.keep) frame_addV
        | exact M.pres_mono (fun _ _ => Frame.keep) frame_addSd
        | exact M.pres_mono (fun _ _ => Frame.keep) frame_addL
        | exact M.pres_mono (fun _ _ => Frame.keep) frame_addS
        | exact M.pres_mono (fun _ _ => Frame.keep) frame_lastV
        | exact M.pres_mono (fun _ _ => Frame.keep) frame_lastS
        | exact M.pres_mono (fun _ _ => Frame.keep) frame_setV
        | exact M.pres_mono (fun _ _ => Frame.keep) frame_setLastV
        | exact M.pres_mono (fun _ _ => Frame.keep) frame_setLastS
        | exact M.pres_mono (fun _ _ => Frame.keep) frame_SetNullVertex
        | exact M.pres_mono (fun _ _ => Frame.keep) frame_pushMarkIdsPrev
        | exact M.pres_mono (fun _ _ => Frame.keep) frame_onChecker
        | exact M.pres_mono (fun _ _ => Frame.keep) frame_vertexAt
        | exact M.pres_mono (fun _ _ => Frame.keep) frame_prevSectorId
        | exact M.pres_mono (fun _ _ => Frame.keep) frame_modifySectorAt
        | exact M.pres_mono (fun _ _ => Frame.keep) frame_modifyVertexAt
        | exact M.pres_mono (fun _ _ => Frame.keep) frame_pushV
        | exact M.pres_mono (fun _ _ => Frame.keep) frame_pushS | exact M.pres_pure _
        | exact M.pres_fail _ | exact M.pres_read
        | exact M.pres_update (fun _ => Frame.keep ⟨rfl, rfl, rfl, rfl⟩)
        | refine M.pres_bind ?_ ?_ | refine M.pres_ite _ ?_ ?_ | refine M.pres_forEach ?_ _
        | intro _)
    | dsimp only
    | split

theorem Line_keep {lm : Libm} {line : LineData} : M.pres Keep (Line lm line) := by
  unfold Line
  repeat' first
    | (with_reducible first
        | exact ExtendMark_keep
        | exact M.pres_mono (fun _ _ => Frame.keep) ExtendBackground_frame
        | exact M.pres_mono (fun _ _ => Frame.keep) ExtendFence_frame
        | exact M.pres_mono (fun _ _ => Frame.keep) ExtendBody_frame
        | exact M.pres_mono (fun _ _ => Frame.keep) markVertexIsHere_frame
        | exact M.pres_mono (fun _ _ => Frame.keep) CloseSectors_frame
        | exact M.pres_mono (fun _ _ => Frame.keep) Start_frame
        | exact M.pres_mono (fun _ _ => Frame.keep) Finish_frame
        | exact M.pres_mono (fun _ _ => Frame.keep) SlopeModifier_frame
        | exact M.pres_mono (fun _ _ => Frame.keep) frame_addV
        | exact M.pres_mono (fun _ _ => Frame.keep) frame_addSd
        | exact M.pres_mono (fun _ _ => Frame.keep) frame_addL
        | exact M.pres_mono (fun _ _ => Frame.keep) frame_addS
        | exact M.pres_mono (fun _ _ => Frame.keep) frame_lastV
        | exact M.pres_mono (fun _ _ => Frame.keep) frame_lastS
        | exact M.pres_mono (fun _ _ => Frame.keep) frame_setV
        | exact M.pres_mono (fun _ _ => Frame.keep) frame_setLastV
        | exact M.pres_mono (fun _ _ => Frame.keep) frame_setLastS
        | exact M.pres_mono (fun _ _ => Frame.keep) frame_SetNullVertex
        | exact M.pres_mono (fun _ _ => Frame.keep) frame_pushMarkIdsPrev
        | exact M.pres_mono (fun _ _ => Frame.keep) frame_onChecker
        | exact M.pres_mono (fun _ _ => Frame.keep) frame_vertexAt
        | exact M.pres_mono (fun _ _ => Frame.keep) frame_prevSectorId
        | exact M.pres_mono (fun _ _ => Frame.keep) frame_modifySectorAt
        | exact M.pres_mono (fun _ _ => Frame.keep) frame_modifyVertexAt
        | exact M.pres_mono (fun _ _ => Frame.keep) frame_pushV
        | exact M.pres_mono (fun _ _ => Frame.keep) frame_pushS | exact M.pres_pure _
        | exact M.pres_fail _ | exact M.pres_read
        | exact M.pres_update (fun _ => Frame.keep ⟨rfl, rfl, rfl, rfl⟩)
        | refine M.pres_bind ?_ ?_ | refine M.pres_ite _ ?_ ?_ | refine M.pres_forEach ?_ _
        | intro _)
    | dsimp only
    | split

theorem Arc_step_keep {lm : Libm} {cx cy turn_sign step angle_abs : ℚ} {steps_count : Int}
    {angix : Nat} :
    M.pres Keep (Arc.step lm cx cy turn_sign step angle_abs steps_count angix) := by
  unfold Arc.step
  repeat' first
    | (with_reducible first
        | exact ExtendMark_keep
        | exact M.pres_mono (fun _ _ => Frame.keep) ExtendBackground_frame
        | exact M.pres_mono (fun _ _ => Frame.keep) ExtendFence_frame
        | exact M.pres_mono (fun _ _ => Frame.keep) ExtendBody_frame
        | exact M.pres_mono (fun _ _ => Frame.keep) markVertexIsHere_frame
        | exact M.pres_mono (fun _ _ => Frame.keep) CloseSectors_frame
        | exact M.pres_mono (fun _ _ => Frame.keep) Start_frame
        | exact M.pres_mono (fun _ _ => Frame.keep) Finish_frame
        | exact M.pres_mono (fun _ _ => Frame.keep) SlopeModifier_frame
        | exact M.pres_mono (fun _ _ => Frame.keep) frame_addV
        | exact M.pres_mono (fun _ _ => Frame.keep) frame_addSd
        | exact M.pres_mono (fun _ _ => Frame.keep) frame_addL
        | exact M.pres_mono (fun _ _ => Frame.keep) frame_addS
        | exact M.pres_mono (fun _ _ => Frame.keep) frame_lastV
        | exact M.pres_mono (fun _ _ => Frame.keep) frame_lastS
        | exact M.pres_mono (fun _ _ => Frame.keep) frame_setV
        | exact M.pres_mono (fun _ _ => Frame.keep) frame_setLastV
        | exact M.pres_mono (fun _ _ => Frame.keep) frame_setLastS
        | exact M.pres_mono (fun _ _ => Frame.keep) frame_SetNullVertex
        | exact M.pres_mono (fun _ _ => Frame.keep) frame_pushMarkIdsPrev
        | exact M.pres_mono (fun _ _ => Frame.keep) frame_onChecker
        | exact M.pres_mono (fun _ _ => Frame.keep) frame_vertexAt
        | exact M.pres_mono (fun _ _ => Frame.keep) frame_prevSectorId
        | exact M.pres_mono (fun _ _ => Frame.keep) frame_modifySectorAt
        | exact M.pres_mono (fun _ _ => Frame.keep) frame_modifyVertexAt
        | exact M.pres_mono (fun _ _ => Frame.keep) frame_pushV
        | exact M.pres_mono (fun _ _ => Frame.keep) frame_pushS | exact M.pres_pure _
        | exact M.pres_fail _ | exact M.pres_read
        | exact M.pres_update (fun _ => Frame.keep ⟨rfl, rfl, rfl, rfl⟩)
        | refine M.pres_bind ?_ ?_ | refine M.pres_ite _ ?_ ?_ | refine M.pres_forEach ?_ _
        | intro _)
    | dsimp only
    | split

theorem Arc_keep {lm : Libm} {arc : ArcData} : M.pres Keep (Arc lm arc) := by
  unfold Arc
  repeat' first
    | (with_reducible first
        | exact Arc_step_keep
        | exact M.pres_mono (fun _ _ => Frame.keep) ExtendBackground_frame
        | exact M.pres_mono (fun _ _ => Frame.keep) ExtendFence_frame
        | exact M.pres_mono (fun _ _ => Frame.keep) ExtendBody_frame
        | exact M.pres_mono (fun _ _ => Frame.keep) markVertexIsHere_frame
        | exact M.pres_mono (fun _ _ => Frame.keep) CloseSectors_frame
        | exact M.pres_mono (fun _ _ => Frame.keep) Start_frame
        | exact M.pres_mono (fun _ _ => Frame.keep) Finish_frame
        | exact M.pres_mono (fun _ _ => Frame.keep) SlopeModifier_frame
        | exact M.pres_mono (fun _ _ => Frame.keep) frame_addV
        | exact M.pres_mono (fun _ _ => Frame.keep) frame_addSd
        | exact M.pres_mono (fun _ _ => Frame.keep) frame_addL
        | exact M.pres_mono (fun _ _ => Frame.keep) frame_addS
        | exact M.pres_mono (fun _ _ => Frame.keep) frame_lastV
        | exact M.pres_mono (fun _ _ => Frame.keep) frame_lastS
        | exact M.pres_mono (fun _ _ => Frame.keep) frame_setV
        | exact M.pres_mono (fun _ _ => Frame.keep) frame_setLastV
        | exact M.pres_mono (fun _ _ => Frame.keep) frame_setLastS
        | exact M.pres_mono (fun _ _ => Frame.keep) frame_SetNullVertex
        | exact M.pres_mono (fun _ _ => Frame.keep) frame_pushMarkIdsPrev
        | exact M.pres_mono (fun _ _ => Frame.keep) frame_onChecker
        | exact M.pres_mono (fun _ _ => Frame.keep) frame_vertexAt
        | exact M.pres_mono (fun _ _ => Frame.keep) frame_prevSectorId
        | exact M.pres_mono (fun _ _ => Frame.keep) frame_modifySectorAt
        | exact M.pres_mono (fun _ _ => Frame.keep) frame_modifyVertexAt
        | exact M.pres_mono (fun _ _ => Frame.keep) frame_pushV
        | exact M.pres_mono (fun _ _ => Frame.keep) frame_pushS | exact M.pres_pure _
        | exact M.pres_fail _ | exact M.pres_read
        | exact M.pres_update (fun _ => Frame.keep ⟨rfl, rfl, rfl, rfl⟩)
        | refine M.pres_bind ?_ ?_ | refine M.pres_ite _ ?_ ?_ | refine M.pres_forEach ?_ _
        | intro _)
    | dsimp only
    | split

theorem Fmod_range (number divider : ℚ) (hd : 0 < divider) :
    (0 ≤ number → 0 ≤ Math.Fmod number divider ∧ Math.Fmod number divider < divider)
    ∧ (number < 0 → -divider < Math.Fmod number divider ∧ Math.Fmod number divider ≤ 0) := by
  unfold Math.Fmod Math.truncToInt
  have hq : number / divider * divider = number := div_mul_cancel₀ _ (ne_of_gt hd)
  constructor
  · intro hn
    have h0 : number / divider ≥ 0 := div_nonneg hn (le_of_lt hd)
    rw [if_pos h0]
    have h1 := Int.floor_le (number / divider)
    have h2 := Int.lt_floor_add_one (number / divider)
    constructor
    · nlinarith
    · nlinarith
  · intro hn
    have h0 : ¬ number / divider ≥ 0 := not_le.mpr (div_neg_of_neg_of_pos hn hd)
    rw [if_neg h0]
    have h1 := Int.le_ceil (number / divider)
    have h2 := Int.ceil_lt_add_one (number / divider)
    constructor
    · nlinarith
    · nlinarith

theorem new_dash (config : RoadConfig) (start_data : StartModifierData) (map : Map)
    (ck : Option IntersectionChecker)
    (hp : 0 < config.sizes.road_mark_length + config.sizes.road_mark_gap) :
    (new config start_data map ck).m_config = config
    ∧ (new config start_data map ck).DashInRange := by
  refine ⟨rfl, ?_⟩
  show 0 ≤ (new config start_data map ck).m_mark_coord
    ∧ (new config start_data map ck).m_mark_coord
      < config.sizes.road_mark_length + config.sizes.road_mark_gap
  have hr := Fmod_range start_data.mark_shift _ hp
  have hc : (new config start_data map ck).m_mark_coord
      = if Math.Fmod start_data.mark_shift
            (config.sizes.road_mark_length + config.sizes.road_mark_gap) < 0
        then Math.Fmod start_data.mark_shift
            (config.sizes.road_mark_length + config.sizes.road_mark_gap)
          + (config.sizes.road_mark_length + config.sizes.road_mark_gap)
        else Math.Fmod start_data.mark_shift
            (config.sizes.road_mark_length + config.sizes.road_mark_gap) := rfl
  rw [hc]
  by_cases hs : 0 ≤ start_data.mark_shift
  · have h := hr.1 hs
    rw [if_neg (not_lt.mpr h.1)]
    exact h
  · have h := hr.2 (not_le.mp hs)
    split_ifs with hneg
    · constructor <;> linarith [h.1, h.2]
    · constructor <;> linarith [h.1, h.2]

theorem Keep.dash_of {s s1 : RoadFigure} {config : RoadConfig} (h : Keep s s1)
    (hc : s.m_config = config) (hG : 16 ≤ config.sizes.road_mark_gap) (hd : s.DashInRange) :
    s1.m_config = config ∧ s1.DashInRange :=
  ⟨h.stay.cfg.trans hc, h.dash (by rw [hc]; linarith) hd⟩

end RoadFigure

end FigureDashOps

/-- C17: the dash accumulator `m_mark_coord` is in `[0, road_mark_length + road_mark_gap)`
for every configuration with mark length and mark gap at least `16` and every mark
shift: it is so in the figure made by the constructor, and every operation of the figure
(`Line`, `Arc`, one step of `Arc`, and also `Start`, `SlopeModifier`, `Finish`), whether
it is accepted or not, takes a figure of this configuration whose accumulator is in the
range to such a figure.  The arithmetic is the exact one of the embedding: the rounding of
the `double` additions that write `m_mark_coord` is outside the model. -/
theorem dash_accumulator_in_range (lm : Libm) (config : RoadConfig)
    (hL : 16 ≤ config.sizes.road_mark_length) (hG : 16 ≤ config.sizes.road_mark_gap) :
    (∀ (start_data : StartModifierData) (map : Udmf.Map) (ck : Option IntersectionChecker),
      (RoadFigure.new config start_data map ck).m_config = config
      ∧ (RoadFigure.new config start_data map ck).DashInRange)
    ∧ ∀ fig : RoadFigure, fig.m_config = config → fig.DashInRange →
      (∀ line, (RoadFigure.Line lm line fig).2.m_config = config
        ∧ (RoadFigure.Line lm line fig).2.DashInRange)
      ∧ (∀ arc, (RoadFigure.Arc lm arc fig).2.m_config = config
        ∧ (RoadFigure.Arc lm arc fig).2.DashInRange)
      ∧ (∀ cx cy turn_sign step angle_abs steps_count angix,
        (RoadFigure.Arc.step lm cx cy turn_sign step angle_abs steps_count angix fig).2.m_config
          = config
        ∧ (RoadFigure.Arc.step lm cx cy turn_sign step angle_abs steps_count angix
            fig).2.DashInRange)
      ∧ ((RoadFigure.Start lm fig).2.m_config = config
        ∧ (RoadFigure.Start lm fig).2.DashInRange)
      ∧ (∀ data, (RoadFigure.SlopeModifier lm data fig).2.m_config = config
        ∧ (RoadFigure.SlopeModifier lm data fig).2.DashInRange)
      ∧ ((RoadFigure.Finish lm fig).2.m_config = config
        ∧ (RoadFigure.Finish lm fig).2.DashInRange) := by
  refine ⟨fun start_data map ck => RoadFigure.new_dash config start_data map ck (by linarith),
    fun fig hc hd => ⟨fun line => ?_, fun arc => ?_, fun cx cy turn_sign step angle_abs
      steps_count angix => ?_, ?_, fun data => ?_, ?_⟩⟩
  · exact (RoadFigure.Line_keep.run fig).dash_of hc hG hd
  · exact (RoadFigure.Arc_keep.run fig).dash_of hc hG hd
  · exact (RoadFigure.Arc_step_keep.run fig).dash_of hc hG hd
  · exact (RoadFigure.Start_frame.run fig).keep.dash_of hc hG hd
  · exact (RoadFigure.SlopeModifier_frame.run fig).keep.dash_of hc hG hd
  · exact (RoadFigure.Finish_frame.run fig).keep.dash_of hc hG hd

set_option maxRecDepth 1000000 in
theorem dash_accumulator_in_range_witness :
    (16 : ℚ) ≤ defaultRoadConfig.sizes.road_mark_length
    ∧ (16 : ℚ) ≤ defaultRoadConfig.sizes.road_mark_gap
    ∧ exampleStartedFigure.m_config = defaultRoadConfig
    ∧ exampleStartedFigure.DashInRange
    ∧ (RoadFigure.Line exampleLibm { length := 2000 } exampleStartedFigure).1 = Except.ok ()
    ∧ (RoadFigure.Line exampleLibm { length := 2000 } exampleStartedFigure).2.DashInRange :=
  ⟨by decide!, by decide!, ((@RoadFigure.Start_frame exampleLibm).run exampleNewFigure).cfg,
    by decide!, by decide!,
    (((dash_accumulator_in_range exampleLibm defaultRoadConfig (by decide!) (by decide!)).2
      exampleStartedFigure ((@RoadFigure.Start_frame exampleLibm).run exampleNewFigure).cfg
      (by decide!)).1 { length := 2000 }).2⟩

/-! ## The player start recorded by `GetGeneratedRoad` -/

section PlayerStart

set_option linter.unreachableTactic false
set_option linter.unusedTactic false

open Udmf

theorem M.wlp_of_pres {σ α : Type} {R : σ → σ → Prop} [IsTrans σ R] {m : M σ α}
    {Q : α → σ → Prop} {s0 s : σ} (hm : M.pres R m) (h0 : R s0 s)
    (hk : ∀ a s1, R s0 s1 → Q a s1) : M.wlp m Q s := by
  have h1 := hm.run s
  unfold M.wlp
  rcases hr : m s with ⟨r, s1⟩
  rw [hr] at h1
  cases r with
  | error e => trivial
  | ok a => exact hk a s1 (IsTrans.trans _ _ _ h0 h1)

instance GenState.instIsReflSameView : IsRefl GenState GenState.SameView := ⟨fun _ => rfl⟩

instance GenState.instIsTransSameView : IsTrans GenState GenState.SameView :=
  ⟨fun _ _ _ h1 h2 => Eq.trans h2 h1⟩

namespace GetGeneratedRoad

theorem onFigure_view {α : Type} {m : M RoadFigure α} (hm : M.pres RoadFigure.Stay m) :
    M.pres GenState.SameView (onFigure m) := by
  refine ⟨fun st => ?_⟩
  have h := hm.run st.cur_figure
  unfold onFigure
  rcases hr : m st.cur_figure with ⟨r, fig⟩
  rw [hr] at h
  show GenState.playerView _ = GenState.playerView _
  unfold GenState.playerView
  dsimp only
  rw [h.have_player_start, h.player_start_info]

theorem wlp_setPlayerStart {p : PlayerStartInfo} {Q : Unit → GenState → Prop} {st : GenState}
    (h : ∀ st1 : GenState, st1.playerView = (st.have_player_start, st.player_start_info, true, p)
      → Q () st1) :
    M.wlp (onFigure (RoadFigure.onMap (setPlayerStart p))) Q st := by
  unfold M.wlp onFigure RoadFigure.onMap setPlayerStart M.update
  exact h _ rfl

set_option maxHeartbeats 1000000 in
theorem step_view (lm : Libm) (road_config : RoadConfig) (obj : RoadFigureObject)
    (st : GenState) :
    M.wlp (step lm road_config obj) (fun _ st1 => st1.playerView = viewStep st.playerView obj)
      st := by
  have h0 : GenState.SameView st st := rfl
  cases obj <;> simp only [step, M.wlp_bind]
  all_goals
    repeat' first
      | (refine M.wlp_of_pres (R := GenState.SameView)
            (by first
              | exact onFigure_view (M.pres_mono (fun _ _ => RoadFigure.Frame.stay)
                  RoadFigure.Finish_frame)
              | exact onFigure_view (M.pres_mono (fun _ _ => RoadFigure.Frame.stay)
                  RoadFigure.Start_frame)
              | exact onFigure_view (M.pres_mono (fun _ _ => RoadFigure.Frame.stay)
                  RoadFigure.SlopeModifier_frame)
              | exact onFigure_view (M.pres_mono (fun _ _ => RoadFigure.Frame.stay)
                  RoadFigure.frame_onChecker)
              | exact onFigure_view (M.pres_mono (fun _ _ => RoadFigure.Keep.stay)
                  RoadFigure.Line_keep)
              | exact onFigure_view (M.pres_mono (fun _ _ => RoadFigure.Keep.stay)
                  RoadFigure.Arc_keep)
              | exact M.pres_update (fun _ => rfl))
            (by assumption) ?_
         intro _ _ _)
      | (refine (M.wlp_update _ _ _).mpr ?_)
      | (refine (M.wlp_read _ _).mpr ?_)
      | (refine (M.wlp_ite _ _ _ _ _).mpr ⟨?_, ?_⟩ <;> intro _)
      | (refine (M.wlp_pure _ _ _).mpr ?_)
      | (refine (M.wlp_fail _ _ _).mpr trivial)
      | (refine wlp_setPlayerStart ?_; intro _ _)
      | (simp only [M.wlp_bind])
      | (refine M.wlp_of_pres (R := GenState.SameView)
            (by first
              | exact onFigure_view (M.pres_mono (fun _ _ => RoadFigure.Frame.stay)
                  RoadFigure.SlopeModifier_frame)
              | exact onFigure_view (M.pres_mono (fun _ _ => RoadFigure.Keep.stay)
                  RoadFigure.Line_keep)
              | exact onFigure_view (M.pres_mono (fun _ _ => RoadFigure.Keep.stay)
                  RoadFigure.Arc_keep))
            (IsRefl.refl _) ?_
         intro _ _ _)
  all_goals (simp_all [GenState.SameView, GenState.playerView, viewStep, playerStartOf])

end GetGeneratedRoad

end PlayerStart

section PlayerStartRun

open Udmf

namespace GetGeneratedRoad

theorem loop_view (lm : Libm) (road_config : RoadConfig) (input_data : List RoadFigureObject) :
    ∀ st : GenState,
      M.wlp (RoadFigure.forEach (step lm road_config) input_data)
        (fun _ st1 => st1.playerView = input_data.foldl viewStep st.playerView) st := by
  induction input_data with
  | nil =>
    intro st
    unfold RoadFigure.forEach
    exact (M.wlp_pure _ _ _).mpr rfl
  | cons obj rest ih =>
    intro st
    unfold RoadFigure.forEach
    simp only [M.wlp_bind]
    refine M.wlp_mono (step_view lm road_config obj st) ?_
    intro _ st1 h1
    refine M.wlp_mono (ih st1) ?_
    intro _ st2 h2
    rw [h2, h1]
    rfl

theorem body_view (lm : Libm) (road_config : RoadConfig) (input_data : List RoadFigureObject)
    (st : GenState) :
    M.wlp (body lm road_config input_data)
      (fun _ st1 => st1.playerView = input_data.foldl viewStep st.playerView) st := by
  unfold body
  simp only [M.wlp_bind]
  refine M.wlp_mono (loop_view lm road_config input_data st) ?_
  intro _ st1 h1
  refine (M.wlp_read _ _).mpr ?_
  refine (M.wlp_ite _ _ _ _ _).mpr ⟨fun _ => ?_, fun _ => (M.wlp_pure _ _ _).mpr h1⟩
  refine M.wlp_of_pres (R := GenState.SameView)
    (onFigure_view (M.pres_mono (fun _ _ => RoadFigure.Frame.stay) RoadFigure.Finish_frame))
    (IsRefl.refl _) ?_
  intro _ st2 h2
  exact Eq.trans h2 h1

theorem viewStep_foldl_starts (starts : List RoadFigureObject) :
    ∀ v, (∀ o ∈ starts, o.isStart = true) →
      (starts.foldl viewStep v).1 = v.1 ∧ (starts.foldl viewStep v).2.2 = v.2.2 := by
  induction starts with
  | nil => intro v _; exact ⟨rfl, rfl⟩
  | cons o rest ih =>
    intro v h
    have ho := h o (List.mem_cons_self _ _)
    have hr := ih (viewStep v o) (fun o1 h1 => h o1 (List.mem_cons_of_mem _ h1))
    rw [List.foldl_cons]
    cases o with
    | StartModifier d => exact hr
    | Line d => cases ho
    | Arc d => cases ho
    | SlopeModifier d => cases ho

theorem viewStep_foldl_last (starts : List RoadFigureObject)
    (v : Bool × PlayerStartInfo × Bool × PlayerStartInfo)
    (hv : v.2.1 = { x := 0, y := 0, deg_angle := 0 })
    (h : ∀ o ∈ starts, o.isStart = true) :
    (starts.foldl viewStep v).2.1 = lastStart starts := by
  rcases List.eq_nil_or_concat starts with hnil | ⟨init, last, hl⟩
  · subst hnil
    exact hv
  · subst hl
    have hlast := h last (by simp)
    unfold lastStart
    rw [List.concat_eq_append, List.foldl_append, List.getLast?_append]
    cases last with
    | StartModifier d => rfl
    | Line d => cases hlast
    | Arc d => cases hlast
    | SlopeModifier d => cases hlast

theorem viewStep_foldl_have (rest : List RoadFigureObject) :
    ∀ v, v.1 = true →
      (rest.foldl viewStep v).1 = true ∧ (rest.foldl viewStep v).2.2 = v.2.2 := by
  induction rest with
  | nil => intro v h; exact ⟨h, rfl⟩
  | cons o rest ih =>
    intro v h
    rw [List.foldl_cons]
    cases o with
    | StartModifier d => exact ih _ h
    | Line d =>
      have e : viewStep v (RoadFigureObject.Line d) = v := by simp [viewStep, h]
      rw [e]; exact ih _ h
    | Arc d =>
      have e : viewStep v (RoadFigureObject.Arc d) = v := by simp [viewStep, h]
      rw [e]; exact ih _ h
    | SlopeModifier d =>
      have e : viewStep v (RoadFigureObject.SlopeModifier d) = v := by simp [viewStep, h]
      rw [e]; exact ih _ h

theorem viewStep_first_drawing (v : Bool × PlayerStartInfo × Bool × PlayerStartInfo)
    (obj : RoadFigureObject) (hv : v.1 = false) (hobj : obj.isStart = false) :
    viewStep v obj = (true, v.2.1, true, v.2.1) := by
  cases obj with
  | StartModifier d => cases hobj
  | Line d => simp [viewStep, hv]
  | Arc d => simp [viewStep, hv]
  | SlopeModifier d => simp [viewStep, hv]

theorem run_view (lm : Libm) (road_config : RoadConfig) (input_data : List RoadFigureObject)
    (hok : (GetGeneratedRoad lm input_data road_config).1 = Except.ok ()) :
    ((GetGeneratedRoad lm input_data road_config).2.have_player_start,
      (GetGeneratedRoad lm input_data road_config).2.player_start_info)
      = (input_data.foldl viewStep (false, {}, false, {})).2.2 := by
  have hb := body_view lm road_config input_data (init road_config)
  unfold GetGeneratedRoad at hok ⊢
  unfold M.wlp at hb
  generalize body lm road_config input_data (init road_config) = r at hok hb ⊢
  rcases r with ⟨r, st⟩
  cases r with
  | error e => cases hok
  | ok a =>
    have hi : (init road_config).playerView = (false, {}, false, {}) := rfl
    rw [hi] at hb
    rw [← hb]
    rfl

end GetGeneratedRoad

end PlayerStartRun

/-- C19, amended: for every accepted command list made of restart commands `starts`
followed by a first command `obj` that is not a restart and by any further commands, the
map has a player start, and it is the player start (origin, and heading normalised and
truncated to whole degrees) of the last restart of `starts`, the restart that directly
precedes the first other command, or `(0, 0)` with heading `0` when `starts` is empty;
restarts after the first other command do not change it. -/
theorem player_start_is_last_restart_before_drawing (lm : Libm) (road_config : RoadConfig)
    (starts rest : List RoadFigureObject) (obj : RoadFigureObject)
    (hstarts : ∀ o ∈ starts, o.isStart = true) (hobj : obj.isStart = false)
    (hok : (GetGeneratedRoad lm (starts ++ obj :: rest) road_config).1 = Except.ok ()) :
    (GetGeneratedRoad lm (starts ++ obj :: rest) road_config).2.have_player_start = true
    ∧ (GetGeneratedRoad lm (starts ++ obj :: rest) road_config).2.player_start_info
        = GetGeneratedRoad.lastStart starts := by
  have hv := GetGeneratedRoad.run_view lm road_config _ hok
  rw [List.foldl_append, List.foldl_cons] at hv
  have h1 := GetGeneratedRoad.viewStep_foldl_starts starts (false, {}, false, {}) hstarts
  have h2 := GetGeneratedRoad.viewStep_foldl_last starts (false, {}, false, {}) rfl hstarts
  have h3 := GetGeneratedRoad.viewStep_first_drawing _ obj h1.1 hobj
  rw [h3] at hv
  have h4 := GetGeneratedRoad.viewStep_foldl_have rest _ (rfl :
    ((true, (List.foldl GetGeneratedRoad.viewStep (false, {}, false, {}) starts).2.1, true,
      (List.foldl GetGeneratedRoad.viewStep (false, {}, false, {}) starts).2.1) :
      Bool × Udmf.PlayerStartInfo × Bool × Udmf.PlayerStartInfo).1 = true)
  rw [h4.2] at hv
  have hv1 := congrArg Prod.fst hv
  have hv2 := congrArg Prod.snd hv
  dsimp only at hv1 hv2
  exact ⟨hv1, hv2.trans h2⟩

set_option maxRecDepth 1000000 in
theorem player_start_is_last_restart_before_drawing_witness :
    (GetGeneratedRoad exampleLibm exampleTwoRestarts defaultRoadConfig).1 = Except.ok ()
    ∧ (GetGeneratedRoad exampleLibm exampleTwoRestarts defaultRoadConfig).2.player_start_info
        = GetGeneratedRoad.lastStart
          [RoadFigureObject.StartModifier
             { x_null := 0, y_null := 0, angle := 0, zpos := 0, height := 1024, mark_shift := 0 },
           RoadFigureObject.StartModifier
             { x_null := 100, y_null := 200, angle := 0, zpos := 0, height := 1024,
               mark_shift := 0 }]
    ∧ GetGeneratedRoad.lastStart
          [RoadFigureObject.StartModifier
             { x_null := 0, y_null := 0, angle := 0, zpos := 0, height := 1024, mark_shift := 0 },
           RoadFigureObject.StartModifier
             { x_null := 100, y_null := 200, angle := 0, zpos := 0, height := 1024,
               mark_shift := 0 }]
        = { x := 100, y := 200, deg_angle := 0 } :=
  ⟨by decide!,
    (player_start_is_last_restart_before_drawing exampleLibm defaultRoadConfig
      [RoadFigureObject.StartModifier
         { x_null := 0, y_null := 0, angle := 0, zpos := 0, height := 1024, mark_shift := 0 },
       RoadFigureObject.StartModifier
         { x_null := 100, y_null := 200, angle := 0, zpos := 0, height := 1024,
           mark_shift := 0 }]
      [] (RoadFigureObject.Line { length := 2000 }) (by decide) (by decide) (by decide!)).2,
    by decide!⟩

set_option maxRecDepth 1000000 in
theorem Finish_rejects_pending_slope_witness :
    exampleSlopedFigure.Drawing
    ∧ (1 : ℚ) / 100000 ≤ |exampleSlopedFigure.m_slope_modifier.tangent|
    ∧ (∃ e, (RoadFigure.Finish exampleLibm exampleSlopedFigure).1 = Except.error e)
    ∧ (RoadFigure.Finish exampleLibm exampleSlopedFigure).2 = exampleSlopedFigure :=
  ⟨by decide!, by decide!,
    (Finish_rejects_pending_slope exampleLibm exampleSlopedFigure (by decide!)).1,
    (Finish_rejects_pending_slope exampleLibm exampleSlopedFigure (by decide!)).2.1⟩

/-! ## C23: `GetNormalizedAngle` -/

theorem Math.PI_pos : 0 < Math.PI := by
  unfold Math.PI
  norm_num

theorem Math.truncToInt_frac (x : ℚ) :
    (0 ≤ x → 0 ≤ x - (Math.truncToInt x : ℚ) ∧ x - (Math.truncToInt x : ℚ) < 1)
    ∧ (x < 0 → -1 < x - (Math.truncToInt x : ℚ) ∧ x - (Math.truncToInt x : ℚ) ≤ 0) := by
  unfold Math.truncToInt
  constructor
  · intro h
    rw [if_pos h]
    have h1 := Int.floor_le x
    have h2 := Int.lt_floor_add_one x
    constructor <;> linarith
  · intro h
    rw [if_neg (not_le.mpr h)]
    have h1 := Int.le_ceil x
    have h2 := Int.ceil_lt_add_one x
    constructor <;> linarith

theorem Math.GetNormalizedAngle_of_in_range (a : ℚ) (h1 : -Math.PI ≤ a) (h2 : a < Math.PI) :
    Math.GetNormalizedAngle a = a := by
  unfold Math.GetNormalizedAngle
  rw [if_neg]
  rintro (h | h)
  · exact absurd h1 (not_le.mpr h)
  · exact absurd h2 (not_lt.mpr h)

theorem Math.GetNormalizedAngle_spec (a : ℚ) :
    -Math.PI ≤ Math.GetNormalizedAngle a ∧ Math.GetNormalizedAngle a < Math.PI
    ∧ ∃ k : Int, a - Math.GetNormalizedAngle a = (k : ℚ) * (2 * Math.PI) := by
  have hpi := Math.PI_pos
  by_cases hr : a < -Math.PI ∨ a ≥ Math.PI
  · have hf := Math.truncToInt_frac (a / (2 * Math.PI))
    have hne : (2 * Math.PI) ≠ 0 := by positivity
    have hbound : -1 < a / (2 * Math.PI) - (Math.truncToInt (a / (2 * Math.PI)) : ℚ)
        ∧ a / (2 * Math.PI) - (Math.truncToInt (a / (2 * Math.PI)) : ℚ) < 1 := by
      rcases le_or_lt 0 (a / (2 * Math.PI)) with h0 | h0
      · have := hf.1 h0
        constructor <;> linarith [this.1, this.2]
      · have := hf.2 h0
        constructor <;> linarith [this.1, this.2]
    have hdiv : a = a / (2 * Math.PI) * (2 * Math.PI) := (div_mul_cancel₀ a hne).symm
    unfold Math.GetNormalizedAngle
    rw [if_pos hr]
    dsimp only
    generalize hr2 : a / (2 * Math.PI) - (Math.truncToInt (a / (2 * Math.PI)) : ℚ) = r2
      at hbound ⊢
    have hk : a = (r2 + (Math.truncToInt (a / (2 * Math.PI)) : ℚ)) * (2 * Math.PI) := by
      rw [← hr2, sub_add_cancel]
      exact hdiv
    split_ifs with h1 h2
    · refine ⟨by nlinarith, by nlinarith, Math.truncToInt (a / (2 * Math.PI)) - 1, ?_⟩
      push_cast
      linear_combination hk
    · refine ⟨by nlinarith, by nlinarith, Math.truncToInt (a / (2 * Math.PI)) + 1, ?_⟩
      push_cast
      linear_combination hk
    · refine ⟨by nlinarith, by nlinarith, Math.truncToInt (a / (2 * Math.PI)), ?_⟩
      linear_combination hk
  · push_neg at hr
    rw [Math.GetNormalizedAngle_of_in_range a hr.1 hr.2]
    exact ⟨hr.1, hr.2, 0, by simp⟩

/-- C23: `GetNormalizedAngle` maps every angle `a` to a value `r` with `-PI ≤ r < PI` such
that `a - r` is an integer multiple of `2 * PI`, where `PI` is the constant `3.1415926535`
of the module; it returns `a` unchanged when `a` is already in `[-PI, PI)`, and so it is
idempotent.  The arithmetic is the exact one of the embedding. -/
theorem GetNormalizedAngle_wraps (a : ℚ) :
    Math.PI = 31415926535 / 10000000000
    ∧ -Math.PI ≤ Math.GetNormalizedAngle a ∧ Math.GetNormalizedAngle a < Math.PI
    ∧ (∃ k : Int, a - Math.GetNormalizedAngle a = (k : ℚ) * (2 * Math.PI))
    ∧ (Math.GetNormalizedAngle a = a ↔ -Math.PI ≤ a ∧ a < Math.PI)
    ∧ Math.GetNormalizedAngle (Math.GetNormalizedAngle a) = Math.GetNormalizedAngle a := by
  obtain ⟨h1, h2, h3⟩ := Math.GetNormalizedAngle_spec a
  refine ⟨rfl, h1, h2, h3, ⟨fun h => ?_, fun h => Math.GetNormalizedAngle_of_in_range a h.1 h.2⟩,
    Math.GetNormalizedAngle_of_in_range _ h1 h2⟩
  rw [← h]
  exact ⟨h1, h2⟩

/-! ## C24: the lump names accepted by the WAD writer -/

/-- C24: the lump name `A_B`, three characters each of which is an uppercase letter or one
of the five extra characters, is refused by `IsValidLumpName`, while `AB_C` with the same
characters is accepted: the index of the character in the string of extra characters is
compared with the length of the name, so `]` needs a name of two characters, `-` of three,
`_` of four and the backslash of five. -/
theorem IsValidLumpName_depends_on_length :
    Io.WadWriter.IsValidLumpName ['A', '_', 'B'] = false
    ∧ Io.WadWriter.IsValidLumpName ['A', 'B', '_', 'C'] = true
    ∧ Io.WadWriter.IsValidLumpName [']'] = false
    ∧ Io.WadWriter.IsValidLumpName ['['] = true
    ∧ Io.WadWriter.IsValidLumpName ['A', Char.ofNat 92, 'B', 'C'] = false
    ∧ Io.WadWriter.IsValidLumpName ['V', 'I', 'L', 'E', Char.ofNat 92, '1'] = true := by
  decide

/-! ## C25: quads that share a vertex -/

theorem lineVal_edgeEquation_start (a b : Math.Point2D) : lineVal (edgeEquation a b) a = 0 := by
  have h := lineVal_edgeEquation a b a
  rw [cross_self_right, neg_zero] at h
  rcases mul_eq_zero.mp h with h1 | h1
  · exact h1
  · exact absurd h1 (coeffsDivider_ne_zero _ _)

theorem GetQuadInfo_segment_get {p1 p2 p3 p4 : Math.Point2D} {q : QuadInfo}
    (h : GetQuadInfo p1 p2 p3 p4 = Except.ok q) (i : Nat) (hi : i < 4) :
    (q.segments.get i).line_equation
        = edgeEquation (q.vertices.get i) (q.vertices.get ((i + 1) % 4))
    ∧ (q.segments.get i).length_squared
        = Math.Get2DDistanceSquaredXY (q.vertices.get i).x (q.vertices.get i).y
            (q.vertices.get ((i + 1) % 4)).x (q.vertices.get ((i + 1) % 4)).y := by
  obtain ⟨hv, h0, h1, h2, h3⟩ := GetQuadInfo_ok h
  rw [hv]
  interval_cases i
  · exact ⟨(segment_ok h0).1, (segment_ok h0).2.1⟩
  · exact ⟨(segment_ok h1).1, (segment_ok h1).2.1⟩
  · exact ⟨(segment_ok h2).1, (segment_ok h2).2.1⟩
  · exact ⟨(segment_ok h3).1, (segment_ok h3).2.1⟩

/-- Two edges that start at the same point are found to touch, whether their lines are
treated as parallel or as crossing. -/
theorem edgePairHit_of_shared_start (Q R : QuadInfo) (ix1 ix2 : Nat)
    (h1 : (Q.segments.get ix1).line_equation
      = edgeEquation (Q.vertices.get ix1) (Q.vertices.get ((ix1 + 1) % 4)))
    (l1 : (Q.segments.get ix1).length_squared
      = Math.Get2DDistanceSquaredXY (Q.vertices.get ix1).x (Q.vertices.get ix1).y
          (Q.vertices.get ((ix1 + 1) % 4)).x (Q.vertices.get ((ix1 + 1) % 4)).y)
    (h2 : (R.segments.get ix2).line_equation
      = edgeEquation (R.vertices.get ix2) (R.vertices.get ((ix2 + 1) % 4)))
    (l2 : (R.segments.get ix2).length_squared
      = Math.Get2DDistanceSquaredXY (R.vertices.get ix2).x (R.vertices.get ix2).y
          (R.vertices.get ((ix2 + 1) % 4)).x (R.vertices.get ((ix2 + 1) % 4)).y)
    (hv : Q.vertices.get ix1 = R.vertices.get ix2) :
    edgePairHit Q R ix1 ix2 = true := by
  have e1 := lineVal_edgeEquation_start (Q.vertices.get ix1) (Q.vertices.get ((ix1 + 1) % 4))
  have e2 := lineVal_edgeEquation_start (R.vertices.get ix2) (R.vertices.get ((ix2 + 1) % 4))
  rw [← h1] at e1
  rw [← h2, ← hv] at e2
  unfold edgePairHit
  dsimp only
  by_cases hdiv : Math.IsZeroOrCloseTo
      ((Q.segments.get ix1).line_equation.a * (R.segments.get ix2).line_equation.b
        - (R.segments.get ix2).line_equation.a * (Q.segments.get ix1).line_equation.b) = true
  · rw [if_pos hdiv]
    have hpos : Math.GetPointLinePos2D (Q.vertices.get ix1) (R.segments.get ix2).line_equation
        = Math.EnPointLinePos2D.enPointLinePos2D_BelongsTo := by
      rw [GetPointLinePos2D_belongs_iff, e2]
      exact IsZeroOrCloseTo_zero
    rw [if_pos hpos]
    have hclose : Math.IsZeroOrCloseTo
        (Math.Get2DDistanceSquared (Q.vertices.get ix1) (R.vertices.get ix2)) = true := by
      rw [hv]
      simp [Math.Get2DDistanceSquared, IsZeroOrCloseTo_zero]
    simp [hclose]
  · rw [if_neg hdiv]
    have hne := ne_zero_of_not_IsZeroOrCloseTo hdiv
    rw [l1, l2]
    simp only [lineVal] at e1 e2
    generalize (Q.segments.get ix1).line_equation = L1 at e1 e2 hne ⊢
    generalize (R.segments.get ix2).line_equation = L2 at e1 e2 hne ⊢
    rw [← hv]
    generalize Q.vertices.get ix1 = v at e1 e2 ⊢
    generalize Q.vertices.get ((ix1 + 1) % 4) = p12
    generalize R.vertices.get ((ix2 + 1) % 4) = p22
    have hx : -(L1.c * L2.b - L2.c * L1.b) / (L1.a * L2.b - L2.a * L1.b) = v.x := by
      rw [div_eq_iff hne]
      linear_combination (-L2.b) * e1 + L1.b * e2
    have hy : (L2.a * L1.c - L1.a * L2.c) / (L1.a * L2.b - L2.a * L1.b) = v.y := by
      rw [div_eq_iff hne]
      linear_combination L2.a * e1 - L1.a * e2
    rw [hx, hy]
    simp only [Math.Get2DDistanceSquaredXY]
    have n1 : ¬ ((v.x - v.x) * (v.x - v.x) + (v.y - v.y) * (v.y - v.y)
        > (v.x - p12.x) * (v.x - p12.x) + (v.y - p12.y) * (v.y - p12.y)) := by
      rw [sub_self, sub_self]
      nlinarith [mul_self_nonneg (v.x - p12.x), mul_self_nonneg (v.y - p12.y)]
    have n2 : ¬ ((p12.x - v.x) * (p12.x - v.x) + (p12.y - v.y) * (p12.y - v.y)
        > (v.x - p12.x) * (v.x - p12.x) + (v.y - p12.y) * (v.y - p12.y)) := by
      nlinarith
    have n3 : ¬ ((v.x - v.x) * (v.x - v.x) + (v.y - v.y) * (v.y - v.y)
        > (v.x - p22.x) * (v.x - p22.x) + (v.y - p22.y) * (v.y - p22.y)) := by
      rw [sub_self, sub_self]
      nlinarith [mul_self_nonneg (v.x - p22.x), mul_self_nonneg (v.y - p22.y)]
    have n4 : ¬ ((p22.x - v.x) * (p22.x - v.x) + (p22.y - v.y) * (p22.y - v.y)
        > (v.x - p22.x) * (v.x - p22.x) + (v.y - p22.y) * (v.y - p22.y)) := by
      nlinarith
    rw [if_neg n1, if_neg n2, if_neg n3, if_neg n4]

theorem QuadsHaveCommonPoints_of_edgePairHit {Q R : QuadInfo} {ix1 ix2 : Nat}
    (h1 : ix1 < 4) (h2 : ix2 < 4) (h : edgePairHit Q R ix1 ix2 = true) :
    QuadsHaveCommonPoints Q R = true := by
  rw [QuadsHaveCommonPoints_eq]
  have : anyEdgePairHit Q R = true := by
    unfold anyEdgePairHit
    rw [List.any_eq_true]
    refine ⟨ix1, by interval_cases ix1 <;> simp, ?_⟩
    rw [List.any_eq_true]
    exact ⟨ix2, by interval_cases ix2 <;> simp, h⟩
  rw [this]
  rfl

/-- The quad info of the square with corners `(10,10)`, `(10,20)`, `(20,20)`, `(20,10)`,
which shares the corner `(10,10)` with `exampleSquare`. -/
theorem GetQuadInfo_exampleCornerSquare :
    GetQuadInfo ⟨10, 10⟩ ⟨10, 20⟩ ⟨20, 20⟩ ⟨20, 10⟩ = Except.ok exampleCornerSquare := by decide!

/-- C25: two valid quads (quads for which `GetQuadInfo` returns) that share a vertex are
always reported as having common points: when vertex number `i` of `Q` equals vertex number
`j` of `R`, the edges that start at the two vertices are found to touch, whether their lines
are treated as parallel (the shared endpoint is seen) or as crossing (the crossing point is
the shared vertex), so `QuadsHaveCommonPoints Q R` is `true`. -/
theorem shared_vertex_counts_as_common_point (p1 p2 p3 p4 r1 r2 r3 r4 : Math.Point2D)
    (Q R : QuadInfo) (hQ : GetQuadInfo p1 p2 p3 p4 = Except.ok Q)
    (hR : GetQuadInfo r1 r2 r3 r4 = Except.ok R) (i j : Nat) (hi : i < 4) (hj : j < 4)
    (hv : Q.vertices.get i = R.vertices.get j) :
    edgePairHit Q R i j = true ∧ QuadsHaveCommonPoints Q R = true := by
  have h := edgePairHit_of_shared_start Q R i j (GetQuadInfo_segment_get hQ i hi).1
    (GetQuadInfo_segment_get hQ i hi).2 (GetQuadInfo_segment_get hR j hj).1
    (GetQuadInfo_segment_get hR j hj).2 hv
  exact ⟨h, QuadsHaveCommonPoints_of_edgePairHit hi hj h⟩

theorem shared_vertex_counts_as_common_point_witness :
    exampleSquare.vertices.get 2 = exampleCornerSquare.vertices.get 0
    ∧ QuadsHaveCommonPoints exampleSquare exampleCornerSquare = true :=
  ⟨by decide!,
    (shared_vertex_counts_as_common_point ⟨0, 0⟩ ⟨0, 10⟩ ⟨10, 10⟩ ⟨10, 0⟩
      ⟨10, 10⟩ ⟨10, 20⟩ ⟨20, 20⟩ ⟨20, 10⟩ exampleSquare exampleCornerSquare
      GetQuadInfo_exampleSquare GetQuadInfo_exampleCornerSquare 2 0 (by decide) (by decide)
      (by decide!)).2⟩

/-! ## C26, C27: the open list and the encircling quad as a filter -/

theorem GetQuadInfo_exampleAdjacentSquare :
    GetQuadInfo ⟨10, 0⟩ ⟨10, 10⟩ ⟨20, 10⟩ ⟨20, 0⟩ = Except.ok exampleAdjacentSquare := by decide!

/-- C26 (as stated, fails): on the new checker, `StartEncirclingQuad`, `AddQuad` of the
square `(0,0) (0,10) (10,10) (10,0)` and `AddQuad` of the adjacent square
`(10,0) (10,10) (20,10) (20,0)` succeed and leave one open slot; the valid quad
`(4,4) (5,5) (6,4) (5,3)` has common points with the first sibling only (none with the
second, and there is no other slot), and the third `AddQuad` is rejected with the
intersection error. -/
theorem open_list_sibling_is_tested :
    (IntersectionChecker.StartEncirclingQuad >>= fun _ =>
      IntersectionChecker.AddQuad ⟨0, 0⟩ ⟨0, 10⟩ ⟨10, 10⟩ ⟨10, 0⟩ >>= fun _ =>
      IntersectionChecker.AddQuad ⟨10, 0⟩ ⟨10, 10⟩ ⟨20, 10⟩ ⟨20, 0⟩) {}
      = (Except.ok (), exampleOpenList)
    ∧ GetQuadInfo ⟨4, 4⟩ ⟨5, 5⟩ ⟨6, 4⟩ ⟨5, 3⟩ = Except.ok exampleInnerQuad
    ∧ QuadsHaveCommonPoints exampleSquare exampleInnerQuad = true
    ∧ QuadsHaveCommonPoints exampleAdjacentSquare exampleInnerQuad = false
    ∧ IntersectionChecker.AddQuad ⟨4, 4⟩ ⟨5, 5⟩ ⟨6, 4⟩ ⟨5, 3⟩ exampleOpenList
        = (Except.error Err.intersection, exampleOpenList) := by
  decide!

theorem neighborQuad_open_list {ck : IntersectionChecker} {L : List QuadWithSubquads}
    {back : QuadWithSubquads} {subs : List QuadInfo} (hL : ck.m_quads = L ++ [back])
    (hsec : back.second = some subs) (hne : subs ≠ []) :
    ck.neighborQuad = Except.ok
      (if ck.m_new_figure then none else some (QuadRef.sub L.length (subs.length - 1))) := by
  obtain ⟨quads, nf⟩ := ck
  simp only at hL
  subst hL
  cases nf with
  | true => exact neighborQuad_new_figure _
  | false => exact neighborQuad_subs L back subs hsec hne

theorem slotStep_open_hit {n : Option QuadRef} {q : QuadInfo} {size : Nat}
    {slot : QuadWithSubquads} {subs : List QuadInfo} (hnull : slot.first.IsNull = true)
    (hsec : slot.second = some subs) (j : Nat) (r : QuadInfo) (hr : subs.get? j = some r)
    (hn : n ≠ some (QuadRef.sub (size - 1) j)) (hn1 : n ≠ some (QuadRef.first (size - 1)))
    (h : QuadsHaveCommonPoints r q = true) :
    IntersectionChecker.slotStep n q size slot (size - 1) = some (Except.ok false) := by
  have hinner : IntersectionChecker.innerQuadsHit n q (size - 1) subs 0 = true :=
    innerQuadsHit_eq_true n q _ subs 0 ⟨j, r, hr, by rwa [Nat.zero_add], h⟩
  have hlen : subs.length ≠ 0 := by
    intro h0
    rw [List.length_eq_zero] at h0
    rw [h0] at hr
    simp at hr
  unfold IntersectionChecker.slotStep
  rw [if_neg hn1, hsec]
  simp [hlen, hnull, hinner]

/-- C26 (amended): while an encircling sub-quad list is open, a new sub-quad is tested
against its siblings in the same open list, the most recently added sibling excepted
(and that one too after `CutFigure`).  In a well-formed checker whose last slot is an
open list with sub-quads `subs`, `AddQuad` of a valid quad that has common points with
the sibling number `j` is rejected with the intersection error when `j` is not the last
index or the figure has been cut; and when no cut has been issued, a valid quad without
common points with any stored quad or sub-quad other than the last sibling is
accepted. -/
theorem open_list_tests_all_but_last_sibling (p1 p2 p3 p4 : Math.Point2D) (q : QuadInfo)
    (hq : GetQuadInfo p1 p2 p3 p4 = Except.ok q) (ck : IntersectionChecker) (hwf : ck.WF)
    (L : List QuadWithSubquads) (back : QuadWithSubquads) (subs : List QuadInfo)
    (hL : ck.m_quads = L ++ [back]) (hnull : back.first.IsNull = true)
    (hsec : back.second = some subs) :
    (∀ j r, subs.get? j = some r → (j + 1 < subs.length ∨ ck.m_new_figure = true) →
      QuadsHaveCommonPoints r q = true →
      IntersectionChecker.AddQuad p1 p2 p3 p4 ck = (Except.error Err.intersection, ck))
    ∧ (ck.m_new_figure = false →
        (∀ r ∈ ck.storedQuads.dropLast, QuadsHaveCommonPoints r q = false) →
        IntersectionChecker.AddQuad p1 p2 p3 p4 ck = (Except.ok (), ck.storeQuad q)) := by
  constructor
  · intro j r hr hj hhit
    have hne : subs ≠ [] := by
      intro h0
      rw [h0] at hr
      simp at hr
    have hlen : ck.m_quads.length - 1 = L.length := by rw [hL]; simp
    apply AddQuad_rejects_of_hit hq ck hwf _ (neighborQuad_open_list hL hsec hne)
    refine ⟨L.length, back, ?_, ?_⟩
    · rw [hL, List.get?_eq_getElem?, List.getElem?_append_right (le_refl _)]
      simp
    · rw [Nat.zero_add, ← hlen]
      refine slotStep_open_hit hnull hsec j r hr ?_ ?_ hhit
      · rw [hlen]
        rcases hj with hj | hj
        · split_ifs
          · simp
          · simp only [ne_eq, Option.some.injEq, QuadRef.sub.injEq, true_and]
            omega
        · rw [hj]
          simp
      · split_ifs <;> simp
  · intro hnf h
    rw [AddQuad_of_check hq, QuadDoesNotIntersectOthers_of_neighbor_only ck q hwf hnf h]

theorem open_list_tests_all_but_last_sibling_witness :
    GetQuadInfo ⟨4, 4⟩ ⟨5, 5⟩ ⟨6, 4⟩ ⟨5, 3⟩ = Except.ok exampleInnerQuad
    ∧ QuadsHaveCommonPoints exampleSquare exampleInnerQuad = true
    ∧ IntersectionChecker.AddQuad ⟨4, 4⟩ ⟨5, 5⟩ ⟨6, 4⟩ ⟨5, 3⟩ exampleOpenList
        = (Except.error Err.intersection, exampleOpenList) :=
  ⟨GetQuadInfo_exampleInnerQuad, by decide!,
    (open_list_tests_all_but_last_sibling ⟨4, 4⟩ ⟨5, 5⟩ ⟨6, 4⟩ ⟨5, 3⟩ exampleInnerQuad
      GetQuadInfo_exampleInnerQuad exampleOpenList (by intro slot hs; simp [exampleOpenList] at hs)
      [] { first := {}, second := some [exampleSquare, exampleAdjacentSquare] }
      [exampleSquare, exampleAdjacentSquare] rfl (by decide!) rfl).1 0 exampleSquare rfl
      (Or.inl (by decide)) (by decide!)⟩

theorem innerQuadsHit_iff (n : Option QuadRef) (q : QuadInfo) (oqix : Nat)
    (subs : List QuadInfo) :
    IntersectionChecker.innerQuadsHit n q oqix subs 0 = true
      ↔ ∃ j r, subs.get? j = some r ∧ n ≠ some (QuadRef.sub oqix j)
          ∧ QuadsHaveCommonPoints r q = true := by
  constructor
  · intro h
    by_contra hno
    have hf := innerQuadsHit_eq_false n q oqix subs 0 (by
      intro idx r hr hn
      rw [Nat.zero_add] at hn
      by_contra hc
      exact hno ⟨idx, r, hr, hn, by simpa using hc⟩)
    rw [hf] at h
    exact absurd h (by decide)
  · rintro ⟨j, r, hr, hn, hc⟩
    exact innerQuadsHit_eq_true n q oqix subs 0 ⟨j, r, hr, by rwa [Nat.zero_add], hc⟩

theorem slotStep_closed_iff (n : Option QuadRef) (q : QuadInfo) (size : Nat)
    (slot : QuadWithSubquads) (idx : Nat) (hc : slot.Closed) :
    (IntersectionChecker.slotStep n q size slot idx = some (Except.ok false)
      ↔ (n ≠ some (QuadRef.first idx) ∧ QuadsHaveCommonPoints slot.first q = true ∧
          match slot.second with
          | none => True
          | some subs => ∃ j r, subs.get? j = some r ∧ n ≠ some (QuadRef.sub idx j)
              ∧ QuadsHaveCommonPoints r q = true))
    ∧ (IntersectionChecker.slotStep n q size slot idx = none
        ∨ IntersectionChecker.slotStep n q size slot idx = some (Except.ok false)) := by
  unfold QuadWithSubquads.Closed at hc
  unfold IntersectionChecker.slotStep
  cases hsec : slot.second with
  | none =>
    simp only []
    split_ifs with h1 h2 <;> simp_all
  | some subs =>
    rw [hsec] at hc
    have hlen : subs.length ≠ 0 := by
      intro h0
      exact hc.1 (List.length_eq_zero.mp h0)
    have hin := innerQuadsHit_iff n q idx subs
    simp only [hlen, hc.2]
    cases hinner : IntersectionChecker.innerQuadsHit n q idx subs 0 with
    | true =>
      have := hin.mp hinner
      split_ifs with h1 h2 <;> simp_all
    | false =>
      have hno : ¬ ∃ j r, subs.get? j = some r ∧ n ≠ some (QuadRef.sub idx j)
          ∧ QuadsHaveCommonPoints r q = true := by
        intro h
        rw [hin.mpr h] at hinner
        exact absurd hinner (by decide)
      have hno1 : ∀ (x : ℕ) (x_1 : QuadInfo), subs.get? x = some x_1 →
          ¬ n = some (QuadRef.sub idx x) → ¬ QuadsHaveCommonPoints x_1 q = true := by
        intro x r hr hn hcp
        exact hno ⟨x, r, hr, hn, hcp⟩
      split_ifs with h1 h2 <;> simp_all
      assumption

theorem slotsLoop_all_none (n : Option QuadRef) (q : QuadInfo) (size : Nat)
    (l : List QuadWithSubquads) (k : Nat)
    (h : ∀ idx slot, l.get? idx = some slot →
      IntersectionChecker.slotStep n q size slot (k + idx) = none) :
    IntersectionChecker.slotsLoop n q size l k = Except.ok true := by
  have := slotsLoop_append_of_none n q size l [] k h
  rw [List.append_nil] at this
  rw [this]
  rfl

theorem QuadDoesNotIntersectOthers_closed (ck : IntersectionChecker) (q : QuadInfo)
    (hclosed : ∀ slot ∈ ck.m_quads, slot.Closed) (n : Option QuadRef)
    (hn : ck.neighborQuad = Except.ok n) :
    (ck.QuadDoesNotIntersectOthers q = Except.ok false ∧ ck.FilteredHit n q)
    ∨ (ck.QuadDoesNotIntersectOthers q = Except.ok true ∧ ¬ ck.FilteredHit n q) := by
  have hwf : ck.WF := fun slot hs => hclosed slot (List.mem_of_mem_dropLast hs)
  simp only [IntersectionChecker.QuadDoesNotIntersectOthers, hn]
  by_cases hf : ck.FilteredHit n q
  · left
    refine ⟨?_, hf⟩
    obtain ⟨idx, slot, hs, h1, h2, h3⟩ := hf
    apply slotsLoop_hit n q _ ck.m_quads 0 (WF_safe hwf)
    refine ⟨idx, slot, hs, ?_⟩
    rw [Nat.zero_add]
    exact (slotStep_closed_iff n q _ slot idx (hclosed slot (List.get?_mem hs))).1.mpr
      ⟨h1, h2, h3⟩
  · right
    refine ⟨?_, hf⟩
    apply slotsLoop_all_none
    intro idx slot hs
    rw [Nat.zero_add]
    have hc := slotStep_closed_iff n q ck.m_quads.length slot idx (hclosed slot (List.get?_mem hs))
    rcases hc.2 with h0 | h0
    · exact h0
    · exfalso
      obtain ⟨h1, h2, h3⟩ := hc.1.mp h0
      exact hf ⟨idx, slot, hs, h1, h2, h3⟩

theorem FilteredHit_naive {ck : IntersectionChecker} {n : Option QuadRef} {q : QuadInfo}
    (h : ck.FilteredHit n q) : ck.NaiveHit n q := by
  obtain ⟨idx, slot, hs, h1, h2, h3⟩ := h
  refine ⟨idx, slot, hs, ?_⟩
  cases hsec : slot.second with
  | none => exact ⟨h1, h2⟩
  | some subs =>
    rw [hsec] at h3
    exact h3

theorem GetQuadInfo_exampleDiamond :
    GetQuadInfo ⟨1 / 200000, 5⟩ ⟨3, 8⟩ ⟨6, 5⟩ ⟨3, 2⟩ = Except.ok exampleDiamond := by decide!

/-- C27 (as stated, fails): the checker built by `StartEncirclingQuad`, `AddQuad` of
`(0,0) (0,10) (5,10) (5,0)`, `AddQuad` of `(5,0) (5,10) (10,10) (10,0)` and
`EndEncirclingQuad` has one closed slot with the encircling quad
`(0,0) (0,10) (10,10) (10,0)`; the exempt neighbour is the second sub-quad.  The valid
candidate `(1/200000, 5) (3,8) (6,5) (3,2)` has common points with the first sub-quad
(the naive check rejects it), but none with the encircling quad, and `AddQuad` accepts
it. -/
theorem encircling_filter_changes_verdict :
    (IntersectionChecker.StartEncirclingQuad >>= fun _ =>
      IntersectionChecker.AddQuad ⟨0, 0⟩ ⟨0, 10⟩ ⟨5, 10⟩ ⟨5, 0⟩ >>= fun _ =>
      IntersectionChecker.AddQuad ⟨5, 0⟩ ⟨5, 10⟩ ⟨10, 10⟩ ⟨10, 0⟩ >>= fun _ =>
      IntersectionChecker.EndEncirclingQuad) {}
      = (Except.ok (), exampleClosedList)
    ∧ GetQuadInfo ⟨1 / 200000, 5⟩ ⟨3, 8⟩ ⟨6, 5⟩ ⟨3, 2⟩ = Except.ok exampleDiamond
    ∧ exampleClosedList.neighborQuad = Except.ok (some (QuadRef.sub 0 1))
    ∧ QuadsHaveCommonPoints exampleLeftHalf exampleDiamond = true
    ∧ QuadsHaveCommonPoints exampleSquare exampleDiamond = false
    ∧ IntersectionChecker.AddQuad ⟨1 / 200000, 5⟩ ⟨3, 8⟩ ⟨6, 5⟩ ⟨3, 2⟩ exampleClosedList
        = (Except.ok (), exampleClosedList.storeQuad exampleDiamond) := by
  decide!

/-- C27 (amended): in a checker state in which all encircling lists are closed,
`AddQuad` accepts a valid candidate if and only if no slot, other than the exempt
neighbour, whose quad (for a list: its encircling quad) has common points with the
candidate is a plain quad or holds a non-exempt sub-quad that has common points with
the candidate; otherwise it throws the intersection error.  Hence a candidate that
passes the naive check against every stored quad other than the exempt neighbour is
accepted (the converse is what fails). -/
theorem encircling_filter_verdict (p1 p2 p3 p4 : Math.Point2D) (q : QuadInfo)
    (hq : GetQuadInfo p1 p2 p3 p4 = Except.ok q) (ck : IntersectionChecker)
    (hclosed : ∀ slot ∈ ck.m_quads, slot.Closed) (n : Option QuadRef)
    (hn : ck.neighborQuad = Except.ok n) :
    (IntersectionChecker.AddQuad p1 p2 p3 p4 ck = (Except.ok (), ck.storeQuad q)
      ↔ ¬ ck.FilteredHit n q)
    ∧ (IntersectionChecker.AddQuad p1 p2 p3 p4 ck = (Except.error Err.intersection, ck)
      ↔ ck.FilteredHit n q)
    ∧ (¬ ck.NaiveHit n q →
        IntersectionChecker.AddQuad p1 p2 p3 p4 ck = (Except.ok (), ck.storeQuad q)) := by
  rw [AddQuad_of_check hq]
  rcases QuadDoesNotIntersectOthers_closed ck q hclosed n hn with ⟨h, hf⟩ | ⟨h, hf⟩
  · rw [h]
    refine ⟨?_, ?_, ?_⟩
    · simp [hf]
    · simp [hf]
    · intro hnaive
      exact absurd (FilteredHit_naive hf) hnaive
  · rw [h]
    refine ⟨?_, ?_, ?_⟩
    · simp [hf]
    · simp [hf]
    · intro _
      rfl

theorem encircling_filter_verdict_witness :
    (∀ slot ∈ exampleClosedList.m_quads, slot.Closed)
    ∧ (IntersectionChecker.AddQuad ⟨1 / 200000, 5⟩ ⟨3, 8⟩ ⟨6, 5⟩ ⟨3, 2⟩ exampleClosedList
          = (Except.ok (), exampleClosedList.storeQuad exampleDiamond)
        ↔ ¬ exampleClosedList.FilteredHit (some (QuadRef.sub 0 1)) exampleDiamond) :=
  ⟨by
    intro slot hs
    simp only [exampleClosedList, List.mem_singleton] at hs
    subst hs
    exact ⟨by simp, by decide!⟩,
   (encircling_filter_verdict ⟨1 / 200000, 5⟩ ⟨3, 8⟩ ⟨6, 5⟩ ⟨3, 2⟩ exampleDiamond
      GetQuadInfo_exampleDiamond exampleClosedList (by
        intro slot hs
        simp only [exampleClosedList, List.mem_singleton] at hs
        subst hs
        exact ⟨by simp, by decide!⟩) (some (QuadRef.sub 0 1)) (by decide!)).1⟩

/-! ## C28, C29: closing an encircling quad -/

theorem foldl_min_spec (f : Math.Point2D → ℚ) :
    ∀ (l : List Math.Point2D) (init : ℚ),
      (l.foldl (fun m p => if f p < m then f p else m) init ≤ init)
      ∧ (∀ p ∈ l, l.foldl (fun m p => if f p < m then f p else m) init ≤ f p)
      ∧ (l.foldl (fun m p => if f p < m then f p else m) init = init
          ∨ ∃ p ∈ l, l.foldl (fun m p => if f p < m then f p else m) init = f p)
  | [], init => ⟨le_refl _, by intro p hp; simp at hp, Or.inl rfl⟩
  | p0 :: rest, init => by
    obtain ⟨h1, h2, h3⟩ := foldl_min_spec f rest (if f p0 < init then f p0 else init)
    simp only [List.foldl_cons]
    refine ⟨?_, ?_, ?_⟩
    · refine le_trans h1 ?_
      split_ifs with h
      · exact le_of_lt h
      · exact le_refl _
    · intro p hp
      rcases List.mem_cons.mp hp with hp | hp
      · subst hp
        refine le_trans h1 ?_
        split_ifs with h
        · exact le_refl _
        · exact not_lt.mp h
      · exact h2 p hp
    · rcases h3 with h3 | ⟨p, hp, h3⟩
      · by_cases h : f p0 < init
        · right
          refine ⟨p0, List.mem_cons_self _ _, ?_⟩
          rw [h3, if_pos h]
        · left
          rw [h3, if_neg h]
      · exact Or.inr ⟨p, List.mem_cons_of_mem _ hp, h3⟩

theorem foldl_max_spec (f : Math.Point2D → ℚ) :
    ∀ (l : List Math.Point2D) (init : ℚ),
      (init ≤ l.foldl (fun m p => if f p > m then f p else m) init)
      ∧ (∀ p ∈ l, f p ≤ l.foldl (fun m p => if f p > m then f p else m) init)
      ∧ (l.foldl (fun m p => if f p > m then f p else m) init = init
          ∨ ∃ p ∈ l, l.foldl (fun m p => if f p > m then f p else m) init = f p)
  | [], init => ⟨le_refl _, by intro p hp; simp at hp, Or.inl rfl⟩
  | p0 :: rest, init => by
    obtain ⟨h1, h2, h3⟩ := foldl_max_spec f rest (if f p0 > init then f p0 else init)
    simp only [List.foldl_cons]
    refine ⟨?_, ?_, ?_⟩
    · refine le_trans ?_ h1
      split_ifs with h
      · exact le_of_lt h
      · exact le_refl _
    · intro p hp
      rcases List.mem_cons.mp hp with hp | hp
      · subst hp
        refine le_trans ?_ h1
        split_ifs with h
        · exact le_refl _
        · exact not_lt.mp h
      · exact h2 p hp
    · rcases h3 with h3 | ⟨p, hp, h3⟩
      · by_cases h : f p0 > init
        · right
          refine ⟨p0, List.mem_cons_self _ _, ?_⟩
          rw [h3, if_pos h]
        · left
          rw [h3, if_neg h]
      · exact Or.inr ⟨p, List.mem_cons_of_mem _ hp, h3⟩

theorem not_IsZeroOrCloseTo_neg {val : ℚ} (h : ¬ Math.IsZeroOrCloseTo val = true) :
    ¬ Math.IsZeroOrCloseTo (-val) = true := by
  rw [IsZeroOrCloseTo_iff] at h ⊢
  intro hc
  exact h ⟨by linarith [hc.2], by linarith [hc.1]⟩

theorem coeffsDivider_left {a : ℚ} (h : ¬ Math.IsZeroOrCloseTo a = true) :
    coeffsDivider a 0 = a := by
  unfold coeffsDivider
  simp [h, IsZeroOrCloseTo_zero]

theorem coeffsDivider_right {b : ℚ} (h : ¬ Math.IsZeroOrCloseTo b = true) :
    coeffsDivider 0 b = b := by
  unfold coeffsDivider
  simp [h, IsZeroOrCloseTo_zero]

/-- The function `GetQuadInfo` succeeds on an axis-aligned rectangle given in the order
of `EndEncirclingQuad` when its width and height are not within the tolerance of
zero. -/
theorem GetQuadInfo_rectangle (xmin ymin xmax ymax : ℚ)
    (hw : ¬ Math.IsZeroOrCloseTo (xmax - xmin) = true)
    (hh : ¬ Math.IsZeroOrCloseTo (ymax - ymin) = true) :
    ∃ q, GetQuadInfo ⟨xmin, ymin⟩ ⟨xmin, ymax⟩ ⟨xmax, ymax⟩ ⟨xmax, ymin⟩ = Except.ok q := by
  have hw0 := ne_zero_of_not_IsZeroOrCloseTo hw
  have hh0 := ne_zero_of_not_IsZeroOrCloseTo hh
  have hw1 : ¬ Math.IsZeroOrCloseTo (xmin - xmax) = true := by
    have := not_IsZeroOrCloseTo_neg hw
    rwa [neg_sub] at this
  have hh1 : ¬ Math.IsZeroOrCloseTo (ymin - ymax) = true := by
    have := not_IsZeroOrCloseTo_neg hh
    rwa [neg_sub] at this
  have hw2 := ne_zero_of_not_IsZeroOrCloseTo hw1
  have hh2 := ne_zero_of_not_IsZeroOrCloseTo hh1
  apply GetQuadInfo_isOk_of_segments
  · refine segment_isOk_of_cross _ 0 (-((xmax - xmin) * (ymax - ymin))) ?_ ?_ ?_
    · simp only [Arr4.get, cross]; ring
    · simp only [Arr4.get, cross]; ring
    · simp only [Arr4.get, sub_self, coeffsDivider_left hh]
      rw [neg_neg, mul_div_assoc, div_self hh0, mul_one]
      exact hw
  · refine segment_isOk_of_cross _ 1 (-((xmax - xmin) * (ymax - ymin))) ?_ ?_ ?_
    · simp only [Arr4.get, cross]; ring
    · simp only [Arr4.get, cross]; ring
    · simp only [Arr4.get, sub_self, coeffsDivider_right hw1]
      rw [neg_neg, show (xmax - xmin) * (ymax - ymin) / (xmin - xmax) = ymin - ymax by
        field_simp; ring]
      exact hh1
  · refine segment_isOk_of_cross _ 2 (-((xmax - xmin) * (ymax - ymin))) ?_ ?_ ?_
    · simp only [Arr4.get, cross]; ring
    · simp only [Arr4.get, cross]; ring
    · simp only [Arr4.get, sub_self, coeffsDivider_left hh1]
      rw [neg_neg, show (xmax - xmin) * (ymax - ymin) / (ymin - ymax) = xmin - xmax by
        field_simp; ring]
      exact hw1
  · refine segment_isOk_of_cross _ 3 (-((xmax - xmin) * (ymax - ymin))) ?_ ?_ ?_
    · simp only [Arr4.get, cross]; ring
    · simp only [Arr4.get, cross]; ring
    · simp only [Arr4.get, sub_self, coeffsDivider_right hw]
      rw [neg_neg, mul_comm, mul_div_assoc, div_self hw0, mul_one]
      exact hh

theorem allVertices_cons_mem (q0 : QuadInfo) (qs : List QuadInfo) :
    q0.vertices.get 0 ∈ IntersectionChecker.allVertices (q0 :: qs) := by
  simp [IntersectionChecker.allVertices]

theorem foldl_bounding_box (vs : List Math.Point2D) (p0 : Math.Point2D) (h0 : p0 ∈ vs) :
    IsBoundingBox vs
      (vs.foldl (fun m p => if p.x < m then p.x else m) p0.x)
      (vs.foldl (fun m p => if p.y < m then p.y else m) p0.y)
      (vs.foldl (fun m p => if p.x > m then p.x else m) p0.x)
      (vs.foldl (fun m p => if p.y > m then p.y else m) p0.y) := by
  obtain ⟨_, a2, a3⟩ := foldl_min_spec (fun p => p.x) vs p0.x
  obtain ⟨_, b2, b3⟩ := foldl_min_spec (fun p => p.y) vs p0.y
  obtain ⟨_, c2, c3⟩ := foldl_max_spec (fun p => p.x) vs p0.x
  obtain ⟨_, d2, d3⟩ := foldl_max_spec (fun p => p.y) vs p0.y
  refine ⟨fun v hv => ⟨a2 v hv, c2 v hv, b2 v hv, d2 v hv⟩, ?_, ?_, ?_, ?_⟩
  · rcases a3 with h | ⟨p, hp, h⟩
    · exact ⟨p0, h0, h.symm⟩
    · exact ⟨p, hp, h.symm⟩
  · rcases c3 with h | ⟨p, hp, h⟩
    · exact ⟨p0, h0, h.symm⟩
    · exact ⟨p, hp, h.symm⟩
  · rcases b3 with h | ⟨p, hp, h⟩
    · exact ⟨p0, h0, h.symm⟩
    · exact ⟨p, hp, h.symm⟩
  · rcases d3 with h | ⟨p, hp, h⟩
    · exact ⟨p0, h0, h.symm⟩
    · exact ⟨p, hp, h.symm⟩

theorem IsBoundingBox.unique {vs : List Math.Point2D} {a b c d a1 b1 c1 d1 : ℚ}
    (h : IsBoundingBox vs a b c d) (h1 : IsBoundingBox vs a1 b1 c1 d1) :
    a = a1 ∧ b = b1 ∧ c = c1 ∧ d = d1 := by
  obtain ⟨hb, ⟨v1, m1, e1⟩, ⟨v2, m2, e2⟩, ⟨v3, m3, e3⟩, ⟨v4, m4, e4⟩⟩ := h
  obtain ⟨hb1, ⟨w1, n1, f1⟩, ⟨w2, n2, f2⟩, ⟨w3, n3, f3⟩, ⟨w4, n4, f4⟩⟩ := h1
  refine ⟨le_antisymm ?_ ?_, le_antisymm ?_ ?_, le_antisymm ?_ ?_, le_antisymm ?_ ?_⟩
  · rw [← f1]; exact (hb w1 n1).1
  · rw [← e1]; exact (hb1 v1 m1).1
  · rw [← f3]; exact (hb w3 n3).2.2.1
  · rw [← e3]; exact (hb1 v3 m3).2.2.1
  · rw [← e2]; exact (hb1 v2 m2).2.1
  · rw [← f2]; exact (hb w2 n2).2.1
  · rw [← e4]; exact (hb1 v4 m4).2.2.2
  · rw [← f4]; exact (hb w4 n4).2.2.2

theorem EndEncirclingQuad_cases (ck : IntersectionChecker) :
    (ck.HavePendingEncirclingQuad = false
      ∧ IntersectionChecker.EndEncirclingQuad ck = (Except.ok (), ck))
    ∨ (ck.HavePendingEncirclingQuad = true
      ∧ ∃ back, ck.m_quads.getLast? = some back ∧ back.second = some []
        ∧ IntersectionChecker.EndEncirclingQuad ck
          = (Except.ok (), { ck with m_quads := ck.m_quads.dropLast }))
    ∨ (ck.HavePendingEncirclingQuad = true
      ∧ ∃ back subs xmin ymin xmax ymax, ck.m_quads.getLast? = some back
        ∧ back.second = some subs ∧ subs ≠ []
        ∧ IsBoundingBox (IntersectionChecker.allVertices subs) xmin ymin xmax ymax
        ∧ (((Math.IsZeroOrCloseTo (xmax - xmin) = true
              ∨ Math.IsZeroOrCloseTo (ymax - ymin) = true)
            ∧ IntersectionChecker.EndEncirclingQuad ck
              = (Except.ok (), { ck with m_quads := ck.m_quads.dropLast }))
          ∨ (¬ Math.IsZeroOrCloseTo (xmax - xmin) = true
            ∧ ¬ Math.IsZeroOrCloseTo (ymax - ymin) = true
            ∧ ∃ q, GetQuadInfo ⟨xmin, ymin⟩ ⟨xmin, ymax⟩ ⟨xmax, ymax⟩ ⟨xmax, ymin⟩
                = Except.ok q
              ∧ IntersectionChecker.EndEncirclingQuad ck
                = (Except.ok (),
                    { ck with m_quads := ck.m_quads.dropLast
                        ++ [{ back with first := q }] })))) := by
  rcases HavePending_cases ck with ⟨hp, L, back, subs, hL, hnull, hsec⟩ | ⟨hp, _⟩
  · right
    have hlast : ck.m_quads.getLast? = some back := by rw [hL, List.getLast?_concat]
    cases subs with
    | nil =>
      left
      refine ⟨hp, back, hlast, hsec, ?_⟩
      simp only [IntersectionChecker.EndEncirclingQuad, M.run_bind, M.run_read, hp, hlast, hsec]
      rfl
    | cons q0 qs =>
      right
      have hbox := foldl_bounding_box (IntersectionChecker.allVertices (q0 :: qs))
        (q0.vertices.get 0) (allVertices_cons_mem q0 qs)
      refine ⟨hp, back, q0 :: qs, _, _, _, _, hlast, hsec, by simp, hbox, ?_⟩
      by_cases hdeg : (Math.IsZeroOrCloseTo
          ((IntersectionChecker.allVertices (q0 :: qs)).foldl
              (fun m p => if p.x > m then p.x else m) (q0.vertices.get 0).x
            - (IntersectionChecker.allVertices (q0 :: qs)).foldl
              (fun m p => if p.x < m then p.x else m) (q0.vertices.get 0).x)
          || Math.IsZeroOrCloseTo
            ((IntersectionChecker.allVertices (q0 :: qs)).foldl
                (fun m p => if p.y > m then p.y else m) (q0.vertices.get 0).y
              - (IntersectionChecker.allVertices (q0 :: qs)).foldl
                (fun m p => if p.y < m then p.y else m) (q0.vertices.get 0).y)) = true
      · left
        refine ⟨by simpa using hdeg, ?_⟩
        simp only [IntersectionChecker.EndEncirclingQuad, M.run_bind, M.run_read, hp, hlast, hsec,
          Option.getD_some]
        simp only [Bool.not_true, Bool.false_eq_true, if_false]
        rw [if_pos hdeg]
        rfl
      · right
        have hdeg1 := hdeg
        simp only [Bool.or_eq_true, not_or] at hdeg1
        obtain ⟨q, hq⟩ := GetQuadInfo_rectangle _ _ _ _ hdeg1.1 hdeg1.2
        refine ⟨hdeg1.1, hdeg1.2, q, hq, ?_⟩
        simp only [IntersectionChecker.EndEncirclingQuad, M.run_bind, M.run_read, hp, hlast, hsec,
          Option.getD_some]
        simp only [Bool.not_true, Bool.false_eq_true, if_false]
        rw [if_neg hdeg]
        simp only [M.run_bind, hq, M.run_ofExcept]
        rfl
  · left
    refine ⟨hp, ?_⟩
    simp only [IntersectionChecker.EndEncirclingQuad, M.run_bind, M.run_read, hp]
    rfl

/-- C28: when `EndEncirclingQuad` closes a non-empty sub-quad list whose extent is at
least `1e-5` in both axes (two sub-quad vertices differ by at least `1e-5` in `x`, and
two in `y`), it succeeds, and the slot's encircling quad is the quad info of the
rectangle `(xmin,ymin)`, `(xmin,ymax)`, `(xmax,ymax)`, `(xmax,ymin)` with exactly these
vertices, where `xmin`, `xmax`, `ymin`, `ymax` are the minimum and maximum coordinates
over all four vertices of all sub-quads of the list; every sub-quad vertex lies within
these bounds, and the sub-quad list and all other slots are unchanged. -/
theorem EndEncirclingQuad_stores_bounding_rectangle (ck : IntersectionChecker)
    (L : List QuadWithSubquads) (back : QuadWithSubquads) (subs : List QuadInfo)
    (hL : ck.m_quads = L ++ [back]) (hnull : back.first.IsNull = true)
    (hsec : back.second = some subs) (hne : subs ≠ [])
    (hx : ∃ u ∈ IntersectionChecker.allVertices subs,
      ∃ v ∈ IntersectionChecker.allVertices subs, 1 / 100000 ≤ v.x - u.x)
    (hy : ∃ u ∈ IntersectionChecker.allVertices subs,
      ∃ v ∈ IntersectionChecker.allVertices subs, 1 / 100000 ≤ v.y - u.y) :
    ∃ xmin ymin xmax ymax q,
      IsBoundingBox (IntersectionChecker.allVertices subs) xmin ymin xmax ymax
      ∧ (∀ v ∈ IntersectionChecker.allVertices subs,
          xmin ≤ v.x ∧ v.x ≤ xmax ∧ ymin ≤ v.y ∧ v.y ≤ ymax)
      ∧ GetQuadInfo ⟨xmin, ymin⟩ ⟨xmin, ymax⟩ ⟨xmax, ymax⟩ ⟨xmax, ymin⟩ = Except.ok q
      ∧ q.vertices = ⟨⟨xmin, ymin⟩, ⟨xmin, ymax⟩, ⟨xmax, ymax⟩, ⟨xmax, ymin⟩⟩
      ∧ IntersectionChecker.EndEncirclingQuad ck
        = (Except.ok (),
            { m_quads := L ++ [{ first := q, second := some subs }]
              m_new_figure := ck.m_new_figure }) := by
  have hlast : ck.m_quads.getLast? = some back := by rw [hL, List.getLast?_concat]
  have hpend : ck.HavePendingEncirclingQuad = true := by
    unfold IntersectionChecker.HavePendingEncirclingQuad
    rw [hlast]
    simp [hnull, hsec]
  rcases EndEncirclingQuad_cases ck with ⟨hp, _⟩ | ⟨_, back1, hb1, hs1, _⟩
    | ⟨_, back1, subs1, xmin, ymin, xmax, ymax, hb1, hs1, _, hbox, hcase⟩
  · rw [hpend] at hp
    exact absurd hp (by decide)
  · rw [hlast, Option.some.injEq] at hb1
    subst hb1
    rw [hsec, Option.some.injEq] at hs1
    exact absurd hs1 hne
  · rw [hlast, Option.some.injEq] at hb1
    subst hb1
    rw [hsec, Option.some.injEq] at hs1
    subst hs1
    obtain ⟨u, hu, v, hv, huv⟩ := hx
    obtain ⟨u1, hu1, v1, hv1, huv1⟩ := hy
    have bu := hbox.1 u hu
    have bv := hbox.1 v hv
    have bu1 := hbox.1 u1 hu1
    have bv1 := hbox.1 v1 hv1
    have hw : ¬ Math.IsZeroOrCloseTo (xmax - xmin) = true := by
      rw [IsZeroOrCloseTo_iff]
      intro hc
      linarith [hc.2, bu.1, bv.2.1]
    have hh : ¬ Math.IsZeroOrCloseTo (ymax - ymin) = true := by
      rw [IsZeroOrCloseTo_iff]
      intro hc
      linarith [hc.2, bu1.2.2.1, bv1.2.2.2]
    rcases hcase with ⟨hdeg, _⟩ | ⟨_, _, q, hq, hrun⟩
    · rcases hdeg with hdeg | hdeg
      · exact absurd hdeg hw
      · exact absurd hdeg hh
    · refine ⟨xmin, ymin, xmax, ymax, q, hbox, hbox.1, hq, (GetQuadInfo_ok hq).1, ?_⟩
      rw [hrun, hL, List.dropLast_concat]
      obtain ⟨bf, bs⟩ := back
      simp only at hsec
      subst hsec
      rfl

theorem EndEncirclingQuad_stores_bounding_rectangle_witness :
    IsBoundingBox
        (IntersectionChecker.allVertices [exampleLeftHalf, exampleRightHalf]) 0 0 10 10
    ∧ IntersectionChecker.EndEncirclingQuad exampleOpenHalves
        = (Except.ok (), exampleClosedList) := by
  obtain ⟨xmin, ymin, xmax, ymax, q, hbox, _, hq, _, hrun⟩ :=
    EndEncirclingQuad_stores_bounding_rectangle exampleOpenHalves []
      { first := {}, second := some [exampleLeftHalf, exampleRightHalf] }
      [exampleLeftHalf, exampleRightHalf] rfl (by decide!) rfl (by simp)
      ⟨⟨0, 0⟩, by decide!, ⟨10, 10⟩, by decide!, by norm_num⟩
      ⟨⟨0, 0⟩, by decide!, ⟨10, 10⟩, by decide!, by norm_num⟩
  have hbox0 : IsBoundingBox
      (IntersectionChecker.allVertices [exampleLeftHalf, exampleRightHalf]) 0 0 10 10 := by
    refine ⟨?_, ⟨⟨0, 0⟩, by decide!, rfl⟩, ⟨⟨10, 10⟩, by decide!, rfl⟩,
      ⟨⟨0, 0⟩, by decide!, rfl⟩, ⟨⟨10, 10⟩, by decide!, rfl⟩⟩
    decide!
  obtain ⟨e1, e2, e3, e4⟩ := hbox.unique hbox0
  subst e1 e2 e3 e4
  rw [GetQuadInfo_exampleSquare, Except.ok.injEq] at hq
  subst hq
  exact ⟨hbox0, hrun⟩

/-- C29: `EndEncirclingQuad` never raises an error.  In every checker state it returns
normally and either does nothing (no encircling quad under construction), or removes
the last slot (the open list is empty, or the bounding box of its sub-quad vertices has
width or height within the tolerance `1e-5` of zero), or stores the quad info of the
bounding rectangle in the last slot; in the last case `GetQuadInfo` on the axis-aligned
rectangle returns a quad info (it does not throw). -/
theorem EndEncirclingQuad_never_fails (ck : IntersectionChecker) :
    (∃ ck1, IntersectionChecker.EndEncirclingQuad ck = (Except.ok (), ck1))
    ∧ ((ck.HavePendingEncirclingQuad = false
        ∧ IntersectionChecker.EndEncirclingQuad ck = (Except.ok (), ck))
      ∨ (ck.HavePendingEncirclingQuad = true
        ∧ ∃ back, ck.m_quads.getLast? = some back ∧ back.second = some []
          ∧ IntersectionChecker.EndEncirclingQuad ck
            = (Except.ok (), { ck with m_quads := ck.m_quads.dropLast }))
      ∨ (ck.HavePendingEncirclingQuad = true
        ∧ ∃ back subs xmin ymin xmax ymax, ck.m_quads.getLast? = some back
          ∧ back.second = some subs ∧ subs ≠ []
          ∧ IsBoundingBox (IntersectionChecker.allVertices subs) xmin ymin xmax ymax
          ∧ (((Math.IsZeroOrCloseTo (xmax - xmin) = true
                ∨ Math.IsZeroOrCloseTo (ymax - ymin) = true)
              ∧ IntersectionChecker.EndEncirclingQuad ck
                = (Except.ok (), { ck with m_quads := ck.m_quads.dropLast }))
            ∨ (¬ Math.IsZeroOrCloseTo (xmax - xmin) = true
              ∧ ¬ Math.IsZeroOrCloseTo (ymax - ymin) = true
              ∧ ∃ q, GetQuadInfo ⟨xmin, ymin⟩ ⟨xmin, ymax⟩ ⟨xmax, ymax⟩ ⟨xmax, ymin⟩
                  = Except.ok q
                ∧ IntersectionChecker.EndEncirclingQuad ck
                  = (Except.ok (),
                      { ck with m_quads := ck.m_quads.dropLast
                          ++ [{ back with first := q }] }))))) := by
  have h := EndEncirclingQuad_cases ck
  refine ⟨?_, h⟩
  rcases h with ⟨_, h⟩ | ⟨_, _, _, _, h⟩ | ⟨_, _, _, _, _, _, _, _, _, _, _, h⟩
  · exact ⟨_, h⟩
  · exact ⟨_, h⟩
  · rcases h with ⟨_, h⟩ | ⟨_, _, _, _, h⟩
    · exact ⟨_, h⟩
    · exact ⟨_, h⟩

/-! ## C30: a line translates the cross-section -/

section LineTranslation

set_option linter.unreachableTactic false
set_option linter.unusedTactic false

open Udmf

namespace RoadFigure

theorem M_bind_ok_inv {σ α β : Type} {m : M σ α} {f : α → M σ β} {s s2 : σ} {b : β}
    (h : (m >>= f) s = (Except.ok b, s2)) :
    ∃ a s1, m s = (Except.ok a, s1) ∧ f a s1 = (Except.ok b, s2) := by
  rw [M.run_bind] at h
  rcases hm : m s with ⟨r, s1⟩
  rw [hm] at h
  cases r with
  | error e => simp at h
  | ok a => exact ⟨a, s1, rfl, h⟩

theorem Ext.initial (s0 : RoadFigure) : Ext s0 [] 0 0 s0.m_v s0 :=
  ⟨by simp, ⟨[], by simp, rfl⟩, ⟨[], by simp, rfl⟩, rfl, rfl, rfl, rfl, rfl⟩

theorem Ext.recast {s0 s : RoadFigure} {vs vs1 : List Vertex} {nl nsd nl1 nsd1 : Nat}
    {mv mv1 : VSlot → Vertex} (h : Ext s0 vs nl nsd mv s) (h1 : vs = vs1) (h2 : nl = nl1)
    (h3 : nsd = nsd1) (h4 : mv = mv1) : Ext s0 vs1 nl1 nsd1 mv1 s := by
  subst h1 h2 h3 h4
  exact h

theorem ext_lastV {slot : VSlot} {Q : Nat → RoadFigure → Prop} {s : RoadFigure}
    (hQ : ∀ id, Q id s) : M.wlp (lastV slot) Q s := by
  unfold M.wlp lastV
  cases hl : s.m_last_ids_v slot with
  | none => trivial
  | some id => exact hQ id

theorem ext_lastS {slot : SSlot} {Q : Nat → RoadFigure → Prop} {s : RoadFigure}
    (hQ : ∀ id, Q id s) : M.wlp (lastS slot) Q s := by
  unfold M.wlp lastS
  cases hl : s.m_last_ids_s slot with
  | none => trivial
  | some id => exact hQ id

theorem ext_setV {slot : VSlot} {v : Vertex} {Q : Unit → RoadFigure → Prop} {s0 s : RoadFigure}
    {vs : List Vertex} {nl nsd : Nat} {mv : VSlot → Vertex} (h : Ext s0 vs nl nsd mv s)
    (hQ : ∀ s1, Ext s0 vs nl nsd (Function.update mv slot v) s1 → Q () s1) :
    M.wlp (setV slot v) Q s := by
  unfold M.wlp setV
  simp only [M.run_update]
  exact hQ _ ⟨h.vertices, h.linedefs, h.sidedefs, h.sectors, by rw [← h.m_v], h.angle, h.null,
    h.null_prev⟩

theorem ext_pushV {slot : VSlot} {Q : Unit → RoadFigure → Prop} {s0 s : RoadFigure}
    {vs : List Vertex} {nl nsd : Nat} {mv : VSlot → Vertex} (h : Ext s0 vs nl nsd mv s)
    (hQ : ∀ s1, Ext s0 (vs ++ [mv slot]) nl nsd mv s1 → Q () s1) :
    M.wlp (pushV slot) Q s := by
  unfold M.wlp pushV
  simp only [M.run_bind, M.run_read]
  unfold onMap addVertex AddMapEntryT setLastV
  dsimp only
  split_ifs with hcap
  · trivial
  · simp only [M.run_update]
    refine hQ _ ⟨?_, h.linedefs, h.sidedefs, h.sectors, h.m_v, h.angle, h.null, h.null_prev⟩
    show s.m_map.vertices ++ [s.m_v slot] = _
    rw [h.vertices, h.m_v, List.append_assoc]

theorem ext_addSd {sd : Sidedef} {Q : Nat → RoadFigure → Prop} {s0 s : RoadFigure}
    {vs : List Vertex} {nl nsd : Nat} {mv : VSlot → Vertex} (h : Ext s0 vs nl nsd mv s)
    (hQ : ∀ id s1, Ext s0 vs nl (nsd + 1) mv s1 → Q id s1) :
    M.wlp (addSd sd) Q s := by
  unfold M.wlp addSd onMap addSidedef AddMapEntryT
  dsimp only
  split_ifs with hcap
  · trivial
  · obtain ⟨sds, h1, h2⟩ := h.sidedefs
    refine hQ _ _ ⟨h.vertices, h.linedefs, ⟨sds ++ [sd], ?_, by simp [h2]⟩, h.sectors, h.m_v,
      h.angle, h.null, h.null_prev⟩
    show s.m_map.sidedefs ++ [sd] = _
    rw [h1, List.append_assoc]

theorem ext_addL {l : Linedef} {Q : Nat → RoadFigure → Prop} {s0 s : RoadFigure}
    {vs : List Vertex} {nl nsd : Nat} {mv : VSlot → Vertex} (h : Ext s0 vs nl nsd mv s)
    (hQ : ∀ id s1, Ext s0 vs (nl + 1) nsd mv s1 → Q id s1) :
    M.wlp (addL l) Q s := by
  unfold M.wlp addL onMap addLinedef AddMapEntryT
  dsimp only
  split_ifs with hcap
  · trivial
  · obtain ⟨ls, h1, h2⟩ := h.linedefs
    refine hQ _ _ ⟨h.vertices, ⟨ls ++ [l], ?_, by simp [h2]⟩, h.sidedefs, h.sectors, h.m_v,
      h.angle, h.null, h.null_prev⟩
    show s.m_map.linedefs ++ [l] = _
    rw [h1, List.append_assoc]

theorem ext_onChecker {m : M IntersectionChecker Unit} {Q : Unit → RoadFigure → Prop}
    {s0 s : RoadFigure} {vs : List Vertex} {nl nsd : Nat} {mv : VSlot → Vertex}
    (h : Ext s0 vs nl nsd mv s) (hQ : ∀ s1, Ext s0 vs nl nsd mv s1 → Q () s1) :
    M.wlp (onChecker m) Q s := by
  unfold M.wlp onChecker
  cases hck : s.m_intersection_checker with
  | none => exact hQ s h
  | some ck =>
    simp only []
    rcases hm : m ck with ⟨r, ck1⟩
    cases r with
    | error e => trivial
    | ok a =>
      exact hQ _ ⟨h.vertices, h.linedefs, h.sidedefs, h.sectors, h.m_v, h.angle, h.null,
        h.null_prev⟩

theorem ExtendBackground_ext (a b c d : Vertex) (s0 s : RoadFigure) (vs : List Vertex)
    (nl nsd : Nat) (mv : VSlot → Vertex) (h : Ext s0 vs nl nsd mv s) :
    M.wlp (ExtendBackground a b c d)
      (fun _ s1 => Ext s0 (vs ++ [a, b, c, d]) (nl + 4) (nsd + 6)
        (Function.update (Function.update (Function.update (Function.update mv
          VSlot.m_v_background_west_left a) VSlot.m_v_background_west_right b)
          VSlot.m_v_background_east_left c) VSlot.m_v_background_east_right d) s1) s := by
  unfold ExtendBackground
  simp only [M.wlp_bind]
  repeat' (first
    | (refine ext_lastV ?_; intro id)
    | (refine ext_lastS ?_; intro id)
    | (refine ext_setV (by assumption) ?_; intro s1 hE)
    | (refine ext_pushV (by assumption) ?_; intro s1 hE)
    | (refine ext_onChecker (by assumption) ?_; intro s1 hE)
    | (refine ext_addSd (by assumption) ?_; intro id s1 hE)
    | (refine ext_addL (by assumption) ?_; intro id s1 hE)
    | (refine (M.wlp_pure _ _ _).mpr ?_)
    | (refine (M.wlp_read _ _).mpr ?_)
    | (simp only [M.wlp_bind]))
  exact Ext.recast (by assumption) (by simp [Function.update]) rfl rfl rfl

theorem ExtendFence_ext (a b c d : Vertex) (s0 s : RoadFigure) (vs : List Vertex)
    (nl nsd : Nat) (mv : VSlot → Vertex) (h : Ext s0 vs nl nsd mv s) :
    M.wlp (ExtendFence a b c d)
      (fun _ s1 => Ext s0 (vs ++ [a, b, c, d]) (nl + 4) (nsd + 8)
        (Function.update (Function.update (Function.update (Function.update mv
          VSlot.m_v_fence_west_left a) VSlot.m_v_fence_west_right b)
          VSlot.m_v_fence_east_left c) VSlot.m_v_fence_east_right d) s1) s := by
  unfold ExtendFence
  simp only [M.wlp_bind]
  repeat' (first
    | (refine ext_lastV ?_; intro id)
    | (refine ext_lastS ?_; intro id)
    | (refine ext_setV (by assumption) ?_; intro s1 hE)
    | (refine ext_pushV (by assumption) ?_; intro s1 hE)
    | (refine ext_onChecker (by assumption) ?_; intro s1 hE)
    | (refine ext_addSd (by assumption) ?_; intro id s1 hE)
    | (refine ext_addL (by assumption) ?_; intro id s1 hE)
    | (refine (M.wlp_pure _ _ _).mpr ?_)
    | (refine (M.wlp_read _ _).mpr ?_)
    | (simp only [M.wlp_bind]))
  exact Ext.recast (by assumption) (by simp [Function.update]) rfl rfl rfl

theorem ExtendBody_ext (a b c d : Vertex) (s0 s : RoadFigure) (vs : List Vertex)
    (nl nsd : Nat) (mv : VSlot → Vertex) (h : Ext s0 vs nl nsd mv s) :
    M.wlp (ExtendBody a b c d)
      (fun _ s1 => Ext s0 (vs ++ [a, b, c, d]) (nl + 4) (nsd + 8)
        (Function.update (Function.update (Function.update (Function.update mv
          VSlot.m_v_west_left a) VSlot.m_v_west_right b)
          VSlot.m_v_east_left c) VSlot.m_v_east_right d) s1) s := by
  unfold ExtendBody
  simp only [M.wlp_bind]
  repeat' (first
    | (refine ext_lastV ?_; intro id)
    | (refine ext_lastS ?_; intro id)
    | (refine ext_setV (by assumption) ?_; intro s1 hE)
    | (refine ext_pushV (by assumption) ?_; intro s1 hE)
    | (refine ext_onChecker (by assumption) ?_; intro s1 hE)
    | (refine ext_addSd (by assumption) ?_; intro id s1 hE)
    | (refine ext_addL (by assumption) ?_; intro id s1 hE)
    | (refine (M.wlp_pure _ _ _).mpr ?_)
    | (refine (M.wlp_read _ _).mpr ?_)
    | (simp only [M.wlp_bind]))
  exact Ext.recast (by assumption) (by simp [Function.update]) rfl rfl rfl

instance instIsReflRigid : IsRefl RoadFigure Rigid := ⟨fun _ => ⟨rfl, rfl, rfl, fun _ _ _ => rfl⟩⟩

instance instIsTransRigid : IsTrans RoadFigure Rigid :=
  ⟨fun _ _ _ h1 h2 => ⟨h2.angle.trans h1.angle, h2.null.trans h1.null,
    h2.null_prev.trans h1.null_prev,
    fun slot hw he => (h2.rails slot hw he).trans (h1.rails slot hw he)⟩⟩

theorem rigid_addV {v : Vertex} : M.pres Rigid (addV v) := by
  refine ⟨fun s => ?_⟩
  unfold addV onMap addVertex AddMapEntryT
  dsimp only
  split_ifs <;> exact ⟨rfl, rfl, rfl, fun _ _ _ => rfl⟩

theorem rigid_addSd {sd : Sidedef} : M.pres Rigid (addSd sd) := by
  refine ⟨fun s => ?_⟩
  unfold addSd onMap addSidedef AddMapEntryT
  dsimp only
  split_ifs <;> exact ⟨rfl, rfl, rfl, fun _ _ _ => rfl⟩

theorem rigid_addL {l : Linedef} : M.pres Rigid (addL l) := by
  refine ⟨fun s => ?_⟩
  unfold addL onMap addLinedef AddMapEntryT
  dsimp only
  split_ifs <;> exact ⟨rfl, rfl, rfl, fun _ _ _ => rfl⟩

theorem rigid_addS {sec : Sector} : M.pres Rigid (addS sec) := by
  refine ⟨fun s => ?_⟩
  unfold addS onMap addSector AddMapEntryT
  dsimp only
  split_ifs <;> exact ⟨rfl, rfl, rfl, fun _ _ _ => rfl⟩

theorem rigid_lastV {slot : VSlot} : M.pres Rigid (lastV slot) := by
  refine ⟨fun s => ?_⟩
  unfold lastV
  split <;> exact ⟨rfl, rfl, rfl, fun _ _ _ => rfl⟩

theorem rigid_lastS {slot : SSlot} : M.pres Rigid (lastS slot) := by
  refine ⟨fun s => ?_⟩
  unfold lastS
  split <;> exact ⟨rfl, rfl, rfl, fun _ _ _ => rfl⟩

theorem rigid_setV_mark_west {value : Vertex} :
    M.pres Rigid (setV VSlot.m_v_mark_west value) :=
  ⟨fun _ => ⟨rfl, rfl, rfl, fun _ hw _ => Function.update_noteq hw _ _⟩⟩

theorem rigid_setV_mark_east {value : Vertex} :
    M.pres Rigid (setV VSlot.m_v_mark_east value) :=
  ⟨fun _ => ⟨rfl, rfl, rfl, fun _ _ he => Function.update_noteq he _ _⟩⟩

theorem rigid_setLastV {slot : VSlot} {id : Nat} : M.pres Rigid (setLastV slot id) :=
  ⟨fun _ => ⟨rfl, rfl, rfl, fun _ _ _ => rfl⟩⟩

theorem rigid_setLastS {slot : SSlot} {id : Nat} : M.pres Rigid (setLastS slot id) :=
  ⟨fun _ => ⟨rfl, rfl, rfl, fun _ _ _ => rfl⟩⟩

theorem rigid_pushMarkIdsPrev {dist : ℚ} {id1 id2 : Nat} :
    M.pres Rigid (pushMarkIdsPrev dist id1 id2) :=
  ⟨fun _ => ⟨rfl, rfl, rfl, fun _ _ _ => rfl⟩⟩

theorem rigid_onChecker {m : M IntersectionChecker Unit} : M.pres Rigid (onChecker m) := by
  refine ⟨fun s => ?_⟩
  unfold onChecker
  split <;> exact ⟨rfl, rfl, rfl, fun _ _ _ => rfl⟩

theorem rigid_vertexAt {id : Nat} : M.pres Rigid (vertexAt id) := by
  refine ⟨fun s => ?_⟩
  unfold vertexAt
  split <;> exact ⟨rfl, rfl, rfl, fun _ _ _ => rfl⟩

theorem rigid_prevSectorId {prev_sectors_ids : SSlot → Option Nat} {slot : SSlot} :
    M.pres Rigid (prevSectorId prev_sectors_ids slot) := by
  unfold prevSectorId
  cases prev_sectors_ids slot with
  | none => exact M.pres_fail _
  | some id => exact M.pres_pure _

theorem rigid_modifySectorAt {id : Nat} {f : Sector → Sector} :
    M.pres Rigid (modifySectorAt id f) := by
  refine ⟨fun s => ?_⟩
  unfold modifySectorAt
  split <;> exact ⟨rfl, rfl, rfl, fun _ _ _ => rfl⟩

theorem rigid_modifyVertexAt {id : Nat} {f : Vertex → Vertex} :
    M.pres Rigid (modifyVertexAt id f) := by
  refine ⟨fun s => ?_⟩
  unfold modifyVertexAt
  split <;> exact ⟨rfl, rfl, rfl, fun _ _ _ => rfl⟩

theorem rigid_pushV {slot : VSlot} : M.pres Rigid (pushV slot) :=
  M.pres_bind M.pres_read (fun _ => M.pres_bind rigid_addV (fun _ => rigid_setLastV))

theorem rigid_pushS {slot : SSlot} : M.pres Rigid (pushS slot) :=
  M.pres_bind M.pres_read (fun _ => M.pres_bind rigid_addS (fun _ => rigid_setLastS))

theorem markVertexIsHere_rigid {lm : Libm} {slot : VSlot} :
    M.pres Rigid (markVertexIsHere lm slot) := by
  unfold markVertexIsHere
  repeat' first
    | (with_reducible first
        | exact rigid_addV | exact rigid_addSd | exact rigid_addL | exact rigid_addS
        | exact rigid_lastV | exact rigid_lastS | exact rigid_setV_mark_west
        | exact rigid_setV_mark_east | exact rigid_setLastV | exact rigid_setLastS
        | exact rigid_pushMarkIdsPrev | exact rigid_onChecker | exact rigid_vertexAt
        | exact rigid_prevSectorId | exact rigid_modifySectorAt | exact rigid_modifyVertexAt
        | exact rigid_pushV | exact rigid_pushS | exact M.pres_pure _ | exact M.pres_fail _
        | exact M.pres_read | exact M.pres_update (fun _ => ⟨rfl, rfl, rfl, fun _ _ _ => rfl⟩)
        | refine M.pres_bind ?_ ?_ | refine M.pres_ite _ ?_ ?_ | refine M.pres_forEach ?_ _
        | intro _)
    | dsimp only
    | split

theorem ExtendMark_loop_rigid {length_middle : ℚ} {v_west_dir v_east_dir : ℚ × ℚ}
    {have_slope : Bool} (fuel : Nat) (length : ℚ) (first_vertices_added : Bool) :
    M.pres Rigid (ExtendMark.loop length_middle v_west_dir v_east_dir have_slope fuel length
      first_vertices_added) := by
  induction fuel generalizing length first_vertices_added with
  | zero =>
    unfold ExtendMark.loop
    repeat' first
      | (with_reducible first
          | exact rigid_addV | exact rigid_addSd | exact rigid_addL | exact rigid_addS
          | exact rigid_lastV | exact rigid_lastS | exact rigid_setV_mark_west
          | exact rigid_setV_mark_east | exact rigid_setLastV | exact rigid_setLastS
          | exact rigid_pushMarkIdsPrev | exact rigid_onChecker | exact rigid_vertexAt
          | exact rigid_prevSectorId | exact rigid_modifySectorAt | exact rigid_modifyVertexAt
          | exact rigid_pushV | exact rigid_pushS | exact M.pres_pure _ | exact M.pres_fail _
          | exact M.pres_read
          | exact M.pres_update (fun _ => ⟨rfl, rfl, rfl, fun _ _ _ => rfl⟩)
          | refine M.pres_bind ?_ ?_ | refine M.pres_ite _ ?_ ?_ | refine M.pres_forEach ?_ _
          | intro _)
      | dsimp only
      | split
  | succ fuel ih =>
    unfold ExtendMark.loop
    repeat' first
      | (with_reducible first
          | exact ih _ _ | exact rigid_addV | exact rigid_addSd | exact rigid_addL
          | exact rigid_addS | exact rigid_lastV | exact rigid_lastS
          | exact rigid_setV_mark_west | exact rigid_setV_mark_east | exact rigid_setLastV
          | exact rigid_setLastS | exact rigid_pushMarkIdsPrev | exact rigid_onChecker
          | exact rigid_vertexAt | exact rigid_prevSectorId | exact rigid_modifySectorAt
          | exact rigid_modifyVertexAt | exact rigid_pushV | exact rigid_pushS
          | exact M.pres_pure _ | exact M.pres_fail _ | exact M.pres_read
          | exact M.pres_update (fun _ => ⟨rfl, rfl, rfl, fun _ _ _ => rfl⟩)
          | refine M.pres_bind ?_ ?_ | refine M.pres_ite _ ?_ ?_ | refine M.pres_forEach ?_ _
          | intro _)
      | dsimp only
      | split

theorem ExtendMark_rigid {lm : Libm} {a b : Vertex} : M.pres Rigid (ExtendMark lm a b) := by
  unfold ExtendMark
  repeat' first
    | (with_reducible first
        | exact ExtendMark_loop_rigid _ _ _ | exact markVertexIsHere_rigid | exact rigid_addV
        | exact rigid_addSd | exact rigid_addL | exact rigid_addS | exact rigid_lastV
        | exact rigid_lastS | exact rigid_setV_mark_west | exact rigid_setV_mark_east
        | exact rigid_setLastV | exact rigid_setLastS | exact rigid_pushMarkIdsPrev
        | exact rigid_onChecker | exact rigid_vertexAt | exact rigid_prevSectorId
        | exact rigid_modifySectorAt | exact rigid_modifyVertexAt | exact rigid_pushV
        | exact rigid_pushS | exact M.pres_pure _ | exact M.pres_fail _ | exact M.pres_read
        | exact M.pres_update (fun _ => ⟨rfl, rfl, rfl, fun _ _ _ => rfl⟩)
        | refine M.pres_bind ?_ ?_ | refine M.pres_ite _ ?_ ?_ | refine M.pres_forEach ?_ _
        | intro _)
    | dsimp only
    | split

theorem slopeSector_rigid {height_diff : Int} {have_mark at_mark_start had_mark : Bool}
    {slot : SSlot} :
    M.pres Rigid (CloseSectors.slopeSector height_diff have_mark at_mark_start had_mark slot) := by
  unfold CloseSectors.slopeSector
  repeat' first
    | (with_reducible first
        | exact rigid_addV | exact rigid_addSd | exact rigid_addL | exact rigid_addS
        | exact rigid_lastV | exact rigid_lastS | exact rigid_setV_mark_west
        | exact rigid_setV_mark_east | exact rigid_setLastV | exact rigid_setLastS
        | exact rigid_pushMarkIdsPrev | exact rigid_onChecker | exact rigid_vertexAt
        | exact rigid_prevSectorId | exact rigid_modifySectorAt | exact rigid_modifyVertexAt
        | exact rigid_pushV | exact rigid_pushS | exact M.pres_pure _ | exact M.pres_fail _
        | exact M.pres_read | exact M.pres_update (fun _ => ⟨rfl, rfl, rfl, fun _ _ _ => rfl⟩)
        | refine M.pres_bind ?_ ?_ | refine M.pres_ite _ ?_ ?_ | refine M.pres_forEach ?_ _
        | intro _)
    | dsimp only
    | split

theorem applySlope_rigid {lm : Libm} {have_mark at_mark_start : Bool} :
    M.pres Rigid (CloseSectors.applySlope lm have_mark at_mark_start) := by
  unfold CloseSectors.applySlope
  repeat' first
    | (with_reducible first
        | exact slopeSector_rigid | exact rigid_addV | exact rigid_addSd | exact rigid_addL
        | exact rigid_addS | exact rigid_lastV | exact rigid_lastS | exact rigid_setV_mark_west
        | exact rigid_setV_mark_east | exact rigid_setLastV | exact rigid_setLastS
        | exact rigid_pushMarkIdsPrev | exact rigid_onChecker | exact rigid_vertexAt
        | exact rigid_prevSectorId | exact rigid_modifySectorAt | exact rigid_modifyVertexAt
        | exact rigid_pushV | exact rigid_pushS | exact M.pres_pure _ | exact M.pres_fail _
        | exact M.pres_read | exact M.pres_update (fun _ => ⟨rfl, rfl, rfl, fun _ _ _ => rfl⟩)
        | refine M.pres_bind ?_ ?_ | refine M.pres_ite _ ?_ ?_ | refine M.pres_forEach ?_ _
        | intro _)
    | dsimp only
    | split

theorem recordSeamMarkVertices_rigid {lm : Libm} :
    M.pres Rigid (CloseSectors.recordSeamMarkVertices lm) := by
  unfold CloseSectors.recordSeamMarkVertices
  repeat' first
    | (with_reducible first
        | exact rigid_addV | exact rigid_addSd | exact rigid_addL | exact rigid_addS
        | exact rigid_lastV | exact rigid_lastS | exact rigid_setV_mark_west
        | exact rigid_setV_mark_east | exact rigid_setLastV | exact rigid_setLastS
        | exact rigid_pushMarkIdsPrev | exact rigid_onChecker | exact rigid_vertexAt
        | exact rigid_prevSectorId | exact rigid_modifySectorAt | exact rigid_modifyVertexAt
        | exact rigid_pushV | exact rigid_pushS | exact M.pres_pure _ | exact M.pres_fail _
        | exact M.pres_read | exact M.pres_update (fun _ => ⟨rfl, rfl, rfl, fun _ _ _ => rfl⟩)
        | refine M.pres_bind ?_ ?_ | refine M.pres_ite _ ?_ ?_ | refine M.pres_forEach ?_ _
        | intro _)
    | dsimp only
    | split

theorem snapMarkVertices_rigid {have_mark : Bool} {floorpos_prev : Int}
    {it : ℚ × (Nat × Nat)} :
    M.pres Rigid (CloseSectors.snapMarkVertices have_mark floorpos_prev it) := by
  unfold CloseSectors.snapMarkVertices
  repeat' first
    | (with_reducible first
        | exact rigid_addV | exact rigid_addSd | exact rigid_addL | exact rigid_addS
        | exact rigid_lastV | exact rigid_lastS | exact rigid_setV_mark_west
        | exact rigid_setV_mark_east | exact rigid_setLastV | exact rigid_setLastS
        | exact rigid_pushMarkIdsPrev | exact rigid_onChecker | exact rigid_vertexAt
        | exact rigid_prevSectorId | exact rigid_modifySectorAt | exact rigid_modifyVertexAt
        | exact rigid_pushV | exact rigid_pushS | exact M.pres_pure _ | exact M.pres_fail _
        | exact M.pres_read | exact M.pres_update (fun _ => ⟨rfl, rfl, rfl, fun _ _ _ => rfl⟩)
        | refine M.pres_bind ?_ ?_ | refine M.pres_ite _ ?_ ?_ | refine M.pres_forEach ?_ _
        | intro _)
    | dsimp only
    | split

theorem renewSectors_rigid {at_mark_start at_mark_end : Bool} (l : List SSlot)
    (prev_sectors_ids : SSlot → Option Nat) :
    M.pres Rigid (CloseSectors.renewSectors at_mark_start at_mark_end l prev_sectors_ids) := by
  induction l generalizing prev_sectors_ids with
  | nil => exact M.pres_pure _
  | cons sector rest ih =>
    unfold CloseSectors.renewSectors
    repeat' first
      | (with_reducible first
          | exact ih _ | exact rigid_addV | exact rigid_addSd | exact rigid_addL
          | exact rigid_addS | exact rigid_lastV | exact rigid_lastS
          | exact rigid_setV_mark_west | exact rigid_setV_mark_east | exact rigid_setLastV
          | exact rigid_setLastS | exact rigid_pushMarkIdsPrev | exact rigid_onChecker
          | exact rigid_vertexAt | exact rigid_prevSectorId | exact rigid_modifySectorAt
          | exact rigid_modifyVertexAt | exact rigid_pushV | exact rigid_pushS
          | exact M.pres_pure _ | exact M.pres_fail _ | exact M.pres_read
          | exact M.pres_update (fun _ => ⟨rfl, rfl, rfl, fun _ _ _ => rfl⟩)
          | refine M.pres_bind ?_ ?_ | refine M.pres_ite _ ?_ ?_ | refine M.pres_forEach ?_ _
          | intro _)
      | dsimp only
      | split

theorem seamLines_rigid {at_mark_start at_mark_end : Bool}
    {prev_sectors_ids : SSlot → Option Nat} (l : List SSlot) (vs : List VSlot) :
    M.pres Rigid (CloseSectors.seamLines at_mark_start at_mark_end prev_sectors_ids l vs) := by
  induction l generalizing vs with
  | nil =>
    unfold CloseSectors.seamLines
    exact M.pres_pure _
  | cons sector rest ih =>
    rcases vs with _ | ⟨vi, _ | ⟨vi1, vrest⟩⟩
    · unfold CloseSectors.seamLines
      exact M.pres_pure _
    · unfold CloseSectors.seamLines
      exact M.pres_pure _
    · unfold CloseSectors.seamLines
      repeat' first
        | (with_reducible first
            | exact ih _ | exact rigid_addV | exact rigid_addSd | exact rigid_addL
            | exact rigid_addS | exact rigid_lastV | exact rigid_lastS
            | exact rigid_setV_mark_west | exact rigid_setV_mark_east | exact rigid_setLastV
            | exact rigid_setLastS | exact rigid_pushMarkIdsPrev | exact rigid_onChecker
            | exact rigid_vertexAt | exact rigid_prevSectorId | exact rigid_modifySectorAt
            | exact rigid_modifyVertexAt | exact rigid_pushV | exact rigid_pushS
            | exact M.pres_pure _ | exact M.pres_fail _ | exact M.pres_read
            | exact M.pres_update (fun _ => ⟨rfl, rfl, rfl, fun _ _ _ => rfl⟩)
            | refine M.pres_bind ?_ ?_ | refine M.pres_ite _ ?_ ?_ | refine M.pres_forEach ?_ _
            | intro _)
        | dsimp only
        | split

theorem CloseSectors_rigid {lm : Libm} : M.pres Rigid (CloseSectors lm) := by
  unfold CloseSectors
  repeat' first
    | (with_reducible first
        | exact applySlope_rigid | exact recordSeamMarkVertices_rigid
        | exact snapMarkVertices_rigid | exact renewSectors_rigid _ _
        | exact seamLines_rigid _ _ | exact rigid_addV | exact rigid_addSd | exact rigid_addL
        | exact rigid_addS | exact rigid_lastV | exact rigid_lastS | exact rigid_setV_mark_west
        | exact rigid_setV_mark_east | exact rigid_setLastV | exact rigid_setLastS
        | exact rigid_pushMarkIdsPrev | exact rigid_onChecker | exact rigid_vertexAt
        | exact rigid_prevSectorId | exact rigid_modifySectorAt | exact rigid_modifyVertexAt
        | exact rigid_pushV | exact rigid_pushS | exact M.pres_pure _ | exact M.pres_fail _
        | exact M.pres_read | exact M.pres_update (fun _ => ⟨rfl, rfl, rfl, fun _ _ _ => rfl⟩)
        | refine M.pres_bind ?_ ?_ | refine M.pres_ite _ ?_ ?_ | refine M.pres_forEach ?_ _
        | intro _)
    | dsimp only
    | split

theorem rigid_of_run {m : M RoadFigure Unit} {s s1 : RoadFigure} {r : Except Err Unit}
    (hm : M.pres Rigid m) (h : m s = (r, s1)) : Rigid s s1 := by
  have := hm.run s
  rw [h] at this
  exact this

/-- C30: an accepted `Line(length)` translates the cross-section rigidly.  With
`dx = length * cos(heading)` and `dy = length * sin(heading)`: the null vertex is moved
by `(dx, dy)`, the previous null vertex is the old null vertex, the heading is unchanged,
each of the twelve rail reference vertices (background, fence and road rails) is moved by
`(dx, dy)`, and the background, fence and body extensions, run from the initial figure,
return normally and append to the map exactly the twelve moved rail vertices (four per
rail group), twelve linedefs and twenty-two sidedefs, and no sector. -/
theorem Line_translates_cross_section (lm : Libm) (line : LineData) (fig fig1 : RoadFigure)
    (dx dy : ℚ) (hdx : dx = line.length * lm.cos fig.m_angle)
    (hdy : dy = line.length * lm.sin fig.m_angle)
    (h : Line lm line fig = (Except.ok (), fig1)) :
    fig1.m_v_null = fig.m_v_null.GetMoved dx dy
    ∧ fig1.m_v_null_prev = fig.m_v_null
    ∧ fig1.m_angle = fig.m_angle
    ∧ (∀ slot ∈ railSlots, fig1.m_v slot = (fig.m_v slot).GetMoved dx dy)
    ∧ ∃ rails : RoadFigure,
        (ExtendBackground
            ((fig.m_v VSlot.m_v_background_west_left).GetMoved dx dy)
            ((fig.m_v VSlot.m_v_background_west_right).GetMoved dx dy)
            ((fig.m_v VSlot.m_v_background_east_left).GetMoved dx dy)
            ((fig.m_v VSlot.m_v_background_east_right).GetMoved dx dy) >>= fun _ =>
          ExtendFence
            ((fig.m_v VSlot.m_v_fence_west_left).GetMoved dx dy)
            ((fig.m_v VSlot.m_v_fence_west_right).GetMoved dx dy)
            ((fig.m_v VSlot.m_v_fence_east_left).GetMoved dx dy)
            ((fig.m_v VSlot.m_v_fence_east_right).GetMoved dx dy) >>= fun _ =>
          ExtendBody
            ((fig.m_v VSlot.m_v_west_left).GetMoved dx dy)
            ((fig.m_v VSlot.m_v_west_right).GetMoved dx dy)
            ((fig.m_v VSlot.m_v_east_left).GetMoved dx dy)
            ((fig.m_v VSlot.m_v_east_right).GetMoved dx dy)) fig = (Except.ok (), rails)
        ∧ rails.m_map.vertices
            = fig.m_map.vertices ++ railSlots.map (fun slot => (fig.m_v slot).GetMoved dx dy)
        ∧ (∃ ls, rails.m_map.linedefs = fig.m_map.linedefs ++ ls ∧ ls.length = 12)
        ∧ (∃ sds, rails.m_map.sidedefs = fig.m_map.sidedefs ++ sds ∧ sds.length = 22)
        ∧ rails.m_map.sectors = fig.m_map.sectors
        ∧ (∀ slot ∈ railSlots, rails.m_v slot = (fig.m_v slot).GetMoved dx dy) := by
  subst hdx hdy
  unfold Line at h
  rw [M.run_bind_ok (M.run_read fig)] at h
  dsimp only at h
  by_cases g1 : (!fig.m_started_drawing || fig.m_finished_drawing) = true
  · rw [if_pos g1] at h
    simp [M.run_fail] at h
  rw [if_neg g1] at h
  by_cases g2 : line.length < 1 ∨ line.length > 32767
  · rw [if_pos g2] at h
    simp [M.run_fail] at h
  rw [if_neg g2] at h
  obtain ⟨_, a, ha, h⟩ := M_bind_ok_inv h
  obtain ⟨_, b, hb, h⟩ := M_bind_ok_inv h
  obtain ⟨_, c, hc, h⟩ := M_bind_ok_inv h
  obtain ⟨_, d, hd, h⟩ := M_bind_ok_inv h
  obtain ⟨_, e, he, h⟩ := M_bind_ok_inv h
  obtain ⟨_, f, hf, h⟩ := M_bind_ok_inv h
  have Ea := M.wlp_of_run (ExtendBackground_ext _ _ _ _ fig fig _ _ _ _ (Ext.initial fig)) ha
  have Eb := M.wlp_of_run (ExtendFence_ext _ _ _ _ fig a _ _ _ _ Ea) hb
  have Ec := M.wlp_of_run (ExtendBody_ext _ _ _ _ fig b _ _ _ _ Eb) hc
  have Rd : Rigid c d := rigid_of_run ExtendMark_rigid hd
  obtain ⟨g, Rg, k1, k2, k3, k4⟩ : ∃ g, Rigid f g ∧ fig1.m_v = g.m_v
      ∧ fig1.m_v_null = g.m_v_null ∧ fig1.m_v_null_prev = g.m_v_null_prev
      ∧ fig1.m_angle = g.m_angle := by
    by_cases g3 : (!Math.IsZeroOrCloseTo fig.m_slope_modifier.tangent) = true
    · rw [if_pos g3] at h
      obtain ⟨_, g, hg, h⟩ := M_bind_ok_inv h
      simp only [M.run_update, Prod.mk.injEq, true_and] at h
      subst h
      exact ⟨g, rigid_of_run CloseSectors_rigid hg, rfl, rfl, rfl, rfl⟩
    · rw [if_neg g3] at h
      obtain ⟨_, g, hg, h⟩ := M_bind_ok_inv h
      simp only [M.run_update, Prod.mk.injEq, true_and] at h
      subst h
      exact ⟨g, rigid_of_run (M.pres_pure _) hg, rfl, rfl, rfl, rfl⟩
  simp only [SetNullVertex, M.run_update, Prod.mk.injEq, true_and] at he hf
  subst he hf
  have hrails : ∀ slot ∈ railSlots, c.m_v slot
      = (fig.m_v slot).GetMoved (line.length * lm.cos fig.m_angle)
          (line.length * lm.sin fig.m_angle) := by
    intro slot hs
    rw [Ec.m_v]
    simp only [railSlots, List.mem_cons, List.mem_singleton, List.not_mem_nil, or_false] at hs
    rcases hs with hs | hs | hs | hs | hs | hs | hs | hs | hs | hs | hs | hs <;> subst hs <;>
      simp [Function.update]
  refine ⟨?_, ?_, ?_, ?_, c, ?_, ?_, ?_, ?_, Ec.sectors, hrails⟩
  · rw [k2, Rg.null]
  · rw [k3, Rg.null_prev]
    show d.m_v_null = fig.m_v_null
    rw [Rd.null, Ec.null]
  · rw [k4, Rg.angle]
    show d.m_angle = fig.m_angle
    rw [Rd.angle, Ec.angle]
  · intro slot hs
    have hw : slot ≠ VSlot.m_v_mark_west := by
      intro hc
      subst hc
      simp [railSlots] at hs
    have he : slot ≠ VSlot.m_v_mark_east := by
      intro hc
      subst hc
      simp [railSlots] at hs
    rw [k1, Rg.rails slot hw he]
    show d.m_v slot = _
    rw [Rd.rails slot hw he]
    exact hrails slot hs
  · rw [M.run_bind_ok ha, M.run_bind_ok hb]
    exact hc
  · rw [Ec.vertices]
    simp [railSlots]
  · exact Ec.linedefs
  · exact Ec.sidedefs

theorem Line_translates_cross_section_witness :
    exampleDrawingFigure.m_v_null = (exampleStartedFigure.m_v_null).GetMoved 2000 0
    ∧ exampleDrawingFigure.m_v_null_prev = exampleStartedFigure.m_v_null
    ∧ exampleDrawingFigure.m_angle = exampleStartedFigure.m_angle
    ∧ (∀ slot ∈ railSlots,
        exampleDrawingFigure.m_v slot = (exampleStartedFigure.m_v slot).GetMoved 2000 0) :=
  have h := Line_translates_cross_section exampleLibm { length := 2000 } exampleStartedFigure
    exampleDrawingFigure 2000 0 (by decide!) (by decide!) (Prod.ext (by decide!) rfl)
  ⟨h.1, h.2.1, h.2.2.1, h.2.2.2.1⟩

end RoadFigure

end LineTranslation

/-! ## C22: sector elevations after a descending slope -/

set_option maxRecDepth 1000000 in
/-- C22 (evaluation of the code at the failing input): with the default configuration,
`GetGeneratedRoad` accepts the road that starts at floor elevation `-32000` with height
`1024`, draws a line, and then descends with the slope tangent `-1/2` along a line of
length `2000`; the resulting map holds a sector whose floor elevation is `-33000`, which
is below `-32768`, the least 16-bit signed value. -/
theorem descending_slope_leaves_sixteen_bit_range :
    (GetGeneratedRoad exampleLibm exampleDeepRoad defaultRoadConfig).1 = Except.ok ()
    ∧ (∃ s ∈ (GetGeneratedRoad exampleLibm exampleDeepRoad defaultRoadConfig).2.sectors,
        s.heightfloor = -33000 ∧ s.heightfloor < -32768) := by
  decide!

/-! ## C21: no sector has its ceiling below its floor -/

section FigureHeights

set_option linter.unreachableTactic false
set_option linter.unusedTactic false

open Udmf

namespace RoadFigure

instance instIsReflQuiet : IsRefl RoadFigure Quiet :=
  ⟨fun _ => ⟨rfl, rfl, rfl, rfl, rfl, rfl, rfl, rfl, rfl⟩⟩

instance instIsTransQuiet : IsTrans RoadFigure Quiet :=
  ⟨fun _ _ _ h1 h2 => ⟨h2.cfg.trans h1.cfg, h2.fp.trans h1.fp, h2.cp.trans h1.cp,
    h2.m_s.trans h1.m_s, h2.st.trans h1.st, h2.cl.trans h1.cl, h2.slope.trans h1.slope,
    h2.sectors.trans h1.sectors, h2.last.trans h1.last⟩⟩

theorem quiet_addV {v : Vertex} : M.pres Quiet (addV v) := by
  refine ⟨fun s => ?_⟩
  unfold addV onMap addVertex AddMapEntryT
  dsimp only
  split_ifs <;> exact ⟨rfl, rfl, rfl, rfl, rfl, rfl, rfl, rfl, rfl⟩

theorem quiet_addSd {sd : Sidedef} : M.pres Quiet (addSd sd) := by
  refine ⟨fun s => ?_⟩
  unfold addSd onMap addSidedef AddMapEntryT
  dsimp only
  split_ifs <;> exact ⟨rfl, rfl, rfl, rfl, rfl, rfl, rfl, rfl, rfl⟩

theorem quiet_addL {l : Linedef} : M.pres Quiet (addL l) := by
  refine ⟨fun s => ?_⟩
  unfold addL onMap addLinedef AddMapEntryT
  dsimp only
  split_ifs <;> exact ⟨rfl, rfl, rfl, rfl, rfl, rfl, rfl, rfl, rfl⟩

theorem quiet_lastV {slot : VSlot} : M.pres Quiet (lastV slot) := by
  refine ⟨fun s => ?_⟩
  unfold lastV
  split <;> exact ⟨rfl, rfl, rfl, rfl, rfl, rfl, rfl, rfl, rfl⟩

theorem quiet_lastS {slot : SSlot} : M.pres Quiet (lastS slot) := by
  refine ⟨fun s => ?_⟩
  unfold lastS
  split <;> exact ⟨rfl, rfl, rfl, rfl, rfl, rfl, rfl, rfl, rfl⟩

theorem quiet_setV {slot : VSlot} {value : Vertex} : M.pres Quiet (setV slot value) :=
  ⟨fun _ => ⟨rfl, rfl, rfl, rfl, rfl, rfl, rfl, rfl, rfl⟩⟩

theorem quiet_setLastV {slot : VSlot} {id : Nat} : M.pres Quiet (setLastV slot id) :=
  ⟨fun _ => ⟨rfl, rfl, rfl, rfl, rfl, rfl, rfl, rfl, rfl⟩⟩

theorem quiet_SetNullVertex {v : Vertex} : M.pres Quiet (SetNullVertex v) :=
  ⟨fun _ => ⟨rfl, rfl, rfl, rfl, rfl, rfl, rfl, rfl, rfl⟩⟩

theorem quiet_pushMarkIdsPrev {dist : ℚ} {id1 id2 : Nat} :
    M.pres Quiet (pushMarkIdsPrev dist id1 id2) :=
  ⟨fun _ => ⟨rfl, rfl, rfl, rfl, rfl, rfl, rfl, rfl, rfl⟩⟩

theorem quiet_onChecker {m : M IntersectionChecker Unit} : M.pres Quiet (onChecker m) := by
  refine ⟨fun s => ?_⟩
  unfold onChecker
  split <;> exact ⟨rfl, rfl, rfl, rfl, rfl, rfl, rfl, rfl, rfl⟩

theorem quiet_vertexAt {id : Nat} : M.pres Quiet (vertexAt id) := by
  refine ⟨fun s => ?_⟩
  unfold vertexAt
  split <;> exact ⟨rfl, rfl, rfl, rfl, rfl, rfl, rfl, rfl, rfl⟩

theorem quiet_prevSectorId {prev_sectors_ids : SSlot → Option Nat} {slot : SSlot} :
    M.pres Quiet (prevSectorId prev_sectors_ids slot) := by
  unfold prevSectorId
  cases prev_sectors_ids slot with
  | none => exact M.pres_fail _
  | some id => exact M.pres_pure _

theorem quiet_modifyVertexAt {id : Nat} {f : Vertex → Vertex} :
    M.pres Quiet (modifyVertexAt id f) := by
  refine ⟨fun s => ?_⟩
  unfold modifyVertexAt
  split <;> exact ⟨rfl, rfl, rfl, rfl, rfl, rfl, rfl, rfl, rfl⟩

theorem quiet_pushV {slot : VSlot} : M.pres Quiet (pushV slot) :=
  M.pres_bind M.pres_read (fun _ => M.pres_bind quiet_addV (fun _ => quiet_setLastV))

theorem ExtendBackground_quiet {a b c d : Vertex} : M.pres Quiet (ExtendBackground a b c d) := by
  unfold ExtendBackground
  repeat' first
    | (with_reducible first
        | exact quiet_addV | exact quiet_addSd | exact quiet_addL | exact quiet_lastV
        | exact quiet_lastS | exact quiet_setV | exact quiet_setLastV
        | exact quiet_SetNullVertex | exact quiet_pushMarkIdsPrev | exact quiet_onChecker
        | exact quiet_vertexAt | exact quiet_prevSectorId | exact quiet_modifyVertexAt
        | exact quiet_pushV | exact M.pres_pure _ | exact M.pres_fail _ | exact M.pres_read
        | exact M.pres_update (fun _ => ⟨rfl, rfl, rfl, rfl, rfl, rfl, rfl, rfl, rfl⟩)
        | refine M.pres_bind ?_ ?_ | refine M.pres_ite _ ?_ ?_ | refine M.pres_forEach ?_ _
        | intro _)
    | dsimp only
    | split

theorem ExtendFence_quiet {a b c d : Vertex} : M.pres Quiet (ExtendFence a b c d) := by
  unfold ExtendFence
  repeat' first
    | (with_reducible first
        | exact quiet_addV | exact quiet_addSd | exact quiet_addL | exact quiet_lastV
        | exact quiet_lastS | exact quiet_setV | exact quiet_setLastV
        | exact quiet_SetNullVertex | exact quiet_pushMarkIdsPrev | exact quiet_onChecker
        | exact quiet_vertexAt | exact quiet_prevSectorId | exact quiet_modifyVertexAt
        | exact quiet_pushV | exact M.pres_pure _ | exact M.pres_fail _ | exact M.pres_read
        | exact M.pres_update (fun _ => ⟨rfl, rfl, rfl, rfl, rfl, rfl, rfl, rfl, rfl⟩)
        | refine M.pres_bind ?_ ?_ | refine M.pres_ite _ ?_ ?_ | refine M.pres_forEach ?_ _
        | intro _)
    | dsimp only
    | split

theorem ExtendBody_quiet {a b c d : Vertex} : M.pres Quiet (ExtendBody a b c d) := by
  unfold ExtendBody
  repeat' first
    | (with_reducible first
        | exact quiet_addV | exact quiet_addSd | exact quiet_addL | exact quiet_lastV
        | exact quiet_lastS | exact quiet_setV | exact quiet_setLastV
        | exact quiet_SetNullVertex | exact quiet_pushMarkIdsPrev | exact quiet_onChecker
        | exact quiet_vertexAt | exact quiet_prevSectorId | exact quiet_modifyVertexAt
        | exact quiet_pushV | exact M.pres_pure _ | exact M.pres_fail _ | exact M.pres_read
        | exact M.pres_update (fun _ => ⟨rfl, rfl, rfl, rfl, rfl, rfl, rfl, rfl, rfl⟩)
        | refine M.pres_bind ?_ ?_ | refine M.pres_ite _ ?_ ?_ | refine M.pres_forEach ?_ _
        | intro _)
    | dsimp only
    | split

theorem markVertexIsHere_quiet {lm : Libm} {slot : VSlot} :
    M.pres Quiet (markVertexIsHere lm slot) := by
  unfold markVertexIsHere
  repeat' first
    | (with_reducible first
        | exact quiet_addV | exact quiet_addSd | exact quiet_addL | exact quiet_lastV
        | exact quiet_lastS | exact quiet_setV | exact quiet_setLastV
        | exact quiet_SetNullVertex | exact quiet_pushMarkIdsPrev | exact quiet_onChecker
        | exact quiet_vertexAt | exact quiet_prevSectorId | exact quiet_modifyVertexAt
        | exact quiet_pushV | exact M.pres_pure _ | exact M.pres_fail _ | exact M.pres_read
        | exact M.pres_update (fun _ => ⟨rfl, rfl, rfl, rfl, rfl, rfl, rfl, rfl, rfl⟩)
        | refine M.pres_bind ?_ ?_ | refine M.pres_ite _ ?_ ?_ | refine M.pres_forEach ?_ _
        | intro _)
    | dsimp only
    | split

theorem recordSeamMarkVertices_quiet {lm : Libm} :
    M.pres Quiet (CloseSectors.recordSeamMarkVertices lm) := by
  unfold CloseSectors.recordSeamMarkVertices
  repeat' first
    | (with_reducible first
        | exact quiet_addV | exact quiet_addSd | exact quiet_addL | exact quiet_lastV
        | exact quiet_lastS | exact quiet_setV | exact quiet_setLastV
        | exact quiet_SetNullVertex | exact quiet_pushMarkIdsPrev | exact quiet_onChecker
        | exact quiet_vertexAt | exact quiet_prevSectorId | exact quiet_modifyVertexAt
        | exact quiet_pushV | exact M.pres_pure _ | exact M.pres_fail _ | exact M.pres_read
        | exact M.pres_update (fun _ => ⟨rfl, rfl, rfl, rfl, rfl, rfl, rfl, rfl, rfl⟩)
        | refine M.pres_bind ?_ ?_ | refine M.pres_ite _ ?_ ?_ | refine M.pres_forEach ?_ _
        | intro _)
    | dsimp only
    | split

theorem snapMarkVertices_quiet {have_mark : Bool} {floorpos_prev : Int}
    {it : ℚ × (Nat × Nat)} :
    M.pres Quiet (CloseSectors.snapMarkVertices have_mark floorpos_prev it) := by
  unfold CloseSectors.snapMarkVertices
  repeat' first
    | (with_reducible first
        | exact quiet_addV | exact quiet_addSd | exact quiet_addL | exact quiet_lastV
        | exact quiet_lastS | exact quiet_setV | exact quiet_setLastV
        | exact quiet_SetNullVertex | exact quiet_pushMarkIdsPrev | exact quiet_onChecker
        | exact quiet_vertexAt | exact quiet_prevSectorId | exact quiet_modifyVertexAt
        | exact quiet_pushV | exact M.pres_pure _ | exact M.pres_fail _ | exact M.pres_read
        | exact M.pres_update (fun _ => ⟨rfl, rfl, rfl, rfl, rfl, rfl, rfl, rfl, rfl⟩)
        | refine M.pres_bind ?_ ?_ | refine M.pres_ite _ ?_ ?_ | refine M.pres_forEach ?_ _
        | intro _)
    | dsimp only
    | split

theorem seamLines_quiet {at_mark_start at_mark_end : Bool}
    {prev_sectors_ids : SSlot → Option Nat} (l : List SSlot) (vs : List VSlot) :
    M.pres Quiet (CloseSectors.seamLines at_mark_start at_mark_end prev_sectors_ids l vs) := by
  induction l generalizing vs with
  | nil =>
    unfold CloseSectors.seamLines
    exact M.pres_pure _
  | cons sector rest ih =>
    rcases vs with _ | ⟨vi, _ | ⟨vi1, vrest⟩⟩
    · unfold CloseSectors.seamLines
      exact M.pres_pure _
    · unfold CloseSectors.seamLines
      exact M.pres_pure _
    · unfold CloseSectors.seamLines
      repeat' first
        | (with_reducible first
            | exact ih _ | exact quiet_addV | exact quiet_addSd | exact quiet_addL
            | exact quiet_lastV | exact quiet_lastS | exact quiet_setV | exact quiet_setLastV
            | exact quiet_SetNullVertex | exact quiet_pushMarkIdsPrev | exact quiet_onChecker
            | exact quiet_vertexAt | exact quiet_prevSectorId | exact quiet_modifyVertexAt
            | exact quiet_pushV | exact M.pres_pure _ | exact M.pres_fail _ | exact M.pres_read
            | exact M.pres_update (fun _ => ⟨rfl, rfl, rfl, rfl, rfl, rfl, rfl, rfl, rfl⟩)
            | refine M.pres_bind ?_ ?_ | refine M.pres_ite _ ?_ ?_ | refine M.pres_forEach ?_ _
            | intro _)
        | dsimp only
        | split

theorem Finish_validate_quiet : M.pres Quiet Finish.validate := by
  unfold Finish.validate
  repeat' first
    | (with_reducible first
        | exact quiet_addV | exact quiet_addSd | exact quiet_addL | exact quiet_lastV
        | exact quiet_lastS | exact quiet_setV | exact quiet_setLastV
        | exact quiet_SetNullVertex | exact quiet_pushMarkIdsPrev | exact quiet_onChecker
        | exact quiet_vertexAt | exact quiet_prevSectorId | exact quiet_modifyVertexAt
        | exact quiet_pushV | exact M.pres_pure _ | exact M.pres_fail _ | exact M.pres_read
        | exact M.pres_update (fun _ => ⟨rfl, rfl, rfl, rfl, rfl, rfl, rfl, rfl, rfl⟩)
        | refine M.pres_bind ?_ ?_ | refine M.pres_ite _ ?_ ?_ | refine M.pres_forEach ?_ _
        | intro _)
    | dsimp only
    | split

theorem Finish_closeBackground_quiet {lm : Libm} : M.pres Quiet (Finish.closeBackground lm) := by
  unfold Finish.closeBackground
  repeat' first
    | (with_reducible first
        | exact ExtendBackground_quiet | exact ExtendFence_quiet | exact ExtendBody_quiet
        | exact quiet_addV | exact quiet_addSd | exact quiet_addL | exact quiet_lastV
        | exact quiet_lastS | exact quiet_setV | exact quiet_setLastV
        | exact quiet_SetNullVertex | exact quiet_pushMarkIdsPrev | exact quiet_onChecker
        | exact quiet_vertexAt | exact quiet_prevSectorId | exact quiet_modifyVertexAt
        | exact quiet_pushV | exact M.pres_pure _ | exact M.pres_fail _ | exact M.pres_read
        | exact M.pres_update (fun _ => ⟨rfl, rfl, rfl, rfl, rfl, rfl, rfl, rfl, rfl⟩)
        | refine M.pres_bind ?_ ?_ | refine M.pres_ite _ ?_ ?_ | refine M.pres_forEach ?_ _
        | intro _)
    | dsimp only
    | split

theorem Finish_closeFence_quiet {lm : Libm} {a b : Nat} :
    M.pres Quiet (Finish.closeFence lm a b) := by
  unfold Finish.closeFence
  repeat' first
    | (with_reducible first
        | exact ExtendBackground_quiet | exact ExtendFence_quiet | exact ExtendBody_quiet
        | exact quiet_addV | exact quiet_addSd | exact quiet_addL | exact quiet_lastV
        | exact quiet_lastS | exact quiet_setV | exact quiet_setLastV
        | exact quiet_SetNullVertex | exact quiet_pushMarkIdsPrev | exact quiet_onChecker
        | exact quiet_vertexAt | exact quiet_prevSectorId | exact quiet_modifyVertexAt
        | exact quiet_pushV | exact M.pres_pure _ | exact M.pres_fail _ | exact M.pres_read
        | exact M.pres_update (fun _ => ⟨rfl, rfl, rfl, rfl, rfl, rfl, rfl, rfl, rfl⟩)
        | refine M.pres_bind ?_ ?_ | refine M.pres_ite _ ?_ ?_ | refine M.pres_forEach ?_ _
        | intro _)
    | dsimp only
    | split

theorem Finish_closeRoadFrame_quiet {a b : Nat} : M.pres Quiet (Finish.closeRoadFrame a b) := by
  unfold Finish.closeRoadFrame
  repeat' first
    | (with_reducible first
        | exact ExtendBackground_quiet | exact ExtendFence_quiet | exact ExtendBody_quiet
        | exact quiet_addV | exact quiet_addSd | exact quiet_addL | exact quiet_lastV
        | exact quiet_lastS | exact quiet_setV | exact quiet_setLastV
        | exact quiet_SetNullVertex | exact quiet_pushMarkIdsPrev | exact quiet_onChecker
        | exact quiet_vertexAt | exact quiet_prevSectorId | exact quiet_modifyVertexAt
        | exact quiet_pushV | exact M.pres_pure _ | exact M.pres_fail _ | exact M.pres_read
        | exact M.pres_update (fun _ => ⟨rfl, rfl, rfl, rfl, rfl, rfl, rfl, rfl, rfl⟩)
        | refine M.pres_bind ?_ ?_ | refine M.pres_ite _ ?_ ?_ | refine M.pres_forEach ?_ _
        | intro _)
    | dsimp only
    | split

theorem Finish_seamLines_quiet (l : List (Nat × Nat)) (vs : List Nat) :
    M.pres Quiet (Finish.seamLines l vs) := by
  induction l generalizing vs with
  | nil =>
    unfold Finish.seamLines
    exact M.pres_pure _
  | cons p rest ih =>
    rcases vs with _ | ⟨vi, _ | ⟨vi1, vrest⟩⟩
    · unfold Finish.seamLines
      exact M.pres_pure _
    · unfold Finish.seamLines
      exact M.pres_pure _
    · unfold Finish.seamLines
      repeat' first
        | (with_reducible first
            | exact ih _ | exact quiet_addV | exact quiet_addSd | exact quiet_addL
            | exact quiet_lastV | exact quiet_lastS | exact quiet_setV | exact quiet_setLastV
            | exact quiet_SetNullVertex | exact quiet_pushMarkIdsPrev | exact quiet_onChecker
            | exact quiet_vertexAt | exact quiet_prevSectorId | exact quiet_modifyVertexAt
            | exact quiet_pushV | exact M.pres_pure _ | exact M.pres_fail _ | exact M.pres_read
            | exact M.pres_update (fun _ => ⟨rfl, rfl, rfl, rfl, rfl, rfl, rfl, rfl, rfl⟩)
            | refine M.pres_bind ?_ ?_ | refine M.pres_ite _ ?_ ?_ | refine M.pres_forEach ?_ _
            | intro _)
        | dsimp only
        | split
theorem Ht.of_quiet {c : RoadConfig} {f k : Int} {ms : SSlot → Sector} {st cl : Bool} {tg : ℚ}
    {rn : Prop} {s s1 : RoadFigure} (h : Ht c f k ms st cl tg rn s) (q : Quiet s s1) :
    Ht c f k ms st cl tg rn s1 := by
  constructor
  · rw [q.cfg]; exact h.cfg
  · rw [q.fp]; exact h.fp
  · rw [q.cp]; exact h.cp
  · rw [q.m_s]; exact h.m_s
  · rw [q.st]; exact h.st
  · rw [q.cl]; exact h.cl
  · rw [q.slope]; exact h.tg
  · rw [q.sectors]; exact h.all
  · rw [q.sectors, q.last]; exact h.lastK
  · rw [q.sectors, q.last]; exact h.lastLt
  · rw [q.last]; exact h.dist
  · intro hr
    have := h.renewed hr
    unfold Renewed at this ⊢
    rw [q.last]
    exact this

theorem Ht.weaken {c : RoadConfig} {f k : Int} {ms : SSlot → Sector} {st cl : Bool} {tg : ℚ}
    {rn rn1 : Prop} {s : RoadFigure} (h : Ht c f k ms st cl tg rn s) (hr : rn1 → rn) :
    Ht c f k ms st cl tg rn1 s :=
  ⟨h.cfg, h.fp, h.cp, h.m_s, h.st, h.cl, h.tg, h.all, h.lastK, h.lastLt, h.dist,
    fun h1 => h.renewed (hr h1)⟩

theorem Ht.with_renewed {c : RoadConfig} {f k : Int} {ms : SSlot → Sector} {st cl : Bool}
    {tg : ℚ} {rn : Prop} {s : RoadFigure} (h : Ht c f k ms st cl tg rn s) (hr : Renewed s) :
    Ht c f k ms st cl tg True s :=
  ⟨h.cfg, h.fp, h.cp, h.m_s, h.st, h.cl, h.tg, h.all, h.lastK, h.lastLt, h.dist, fun _ => hr⟩

theorem Lock.sec_ok {c : RoadConfig} {f k : Int} {ms : SSlot → Sector} (L : Lock c f k ms)
    (R : Room c f k) (slot : SSlot) :
    (ms slot).heightfloor ≤ (ms slot).heightceiling
    ∧ (slot ≠ SSlot.m_s_background_sky → (ms slot).heightceiling = k) := by
  have hf := L.floor slot
  have h1 := R.fence
  have h2 := R.side
  have h3 := R.room
  refine ⟨?_, L.ceil slot⟩
  cases slot <;>
    first
    | (rw [hf, L.sky]; simp only [floorOffset]; omega)
    | (rw [hf, L.ceil _ (by decide)]; simp only [floorOffset, MARK_HEIGHT]; omega)

theorem Ht.template_ok {c : RoadConfig} {f k : Int} {ms : SSlot → Sector} {st cl : Bool} {tg : ℚ}
    {rn : Prop} {s : RoadFigure} (h : Ht c f k ms st cl tg rn s) (L : Lock c f k ms)
    (R : Room c f k) (slot : SSlot) :
    (s.m_s slot).heightfloor ≤ (s.m_s slot).heightceiling
    ∧ (slot ≠ SSlot.m_s_background_sky → (s.m_s slot).heightceiling = k) := by
  rw [h.m_s]
  exact L.sec_ok R slot

theorem Ht.sec_ok_ceil {c : RoadConfig} {f k : Int} {ms : SSlot → Sector} {st cl : Bool}
    {tg : ℚ} {rn : Prop} {s : RoadFigure} (h : Ht c f k ms st cl tg rn s) (L : Lock c f k ms)
    (R : Room c f k) (slot : SSlot) (hs : slot ≠ SSlot.m_s_background_sky) :
    (s.m_s slot).heightfloor ≤ (s.m_s slot).heightceiling
    ∧ (s.m_s slot).heightceiling = k :=
  ⟨(h.template_ok L R slot).1, (h.template_ok L R slot).2 hs⟩

theorem DistIds_update_fresh {last_ids : SSlot → Option Nat} {n : Nat} {slot a b : SSlot}
    (hlt : ∀ sl id, last_ids sl = some id → id < n) (hab : a ≠ b)
    (h : DistIds last_ids a b ∨ slot = a ∨ slot = b) :
    DistIds (Function.update last_ids slot (some n)) a b := by
  intro i j hi hj
  by_cases ha : a = slot
  · subst ha
    rw [Function.update_same] at hi
    rw [Function.update_noteq (Ne.symm hab)] at hj
    have := hlt _ _ hj
    simp only [Option.some.injEq] at hi
    omega
  · by_cases hb : b = slot
    · subst hb
      rw [Function.update_same] at hj
      rw [Function.update_noteq ha] at hi
      have := hlt _ _ hi
      simp only [Option.some.injEq] at hj
      omega
    · rw [Function.update_noteq ha] at hi
      rw [Function.update_noteq hb] at hj
      rcases h with h | h | h
      · exact h i j hi hj
      · exact absurd h.symm ha
      · exact absurd h.symm hb

theorem ht_quiet {α : Type} {m : M RoadFigure α} {Q : α → RoadFigure → Prop} {c : RoadConfig}
    {f k : Int} {ms : SSlot → Sector} {st cl : Bool} {tg : ℚ} {rn : Prop} {s : RoadFigure}
    (hm : M.pres Quiet m) (h : Ht c f k ms st cl tg rn s)
    (hQ : ∀ a s1, Ht c f k ms st cl tg rn s1 → Q a s1) : M.wlp m Q s := by
  have hq := hm.run s
  unfold M.wlp
  rcases hr : m s with ⟨r, s1⟩
  rw [hr] at hq
  cases r with
  | error e => trivial
  | ok a => exact hQ a s1 (h.of_quiet hq)

theorem ht_lastS {slot : SSlot} {Q : Nat → RoadFigure → Prop} {s : RoadFigure}
    (hQ : ∀ id, s.m_last_ids_s slot = some id → Q id s) : M.wlp (lastS slot) Q s := by
  unfold M.wlp lastS
  cases hl : s.m_last_ids_s slot with
  | none => trivial
  | some id => exact hQ id hl

theorem ht_update {g : RoadFigure → RoadFigure} {Q : Unit → RoadFigure → Prop} {c : RoadConfig}
    {f k : Int} {ms : SSlot → Sector} {st cl : Bool} {tg : ℚ} {rn : Prop} {s : RoadFigure}
    (h : Ht c f k ms st cl tg rn s) (q : Quiet s (g s))
    (hQ : ∀ s1, Ht c f k ms st cl tg rn s1 → Q () s1) : M.wlp (M.update g) Q s :=
  (M.wlp_update _ _ _).mpr (hQ _ (h.of_quiet q))

theorem ht_update_closed {g : RoadFigure → RoadFigure} {Q : Unit → RoadFigure → Prop}
    {c : RoadConfig} {f k : Int} {ms : SSlot → Sector} {st cl : Bool} {tg : ℚ} {rn : Prop}
    {s : RoadFigure} (b : Bool) (h : Ht c f k ms st cl tg rn s)
    (q : Quiet { s with m_sectors_closed := b } (g s))
    (hQ : ∀ s1, Ht c f k ms st b tg rn s1 → Q () s1) : M.wlp (M.update g) Q s := by
  refine (M.wlp_update _ _ _).mpr (hQ _ ?_)
  have h1 : Ht c f k ms st b tg rn { s with m_sectors_closed := b } :=
    ⟨h.cfg, h.fp, h.cp, h.m_s, h.st, rfl, h.tg, h.all, h.lastK, h.lastLt, h.dist, h.renewed⟩
  exact h1.of_quiet q

theorem ht_pushS {slot : SSlot} {Q : Unit → RoadFigure → Prop} {c : RoadConfig}
    {f k : Int} {ms : SSlot → Sector} {st cl : Bool} {tg : ℚ} {rn : Prop} {s : RoadFigure}
    (h : Ht c f k ms st cl tg rn s)
    (hok : (ms slot).heightfloor ≤ (ms slot).heightceiling
      ∧ (slot ≠ SSlot.m_s_background_sky → (ms slot).heightceiling = k))
    (hQ : ∀ s1, Ht c f k ms st cl tg rn s1 → Q () s1) : M.wlp (pushS slot) Q s := by
  unfold M.wlp pushS
  simp only [M.run_bind, M.run_read]
  unfold onMap addSector AddMapEntryT setLastS
  dsimp only
  split_ifs with hcap
  · trivial
  · simp only [M.run_update]
    refine hQ _ ⟨h.cfg, h.fp, h.cp, h.m_s, h.st, h.cl, h.tg, ?_, ?_, ?_, ?_, ?_⟩
    · intro sec hsec
      rcases List.mem_append.mp hsec with hsec | hsec
      · exact h.all sec hsec
      · simp only [List.mem_singleton] at hsec
        subst hsec
        rw [h.m_s]
        exact hok.1
    · intro sl id hsl hid
      show ∃ sec, (s.m_map.sectors ++ [s.m_s slot]).get? id = some sec ∧ _
      by_cases hs : sl = slot
      · subst hs
        simp only [Function.update_same, Option.some.injEq] at hid
        subst hid
        refine ⟨s.m_s sl, ?_, ?_⟩
        · rw [List.get?_eq_getElem?, List.getElem?_append_right (le_refl _)]
          simp
        · rw [h.m_s]
          exact hok.2 hsl
      · simp only [Function.update_noteq hs] at hid
        obtain ⟨sec, h1, h2⟩ := h.lastK sl id hsl hid
        refine ⟨sec, ?_, h2⟩
        rw [List.get?_eq_getElem?, List.getElem?_append_left (h.lastLt sl id hid)]
        rw [List.get?_eq_getElem?] at h1
        exact h1
    · intro sl id hid
      show id < (s.m_map.sectors ++ [s.m_s slot]).length
      rw [List.length_append, List.length_singleton]
      by_cases hs : sl = slot
      · subst hs
        simp only [Function.update_same, Option.some.injEq] at hid
        omega
      · simp only [Function.update_noteq hs] at hid
        have := h.lastLt sl id hid
        omega
    · intro sl hsl
      exact DistIds_update_fresh h.lastLt hsl (Or.inl (h.dist sl hsl))
    · intro hr
      have := h.renewed hr
      exact ⟨DistIds_update_fresh h.lastLt (by decide) (Or.inl this.1),
        DistIds_update_fresh h.lastLt (by decide) (Or.inl this.2)⟩

theorem ht_addS_pair {sec : Sector} {a b : SSlot} {Q : Nat → RoadFigure → Prop}
    {c : RoadConfig} {f k : Int} {ms : SSlot → Sector} {st cl : Bool} {tg : ℚ} {rn : Prop}
    {s : RoadFigure} (h : Ht c f k ms st cl tg rn s)
    (hok : sec.heightfloor ≤ sec.heightceiling ∧ sec.heightceiling = k)
    (ha : a ≠ SSlot.m_s_background_sky) (hb : b ≠ SSlot.m_s_background_sky)
    (hQ : ∀ id s1, Ht c f k ms st cl tg False s1 → Q id s1) :
    M.wlp (addS sec) (fun id s1 => M.wlp (setLastS a id)
      (fun _ s2 => M.wlp (setLastS b id) (fun _ s3 => Q id s3) s2) s1) s := by
  unfold M.wlp addS onMap addSector AddMapEntryT
  dsimp only
  split_ifs with hcap
  · trivial
  · dsimp only
    unfold setLastS
    simp only [M.run_update]
    have hlt : ∀ sl id, (Function.update (Function.update s.m_last_ids_s a
        (some s.m_map.sectors.length)) b (some s.m_map.sectors.length)) sl = some id →
        id = s.m_map.sectors.length ∨ (s.m_last_ids_s sl = some id) := by
      intro sl id hid
      by_cases h1 : sl = b
      · subst h1
        simp only [Function.update_same, Option.some.injEq] at hid
        exact Or.inl hid.symm
      · rw [Function.update_noteq h1] at hid
        by_cases h2 : sl = a
        · subst h2
          simp only [Function.update_same, Option.some.injEq] at hid
          exact Or.inl hid.symm
        · rw [Function.update_noteq h2] at hid
          exact Or.inr hid
    have hsky : (Function.update (Function.update s.m_last_ids_s a
        (some s.m_map.sectors.length)) b (some s.m_map.sectors.length))
        SSlot.m_s_background_sky = s.m_last_ids_s SSlot.m_s_background_sky := by
      rw [Function.update_noteq (Ne.symm hb), Function.update_noteq (Ne.symm ha)]
    refine hQ _ _ ⟨h.cfg, h.fp, h.cp, h.m_s, h.st, h.cl, h.tg, ?_, ?_, ?_, ?_, ?_⟩
    · intro x hx
      rcases List.mem_append.mp hx with hx | hx
      · exact h.all x hx
      · simp only [List.mem_singleton] at hx
        subst hx
        exact hok.1
    · intro sl id hsl hid
      show ∃ x, (s.m_map.sectors ++ [sec]).get? id = some x ∧ _
      rcases hlt sl id hid with h1 | h1
      · subst h1
        refine ⟨sec, ?_, hok.2⟩
        rw [List.get?_eq_getElem?, List.getElem?_append_right (le_refl _)]
        simp
      · obtain ⟨x, h2, h3⟩ := h.lastK sl id hsl h1
        refine ⟨x, ?_, h3⟩
        rw [List.get?_eq_getElem?, List.getElem?_append_left (h.lastLt sl id h1)]
        rw [List.get?_eq_getElem?] at h2
        exact h2
    · intro sl id hid
      show id < (s.m_map.sectors ++ [sec]).length
      rw [List.length_append, List.length_singleton]
      rcases hlt sl id hid with h1 | h1
      · omega
      · have := h.lastLt sl id h1
        omega
    · intro sl hsl i j hi hj
      have hj0 : s.m_last_ids_s SSlot.m_s_background_sky = some j := by
        rw [← hsky]
        exact hj
      have hj1 := h.lastLt _ _ hj0
      rcases hlt sl i hi with h1 | h1
      · omega
      · exact h.dist sl hsl i j h1 hj0
    · intro hr
      exact absurd hr id
set_option maxHeartbeats 4000000 in
theorem ExtendMark_loop_ht {length_middle : ℚ} {v_west_dir v_east_dir : ℚ × ℚ}
    {have_slope : Bool} {c : RoadConfig} {f k : Int} {ms : SSlot → Sector} {st cl : Bool}
    {tg : ℚ} {rn : Prop} (L : Lock c f k ms) (R : Room c f k) (fuel : Nat) :
    ∀ (length : ℚ) (first_vertices_added : Bool) (s : RoadFigure),
      Ht c f k ms st cl tg rn s →
      M.wlp (ExtendMark.loop length_middle v_west_dir v_east_dir have_slope fuel length
        first_vertices_added) (fun _ s1 => Ht c f k ms st cl tg rn s1) s := by
  induction fuel with
  | zero =>
    intro length first_vertices_added s h
    unfold ExtendMark.loop
    repeat' (first
      | assumption
      | (refine ht_lastS ?_; intro id hid)
      | (refine ht_pushS (by assumption)
          (Lock.sec_ok (by assumption) (by assumption) _) ?_; intro s1 hE)
      | (refine ht_addS_pair (by assumption)
          (Ht.sec_ok_ceil (by assumption) (by assumption) (by assumption) _ (by decide))
          (by decide) (by decide) ?_; intro id s1 hE)
      | (refine ht_quiet (by with_reducible first
          | exact quiet_addV | exact quiet_addSd | exact quiet_addL | exact quiet_lastV
          | exact quiet_setV | exact quiet_setLastV | exact quiet_SetNullVertex
          | exact quiet_pushMarkIdsPrev | exact quiet_onChecker | exact quiet_vertexAt
          | exact quiet_prevSectorId | exact quiet_modifyVertexAt | exact quiet_pushV
          | exact ExtendBackground_quiet | exact ExtendFence_quiet | exact ExtendBody_quiet
          | exact markVertexIsHere_quiet) (by assumption) ?_
         intro a s1 hE)
      | (refine (M.wlp_pure _ _ _).mpr (by assumption))
      | (refine (M.wlp_fail _ _ _).mpr trivial)
      | (refine (M.wlp_pure _ _ _).mpr ?_)
      | (refine (M.wlp_read _ _).mpr ?_)
      | (refine ht_update (by assumption) ⟨rfl, rfl, rfl, rfl, rfl, rfl, rfl, rfl, rfl⟩ ?_
         intro s1 hE)
      | (refine (M.wlp_ite _ _ _ _ _).mpr ⟨?_, ?_⟩ <;> intro hc)
      | (simp only [M.wlp_bind])
      | split)
  | succ fuel ih =>
    intro length first_vertices_added s h
    unfold ExtendMark.loop
    simp only [M.wlp_bind]
    repeat' (first
      | assumption
      | (exact ih _ _ _ (by assumption))
      | (refine ht_lastS ?_; intro id hid)
      | (refine ht_pushS (by assumption)
          (Lock.sec_ok (by assumption) (by assumption) _) ?_; intro s1 hE)
      | (refine ht_addS_pair (by assumption)
          (Ht.sec_ok_ceil (by assumption) (by assumption) (by assumption) _ (by decide))
          (by decide) (by decide) ?_; intro id s1 hE)
      | (refine ht_quiet (by with_reducible first
          | exact quiet_addV | exact quiet_addSd | exact quiet_addL | exact quiet_lastV
          | exact quiet_setV | exact quiet_setLastV | exact quiet_SetNullVertex
          | exact quiet_pushMarkIdsPrev | exact quiet_onChecker | exact quiet_vertexAt
          | exact quiet_prevSectorId | exact quiet_modifyVertexAt | exact quiet_pushV
          | exact ExtendBackground_quiet | exact ExtendFence_quiet | exact ExtendBody_quiet
          | exact markVertexIsHere_quiet) (by assumption) ?_
         intro a s1 hE)
      | (refine (M.wlp_pure _ _ _).mpr (by assumption))
      | (refine (M.wlp_fail _ _ _).mpr trivial)
      | (refine (M.wlp_pure _ _ _).mpr ?_)
      | (refine (M.wlp_read _ _).mpr ?_)
      | (refine ht_update (by assumption) ⟨rfl, rfl, rfl, rfl, rfl, rfl, rfl, rfl, rfl⟩ ?_
         intro s1 hE)
      | (refine (M.wlp_ite _ _ _ _ _).mpr ⟨?_, ?_⟩ <;> intro hc)
      | (simp only [M.wlp_bind])
      | split)

theorem ExtendMark_ht {lm : Libm} {a b : Vertex} {c : RoadConfig} {f k : Int}
    {ms : SSlot → Sector} {st cl : Bool} {tg : ℚ} {rn : Prop} {s : RoadFigure}
    (h : Ht c f k ms st cl tg rn s) (L : Lock c f k ms) (R : Room c f k) :
    M.wlp (ExtendMark lm a b) (fun _ s1 => Ht c f k ms st cl tg rn s1) s := by
  unfold ExtendMark
  simp only [M.wlp_bind]
  repeat' (first
    | assumption
    | (exact ExtendMark_loop_ht (by assumption) (by assumption) _ _ _ _ (by assumption))
    | (refine ht_lastS ?_; intro id hid)
    | (refine ht_pushS (by assumption)
        (Lock.sec_ok (by assumption) (by assumption) _) ?_; intro s1 hE)
    | (refine ht_addS_pair (by assumption)
        (Ht.sec_ok_ceil (by assumption) (by assumption) (by assumption) _ (by decide))
        (by decide) (by decide) ?_; intro id s1 hE)
    | (refine ht_quiet (by with_reducible first
        | exact quiet_addV | exact quiet_addSd | exact quiet_addL | exact quiet_lastV
        | exact quiet_setV | exact quiet_setLastV | exact quiet_SetNullVertex
        | exact quiet_pushMarkIdsPrev | exact quiet_onChecker | exact quiet_vertexAt
        | exact quiet_prevSectorId | exact quiet_modifyVertexAt | exact quiet_pushV
        | exact ExtendBackground_quiet | exact ExtendFence_quiet | exact ExtendBody_quiet
        | exact markVertexIsHere_quiet) (by assumption) ?_
       intro a s1 hE)
    | (refine (M.wlp_pure _ _ _).mpr (by assumption))
    | (refine (M.wlp_fail _ _ _).mpr trivial)
    | (refine (M.wlp_pure _ _ _).mpr ?_)
    | (refine (M.wlp_read _ _).mpr ?_)
    | (refine ht_update (by assumption) ⟨rfl, rfl, rfl, rfl, rfl, rfl, rfl, rfl, rfl⟩ ?_
       intro s1 hE)
    | (refine (M.wlp_ite _ _ _ _ _).mpr ⟨?_, ?_⟩ <;> intro hc)
    | (simp only [M.wlp_bind])
    | split)

theorem renewSectors_ht {at_mark_start at_mark_end : Bool} {c : RoadConfig} {f k : Int}
    {ms : SSlot → Sector} {st cl : Bool} {tg : ℚ} {rn : Prop} (L : Lock c f k ms)
    (R : Room c f k) (l : List SSlot) :
    ∀ (prev_sectors_ids : SSlot → Option Nat) (s : RoadFigure), Ht c f k ms st cl tg rn s →
      M.wlp (CloseSectors.renewSectors at_mark_start at_mark_end l prev_sectors_ids)
        (fun _ s1 => Ht c f k ms st cl tg rn s1) s := by
  induction l with
  | nil =>
    intro prev_sectors_ids s h
    unfold CloseSectors.renewSectors
    exact (M.wlp_pure _ _ _).mpr h
  | cons sector rest ih =>
    intro prev_sectors_ids s h
    unfold CloseSectors.renewSectors
    simp only [M.wlp_bind]
    repeat' (first
      | assumption
      | (exact ih _ _ (by assumption))
      | (refine ht_lastS ?_; intro id hid)
      | (refine ht_pushS (by assumption)
          (Lock.sec_ok (by assumption) (by assumption) _) ?_; intro s1 hE)
      | (refine ht_addS_pair (by assumption)
          (Ht.sec_ok_ceil (by assumption) (by assumption) (by assumption) _ (by decide))
          (by decide) (by decide) ?_; intro id s1 hE)
      | (refine ht_quiet (by with_reducible first
          | exact quiet_addV | exact quiet_addSd | exact quiet_addL | exact quiet_lastV
          | exact quiet_setV | exact quiet_setLastV | exact quiet_SetNullVertex
          | exact quiet_pushMarkIdsPrev | exact quiet_onChecker | exact quiet_vertexAt
          | exact quiet_prevSectorId | exact quiet_modifyVertexAt | exact quiet_pushV
          | exact ExtendBackground_quiet | exact ExtendFence_quiet | exact ExtendBody_quiet
          | exact markVertexIsHere_quiet) (by assumption) ?_
         intro a s1 hE)
      | (refine (M.wlp_pure _ _ _).mpr (by assumption))
      | (refine (M.wlp_fail _ _ _).mpr trivial)
      | (refine (M.wlp_pure _ _ _).mpr ?_)
      | (refine (M.wlp_read _ _).mpr ?_)
      | (refine ht_update (by assumption) ⟨rfl, rfl, rfl, rfl, rfl, rfl, rfl, rfl, rfl⟩ ?_
         intro s1 hE)
      | (refine (M.wlp_ite _ _ _ _ _).mpr ⟨?_, ?_⟩ <;> intro hc)
      | (simp only [M.wlp_bind])
      | split)

theorem Start_addBackground_ht {lm : Libm} {c : RoadConfig} {f k : Int}
    {ms : SSlot → Sector} {st cl : Bool} {tg : ℚ} {rn : Prop} {s : RoadFigure}
    (h : Ht c f k ms st cl tg rn s) (L : Lock c f k ms) (R : Room c f k) :
    M.wlp (Start.addBackground lm) (fun _ s1 => Ht c f k ms st cl tg False s1) s := by
  replace h := h.weaken (False.elim : False → rn)
  unfold Start.addBackground
  simp only [M.wlp_bind]
  repeat' (first
    | assumption
    | (refine ht_lastS ?_; intro id hid)
    | (refine ht_pushS (by assumption)
        (Lock.sec_ok (by assumption) (by assumption) _) ?_; intro s1 hE)
    | (refine ht_addS_pair (by assumption)
        (Ht.sec_ok_ceil (by assumption) (by assumption) (by assumption) _ (by decide))
        (by decide) (by decide) ?_; intro id s1 hE)
    | (refine ht_quiet (by with_reducible first
        | exact quiet_addV | exact quiet_addSd | exact quiet_addL | exact quiet_lastV
        | exact quiet_setV | exact quiet_setLastV | exact quiet_SetNullVertex
        | exact quiet_pushMarkIdsPrev | exact quiet_onChecker | exact quiet_vertexAt
        | exact quiet_prevSectorId | exact quiet_modifyVertexAt | exact quiet_pushV
        | exact ExtendBackground_quiet | exact ExtendFence_quiet | exact ExtendBody_quiet
        | exact markVertexIsHere_quiet) (by assumption) ?_
       intro a s1 hE)
    | (refine (M.wlp_pure _ _ _).mpr (by assumption))
    | (refine (M.wlp_fail _ _ _).mpr trivial)
    | (refine (M.wlp_pure _ _ _).mpr ?_)
    | (refine (M.wlp_read _ _).mpr ?_)
    | (refine ht_update (by assumption) ⟨rfl, rfl, rfl, rfl, rfl, rfl, rfl, rfl, rfl⟩ ?_
       intro s1 hE)
    | (refine (M.wlp_ite _ _ _ _ _).mpr ⟨?_, ?_⟩ <;> intro hc)
    | (simp only [M.wlp_bind])
    | split)

theorem Start_addFence_ht {lm : Libm} {id : Nat} {c : RoadConfig} {f k : Int}
    {ms : SSlot → Sector} {st cl : Bool} {tg : ℚ} {s : RoadFigure}
    (h : Ht c f k ms st cl tg False s) (L : Lock c f k ms) (R : Room c f k) :
    M.wlp (Start.addFence lm id) (fun _ s1 => Ht c f k ms st cl tg False s1) s := by
  unfold Start.addFence
  simp only [M.wlp_bind]
  repeat' (first
    | assumption
    | (refine ht_lastS ?_; intro id hid)
    | (refine ht_pushS (by assumption)
        (Lock.sec_ok (by assumption) (by assumption) _) ?_; intro s1 hE)
    | (refine ht_addS_pair (by assumption)
        (Ht.sec_ok_ceil (by assumption) (by assumption) (by assumption) _ (by decide))
        (by decide) (by decide) ?_; intro id s1 hE)
    | (refine ht_quiet (by with_reducible first
        | exact quiet_addV | exact quiet_addSd | exact quiet_addL | exact quiet_lastV
        | exact quiet_setV | exact quiet_setLastV | exact quiet_SetNullVertex
        | exact quiet_pushMarkIdsPrev | exact quiet_onChecker | exact quiet_vertexAt
        | exact quiet_prevSectorId | exact quiet_modifyVertexAt | exact quiet_pushV
        | exact ExtendBackground_quiet | exact ExtendFence_quiet | exact ExtendBody_quiet
        | exact markVertexIsHere_quiet) (by assumption) ?_
       intro a s1 hE)
    | (refine (M.wlp_pure _ _ _).mpr (by assumption))
    | (refine (M.wlp_fail _ _ _).mpr trivial)
    | (refine (M.wlp_pure _ _ _).mpr ?_)
    | (refine (M.wlp_read _ _).mpr ?_)
    | (refine ht_update (by assumption) ⟨rfl, rfl, rfl, rfl, rfl, rfl, rfl, rfl, rfl⟩ ?_
       intro s1 hE)
    | (refine (M.wlp_ite _ _ _ _ _).mpr ⟨?_, ?_⟩ <;> intro hc)
    | (simp only [M.wlp_bind])
    | split)

theorem Start_addRoadFrame_ht {lm : Libm} {id : Nat} {c : RoadConfig} {f k : Int}
    {ms : SSlot → Sector} {st cl : Bool} {tg : ℚ} {s : RoadFigure}
    (h : Ht c f k ms st cl tg False s) (L : Lock c f k ms) (R : Room c f k) :
    M.wlp (Start.addRoadFrame lm id) (fun _ s1 => Ht c f k ms st cl tg False s1) s := by
  unfold Start.addRoadFrame
  simp only [M.wlp_bind]
  repeat' (first
    | assumption
    | (refine ht_lastS ?_; intro id hid)
    | (refine ht_pushS (by assumption)
        (Lock.sec_ok (by assumption) (by assumption) _) ?_; intro s1 hE)
    | (refine ht_addS_pair (by assumption)
        (Ht.sec_ok_ceil (by assumption) (by assumption) (by assumption) _ (by decide))
        (by decide) (by decide) ?_; intro id s1 hE)
    | (refine ht_quiet (by with_reducible first
        | exact quiet_addV | exact quiet_addSd | exact quiet_addL | exact quiet_lastV
        | exact quiet_setV | exact quiet_setLastV | exact quiet_SetNullVertex
        | exact quiet_pushMarkIdsPrev | exact quiet_onChecker | exact quiet_vertexAt
        | exact quiet_prevSectorId | exact quiet_modifyVertexAt | exact quiet_pushV
        | exact ExtendBackground_quiet | exact ExtendFence_quiet | exact ExtendBody_quiet
        | exact markVertexIsHere_quiet) (by assumption) ?_
       intro a s1 hE)
    | (refine (M.wlp_pure _ _ _).mpr (by assumption))
    | (refine (M.wlp_fail _ _ _).mpr trivial)
    | (refine (M.wlp_pure _ _ _).mpr ?_)
    | (refine (M.wlp_read _ _).mpr ?_)
    | (refine ht_update (by assumption) ⟨rfl, rfl, rfl, rfl, rfl, rfl, rfl, rfl, rfl⟩ ?_
       intro s1 hE)
    | (refine (M.wlp_ite _ _ _ _ _).mpr ⟨?_, ?_⟩ <;> intro hc)
    | (simp only [M.wlp_bind])
    | split)
theorem ht_modifySectorAt {slot : SSlot} {id : Nat} {g : Sector → Sector}
    {Q : Unit → RoadFigure → Prop} {c : RoadConfig} {f k : Int} {ms : SSlot → Sector}
    {st cl : Bool} {tg : ℚ} {rn : Prop} {s : RoadFigure} (h : Ht c f k ms st cl tg rn s)
    (hid : s.m_last_ids_s slot = some id)
    (hall : ∀ sec, s.m_map.sectors.get? id = some sec →
      (g sec).heightfloor ≤ (g sec).heightceiling)
    (hceil : slot ≠ SSlot.m_s_background_sky → ∀ sec, (g sec).heightceiling = sec.heightceiling)
    (hQ : ∀ s1, Ht c f k ms st cl tg rn s1 → Q () s1) :
    M.wlp (modifySectorAt id g) Q s := by
  unfold M.wlp modifySectorAt
  cases hsec : s.m_map.sectors.get? id with
  | none => trivial
  | some sec =>
    dsimp only
    refine hQ _ ⟨h.cfg, h.fp, h.cp, h.m_s, h.st, h.cl, h.tg, ?_, ?_, ?_, h.dist, h.renewed⟩
    · intro x hx
      rcases List.mem_or_eq_of_mem_set hx with hx | hx
      · exact h.all x hx
      · subst hx
        exact hall sec hsec
    · intro sl id1 hsl hid1
      show ∃ x, (s.m_map.sectors.set id (g sec)).get? id1 = some x ∧ _
      obtain ⟨x, h1, h2⟩ := h.lastK sl id1 hsl hid1
      rw [List.get?_eq_getElem?] at h1 ⊢
      rw [List.getElem?_set]
      by_cases hii : id = id1
      · subst hii
        have hne : slot ≠ SSlot.m_s_background_sky := by
          intro hs
          subst hs
          exact h.dist sl hsl id id hid1 hid rfl
        rw [List.get?_eq_getElem?] at hsec
        rw [hsec, Option.some.injEq] at h1
        subst h1
        rw [if_pos rfl, if_pos (h.lastLt sl id hid1)]
        exact ⟨_, rfl, (hceil hne sec).trans h2⟩
      · rw [if_neg hii]
        exact ⟨x, h1, h2⟩
    · intro sl id1 hid1
      show id1 < (s.m_map.sectors.set id (g sec)).length
      rw [List.length_set]
      exact h.lastLt sl id1 hid1

theorem Ht.set_template {c : RoadConfig} {f k : Int} {ms : SSlot → Sector} {st cl : Bool}
    {tg : ℚ} {rn : Prop} {s : RoadFigure} (h : Ht c f k ms st cl tg rn s) (slot : SSlot)
    (sec : Sector) :
    Ht c f k (Function.update s.m_s slot sec) st cl tg rn
      { s with m_s := Function.update s.m_s slot sec } :=
  ⟨h.cfg, h.fp, h.cp, rfl, h.st, h.cl, h.tg, h.all, h.lastK, h.lastLt, h.dist, h.renewed⟩

theorem Ht.recast_templates {c : RoadConfig} {f k : Int} {ms ms1 : SSlot → Sector}
    {st cl : Bool} {tg : ℚ} {rn : Prop} {s : RoadFigure} (h : Ht c f k ms st cl tg rn s)
    (e : ms = ms1) : Ht c f k ms1 st cl tg rn s := by
  subst e
  exact h

theorem slopeSector_ht {height_diff : Int} {have_mark at_mark_start had_mark : Bool}
    {slot : SSlot} {Q : Unit → RoadFigure → Prop} {c : RoadConfig} {f k : Int}
    {ms : SSlot → Sector} {st cl : Bool} {tg : ℚ} {rn : Prop} {s : RoadFigure}
    (h : Ht c f k ms st cl tg rn s)
    (hfl : slot ≠ SSlot.m_s_background_sky → (ms slot).heightfloor + height_diff ≤ k)
    (hsky : slot = SSlot.m_s_background_sky →
      (ms slot).heightfloor = (ms slot).heightceiling)
    (hQ : ∀ s1, Ht c f k (Function.update ms slot (slopedSector (ms slot)
      (decide (slot = SSlot.m_s_background_sky)) height_diff)) st cl tg rn s1 → Q () s1) :
    M.wlp (CloseSectors.slopeSector height_diff have_mark at_mark_start had_mark slot) Q s := by
  unfold CloseSectors.slopeSector
  simp only [M.wlp_bind]
  refine (M.wlp_read _ _).mpr ?_
  dsimp only
  refine (M.wlp_update _ _ _).mpr ?_
  have hms := h.m_s
  have h1 := (h.set_template slot (slopedSector (s.m_s slot)
    (decide (slot = SSlot.m_s_background_sky)) height_diff)).recast_templates
    (show _ = Function.update ms slot (slopedSector (ms slot)
      (decide (slot = SSlot.m_s_background_sky)) height_diff) by rw [hms])
  refine (M.wlp_ite _ _ _ _ _).mpr ⟨fun _ => ?_, fun _ => ?_⟩
  · simp only [M.wlp_bind]
    refine ht_lastS ?_
    intro id hid
    refine ht_modifySectorAt h1 hid ?_ ?_ hQ
    · intro sec hsec
      dsimp only
      by_cases hs : slot = SSlot.m_s_background_sky
      · rw [if_pos (by simpa using hs)]
        have := hsky hs
        rw [hms]
        omega
      · rw [if_neg (by simpa using hs)]
        obtain ⟨x, hx1, hx2⟩ := h.lastK slot id hs hid
        rw [hx1, Option.some.injEq] at hsec
        subst hsec
        have := hfl hs
        rw [hms, hx2]
        exact this
    · intro hs sec
      dsimp only
      rw [if_neg (by simpa using hs)]
  · exact (M.wlp_pure _ _ _).mpr (hQ _ h1)

theorem Lock.slope_ok {c : RoadConfig} {f k : Int} {ms : SSlot → Sector} (L : Lock c f k ms)
    (R : Room c f k) {height_diff : Int} (hg : f + height_diff + c.sizes.fence_height < k)
    (slot : SSlot) : (ms slot).heightfloor + height_diff ≤ k := by
  have hf := L.floor slot
  have h1 := R.fence
  have h2 := R.side
  rw [hf]
  cases slot <;> simp only [floorOffset, MARK_HEIGHT] <;> omega

theorem Lock.sky_eq {c : RoadConfig} {f k : Int} {ms : SSlot → Sector} (L : Lock c f k ms) :
    (ms SSlot.m_s_background_sky).heightfloor = (ms SSlot.m_s_background_sky).heightceiling := by
  rw [L.floor, L.sky]
  simp [floorOffset]

theorem Lock.sloped {c : RoadConfig} {f k : Int} {ms : SSlot → Sector} (L : Lock c f k ms)
    (height_diff : Int) :
    Lock c (f + height_diff) k (fun slot =>
      slopedSector (ms slot) (decide (slot = SSlot.m_s_background_sky)) height_diff) := by
  constructor
  · intro slot
    simp only [slopedSector]
    rw [L.floor]
    omega
  · intro slot hs
    simp only [slopedSector]
    rw [if_neg (by simpa using hs)]
    exact L.ceil slot hs
  · simp only [slopedSector]
    rw [if_pos (by simp), L.sky]

theorem applySlope_ht {lm : Libm} {have_mark at_mark_start : Bool}
    {Q : Unit → RoadFigure → Prop} {c : RoadConfig} {f k : Int}
    {ms : SSlot → Sector} {st cl : Bool} {tg : ℚ} {rn : Prop} {s : RoadFigure}
    (h : Ht c f k ms st cl tg rn s) (L : Lock c f k ms) (R : Room c f k) (hrn : rn)
    (hQ : ∀ f1 ms1 s1, Ht c f1 k ms1 st cl tg rn s1 → Lock c f1 k ms1 → Room c f1 k →
      Q () s1) :
    M.wlp (CloseSectors.applySlope lm have_mark at_mark_start) Q s := by
  have hren := h.renewed hrn
  unfold CloseSectors.applySlope
  simp only [M.wlp_bind]
  refine (M.wlp_read _ _).mpr ?_
  refine ht_lastS ?_
  intro ide hide
  refine ht_lastS ?_
  intro idw hidw
  refine ht_lastS ?_
  intro ife hife
  refine ht_lastS ?_
  intro ifw hifw
  have hne1 : ide ≠ idw := hren.1 ide idw hide hidw
  have hne2 : ife ≠ ifw := hren.2 ife ifw hife hifw
  rw [if_pos hne1, if_pos hne2]
  refine (M.wlp_ite _ _ _ _ _).mpr ⟨fun _ => (M.wlp_fail _ _ _).mpr trivial, fun hg => ?_⟩
  rw [h.fp, h.cp, h.cfg] at hg
  generalize Math.truncToInt (s.m_slope_modifier.tangent
    * s.m_v_null.GetDistanceTo lm s.m_v_null_prev) = height_diff at hg ⊢
  have hg1 : f + height_diff + c.sizes.fence_height < k := by omega
  simp only [forEach, M.wlp_bind]
  refine slopeSector_ht h (fun _ => L.slope_ok R hg1 _) (fun _ => L.sky_eq) ?_
  intro s1 hE
  iterate 8
    refine slopeSector_ht (by assumption)
      (by first
        | exact fun _ => L.slope_ok R hg1 _
        | (intro _; simp only [Function.update, reduceCtorEq, dite_false]
           exact L.slope_ok R hg1 _))
      (fun hs => absurd hs (by decide)) ?_
    intro s1 hE
  refine (M.wlp_pure _ _ _).mpr ?_
  refine (M.wlp_update _ _ _).mpr ?_
  refine hQ (f + height_diff) (fun slot => slopedSector (ms slot)
    (decide (slot = SSlot.m_s_background_sky)) height_diff) _ ?_ (L.sloped height_diff)
    ⟨R.fence, R.side, hg1⟩
  refine ⟨hE.cfg, ?_, hE.cp, ?_, hE.st, hE.cl, hE.tg, hE.all, hE.lastK, hE.lastLt, hE.dist,
    hE.renewed⟩
  · show s1.m_floorpos + height_diff = _
    rw [hE.fp]
  · show s1.m_s = _
    rw [hE.m_s]
    funext slot
    cases slot <;> simp [Function.update]
theorem wlp_and {σ α : Type} {m : M σ α} {P Q : α → σ → Prop} {s : σ} (hP : M.wlp m P s)
    (hQ : M.wlp m Q s) : M.wlp m (fun a s1 => P a s1 ∧ Q a s1) s := by
  unfold M.wlp at *
  rcases hm : m s with ⟨r, s1⟩
  rw [hm] at hP hQ
  cases r with
  | error e => trivial
  | ok a => exact ⟨hP, hQ⟩

theorem fresh_pushS {slot : SSlot} {Q : Unit → RoadFigure → Prop} {s : RoadFigure}
    (hQ : ∀ s1, s1.m_last_ids_s = Function.update s.m_last_ids_s slot
        (some s.m_map.sectors.length) →
      s1.m_map.sectors.length = s.m_map.sectors.length + 1 → Q () s1) :
    M.wlp (pushS slot) Q s := by
  unfold M.wlp pushS
  simp only [M.run_bind, M.run_read]
  unfold onMap addSector AddMapEntryT setLastS
  dsimp only
  split_ifs with hcap
  · trivial
  · simp only [M.run_update]
    exact hQ _ rfl (by simp)

theorem renewSectors_dist {at_mark_start at_mark_end : Bool} (l : List SSlot) :
    ∀ (prev_sectors_ids : SSlot → Option Nat) (s : RoadFigure),
      (∀ sl id, s.m_last_ids_s sl = some id → id < s.m_map.sectors.length) →
      M.wlp (CloseSectors.renewSectors at_mark_start at_mark_end l prev_sectors_ids)
        (fun _ s1 =>
          (∀ sl id, s1.m_last_ids_s sl = some id → id < s1.m_map.sectors.length)
          ∧ ∀ a b, a ≠ b →
            (DistIds s.m_last_ids_s a b
              ∨ (a ∈ l ∧ prev_sectors_ids a = none
                  ∧ ¬ (at_mark_end = true ∧ a = SSlot.m_s_mark))
              ∨ (b ∈ l ∧ prev_sectors_ids b = none
                  ∧ ¬ (at_mark_end = true ∧ b = SSlot.m_s_mark))) →
            DistIds s1.m_last_ids_s a b) s := by
  induction l with
  | nil =>
    intro prev s hlt
    unfold CloseSectors.renewSectors
    refine (M.wlp_pure _ _ _).mpr ⟨hlt, ?_⟩
    intro a b _ h
    rcases h with h | h | h
    · exact h
    · exact absurd h.1 (List.not_mem_nil _)
    · exact absurd h.1 (List.not_mem_nil _)
  | cons sector rest ih =>
    intro prev s hlt
    unfold CloseSectors.renewSectors
    by_cases hp : (prev sector).isSome = true
    · rw [if_pos hp]
      refine M.wlp_mono (ih prev s hlt) ?_
      rintro _ s1 ⟨h1, h2⟩
      refine ⟨h1, ?_⟩
      intro a b hab h
      apply h2 a b hab
      rcases h with h | ⟨hm, hn, hk⟩ | ⟨hm, hn, hk⟩
      · exact Or.inl h
      · refine Or.inr (Or.inl ⟨?_, hn, hk⟩)
        rcases List.mem_cons.mp hm with hm | hm
        · subst hm
          rw [hn] at hp
          exact absurd hp (by decide)
        · exact hm
      · refine Or.inr (Or.inr ⟨?_, hn, hk⟩)
        rcases List.mem_cons.mp hm with hm | hm
        · subst hm
          rw [hn] at hp
          exact absurd hp (by decide)
        · exact hm
    · rw [if_neg hp]
      have key : ∀ (prev1 : SSlot → Option Nat),
          (∀ x, x ≠ sector → prev1 x = prev x) →
          M.wlp (if at_mark_end = true ∧ sector = SSlot.m_s_mark then
                ((pure () : M RoadFigure Unit) >>= fun _ =>
                  CloseSectors.renewSectors at_mark_start at_mark_end rest prev1)
              else (pushS sector >>= fun _ =>
                CloseSectors.renewSectors at_mark_start at_mark_end rest prev1))
              (fun _ s2 =>
                (∀ sl id, s2.m_last_ids_s sl = some id → id < s2.m_map.sectors.length)
                ∧ ∀ a b, a ≠ b →
                  (DistIds s.m_last_ids_s a b
                    ∨ (a ∈ sector :: rest ∧ prev a = none
                        ∧ ¬ (at_mark_end = true ∧ a = SSlot.m_s_mark))
                    ∨ (b ∈ sector :: rest ∧ prev b = none
                        ∧ ¬ (at_mark_end = true ∧ b = SSlot.m_s_mark))) →
                  DistIds s2.m_last_ids_s a b) s := by
        intro prev1 hprev1
        refine (M.wlp_ite _ _ _ _ _).mpr ⟨fun hc => ?_, fun hc => ?_⟩
        · simp only [M.wlp_bind]
          refine (M.wlp_pure _ _ _).mpr ?_
          refine M.wlp_mono (ih prev1 s hlt) ?_
          rintro _ s2 ⟨h1, h2⟩
          refine ⟨h1, ?_⟩
          intro a b hab h
          apply h2 a b hab
          rcases h with h | ⟨hm, hn, hk⟩ | ⟨hm, hn, hk⟩
          · exact Or.inl h
          · have hne : a ≠ sector := by
              intro he
              subst he
              exact hk hc
            refine Or.inr (Or.inl ⟨?_, (hprev1 a hne).trans hn, hk⟩)
            rcases List.mem_cons.mp hm with hm | hm
            · exact absurd hm hne
            · exact hm
          · have hne : b ≠ sector := by
              intro he
              subst he
              exact hk hc
            refine Or.inr (Or.inr ⟨?_, (hprev1 b hne).trans hn, hk⟩)
            rcases List.mem_cons.mp hm with hm | hm
            · exact absurd hm hne
            · exact hm
        · simp only [M.wlp_bind]
          refine fresh_pushS ?_
          intro s1 hl hn
          have hlt1 : ∀ sl id, s1.m_last_ids_s sl = some id →
              id < s1.m_map.sectors.length := by
            intro sl id hid
            rw [hl] at hid
            rw [hn]
            by_cases hs : sl = sector
            · subst hs
              simp only [Function.update_same, Option.some.injEq] at hid
              omega
            · rw [Function.update_noteq hs] at hid
              have := hlt sl id hid
              omega
          refine M.wlp_mono (ih prev1 s1 hlt1) ?_
          rintro _ s2 ⟨h1, h2⟩
          refine ⟨h1, ?_⟩
          intro a b hab h
          apply h2 a b hab
          rw [hl]
          rcases h with h | ⟨hm, hn, hk⟩ | ⟨hm, hn, hk⟩
          · exact Or.inl (DistIds_update_fresh hlt hab (Or.inl h))
          · by_cases hne : a = sector
            · exact Or.inl (DistIds_update_fresh hlt hab (Or.inr (Or.inl hne.symm)))
            · refine Or.inr (Or.inl ⟨?_, (hprev1 a hne).trans hn, hk⟩)
              rcases List.mem_cons.mp hm with hm | hm
              · exact absurd hm hne
              · exact hm
          · by_cases hne : b = sector
            · exact Or.inl (DistIds_update_fresh hlt hab (Or.inr (Or.inr hne.symm)))
            · refine Or.inr (Or.inr ⟨?_, (hprev1 b hne).trans hn, hk⟩)
              rcases List.mem_cons.mp hm with hm | hm
              · exact absurd hm hne
              · exact hm
      refine (M.wlp_ite _ _ _ _ _).mpr ⟨fun hc => ?_, fun hc => ?_⟩
      · simp only [M.wlp_bind]
        refine (M.wlp_pure _ _ _).mpr ?_
        exact key prev (fun _ _ => rfl)
      · simp only [M.wlp_bind]
        refine ht_lastS ?_
        intro id hid
        refine (M.wlp_pure _ _ _).mpr ?_
        exact key (Function.update prev sector (some id))
          (fun x hx => Function.update_noteq hx _ _)

theorem renewSectors_cps {at_mark_start at_mark_end have_mark : Bool}
    {Q : (SSlot → Option Nat) → RoadFigure → Prop} {c : RoadConfig} {f k : Int}
    {ms : SSlot → Sector} {st cl : Bool} {tg : ℚ} {rn : Prop} {s : RoadFigure}
    (h : Ht c f k ms st cl tg rn s) (L : Lock c f k ms) (R : Room c f k)
    (hQ : ∀ prev s1, Ht c f k ms st cl tg True s1 → Q prev s1) :
    M.wlp (CloseSectors.renewSectors at_mark_start at_mark_end
      (CloseSectors.sectors have_mark) (fun _ => none)) Q s := by
  refine M.wlp_mono (wlp_and (renewSectors_ht L R _ _ s h)
    (renewSectors_dist (CloseSectors.sectors have_mark) (fun _ => none) s h.lastLt)) ?_
  rintro prev s1 ⟨h1, _, h2⟩
  refine hQ prev s1 (h1.with_renewed ⟨?_, ?_⟩)
  · refine h2 _ _ (by decide) (Or.inr (Or.inl ⟨?_, rfl, by simp⟩))
    cases have_mark <;> simp [CloseSectors.sectors]
  · refine h2 _ _ (by decide) (Or.inr (Or.inl ⟨?_, rfl, by simp⟩))
    cases have_mark <;> simp [CloseSectors.sectors]
set_option maxHeartbeats 4000000 in
theorem CloseSectors_ht {lm : Libm} {Q : Unit → RoadFigure → Prop} {c : RoadConfig}
    {f k : Int} {ms : SSlot → Sector} {st cl : Bool} {tg : ℚ} {rn : Prop} {s : RoadFigure}
    (h : Ht c f k ms st cl tg rn s) (L : Lock c f k ms) (R : Room c f k)
    (hrn : ¬ Math.IsZeroOrCloseTo tg = true → rn)
    (hQ : ∀ f1 ms1 s1, Ht c f1 k ms1 st true tg (cl = false ∨ rn) s1 → Lock c f1 k ms1 →
      Room c f1 k → Q () s1) :
    M.wlp (CloseSectors lm) Q s := by
  unfold CloseSectors
  simp only [M.wlp_bind]
  refine (M.wlp_read _ _).mpr ?_
  by_cases hcl : s.m_sectors_closed = true
  · rw [if_pos hcl]
    refine (M.wlp_pure _ _ _).mpr (hQ f ms s ?_ L R)
    have hcl1 : cl = true := h.cl.symm.trans hcl
    subst hcl1
    exact h.weaken (fun hr => hr.resolve_left (by decide))
  · rw [if_neg hcl]
    have htg := h.tg
    cases hz : Math.IsZeroOrCloseTo s.m_slope_modifier.tangent with
    | true =>
      simp only [Bool.not_true, Bool.false_eq_true, if_false, Bool.not_false, if_true,
        M.wlp_bind]
      repeat' (first
        | assumption
        | (exact hQ _ _ _ (Ht.weaken (by assumption) (fun _ => trivial)) (by assumption) (by assumption))
        | (refine renewSectors_cps (by assumption) (by assumption) (by assumption) ?_; intro prev s1 hE)
        | (refine ht_update_closed true (by assumption) ⟨rfl, rfl, rfl, rfl, rfl, rfl, rfl, rfl, rfl⟩ ?_; intro s1 hE)
        | (refine ht_lastS ?_; intro id hid)
        | (refine ht_pushS (by assumption)
            (Lock.sec_ok (by assumption) (by assumption) _) ?_; intro s1 hE)
        | (refine ht_addS_pair (by assumption)
            (Ht.sec_ok_ceil (by assumption) (by assumption) (by assumption) _ (by decide))
            (by decide) (by decide) ?_; intro id s1 hE)
        | (refine ht_quiet (by with_reducible first
            | exact seamLines_quiet _ _ | exact recordSeamMarkVertices_quiet
            | exact M.pres_forEach (fun _ => snapMarkVertices_quiet) _ | exact quiet_addV
            | exact quiet_addSd | exact quiet_addL | exact quiet_lastV | exact quiet_setV
            | exact quiet_setLastV | exact quiet_SetNullVertex | exact quiet_pushMarkIdsPrev
            | exact quiet_onChecker | exact quiet_vertexAt | exact quiet_prevSectorId
            | exact quiet_modifyVertexAt | exact quiet_pushV | exact ExtendBackground_quiet
            | exact ExtendFence_quiet | exact ExtendBody_quiet | exact markVertexIsHere_quiet) (by assumption) ?_
           intro a s1 hE)
        | (refine (M.wlp_pure _ _ _).mpr (by assumption))
        | (refine (M.wlp_fail _ _ _).mpr trivial)
        | (refine (M.wlp_pure _ _ _).mpr ?_)
        | (refine (M.wlp_read _ _).mpr ?_)
        | (refine ht_update (by assumption) ⟨rfl, rfl, rfl, rfl, rfl, rfl, rfl, rfl, rfl⟩ ?_
           intro s1 hE)
        | (refine (M.wlp_ite _ _ _ _ _).mpr ⟨?_, ?_⟩ <;> intro hc)
        | (simp only [M.wlp_bind])
        | split)
    | false =>
      have hrn1 : rn := hrn (by rw [← htg, hz]; decide)
      simp only [Bool.not_true, Bool.false_eq_true, if_false, Bool.not_false, if_true,
        M.wlp_bind]
      repeat' (first
        | assumption
        | (exact hQ _ _ _ (Ht.weaken (by assumption) (fun _ => trivial)) (by assumption) (by assumption))
        | (refine applySlope_ht (by assumption) (by assumption) (by assumption) hrn1 ?_; intro f1 ms1 s1 hE hL hR)
        | (refine renewSectors_cps (by assumption) (by assumption) (by assumption) ?_; intro prev s1 hE)
        | (refine ht_update_closed true (by assumption) ⟨rfl, rfl, rfl, rfl, rfl, rfl, rfl, rfl, rfl⟩ ?_; intro s1 hE)
        | (refine ht_lastS ?_; intro id hid)
        | (refine ht_pushS (by assumption)
            (Lock.sec_ok (by assumption) (by assumption) _) ?_; intro s1 hE)
        | (refine ht_addS_pair (by assumption)
            (Ht.sec_ok_ceil (by assumption) (by assumption) (by assumption) _ (by decide))
            (by decide) (by decide) ?_; intro id s1 hE)
        | (refine ht_quiet (by with_reducible first
            | exact seamLines_quiet _ _ | exact recordSeamMarkVertices_quiet
            | exact M.pres_forEach (fun _ => snapMarkVertices_quiet) _ | exact quiet_addV
            | exact quiet_addSd | exact quiet_addL | exact quiet_lastV | exact quiet_setV
            | exact quiet_setLastV | exact quiet_SetNullVertex | exact quiet_pushMarkIdsPrev
            | exact quiet_onChecker | exact quiet_vertexAt | exact quiet_prevSectorId
            | exact quiet_modifyVertexAt | exact quiet_pushV | exact ExtendBackground_quiet
            | exact ExtendFence_quiet | exact ExtendBody_quiet | exact markVertexIsHere_quiet) (by assumption) ?_
           intro a s1 hE)
        | (refine (M.wlp_pure _ _ _).mpr (by assumption))
        | (refine (M.wlp_fail _ _ _).mpr trivial)
        | (refine (M.wlp_pure _ _ _).mpr ?_)
        | (refine (M.wlp_read _ _).mpr ?_)
        | (refine ht_update (by assumption) ⟨rfl, rfl, rfl, rfl, rfl, rfl, rfl, rfl, rfl⟩ ?_
           intro s1 hE)
        | (refine (M.wlp_ite _ _ _ _ _).mpr ⟨?_, ?_⟩ <;> intro hc)
        | (simp only [M.wlp_bind])
        | split)
theorem ht_update_flags {g : RoadFigure → RoadFigure} {Q : Unit → RoadFigure → Prop}
    {c : RoadConfig} {f k : Int} {ms : SSlot → Sector} {st cl : Bool} {tg : ℚ} {rn : Prop}
    {s : RoadFigure} (b1 b2 : Bool) (h : Ht c f k ms st cl tg rn s)
    (q : Quiet { s with m_sectors_closed := b1, m_started_drawing := b2 } (g s))
    (hQ : ∀ s1, Ht c f k ms b2 b1 tg rn s1 → Q () s1) : M.wlp (M.update g) Q s := by
  refine (M.wlp_update _ _ _).mpr (hQ _ ?_)
  have h1 : Ht c f k ms b2 b1 tg rn { s with m_sectors_closed := b1, m_started_drawing := b2 } :=
    ⟨h.cfg, h.fp, h.cp, h.m_s, rfl, rfl, h.tg, h.all, h.lastK, h.lastLt, h.dist, h.renewed⟩
  exact h1.of_quiet q

theorem ht_update_slope {g : RoadFigure → RoadFigure} {Q : Unit → RoadFigure → Prop}
    {c : RoadConfig} {f k : Int} {ms : SSlot → Sector} {st cl : Bool} {tg : ℚ} {rn : Prop}
    {s : RoadFigure} (sm : SlopeModifierData) (h : Ht c f k ms st cl tg rn s)
    (q : Quiet { s with m_slope_modifier := sm } (g s))
    (hQ : ∀ s1, Ht c f k ms st cl sm.tangent rn s1 → Q () s1) : M.wlp (M.update g) Q s := by
  refine (M.wlp_update _ _ _).mpr (hQ _ ?_)
  have h1 : Ht c f k ms st cl sm.tangent rn { s with m_slope_modifier := sm } :=
    ⟨h.cfg, h.fp, h.cp, h.m_s, h.st, h.cl, rfl, h.all, h.lastK, h.lastLt, h.dist, h.renewed⟩
  exact h1.of_quiet q

theorem Heights.of_ht {c : RoadConfig} {f k : Int} {ms : SSlot → Sector} {st cl : Bool}
    {tg : ℚ} {rn : Prop} {s : RoadFigure} (h : Ht c f k ms st cl tg rn s) (L : Lock c f k ms)
    (hf : 0 ≤ c.sizes.fence_height) (hsd : c.sizes.road_side_height ≤ c.sizes.fence_height)
    (hroom : st = true → f + c.sizes.fence_height < k)
    (hflat : st = false → Math.IsZeroOrCloseTo tg = true)
    (hrn : st = true ∧ (cl = true ∨ ¬ Math.IsZeroOrCloseTo tg = true) → rn) :
    Heights s := by
  have e1 := h.cfg
  have e2 := h.fp
  have e3 := h.cp
  have e4 := h.m_s
  have e5 := h.st
  have e6 := h.cl
  have e7 := h.tg
  subst e1 e2 e3 e4 e5 e6 e7
  exact ⟨h.weaken hrn, L, hf, hsd, hroom, hflat⟩

theorem Heights.carry {s s1 : RoadFigure} (h : Heights s) (q : Quiet s s1) : Heights s1 :=
  Heights.of_ht (h.ht.of_quiet q) h.lock h.fence h.side h.room h.flat (fun hr => hr)

theorem Heights.all {s : RoadFigure} (h : Heights s) :
    ∀ sec ∈ s.m_map.sectors, sec.heightfloor ≤ sec.heightceiling := h.ht.all

theorem started_of_guard {s : RoadFigure}
    (g : ¬ (!s.m_started_drawing || s.m_finished_drawing) = true) :
    s.m_started_drawing = true := by
  cases h : s.m_started_drawing
  · rw [h] at g
    exact absurd rfl g
  · rfl

set_option maxHeartbeats 4000000 in
/-- The common part of `Line` and of one step of `Arc`: the four extensions, the new null
vertex, and the closing of the sectors under a slope. -/
theorem extend_and_close_heights {lm : Libm} {a1 a2 a3 a4 b1 b2 b3 b4 c1 c2 c3 c4 d1 d2 v : Vertex}
    {g : RoadFigure → RoadFigure} {s : RoadFigure} (hs : Heights s)
    (hst : s.m_started_drawing = true) (hg : ∀ x, Quiet x (g x)) :
    M.wlp (ExtendBackground a1 a2 a3 a4 >>= fun _ =>
        ExtendFence b1 b2 b3 b4 >>= fun _ =>
        ExtendBody c1 c2 c3 c4 >>= fun _ =>
        ExtendMark lm d1 d2 >>= fun _ =>
        SetNullVertex v >>= fun _ =>
        M.update (fun fig => { fig with m_sectors_closed := false }) >>= fun _ =>
        if (!Math.IsZeroOrCloseTo s.m_slope_modifier.tangent) = true then
          (CloseSectors lm >>= fun _ => M.update g)
        else (pure PUnit.unit >>= fun _ => M.update g))
      (fun _ s1 => Heights s1 ∧ s1.m_started_drawing = true) s := by
  have h := hs.ht
  have L := hs.lock
  have R : Room s.m_config s.m_floorpos s.m_ceilingpos := ⟨hs.fence, hs.side, hs.room hst⟩
  have hf := hs.fence
  have hsd := hs.side
  cases hz : Math.IsZeroOrCloseTo s.m_slope_modifier.tangent with
  | true =>
    simp only [Bool.not_true, Bool.false_eq_true, if_false, M.wlp_bind]
    repeat' (first
      | assumption
      | (refine M.wlp_mono (ExtendMark_ht (by assumption) (by assumption) (by assumption)) ?_; intro a s1 hE)
      | (refine ht_update_closed false (by assumption) ⟨rfl, rfl, rfl, rfl, rfl, rfl, rfl, rfl, rfl⟩ ?_; intro s1 hE)
      | (refine (M.wlp_update _ _ _).mpr ⟨Heights.of_ht (Ht.of_quiet (by assumption) (hg _)) L hf hsd (fun _ => R.room) (fun h0 => absurd (hst.symm.trans h0) (by decide)) (fun hr => hr.2.elim (fun h1 => absurd h1 (by decide)) (fun h1 => absurd hz h1)), ((hg _).st.trans (Ht.st (by assumption))).trans hst⟩)
      | (refine ht_lastS ?_; intro id hid)
      | (refine ht_pushS (by assumption)
          (Lock.sec_ok (by assumption) (by assumption) _) ?_; intro s1 hE)
      | (refine ht_addS_pair (by assumption)
          (Ht.sec_ok_ceil (by assumption) (by assumption) (by assumption) _ (by decide))
          (by decide) (by decide) ?_; intro id s1 hE)
      | (refine ht_quiet (by with_reducible first
          | exact quiet_addV | exact quiet_addSd | exact quiet_addL | exact quiet_lastV
          | exact quiet_setV | exact quiet_setLastV | exact quiet_SetNullVertex
          | exact quiet_pushMarkIdsPrev | exact quiet_onChecker | exact quiet_vertexAt
          | exact quiet_prevSectorId | exact quiet_modifyVertexAt | exact quiet_pushV
          | exact ExtendBackground_quiet | exact ExtendFence_quiet | exact ExtendBody_quiet
          | exact markVertexIsHere_quiet) (by assumption) ?_
         intro a s1 hE)
      | (refine (M.wlp_pure _ _ _).mpr (by assumption))
      | (refine (M.wlp_fail _ _ _).mpr trivial)
      | (refine (M.wlp_pure _ _ _).mpr ?_)
      | (refine (M.wlp_read _ _).mpr ?_)
      | (refine ht_update (by assumption) ⟨rfl, rfl, rfl, rfl, rfl, rfl, rfl, rfl, rfl⟩ ?_
         intro s1 hE)
      | (refine (M.wlp_ite _ _ _ _ _).mpr ⟨?_, ?_⟩ <;> intro hc)
      | (simp only [M.wlp_bind])
      | split)
  | false =>
    have hrn1 : ¬ Math.IsZeroOrCloseTo s.m_slope_modifier.tangent = true →
        (s.m_started_drawing = true ∧ (s.m_sectors_closed = true
          ∨ ¬ Math.IsZeroOrCloseTo s.m_slope_modifier.tangent = true)) :=
      fun h1 => ⟨hst, Or.inr h1⟩
    simp only [Bool.not_false, if_true, M.wlp_bind]
    repeat' (first
      | assumption
      | (refine M.wlp_mono (ExtendMark_ht (by assumption) (by assumption) (by assumption)) ?_; intro a s1 hE)
      | (refine ht_update_closed false (by assumption) ⟨rfl, rfl, rfl, rfl, rfl, rfl, rfl, rfl, rfl⟩ ?_; intro s1 hE)
      | (refine CloseSectors_ht (by assumption) (by assumption) (by assumption) hrn1 ?_; intro f1 ms1 s1 hE hL hR)
      | (refine (M.wlp_update _ _ _).mpr ⟨Heights.of_ht (Ht.of_quiet (by assumption) (hg _)) (by assumption) hf hsd (fun _ => Room.room (by assumption)) (fun h0 => absurd (hst.symm.trans h0) (by decide)) (fun _ => Or.inl rfl), ((hg _).st.trans (Ht.st (by assumption))).trans hst⟩)
      | (refine ht_lastS ?_; intro id hid)
      | (refine ht_pushS (by assumption)
          (Lock.sec_ok (by assumption) (by assumption) _) ?_; intro s1 hE)
      | (refine ht_addS_pair (by assumption)
          (Ht.sec_ok_ceil (by assumption) (by assumption) (by assumption) _ (by decide))
          (by decide) (by decide) ?_; intro id s1 hE)
      | (refine ht_quiet (by with_reducible first
          | exact quiet_addV | exact quiet_addSd | exact quiet_addL | exact quiet_lastV
          | exact quiet_setV | exact quiet_setLastV | exact quiet_SetNullVertex
          | exact quiet_pushMarkIdsPrev | exact quiet_onChecker | exact quiet_vertexAt
          | exact quiet_prevSectorId | exact quiet_modifyVertexAt | exact quiet_pushV
          | exact ExtendBackground_quiet | exact ExtendFence_quiet | exact ExtendBody_quiet
          | exact markVertexIsHere_quiet) (by assumption) ?_
         intro a s1 hE)
      | (refine (M.wlp_pure _ _ _).mpr (by assumption))
      | (refine (M.wlp_fail _ _ _).mpr trivial)
      | (refine (M.wlp_pure _ _ _).mpr ?_)
      | (refine (M.wlp_read _ _).mpr ?_)
      | (refine ht_update (by assumption) ⟨rfl, rfl, rfl, rfl, rfl, rfl, rfl, rfl, rfl⟩ ?_
         intro s1 hE)
      | (refine (M.wlp_ite _ _ _ _ _).mpr ⟨?_, ?_⟩ <;> intro hc)
      | (simp only [M.wlp_bind])
      | split)
theorem wlp_forEach_of {α : Type} {f : α → M RoadFigure Unit} {I : RoadFigure → Prop}
    (hf : ∀ a s, I s → M.wlp (f a) (fun _ s1 => I s1) s) :
    ∀ (l : List α) (s : RoadFigure), I s → M.wlp (forEach f l) (fun _ s1 => I s1) s := by
  intro l
  induction l with
  | nil =>
    intro s h
    unfold forEach
    exact (M.wlp_pure _ _ _).mpr h
  | cons a rest ih =>
    intro s h
    unfold forEach
    simp only [M.wlp_bind]
    exact M.wlp_mono (hf a s h) (fun _ s1 h1 => ih s1 h1)

theorem heights_quiet {α : Type} {m : M RoadFigure α} {Q : α → RoadFigure → Prop}
    {s : RoadFigure} (hm : M.pres Quiet m)
    (h : Heights s ∧ s.m_started_drawing = true)
    (hQ : ∀ a s1, Heights s1 ∧ s1.m_started_drawing = true → Q a s1) : M.wlp m Q s := by
  have hq := hm.run s
  unfold M.wlp
  rcases hr : m s with ⟨r, s1⟩
  rw [hr] at hq
  cases r with
  | error e => trivial
  | ok a => exact hQ a s1 ⟨h.1.carry hq, hq.st.trans h.2⟩

theorem Line_heights (lm : Libm) (line : LineData) (s : RoadFigure) (hs : Heights s) :
    M.wlp (Line lm line) (fun _ s1 => Heights s1) s := by
  unfold Line
  rw [M.wlp_bind]
  refine (M.wlp_read _ _).mpr ?_
  dsimp only
  refine (M.wlp_ite _ _ _ _ _).mpr ⟨fun _ => (M.wlp_fail _ _ _).mpr trivial, fun g1 => ?_⟩
  refine (M.wlp_ite _ _ _ _ _).mpr ⟨fun _ => (M.wlp_fail _ _ _).mpr trivial, fun g2 => ?_⟩
  exact M.wlp_mono (extend_and_close_heights hs (started_of_guard g1)
    (fun x => ⟨rfl, rfl, rfl, rfl, rfl, rfl, rfl, rfl, rfl⟩)) (fun _ _ h => h.1)

theorem Arc_step_heights {lm : Libm} {cx cy turn_sign step angle_abs : ℚ} {steps_count : Int}
    (angix : Nat) (s : RoadFigure) (hs : Heights s ∧ s.m_started_drawing = true) :
    M.wlp (Arc.step lm cx cy turn_sign step angle_abs steps_count angix)
      (fun _ s1 => Heights s1 ∧ s1.m_started_drawing = true) s := by
  unfold Arc.step
  rw [M.wlp_bind]
  refine (M.wlp_read _ _).mpr ?_
  dsimp only
  exact extend_and_close_heights hs.1 hs.2
    (fun x => ⟨rfl, rfl, rfl, rfl, rfl, rfl, rfl, rfl, rfl⟩)

theorem Arc_heights (lm : Libm) (arc : ArcData) (s : RoadFigure) (hs : Heights s) :
    M.wlp (Arc lm arc) (fun _ s1 => Heights s1) s := by
  unfold Arc
  rw [M.wlp_bind]
  refine (M.wlp_read _ _).mpr ?_
  dsimp only
  refine (M.wlp_ite _ _ _ _ _).mpr ⟨fun _ => (M.wlp_fail _ _ _).mpr trivial, fun g1 => ?_⟩
  have hI : Heights s ∧ s.m_started_drawing = true := ⟨hs, started_of_guard g1⟩
  repeat' (first
    | (simp only [M.wlp_bind])
    | (refine heights_quiet (by with_reducible first
        | exact quiet_onChecker) (by assumption) ?_
       intro a s1 hI)
    | (refine M.wlp_mono (wlp_forEach_of (fun a s => Arc_step_heights a s) _ _
        (by assumption)) ?_
       intro a s1 hI)
    | (refine heights_quiet (M.pres_update
        (fun _ => ⟨rfl, rfl, rfl, rfl, rfl, rfl, rfl, rfl, rfl⟩)) (by assumption)
        (fun _ _ hq => hq.1))
    | (refine (M.wlp_fail _ _ _).mpr trivial)
    | (refine (M.wlp_ite _ _ _ _ _).mpr ⟨?_, ?_⟩ <;> intro hc))

theorem wlp_Start_validate_room {Q : Unit → RoadFigure → Prop} {s : RoadFigure}
    (hQ : s.m_started_drawing = false →
      s.m_floorpos < s.m_ceilingpos - s.m_config.sizes.fence_height → Q () s) :
    M.wlp Start.validate Q s := by
  unfold M.wlp
  rcases Start_validate_cases s with h | ⟨e, h⟩
  · rw [h]
    have h1 := (Start_validate_ok_iff s).mp h
    exact hQ h1.1 h1.2.2.2.2.2.2.2.2.2.2.2
  · rw [h]
    trivial

theorem wlp_Finish_validate_flat {Q : Unit → RoadFigure → Prop} {s : RoadFigure}
    (hQ : Math.IsZeroOrCloseTo s.m_slope_modifier.tangent = true → Q () s) :
    M.wlp Finish.validate Q s := by
  unfold Finish.validate
  simp only [M.wlp_bind]
  refine (M.wlp_read _ _).mpr ?_
  refine (M.wlp_ite _ _ _ _ _).mpr ⟨fun _ => (M.wlp_fail _ _ _).mpr trivial, fun _ => ?_⟩
  refine (M.wlp_ite _ _ _ _ _).mpr ⟨fun _ => (M.wlp_fail _ _ _).mpr trivial, fun _ => ?_⟩
  refine (M.wlp_ite _ _ _ _ _).mpr ⟨fun _ => (M.wlp_fail _ _ _).mpr trivial, fun g => ?_⟩
  refine (M.wlp_pure _ _ _).mpr (hQ ?_)
  cases hz : Math.IsZeroOrCloseTo s.m_slope_modifier.tangent
  · rw [hz] at g
    exact absurd rfl g
  · rfl

theorem Start_heights (lm : Libm) (s : RoadFigure) (hs : Heights s) :
    M.wlp (Start lm) (fun _ s1 => Heights s1) s := by
  unfold Start
  simp only [M.wlp_bind]
  refine wlp_Start_validate_room ?_
  intro hst hroom
  have R : Room s.m_config s.m_floorpos s.m_ceilingpos := ⟨hs.fence, hs.side, by omega⟩
  refine M.wlp_mono (Start_addBackground_ht hs.ht hs.lock R) ?_
  intro id s1 hE
  refine M.wlp_mono (Start_addFence_ht hE hs.lock R) ?_
  intro _ s2 hE2
  refine M.wlp_mono (Start_addRoadFrame_ht hE2 hs.lock R) ?_
  intro _ s3 hE3
  refine ht_update_flags false true hE3 ⟨rfl, rfl, rfl, rfl, rfl, rfl, rfl, rfl, rfl⟩ ?_
  intro s4 hE4
  exact Heights.of_ht hE4 hs.lock hs.fence hs.side (fun _ => R.room)
    (fun h0 => absurd h0 (by decide))
    (fun hr => hr.2.elim (fun h1 => absurd h1 (by decide))
      (fun h1 => absurd (hs.flat hst) h1))

theorem Finish_heights (lm : Libm) (s : RoadFigure) (hs : Heights s) :
    M.wlp (Finish lm) (fun _ s1 => Heights s1) s := by
  have h := hs.ht
  have L := hs.lock
  have hf := hs.fence
  have hsd := hs.side
  unfold Finish
  simp only [M.wlp_bind]
  refine wlp_Finish_validate_flat ?_
  intro hflat
  repeat' (first
    | assumption
    | (refine ht_update_flags true false (by assumption) ⟨rfl, rfl, rfl, rfl, rfl, rfl, rfl, rfl, rfl⟩ ?_; intro s1 hE)
    | (exact Heights.of_ht (by assumption) L hf hsd (fun h0 => absurd h0 (by decide)) (fun _ => hflat) (fun hr => absurd hr.1 (by decide)))
    | (refine ht_lastS ?_; intro id hid)
    | (refine ht_pushS (by assumption)
        (Lock.sec_ok (by assumption) (by assumption) _) ?_; intro s1 hE)
    | (refine ht_addS_pair (by assumption)
        (Ht.sec_ok_ceil (by assumption) (by assumption) (by assumption) _ (by decide))
        (by decide) (by decide) ?_; intro id s1 hE)
    | (refine ht_quiet (by with_reducible first
        | exact Finish_closeBackground_quiet | exact Finish_closeFence_quiet
        | exact Finish_closeRoadFrame_quiet | exact Finish_seamLines_quiet _ _
        | exact quiet_addV | exact quiet_addSd | exact quiet_addL | exact quiet_lastV
        | exact quiet_setV | exact quiet_setLastV | exact quiet_SetNullVertex
        | exact quiet_pushMarkIdsPrev | exact quiet_onChecker | exact quiet_vertexAt
        | exact quiet_prevSectorId | exact quiet_modifyVertexAt | exact quiet_pushV
        | exact ExtendBackground_quiet | exact ExtendFence_quiet | exact ExtendBody_quiet
        | exact markVertexIsHere_quiet) (by assumption) ?_
       intro a s1 hE)
    | (refine (M.wlp_pure _ _ _).mpr (by assumption))
    | (refine (M.wlp_fail _ _ _).mpr trivial)
    | (refine (M.wlp_pure _ _ _).mpr ?_)
    | (refine (M.wlp_read _ _).mpr ?_)
    | (refine ht_update (by assumption) ⟨rfl, rfl, rfl, rfl, rfl, rfl, rfl, rfl, rfl⟩ ?_
       intro s1 hE)
    | (refine (M.wlp_ite _ _ _ _ _).mpr ⟨?_, ?_⟩ <;> intro hc)
    | (simp only [M.wlp_bind])
    | split)

set_option maxHeartbeats 4000000 in
theorem SlopeModifier_heights (lm : Libm) (data : SlopeModifierData) (s : RoadFigure)
    (hs : Heights s) : M.wlp (SlopeModifier lm data) (fun _ s1 => Heights s1) s := by
  have h := hs.ht
  have L := hs.lock
  have hf := hs.fence
  have hsd := hs.side
  unfold SlopeModifier
  rw [M.wlp_bind]
  refine (M.wlp_read _ _).mpr ?_
  dsimp only
  refine (M.wlp_ite _ _ _ _ _).mpr ⟨fun _ => (M.wlp_fail _ _ _).mpr trivial, fun g1 => ?_⟩
  refine (M.wlp_ite _ _ _ _ _).mpr ⟨fun _ => (M.wlp_fail _ _ _).mpr trivial, fun _ => ?_⟩
  refine (M.wlp_ite _ _ _ _ _).mpr ⟨fun _ => (M.wlp_fail _ _ _).mpr trivial, fun _ => ?_⟩
  have hst := started_of_guard g1
  have R : Room s.m_config s.m_floorpos s.m_ceilingpos := ⟨hs.fence, hs.side, hs.room hst⟩
  cases hz : Math.IsZeroOrCloseTo s.m_slope_modifier.tangent with
  | true =>
    have hrn1 : ¬ Math.IsZeroOrCloseTo s.m_slope_modifier.tangent = true →
        (s.m_started_drawing = true ∧ (s.m_sectors_closed = true
          ∨ ¬ Math.IsZeroOrCloseTo s.m_slope_modifier.tangent = true)) :=
      fun h1 => ⟨hst, Or.inr h1⟩
    have hren : s.m_sectors_closed = false ∨ (s.m_started_drawing = true
        ∧ (s.m_sectors_closed = true
          ∨ ¬ Math.IsZeroOrCloseTo s.m_slope_modifier.tangent = true)) := by
      cases hcl : s.m_sectors_closed
      · exact Or.inl rfl
      · exact Or.inr ⟨hst, Or.inl rfl⟩
    simp only [if_true, M.wlp_bind]
    refine CloseSectors_ht h L R hrn1 ?_
    intro f1 ms1 s1 hE hL hR
    refine ht_update_slope data hE ⟨rfl, rfl, rfl, rfl, rfl, rfl, rfl, rfl, rfl⟩ ?_
    intro s2 hE2
    exact Heights.of_ht hE2 hL hf hsd (fun _ => hR.room)
      (fun h0 => absurd (hst.symm.trans h0) (by decide)) (fun _ => hren)
  | false =>
    have hren : s.m_started_drawing = true ∧ (s.m_sectors_closed = true
        ∨ ¬ Math.IsZeroOrCloseTo s.m_slope_modifier.tangent = true) :=
      ⟨hst, Or.inr (by rw [hz]; decide)⟩
    simp only [Bool.false_eq_true, if_false, M.wlp_bind]
    refine (M.wlp_pure _ _ _).mpr ?_
    refine ht_update_slope data h ⟨rfl, rfl, rfl, rfl, rfl, rfl, rfl, rfl, rfl⟩ ?_
    intro s2 hE2
    exact Heights.of_ht hE2 L hf hsd (fun _ => R.room)
      (fun h0 => absurd (hst.symm.trans h0) (by decide)) (fun _ => hren)

theorem Heights_new (config : RoadConfig) (start_data : StartModifierData) (map : Map)
    (ck : Option IntersectionChecker) (hf : 0 ≤ config.sizes.fence_height)
    (hsd : config.sizes.road_side_height ≤ config.sizes.fence_height)
    (hall : ∀ sec ∈ map.sectors, sec.heightfloor ≤ sec.heightceiling) :
    Heights (RoadFigure.new config start_data map ck) := by
  refine ⟨⟨rfl, rfl, rfl, rfl, rfl, rfl, rfl, hall, ?_, ?_, ?_, ?_⟩, ⟨?_, ?_, rfl⟩, hf, hsd,
    ?_, ?_⟩
  · intro slot id _ h
    cases h
  · intro slot id h
    cases h
  · intro slot _ i j h
    cases h
  · intro h
    exact absurd (h.1 : false = true) Bool.false_ne_true
  · intro slot
    cases slot <;> simp [RoadFigure.new, InitMapElements, floorOffset, Sector.mk5]
  · intro slot hslot
    cases slot <;> first | rfl | exact absurd rfl hslot
  · intro h
    exact absurd (h : false = true) Bool.false_ne_true
  · intro _
    show Math.IsZeroOrCloseTo (0 : ℚ) = true
    decide!

theorem wlp_onFigure_heights {α : Type} {m : M RoadFigure α}
    {Q : α → GenState → Prop} {st : GenState}
    (hm : M.wlp m (fun _ fig1 => Heights fig1) st.cur_figure)
    (hQ : ∀ a st1, Heights st1.cur_figure → Q a st1) :
    M.wlp (GetGeneratedRoad.onFigure m) Q st := by
  unfold M.wlp at *
  unfold GetGeneratedRoad.onFigure
  generalize m st.cur_figure = r at hm ⊢
  rcases r with ⟨r, fig⟩
  cases r with
  | error e => trivial
  | ok a => exact hQ a _ hm

theorem wlp_quiet_heights {α : Type} {m : M RoadFigure α} {s : RoadFigure}
    (hm : M.pres Quiet m) (h : Heights s) : M.wlp m (fun _ s1 => Heights s1) s := by
  have hq := hm.run s
  unfold M.wlp
  rcases hr : m s with ⟨r, s1⟩
  rw [hr] at hq
  cases r with
  | error e => trivial
  | ok a => exact h.carry hq

theorem quiet_onMap_setPlayerStart {info : PlayerStartInfo} :
    M.pres Quiet (onMap (setPlayerStart info)) :=
  ⟨fun _ => ⟨rfl, rfl, rfl, rfl, rfl, rfl, rfl, rfl, rfl⟩⟩

theorem step_heights (lm : Libm) (road_config : RoadConfig)
    (hf : 0 ≤ road_config.sizes.fence_height)
    (hsd : road_config.sizes.road_side_height ≤ road_config.sizes.fence_height)
    (obj : RoadFigureObject) (st : GenState) (h : Heights st.cur_figure) :
    M.wlp (GetGeneratedRoad.step lm road_config obj)
      (fun _ st1 => Heights st1.cur_figure) st := by
  cases obj <;> simp only [GetGeneratedRoad.step, M.wlp_bind] <;>
  repeat' (first
    | assumption
    | (refine wlp_onFigure_heights
        (by first
          | exact Finish_heights _ _ (by assumption)
          | exact Start_heights _ _ (by assumption)
          | exact Line_heights _ _ _ (by assumption)
          | exact Arc_heights _ _ _ (by assumption)
          | exact SlopeModifier_heights _ _ _ (by assumption)
          | exact wlp_quiet_heights quiet_onMap_setPlayerStart (by assumption)
          | exact wlp_quiet_heights quiet_onChecker (by assumption)
          | exact wlp_quiet_heights quiet_onChecker
              (Heights_new _ _ _ _ hf hsd (Heights.all (by assumption)))) ?_
       intro a st1 hI)
    | (refine (M.wlp_update _ _ _).mpr ?_)
    | (refine (M.wlp_fail _ _ _).mpr trivial)
    | (refine (M.wlp_pure _ _ _).mpr (by assumption))
    | (refine (M.wlp_pure _ _ _).mpr ?_)
    | (refine (M.wlp_read _ _).mpr ?_)
    | (refine (M.wlp_ite _ _ _ _ _).mpr ⟨?_, ?_⟩ <;> intro hc)
    | (simp only [M.wlp_bind]))

theorem loop_heights (lm : Libm) (road_config : RoadConfig)
    (hf : 0 ≤ road_config.sizes.fence_height)
    (hsd : road_config.sizes.road_side_height ≤ road_config.sizes.fence_height)
    (input_data : List RoadFigureObject) :
    ∀ st : GenState, Heights st.cur_figure →
      M.wlp (forEach (GetGeneratedRoad.step lm road_config) input_data)
        (fun _ st1 => Heights st1.cur_figure) st := by
  induction input_data with
  | nil =>
    intro st h
    unfold forEach
    exact (M.wlp_pure _ _ _).mpr h
  | cons obj rest ih =>
    intro st h
    unfold forEach
    simp only [M.wlp_bind]
    refine M.wlp_mono (step_heights lm road_config hf hsd obj st h) ?_
    intro _ st1 h1
    exact ih st1 h1

theorem body_heights (lm : Libm) (road_config : RoadConfig)
    (hf : 0 ≤ road_config.sizes.fence_height)
    (hsd : road_config.sizes.road_side_height ≤ road_config.sizes.fence_height)
    (input_data : List RoadFigureObject) :
    M.wlp (GetGeneratedRoad.body lm road_config input_data)
      (fun _ st1 => Heights st1.cur_figure) (GetGeneratedRoad.init road_config) := by
  have h0 : Heights (GetGeneratedRoad.init road_config).cur_figure :=
    Heights_new _ _ _ _ hf hsd (fun sec hsec => by cases hsec)
  unfold GetGeneratedRoad.body
  simp only [M.wlp_bind]
  refine M.wlp_mono (loop_heights lm road_config hf hsd input_data _ h0) ?_
  intro _ st1 h1
  refine (M.wlp_read _ _).mpr ?_
  refine (M.wlp_ite _ _ _ _ _).mpr ⟨fun _ => ?_, fun _ => (M.wlp_pure _ _ _).mpr h1⟩
  exact wlp_onFigure_heights (Finish_heights _ _ h1) (fun _ _ hI => hI)

end RoadFigure

/-- C21 (ceiling never below floor): for every config whose fence height is not negative
and whose road side height is at most the fence height (both are checked by
`GetRoadConfig`), and every command list on which `GetGeneratedRoad` returns normally,
every sector stored in the resulting map has `heightceiling >= heightfloor`; this
includes the sectors whose floors `CloseSectors` moved in place under a slope. -/
theorem sectors_ceiling_not_below_floor (lm : Libm) (input_data : List RoadFigureObject)
    (road_config : RoadConfig) (hf : 0 ≤ road_config.sizes.fence_height)
    (hsd : road_config.sizes.road_side_height ≤ road_config.sizes.fence_height)
    (h : (GetGeneratedRoad lm input_data road_config).1 = Except.ok ()) :
    ∀ sec ∈ (GetGeneratedRoad lm input_data road_config).2.sectors,
      sec.heightfloor ≤ sec.heightceiling := by
  have hb := RoadFigure.body_heights lm road_config hf hsd input_data
  unfold GetGeneratedRoad at h ⊢
  unfold M.wlp at hb
  generalize GetGeneratedRoad.body lm road_config input_data
    (GetGeneratedRoad.init road_config) = r at h hb ⊢
  rcases r with ⟨r, st⟩
  cases r with
  | error e => cases h
  | ok a => exact hb.ht.all

set_option maxRecDepth 1000000 in
theorem sectors_ceiling_not_below_floor_witness :
    (0 : Int) ≤ defaultRoadConfig.sizes.fence_height
    ∧ defaultRoadConfig.sizes.road_side_height ≤ defaultRoadConfig.sizes.fence_height
    ∧ (GetGeneratedRoad exampleLibm exampleDeepRoad defaultRoadConfig).1 = Except.ok ()
    ∧ (GetGeneratedRoad exampleLibm exampleDeepRoad defaultRoadConfig).2.sectors.length = 32
    ∧ ∀ sec ∈ (GetGeneratedRoad exampleLibm exampleDeepRoad defaultRoadConfig).2.sectors,
      sec.heightfloor ≤ sec.heightceiling :=
  ⟨by decide, by decide, by decide!, by decide!,
    sectors_ceiling_not_below_floor exampleLibm exampleDeepRoad defaultRoadConfig
      (by decide) (by decide) (by decide!)⟩

end FigureHeights

/-! ## Frames for the slope, the state flags and the linedefs -/

section FigureLevel

set_option linter.unreachableTactic false
set_option linter.unusedTactic false

open Udmf

namespace RoadFigure

instance instIsReflLevel : IsRefl RoadFigure Level :=
  ⟨fun _ => ⟨rfl, rfl, rfl, rfl, rfl, rfl, rfl, rfl, rfl, rfl⟩⟩

instance instIsTransLevel : IsTrans RoadFigure Level :=
  ⟨fun _ _ _ h1 h2 =>
    ⟨h2.cfg.trans h1.cfg,
      h2.fp.trans h1.fp,
      h2.cp.trans h1.cp,
      h2.slope.trans h1.slope,
      h2.null.trans h1.null,
      h2.null_prev.trans h1.null_prev,
      h2.shape.trans h1.shape,
      h2.shapes.trans h1.shapes,
      h2.started.trans h1.started,
      h2.finished.trans h1.finished⟩⟩

theorem level_addV {v : Vertex} : M.pres Level (addV v) := by
  refine ⟨fun s => ?_⟩
  unfold addV onMap addVertex AddMapEntryT
  dsimp only
  split_ifs <;> exact ⟨rfl, rfl, rfl, rfl, rfl, rfl, rfl, rfl, rfl, rfl⟩

theorem level_addSd {sd : Sidedef} : M.pres Level (addSd sd) := by
  refine ⟨fun s => ?_⟩
  unfold addSd onMap addSidedef AddMapEntryT
  dsimp only
  split_ifs <;> exact ⟨rfl, rfl, rfl, rfl, rfl, rfl, rfl, rfl, rfl, rfl⟩

theorem level_addL {l : Linedef} : M.pres Level (addL l) := by
  refine ⟨fun s => ?_⟩
  unfold addL onMap addLinedef AddMapEntryT
  dsimp only
  split_ifs <;> exact ⟨rfl, rfl, rfl, rfl, rfl, rfl, rfl, rfl, rfl, rfl⟩

theorem level_addS {sec : Sector} : M.pres Level (addS sec) := by
  refine ⟨fun s => ?_⟩
  unfold addS onMap addSector AddMapEntryT
  dsimp only
  split_ifs <;> exact ⟨rfl, rfl, rfl, rfl, rfl, rfl, rfl, rfl, rfl, rfl⟩

theorem level_lastV {slot : VSlot} : M.pres Level (lastV slot) := by
  refine ⟨fun s => ?_⟩
  unfold lastV
  split <;> exact ⟨rfl, rfl, rfl, rfl, rfl, rfl, rfl, rfl, rfl, rfl⟩

theorem level_lastS {slot : SSlot} : M.pres Level (lastS slot) := by
  refine ⟨fun s => ?_⟩
  unfold lastS
  split <;> exact ⟨rfl, rfl, rfl, rfl, rfl, rfl, rfl, rfl, rfl, rfl⟩

theorem level_setV {slot : VSlot} {value : Vertex} :
    M.pres Level (setV slot value) :=
  ⟨fun _ => ⟨rfl, rfl, rfl, rfl, rfl, rfl, rfl, rfl, rfl, rfl⟩⟩

theorem level_setLastV {slot : VSlot} {id : Nat} :
    M.pres Level (setLastV slot id) :=
  ⟨fun _ => ⟨rfl, rfl, rfl, rfl, rfl, rfl, rfl, rfl, rfl, rfl⟩⟩

theorem level_setLastS {slot : SSlot} {id : Nat} :
    M.pres Level (setLastS slot id) :=
  ⟨fun _ => ⟨rfl, rfl, rfl, rfl, rfl, rfl, rfl, rfl, rfl, rfl⟩⟩

theorem level_pushMarkIdsPrev {dist : ℚ} {id1 id2 : Nat} :
    M.pres Level (pushMarkIdsPrev dist id1 id2) :=
  ⟨fun _ => ⟨rfl, rfl, rfl, rfl, rfl, rfl, rfl, rfl, rfl, rfl⟩⟩

theorem level_onChecker {m : M IntersectionChecker Unit} : M.pres Level (onChecker m) := by
  refine ⟨fun s => ?_⟩
  unfold onChecker
  split <;> exact ⟨rfl, rfl, rfl, rfl, rfl, rfl, rfl, rfl, rfl, rfl⟩

theorem level_vertexAt {id : Nat} : M.pres Level (vertexAt id) := by
  refine ⟨fun s => ?_⟩
  unfold vertexAt
  split <;> exact ⟨rfl, rfl, rfl, rfl, rfl, rfl, rfl, rfl, rfl, rfl⟩

theorem level_prevSectorId {prev_sectors_ids : SSlot → Option Nat} {slot : SSlot} :
    M.pres Level (prevSectorId prev_sectors_ids slot) := by
  unfold prevSectorId
  cases prev_sectors_ids slot with
  | none => exact M.pres_fail _
  | some id => exact M.pres_pure _

theorem level_modifySectorAt {id : Nat} {f : Sector → Sector} : M.pres Level (modifySectorAt id f) := by
  refine ⟨fun s => ?_⟩
  unfold modifySectorAt
  split <;> exact ⟨rfl, rfl, rfl, rfl, rfl, rfl, rfl, rfl, rfl, rfl⟩

theorem level_modifyVertexAt {id : Nat} {f : Vertex → Vertex} : M.pres Level (modifyVertexAt id f) := by
  refine ⟨fun s => ?_⟩
  unfold modifyVertexAt
  split <;> exact ⟨rfl, rfl, rfl, rfl, rfl, rfl, rfl, rfl, rfl, rfl⟩

theorem level_pushV {slot : VSlot} : M.pres Level (pushV slot) :=
  M.pres_bind M.pres_read (fun _ => M.pres_bind level_addV (fun _ => level_setLastV))

theorem level_pushS {slot : SSlot} : M.pres Level (pushS slot) :=
  M.pres_bind M.pres_read (fun _ => M.pres_bind level_addS (fun _ => level_setLastS))


theorem ExtendBackground_level {a b c d : Vertex} :
    M.pres Level (ExtendBackground a b c d) := by
  unfold ExtendBackground
  repeat' first
    | (with_reducible first
        | exact level_addV | exact level_addSd | exact level_addL | exact level_addS
        | exact level_lastV | exact level_lastS | exact level_setV | exact level_setLastV
        | exact level_setLastS | exact level_pushMarkIdsPrev | exact level_onChecker
        | exact level_vertexAt | exact level_prevSectorId | exact level_modifySectorAt
        | exact level_modifyVertexAt | exact level_pushV | exact level_pushS
        | exact M.pres_pure _ | exact M.pres_fail _ | exact M.pres_read
        | exact M.pres_update (fun _ => ⟨rfl, rfl, rfl, rfl, rfl, rfl, rfl, rfl, rfl, rfl⟩)
        | refine M.pres_bind ?_ ?_ | refine M.pres_ite _ ?_ ?_ | refine M.pres_forEach ?_ _
        | intro _)
    | dsimp only
    | split

theorem ExtendFence_level {a b c d : Vertex} :
    M.pres Level (ExtendFence a b c d) := by
  unfold ExtendFence
  repeat' first
    | (with_reducible first
        | exact level_addV | exact level_addSd | exact level_addL | exact level_addS
        | exact level_lastV | exact level_lastS | exact level_setV | exact level_setLastV
        | exact level_setLastS | exact level_pushMarkIdsPrev | exact level_onChecker
        | exact level_vertexAt | exact level_prevSectorId | exact level_modifySectorAt
        | exact level_modifyVertexAt | exact level_pushV | exact level_pushS
        | exact M.pres_pure _ | exact M.pres_fail _ | exact M.pres_read
        | exact M.pres_update (fun _ => ⟨rfl, rfl, rfl, rfl, rfl, rfl, rfl, rfl, rfl, rfl⟩)
        | refine M.pres_bind ?_ ?_ | refine M.pres_ite _ ?_ ?_ | refine M.pres_forEach ?_ _
        | intro _)
    | dsimp only
    | split

theorem ExtendBody_level {a b c d : Vertex} :
    M.pres Level (ExtendBody a b c d) := by
  unfold ExtendBody
  repeat' first
    | (with_reducible first
        | exact level_addV | exact level_addSd | exact level_addL | exact level_addS
        | exact level_lastV | exact level_lastS | exact level_setV | exact level_setLastV
        | exact level_setLastS | exact level_pushMarkIdsPrev | exact level_onChecker
        | exact level_vertexAt | exact level_prevSectorId | exact level_modifySectorAt
        | exact level_modifyVertexAt | exact level_pushV | exact level_pushS
        | exact M.pres_pure _ | exact M.pres_fail _ | exact M.pres_read
        | exact M.pres_update (fun _ => ⟨rfl, rfl, rfl, rfl, rfl, rfl, rfl, rfl, rfl, rfl⟩)
        | refine M.pres_bind ?_ ?_ | refine M.pres_ite _ ?_ ?_ | refine M.pres_forEach ?_ _
        | intro _)
    | dsimp only
    | split

theorem markVertexIsHere_level {lm : Libm} {slot : VSlot} :
    M.pres Level (markVertexIsHere lm slot) := by
  unfold markVertexIsHere
  repeat' first
    | (with_reducible first
        | exact level_addV | exact level_addSd | exact level_addL | exact level_addS
        | exact level_lastV | exact level_lastS | exact level_setV | exact level_setLastV
        | exact level_setLastS | exact level_pushMarkIdsPrev | exact level_onChecker
        | exact level_vertexAt | exact level_prevSectorId | exact level_modifySectorAt
        | exact level_modifyVertexAt | exact level_pushV | exact level_pushS
        | exact M.pres_pure _ | exact M.pres_fail _ | exact M.pres_read
        | exact M.pres_update (fun _ => ⟨rfl, rfl, rfl, rfl, rfl, rfl, rfl, rfl, rfl, rfl⟩)
        | refine M.pres_bind ?_ ?_ | refine M.pres_ite _ ?_ ?_ | refine M.pres_forEach ?_ _
        | intro _)
    | dsimp only
    | split

theorem ExtendMark_loop_level {length_middle : ℚ} {v_west_dir v_east_dir : ℚ × ℚ}
    {have_slope : Bool} (fuel : Nat) (length : ℚ) (first_vertices_added : Bool) :
    M.pres Level (ExtendMark.loop length_middle v_west_dir v_east_dir have_slope fuel length
      first_vertices_added) := by
  induction fuel generalizing length first_vertices_added with
  | zero =>
    unfold ExtendMark.loop
    repeat' first
      | (with_reducible first
          | exact level_addV | exact level_addSd | exact level_addL | exact level_addS
          | exact level_lastV | exact level_lastS | exact level_setV | exact level_setLastV
          | exact level_setLastS | exact level_pushMarkIdsPrev | exact level_onChecker
          | exact level_vertexAt | exact level_prevSectorId | exact level_modifySectorAt
          | exact level_modifyVertexAt | exact level_pushV | exact level_pushS
          | exact M.pres_pure _ | exact M.pres_fail _ | exact M.pres_read
          | exact M.pres_update (fun _ => ⟨rfl, rfl, rfl, rfl, rfl, rfl, rfl, rfl, rfl, rfl⟩)
          | refine M.pres_bind ?_ ?_ | refine M.pres_ite _ ?_ ?_ | refine M.pres_forEach ?_ _
          | intro _)
      | dsimp only
      | split
  | succ fuel ih =>
    unfold ExtendMark.loop
    repeat' first
      | (with_reducible first
          | exact ih _ _ | exact level_addV | exact level_addSd | exact level_addL
          | exact level_addS | exact level_lastV | exact level_lastS | exact level_setV
          | exact level_setLastV | exact level_setLastS | exact level_pushMarkIdsPrev
          | exact level_onChecker | exact level_vertexAt | exact level_prevSectorId
          | exact level_modifySectorAt | exact level_modifyVertexAt | exact level_pushV
          | exact level_pushS | exact M.pres_pure _ | exact M.pres_fail _ | exact M.pres_read
          | exact M.pres_update (fun _ => ⟨rfl, rfl, rfl, rfl, rfl, rfl, rfl, rfl, rfl, rfl⟩)
          | refine M.pres_bind ?_ ?_ | refine M.pres_ite _ ?_ ?_ | refine M.pres_forEach ?_ _
          | intro _)
      | dsimp only
      | split

theorem ExtendMark_level {lm : Libm} {a b : Vertex} :
    M.pres Level (ExtendMark lm a b) := by
  unfold ExtendMark
  repeat' first
    | (with_reducible first
        | exact ExtendMark_loop_level _ _ _ | exact markVertexIsHere_level | exact level_addV
        | exact level_addSd | exact level_addL | exact level_addS | exact level_lastV
        | exact level_lastS | exact level_setV | exact level_setLastV | exact level_setLastS
        | exact level_pushMarkIdsPrev | exact level_onChecker | exact level_vertexAt
        | exact level_prevSectorId | exact level_modifySectorAt | exact level_modifyVertexAt
        | exact level_pushV | exact level_pushS | exact M.pres_pure _ | exact M.pres_fail _
        | exact M.pres_read
        | exact M.pres_update (fun _ => ⟨rfl, rfl, rfl, rfl, rfl, rfl, rfl, rfl, rfl, rfl⟩)
        | refine M.pres_bind ?_ ?_ | refine M.pres_ite _ ?_ ?_ | refine M.pres_forEach ?_ _
        | intro _)
    | dsimp only
    | split

theorem slopeSector_level {height_diff : Int} {have_mark at_mark_start had_mark : Bool} {slot : SSlot} :
    M.pres Level (CloseSectors.slopeSector height_diff have_mark at_mark_start had_mark slot) := by
  unfold CloseSectors.slopeSector
  repeat' first
    | (with_reducible first
        | exact level_addV | exact level_addSd | exact level_addL | exact level_addS
        | exact level_lastV | exact level_lastS | exact level_setV | exact level_setLastV
        | exact level_setLastS | exact level_pushMarkIdsPrev | exact level_onChecker
        | exact level_vertexAt | exact level_prevSectorId | exact level_modifySectorAt
        | exact level_modifyVertexAt | exact level_pushV | exact level_pushS
        | exact M.pres_pure _ | exact M.pres_fail _ | exact M.pres_read
        | exact M.pres_update (fun _ => ⟨rfl, rfl, rfl, rfl, rfl, rfl, rfl, rfl, rfl, rfl⟩)
        | refine M.pres_bind ?_ ?_ | refine M.pres_ite _ ?_ ?_ | refine M.pres_forEach ?_ _
        | intro _)
    | dsimp only
    | split

theorem recordSeamMarkVertices_level {lm : Libm} :
    M.pres Level (CloseSectors.recordSeamMarkVertices lm) := by
  unfold CloseSectors.recordSeamMarkVertices
  repeat' first
    | (with_reducible first
        | exact level_addV | exact level_addSd | exact level_addL | exact level_addS
        | exact level_lastV | exact level_lastS | exact level_setV | exact level_setLastV
        | exact level_setLastS | exact level_pushMarkIdsPrev | exact level_onChecker
        | exact level_vertexAt | exact level_prevSectorId | exact level_modifySectorAt
        | exact level_modifyVertexAt | exact level_pushV | exact level_pushS
        | exact M.pres_pure _ | exact M.pres_fail _ | exact M.pres_read
        | exact M.pres_update (fun _ => ⟨rfl, rfl, rfl, rfl, rfl, rfl, rfl, rfl, rfl, rfl⟩)
        | refine M.pres_bind ?_ ?_ | refine M.pres_ite _ ?_ ?_ | refine M.pres_forEach ?_ _
        | intro _)
    | dsimp only
    | split

theorem snapMarkVertices_level {have_mark : Bool} {floorpos_prev : Int} {it : ℚ × (Nat × Nat)} :
    M.pres Level (CloseSectors.snapMarkVertices have_mark floorpos_prev it) := by
  unfold CloseSectors.snapMarkVertices
  repeat' first
    | (with_reducible first
        | exact level_addV | exact level_addSd | exact level_addL | exact level_addS
        | exact level_lastV | exact level_lastS | exact level_setV | exact level_setLastV
        | exact level_setLastS | exact level_pushMarkIdsPrev | exact level_onChecker
        | exact level_vertexAt | exact level_prevSectorId | exact level_modifySectorAt
        | exact level_modifyVertexAt | exact level_pushV | exact level_pushS
        | exact M.pres_pure _ | exact M.pres_fail _ | exact M.pres_read
        | exact M.pres_update (fun _ => ⟨rfl, rfl, rfl, rfl, rfl, rfl, rfl, rfl, rfl, rfl⟩)
        | refine M.pres_bind ?_ ?_ | refine M.pres_ite _ ?_ ?_ | refine M.pres_forEach ?_ _
        | intro _)
    | dsimp only
    | split

theorem renewSectors_level {at_mark_start at_mark_end : Bool} (l : List SSlot)
    (prev_sectors_ids : SSlot → Option Nat) :
    M.pres Level (CloseSectors.renewSectors at_mark_start at_mark_end l prev_sectors_ids) := by
  induction l generalizing prev_sectors_ids with
  | nil => exact M.pres_pure _
  | cons sector rest ih =>
    unfold CloseSectors.renewSectors
    repeat' first
      | (with_reducible first
          | exact ih _ | exact level_addV | exact level_addSd | exact level_addL
          | exact level_addS | exact level_lastV | exact level_lastS | exact level_setV
          | exact level_setLastV | exact level_setLastS | exact level_pushMarkIdsPrev
          | exact level_onChecker | exact level_vertexAt | exact level_prevSectorId
          | exact level_modifySectorAt | exact level_modifyVertexAt | exact level_pushV
          | exact level_pushS | exact M.pres_pure _ | exact M.pres_fail _ | exact M.pres_read
          | exact M.pres_update (fun _ => ⟨rfl, rfl, rfl, rfl, rfl, rfl, rfl, rfl, rfl, rfl⟩)
          | refine M.pres_bind ?_ ?_ | refine M.pres_ite _ ?_ ?_ | refine M.pres_forEach ?_ _
          | intro _)
      | dsimp only
      | split

theorem seamLines_level {at_mark_start at_mark_end : Bool}
    {prev_sectors_ids : SSlot → Option Nat} (l : List SSlot) (vs : List VSlot) :
    M.pres Level (CloseSectors.seamLines at_mark_start at_mark_end prev_sectors_ids l vs) := by
  induction l generalizing vs with
  | nil =>
    unfold CloseSectors.seamLines
    exact M.pres_pure _
  | cons sector rest ih =>
    rcases vs with _ | ⟨vi, _ | ⟨vi1, vrest⟩⟩
    · unfold CloseSectors.seamLines
      exact M.pres_pure _
    · unfold CloseSectors.seamLines
      exact M.pres_pure _
    · unfold CloseSectors.seamLines
      repeat' first
        | (with_reducible first
            | exact ih _ | exact level_addV | exact level_addSd | exact level_addL
            | exact level_addS | exact level_lastV | exact level_lastS | exact level_setV
            | exact level_setLastV | exact level_setLastS | exact level_pushMarkIdsPrev
            | exact level_onChecker | exact level_vertexAt | exact level_prevSectorId
            | exact level_modifySectorAt | exact level_modifyVertexAt | exact level_pushV
            | exact level_pushS | exact M.pres_pure _ | exact M.pres_fail _ | exact M.pres_read
            | exact M.pres_update (fun _ => ⟨rfl, rfl, rfl, rfl, rfl, rfl, rfl, rfl, rfl, rfl⟩)
            | refine M.pres_bind ?_ ?_ | refine M.pres_ite _ ?_ ?_ | refine M.pres_forEach ?_ _
            | intro _)
        | dsimp only
        | split

theorem Start_validate_level  :
    M.pres Level (Start.validate) := by
  unfold Start.validate
  repeat' first
    | (with_reducible first
        | exact level_addV | exact level_addSd | exact level_addL | exact level_addS
        | exact level_lastV | exact level_lastS | exact level_setV | exact level_setLastV
        | exact level_setLastS | exact level_pushMarkIdsPrev | exact level_onChecker
        | exact level_vertexAt | exact level_prevSectorId | exact level_modifySectorAt
        | exact level_modifyVertexAt | exact level_pushV | exact level_pushS
        | exact M.pres_pure _ | exact M.pres_fail _ | exact M.pres_read
        | exact M.pres_update (fun _ => ⟨rfl, rfl, rfl, rfl, rfl, rfl, rfl, rfl, rfl, rfl⟩)
        | refine M.pres_bind ?_ ?_ | refine M.pres_ite _ ?_ ?_ | refine M.pres_forEach ?_ _
        | intro _)
    | dsimp only
    | split

theorem Start_addBackground_level {lm : Libm} :
    M.pres Level (Start.addBackground lm) := by
  unfold Start.addBackground
  repeat' first
    | (with_reducible first
        | exact ExtendBackground_level | exact ExtendFence_level | exact ExtendBody_level
        | exact level_addV | exact level_addSd | exact level_addL | exact level_addS
        | exact level_lastV | exact level_lastS | exact level_setV | exact level_setLastV
        | exact level_setLastS | exact level_pushMarkIdsPrev | exact level_onChecker
        | exact level_vertexAt | exact level_prevSectorId | exact level_modifySectorAt
        | exact level_modifyVertexAt | exact level_pushV | exact level_pushS
        | exact M.pres_pure _ | exact M.pres_fail _ | exact M.pres_read
        | exact M.pres_update (fun _ => ⟨rfl, rfl, rfl, rfl, rfl, rfl, rfl, rfl, rfl, rfl⟩)
        | refine M.pres_bind ?_ ?_ | refine M.pres_ite _ ?_ ?_ | refine M.pres_forEach ?_ _
        | intro _)
    | dsimp only
    | split

theorem Start_addFence_level {lm : Libm} {id : Nat} :
    M.pres Level (Start.addFence lm id) := by
  unfold Start.addFence
  repeat' first
    | (with_reducible first
        | exact ExtendBackground_level | exact ExtendFence_level | exact ExtendBody_level
        | exact level_addV | exact level_addSd | exact level_addL | exact level_addS
        | exact level_lastV | exact level_lastS | exact level_setV | exact level_setLastV
        | exact level_setLastS | exact level_pushMarkIdsPrev | exact level_onChecker
        | exact level_vertexAt | exact level_prevSectorId | exact level_modifySectorAt
        | exact level_modifyVertexAt | exact level_pushV | exact level_pushS
        | exact M.pres_pure _ | exact M.pres_fail _ | exact M.pres_read
        | exact M.pres_update (fun _ => ⟨rfl, rfl, rfl, rfl, rfl, rfl, rfl, rfl, rfl, rfl⟩)
        | refine M.pres_bind ?_ ?_ | refine M.pres_ite _ ?_ ?_ | refine M.pres_forEach ?_ _
        | intro _)
    | dsimp only
    | split

theorem Start_addRoadFrame_level {lm : Libm} {id : Nat} :
    M.pres Level (Start.addRoadFrame lm id) := by
  unfold Start.addRoadFrame
  repeat' first
    | (with_reducible first
        | exact ExtendBackground_level | exact ExtendFence_level | exact ExtendBody_level
        | exact level_addV | exact level_addSd | exact level_addL | exact level_addS
        | exact level_lastV | exact level_lastS | exact level_setV | exact level_setLastV
        | exact level_setLastS | exact level_pushMarkIdsPrev | exact level_onChecker
        | exact level_vertexAt | exact level_prevSectorId | exact level_modifySectorAt
        | exact level_modifyVertexAt | exact level_pushV | exact level_pushS
        | exact M.pres_pure _ | exact M.pres_fail _ | exact M.pres_read
        | exact M.pres_update (fun _ => ⟨rfl, rfl, rfl, rfl, rfl, rfl, rfl, rfl, rfl, rfl⟩)
        | refine M.pres_bind ?_ ?_ | refine M.pres_ite _ ?_ ?_ | refine M.pres_forEach ?_ _
        | intro _)
    | dsimp only
    | split

instance instIsReflLines : IsRefl RoadFigure Lines :=
  ⟨fun _ => ⟨rfl⟩⟩

instance instIsTransLines : IsTrans RoadFigure Lines :=
  ⟨fun _ _ _ h1 h2 =>
    ⟨h2.linedefs.trans h1.linedefs⟩⟩

theorem lines_addV {v : Vertex} : M.pres Lines (addV v) := by
  refine ⟨fun s => ?_⟩
  unfold addV onMap addVertex AddMapEntryT
  dsimp only
  split_ifs <;> exact ⟨rfl⟩

theorem lines_addSd {sd : Sidedef} : M.pres Lines (addSd sd) := by
  refine ⟨fun s => ?_⟩
  unfold addSd onMap addSidedef AddMapEntryT
  dsimp only
  split_ifs <;> exact ⟨rfl⟩

theorem lines_addS {sec : Sector} : M.pres Lines (addS sec) := by
  refine ⟨fun s => ?_⟩
  unfold addS onMap addSector AddMapEntryT
  dsimp only
  split_ifs <;> exact ⟨rfl⟩

theorem lines_lastV {slot : VSlot} : M.pres Lines (lastV slot) := by
  refine ⟨fun s => ?_⟩
  unfold lastV
  split <;> exact ⟨rfl⟩

theorem lines_lastS {slot : SSlot} : M.pres Lines (lastS slot) := by
  refine ⟨fun s => ?_⟩
  unfold lastS
  split <;> exact ⟨rfl⟩

theorem lines_setV {slot : VSlot} {value : Vertex} :
    M.pres Lines (setV slot value) :=
  ⟨fun _ => ⟨rfl⟩⟩

theorem lines_setLastV {slot : VSlot} {id : Nat} :
    M.pres Lines (setLastV slot id) :=
  ⟨fun _ => ⟨rfl⟩⟩

theorem lines_setLastS {slot : SSlot} {id : Nat} :
    M.pres Lines (setLastS slot id) :=
  ⟨fun _ => ⟨rfl⟩⟩

theorem lines_SetNullVertex {v : Vertex} :
    M.pres Lines (SetNullVertex v) :=
  ⟨fun _ => ⟨rfl⟩⟩

theorem lines_pushMarkIdsPrev {dist : ℚ} {id1 id2 : Nat} :
    M.pres Lines (pushMarkIdsPrev dist id1 id2) :=
  ⟨fun _ => ⟨rfl⟩⟩

theorem lines_onChecker {m : M IntersectionChecker Unit} : M.pres Lines (onChecker m) := by
  refine ⟨fun s => ?_⟩
  unfold onChecker
  split <;> exact ⟨rfl⟩

theorem lines_vertexAt {id : Nat} : M.pres Lines (vertexAt id) := by
  refine ⟨fun s => ?_⟩
  unfold vertexAt
  split <;> exact ⟨rfl⟩

theorem lines_prevSectorId {prev_sectors_ids : SSlot → Option Nat} {slot : SSlot} :
    M.pres Lines (prevSectorId prev_sectors_ids slot) := by
  unfold prevSectorId
  cases prev_sectors_ids slot with
  | none => exact M.pres_fail _
  | some id => exact M.pres_pure _

theorem lines_modifySectorAt {id : Nat} {f : Sector → Sector} : M.pres Lines (modifySectorAt id f) := by
  refine ⟨fun s => ?_⟩
  unfold modifySectorAt
  split <;> exact ⟨rfl⟩

theorem lines_modifyVertexAt {id : Nat} {f : Vertex → Vertex} : M.pres Lines (modifyVertexAt id f) := by
  refine ⟨fun s => ?_⟩
  unfold modifyVertexAt
  split <;> exact ⟨rfl⟩

theorem lines_pushV {slot : VSlot} : M.pres Lines (pushV slot) :=
  M.pres_bind M.pres_read (fun _ => M.pres_bind lines_addV (fun _ => lines_setLastV))

theorem lines_pushS {slot : SSlot} : M.pres Lines (pushS slot) :=
  M.pres_bind M.pres_read (fun _ => M.pres_bind lines_addS (fun _ => lines_setLastS))


theorem markVertexIsHere_lines {lm : Libm} {slot : VSlot} :
    M.pres Lines (markVertexIsHere lm slot) := by
  unfold markVertexIsHere
  repeat' first
    | (with_reducible first
        | exact lines_addV | exact lines_addSd | exact lines_addS | exact lines_lastV
        | exact lines_lastS | exact lines_setV | exact lines_setLastV | exact lines_setLastS
        | exact lines_SetNullVertex | exact lines_pushMarkIdsPrev | exact lines_onChecker
        | exact lines_vertexAt | exact lines_prevSectorId | exact lines_modifySectorAt
        | exact lines_modifyVertexAt | exact lines_pushV | exact lines_pushS
        | exact M.pres_pure _ | exact M.pres_fail _ | exact M.pres_read
        | exact M.pres_update (fun _ => ⟨rfl⟩) | refine M.pres_bind ?_ ?_
        | refine M.pres_ite _ ?_ ?_ | refine M.pres_forEach ?_ _ | intro _)
    | dsimp only
    | split

theorem slopeSector_lines {height_diff : Int} {have_mark at_mark_start had_mark : Bool} {slot : SSlot} :
    M.pres Lines (CloseSectors.slopeSector height_diff have_mark at_mark_start had_mark slot) := by
  unfold CloseSectors.slopeSector
  repeat' first
    | (with_reducible first
        | exact lines_addV | exact lines_addSd | exact lines_addS | exact lines_lastV
        | exact lines_lastS | exact lines_setV | exact lines_setLastV | exact lines_setLastS
        | exact lines_SetNullVertex | exact lines_pushMarkIdsPrev | exact lines_onChecker
        | exact lines_vertexAt | exact lines_prevSectorId | exact lines_modifySectorAt
        | exact lines_modifyVertexAt | exact lines_pushV | exact lines_pushS
        | exact M.pres_pure _ | exact M.pres_fail _ | exact M.pres_read
        | exact M.pres_update (fun _ => ⟨rfl⟩) | refine M.pres_bind ?_ ?_
        | refine M.pres_ite _ ?_ ?_ | refine M.pres_forEach ?_ _ | intro _)
    | dsimp only
    | split

theorem applySlope_lines {lm : Libm} {have_mark at_mark_start : Bool} :
    M.pres Lines (CloseSectors.applySlope lm have_mark at_mark_start) := by
  unfold CloseSectors.applySlope
  repeat' first
    | (with_reducible first
        | exact slopeSector_lines | exact lines_addV | exact lines_addSd | exact lines_addS
        | exact lines_lastV | exact lines_lastS | exact lines_setV | exact lines_setLastV
        | exact lines_setLastS | exact lines_SetNullVertex | exact lines_pushMarkIdsPrev
        | exact lines_onChecker | exact lines_vertexAt | exact lines_prevSectorId
        | exact lines_modifySectorAt | exact lines_modifyVertexAt | exact lines_pushV
        | exact lines_pushS | exact M.pres_pure _ | exact M.pres_fail _ | exact M.pres_read
        | exact M.pres_update (fun _ => ⟨rfl⟩) | refine M.pres_bind ?_ ?_
        | refine M.pres_ite _ ?_ ?_ | refine M.pres_forEach ?_ _ | intro _)
    | dsimp only
    | split

theorem recordSeamMarkVertices_lines {lm : Libm} :
    M.pres Lines (CloseSectors.recordSeamMarkVertices lm) := by
  unfold CloseSectors.recordSeamMarkVertices
  repeat' first
    | (with_reducible first
        | exact lines_addV | exact lines_addSd | exact lines_addS | exact lines_lastV
        | exact lines_lastS | exact lines_setV | exact lines_setLastV | exact lines_setLastS
        | exact lines_SetNullVertex | exact lines_pushMarkIdsPrev | exact lines_onChecker
        | exact lines_vertexAt | exact lines_prevSectorId | exact lines_modifySectorAt
        | exact lines_modifyVertexAt | exact lines_pushV | exact lines_pushS
        | exact M.pres_pure _ | exact M.pres_fail _ | exact M.pres_read
        | exact M.pres_update (fun _ => ⟨rfl⟩) | refine M.pres_bind ?_ ?_
        | refine M.pres_ite _ ?_ ?_ | refine M.pres_forEach ?_ _ | intro _)
    | dsimp only
    | split

theorem snapMarkVertices_lines {have_mark : Bool} {floorpos_prev : Int} {it : ℚ × (Nat × Nat)} :
    M.pres Lines (CloseSectors.snapMarkVertices have_mark floorpos_prev it) := by
  unfold CloseSectors.snapMarkVertices
  repeat' first
    | (with_reducible first
        | exact lines_addV | exact lines_addSd | exact lines_addS | exact lines_lastV
        | exact lines_lastS | exact lines_setV | exact lines_setLastV | exact lines_setLastS
        | exact lines_SetNullVertex | exact lines_pushMarkIdsPrev | exact lines_onChecker
        | exact lines_vertexAt | exact lines_prevSectorId | exact lines_modifySectorAt
        | exact lines_modifyVertexAt | exact lines_pushV | exact lines_pushS
        | exact M.pres_pure _ | exact M.pres_fail _ | exact M.pres_read
        | exact M.pres_update (fun _ => ⟨rfl⟩) | refine M.pres_bind ?_ ?_
        | refine M.pres_ite _ ?_ ?_ | refine M.pres_forEach ?_ _ | intro _)
    | dsimp only
    | split

theorem renewSectors_lines {at_mark_start at_mark_end : Bool} (l : List SSlot)
    (prev_sectors_ids : SSlot → Option Nat) :
    M.pres Lines (CloseSectors.renewSectors at_mark_start at_mark_end l prev_sectors_ids) := by
  induction l generalizing prev_sectors_ids with
  | nil => exact M.pres_pure _
  | cons sector rest ih =>
    unfold CloseSectors.renewSectors
    repeat' first
      | (with_reducible first
          | exact ih _ | exact lines_addV | exact lines_addSd | exact lines_addS
          | exact lines_lastV | exact lines_lastS | exact lines_setV | exact lines_setLastV
          | exact lines_setLastS | exact lines_SetNullVertex | exact lines_pushMarkIdsPrev
          | exact lines_onChecker | exact lines_vertexAt | exact lines_prevSectorId
          | exact lines_modifySectorAt | exact lines_modifyVertexAt | exact lines_pushV
          | exact lines_pushS | exact M.pres_pure _ | exact M.pres_fail _ | exact M.pres_read
          | exact M.pres_update (fun _ => ⟨rfl⟩) | refine M.pres_bind ?_ ?_
          | refine M.pres_ite _ ?_ ?_ | refine M.pres_forEach ?_ _ | intro _)
      | dsimp only
      | split

instance instIsReflMarks : IsRefl RoadFigure Marks :=
  ⟨fun _ => ⟨rfl, rfl, rfl, rfl⟩⟩

instance instIsTransMarks : IsTrans RoadFigure Marks :=
  ⟨fun _ _ _ h1 h2 =>
    ⟨h2.cfg.trans h1.cfg,
      h2.coord.trans h1.coord,
      h2.west.trans h1.west,
      h2.east.trans h1.east⟩⟩

theorem marks_addV {v : Vertex} : M.pres Marks (addV v) := by
  refine ⟨fun s => ?_⟩
  unfold addV onMap addVertex AddMapEntryT
  dsimp only
  split_ifs <;> exact ⟨rfl, rfl, rfl, rfl⟩

theorem marks_addSd {sd : Sidedef} : M.pres Marks (addSd sd) := by
  refine ⟨fun s => ?_⟩
  unfold addSd onMap addSidedef AddMapEntryT
  dsimp only
  split_ifs <;> exact ⟨rfl, rfl, rfl, rfl⟩

theorem marks_addL {l : Linedef} : M.pres Marks (addL l) := by
  refine ⟨fun s => ?_⟩
  unfold addL onMap addLinedef AddMapEntryT
  dsimp only
  split_ifs <;> exact ⟨rfl, rfl, rfl, rfl⟩

theorem marks_addS {sec : Sector} : M.pres Marks (addS sec) := by
  refine ⟨fun s => ?_⟩
  unfold addS onMap addSector AddMapEntryT
  dsimp only
  split_ifs <;> exact ⟨rfl, rfl, rfl, rfl⟩

theorem marks_lastV {slot : VSlot} : M.pres Marks (lastV slot) := by
  refine ⟨fun s => ?_⟩
  unfold lastV
  split <;> exact ⟨rfl, rfl, rfl, rfl⟩

theorem marks_lastS {slot : SSlot} : M.pres Marks (lastS slot) := by
  refine ⟨fun s => ?_⟩
  unfold lastS
  split <;> exact ⟨rfl, rfl, rfl, rfl⟩

theorem marks_setLastV {slot : VSlot} {id : Nat} :
    M.pres Marks (setLastV slot id) :=
  ⟨fun _ => ⟨rfl, rfl, rfl, rfl⟩⟩

theorem marks_setLastS {slot : SSlot} {id : Nat} :
    M.pres Marks (setLastS slot id) :=
  ⟨fun _ => ⟨rfl, rfl, rfl, rfl⟩⟩

theorem marks_SetNullVertex {v : Vertex} :
    M.pres Marks (SetNullVertex v) :=
  ⟨fun _ => ⟨rfl, rfl, rfl, rfl⟩⟩

theorem marks_pushMarkIdsPrev {dist : ℚ} {id1 id2 : Nat} :
    M.pres Marks (pushMarkIdsPrev dist id1 id2) :=
  ⟨fun _ => ⟨rfl, rfl, rfl, rfl⟩⟩

theorem marks_onChecker {m : M IntersectionChecker Unit} : M.pres Marks (onChecker m) := by
  refine ⟨fun s => ?_⟩
  unfold onChecker
  split <;> exact ⟨rfl, rfl, rfl, rfl⟩

theorem marks_vertexAt {id : Nat} : M.pres Marks (vertexAt id) := by
  refine ⟨fun s => ?_⟩
  unfold vertexAt
  split <;> exact ⟨rfl, rfl, rfl, rfl⟩

theorem marks_prevSectorId {prev_sectors_ids : SSlot → Option Nat} {slot : SSlot} :
    M.pres Marks (prevSectorId prev_sectors_ids slot) := by
  unfold prevSectorId
  cases prev_sectors_ids slot with
  | none => exact M.pres_fail _
  | some id => exact M.pres_pure _

theorem marks_modifySectorAt {id : Nat} {f : Sector → Sector} : M.pres Marks (modifySectorAt id f) := by
  refine ⟨fun s => ?_⟩
  unfold modifySectorAt
  split <;> exact ⟨rfl, rfl, rfl, rfl⟩

theorem marks_modifyVertexAt {id : Nat} {f : Vertex → Vertex} : M.pres Marks (modifyVertexAt id f) := by
  refine ⟨fun s => ?_⟩
  unfold modifyVertexAt
  split <;> exact ⟨rfl, rfl, rfl, rfl⟩

theorem marks_pushV {slot : VSlot} : M.pres Marks (pushV slot) :=
  M.pres_bind M.pres_read (fun _ => M.pres_bind marks_addV (fun _ => marks_setLastV))

theorem marks_pushS {slot : SSlot} : M.pres Marks (pushS slot) :=
  M.pres_bind M.pres_read (fun _ => M.pres_bind marks_addS (fun _ => marks_setLastS))

theorem marks_setV {slot : VSlot} {value : Vertex} (h1 : slot ≠ VSlot.m_v_mark_west)
    (h2 : slot ≠ VSlot.m_v_mark_east) : M.pres Marks (setV slot value) :=
  ⟨fun _ => ⟨rfl, rfl, Function.update_noteq h1.symm _ _, Function.update_noteq h2.symm _ _⟩⟩

theorem ExtendBackground_marks {a b c d : Vertex} :
    M.pres Marks (ExtendBackground a b c d) := by
  unfold ExtendBackground
  repeat' first
    | (with_reducible first
        | exact marks_setV (by decide) (by decide) | exact marks_addV | exact marks_addSd
        | exact marks_addL | exact marks_addS | exact marks_lastV | exact marks_lastS
        | exact marks_setLastV | exact marks_setLastS | exact marks_SetNullVertex
        | exact marks_pushMarkIdsPrev | exact marks_onChecker | exact marks_vertexAt
        | exact marks_prevSectorId | exact marks_modifySectorAt | exact marks_modifyVertexAt
        | exact marks_pushV | exact marks_pushS | exact M.pres_pure _ | exact M.pres_fail _
        | exact M.pres_read | exact M.pres_update (fun _ => ⟨rfl, rfl, rfl, rfl⟩)
        | refine M.pres_bind ?_ ?_ | refine M.pres_ite _ ?_ ?_ | refine M.pres_forEach ?_ _
        | intro _)
    | dsimp only
    | split

theorem ExtendFence_marks {a b c d : Vertex} :
    M.pres Marks (ExtendFence a b c d) := by
  unfold ExtendFence
  repeat' first
    | (with_reducible first
        | exact marks_setV (by decide) (by decide) | exact marks_addV | exact marks_addSd
        | exact marks_addL | exact marks_addS | exact marks_lastV | exact marks_lastS
        | exact marks_setLastV | exact marks_setLastS | exact marks_SetNullVertex
        | exact marks_pushMarkIdsPrev | exact marks_onChecker | exact marks_vertexAt
        | exact marks_prevSectorId | exact marks_modifySectorAt | exact marks_modifyVertexAt
        | exact marks_pushV | exact marks_pushS | exact M.pres_pure _ | exact M.pres_fail _
        | exact M.pres_read | exact M.pres_update (fun _ => ⟨rfl, rfl, rfl, rfl⟩)
        | refine M.pres_bind ?_ ?_ | refine M.pres_ite _ ?_ ?_ | refine M.pres_forEach ?_ _
        | intro _)
    | dsimp only
    | split

theorem ExtendBody_marks {a b c d : Vertex} :
    M.pres Marks (ExtendBody a b c d) := by
  unfold ExtendBody
  repeat' first
    | (with_reducible first
        | exact marks_setV (by decide) (by decide) | exact marks_addV | exact marks_addSd
        | exact marks_addL | exact marks_addS | exact marks_lastV | exact marks_lastS
        | exact marks_setLastV | exact marks_setLastS | exact marks_SetNullVertex
        | exact marks_pushMarkIdsPrev | exact marks_onChecker | exact marks_vertexAt
        | exact marks_prevSectorId | exact marks_modifySectorAt | exact marks_modifyVertexAt
        | exact marks_pushV | exact marks_pushS | exact M.pres_pure _ | exact M.pres_fail _
        | exact M.pres_read | exact M.pres_update (fun _ => ⟨rfl, rfl, rfl, rfl⟩)
        | refine M.pres_bind ?_ ?_ | refine M.pres_ite _ ?_ ?_ | refine M.pres_forEach ?_ _
        | intro _)
    | dsimp only
    | split

end RoadFigure

end FigureLevel

/-! ## C39: `AddQuad` changes the checker only when it accepts -/

theorem storedQuads_storeQuad (ck : IntersectionChecker) (q : QuadInfo) :
    (ck.storeQuad q).storedQuads = ck.storedQuads ++ [q] := by
  rcases HavePending_cases ck with ⟨hp, L, back, subs, hL, _, hsec⟩ | ⟨hp, _⟩
  · rw [storeQuad_pending q hp hL hsec, storedQuads_concat]
    obtain ⟨quads, nf⟩ := ck
    simp only at hL
    subst hL
    rw [storedQuads_concat]
    simp [QuadWithSubquads.stored, hsec]
  · rw [storeQuad_not_pending q hp, storedQuads_concat]
    simp [IntersectionChecker.storedQuads, QuadWithSubquads.stored]

/-- C39: `AddQuad` is atomic on failure.  Either it raises an error and the checker (the
sequence of slots, every sub-quad list and the new-figure flag) is exactly as before the
call, or `GetQuadInfo` returned a quad info `q`, the call returns normally, and the new
checker is the old one with `q` stored: `q` is appended to the open sub-quad list when an
encircling quad is pending and added as a new plain slot otherwise, the list of all
stored quads is the old list followed by `q`, and the new-figure flag is cleared. -/
theorem AddQuad_is_atomic (p1 p2 p3 p4 : Math.Point2D) (ck : IntersectionChecker) :
    (∃ e, IntersectionChecker.AddQuad p1 p2 p3 p4 ck = (Except.error e, ck))
    ∨ ∃ q, GetQuadInfo p1 p2 p3 p4 = Except.ok q
        ∧ ck.QuadDoesNotIntersectOthers q = Except.ok true
        ∧ IntersectionChecker.AddQuad p1 p2 p3 p4 ck = (Except.ok (), ck.storeQuad q)
        ∧ (ck.storeQuad q).m_new_figure = false
        ∧ (ck.storeQuad q).storedQuads = ck.storedQuads ++ [q]
        ∧ (ck.HavePendingEncirclingQuad = true →
            ∃ L back subs, ck.m_quads = L ++ [back] ∧ back.second = some subs
              ∧ (ck.storeQuad q).m_quads = L ++ [{ back with second := some (subs ++ [q]) }])
        ∧ (ck.HavePendingEncirclingQuad = false →
            (ck.storeQuad q).m_quads = ck.m_quads ++ [{ first := q, second := none }]) := by
  cases hq : GetQuadInfo p1 p2 p3 p4 with
  | error e => exact Or.inl ⟨e, AddQuad_of_GetQuadInfo_error hq ck⟩
  | ok q =>
    have h := AddQuad_of_check hq ck
    cases hc : ck.QuadDoesNotIntersectOthers q with
    | error e =>
      rw [hc] at h
      exact Or.inl ⟨e, h⟩
    | ok b =>
      rw [hc] at h
      cases b with
      | false => exact Or.inl ⟨Err.intersection, h⟩
      | true =>
        refine Or.inr ⟨q, rfl, hc, h, ?_, storedQuads_storeQuad ck q, ?_, ?_⟩
        · unfold IntersectionChecker.storeQuad
          split_ifs
          · split <;> rfl
          · rfl
        · intro hp
          rcases HavePending_cases ck with ⟨_, L, back, subs, hL, _, hsec⟩ | ⟨hp1, _⟩
          · exact ⟨L, back, subs, hL, hsec, by rw [storeQuad_pending q hp hL hsec]⟩
          · rw [hp] at hp1
            exact absurd hp1 (by decide)
        · intro hp
          rw [storeQuad_not_pending q hp]

/-! ## C37: the normalisation of the edge equations -/

theorem abs_lt_of_IsZeroOrCloseTo {a b : ℚ} (ha : Math.IsZeroOrCloseTo a = true)
    (hb : ¬ Math.IsZeroOrCloseTo b = true) : |a| < |b| := by
  rw [IsZeroOrCloseTo_iff] at ha hb
  have h1 : |a| < 1 / 100000 := abs_lt.mpr ⟨by linarith [ha.1], by linarith [ha.2]⟩
  have h2 : 1 / 100000 ≤ |b| := by
    by_contra hlt
    push_neg at hlt
    have := abs_lt.mp hlt
    exact hb ⟨by linarith [this.1], by linarith [this.2]⟩
  linarith

/-- The divisor of `GetQuadInfo` is one of the two raw coefficients, the one of larger
absolute value (the second one when the absolute values are equal), with its sign,
unless both raw coefficients are within the tolerance of zero. -/
theorem coeffsDivider_spec (a b : ℚ)
    (h : ¬ (Math.IsZeroOrCloseTo a = true ∧ Math.IsZeroOrCloseTo b = true)) :
    (coeffsDivider a b = a ∨ coeffsDivider a b = b)
    ∧ |coeffsDivider a b| = max |a| |b| := by
  unfold coeffsDivider
  by_cases ha : Math.IsZeroOrCloseTo a = true <;> by_cases hb : Math.IsZeroOrCloseTo b = true
  · exact absurd ⟨ha, hb⟩ h
  · rw [if_pos ha, if_neg hb]
    exact ⟨Or.inr rfl, (max_eq_right (le_of_lt (abs_lt_of_IsZeroOrCloseTo ha hb))).symm⟩
  · rw [if_neg ha, if_pos hb]
    exact ⟨Or.inl rfl, (max_eq_left (le_of_lt (abs_lt_of_IsZeroOrCloseTo hb ha))).symm⟩
  · rw [if_neg ha, if_neg hb]
    have e1 : (if a < 0 then (-1 : ℚ) else 1) * a = |a| := by
      split_ifs with h0
      · rw [abs_of_neg h0]; ring
      · rw [abs_of_nonneg (not_lt.mp h0)]; ring
    have e2 : (if b < 0 then (-1 : ℚ) else 1) * b = |b| := by
      split_ifs with h0
      · rw [abs_of_neg h0]; ring
      · rw [abs_of_nonneg (not_lt.mp h0)]; ring
    simp only [e1, e2]
    split_ifs with hgt
    · exact ⟨Or.inl rfl, (max_eq_left (le_of_lt hgt)).symm⟩
    · exact ⟨Or.inr rfl, (max_eq_right (not_lt.mp hgt)).symm⟩

theorem coeffsDivider_both_close {a b : ℚ} (ha : Math.IsZeroOrCloseTo a = true)
    (hb : Math.IsZeroOrCloseTo b = true) : coeffsDivider a b = 1 := by
  unfold coeffsDivider
  rw [if_pos ha, if_pos hb]

/-- C37 (as stated, fails): in the square `(0,0) (0,10) (10,10) (10,0)` the edge from
`(0,10)` to `(10,10)` has the raw coefficients `a = 0`, `b = -10`; the stored equation is
`0 * x + 1 * y - 10 = 0`: the raw one divided by `b = -10`, not by `|b| = 10`, so the
stored normal `(0, 1)` has the sign opposite to the raw normal `(0, -10)`. -/
theorem edge_normal_changes_sign :
    GetQuadInfo ⟨0, 0⟩ ⟨0, 10⟩ ⟨10, 10⟩ ⟨10, 0⟩ = Except.ok exampleSquare
    ∧ exampleSquare.vertices.get 1 = ⟨0, 10⟩ ∧ exampleSquare.vertices.get 2 = ⟨10, 10⟩
    ∧ (exampleSquare.vertices.get 2).y - (exampleSquare.vertices.get 1).y = 0
    ∧ (exampleSquare.vertices.get 1).x - (exampleSquare.vertices.get 2).x = -10
    ∧ (exampleSquare.segments.get 1).line_equation = { a := 0, b := 1, c := -10 }
    ∧ ((exampleSquare.vertices.get 1).x - (exampleSquare.vertices.get 2).x)
        / max |(exampleSquare.vertices.get 2).y - (exampleSquare.vertices.get 1).y|
            |(exampleSquare.vertices.get 1).x - (exampleSquare.vertices.get 2).x| = -1 := by
  refine ⟨GetQuadInfo_exampleSquare, by decide!, by decide!, by decide!, by decide!,
    by decide!, ?_⟩
  have e1 : (exampleSquare.vertices.get 2).y - (exampleSquare.vertices.get 1).y = 0 := by
    decide!
  have e2 : (exampleSquare.vertices.get 1).x - (exampleSquare.vertices.get 2).x = -10 := by
    decide!
  rw [e1, e2]
  norm_num

/-- C37 (amended): for every edge `(u, v)` of a quad accepted by `GetQuadInfo`, with the
raw coefficients `a = v.y - u.y` and `b = u.x - v.x`: when `a` and `b` are not both
within `1e-5` of zero, the stored equation is the raw one divided by the divisor `d`,
which is `a` or `b` itself, the one of larger absolute value, with its sign; so the
coefficient that was divided by itself is exactly `1`, `max(|a'|, |b'|) = 1`, the
equation holds at both endpoints, and `(a', b')` is `(a, b) / d`: parallel to `(a, b)`,
with the same sign when `d > 0` and the opposite sign when `d < 0`.  When both raw
coefficients are within `1e-5` of zero they are left undivided. -/
theorem edge_equation_normalization (p1 p2 p3 p4 : Math.Point2D) (Q : QuadInfo)
    (hQ : GetQuadInfo p1 p2 p3 p4 = Except.ok Q) (i : Nat) (hi : i < 4) (u v : Math.Point2D)
    (hu : u = Q.vertices.get i) (hv : v = Q.vertices.get ((i + 1) % 4)) (a b d : ℚ)
    (ha : a = v.y - u.y) (hb : b = u.x - v.x) (hd : d = coeffsDivider a b) :
    (Q.segments.get i).line_equation
      = { a := a / d, b := b / d, c := v.x / d * u.y - u.x / d * v.y }
    ∧ lineVal (Q.segments.get i).line_equation u = 0
    ∧ lineVal (Q.segments.get i).line_equation v = 0
    ∧ (¬ (Math.IsZeroOrCloseTo a = true ∧ Math.IsZeroOrCloseTo b = true) →
        (d = a ∨ d = b) ∧ |d| = max |a| |b| ∧ d ≠ 0
        ∧ ((Q.segments.get i).line_equation.a = 1 ∨ (Q.segments.get i).line_equation.b = 1)
        ∧ max |(Q.segments.get i).line_equation.a| |(Q.segments.get i).line_equation.b| = 1
        ∧ (0 < d → 0 ≤ (Q.segments.get i).line_equation.a * a
            ∧ 0 ≤ (Q.segments.get i).line_equation.b * b)
        ∧ (d < 0 → (Q.segments.get i).line_equation.a * a ≤ 0
            ∧ (Q.segments.get i).line_equation.b * b ≤ 0))
    ∧ (Math.IsZeroOrCloseTo a = true ∧ Math.IsZeroOrCloseTo b = true →
        d = 1 ∧ (Q.segments.get i).line_equation.a = a
        ∧ (Q.segments.get i).line_equation.b = b) := by
  have heq := (GetQuadInfo_segment_get hQ i hi).1
  rw [← hu, ← hv] at heq
  have hne : d ≠ 0 := by rw [hd]; exact coeffsDivider_ne_zero _ _
  have hform : (Q.segments.get i).line_equation
      = { a := a / d, b := b / d, c := v.x / d * u.y - u.x / d * v.y } := by
    rw [heq, hd, ha, hb]
    rfl
  have hend : lineVal (edgeEquation u v) v = 0 := by
    have h := lineVal_edgeEquation u v v
    have hc : cross u v v = 0 := by simp only [cross]; ring
    rw [hc, neg_zero] at h
    rcases mul_eq_zero.mp h with h1 | h1
    · exact h1
    · exact absurd h1 (coeffsDivider_ne_zero _ _)
  refine ⟨hform, ?_, ?_, ?_, ?_⟩
  · rw [heq]
    exact lineVal_edgeEquation_start u v
  · rw [heq]
    exact hend
  · intro hnc
    have hs := coeffsDivider_spec a b hnc
    rw [← hd] at hs
    rw [hform]
    dsimp only
    have hpos : 0 < |d| := abs_pos.mpr hne
    have hmax : max |a / d| |b / d| = 1 := by
      rw [abs_div, abs_div, max_div_div_right (le_of_lt hpos), ← hs.2]
      exact div_self (ne_of_gt hpos)
    refine ⟨hs.1, hs.2, hne, ?_, hmax, ?_, ?_⟩
    · rcases hs.1 with h1 | h1
      · left
        rw [← h1]
        exact div_self hne
      · right
        rw [← h1]
        exact div_self hne
    · intro hd0
      constructor
      · rw [div_mul_eq_mul_div]
        exact div_nonneg (mul_self_nonneg a) (le_of_lt hd0)
      · rw [div_mul_eq_mul_div]
        exact div_nonneg (mul_self_nonneg b) (le_of_lt hd0)
    · intro hd0
      constructor
      · rw [div_mul_eq_mul_div]
        exact div_nonpos_of_nonneg_of_nonpos (mul_self_nonneg a) (le_of_lt hd0)
      · rw [div_mul_eq_mul_div]
        exact div_nonpos_of_nonneg_of_nonpos (mul_self_nonneg b) (le_of_lt hd0)
  · intro hc
    have h1 : d = 1 := by rw [hd]; exact coeffsDivider_both_close hc.1 hc.2
    rw [hform, h1]
    simp

theorem edge_equation_normalization_witness :
    (exampleSquare.segments.get 1).line_equation = { a := 0, b := 1, c := -10 }
    ∧ coeffsDivider 0 (-10) = -10
    ∧ lineVal (exampleSquare.segments.get 1).line_equation ⟨0, 10⟩ = 0 :=
  ⟨by decide!, by decide!,
    (edge_equation_normalization ⟨0, 0⟩ ⟨0, 10⟩ ⟨10, 10⟩ ⟨10, 0⟩ exampleSquare
      GetQuadInfo_exampleSquare 1 (by decide) ⟨0, 10⟩ ⟨10, 10⟩ (by decide!) (by decide!)
      0 (-10) (-10) (by norm_num) (by norm_num) (by decide!)).2.1⟩

/-! ## C38: `Finish` needs a shape drawn under the current slope setting -/

section FinishShape

set_option linter.unreachableTactic false
set_option linter.unusedTactic false

open Udmf

theorem M.wlp_top {σ α : Type} {m : M σ α} {Q : α → σ → Prop} {s : σ}
    (h : ∀ a s1, Q a s1) : M.wlp m Q s := by
  unfold M.wlp
  rcases m s with ⟨r, s1⟩
  cases r with
  | error e => trivial
  | ok a => exact h a s1

theorem M.run_of_wlp {σ α : Type} {m : M σ α} {Q : α → σ → Prop} {s s1 : σ} {a : α}
    (h : M.wlp m Q s) (hr : m s = (Except.ok a, s1)) : Q a s1 := by
  unfold M.wlp at h
  rw [hr] at h
  exact h

theorem M.state_of_wlp {σ α : Type} (m : M σ α) (s : σ) {P : σ → Prop} {s1 : σ} {a : α}
    (h : M.wlp m (fun _ s2 => P s2) s) (hr : m s = (Except.ok a, s1)) : P s1 :=
  M.run_of_wlp h hr

namespace RoadFigure

theorem Finish_validate_iff (fig : RoadFigure) :
    Finish.validate fig = (Except.ok (), fig)
      ↔ fig.m_started_drawing = true ∧ fig.m_finished_drawing = false
        ∧ Math.IsZeroOrCloseTo fig.m_slope_modifier.tangent = true
        ∧ fig.m_have_shape_with_current_slope = true := by
  simp only [Finish.validate, M.run_bind, M.run_read]
  cases h1 : fig.m_started_drawing <;> cases h2 : fig.m_finished_drawing <;>
    cases h3 : Math.IsZeroOrCloseTo fig.m_slope_modifier.tangent <;>
    cases h4 : fig.m_have_shape_with_current_slope <;>
    simp [M.run_fail, M.run_pure]

theorem Finish_error_of_validate {lm : Libm} {fig : RoadFigure}
    (h : ¬ Finish.validate fig = (Except.ok (), fig)) :
    ∃ e, Finish lm fig = (Except.error e, fig) := by
  rcases Finish_validate_cases fig with h1 | ⟨e, h1⟩
  · exact absurd h1 h
  · exact ⟨e, by unfold Finish; exact M.run_bind_error h1⟩

theorem Start_shape (lm : Libm) (s : RoadFigure) :
    M.wlp (Start lm) (fun _ s1 =>
      s1.m_have_shape_with_current_slope = s.m_have_shape_with_current_slope) s := by
  unfold Start
  simp only [M.wlp_bind]
  refine M.wlp_of_pres Start_validate_level (IsRefl.refl s) ?_
  intro _ s1 h1
  refine M.wlp_of_pres Start_addBackground_level h1 ?_
  intro id s2 h2
  refine M.wlp_of_pres Start_addFence_level h2 ?_
  intro _ s3 h3
  refine M.wlp_of_pres Start_addRoadFrame_level h3 ?_
  intro _ s4 h4
  exact (M.wlp_update _ _ _).mpr h4.shape

theorem SlopeModifier_shape (lm : Libm) (data : SlopeModifierData) (s : RoadFigure) :
    M.wlp (SlopeModifier lm data) (fun _ s1 =>
      s1.m_have_shape_with_current_slope = false) s := by
  unfold SlopeModifier
  rw [M.wlp_bind]
  refine (M.wlp_read _ _).mpr ?_
  dsimp only
  repeat' (first
    | exact (M.wlp_update _ _ _).mpr rfl
    | exact (M.wlp_fail _ _ _).mpr trivial
    | (with_reducible refine (M.wlp_ite _ _ _ _ _).mpr ⟨?_, ?_⟩ <;> intro _)
    | (simp only [M.wlp_bind])
    | (refine M.wlp_top ?_; intro _ _))

theorem Line_shape (lm : Libm) (line : LineData) (s : RoadFigure) :
    M.wlp (Line lm line) (fun _ s1 => s1.m_have_shape_with_current_slope = true) s := by
  unfold Line
  rw [M.wlp_bind]
  refine (M.wlp_read _ _).mpr ?_
  dsimp only
  repeat' (first
    | exact (M.wlp_update _ _ _).mpr rfl
    | exact (M.wlp_fail _ _ _).mpr trivial
    | (with_reducible refine (M.wlp_ite _ _ _ _ _).mpr ⟨?_, ?_⟩ <;> intro _)
    | (simp only [M.wlp_bind])
    | (refine M.wlp_top ?_; intro _ _))

theorem Arc_shape (lm : Libm) (arc : ArcData) (s : RoadFigure) :
    M.wlp (Arc lm arc) (fun _ s1 => s1.m_have_shape_with_current_slope = true) s := by
  unfold Arc
  rw [M.wlp_bind]
  refine (M.wlp_read _ _).mpr ?_
  dsimp only
  repeat' (first
    | exact (M.wlp_update _ _ _).mpr rfl
    | exact (M.wlp_fail _ _ _).mpr trivial
    | (with_reducible refine (M.wlp_ite _ _ _ _ _).mpr ⟨?_, ?_⟩ <;> intro _)
    | (simp only [M.wlp_bind])
    | (refine M.wlp_top ?_; intro _ _))

end RoadFigure

end FinishShape

/-- C38: `Finish` requires a shape drawn under the current slope setting.  The checks of
`Finish` pass exactly when the figure is drawing (started, not finished), the pending
tangent is within `1e-5` of zero and the flag `m_have_shape_with_current_slope` is set;
otherwise `Finish` raises an error and leaves the figure as it was.  The flag is not set
in a new figure, `Start` keeps it, every accepted `SlopeModifier` clears it and every
accepted `Line` or `Arc` sets it; so `Finish` fails right after `Start` and right after
any `SlopeModifier`, also `SlopeModifier(0)`. -/
theorem Finish_requires_shape_under_current_slope (lm : Libm) (fig : RoadFigure) :
    (RoadFigure.Finish.validate fig = (Except.ok (), fig)
      ↔ fig.m_started_drawing = true ∧ fig.m_finished_drawing = false
        ∧ Math.IsZeroOrCloseTo fig.m_slope_modifier.tangent = true
        ∧ fig.m_have_shape_with_current_slope = true)
    ∧ (¬ (fig.m_started_drawing = true ∧ fig.m_finished_drawing = false
          ∧ Math.IsZeroOrCloseTo fig.m_slope_modifier.tangent = true
          ∧ fig.m_have_shape_with_current_slope = true) →
        ∃ e, RoadFigure.Finish lm fig = (Except.error e, fig))
    ∧ (∀ config start_data map ck,
        (RoadFigure.new config start_data map ck).m_have_shape_with_current_slope = false)
    ∧ (∀ fig1, RoadFigure.Start lm fig = (Except.ok (), fig1) →
        fig1.m_have_shape_with_current_slope = fig.m_have_shape_with_current_slope)
    ∧ (∀ data fig1, RoadFigure.SlopeModifier lm data fig = (Except.ok (), fig1) →
        fig1.m_have_shape_with_current_slope = false
        ∧ ∃ e, RoadFigure.Finish lm fig1 = (Except.error e, fig1))
    ∧ (∀ line fig1, RoadFigure.Line lm line fig = (Except.ok (), fig1) →
        fig1.m_have_shape_with_current_slope = true)
    ∧ (∀ arc fig1, RoadFigure.Arc lm arc fig = (Except.ok (), fig1) →
        fig1.m_have_shape_with_current_slope = true)
    ∧ (∀ config start_data map ck fig1,
        RoadFigure.Start lm (RoadFigure.new config start_data map ck) = (Except.ok (), fig1) →
        ∃ e, RoadFigure.Finish lm fig1 = (Except.error e, fig1)) := by
  refine ⟨RoadFigure.Finish_validate_iff fig, ?_, fun _ _ _ _ => rfl, ?_, ?_, ?_, ?_, ?_⟩
  · intro h
    exact RoadFigure.Finish_error_of_validate (fun hv => h ((RoadFigure.Finish_validate_iff fig).mp hv))
  · intro fig1 h
    exact M.state_of_wlp (RoadFigure.Start lm) fig (RoadFigure.Start_shape lm fig) h
  · intro data fig1 h
    have hf : fig1.m_have_shape_with_current_slope = false :=
      M.state_of_wlp (RoadFigure.SlopeModifier lm data) fig
        (RoadFigure.SlopeModifier_shape lm data fig) h
    refine ⟨hf, RoadFigure.Finish_error_of_validate (fun hv => ?_)⟩
    have h4 := ((RoadFigure.Finish_validate_iff fig1).mp hv).2.2.2
    rw [hf] at h4
    exact absurd h4 (by decide)
  · intro line fig1 h
    exact M.state_of_wlp (RoadFigure.Line lm line) fig (RoadFigure.Line_shape lm line fig) h
  · intro arc fig1 h
    exact M.state_of_wlp (RoadFigure.Arc lm arc) fig (RoadFigure.Arc_shape lm arc fig) h
  · intro config start_data map ck fig1 h
    have hf : fig1.m_have_shape_with_current_slope = false :=
      M.state_of_wlp (RoadFigure.Start lm) _ (RoadFigure.Start_shape lm _) h
    refine RoadFigure.Finish_error_of_validate (fun hv => ?_)
    have h4 := ((RoadFigure.Finish_validate_iff fig1).mp hv).2.2.2
    rw [hf] at h4
    exact absurd h4 (by decide)

/-! ## C36: a command list of restarts only -/

theorem RoadFigure.onChecker_CutFigure (fig : RoadFigure) :
    ∃ fig1, RoadFigure.onChecker IntersectionChecker.CutFigure fig = (Except.ok (), fig1)
      ∧ fig1.m_map = fig.m_map ∧ fig1.m_started_drawing = fig.m_started_drawing
      ∧ fig1.m_config = fig.m_config := by
  unfold RoadFigure.onChecker
  split
  · exact ⟨_, rfl, rfl, rfl, rfl⟩
  · exact ⟨_, rfl, rfl, rfl, rfl⟩

theorem GetGeneratedRoad.step_restart_idle (lm : Libm) (road_config : RoadConfig)
    (start_data : StartModifierData) (st : GenState) (h : st.drawing_started = false) :
    ∃ st1, GetGeneratedRoad.step lm road_config (RoadFigureObject.StartModifier start_data) st
        = (Except.ok (), st1)
      ∧ st1.drawing_started = false
      ∧ st1.have_player_start = st.have_player_start
      ∧ st1.cur_figure.m_map = st.cur_figure.m_map
      ∧ st1.cur_figure.m_started_drawing = false
      ∧ st1.cur_figure.m_config = road_config := by
  obtain ⟨fig1, hr, h1, h2, h3⟩ := RoadFigure.onChecker_CutFigure
    (RoadFigure.new road_config start_data st.cur_figure.m_map
      st.cur_figure.m_intersection_checker)
  refine ⟨{ st with
    cur_figure := fig1
    drawing_started := false
    player_start_info :=
      { x := start_data.x_null
        y := start_data.y_null
        deg_angle := Math.truncToInt
          (Math.RadiansToDegrees (Math.GetNormalizedAngle start_data.angle)) } },
    ?_, rfl, rfl, h1, h2, h3⟩
  simp only [GetGeneratedRoad.step, M.run_bind, M.run_read, h, Bool.false_eq_true, if_false,
    M.run_pure, M.run_update, GetGeneratedRoad.onFigure, hr]

theorem GetGeneratedRoad.loop_restarts (lm : Libm) (road_config : RoadConfig)
    (input_data : List RoadFigureObject) (h : ∀ obj ∈ input_data, obj.isStart = true) :
    ∀ st : GenState, st.drawing_started = false →
      ∃ st1, RoadFigure.forEach (GetGeneratedRoad.step lm road_config) input_data st
          = (Except.ok (), st1)
        ∧ st1.drawing_started = false
        ∧ st1.have_player_start = st.have_player_start
        ∧ st1.cur_figure.m_map = st.cur_figure.m_map := by
  induction input_data with
  | nil =>
    intro st hst
    exact ⟨st, rfl, hst, rfl, rfl⟩
  | cons obj rest ih =>
    intro st hst
    have hobj := h obj (List.mem_cons_self _ _)
    cases obj with
    | StartModifier start_data =>
      obtain ⟨st1, hr, h1, h2, h3, _, _⟩ :=
        GetGeneratedRoad.step_restart_idle lm road_config start_data st hst
      obtain ⟨st2, hr2, g1, g2, g3⟩ :=
        ih (fun o ho => h o (List.mem_cons_of_mem _ ho)) st1 h1
      refine ⟨st2, ?_, g1, g2.trans h2, g3.trans h3⟩
      unfold RoadFigure.forEach
      rw [M.run_bind_ok hr]
      exact hr2
    | Line data => exact absurd hobj Bool.false_ne_true
    | Arc data => exact absurd hobj Bool.false_ne_true
    | SlopeModifier data => exact absurd hobj Bool.false_ne_true

/-- C36 (lazy start): a restart command that arrives while no drawing has begun runs
neither `Start` nor `Finish`: it returns normally, leaves the map as it is and only
replaces the figure by a new, not started one.  Consequently a command list that is
empty or consists of restart commands only is accepted, and the resulting map has no
vertices, linedefs, sidedefs or sectors, no player start, and the texture table of the
nine config textures. -/
theorem restarts_only_give_empty_map (lm : Libm) (input_data : List RoadFigureObject)
    (road_config : RoadConfig) (h : ∀ obj ∈ input_data, obj.isStart = true) :
    GetGeneratedRoad lm input_data road_config
      = (Except.ok (), { textures := List.ofFn road_config.textures })
    ∧ (GetGeneratedRoad lm input_data road_config).2.vertices = []
    ∧ (GetGeneratedRoad lm input_data road_config).2.linedefs = []
    ∧ (GetGeneratedRoad lm input_data road_config).2.sidedefs = []
    ∧ (GetGeneratedRoad lm input_data road_config).2.sectors = []
    ∧ (GetGeneratedRoad lm input_data road_config).2.have_player_start = false
    ∧ (GetGeneratedRoad lm input_data road_config).2.textures.length = 9
    ∧ ∀ start_data st, st.drawing_started = false →
        ∃ st1, GetGeneratedRoad.step lm road_config
            (RoadFigureObject.StartModifier start_data) st = (Except.ok (), st1)
          ∧ st1.drawing_started = false
          ∧ st1.cur_figure.m_map = st.cur_figure.m_map
          ∧ st1.cur_figure.m_started_drawing = false := by
  have hrun : GetGeneratedRoad lm input_data road_config
      = (Except.ok (), { textures := List.ofFn road_config.textures }) := by
    obtain ⟨st1, hr, h1, _, h3⟩ := GetGeneratedRoad.loop_restarts lm road_config input_data h
      (GetGeneratedRoad.init road_config) rfl
    have hb : GetGeneratedRoad.body lm road_config input_data (GetGeneratedRoad.init road_config)
        = (Except.ok (), st1) := by
      unfold GetGeneratedRoad.body
      rw [M.run_bind_ok hr, M.run_bind_ok (M.run_read st1)]
      simp only [h1, Bool.false_eq_true, if_false]
      rfl
    unfold GetGeneratedRoad
    rw [hb]
    show (Except.ok (), st1.cur_figure.m_map) = _
    rw [h3]
    rfl
  refine ⟨hrun, ?_, ?_, ?_, ?_, ?_, ?_, ?_⟩
  · rw [hrun]
  · rw [hrun]
  · rw [hrun]
  · rw [hrun]
  · rw [hrun]
  · rw [hrun]
    simp
  · intro start_data st hst
    obtain ⟨st1, hr, h1, _, h3, h4, _⟩ :=
      GetGeneratedRoad.step_restart_idle lm road_config start_data st hst
    exact ⟨st1, hr, h1, h3, h4⟩

theorem restarts_only_give_empty_map_witness :
    (∀ obj ∈ [RoadFigureObject.StartModifier { x_null := 5, zpos := 16 },
        RoadFigureObject.StartModifier { angle := 1 }], obj.isStart = true)
    ∧ (GetGeneratedRoad exampleLibm
        [RoadFigureObject.StartModifier { x_null := 5, zpos := 16 },
          RoadFigureObject.StartModifier { angle := 1 }] defaultRoadConfig).2.vertices = [] :=
  ⟨by decide, (restarts_only_give_empty_map exampleLibm
      [RoadFigureObject.StartModifier { x_null := 5, zpos := 16 },
        RoadFigureObject.StartModifier { angle := 1 }] defaultRoadConfig (by decide)).2.1⟩

/-! ## C31, C32, C40: the dash loop of `ExtendMark` -/

section DashLoop

set_option linter.unreachableTactic false
set_option linter.unusedTactic false

open Udmf

theorem M.errs_bind {σ α β : Type} {P : Err → Prop} {m : M σ α} {k : α → M σ β}
    (hm : M.errs P m) (hk : ∀ a, M.errs P (k a)) : M.errs P (m >>= k) := by
  refine ⟨fun s e h => ?_⟩
  rw [M.run_bind] at h
  rcases hr : m s with ⟨r, s1⟩
  cases r with
  | error e1 =>
    simp only [hr] at h
    have he : e1 = e := Except.error.inj h
    rw [← he]
    exact hm.run s e1 (by rw [hr])
  | ok a =>
    simp only [hr] at h
    exact (hk a).run s1 e h

theorem M.errs_pure {σ α : Type} {P : Err → Prop} (a : α) : M.errs P (pure a : M σ α) :=
  ⟨fun _ _ h => by cases h⟩

theorem M.errs_read {σ : Type} {P : Err → Prop} : M.errs P (M.read : M σ σ) :=
  ⟨fun _ _ h => by cases h⟩

theorem M.errs_update {σ : Type} {P : Err → Prop} (g : σ → σ) : M.errs P (M.update g) :=
  ⟨fun _ _ h => by cases h⟩

theorem M.errs_fail {σ α : Type} {P : Err → Prop} {e : Err} (h : P e) :
    M.errs P (M.fail e : M σ α) :=
  ⟨fun _ e1 h1 => by
    have h2 : e = e1 := Except.error.inj h1
    rw [← h2]
    exact h⟩

theorem M.errs_ite {σ α : Type} {P : Err → Prop} (c : Prop) [Decidable c] {m1 m2 : M σ α}
    (h1 : M.errs P m1) (h2 : M.errs P m2) : M.errs P (if c then m1 else m2) := by
  split_ifs
  · exact h1
  · exact h2

theorem M.outc_read_bind {σ β : Type} {k : σ → M σ β} {Q : Except Err β → σ → Prop} {s : σ}
    (h : M.outc (k s) Q s) : M.outc (M.read >>= k) Q s := h

theorem M.outc_update_bind {σ β : Type} {g : σ → σ} {k : Unit → M σ β}
    {Q : Except Err β → σ → Prop} {s : σ}
    (h : M.outc (k ()) Q (g s)) : M.outc (M.update g >>= k) Q s := h

theorem M.outc_ite {σ α : Type} (c : Prop) [Decidable c] {m1 m2 : M σ α}
    {Q : Except Err α → σ → Prop} {s : σ}
    (h1 : c → M.outc m1 Q s) (h2 : ¬ c → M.outc m2 Q s) :
    M.outc (if c then m1 else m2) Q s := by
  split_ifs with h
  · exact h1 h
  · exact h2 h

theorem M.outc_pure {σ α : Type} {a : α} {Q : Except Err α → σ → Prop} {s : σ}
    (h : Q (Except.ok a) s) : M.outc (pure a : M σ α) Q s := h

theorem M.outc_bind_pres {σ α β : Type} {F : σ → σ → Prop} [IsTrans σ F] {P : Err → Prop}
    {m : M σ α} {k : α → M σ β} {Q : Except Err β → σ → Prop} {s0 s : σ}
    (hm : M.pres F m) (hp : M.errs P m) (h0 : F s0 s)
    (he : ∀ e s1, F s0 s1 → P e → Q (Except.error e) s1)
    (hk : ∀ a s1, F s0 s1 → M.outc (k a) Q s1) :
    M.outc (m >>= k) Q s := by
  unfold M.outc
  rw [M.run_bind]
  have h1 := hm.run s
  have h2 := hp.run s
  rcases hr : m s with ⟨r, s1⟩
  rw [hr] at h1 h2
  cases r with
  | error e => exact he e s1 (IsTrans.trans _ _ _ h0 h1) (h2 e rfl)
  | ok a => exact hk a s1 (IsTrans.trans _ _ _ h0 h1)

namespace RoadFigure

theorem errs_addV {v : Vertex} : M.errs Err.IsMapError (addV v) := by
  refine ⟨fun s e h => ?_⟩
  unfold addV onMap addVertex AddMapEntryT at h
  dsimp only at h
  split_ifs at h
  exact Or.inl (Except.error.inj h).symm

theorem errs_addSd {sd : Sidedef} : M.errs Err.IsMapError (addSd sd) := by
  refine ⟨fun s e h => ?_⟩
  unfold addSd onMap addSidedef AddMapEntryT at h
  dsimp only at h
  split_ifs at h
  exact Or.inl (Except.error.inj h).symm

theorem errs_addL {l : Linedef} : M.errs Err.IsMapError (addL l) := by
  refine ⟨fun s e h => ?_⟩
  unfold addL onMap addLinedef AddMapEntryT at h
  dsimp only at h
  split_ifs at h
  exact Or.inl (Except.error.inj h).symm

theorem errs_addS {sec : Sector} : M.errs Err.IsMapError (addS sec) := by
  refine ⟨fun s e h => ?_⟩
  unfold addS onMap addSector AddMapEntryT at h
  dsimp only at h
  split_ifs at h
  exact Or.inl (Except.error.inj h).symm

theorem errs_lastV {slot : VSlot} : M.errs Err.IsMapError (lastV slot) := by
  refine ⟨fun s e h => ?_⟩
  unfold lastV at h
  split at h <;> first | exact Or.inr (Except.error.inj h).symm | cases h

theorem errs_lastS {slot : SSlot} : M.errs Err.IsMapError (lastS slot) := by
  refine ⟨fun s e h => ?_⟩
  unfold lastS at h
  split at h <;> first | exact Or.inr (Except.error.inj h).symm | cases h

theorem errs_vertexAt {id : Nat} : M.errs Err.IsMapError (vertexAt id) := by
  refine ⟨fun s e h => ?_⟩
  unfold vertexAt at h
  split at h <;> first | exact Or.inr (Except.error.inj h).symm | cases h

theorem errs_setV {slot : VSlot} {value : Vertex} : M.errs Err.IsMapError (setV slot value) :=
  M.errs_update _

theorem errs_setLastV {slot : VSlot} {id : Nat} : M.errs Err.IsMapError (setLastV slot id) :=
  M.errs_update _

theorem errs_setLastS {slot : SSlot} {id : Nat} : M.errs Err.IsMapError (setLastS slot id) :=
  M.errs_update _

theorem errs_pushMarkIdsPrev {dist : ℚ} {id1 id2 : Nat} :
    M.errs Err.IsMapError (pushMarkIdsPrev dist id1 id2) :=
  M.errs_update _

theorem errs_pushV {slot : VSlot} : M.errs Err.IsMapError (pushV slot) :=
  M.errs_bind M.errs_read (fun _ => M.errs_bind errs_addV (fun _ => errs_setLastV))

theorem errs_pushS {slot : SSlot} : M.errs Err.IsMapError (pushS slot) :=
  M.errs_bind M.errs_read (fun _ => M.errs_bind errs_addS (fun _ => errs_setLastS))

theorem markVertexIsHere_errs {lm : Libm} {slot : VSlot} :
    M.errs Err.IsMapError (markVertexIsHere lm slot) := by
  unfold markVertexIsHere
  repeat' first
    | (with_reducible first
        | exact errs_vertexAt | exact M.errs_pure _ | exact M.errs_read
        | refine M.errs_bind ?_ ?_ | intro _)
    | dsimp only
    | split

theorem outc_bind_frame {α : Type} {m : M RoadFigure α} {k : α → M RoadFigure Unit}
    {s s1 : RoadFigure} {length : ℚ} (hm : M.pres Frame m) (hp : M.errs Err.IsMapError m)
    (h0 : Frame s s1)
    (hk : ∀ a s2, Frame s s2 → M.outc (k a) (Dashed s length) s2) :
    M.outc (m >>= k) (Dashed s length) s1 :=
  M.outc_bind_pres hm hp h0 (fun _ _ h he => ⟨h.stay, he⟩) hk

theorem Dashed.done {s sj : RoadFigure} {length : ℚ} {n : Nat} (hj : Frame s sj)
    (hyp : LoopHyp s length n) (hlt : ¬ length ≥ 1) : Dashed s length (Except.ok ()) sj := by
  refine ⟨hj.stay, ?_, fun _ => hj.coord, 0, length, ?_, ?_, ?_⟩
  · have hd := hyp.dash
    unfold DashInRange at hd ⊢
    rw [hj.coord, hj.cfg]
    exact hd
  · linarith [hyp.len]
  · exact not_le.mp hlt
  · rw [hj.coord]
    simp

theorem Dashed.no_fuel {s sj : RoadFigure} {length : ℚ} (_hj : Frame s sj)
    (hyp : LoopHyp s length 0) : ¬ length ≥ 1 := by
  intro h1
  have h2 : (0 : ℚ) ≤ (if s.m_mark_coord = 0 ∨ s.m_mark_coord = s.m_config.sizes.road_mark_length
      then (0 : ℚ) else 16) := by split_ifs <;> norm_num
  have h3 := hyp.fuel h1
  simp only [Nat.cast_zero, mul_zero] at h3
  linarith

theorem LoopHyp.advance {s : RoadFigure} {length : ℚ} {n : Nat} (s2 : RoadFigure)
    (length2 c2 : ℚ)
    (hyp : LoopHyp s length (n + 1)) (hcfg : s2.m_config = s.m_config)
    (hcoord : s2.m_mark_coord = c2) (h0 : 0 ≤ c2)
    (h1 : c2 < s.m_config.sizes.road_mark_length + s.m_config.sizes.road_mark_gap)
    (hl : 0 ≤ length2)
    (hf : 1 ≤ length2 →
      length2 + (if c2 = 0 ∨ c2 = s.m_config.sizes.road_mark_length then 0 else 16)
        ≤ 16 * (n : ℚ)) :
    LoopHyp s2 length2 n := by
  constructor
  · rw [hcfg]; exact hyp.mark
  · rw [hcfg]; exact hyp.gap
  · unfold DashInRange
    rw [hcfg, hcoord]
    exact ⟨h0, h1⟩
  · exact hl
  · rw [hcfg, hcoord]
    exact hf

theorem Dashed.carry_on {s s2 s1 : RoadFigure} {length length2 : ℚ} {r : Except Err Unit}
    (hst : Stay s s2) (hlen : 1 ≤ length) (j : Nat)
    (hco : s2.m_mark_coord + length2 = s.m_mark_coord + length
      - (j : ℚ) * (s.m_config.sizes.road_mark_length + s.m_config.sizes.road_mark_gap))
    (h : Dashed s2 length2 r s1) : Dashed s length r s1 := by
  obtain ⟨hs, hm⟩ := h
  refine ⟨IsTrans.trans _ _ _ hst hs, ?_⟩
  cases r with
  | error e => exact hm
  | ok u =>
    obtain ⟨hin, _, k, rest, hr1, hr2, hr3⟩ := hm
    refine ⟨hin, fun hlt => absurd hlen (not_le.mpr hlt), k + j, rest, hr1, hr2, ?_⟩
    rw [hr3, hst.cfg]
    push_cast
    linarith

theorem Dashed.snap {s s2 s1 : RoadFigure} {length d : ℚ} {r : Except Err Unit}
    (hst : Stay s s2) (hlen : 1 ≤ length) (hd1 : -(1 / 100000) < d) (hd2 : d < 1)
    (hco : s2.m_mark_coord = s.m_mark_coord + length - d
      - (s.m_config.sizes.road_mark_length + s.m_config.sizes.road_mark_gap))
    (h : Dashed s2 0 r s1) : Dashed s length r s1 := by
  obtain ⟨hs, hm⟩ := h
  refine ⟨IsTrans.trans _ _ _ hst hs, ?_⟩
  cases r with
  | error e => exact hm
  | ok u =>
    obtain ⟨hin, hsame, _⟩ := hm
    refine ⟨hin, fun hlt => absurd hlen (not_le.mpr hlt), 1, d, hd1, hd2, ?_⟩
    rw [hsame (by norm_num), hco]
    push_cast
    ring

theorem Dashed.dash_step {X : M RoadFigure Unit} {s sk sj : RoadFigure} {length : ℚ} {n : Nat}
    (hk : Frame s sk) (hj : Frame s sj) (hlen : ¬ ¬ length ≥ 1)
    (hc : sk.m_mark_coord < sk.m_config.sizes.road_mark_length
      ∧ ¬ Math.IsZeroOrCloseTo (sk.m_mark_coord - sk.m_config.sizes.road_mark_length) = true)
    (hyp : LoopHyp s length (n + 1))
    (ih : ∀ s1, LoopHyp s1
        (length - (if sk.m_config.sizes.road_mark_length - sk.m_mark_coord > length then length
           else sk.m_config.sizes.road_mark_length - sk.m_mark_coord)) n →
      M.outc X (Dashed s1
        (length - (if sk.m_config.sizes.road_mark_length - sk.m_mark_coord > length then length
           else sk.m_config.sizes.road_mark_length - sk.m_mark_coord))) s1) :
    M.outc X (Dashed s length) { sj with
      m_mark_coord := sj.m_mark_coord
        + (if sk.m_config.sizes.road_mark_length - sk.m_mark_coord > length then length
           else sk.m_config.sizes.road_mark_length - sk.m_mark_coord)
      m_mark_sector_closed := false } := by
  have e1 := hj.coord
  have e3 := hk.coord
  have e4 := hk.cfg
  have hL := hyp.mark
  have hG := hyp.gap
  have hd := hyp.dash
  unfold DashInRange at hd
  have hlen1 : 1 ≤ length := not_not.mp hlen
  have hf := hyp.fuel hlen1
  have h1 := hc.1
  rw [e3, e4] at h1 ih ⊢
  rw [e1]
  have hst : Stay s { sj with
      m_mark_coord := s.m_mark_coord
        + (if s.m_config.sizes.road_mark_length - s.m_mark_coord > length then length
           else s.m_config.sizes.road_mark_length - s.m_mark_coord)
      m_mark_sector_closed := false } :=
    ⟨hj.cfg, hj.have_player_start, hj.player_start_info⟩
  have hyp1 := LoopHyp.advance { sj with
      m_mark_coord := s.m_mark_coord
        + (if s.m_config.sizes.road_mark_length - s.m_mark_coord > length then length
           else s.m_config.sizes.road_mark_length - s.m_mark_coord)
      m_mark_sector_closed := false }
    (length - (if s.m_config.sizes.road_mark_length - s.m_mark_coord > length
      then length else s.m_config.sizes.road_mark_length - s.m_mark_coord))
    (s.m_mark_coord
        + (if s.m_config.sizes.road_mark_length - s.m_mark_coord > length then length
           else s.m_config.sizes.road_mark_length - s.m_mark_coord))
    hyp hj.cfg rfl
    (by split_ifs <;> linarith [hd.1])
    (by split_ifs <;> linarith [hd.1])
    (by split_ifs <;> linarith)
    (by
      by_cases hgt : s.m_config.sizes.road_mark_length - s.m_mark_coord > length
      · simp only [if_pos hgt]
        intro h0
        linarith
      · simp only [if_neg hgt]
        intro _
        have hal : s.m_mark_coord + (s.m_config.sizes.road_mark_length - s.m_mark_coord) = 0
            ∨ s.m_mark_coord + (s.m_config.sizes.road_mark_length - s.m_mark_coord)
              = s.m_config.sizes.road_mark_length := Or.inr (by ring)
        rw [if_pos hal]
        push_cast at hf
        by_cases ha : s.m_mark_coord = 0 ∨ s.m_mark_coord = s.m_config.sizes.road_mark_length
        · rw [if_pos ha] at hf
          rcases ha with ha | ha
          · rw [ha]
            linarith
          · rw [ha] at h1
            exact absurd h1 (lt_irrefl _)
        · rw [if_neg ha] at hf
          linarith [hd.1])
  have hr := ih _ hyp1
  unfold M.outc at hr ⊢
  refine Dashed.carry_on hst hlen1 0 ?_ hr
  show s.m_mark_coord + _ + (length - _) = _
  push_cast
  ring

theorem Dashed.gap_step {X : M RoadFigure Unit} {s sk sj : RoadFigure} {length : ℚ} {n : Nat}
    (hk : Frame s sk) (hj : Frame s sj) (hlen : ¬ ¬ length ≥ 1)
    (hc : ¬ (sk.m_mark_coord < sk.m_config.sizes.road_mark_length
      ∧ ¬ Math.IsZeroOrCloseTo (sk.m_mark_coord - sk.m_config.sizes.road_mark_length) = true))
    (hyp : LoopHyp s length (n + 1))
    (ih : ∀ s1, LoopHyp s1
        (length - (if sk.m_config.sizes.road_mark_length + sk.m_config.sizes.road_mark_gap
                - sk.m_mark_coord > length then length
             else sk.m_config.sizes.road_mark_length + sk.m_config.sizes.road_mark_gap
                - sk.m_mark_coord)) n →
      M.outc X (Dashed s1
        (length - (if sk.m_config.sizes.road_mark_length + sk.m_config.sizes.road_mark_gap
                - sk.m_mark_coord > length then length
             else sk.m_config.sizes.road_mark_length + sk.m_config.sizes.road_mark_gap
                - sk.m_mark_coord))) s1) :
    M.outc X (Dashed s length) { sj with
      m_mark_coord :=
        if (!Math.IsZeroOrCloseTo
            ((if sk.m_config.sizes.road_mark_length + sk.m_config.sizes.road_mark_gap
                  - sk.m_mark_coord > length then length
              else sk.m_config.sizes.road_mark_length + sk.m_config.sizes.road_mark_gap
                  - sk.m_mark_coord)
              - (sk.m_config.sizes.road_mark_length + sk.m_config.sizes.road_mark_gap
                  - sk.m_mark_coord))) = true
        then sj.m_mark_coord
          + (if sk.m_config.sizes.road_mark_length + sk.m_config.sizes.road_mark_gap
                - sk.m_mark_coord > length then length
             else sk.m_config.sizes.road_mark_length + sk.m_config.sizes.road_mark_gap
                - sk.m_mark_coord)
        else 0 } := by
  have e1 := hj.coord
  have e3 := hk.coord
  have e4 := hk.cfg
  have hL := hyp.mark
  have hG := hyp.gap
  have hd := hyp.dash
  unfold DashInRange at hd
  have hlen1 : 1 ≤ length := not_not.mp hlen
  have hf := hyp.fuel hlen1
  rw [e3, e4] at hc ih ⊢
  rw [e1]
  by_cases hgt : s.m_config.sizes.road_mark_length + s.m_config.sizes.road_mark_gap
      - s.m_mark_coord > length
  · -- the step ends inside the gap
    simp only [if_pos hgt] at ih ⊢
    rw [sub_self] at ih
    by_cases hz : Math.IsZeroOrCloseTo (length - (s.m_config.sizes.road_mark_length
        + s.m_config.sizes.road_mark_gap - s.m_mark_coord)) = true
    · simp only [hz, Bool.not_true, Bool.false_eq_true, if_false]
      have hst : Stay s { sj with m_mark_coord := 0 } :=
        ⟨hj.cfg, hj.have_player_start, hj.player_start_info⟩
      have hyp1 := LoopHyp.advance { sj with m_mark_coord := 0 } 0 0
        hyp hj.cfg rfl (le_refl _) (by linarith) (le_refl _)
        (fun h0 => absurd h0 (by norm_num))
      have hr := ih _ hyp1
      unfold M.outc at hr ⊢
      rw [IsZeroOrCloseTo_iff] at hz
      refine Dashed.snap hst hlen1 hz.1 (by linarith [hz.2]) ?_ hr
      show (0 : ℚ) = _
      ring
    · simp only [hz, Bool.not_false, if_true]
      have hst : Stay s { sj with m_mark_coord := s.m_mark_coord + length } :=
        ⟨hj.cfg, hj.have_player_start, hj.player_start_info⟩
      have hyp1 := LoopHyp.advance { sj with m_mark_coord := s.m_mark_coord + length }
        0 (s.m_mark_coord + length) hyp hj.cfg rfl (by linarith [hd.1]) (by linarith) (le_refl _)
        (fun h0 => absurd h0 (by norm_num))
      have hr := ih _ hyp1
      unfold M.outc at hr ⊢
      refine Dashed.carry_on hst hlen1 0 ?_ hr
      show s.m_mark_coord + length + 0 = _
      push_cast
      ring
  · -- the step reaches the end of the period
    simp only [if_neg hgt, sub_self, IsZeroOrCloseTo_zero, Bool.not_true, Bool.false_eq_true,
      if_false] at ih ⊢
    have hst : Stay s { sj with m_mark_coord := 0 } :=
      ⟨hj.cfg, hj.have_player_start, hj.player_start_info⟩
    have hyp1 := LoopHyp.advance { sj with m_mark_coord := 0 }
      (length - (s.m_config.sizes.road_mark_length
        + s.m_config.sizes.road_mark_gap - s.m_mark_coord)) 0
      hyp hj.cfg rfl (le_refl _) (by linarith) (by linarith [not_lt.mp hgt])
      (by
        intro _
        rw [if_pos (Or.inl rfl)]
        push_cast at hf
        by_cases ha : s.m_mark_coord = 0 ∨ s.m_mark_coord = s.m_config.sizes.road_mark_length
        · rw [if_pos ha] at hf
          rcases ha with ha | ha
          · exfalso
            apply hc
            rw [ha, IsZeroOrCloseTo_iff]
            constructor
            · linarith
            · intro hcl
              linarith [hcl.1]
          · rw [ha]
            linarith
        · rw [if_neg ha] at hf
          linarith [hd.2])
    have hr := ih _ hyp1
    unfold M.outc at hr ⊢
    refine Dashed.carry_on hst hlen1 1 ?_ hr
    show (0 : ℚ) + _ = _
    push_cast
    ring

attribute [irreducible] M.outc

set_option maxHeartbeats 4000000 in
theorem ExtendMark_loop_dashed (length_middle : ℚ) (v_west_dir v_east_dir : ℚ × ℚ)
    (have_slope : Bool) (fuel : Nat) :
    ∀ (length : ℚ) (first_vertices_added : Bool) (s : RoadFigure), LoopHyp s length fuel →
      M.outc (ExtendMark.loop length_middle v_west_dir v_east_dir have_slope fuel length
        first_vertices_added) (Dashed s length) s := by
  induction fuel with
  | zero =>
    intro length first_vertices_added s hyp
    unfold ExtendMark.loop
    have hF : Frame s s := IsRefl.refl s
    refine M.outc_ite _ (fun h1 => absurd h1 (Dashed.no_fuel hF hyp)) (fun h1 => ?_)
    exact M.outc_pure (Dashed.done hF hyp h1)
  | succ fuel ih =>
    intro length first_vertices_added s hyp
    unfold ExtendMark.loop
    have hF : Frame s s := IsRefl.refl s
    repeat' first
      | (with_reducible refine M.outc_read_bind ?_)
      | ((with_reducible refine M.outc_update_bind ?_)
         first
          | exact Dashed.dash_step (by assumption) (by assumption)
              (by assumption) (by assumption) (by assumption) (fun s1 h1 => ih _ _ s1 h1)
          | exact Dashed.gap_step (by assumption) (by assumption)
              (by assumption) (by assumption) (by assumption) (fun s1 h1 => ih _ _ s1 h1))
      | (with_reducible refine outc_bind_frame ?_ ?_ (by assumption) ?_
         · (
            repeat' first
              | (with_reducible first
                  | exact frame_addV | exact frame_addSd | exact frame_addL | exact frame_addS
                  | exact frame_lastV | exact frame_lastS | exact frame_setV
                  | exact frame_setLastV | exact frame_setLastS
                  | exact frame_pushMarkIdsPrev | exact frame_pushV | exact frame_pushS
                  | exact M.pres_pure _ | exact M.pres_read
                  | exact M.pres_update (fun _ => ⟨rfl, rfl, rfl, rfl⟩)
                  | refine M.pres_bind ?_ ?_ | refine M.pres_ite _ ?_ ?_ | intro _)
              | dsimp only
              | split)
         · (
            repeat' first
              | (with_reducible first
                  | exact errs_addV | exact errs_addSd | exact errs_addL | exact errs_addS
                  | exact errs_lastV | exact errs_lastS | exact errs_setV
                  | exact errs_setLastV | exact errs_setLastS
                  | exact errs_pushMarkIdsPrev | exact errs_pushV | exact errs_pushS
                  | exact M.errs_pure _ | exact M.errs_read
                  | exact M.errs_update _
                  | refine M.errs_bind ?_ ?_ | refine M.errs_ite _ ?_ ?_ | intro _)
              | dsimp only
              | split)
         intro _ _ _)
      | (with_reducible refine M.outc_ite _ ?_ ?_)
      | (with_reducible refine M.outc_pure (Dashed.done (by assumption) (by assumption)
          (by assumption)))
      | intro _
      | dsimp only
      | split

end RoadFigure

end DashLoop

section DashClaims

set_option linter.unreachableTactic false
set_option linter.unusedTactic false

open Udmf

namespace RoadFigure

theorem Err.IsMapError.ne_outOfFuel {e : Err} (h : e.IsMapError) : e ≠ Err.outOfFuel := by
  rcases h with h | h <;> rw [h] <;> decide

theorem Err.IsMapError.ne_markTooSmall {e : Err} (h : e.IsMapError) : e ≠ Err.markTooSmall := by
  rcases h with h | h <;> rw [h] <;> decide

theorem LoopHyp.of_blocks {s : RoadFigure} {length : ℚ} {fuel : Nat}
    (hL : 16 ≤ s.m_config.sizes.road_mark_length) (hG : 16 ≤ s.m_config.sizes.road_mark_gap)
    (hd : s.DashInRange) (h0 : 0 ≤ length) (hf : length + 16 ≤ 16 * (fuel : ℚ)) :
    LoopHyp s length fuel := by
  refine ⟨hL, hG, hd, h0, fun _ => ?_⟩
  split_ifs <;> linarith

theorem ExtendMark.fuel_covers {length : ℚ} (h0 : 0 ≤ length) :
    length + 16 ≤ 16 * ((ExtendMark.fuel length : Nat) : ℚ) := by
  unfold ExtendMark.fuel
  have h1 : (0 : Int) ≤ ⌊length⌋ := Int.floor_nonneg.mpr h0
  have h2 : ((Int.toNat ⌊length⌋ : Nat) : ℚ) = ((⌊length⌋ : Int) : ℚ) := by
    have h3 : ((Int.toNat ⌊length⌋ : Nat) : Int) = ⌊length⌋ := Int.toNat_of_nonneg h1
    exact_mod_cast congrArg (fun z : Int => (z : ℚ)) h3
  have h4 := Int.lt_floor_add_one length
  have h5 : (0 : ℚ) ≤ ((⌊length⌋ : Int) : ℚ) := by exact_mod_cast h1
  push_cast
  rw [h2]
  linarith

theorem Dashed.after_frame {s s2 s1 : RoadFigure} {length : ℚ} {r : Except Err Unit}
    (hj : Frame s s2) (h : Dashed s2 length r s1) : Dashed s length r s1 := by
  obtain ⟨hs, hm⟩ := h
  refine ⟨IsTrans.trans _ _ _ hj.stay hs, ?_⟩
  cases r with
  | error e => exact hm
  | ok u =>
    obtain ⟨hin, hsame, k, rest, hr1, hr2, hr3⟩ := hm
    refine ⟨hin, fun hlt => (hsame hlt).trans hj.coord, k, rest, hr1, hr2, ?_⟩
    rw [hr3, hj.coord, hj.cfg]

theorem outc_of_frame {m : M RoadFigure Unit} {s s2 : RoadFigure} {length : ℚ}
    (hj : Frame s s2) (h : M.outc m (Dashed s2 length) s2) : M.outc m (Dashed s length) s2 := by
  unfold M.outc at h ⊢
  exact Dashed.after_frame hj h

theorem LoopHyp.under_frame {s s2 : RoadFigure} {length : ℚ} {fuel : Nat} (hj : Frame s s2)
    (h : LoopHyp s length fuel) : LoopHyp s2 length fuel := by
  have hd := h.dash
  unfold DashInRange at hd
  refine ⟨by rw [hj.cfg]; exact h.mark, by rw [hj.cfg]; exact h.gap, ?_, h.len, ?_⟩
  · unfold DashInRange
    rw [hj.coord, hj.cfg]
    exact hd
  · rw [hj.coord, hj.cfg]
    exact h.fuel

theorem ExtendMark_short (lm : Libm) (a b : Vertex) (s : RoadFigure)
    (h : markStep lm s a b < 4) :
    ExtendMark lm a b s = (Except.error Err.markTooSmall, s) := by
  unfold markStep at h
  unfold ExtendMark
  simp only [M.run_bind, M.run_read, SMALLEST_MARK_LINE]
  rw [if_pos h]
  rfl

theorem ExtendMark_outc (lm : Libm) (a b : Vertex) (s : RoadFigure)
    (hL : 16 ≤ s.m_config.sizes.road_mark_length) (hG : 16 ≤ s.m_config.sizes.road_mark_gap)
    (hd : s.DashInRange) (h4 : ¬ markStep lm s a b < 4) :
    M.outc (ExtendMark lm a b) (Dashed s (markStep lm s a b)) s := by
  unfold markStep at h4 ⊢
  unfold ExtendMark
  refine M.outc_read_bind ?_
  dsimp only
  refine M.outc_ite _ (fun h => absurd h h4) (fun _ => ?_)
  refine outc_bind_frame markVertexIsHere_frame markVertexIsHere_errs (IsRefl.refl s) ?_
  intro w s1 h1
  refine outc_bind_frame markVertexIsHere_frame markVertexIsHere_errs h1 ?_
  intro e s2 h2
  have h0 : (0 : ℚ) ≤ ((s.m_v VSlot.m_v_mark_east).GetDistanceTo lm b
      + (s.m_v VSlot.m_v_mark_west).GetDistanceTo lm a) / 2 := by
    linarith [not_lt.mp h4]
  have hyp := LoopHyp.under_frame h2 (LoopHyp.of_blocks hL hG hd h0 (ExtendMark.fuel_covers h0))
  exact outc_of_frame h2 (ExtendMark_loop_dashed _ _ _ _ _ _ _ s2 hyp)

theorem ExtendMark_outcome (lm : Libm) (a b : Vertex) (s : RoadFigure)
    (hL : 16 ≤ s.m_config.sizes.road_mark_length) (hG : 16 ≤ s.m_config.sizes.road_mark_gap)
    (hd : s.DashInRange) (h4 : ¬ markStep lm s a b < 4) :
    Dashed s (markStep lm s a b) (ExtendMark lm a b s).1 (ExtendMark lm a b s).2 := by
  have h := ExtendMark_outc lm a b s hL hG hd h4
  unfold M.outc at h
  exact h

theorem wlp_ExtendMark {lm : Libm} {a b : Vertex} {s : RoadFigure}
    {Q : Unit → RoadFigure → Prop}
    (hL : 16 ≤ s.m_config.sizes.road_mark_length) (hG : 16 ≤ s.m_config.sizes.road_mark_gap)
    (hd : s.DashInRange)
    (hQ : ∀ s1, Dashed s (markStep lm s a b) (Except.ok ()) s1 → Q () s1) :
    M.wlp (ExtendMark lm a b) Q s := by
  by_cases h4 : markStep lm s a b < 4
  · unfold M.wlp
    rw [ExtendMark_short lm a b s h4]
    trivial
  · have h := ExtendMark_outcome lm a b s hL hG hd h4
    unfold M.wlp
    rcases hr : ExtendMark lm a b s with ⟨r, s1⟩
    rw [hr] at h
    cases r with
    | error e => trivial
    | ok u => exact hQ s1 h

/-- What `Line` leaves of the dash accumulator, given the outcome of `ExtendMark` in the
state `s3` and that the rest of `Line` keeps the accumulator. -/
theorem Line_dash_post {s s3 s4 s5 : RoadFigure} {length : ℚ} (h3 : Marks s s3)
    (hD : Dashed s3 length (Except.ok ()) s4) (h5 : Frame s4 s5) :
    s5.DashInRange
    ∧ ∃ k : Nat, ∃ rest : ℚ, -(1 / 100000) < rest ∧ rest < 1
      ∧ s5.m_mark_coord = s.m_mark_coord + length - rest
        - (k : ℚ) * (s.m_config.sizes.road_mark_length + s.m_config.sizes.road_mark_gap) := by
  obtain ⟨_, hin, _, k, rest, hr1, hr2, hr3⟩ := hD
  unfold DashInRange at hin ⊢
  refine ⟨by rw [h5.coord, h5.cfg]; exact hin, k, rest, hr1, hr2, ?_⟩
  rw [h5.coord, hr3, h3.coord, h3.cfg]

set_option maxHeartbeats 1000000 in
theorem Line_dash (lm : Libm) (line : LineData) (s : RoadFigure)
    (hL : 16 ≤ s.m_config.sizes.road_mark_length) (hG : 16 ≤ s.m_config.sizes.road_mark_gap)
    (hd : s.DashInRange)
    (hstep : markStep lm s
      ((s.m_v VSlot.m_v_mark_west).GetMoved (line.length * lm.cos s.m_angle)
        (line.length * lm.sin s.m_angle))
      ((s.m_v VSlot.m_v_mark_east).GetMoved (line.length * lm.cos s.m_angle)
        (line.length * lm.sin s.m_angle)) = line.length) :
    M.wlp (Line lm line) (fun _ s1 =>
      s1.DashInRange
      ∧ ∃ k : Nat, ∃ rest : ℚ, -(1 / 100000) < rest ∧ rest < 1
        ∧ s1.m_mark_coord = s.m_mark_coord + line.length - rest
          - (k : ℚ) * (s.m_config.sizes.road_mark_length + s.m_config.sizes.road_mark_gap)) s := by
  unfold Line
  rw [M.wlp_bind]
  refine (M.wlp_read _ _).mpr ?_
  dsimp only
  refine (M.wlp_ite _ _ _ _ _).mpr ⟨fun _ => (M.wlp_fail _ _ _).mpr trivial, fun _ => ?_⟩
  refine (M.wlp_ite _ _ _ _ _).mpr ⟨fun _ => (M.wlp_fail _ _ _).mpr trivial, fun _ => ?_⟩
  simp only [M.wlp_bind]
  refine M.wlp_of_pres ExtendBackground_marks (IsRefl.refl s) ?_
  intro _ s1 h1
  refine M.wlp_of_pres ExtendFence_marks h1 ?_
  intro _ s2 h2
  refine M.wlp_of_pres ExtendBody_marks h2 ?_
  intro _ s3 h3
  have hd3 : s3.DashInRange := by
    unfold DashInRange at hd ⊢
    rw [h3.coord, h3.cfg]
    exact hd
  have hstep3 : markStep lm s3
      ((s.m_v VSlot.m_v_mark_west).GetMoved (line.length * lm.cos s.m_angle)
        (line.length * lm.sin s.m_angle))
      ((s.m_v VSlot.m_v_mark_east).GetMoved (line.length * lm.cos s.m_angle)
        (line.length * lm.sin s.m_angle)) = line.length := by
    refine Eq.trans ?_ hstep
    unfold markStep
    rw [h3.west, h3.east]
  refine wlp_ExtendMark (by rw [h3.cfg]; exact hL) (by rw [h3.cfg]; exact hG) hd3 ?_
  intro s4 hD
  rw [hstep3] at hD
  have hF : Frame s4 s4 := IsRefl.refl s4
  repeat' (first
    | exact Line_dash_post h3 hD (by assumption)
    | (refine M.wlp_of_pres (R := Frame) (by with_reducible first
          | exact frame_SetNullVertex | exact CloseSectors_frame | exact M.pres_pure _
          | exact M.pres_update (fun _ => ⟨rfl, rfl, rfl, rfl⟩)) (by assumption) ?_
       intro _ _ _)
    | (with_reducible refine (M.wlp_ite _ _ _ _ _).mpr ⟨?_, ?_⟩ <;> intro _)
    | (simp only [M.wlp_bind]))

end RoadFigure

end DashClaims

/-- C31 (as stated, fails): with the default config (period `256 + 512`), the figure
started with the dash accumulator `252.5` accepts `Line(4)`; the travelled distance is
`4`, and `(252.5 + 4) mod 768 = 256.5`, but the accumulator after the line is `256`: the
loop of `ExtendMark` consumes `3.5` up to the end of the dash and skips the rest `0.5`,
which is shorter than one unit. -/
theorem dash_accumulator_skips_short_rest :
    (examplePhaseFigure (505 / 2)).m_mark_coord = 505 / 2
    ∧ (examplePhaseFigure (505 / 2)).m_slope_modifier.tangent = 0
    ∧ (RoadFigure.Line exampleLibm { length := 4 } (examplePhaseFigure (505 / 2))).1
        = Except.ok ()
    ∧ (RoadFigure.Line exampleLibm { length := 4 } (examplePhaseFigure (505 / 2))).2.m_mark_coord
        = 256
    ∧ Math.Fmod (505 / 2 + 4) (256 + 512) = 513 / 2 := by
  decide!

/-- C31 (amended): the dash accumulator advances by the distance that the loop of
`ExtendMark` counts.  For a config with mark length and mark gap at least `16`, a figure
whose accumulator is in range, and a `Line(length)` that is accepted and whose mark step
(the mean of the distances travelled by the two mark vertices, as the C library computes
them) is `length`: the accumulator after the line is again in range and equals
`previous + length - r` modulo `markLength + markGap`, for some `r` with `-1e-5 < r < 1`:
`r` is the rest of the step, shorter than one unit, that the loop skips without counting
it, or minus the distance, below `1e-5`, by which the step ends before the end of the
period when the accumulator is set to zero there.  This holds on a flat figure and under
a slope alike. -/
theorem Line_advances_dash_accumulator (lm : Libm) (line : LineData) (fig fig1 : RoadFigure)
    (hL : 16 ≤ fig.m_config.sizes.road_mark_length)
    (hG : 16 ≤ fig.m_config.sizes.road_mark_gap) (hd : fig.DashInRange)
    (hstep : RoadFigure.markStep lm fig
      ((fig.m_v VSlot.m_v_mark_west).GetMoved (line.length * lm.cos fig.m_angle)
        (line.length * lm.sin fig.m_angle))
      ((fig.m_v VSlot.m_v_mark_east).GetMoved (line.length * lm.cos fig.m_angle)
        (line.length * lm.sin fig.m_angle)) = line.length)
    (h : RoadFigure.Line lm line fig = (Except.ok (), fig1)) :
    fig1.DashInRange
    ∧ ∃ k : Nat, ∃ rest : ℚ, -(1 / 100000) < rest ∧ rest < 1
      ∧ fig1.m_mark_coord = fig.m_mark_coord + line.length - rest
        - (k : ℚ) * (fig.m_config.sizes.road_mark_length + fig.m_config.sizes.road_mark_gap) :=
  M.state_of_wlp (RoadFigure.Line lm line) fig (RoadFigure.Line_dash lm line fig hL hG hd hstep) h

set_option maxRecDepth 1000000 in
theorem Line_advances_dash_accumulator_witness :
    (examplePhaseFigure (505 / 2)).DashInRange
    ∧ RoadFigure.Line exampleLibm { length := 4 } (examplePhaseFigure (505 / 2))
        = (Except.ok (),
          (RoadFigure.Line exampleLibm { length := 4 } (examplePhaseFigure (505 / 2))).2)
    ∧ (RoadFigure.Line exampleLibm { length := 4 }
        (examplePhaseFigure (505 / 2))).2.DashInRange :=
  ⟨by decide!, Prod.ext (by decide!) rfl,
    (Line_advances_dash_accumulator exampleLibm { length := 4 } (examplePhaseFigure (505 / 2))
      (RoadFigure.Line exampleLibm { length := 4 } (examplePhaseFigure (505 / 2))).2
      (by decide!) (by decide!) (by decide!) (by decide!) (Prod.ext (by decide!) rfl)).1⟩

/-- C40: the dash loop of `ExtendMark` terminates.  For a config with mark length and
mark gap at least `16`, a dash accumulator in `[0, markLength + markGap)` and a remaining
length that is not negative, the loop ends within `fuel` iterations for every `fuel` with
`length + 16 ≤ 16 * fuel` (every iteration after the first consumes `16` units or all
that remains): it never reports that the iterations ran out, whatever else happens, and
when it returns normally the accumulator is again in range.  The number of iterations
that the model grants, `floor(length) + 4`, is such a `fuel`. -/
theorem dash_loop_terminates (length_middle : ℚ) (v_west_dir v_east_dir : ℚ × ℚ)
    (have_slope : Bool) (s : RoadFigure) (length : ℚ) (first_vertices_added : Bool)
    (hL : 16 ≤ s.m_config.sizes.road_mark_length) (hG : 16 ≤ s.m_config.sizes.road_mark_gap)
    (hd : s.DashInRange) (h0 : 0 ≤ length) :
    (∀ fuel : Nat, length + 16 ≤ 16 * (fuel : ℚ) →
      (RoadFigure.ExtendMark.loop length_middle v_west_dir v_east_dir have_slope fuel length
        first_vertices_added s).1 ≠ Except.error Err.outOfFuel
      ∧ ((RoadFigure.ExtendMark.loop length_middle v_west_dir v_east_dir have_slope fuel length
          first_vertices_added s).1 = Except.ok () →
        (RoadFigure.ExtendMark.loop length_middle v_west_dir v_east_dir have_slope fuel length
          first_vertices_added s).2.DashInRange))
    ∧ length + 16 ≤ 16 * ((RoadFigure.ExtendMark.fuel length : Nat) : ℚ)
    ∧ (RoadFigure.ExtendMark.loop length_middle v_west_dir v_east_dir have_slope
        (RoadFigure.ExtendMark.fuel length) length first_vertices_added s).1
      ≠ Except.error Err.outOfFuel := by
  have key : ∀ fuel : Nat, length + 16 ≤ 16 * (fuel : ℚ) →
      (RoadFigure.ExtendMark.loop length_middle v_west_dir v_east_dir have_slope fuel length
        first_vertices_added s).1 ≠ Except.error Err.outOfFuel
      ∧ ((RoadFigure.ExtendMark.loop length_middle v_west_dir v_east_dir have_slope fuel length
          first_vertices_added s).1 = Except.ok () →
        (RoadFigure.ExtendMark.loop length_middle v_west_dir v_east_dir have_slope fuel length
          first_vertices_added s).2.DashInRange) := by
    intro fuel hf
    have h := RoadFigure.ExtendMark_loop_dashed length_middle v_west_dir v_east_dir have_slope
      fuel length first_vertices_added s (RoadFigure.LoopHyp.of_blocks hL hG hd h0 hf)
    unfold M.outc at h
    obtain ⟨_, hm⟩ := h
    constructor
    · intro he
      rw [he] at hm
      exact RoadFigure.Err.IsMapError.ne_outOfFuel hm rfl
    · intro hok
      rw [hok] at hm
      exact hm.1
  exact ⟨key, RoadFigure.ExtendMark.fuel_covers h0,
    (key _ (RoadFigure.ExtendMark.fuel_covers h0)).1⟩

set_option maxRecDepth 1000000 in
theorem dash_loop_terminates_witness :
    (16 : ℚ) ≤ (examplePhaseFigure (505 / 2)).m_config.sizes.road_mark_length
    ∧ (examplePhaseFigure (505 / 2)).DashInRange
    ∧ RoadFigure.ExtendMark.fuel 4 = 8
    ∧ (RoadFigure.ExtendMark.loop 4 (4, 0) (4, 0) false (RoadFigure.ExtendMark.fuel 4) 4 false
        (examplePhaseFigure (505 / 2))).1 ≠ Except.error Err.outOfFuel :=
  ⟨by decide!, by decide!, by decide!,
    (dash_loop_terminates 4 (4, 0) (4, 0) false (examplePhaseFigure (505 / 2)) 4 false
      (by decide!) (by decide!) (by decide!) (by decide!)).2.2⟩

/-- C32 (as stated, fails): with the default config, the figure started with the dash
accumulator `255` (one unit before the end of the dash) accepts `Line(100)`.  The step
emits the two walls of a dash segment of length `1`: the linedef from vertex `34` at
`(1,-8)` to vertex `21` at `(0,-8)` and the linedef from vertex `20` at `(0,8)` to vertex
`35` at `(1,8)`, whose back sidedefs carry the road-mark texture; their length is below
the minimum `4`, and the step is not rejected. -/
theorem short_dash_segment_is_emitted :
    (examplePhaseFigure 255).m_mark_coord = 255
    ∧ (RoadFigure.Line exampleLibm { length := 100 } (examplePhaseFigure 255)).1 = Except.ok ()
    ∧ ((RoadFigure.Line exampleLibm { length := 100 }
        (examplePhaseFigure 255)).2.m_map.linedefs.drop 29).map
          (fun l => (l.v1, l.v2, l.sidefront, l.sideback))
        = [(34, 21, 54, 53), (20, 35, 56, 55), (35, 34, 58, 57)]
    ∧ ((RoadFigure.Line exampleLibm { length := 100 }
        (examplePhaseFigure 255)).2.m_map.vertices.drop 34).map (fun v => (v.x, v.y))
        = [(1, -8), (1, 8)]
    ∧ (((RoadFigure.Line exampleLibm { length := 100 }
        (examplePhaseFigure 255)).2.m_map.vertices.drop 20).take 2).map (fun v => (v.x, v.y))
        = [(0, 8), (0, -8)]
    ∧ (((RoadFigure.Line exampleLibm { length := 100 }
        (examplePhaseFigure 255)).2.m_map.sidedefs.drop 53).take 4).map
          (fun sd => sd.texturebottom)
        = [RoadConfig.enTexture_RoadMark, 0, RoadConfig.enTexture_RoadMark, 0]
    ∧ RoadFigure.SMALLEST_MARK_LINE = 4 := by
  decide!

/-- C32 (amended): `ExtendMark` rejects a step with the "too small mark" error exactly
when the whole step, the mean of the distances travelled by the two mark vertices, is
shorter than the minimum `4`; the figure is then left as it was at the call of
`ExtendMark`.  The test is on the step, not on the dash segments: a step that is
accepted can emit a dash segment shorter than `4` units, and a rest of the step shorter
than one unit is skipped.  (Config with mark length and mark gap at least `16`, dash
accumulator in range.) -/
theorem ExtendMark_rejects_short_steps_only (lm : Libm) (v_new_mark_west v_new_mark_east : Udmf.Vertex)
    (fig : RoadFigure) (hL : 16 ≤ fig.m_config.sizes.road_mark_length)
    (hG : 16 ≤ fig.m_config.sizes.road_mark_gap) (hd : fig.DashInRange) :
    ((RoadFigure.ExtendMark lm v_new_mark_west v_new_mark_east fig).1
        = Except.error Err.markTooSmall
      ↔ RoadFigure.markStep lm fig v_new_mark_west v_new_mark_east < 4)
    ∧ (RoadFigure.markStep lm fig v_new_mark_west v_new_mark_east < 4 →
        RoadFigure.ExtendMark lm v_new_mark_west v_new_mark_east fig
          = (Except.error Err.markTooSmall, fig)) := by
  refine ⟨⟨fun he => ?_, fun h => ?_⟩, RoadFigure.ExtendMark_short lm _ _ fig⟩
  · by_contra h4
    have h := RoadFigure.ExtendMark_outcome lm v_new_mark_west v_new_mark_east fig hL hG hd h4
    obtain ⟨_, hm⟩ := h
    rw [he] at hm
    exact RoadFigure.Err.IsMapError.ne_markTooSmall hm rfl
  · rw [RoadFigure.ExtendMark_short lm _ _ fig h]

set_option maxRecDepth 1000000 in
theorem ExtendMark_rejects_short_steps_only_witness :
    (examplePhaseFigure 255).DashInRange
    ∧ RoadFigure.markStep exampleLibm (examplePhaseFigure 255) ⟨3, -8, false, 0, false, 0⟩
        ⟨3, 8, false, 0, false, 0⟩ = 3
    ∧ RoadFigure.ExtendMark exampleLibm ⟨3, -8, false, 0, false, 0⟩ ⟨3, 8, false, 0, false, 0⟩
        (examplePhaseFigure 255) = (Except.error Err.markTooSmall, examplePhaseFigure 255) :=
  ⟨by decide!, by decide!,
    (ExtendMark_rejects_short_steps_only exampleLibm ⟨3, -8, false, 0, false, 0⟩
      ⟨3, 8, false, 0, false, 0⟩ (examplePhaseFigure 255) (by decide!) (by decide!)
      (by decide!)).2 (by decide!)⟩

/-! ## C34: the height given to the mark vertices on the seam -/

section MarkSnap

open Udmf

namespace RoadFigure

theorem modifyVertexAt_ok {id : Nat} {f : Vertex → Vertex} {s s1 : RoadFigure}
    (h : modifyVertexAt id f s = (Except.ok (), s1)) :
    ∃ v, s.m_map.vertices.get? id = some v
      ∧ s1 = { s with m_map := { s.m_map with vertices := s.m_map.vertices.set id (f v) } } := by
  unfold modifyVertexAt at h
  split at h
  · next v hv => exact ⟨v, hv, (Prod.mk.inj h).2.symm⟩
  · exact absurd (Prod.mk.inj h).1 (by simp)

theorem Math_truncToInt_toward_zero (x : ℚ) :
    |((Math.truncToInt x : Int) : ℚ)| ≤ |x| ∧ |x - ((Math.truncToInt x : Int) : ℚ)| < 1 := by
  have hf := Math.truncToInt_frac x
  rcases le_or_lt 0 x with hx | hx
  · obtain ⟨h1, h2⟩ := hf.1 hx
    have h3 : (0 : ℚ) ≤ ((Math.truncToInt x : Int) : ℚ) := by
      unfold Math.truncToInt
      rw [if_pos hx]
      exact_mod_cast Int.floor_nonneg.mpr hx
    rw [abs_of_nonneg h3, abs_of_nonneg hx, abs_of_nonneg h1]
    exact ⟨by linarith, h2⟩
  · obtain ⟨h1, h2⟩ := hf.2 hx
    have h3 : ((Math.truncToInt x : Int) : ℚ) ≤ 0 := by
      unfold Math.truncToInt
      rw [if_neg (not_le.mpr hx)]
      exact_mod_cast Int.ceil_le.mpr (by exact_mod_cast hx.le)
    rw [abs_of_nonpos h3, abs_of_neg hx, abs_of_nonpos h2]
    exact ⟨by linarith, by linarith⟩

theorem snapRounding (x : ℚ) :
    (if x > 0 then Math.Floor x else Math.Ceil x) = ((Math.truncToInt x : Int) : ℚ) := by
  unfold Math.Floor Math.Ceil Math.truncToInt
  rcases lt_trichotomy x 0 with hx | hx | hx
  · rw [if_neg (not_lt.mpr hx.le), if_neg (not_le.mpr hx)]
  · subst hx
    simp
  · rw [if_pos hx, if_pos hx.le]

theorem snap_tail {s s1 : RoadFigure} {id1 id2 : Nat} {z : ℚ}
    (h : (modifyVertexAt id1 (fun mark_v1 => mark_v1.GetWithZFloor z) >>= fun _ =>
      modifyVertexAt id2 (fun mark_v2 => mark_v2.GetWithZFloor z)) s = (Except.ok (), s1)) :
    ∃ v1 v2, s.m_map.vertices.get? id1 = some v1
      ∧ (s.m_map.vertices.set id1 (v1.GetWithZFloor z)).get? id2 = some v2
      ∧ s1.m_map.vertices
        = (s.m_map.vertices.set id1 (v1.GetWithZFloor z)).set id2 (v2.GetWithZFloor z) := by
  obtain ⟨_, s3, h3, h4⟩ := M_bind_ok_inv h
  obtain ⟨v1, hv1, rfl⟩ := modifyVertexAt_ok h3
  obtain ⟨v2, hv2, rfl⟩ := modifyVertexAt_ok h4
  exact ⟨v1, v2, hv1, hv2, rfl⟩

end RoadFigure

set_option maxRecDepth 1000000 in
/-- C34 (as stated, refuted): on the seam figure with tangent 1/2, the loop body of
`CloseSectors` for the current mark vertices 38 and 39 at distance 5 interpolates the
height `1 + 5/2 = 7/2` and stores 3, where rounding away from zero gives 4; from the
floor -10 it interpolates `-13/2` and stores -6, not -7. The generated ramp road
carries the value 3 on the mark vertices at `x = 1005`. -/
theorem mark_snap_rounds_toward_zero :
    (RoadFigure.CloseSectors.snapMarkVertices true 0 (5, (38, 39))
        { exampleMarkSeamFigure with m_slope_modifier := { tangent := 1 / 2 } }).1
      = Except.ok ()
    ∧ exampleMarkSeamFigure.m_last_ids_v VSlot.m_v_mark_west = some 38
    ∧ ((RoadFigure.CloseSectors.snapMarkVertices true 0 (5, (38, 39))
        { exampleMarkSeamFigure with m_slope_modifier := { tangent := 1 / 2 } }
        ).2.m_map.vertices.drop 38).map (fun v => (v.have_zfloor, v.zfloor))
      = [(true, 3), (true, 3)]
    ∧ (((0 + RoadFigure.MARK_HEIGHT : Int) : ℚ) + 1 / 2 * 5 = 7 / 2 ∧ Math.Ceil (7 / 2) = 4)
    ∧ ((RoadFigure.CloseSectors.snapMarkVertices true (-10) (5, (38, 39))
        { exampleMarkSeamFigure with m_slope_modifier := { tangent := 1 / 2 } }
        ).2.m_map.vertices.drop 38).map (fun v => (v.have_zfloor, v.zfloor))
      = [(true, -6), (true, -6)]
    ∧ (((-10 + RoadFigure.MARK_HEIGHT : Int) : ℚ) + 1 / 2 * 5 = -(13 / 2)
      ∧ Math.Floor (-(13 / 2)) = -7)
    ∧ (GetGeneratedRoad exampleLibm exampleRampRoad defaultRoadConfig).1 = Except.ok ()
    ∧ ((GetGeneratedRoad exampleLibm exampleRampRoad defaultRoadConfig).2.vertices.filter
        (fun v => v.have_zfloor)).map (fun v => (v.x, v.y, v.zfloor))
      = [(1000, -8, 1), (1000, 8, 1), (1005, -8, 3), (1005, 8, 3)] := by
  decide!

/-- C34 (amended): when the loop body of `CloseSectors` over `m_v_mark_ids_prev` succeeds
on the entry `it`, both vertices of the entry get the same floor height `z`. With
`z0 = floorpos_prev + MARK_HEIGHT + tangent * it.1` the interpolated height: if a mark is
present and the last `m_v_mark_west` id is one of the two ids (the vertices lie on the
current seam), `z` is `z0` rounded toward zero (positive values rounded down, negative
values rounded up), so `|z| ≤ |z0|` and `|z0 - z| < 1`; otherwise `z = z0` unrounded. -/
theorem snapMarkVertices_rounds_toward_zero (have_mark : Bool) (floorpos_prev : Int)
    (it : ℚ × (Nat × Nat)) (s s1 : RoadFigure)
    (h : RoadFigure.CloseSectors.snapMarkVertices have_mark floorpos_prev it s
      = (Except.ok (), s1))
    (z0 : ℚ)
    (hz0 : z0 = ((floorpos_prev + RoadFigure.MARK_HEIGHT : Int) : ℚ)
      + s.m_slope_modifier.tangent * it.1) :
    ∃ z v1 v2, s.m_map.vertices.get? it.2.1 = some v1
      ∧ (s.m_map.vertices.set it.2.1 (v1.GetWithZFloor z)).get? it.2.2 = some v2
      ∧ s1.m_map.vertices
        = (s.m_map.vertices.set it.2.1 (v1.GetWithZFloor z)).set it.2.2 (v2.GetWithZFloor z)
      ∧ ((have_mark = true ∧ (s.m_last_ids_v VSlot.m_v_mark_west = some it.2.1
            ∨ s.m_last_ids_v VSlot.m_v_mark_west = some it.2.2))
          → z = ((Math.truncToInt z0 : Int) : ℚ) ∧ |z| ≤ |z0| ∧ |z0 - z| < 1)
      ∧ (¬ (have_mark = true ∧ (s.m_last_ids_v VSlot.m_v_mark_west = some it.2.1
            ∨ s.m_last_ids_v VSlot.m_v_mark_west = some it.2.2))
          → z = z0) := by
  unfold RoadFigure.CloseSectors.snapMarkVertices at h
  rw [M.run_bind_ok (M.run_read s)] at h
  cases have_mark
  · simp only [Bool.false_eq_true, if_false] at h
    rw [M.run_bind_ok (M.run_pure false s)] at h
    obtain ⟨v1, v2, hv1, hv2, hs1⟩ := RoadFigure.snap_tail h
    refine ⟨_, v1, v2, hv1, hv2, hs1, fun hseam => ?_, fun _ => ?_⟩
    · exact absurd hseam.1 Bool.false_ne_true
    · rw [if_neg Bool.false_ne_true, ← hz0]
  · simp only [if_true] at h
    obtain ⟨id, s4, h5, h6⟩ := RoadFigure.M_bind_ok_inv h
    unfold RoadFigure.lastV at h5
    cases hl : s.m_last_ids_v VSlot.m_v_mark_west with
    | none =>
      rw [hl] at h5
      exact absurd (Prod.mk.inj h5).1 (by simp)
    | some id0 =>
      rw [hl] at h5
      have hid : id0 = id := Except.ok.inj (Prod.mk.inj h5).1
      have hs4 : s = s4 := (Prod.mk.inj h5).2
      subst hid
      subst hs4
      rw [M.run_bind_ok (M.run_pure _ s)] at h6
      obtain ⟨v1, v2, hv1, hv2, hs1⟩ := RoadFigure.snap_tail h6
      refine ⟨_, v1, v2, hv1, hv2, hs1, fun hseam => ?_, fun hseam => ?_⟩
      · have hcur : (decide (id0 = it.2.1) || decide (id0 = it.2.2)) = true := by
          rcases hseam.2 with hx | hx
          · rw [Option.some.inj hx]
            simp
          · rw [Option.some.inj hx]
            simp
        rw [if_pos hcur, RoadFigure.snapRounding, ← hz0]
        have ht := RoadFigure.Math_truncToInt_toward_zero z0
        exact ⟨rfl, ht.1, ht.2⟩
      · have hcur : ¬ (decide (id0 = it.2.1) || decide (id0 = it.2.2)) = true := by
          intro hx
          rw [Bool.or_eq_true, decide_eq_true_eq, decide_eq_true_eq] at hx
          exact hseam ⟨rfl, hx.imp (fun h => by rw [h]) (fun h => by rw [h])⟩
        rw [if_neg hcur, ← hz0]

set_option maxRecDepth 1000000 in
/-- The amended C34 at the seam figure with tangent 1/2. -/
theorem snapMarkVertices_rounds_toward_zero_witness :
    ∃ z v1 v2, ({ exampleMarkSeamFigure with m_slope_modifier := { tangent := 1 / 2 } }
        : RoadFigure).m_map.vertices.get? 38 = some v1
      ∧ ((({ exampleMarkSeamFigure with m_slope_modifier := { tangent := 1 / 2 } }
        : RoadFigure).m_map.vertices.set 38 (v1.GetWithZFloor z)).get? 39 = some v2)
      ∧ z = ((Math.truncToInt (7 / 2 : ℚ) : Int) : ℚ) := by
  obtain ⟨z, v1, v2, h1, h2, _, h4, _⟩ := snapMarkVertices_rounds_toward_zero true 0
    (5, (38, 39)) { exampleMarkSeamFigure with m_slope_modifier := { tangent := 1 / 2 } }
    (RoadFigure.CloseSectors.snapMarkVertices true 0 (5, (38, 39))
      { exampleMarkSeamFigure with m_slope_modifier := { tangent := 1 / 2 } }).2
    (Prod.ext (by decide!) rfl) (7 / 2) (by decide!)
  exact ⟨z, v1, v2, h1, h2, (h4 ⟨rfl, Or.inl (by decide!)⟩).1⟩

end MarkSnap

/-! ## C35: the flags of the seam linedefs -/

section SeamFlags

open Udmf

namespace RoadFigure

theorem Seams.none_yet (s0 : RoadFigure) : Seams s0 [] s0 :=
  ⟨[], by simp, by simp, rfl⟩

theorem Seams.of_lines {s0 s s1 : RoadFigure} {vs : List VSlot} (h : Seams s0 vs s)
    (h1 : Lines s s1) : Seams s0 vs s1 := by
  obtain ⟨ls, h2, h3, h4⟩ := h.run
  exact ⟨ls, by rw [h1.linedefs, h2], h3, h4⟩

theorem Seams.snoc {s0 s : RoadFigure} {vs : List VSlot} (h : Seams s0 vs s) (l : Linedef)
    (vi : VSlot) (hd : l.dontdraw = true) (ha : l.action_special = seamAction vi) :
    M.wlp (RoadFigure.addL l) (fun _ s1 => Seams s0 (vs ++ [vi]) s1) s := by
  obtain ⟨ls, h2, h3, h4⟩ := h.run
  unfold M.wlp RoadFigure.addL onMap addLinedef AddMapEntryT
  dsimp only
  split_ifs
  · trivial
  · refine ⟨ls ++ [l], ?_, ?_, ?_⟩
    · show s.m_map.linedefs ++ [l] = _
      rw [h2, List.append_assoc]
    · intro x hx
      rcases List.mem_append.mp hx with hx | hx
      · exact h3 x hx
      · rw [List.mem_singleton.mp hx]
        exact hd
    · rw [List.map_append, List.map_append, h4]
      simp only [List.map_cons, List.map_nil, ha]

theorem seamAction_plain {vi : VSlot} (hv : vi ≠ VSlot.m_v_mark_west)
    (hs : ¬ (decide (vi ≠ VSlot.m_v_background_west_left)
      && decide (vi ≠ VSlot.m_v_background_east_left)) = true) : seamAction vi = {} := by
  unfold seamAction
  rw [if_pos hv, if_neg hs]

theorem seamAction_align {vi : VSlot} (hv : vi ≠ VSlot.m_v_mark_west)
    (hs : (decide (vi ≠ VSlot.m_v_background_west_left)
      && decide (vi ≠ VSlot.m_v_background_east_left)) = true) :
    seamAction vi = { special := 181, arg0 := 1 } := by
  unfold seamAction
  rw [if_pos hv, if_pos hs]

theorem seamAction_mark {vi : VSlot} (hv : ¬ vi ≠ VSlot.m_v_mark_west) :
    seamAction vi = {} := by
  unfold seamAction
  rw [if_neg hv]

theorem Seams.extend {s0 s s1 : RoadFigure} {done rest : List VSlot} {vi : VSlot}
    {m : M RoadFigure Unit}
    (ih : ∀ s2, Seams s0 (done ++ [vi]) s2 →
      M.wlp m (fun _ s3 => Seams s0 ((done ++ [vi]) ++ rest) s3) s2)
    (h : Seams s0 done s) (h1 : Lines s s1) (l : Linedef) (hd : l.dontdraw = true)
    (ha : l.action_special = seamAction vi) :
    M.wlp (RoadFigure.addL l >>= fun _ => m)
      (fun _ s3 => Seams s0 (done ++ vi :: rest) s3) s1 := by
  have e : done ++ vi :: rest = (done ++ [vi]) ++ rest := by simp
  rw [e, M.wlp_bind]
  exact M.wlp_mono (Seams.snoc (h.of_lines h1) l vi hd ha) (fun _ s2 h2 => ih s2 h2)

set_option maxHeartbeats 1000000 in
theorem seamLines_seams {at_mark_start at_mark_end : Bool}
    {prev_sectors_ids : SSlot → Option Nat} (s0 : RoadFigure) (l : List SSlot) :
    ∀ (vs done : List VSlot) (s : RoadFigure), Seams s0 done s →
      M.wlp (CloseSectors.seamLines at_mark_start at_mark_end prev_sectors_ids l vs)
        (fun _ s1 => Seams s0 (done ++ seamStarts l vs) s1) s := by
  induction l with
  | nil =>
    intro vs done s h
    unfold CloseSectors.seamLines seamStarts
    exact (M.wlp_pure _ _ _).mpr (by rw [List.append_nil]; exact h)
  | cons sector rest ih =>
    intro vs done s h
    rcases vs with _ | ⟨vi, _ | ⟨vi1, vrest⟩⟩
    · unfold CloseSectors.seamLines seamStarts
      exact (M.wlp_pure _ _ _).mpr (by rw [List.append_nil]; exact h)
    · unfold CloseSectors.seamLines seamStarts
      exact (M.wlp_pure _ _ _).mpr (by rw [List.append_nil]; exact h)
    · have e : seamStarts (sector :: rest) (vi :: vi1 :: vrest)
          = vi :: seamStarts rest (vi1 :: vrest) := rfl
      rw [e]
      unfold CloseSectors.seamLines
      rw [M.wlp_bind]
      refine (M.wlp_read _ _).mpr ?_
      dsimp only
      have hL : Lines s s := IsRefl.refl s
      repeat' (first
        | exact Seams.extend (fun s2 h2 => ih _ _ s2 h2) h (by assumption) _ rfl
            (seamAction_align (by assumption) (by assumption)).symm
        | exact Seams.extend (fun s2 h2 => ih _ _ s2 h2) h (by assumption) _ rfl
            (seamAction_plain (by assumption) (by assumption)).symm
        | exact Seams.extend (fun s2 h2 => ih _ _ s2 h2) h (by assumption) _ rfl
            (seamAction_mark (by assumption)).symm
        | (refine M.wlp_of_pres (R := Lines) (by with_reducible first
              | exact lines_addSd | exact lines_lastS | exact lines_prevSectorId
              | exact lines_lastV | exact M.pres_update (fun _ => ⟨rfl⟩)) (by assumption) ?_
           intro _ _ _)
        | (with_reducible refine (M.wlp_ite _ _ _ _ _).mpr ⟨?_, ?_⟩ <;> intro _)
        | (with_reducible refine (M.wlp_pure _ _ _).mpr ?_)
        | (rw [M.wlp_bind]))

theorem seamStarts_eq_dropLast (have_mark : Bool) :
    seamStarts (CloseSectors.sectors have_mark) (CloseSectors.vertices have_mark)
      = (CloseSectors.vertices have_mark).dropLast := by
  cases have_mark <;> rfl

theorem Seams.sealed {s0 s1 : RoadFigure} {have_mark : Bool}
    (h : Seams s0 ([] ++ seamStarts (CloseSectors.sectors have_mark)
      (CloseSectors.vertices have_mark)) s1) :
    Seams s0 (CloseSectors.vertices have_mark).dropLast
      { s1 with m_sectors_closed := true } := by
  rw [List.nil_append, seamStarts_eq_dropLast] at h
  exact h.of_lines ⟨rfl⟩

set_option maxHeartbeats 1000000 in
theorem CloseSectors_seams (lm : Libm) (s : RoadFigure) (hc : s.m_sectors_closed = false) :
    M.wlp (CloseSectors lm) (fun _ s1 =>
      Seams s (CloseSectors.vertices (decide (s.m_mark_coord < s.m_config.sizes.road_mark_length)
        || Math.IsZeroOrCloseTo s.m_mark_coord
        || Math.IsZeroOrCloseTo (s.m_mark_coord - s.m_config.sizes.road_mark_length))).dropLast
        s1) s := by
  unfold CloseSectors
  rw [M.wlp_bind]
  refine (M.wlp_read _ _).mpr ?_
  dsimp only
  rw [hc]
  refine (M.wlp_ite _ _ _ _ _).mpr ⟨fun hx => absurd hx Bool.false_ne_true, fun _ => ?_⟩
  have hL : Lines s s := IsRefl.refl s
  repeat' (first
    | (refine M.wlp_mono (seamLines_seams s _ _ [] _
          (Seams.of_lines (Seams.none_yet s) (by assumption))) ?_
       intro _ _ hs
       exact (M.wlp_update _ _ _).mpr (Seams.sealed hs))
    | (refine M.wlp_of_pres (R := Lines) (by with_reducible first
          | exact applySlope_lines | exact recordSeamMarkVertices_lines
          | exact renewSectors_lines _ _ | exact M.pres_forEach (fun _ => snapMarkVertices_lines) _
          | exact lines_addV | exact lines_setLastV | exact M.pres_read
          | exact M.pres_pure _) (by assumption) ?_
       intro _ _ _)
    | (with_reducible refine (M.wlp_ite _ _ _ _ _).mpr ⟨?_, ?_⟩ <;> intro _)
    | (rw [M.wlp_bind]))

end RoadFigure

set_option maxRecDepth 1000000 in
/-- C35 (as stated, fails): `CloseSectors` on the example figure inside a dash of the road
mark succeeds and appends 13 seam linedefs, all with `dontdraw`; the linedef from the
west mark vertex 38 to the east mark vertex 39 lies between two body strips, not on the
sky strip, and carries no action special. -/
theorem mark_seam_linedef_has_no_special :
    exampleMarkSeamFigure.m_sectors_closed = false
    ∧ exampleMarkSeamFigure.m_mark_coord = 232
    ∧ (exampleMarkSeamFigure.m_last_ids_v VSlot.m_v_mark_west,
        exampleMarkSeamFigure.m_last_ids_v VSlot.m_v_mark_east) = (some 38, some 39)
    ∧ (RoadFigure.CloseSectors exampleLibm exampleMarkSeamFigure).1 = Except.ok ()
    ∧ ((RoadFigure.CloseSectors exampleLibm exampleMarkSeamFigure).2.m_map.linedefs.drop
        exampleMarkSeamFigure.m_map.linedefs.length).map
        (fun l => (l.v1, l.v2, l.dontdraw, l.action_special.special, l.action_special.arg0))
      = [(22, 23, true, 0, 0), (23, 26, true, 181, 1), (26, 27, true, 181, 1),
         (27, 30, true, 181, 1), (30, 31, true, 181, 1), (31, 38, true, 181, 1),
         (38, 39, true, 0, 0), (39, 32, true, 181, 1), (32, 33, true, 181, 1),
         (33, 28, true, 181, 1), (28, 29, true, 181, 1), (29, 24, true, 181, 1),
         (24, 25, true, 0, 0)] := by
  decide!

/-- C35 (amended): when `CloseSectors` succeeds on a figure whose strips are open, it
appends seam linedefs to the linedefs of the map; every one of them has `dontdraw`. With
a road mark at the seam there are 13 of them and all carry special 181 with `arg0 = 1`
except the first and the last (the sky strip) and the seventh (the linedef across the
road mark), which carry no special; without a road mark there are 11 and all but the
first and the last carry special 181 with `arg0 = 1`. -/
theorem CloseSectors_seam_linedef_flags (lm : Libm) (s s1 : RoadFigure)
    (hc : s.m_sectors_closed = false)
    (h : RoadFigure.CloseSectors lm s = (Except.ok (), s1)) (have_mark : Bool)
    (hm : have_mark = (decide (s.m_mark_coord < s.m_config.sizes.road_mark_length)
        || Math.IsZeroOrCloseTo s.m_mark_coord
        || Math.IsZeroOrCloseTo (s.m_mark_coord - s.m_config.sizes.road_mark_length))) :
    ∃ ls : List Linedef, s1.m_map.linedefs = s.m_map.linedefs ++ ls
      ∧ (∀ l ∈ ls, l.dontdraw = true)
      ∧ ls.map (fun l => l.action_special)
        = (if have_mark = true then
            [{}, { special := 181, arg0 := 1 }, { special := 181, arg0 := 1 },
             { special := 181, arg0 := 1 }, { special := 181, arg0 := 1 },
             { special := 181, arg0 := 1 }, {}, { special := 181, arg0 := 1 },
             { special := 181, arg0 := 1 }, { special := 181, arg0 := 1 },
             { special := 181, arg0 := 1 }, { special := 181, arg0 := 1 }, {}]
          else
            [{}, { special := 181, arg0 := 1 }, { special := 181, arg0 := 1 },
             { special := 181, arg0 := 1 }, { special := 181, arg0 := 1 },
             { special := 181, arg0 := 1 }, { special := 181, arg0 := 1 },
             { special := 181, arg0 := 1 }, { special := 181, arg0 := 1 },
             { special := 181, arg0 := 1 }, {}]) := by
  obtain ⟨ls, h1, h2, h3⟩ := (M.wlp_of_run (RoadFigure.CloseSectors_seams lm s hc) h).run
  refine ⟨ls, h1, h2, ?_⟩
  rw [h3, ← hm]
  cases have_mark <;> rfl

set_option maxRecDepth 1000000 in
/-- The amended C35 at the example figure inside a dash of the road mark. -/
theorem CloseSectors_seam_linedef_flags_witness :
    ∃ ls : List Linedef,
      (RoadFigure.CloseSectors exampleLibm exampleMarkSeamFigure).2.m_map.linedefs
        = exampleMarkSeamFigure.m_map.linedefs ++ ls
      ∧ (∀ l ∈ ls, l.dontdraw = true) ∧ ls.length = 13 := by
  obtain ⟨ls, h1, h2, h3⟩ := CloseSectors_seam_linedef_flags exampleLibm exampleMarkSeamFigure
    (RoadFigure.CloseSectors exampleLibm exampleMarkSeamFigure).2 (by decide!)
    (Prod.ext (by decide!) rfl) true (by decide!)
  refine ⟨ls, h1, h2, ?_⟩
  have h4 := congrArg List.length h3
  rw [List.length_map] at h4
  rw [h4]
  rfl

end SeamFlags

/-! ## C33: the height step of a line under a slope -/

section SlopeStep

open Udmf

namespace RoadFigure

theorem Raised.of_level {lm : Libm} {s s1 s2 : RoadFigure} (h : Raised lm s s1)
    (h2 : Level s1 s2) : Raised lm s s2 :=
  ⟨by rw [h2.cfg, h.cfg], by rw [h2.fp, h.fp], h.room, by rw [h2.cp, h.cp]⟩

theorem Raised.at_close {lm : Libm} {s s1 s2 : RoadFigure} (h : Raised lm s s1)
    (h2 : Level s1 s2) : Raised lm s { s2 with m_sectors_closed := true } :=
  ⟨by rw [← h.cfg, ← h2.cfg], by rw [← h.fp, ← h2.fp], h.room, by rw [← h.cp, ← h2.cp]⟩

theorem Raised.at_update {lm : Libm} {s s1 : RoadFigure} (h : Level s s1)
    (hroom : ¬ s.m_floorpos + heightDiff lm s ≥ s.m_ceilingpos - s.m_config.sizes.fence_height) :
    Raised lm s { s1 with m_floorpos := s1.m_floorpos + heightDiff lm s } :=
  ⟨h.cfg, by show s1.m_floorpos + _ = _; rw [h.fp], not_le.mp hroom, h.cp⟩

set_option maxHeartbeats 1000000 in
theorem applySlope_raised (lm : Libm) (have_mark at_mark_start : Bool) (s : RoadFigure) :
    M.wlp (CloseSectors.applySlope lm have_mark at_mark_start)
      (fun _ s1 => Raised lm s s1) s := by
  unfold CloseSectors.applySlope
  rw [M.wlp_bind]
  refine (M.wlp_read _ _).mpr ?_
  dsimp only
  have hL : Level s s := IsRefl.refl s
  repeat' (first
    | exact (M.wlp_fail _ _ _).mpr trivial
    | (refine (M.wlp_update _ _ _).mpr ?_
       exact Raised.at_update (by assumption) (by assumption))
    | (refine M.wlp_of_pres (R := Level) (by with_reducible exact level_lastS)
        (by assumption) ?_
       intro _ _ _)
    | (refine M.wlp_of_pres (R := Level) (M.pres_forEach (fun p => by
          cases p
          · exact M.pres_pure _
          · exact slopeSector_level) _) (by assumption) ?_
       intro _ _ _)
    | (with_reducible refine (M.wlp_ite _ _ _ _ _).mpr ⟨?_, ?_⟩ <;> intro _)
    | (rw [M.wlp_bind]))

set_option maxHeartbeats 1000000 in
theorem CloseSectors_raised (lm : Libm) (s : RoadFigure) (hc : s.m_sectors_closed = false)
    (ht : Math.IsZeroOrCloseTo s.m_slope_modifier.tangent = false) :
    M.wlp (CloseSectors lm) (fun _ s1 => Raised lm s s1) s := by
  unfold CloseSectors
  rw [M.wlp_bind]
  refine (M.wlp_read _ _).mpr ?_
  dsimp only
  rw [hc, ht]
  refine (M.wlp_ite _ _ _ _ _).mpr ⟨fun hx => absurd hx Bool.false_ne_true, fun _ => ?_⟩
  refine (M.wlp_ite _ _ _ _ _).mpr ⟨fun _ => ?_, fun hx => absurd rfl hx⟩
  rw [M.wlp_bind]
  refine M.wlp_mono (applySlope_raised lm _ _ s) ?_
  intro _ s1 h1
  have hL : Level s1 s1 := IsRefl.refl s1
  repeat' (first
    | (refine (M.wlp_update _ _ _).mpr ?_
       exact Raised.at_close h1 (by assumption))
    | (refine M.wlp_of_pres (R := Level) (by with_reducible first
          | exact recordSeamMarkVertices_level | exact renewSectors_level _ _
          | exact seamLines_level _ _
          | exact M.pres_forEach (fun _ => snapMarkVertices_level) _
          | exact level_addV | exact level_setLastV | exact M.pres_read
          | exact M.pres_pure _) (by assumption) ?_
       intro _ _ _)
    | (with_reducible refine (M.wlp_ite _ _ _ _ _).mpr ⟨?_, ?_⟩ <;> intro _)
    | (rw [M.wlp_bind]))

set_option maxHeartbeats 1000000 in
theorem Line_raised (lm : Libm) (line : LineData) (s : RoadFigure)
    (ht : Math.IsZeroOrCloseTo s.m_slope_modifier.tangent = false) :
    M.wlp (Line lm line) (fun _ s1 =>
      s1.m_config = s.m_config ∧ s1.m_ceilingpos = s.m_ceilingpos
      ∧ s1.m_floorpos = s.m_floorpos + Math.truncToInt (s.m_slope_modifier.tangent
          * (s.m_v_null.GetMoved (line.length * lm.cos s.m_angle)
              (line.length * lm.sin s.m_angle)).GetDistanceTo lm s.m_v_null)
      ∧ s.m_floorpos + Math.truncToInt (s.m_slope_modifier.tangent
          * (s.m_v_null.GetMoved (line.length * lm.cos s.m_angle)
              (line.length * lm.sin s.m_angle)).GetDistanceTo lm s.m_v_null)
        < s.m_ceilingpos - s.m_config.sizes.fence_height) s := by
  unfold Line SetNullVertex
  rw [M.wlp_bind]
  refine (M.wlp_read _ _).mpr ?_
  dsimp only
  refine (M.wlp_ite _ _ _ _ _).mpr ⟨fun _ => (M.wlp_fail _ _ _).mpr trivial, fun _ => ?_⟩
  refine (M.wlp_ite _ _ _ _ _).mpr ⟨fun _ => (M.wlp_fail _ _ _).mpr trivial, fun _ => ?_⟩
  rw [ht]
  simp only [M.wlp_bind]
  refine M.wlp_of_pres ExtendBackground_level (IsRefl.refl s) ?_
  intro _ s1 h1
  refine M.wlp_of_pres ExtendFence_level h1 ?_
  intro _ s2 h2
  refine M.wlp_of_pres ExtendBody_level h2 ?_
  intro _ s3 h3
  refine M.wlp_of_pres ExtendMark_level h3 ?_
  intro _ s4 h4
  refine (M.wlp_update _ _ _).mpr ?_
  refine (M.wlp_update _ _ _).mpr ?_
  refine (M.wlp_ite _ _ _ _ _).mpr ⟨fun _ => ?_, fun hx => absurd rfl hx⟩
  rw [M.wlp_bind]
  refine M.wlp_mono (CloseSectors_raised lm _ rfl
    (by show Math.IsZeroOrCloseTo s4.m_slope_modifier.tangent = false; rw [h4.slope]; exact ht))
    ?_
  intro _ s7 h7
  refine (M.wlp_update _ _ _).mpr ?_
  have e := h7.fp
  have r := h7.room
  unfold heightDiff at e r
  dsimp only at e r
  rw [h4.slope, h4.null, h4.fp] at e
  rw [h4.slope, h4.null, h4.fp, h4.cp, h4.cfg] at r
  exact ⟨h7.cfg.trans h4.cfg, h7.cp.trans h4.cp, e, r⟩

/-- The slope step of an accepted `Line`: on a figure
that satisfies `Heights` and has a pending tangent not close to zero, when the two null
vertices are `line.length` apart, an accepted `Line` moves `m_floorpos` and the floor of
every sector template by `(int)(tangent * line.length)`, and the new floor is strictly
below `m_ceilingpos - fence_height`. -/
theorem Line_slope_height_delta (lm : Libm) (line : LineData) (s s1 : RoadFigure)
    (hs : Heights s) (ht : Math.IsZeroOrCloseTo s.m_slope_modifier.tangent = false)
    (hdist : (s.m_v_null.GetMoved (line.length * lm.cos s.m_angle)
      (line.length * lm.sin s.m_angle)).GetDistanceTo lm s.m_v_null = line.length)
    (h : Line lm line s = (Except.ok (), s1)) :
    s1.m_floorpos
        = s.m_floorpos + Math.truncToInt (s.m_slope_modifier.tangent * line.length)
    ∧ (∀ slot, (s1.m_s slot).heightfloor
        = (s.m_s slot).heightfloor
          + Math.truncToInt (s.m_slope_modifier.tangent * line.length))
    ∧ s.m_floorpos + Math.truncToInt (s.m_slope_modifier.tangent * line.length)
        < s.m_ceilingpos - s.m_config.sizes.fence_height := by
  obtain ⟨h1, _, h3, h4⟩ := M.wlp_of_run (Line_raised lm line s ht) h
  have hs1 : Heights s1 := M.wlp_of_run (Line_heights lm line s hs) h
  rw [hdist] at h3 h4
  refine ⟨h3, fun slot => ?_, h4⟩
  rw [hs1.lock.floor slot, hs.lock.floor slot, h3, h1]
  omega

theorem exampleRampFigure_heights : Heights exampleRampFigure := by
  have h0 : Heights exampleNewFigure :=
    Heights_new defaultRoadConfig { height := 1024 } exampleMap (some {}) (by decide)
      (by decide) (fun sec hsec => absurd hsec (List.not_mem_nil sec))
  have h1 : Heights exampleStartedFigure :=
    M.wlp_of_run (Start_heights exampleLibm exampleNewFigure h0)
      (a := ()) (Prod.ext (by decide!) rfl)
  exact M.wlp_of_run (SlopeModifier_heights exampleLibm { tangent := 1 / 2 }
    exampleStartedFigure h1) (a := ()) (Prod.ext (by decide!) rfl)

set_option maxRecDepth 1000000 in
/-- The slope step at the example figure with tangent 1/2: `Line(5)` raises the floor
position and the floor of the body template by `(int)(2.5) = 2`. -/
theorem Line_slope_height_delta_example :
    (RoadFigure.Line exampleLibm { length := 5 } exampleRampFigure).2.m_floorpos
        = exampleRampFigure.m_floorpos + 2
    ∧ (((RoadFigure.Line exampleLibm { length := 5 } exampleRampFigure).2.m_s
          SSlot.m_s_body).heightfloor
        = (exampleRampFigure.m_s SSlot.m_s_body).heightfloor + 2) := by
  obtain ⟨h1, h2, _⟩ := Line_slope_height_delta exampleLibm { length := 5 } exampleRampFigure
    (RoadFigure.Line exampleLibm { length := 5 } exampleRampFigure).2
    exampleRampFigure_heights (by decide!) (by decide!) (Prod.ext (by decide!) rfl)
  have e : Math.truncToInt (exampleRampFigure.m_slope_modifier.tangent
      * ({ length := 5 } : LineData).length) = 2 := by decide!
  rw [e] at h1 h2
  exact ⟨h1, h2 SSlot.m_s_body⟩

end RoadFigure

set_option maxRecDepth 1000000 in
/-- C33 (the example of the claim against the code): on the started example figure with
the pending tangent 1/2 and floor 0, `Line(3)` passes the length guard but is refused by
`ExtendMark` with "too small mark", and the command list with two such lines is refused
as a whole, so the floor is never raised by `1 + 1 = 2`. With lines of length 5 the step
is accepted and each line raises the floor by `(int)(2.5) = 2`: 0, 2, 4. -/
theorem slope_lines_of_length_three_are_refused :
    exampleRampFigure.m_slope_modifier.tangent = 1 / 2
    ∧ exampleRampFigure.m_floorpos = 0
    ∧ exampleRampFigure.m_started_drawing = true
    ∧ Math.truncToInt ((1 / 2 : ℚ) * 3) = 1
    ∧ (RoadFigure.Line exampleLibm { length := 3 } exampleRampFigure).1
        = Except.error Err.markTooSmall
    ∧ (GetGeneratedRoad exampleLibm exampleShortRampRoad defaultRoadConfig).1
        = Except.error Err.markTooSmall
    ∧ (RoadFigure.Line exampleLibm { length := 5 } exampleRampFigure).1 = Except.ok ()
    ∧ (RoadFigure.Line exampleLibm { length := 5 } exampleRampFigure).2.m_floorpos = 2
    ∧ (RoadFigure.Line exampleLibm { length := 5 }
        (RoadFigure.Line exampleLibm { length := 5 } exampleRampFigure).2).1 = Except.ok ()
    ∧ (RoadFigure.Line exampleLibm { length := 5 }
        (RoadFigure.Line exampleLibm { length := 5 } exampleRampFigure).2).2.m_floorpos = 4 := by
  decide!

end SlopeStep

end RoadGen
